import Mathlib

/-!
Shallow embedding of the resource-pool / instrument-manager core of the
BambooTracker source tree (instruments_manager.cpp, envelope_fm.cpp) and of
selected parts of opna_controller.cpp, together with theorems settling the
specification's claims about them.

Conventions of the embedding:
* C++ `std::array<T,128>` pools become functions `Nat → Slot τ`; only indices
  below 128 are ever meaningful.
* The per-slot container of using instruments is modelled from the spec
  (the class implementation is not among the given sources) as a `Finset ℕ`:
  the spec calls it a "reference set of instrument numbers currently using it".
* Machine integers are `Int`/`Nat`; where C++ overflow or truncation matters
  it is written out explicitly (`% 2 ^ 64`, `% 256`).
-/

namespace BT

/-- Sound source tag of an instrument (misc.hpp). -/
inductive SoundSource
  | FM | SSG | DRUM | ADPCM
  deriving DecidableEq, Repr

/-- FM envelope parameter enum (instrument declarations). -/
inductive FMEnvelopeParameter
  | AL | FB
  | AR1 | DR1 | SR1 | RR1 | SL1 | TL1 | KS1 | ML1 | DT1 | SSGEG1
  | AR2 | DR2 | SR2 | RR2 | SL2 | TL2 | KS2 | ML2 | DT2 | SSGEG2
  | AR3 | DR3 | SR3 | RR3 | SL3 | TL3 | KS3 | ML3 | DT3 | SSGEG3
  | AR4 | DR4 | SR4 | RR4 | SL4 | TL4 | KS4 | ML4 | DT4 | SSGEG4
  deriving DecidableEq, Repr

/-- FM operator-group selector (instrument declarations). -/
inductive FMOperatorType
  | All | Op1 | Op2 | Op3 | Op4
  deriving DecidableEq, Repr

open FMEnvelopeParameter FMOperatorType in
/-- The 38 envelope parameters iterated by `InstrumentsManager` for operator
sequences (`envFMParams_`, instruments_manager.cpp lines 143-182). -/
def envFMParams : List FMEnvelopeParameter :=
  [AL, FB,
   AR1, DR1, SR1, RR1, SL1, TL1, KS1, ML1, DT1,
   AR2, DR2, SR2, RR2, SL2, TL2, KS2, ML2, DT2,
   AR3, DR3, SR3, RR3, SL3, TL3, KS3, ML3, DT3,
   AR4, DR4, SR4, RR4, SL4, TL4, KS4, ML4, DT4]

/-- The operator-group list `fmOpTypes_` (instruments_manager.cpp). -/
def fmOpTypes : List FMOperatorType :=
  [.All, .Op1, .Op2, .Op3, .Op4]

/-- One operator of an FM envelope (`EnvelopeFM::FMOperator`). -/
structure FMOperator where
  enabled : Bool
  ar : Int
  dr : Int
  sr : Int
  rr : Int
  sl : Int
  tl : Int
  ks : Int
  ml : Int
  dt : Int
  ssgeg : Int
  deriving DecidableEq, Repr

/-- Modelled from the spec: the factory-default FM operator `EnvelopeFM::DEF_OP`
(envelope_fm.hpp is not among the given sources; the concrete numbers are
not relied on by any theorem). -/
def DEF_OP : Fin 4 → FMOperator :=
  fun _ => ⟨true, 31, 0, 0, 7, 0, 0, 0, 0, 0, -1⟩

/-- Modelled from the spec: factory-default algorithm value `EnvelopeFM::DEF_AL`. -/
def DEF_AL : Int := 4

/-- Modelled from the spec: factory-default feedback value `EnvelopeFM::DEF_FB`. -/
def DEF_FB : Int := 0

/-- FM envelope payload (envelope_fm.cpp). -/
structure EnvelopeFM where
  al : Int
  fb : Int
  op : Fin 4 → FMOperator

instance : DecidableEq EnvelopeFM := fun a b =>
  decidable_of_iff (a.al = b.al ∧ a.fb = b.fb ∧ ∀ i : Fin 4, a.op i = b.op i)
    (by cases a; cases b; simp [EnvelopeFM.mk.injEq, funext_iff])

/-- Factory-default FM envelope: the state set by `EnvelopeFM::clearParameters`. -/
def defaultEnvelopeFM : EnvelopeFM := ⟨DEF_AL, DEF_FB, DEF_OP⟩

/-- The `clearParameters` member of `EnvelopeFM` (envelope_fm.cpp lines 126-133). -/
def EnvelopeFM.clearParameters (_e : EnvelopeFM) : EnvelopeFM := defaultEnvelopeFM

/-- The `isEdited` member of `EnvelopeFM` (envelope_fm.cpp lines 107-124); note
that the source compares every operator field except `ssgeg_`. -/
def EnvelopeFM.isEdited (e : EnvelopeFM) : Bool :=
  e.al != DEF_AL || e.fb != DEF_FB ||
  (List.finRange 4).any (fun i =>
    let o := e.op i
    let d := DEF_OP i
    o.enabled != d.enabled || o.ar != d.ar || o.dr != d.dr || o.sr != d.sr ||
    o.rr != d.rr || o.sl != d.sl || o.tl != d.tl || o.ks != d.ks ||
    o.ml != d.ml || o.dt != d.dt)

/-- The `getParameterValue` member of `EnvelopeFM`, through `paramMap_`
(envelope_fm.cpp lines 12-58 and 97-100). -/
def EnvelopeFM.getParameterValue (e : EnvelopeFM) : FMEnvelopeParameter → Int
  | .AL => e.al
  | .FB => e.fb
  | .AR1 => (e.op 0).ar
  | .DR1 => (e.op 0).dr
  | .SR1 => (e.op 0).sr
  | .RR1 => (e.op 0).rr
  | .SL1 => (e.op 0).sl
  | .TL1 => (e.op 0).tl
  | .KS1 => (e.op 0).ks
  | .ML1 => (e.op 0).ml
  | .DT1 => (e.op 0).dt
  | .SSGEG1 => (e.op 0).ssgeg
  | .AR2 => (e.op 1).ar
  | .DR2 => (e.op 1).dr
  | .SR2 => (e.op 1).sr
  | .RR2 => (e.op 1).rr
  | .SL2 => (e.op 1).sl
  | .TL2 => (e.op 1).tl
  | .KS2 => (e.op 1).ks
  | .ML2 => (e.op 1).ml
  | .DT2 => (e.op 1).dt
  | .SSGEG2 => (e.op 1).ssgeg
  | .AR3 => (e.op 2).ar
  | .DR3 => (e.op 2).dr
  | .SR3 => (e.op 2).sr
  | .RR3 => (e.op 2).rr
  | .SL3 => (e.op 2).sl
  | .TL3 => (e.op 2).tl
  | .KS3 => (e.op 2).ks
  | .ML3 => (e.op 2).ml
  | .DT3 => (e.op 2).dt
  | .SSGEG3 => (e.op 2).ssgeg
  | .AR4 => (e.op 3).ar
  | .DR4 => (e.op 3).dr
  | .SR4 => (e.op 3).sr
  | .RR4 => (e.op 3).rr
  | .SL4 => (e.op 3).sl
  | .TL4 => (e.op 3).tl
  | .KS4 => (e.op 3).ks
  | .ML4 => (e.op 3).ml
  | .DT4 => (e.op 3).dt
  | .SSGEG4 => (e.op 3).ssgeg

/-- Helper updating one operator record of an envelope. -/
def EnvelopeFM.withOp (e : EnvelopeFM) (i : Fin 4) (f : FMOperator → FMOperator) :
    EnvelopeFM :=
  { e with op := Function.update e.op i (f (e.op i)) }

/-- The `setParameterValue` member of `EnvelopeFM`, through `paramMap_`. -/
def EnvelopeFM.setParameterValue (e : EnvelopeFM) (p : FMEnvelopeParameter) (v : Int) :
    EnvelopeFM :=
  match p with
  | .AL => { e with al := v }
  | .FB => { e with fb := v }
  | .AR1 => e.withOp 0 (fun o => { o with ar := v })
  | .DR1 => e.withOp 0 (fun o => { o with dr := v })
  | .SR1 => e.withOp 0 (fun o => { o with sr := v })
  | .RR1 => e.withOp 0 (fun o => { o with rr := v })
  | .SL1 => e.withOp 0 (fun o => { o with sl := v })
  | .TL1 => e.withOp 0 (fun o => { o with tl := v })
  | .KS1 => e.withOp 0 (fun o => { o with ks := v })
  | .ML1 => e.withOp 0 (fun o => { o with ml := v })
  | .DT1 => e.withOp 0 (fun o => { o with dt := v })
  | .SSGEG1 => e.withOp 0 (fun o => { o with ssgeg := v })
  | .AR2 => e.withOp 1 (fun o => { o with ar := v })
  | .DR2 => e.withOp 1 (fun o => { o with dr := v })
  | .SR2 => e.withOp 1 (fun o => { o with sr := v })
  | .RR2 => e.withOp 1 (fun o => { o with rr := v })
  | .SL2 => e.withOp 1 (fun o => { o with sl := v })
  | .TL2 => e.withOp 1 (fun o => { o with tl := v })
  | .KS2 => e.withOp 1 (fun o => { o with ks := v })
  | .ML2 => e.withOp 1 (fun o => { o with ml := v })
  | .DT2 => e.withOp 1 (fun o => { o with dt := v })
  | .SSGEG2 => e.withOp 1 (fun o => { o with ssgeg := v })
  | .AR3 => e.withOp 2 (fun o => { o with ar := v })
  | .DR3 => e.withOp 2 (fun o => { o with dr := v })
  | .SR3 => e.withOp 2 (fun o => { o with sr := v })
  | .RR3 => e.withOp 2 (fun o => { o with rr := v })
  | .SL3 => e.withOp 2 (fun o => { o with sl := v })
  | .TL3 => e.withOp 2 (fun o => { o with tl := v })
  | .KS3 => e.withOp 2 (fun o => { o with ks := v })
  | .ML3 => e.withOp 2 (fun o => { o with ml := v })
  | .DT3 => e.withOp 2 (fun o => { o with dt := v })
  | .SSGEG3 => e.withOp 2 (fun o => { o with ssgeg := v })
  | .AR4 => e.withOp 3 (fun o => { o with ar := v })
  | .DR4 => e.withOp 3 (fun o => { o with dr := v })
  | .SR4 => e.withOp 3 (fun o => { o with sr := v })
  | .RR4 => e.withOp 3 (fun o => { o with rr := v })
  | .SL4 => e.withOp 3 (fun o => { o with sl := v })
  | .TL4 => e.withOp 3 (fun o => { o with tl := v })
  | .KS4 => e.withOp 3 (fun o => { o with ks := v })
  | .ML4 => e.withOp 3 (fun o => { o with ml := v })
  | .DT4 => e.withOp 3 (fun o => { o with dt := v })
  | .SSGEG4 => e.withOp 3 (fun o => { o with ssgeg := v })

/-- The free `operator==(const EnvelopeFM&, const EnvelopeFM&)` of
envelope_fm.cpp lines 72-78, embedded faithfully: the loop runs `i` over
0..3 but each iteration compares `a.op_[0]` with `b.op_[0]`, so operators
1 to 3 are never compared. -/
def envelopeFMEq (a b : EnvelopeFM) : Bool :=
  if a.al != b.al || a.fb != b.fb then false
  else (List.range 4).all (fun _ => a.op 0 == b.op 0)

/-- Sequence-value interpretation tag `SequenceType` (misc.hpp declarations). -/
inductive SequenceType
  | NO_SEQUENCE_TYPE | FIXED_SEQUENCE | ABSOLUTE_SEQUENCE | RELATIVE_SEQUENCE
  deriving DecidableEq, Repr

/-- Macro sequence step; `CommandSequenceUnit` of the sequence declarations. -/
structure CommandSequenceUnit where
  type : Int
  data : Int
  deriving DecidableEq, Repr

/-- Loop region of a macro sequence. -/
structure Loop where
  lbegin : Int
  lend : Int
  times : Int
  deriving DecidableEq, Repr

/-- Release kind of a macro sequence. -/
inductive ReleaseType
  | NoRelease | FixedRelease | AbsoluteRelease | RelativeRelease
  deriving DecidableEq, Repr

/-- Release marker of a macro sequence. -/
structure Release where
  rtype : ReleaseType
  rbegin : Int
  deriving DecidableEq, Repr

/-- Modelled from the spec: the macro-sequence payload `CommandSequence`
(its implementation file is not among the given sources; the spec describes
an ordered step list, disjoint loop regions and an optional release marker,
plus a sequence-type tag). -/
structure CommandSequence where
  seqType : SequenceType
  sequence : List CommandSequenceUnit
  loops : List Loop
  release : Release
  deriving DecidableEq, Repr

/-- Modelled from the spec: the state a `CommandSequence` is constructed with,
given its constructor arguments (sequence type and initial step data). -/
def CommandSequence.mkDefault (t : SequenceType) (initData : Int) : CommandSequence :=
  ⟨t, [⟨0, initData⟩], [], ⟨.NoRelease, -1⟩⟩

/-- Modelled from the spec: the FM LFO payload `LFOFM` (implementation not
among the given sources; only value equality and an edited test matter here). -/
structure LFOFM where
  freq : Int
  pms : Int
  ams : Int
  amOp : Fin 4 → Bool
  count : Int

instance : DecidableEq LFOFM := fun a b =>
  decidable_of_iff
    (a.freq = b.freq ∧ a.pms = b.pms ∧ a.ams = b.ams ∧
      (∀ i : Fin 4, a.amOp i = b.amOp i) ∧ a.count = b.count)
    (by cases a; cases b; simp [LFOFM.mk.injEq, funext_iff])

/-- Modelled from the spec: factory-default LFO payload. -/
def defaultLFOFM : LFOFM := ⟨0, 0, 0, fun _ => false, 0⟩

/-- Modelled from the spec: the ADPCM waveform payload `WaveformADPCM`
(implementation not among the given sources). -/
structure WaveformADPCM where
  rootKeyNum : Int
  rootDeltaN : Int
  repeatEnabled : Bool
  samples : List Nat
  startAddress : Nat
  stopAddress : Nat
  deriving DecidableEq, Repr

/-- Modelled from the spec: factory-default ADPCM waveform payload. -/
def defaultWaveformADPCM : WaveformADPCM := ⟨60, 0, false, [], 0, 0⟩

/-- One pool slot: a property payload together with the set of instrument
numbers currently using it.  The container is modelled from the spec as a
set ("a reference set of instrument numbers currently using it"); the class
implementing it is not among the given sources. -/
structure Slot (π : Type) where
  payload : π
  users : Finset ℕ

/-- A 128-entry property pool; only indices below 128 are meaningful. -/
def Pool (π : Type) := Nat → Slot π

/-- Modelled from the spec: `AbstractInstrumentProperty::isUserInstrument`,
true when the reference set is non-empty. -/
def Slot.isUserInstrument (sl : Slot π) : Bool := decide (sl.users ≠ ∅)

/-- Modelled from the spec: `registerUserInstrument` adds an instrument
number to the slot's reference set. -/
def Pool.registerUser (pool : Pool π) (s : Nat) (i : ℕ) : Pool π :=
  Function.update pool s ⟨(pool s).payload, insert i (pool s).users⟩

/-- Modelled from the spec: `deregisterUserInstrument` removes an instrument
number from the slot's reference set. -/
def Pool.deregisterUser (pool : Pool π) (s : Nat) (i : ℕ) : Pool π :=
  Function.update pool s ⟨(pool s).payload, (pool s).users.erase i⟩

/-- Replace the payload of one slot, keeping its reference set. -/
def Pool.setPayload (pool : Pool π) (s : Nat) (f : π → π) : Pool π :=
  Function.update pool s ⟨f (pool s).payload, (pool s).users⟩

/-- The qualification test of the `findFirstAssignable` family
(instruments_manager.cpp, e.g. lines 1032-1043): under the regard-unedited
policy a slot is skipped when it is in use or edited, under the strict
policy only when it is in use. -/
def assignCond (regard : Bool) (edited : π → Bool) (sl : Slot π) : Bool :=
  if regard then sl.isUserInstrument || edited sl.payload else sl.isUserInstrument

/-- The `findFirstAssignable` scan: first non-qualifying index of the
128-entry pool, `none` when every slot qualifies; under the strict policy
the parameters of the found slot are cleared. -/
def Pool.findFirstAssignable (pool : Pool π) (regard : Bool) (edited : π → Bool)
    (clear : π → π) : Option Nat × Pool π :=
  match (List.range 128).find? (fun s => !assignCond regard edited (pool s)) with
  | none => (none, pool)
  | some s => (some s, if regard then pool else pool.setPayload s clear)

/-- The clone-into-fresh-slot scan of the `cloneFMEnvelope` family
(instruments_manager.cpp lines 536-548): the first slot with an empty
reference set receives a copy of the source payload with its reference set
cleared; when no slot is free the index 128 is returned and the pool is
left unchanged (in the C++ source the subsequent slot access is then out
of bounds). -/
def Pool.cloneProp (pool : Pool π) (srcNum : Nat) : Nat × Pool π :=
  match (List.range 128).find? (fun s => !(pool s).isUserInstrument) with
  | some s => (s, Function.update pool s ⟨(pool srcNum).payload, ∅⟩)
  | none => (128, pool)

/-- FM instrument data (`InstrumentFM` of instrument.hpp; only the slot
indices, enable flags and name are relevant to the manager). -/
structure InstrumentFM where
  name : String
  envelopeNumber : Nat
  lfoNumber : Nat
  lfoEnabled : Bool
  opSeqNumber : FMEnvelopeParameter → Nat
  opSeqEnabled : FMEnvelopeParameter → Bool
  arpNumber : FMOperatorType → Nat
  arpEnabled : FMOperatorType → Bool
  ptNumber : FMOperatorType → Nat
  ptEnabled : FMOperatorType → Bool
  envResetEnabled : FMOperatorType → Bool

/-- SSG instrument data (`InstrumentSSG`). -/
structure InstrumentSSG where
  name : String
  waveformNumber : Nat
  waveformEnabled : Bool
  toneNoiseNumber : Nat
  toneNoiseEnabled : Bool
  envelopeNumber : Nat
  envelopeEnabled : Bool
  arpeggioNumber : Nat
  arpeggioEnabled : Bool
  pitchNumber : Nat
  pitchEnabled : Bool

/-- ADPCM instrument data (`InstrumentADPCM`); the waveform reference has no
enable flag (it is always enabled). -/
structure InstrumentADPCM where
  name : String
  waveformNumber : Nat
  envelopeNumber : Nat
  envelopeEnabled : Bool
  arpeggioNumber : Nat
  arpeggioEnabled : Bool
  pitchNumber : Nat
  pitchEnabled : Bool

/-- The instrument variant stored in the manager's table. -/
inductive AbstractInstrument
  | fm (i : InstrumentFM)
  | ssg (i : InstrumentSSG)
  | adpcm (i : InstrumentADPCM)

/-- Sound source of a stored instrument (`AbstractInstrument::getSoundSource`). -/
def AbstractInstrument.getSoundSource : AbstractInstrument → SoundSource
  | .fm _ => .FM
  | .ssg _ => .SSG
  | .adpcm _ => .ADPCM

/-- Name of a stored instrument (`AbstractInstrument::getName`). -/
def AbstractInstrument.getName : AbstractInstrument → String
  | .fm i => i.name
  | .ssg i => i.name
  | .adpcm i => i.name

/-- The state of `InstrumentsManager`: the instrument table and every
property pool (instruments_manager.hpp). -/
structure InstrumentsManager where
  regardingUnedited : Bool
  insts : Nat → Option AbstractInstrument
  envFM : Pool EnvelopeFM
  lfoFM : Pool LFOFM
  opSeqFM : FMEnvelopeParameter → Pool CommandSequence
  arpFM : Pool CommandSequence
  ptFM : Pool CommandSequence
  wfSSG : Pool CommandSequence
  tnSSG : Pool CommandSequence
  envSSG : Pool CommandSequence
  arpSSG : Pool CommandSequence
  ptSSG : Pool CommandSequence
  wfADPCM : Pool WaveformADPCM
  envADPCM : Pool CommandSequence
  arpADPCM : Pool CommandSequence
  ptADPCM : Pool CommandSequence

/-- Construction defaults of each command-sequence pool, as set up by
`InstrumentsManager::clearAll` (instruments_manager.cpp lines 801-829). -/
def defaultOpSeqFM : CommandSequence := CommandSequence.mkDefault .NO_SEQUENCE_TYPE 0

/-- Default payload of the FM arpeggio pool. -/
def defaultArpFM : CommandSequence := CommandSequence.mkDefault .ABSOLUTE_SEQUENCE 48

/-- Default payload of the FM pitch pool. -/
def defaultPtFM : CommandSequence := CommandSequence.mkDefault .ABSOLUTE_SEQUENCE 127

/-- Default payload of the SSG waveform pool. -/
def defaultWfSSG : CommandSequence := CommandSequence.mkDefault .NO_SEQUENCE_TYPE 0

/-- Default payload of the SSG tone/noise pool. -/
def defaultTnSSG : CommandSequence := CommandSequence.mkDefault .NO_SEQUENCE_TYPE 0

/-- Default payload of the SSG envelope pool. -/
def defaultEnvSSG : CommandSequence := CommandSequence.mkDefault .NO_SEQUENCE_TYPE 15

/-- Default payload of the SSG arpeggio pool. -/
def defaultArpSSG : CommandSequence := CommandSequence.mkDefault .ABSOLUTE_SEQUENCE 48

/-- Default payload of the SSG pitch pool. -/
def defaultPtSSG : CommandSequence := CommandSequence.mkDefault .ABSOLUTE_SEQUENCE 127

/-- Default payload of the ADPCM envelope pool. -/
def defaultEnvADPCM : CommandSequence := CommandSequence.mkDefault .NO_SEQUENCE_TYPE 255

/-- Default payload of the ADPCM arpeggio pool. -/
def defaultArpADPCM : CommandSequence := CommandSequence.mkDefault .ABSOLUTE_SEQUENCE 48

/-- Default payload of the ADPCM pitch pool. -/
def defaultPtADPCM : CommandSequence := CommandSequence.mkDefault .ABSOLUTE_SEQUENCE 127

/-- A pool filled with fresh slots carrying the given payload. -/
def freshPool (p : π) : Pool π := fun _ => ⟨p, ∅⟩

/-- `InstrumentsManager::InstrumentsManager(bool unedited)` followed by
`clearAll`: the initial manager state. -/
def InstrumentsManager.mkInit (unedited : Bool) : InstrumentsManager where
  regardingUnedited := unedited
  insts := fun _ => none
  envFM := freshPool defaultEnvelopeFM
  lfoFM := freshPool defaultLFOFM
  opSeqFM := fun _ => freshPool defaultOpSeqFM
  arpFM := freshPool defaultArpFM
  ptFM := freshPool defaultPtFM
  wfSSG := freshPool defaultWfSSG
  tnSSG := freshPool defaultTnSSG
  envSSG := freshPool defaultEnvSSG
  arpSSG := freshPool defaultArpSSG
  ptSSG := freshPool defaultPtSSG
  wfADPCM := freshPool defaultWaveformADPCM
  envADPCM := freshPool defaultEnvADPCM
  arpADPCM := freshPool defaultArpADPCM
  ptADPCM := freshPool defaultPtADPCM

namespace InstrumentsManager

/-- Modelled from the spec: the edited test of a command-sequence slot,
relative to its pool's construction default (the spec describes an edited
flag meaning "has ever been modified from factory default"). -/
def cmdSeqEdited (dft : CommandSequence) (c : CommandSequence) : Bool := c != dft

/-- `findFirstAssignableEnvelopeFM` (instruments_manager.cpp lines 1032-1043). -/
def findFirstAssignableEnvelopeFM (m : InstrumentsManager) :
    Option Nat × InstrumentsManager :=
  let r := m.envFM.findFirstAssignable m.regardingUnedited
    EnvelopeFM.isEdited EnvelopeFM.clearParameters
  (r.1, { m with envFM := r.2 })

/-- `findFirstAssignableLFOFM`. -/
def findFirstAssignableLFOFM (m : InstrumentsManager) :
    Option Nat × InstrumentsManager :=
  let r := m.lfoFM.findFirstAssignable m.regardingUnedited
    (fun l => l != defaultLFOFM) (fun _ => defaultLFOFM)
  (r.1, { m with lfoFM := r.2 })

/-- `findFirstAssignableOperatorSequenceFM`. -/
def findFirstAssignableOperatorSequenceFM (m : InstrumentsManager)
    (p : FMEnvelopeParameter) : Option Nat × InstrumentsManager :=
  let r := (m.opSeqFM p).findFirstAssignable m.regardingUnedited
    (cmdSeqEdited defaultOpSeqFM) (fun _ => defaultOpSeqFM)
  (r.1, { m with opSeqFM := Function.update m.opSeqFM p r.2 })

/-- `findFirstAssignableArpeggioFM`. -/
def findFirstAssignableArpeggioFM (m : InstrumentsManager) :
    Option Nat × InstrumentsManager :=
  let r := m.arpFM.findFirstAssignable m.regardingUnedited
    (cmdSeqEdited defaultArpFM) (fun _ => defaultArpFM)
  (r.1, { m with arpFM := r.2 })

/-- `findFirstAssignablePitchFM`. -/
def findFirstAssignablePitchFM (m : InstrumentsManager) :
    Option Nat × InstrumentsManager :=
  let r := m.ptFM.findFirstAssignable m.regardingUnedited
    (cmdSeqEdited defaultPtFM) (fun _ => defaultPtFM)
  (r.1, { m with ptFM := r.2 })

/-- `findFirstAssignableWaveformSSG`. -/
def findFirstAssignableWaveformSSG (m : InstrumentsManager) :
    Option Nat × InstrumentsManager :=
  let r := m.wfSSG.findFirstAssignable m.regardingUnedited
    (cmdSeqEdited defaultWfSSG) (fun _ => defaultWfSSG)
  (r.1, { m with wfSSG := r.2 })

/-- `findFirstAssignableToneNoiseSSG`. -/
def findFirstAssignableToneNoiseSSG (m : InstrumentsManager) :
    Option Nat × InstrumentsManager :=
  let r := m.tnSSG.findFirstAssignable m.regardingUnedited
    (cmdSeqEdited defaultTnSSG) (fun _ => defaultTnSSG)
  (r.1, { m with tnSSG := r.2 })

/-- `findFirstAssignableEnvelopeSSG`. -/
def findFirstAssignableEnvelopeSSG (m : InstrumentsManager) :
    Option Nat × InstrumentsManager :=
  let r := m.envSSG.findFirstAssignable m.regardingUnedited
    (cmdSeqEdited defaultEnvSSG) (fun _ => defaultEnvSSG)
  (r.1, { m with envSSG := r.2 })

/-- `findFirstAssignableArpeggioSSG`. -/
def findFirstAssignableArpeggioSSG (m : InstrumentsManager) :
    Option Nat × InstrumentsManager :=
  let r := m.arpSSG.findFirstAssignable m.regardingUnedited
    (cmdSeqEdited defaultArpSSG) (fun _ => defaultArpSSG)
  (r.1, { m with arpSSG := r.2 })

/-- `findFirstAssignablePitchSSG`. -/
def findFirstAssignablePitchSSG (m : InstrumentsManager) :
    Option Nat × InstrumentsManager :=
  let r := m.ptSSG.findFirstAssignable m.regardingUnedited
    (cmdSeqEdited defaultPtSSG) (fun _ => defaultPtSSG)
  (r.1, { m with ptSSG := r.2 })

/-- `findFirstAssignableWaveformADPCM`. -/
def findFirstAssignableWaveformADPCM (m : InstrumentsManager) :
    Option Nat × InstrumentsManager :=
  let r := m.wfADPCM.findFirstAssignable m.regardingUnedited
    (fun w => w != defaultWaveformADPCM) (fun _ => defaultWaveformADPCM)
  (r.1, { m with wfADPCM := r.2 })

/-- `findFirstAssignableEnvelopeADPCM`. -/
def findFirstAssignableEnvelopeADPCM (m : InstrumentsManager) :
    Option Nat × InstrumentsManager :=
  let r := m.envADPCM.findFirstAssignable m.regardingUnedited
    (cmdSeqEdited defaultEnvADPCM) (fun _ => defaultEnvADPCM)
  (r.1, { m with envADPCM := r.2 })

/-- `findFirstAssignableArpeggioADPCM`. -/
def findFirstAssignableArpeggioADPCM (m : InstrumentsManager) :
    Option Nat × InstrumentsManager :=
  let r := m.arpADPCM.findFirstAssignable m.regardingUnedited
    (cmdSeqEdited defaultArpADPCM) (fun _ => defaultArpADPCM)
  (r.1, { m with arpADPCM := r.2 })

/-- `findFirstAssignablePitchADPCM`. -/
def findFirstAssignablePitchADPCM (m : InstrumentsManager) :
    Option Nat × InstrumentsManager :=
  let r := m.ptADPCM.findFirstAssignable m.regardingUnedited
    (cmdSeqEdited defaultPtADPCM) (fun _ => defaultPtADPCM)
  (r.1, { m with ptADPCM := r.2 })

/-- `InstrumentsManager::addInstrument(int, SoundSource, std::string)`
(instruments_manager.cpp lines 194-280), including the silent out-of-range
no-op and the fall-back to the last pool slot when a find fails. -/
def addInstrument (m : InstrumentsManager) (instNum : Int) (source : SoundSource)
    (name : String) : InstrumentsManager :=
  if instNum < 0 || 128 ≤ instNum then m
  else
    let n : Nat := instNum.toNat
    match source with
    | .FM =>
      let r1 := m.findFirstAssignableEnvelopeFM
      let envNum := r1.1.getD 127
      let m1 := r1.2
      let m2 := { m1 with envFM := m1.envFM.registerUser envNum n }
      let r2 := m2.findFirstAssignableLFOFM
      let lfoNum := r2.1.getD 127
      let m3 := r2.2
      let acc := envFMParams.foldl
        (fun (acc : (FMEnvelopeParameter → Nat) × InstrumentsManager) p =>
          let r := acc.2.findFirstAssignableOperatorSequenceFM p
          (Function.update acc.1 p (r.1.getD 127), r.2))
        ((fun _ => 0), m3)
      let opSeqNums := acc.1
      let m4 := acc.2
      let r3 := m4.findFirstAssignableArpeggioFM
      let arpNum := r3.1.getD 127
      let m5 := r3.2
      let r4 := m5.findFirstAssignablePitchFM
      let ptNum := r4.1.getD 127
      let m6 := r4.2
      let fm : InstrumentFM :=
        { name := name
          envelopeNumber := envNum
          lfoNumber := lfoNum
          lfoEnabled := false
          opSeqNumber := opSeqNums
          opSeqEnabled := fun _ => false
          arpNumber := fun _ => arpNum
          arpEnabled := fun _ => false
          ptNumber := fun _ => ptNum
          ptEnabled := fun _ => false
          envResetEnabled := fun _ => true }
      { m6 with insts := Function.update m6.insts n (some (.fm fm)) }
    | .SSG =>
      let r1 := m.findFirstAssignableWaveformSSG
      let wfNum := r1.1.getD 127
      let m1 := r1.2
      let r2 := m1.findFirstAssignableToneNoiseSSG
      let tnNum := r2.1.getD 127
      let m2 := r2.2
      let r3 := m2.findFirstAssignableEnvelopeSSG
      let envNum := r3.1.getD 127
      let m3 := r3.2
      let r4 := m3.findFirstAssignableArpeggioSSG
      let arpNum := r4.1.getD 127
      let m4 := r4.2
      let r5 := m4.findFirstAssignablePitchSSG
      let ptNum := r5.1.getD 127
      let m5 := r5.2
      let ssg : InstrumentSSG :=
        { name := name
          waveformNumber := wfNum
          waveformEnabled := false
          toneNoiseNumber := tnNum
          toneNoiseEnabled := false
          envelopeNumber := envNum
          envelopeEnabled := false
          arpeggioNumber := arpNum
          arpeggioEnabled := false
          pitchNumber := ptNum
          pitchEnabled := false }
      { m5 with insts := Function.update m5.insts n (some (.ssg ssg)) }
    | .ADPCM =>
      let r1 := m.findFirstAssignableWaveformADPCM
      let wfNum := r1.1.getD 127
      let m1 := r1.2
      let m2 := { m1 with wfADPCM := m1.wfADPCM.registerUser wfNum n }
      let r2 := m2.findFirstAssignableEnvelopeADPCM
      let envNum := r2.1.getD 127
      let m3 := r2.2
      let r3 := m3.findFirstAssignableArpeggioADPCM
      let arpNum := r3.1.getD 127
      let m4 := r3.2
      let r4 := m4.findFirstAssignablePitchADPCM
      let ptNum := r4.1.getD 127
      let m5 := r4.2
      let adpcm : InstrumentADPCM :=
        { name := name
          waveformNumber := wfNum
          envelopeNumber := envNum
          envelopeEnabled := false
          arpeggioNumber := arpNum
          arpeggioEnabled := false
          pitchNumber := ptNum
          pitchEnabled := false }
      { m5 with insts := Function.update m5.insts n (some (.adpcm adpcm)) }
    | .DRUM => m

/-- `InstrumentsManager::removeInstrument` (instruments_manager.cpp lines
732-788): deregister the instrument from every slot it references, then
discard the table entry. -/
def removeInstrument (m : InstrumentsManager) (instNum : Nat) : InstrumentsManager :=
  match m.insts instNum with
  | none => m
  | some inst =>
    let m' :=
      match inst with
      | .fm fm =>
        let m1 := { m with envFM := m.envFM.deregisterUser fm.envelopeNumber instNum }
        let m2 :=
          if fm.lfoEnabled then
            { m1 with lfoFM := m1.lfoFM.deregisterUser fm.lfoNumber instNum }
          else m1
        let m3 := envFMParams.foldl
          (fun (acc : InstrumentsManager) p =>
            if fm.opSeqEnabled p then
              { acc with opSeqFM := (Function.update acc.opSeqFM p
                  ((acc.opSeqFM p).deregisterUser (fm.opSeqNumber p) instNum)) }
            else acc)
          m2
        fmOpTypes.foldl
          (fun (acc : InstrumentsManager) t =>
            let acc1 :=
              if fm.arpEnabled t then
                { acc with arpFM := acc.arpFM.deregisterUser (fm.arpNumber t) instNum }
              else acc
            if fm.ptEnabled t then
              { acc1 with ptFM := acc1.ptFM.deregisterUser (fm.ptNumber t) instNum }
            else acc1)
          m3
      | .ssg ssg =>
        let m1 :=
          if ssg.waveformEnabled then
            { m with wfSSG := m.wfSSG.deregisterUser ssg.waveformNumber instNum }
          else m
        let m2 :=
          if ssg.toneNoiseEnabled then
            { m1 with tnSSG := m1.tnSSG.deregisterUser ssg.toneNoiseNumber instNum }
          else m1
        let m3 :=
          if ssg.envelopeEnabled then
            { m2 with envSSG := m2.envSSG.deregisterUser ssg.envelopeNumber instNum }
          else m2
        let m4 :=
          if ssg.arpeggioEnabled then
            { m3 with arpSSG := m3.arpSSG.deregisterUser ssg.arpeggioNumber instNum }
          else m3
        if ssg.pitchEnabled then
          { m4 with ptSSG := m4.ptSSG.deregisterUser ssg.pitchNumber instNum }
        else m4
      | .adpcm ad =>
        let m1 := { m with wfADPCM := m.wfADPCM.deregisterUser ad.waveformNumber instNum }
        let m2 :=
          if ad.envelopeEnabled then
            { m1 with envADPCM := m1.envADPCM.deregisterUser ad.envelopeNumber instNum }
          else m1
        let m3 :=
          if ad.arpeggioEnabled then
            { m2 with arpADPCM := m2.arpADPCM.deregisterUser ad.arpeggioNumber instNum }
          else m2
        if ad.pitchEnabled then
          { m3 with ptADPCM := m3.ptADPCM.deregisterUser ad.pitchNumber instNum }
        else m3
    { m' with insts := Function.update m'.insts instNum none }

/-- `InstrumentsManager::getInstrumentSharedPtr` (instruments_manager.cpp
lines 790-799): bounds-checked lookup returning a null pointer instead of
raising on any out-of-range or empty entry. -/
def getInstrumentSharedPtr (m : InstrumentsManager) (instNum : Int) :
    Option AbstractInstrument :=
  if 0 ≤ instNum ∧ instNum < 128 then m.insts instNum.toNat else none

/-- Update the stored FM instrument at a table entry (mirrors mutation of the
shared instrument object through `std::dynamic_pointer_cast`); entries that
are empty or not FM are left unchanged (the C++ source would dereference a
null pointer there, a programmer-contract violation). -/
def updateFM (m : InstrumentsManager) (n : Nat) (f : InstrumentFM → InstrumentFM) :
    InstrumentsManager :=
  match m.insts n with
  | some (.fm fm) => { m with insts := Function.update m.insts n (some (.fm (f fm))) }
  | _ => m

/-- Update the stored SSG instrument at a table entry. -/
def updateSSG (m : InstrumentsManager) (n : Nat) (f : InstrumentSSG → InstrumentSSG) :
    InstrumentsManager :=
  match m.insts n with
  | some (.ssg s) => { m with insts := Function.update m.insts n (some (.ssg (f s))) }
  | _ => m

/-- Update the stored ADPCM instrument at a table entry. -/
def updateADPCM (m : InstrumentsManager) (n : Nat)
    (f : InstrumentADPCM → InstrumentADPCM) : InstrumentsManager :=
  match m.insts n with
  | some (.adpcm a) =>
    { m with insts := Function.update m.insts n (some (.adpcm (f a))) }
  | _ => m

/-- `setInstrumentFMEnvelope` (instruments_manager.cpp lines 982-989):
deregister the old envelope slot, register the new one, store the number. -/
def setInstrumentFMEnvelope (m : InstrumentsManager) (instNum envNum : Nat) :
    InstrumentsManager :=
  match m.insts instNum with
  | some (.fm fm) =>
    let p := (m.envFM.deregisterUser fm.envelopeNumber instNum).registerUser envNum instNum
    { m with
      envFM := p
      insts := Function.update m.insts instNum
        (some (.fm { fm with envelopeNumber := envNum })) }
  | _ => m

/-- `setInstrumentFMLFOEnabled` (lines 1045-1051). -/
def setInstrumentFMLFOEnabled (m : InstrumentsManager) (instNum : Nat) (enabled : Bool) :
    InstrumentsManager :=
  match m.insts instNum with
  | some (.fm fm) =>
    let p := if enabled then m.lfoFM.registerUser fm.lfoNumber instNum
             else m.lfoFM.deregisterUser fm.lfoNumber instNum
    { m with
      lfoFM := p
      insts := Function.update m.insts instNum
        (some (.fm { fm with lfoEnabled := enabled })) }
  | _ => m

/-- `setInstrumentFMLFO` (lines 1057-1065): re-register only when enabled. -/
def setInstrumentFMLFO (m : InstrumentsManager) (instNum lfoNum : Nat) :
    InstrumentsManager :=
  match m.insts instNum with
  | some (.fm fm) =>
    let p := if fm.lfoEnabled then
               (m.lfoFM.deregisterUser fm.lfoNumber instNum).registerUser lfoNum instNum
             else m.lfoFM
    { m with
      lfoFM := p
      insts := Function.update m.insts instNum
        (some (.fm { fm with lfoNumber := lfoNum })) }
  | _ => m

/-- `setInstrumentFMOperatorSequenceEnabled` (lines 1111-1119). -/
def setInstrumentFMOperatorSequenceEnabled (m : InstrumentsManager) (instNum : Nat)
    (param : FMEnvelopeParameter) (enabled : Bool) : InstrumentsManager :=
  match m.insts instNum with
  | some (.fm fm) =>
    let pool := m.opSeqFM param
    let pool := if enabled then pool.registerUser (fm.opSeqNumber param) instNum
                else pool.deregisterUser (fm.opSeqNumber param) instNum
    { m with
      opSeqFM := Function.update m.opSeqFM param pool
      insts := Function.update m.insts instNum
        (some (.fm { fm with opSeqEnabled := Function.update fm.opSeqEnabled param enabled })) }
  | _ => m

/-- `setInstrumentFMOperatorSequence` (lines 1126-1134). -/
def setInstrumentFMOperatorSequence (m : InstrumentsManager) (instNum : Nat)
    (param : FMEnvelopeParameter) (opSeqNum : Nat) : InstrumentsManager :=
  match m.insts instNum with
  | some (.fm fm) =>
    let pool := m.opSeqFM param
    let pool := if fm.opSeqEnabled param then
                  (pool.deregisterUser (fm.opSeqNumber param) instNum).registerUser
                    opSeqNum instNum
                else pool
    { m with
      opSeqFM := Function.update m.opSeqFM param pool
      insts := Function.update m.insts instNum
        (some (.fm { fm with opSeqNumber := Function.update fm.opSeqNumber param opSeqNum })) }
  | _ => m

/-- `setInstrumentFMArpeggioEnabled` (lines 1216-1224): the slot pointed to by
the given operator type is registered or deregistered unconditionally. -/
def setInstrumentFMArpeggioEnabled (m : InstrumentsManager) (instNum : Nat)
    (op : FMOperatorType) (enabled : Bool) : InstrumentsManager :=
  match m.insts instNum with
  | some (.fm fm) =>
    let pool := if enabled then m.arpFM.registerUser (fm.arpNumber op) instNum
                else m.arpFM.deregisterUser (fm.arpNumber op) instNum
    { m with
      arpFM := pool
      insts := Function.update m.insts instNum
        (some (.fm { fm with arpEnabled := Function.update fm.arpEnabled op enabled })) }
  | _ => m

/-- `setInstrumentFMArpeggio` (lines 1231-1239). -/
def setInstrumentFMArpeggio (m : InstrumentsManager) (instNum : Nat)
    (op : FMOperatorType) (arpNum : Nat) : InstrumentsManager :=
  match m.insts instNum with
  | some (.fm fm) =>
    let pool := if fm.arpEnabled op then
                  (m.arpFM.deregisterUser (fm.arpNumber op) instNum).registerUser
                    arpNum instNum
                else m.arpFM
    { m with
      arpFM := pool
      insts := Function.update m.insts instNum
        (some (.fm { fm with arpNumber := Function.update fm.arpNumber op arpNum })) }
  | _ => m

/-- `setInstrumentFMPitchEnabled` (lines 1330-1338). -/
def setInstrumentFMPitchEnabled (m : InstrumentsManager) (instNum : Nat)
    (op : FMOperatorType) (enabled : Bool) : InstrumentsManager :=
  match m.insts instNum with
  | some (.fm fm) =>
    let pool := if enabled then m.ptFM.registerUser (fm.ptNumber op) instNum
                else m.ptFM.deregisterUser (fm.ptNumber op) instNum
    { m with
      ptFM := pool
      insts := Function.update m.insts instNum
        (some (.fm { fm with ptEnabled := Function.update fm.ptEnabled op enabled })) }
  | _ => m

/-- `setInstrumentFMPitch` (lines 1345-1353). -/
def setInstrumentFMPitch (m : InstrumentsManager) (instNum : Nat)
    (op : FMOperatorType) (ptNum : Nat) : InstrumentsManager :=
  match m.insts instNum with
  | some (.fm fm) =>
    let pool := if fm.ptEnabled op then
                  (m.ptFM.deregisterUser (fm.ptNumber op) instNum).registerUser ptNum instNum
                else m.ptFM
    { m with
      ptFM := pool
      insts := Function.update m.insts instNum
        (some (.fm { fm with ptNumber := Function.update fm.ptNumber op ptNum })) }
  | _ => m

/-- `setInstrumentFMEnvelopeResetEnabled` (lines 1420-1423). -/
def setInstrumentFMEnvelopeResetEnabled (m : InstrumentsManager) (instNum : Nat)
    (op : FMOperatorType) (enabled : Bool) : InstrumentsManager :=
  updateFM m instNum (fun fm =>
    { fm with envResetEnabled := Function.update fm.envResetEnabled op enabled })

/-- `setInstrumentSSGWaveformEnabled` (lines 1482-1490). -/
def setInstrumentSSGWaveformEnabled (m : InstrumentsManager) (instNum : Nat)
    (enabled : Bool) : InstrumentsManager :=
  match m.insts instNum with
  | some (.ssg s) =>
    let pool := if enabled then m.wfSSG.registerUser s.waveformNumber instNum
                else m.wfSSG.deregisterUser s.waveformNumber instNum
    { m with
      wfSSG := pool
      insts := Function.update m.insts instNum
        (some (.ssg { s with waveformEnabled := enabled })) }
  | _ => m

/-- `setInstrumentSSGWaveform` (lines 1497-1505). -/
def setInstrumentSSGWaveform (m : InstrumentsManager) (instNum wfNum : Nat) :
    InstrumentsManager :=
  match m.insts instNum with
  | some (.ssg s) =>
    let pool := if s.waveformEnabled then
                  (m.wfSSG.deregisterUser s.waveformNumber instNum).registerUser wfNum instNum
                else m.wfSSG
    { m with
      wfSSG := pool
      insts := Function.update m.insts instNum
        (some (.ssg { s with waveformNumber := wfNum })) }
  | _ => m

/-- `setInstrumentSSGToneNoiseEnabled` (lines 1586-1594). -/
def setInstrumentSSGToneNoiseEnabled (m : InstrumentsManager) (instNum : Nat)
    (enabled : Bool) : InstrumentsManager :=
  match m.insts instNum with
  | some (.ssg s) =>
    let pool := if enabled then m.tnSSG.registerUser s.toneNoiseNumber instNum
                else m.tnSSG.deregisterUser s.toneNoiseNumber instNum
    { m with
      tnSSG := pool
      insts := Function.update m.insts instNum
        (some (.ssg { s with toneNoiseEnabled := enabled })) }
  | _ => m

/-- `setInstrumentSSGToneNoise` (lines 1601-1609). -/
def setInstrumentSSGToneNoise (m : InstrumentsManager) (instNum tnNum : Nat) :
    InstrumentsManager :=
  match m.insts instNum with
  | some (.ssg s) =>
    let pool := if s.toneNoiseEnabled then
                  (m.tnSSG.deregisterUser s.toneNoiseNumber instNum).registerUser tnNum instNum
                else m.tnSSG
    { m with
      tnSSG := pool
      insts := Function.update m.insts instNum
        (some (.ssg { s with toneNoiseNumber := tnNum })) }
  | _ => m

/-- `setInstrumentSSGEnvelopeEnabled` (lines 1690-1698). -/
def setInstrumentSSGEnvelopeEnabled (m : InstrumentsManager) (instNum : Nat)
    (enabled : Bool) : InstrumentsManager :=
  match m.insts instNum with
  | some (.ssg s) =>
    let pool := if enabled then m.envSSG.registerUser s.envelopeNumber instNum
                else m.envSSG.deregisterUser s.envelopeNumber instNum
    { m with
      envSSG := pool
      insts := Function.update m.insts instNum
        (some (.ssg { s with envelopeEnabled := enabled })) }
  | _ => m

/-- `setInstrumentSSGEnvelope` (lines 1705-1713). -/
def setInstrumentSSGEnvelope (m : InstrumentsManager) (instNum envNum : Nat) :
    InstrumentsManager :=
  match m.insts instNum with
  | some (.ssg s) =>
    let pool := if s.envelopeEnabled then
                  (m.envSSG.deregisterUser s.envelopeNumber instNum).registerUser envNum instNum
                else m.envSSG
    { m with
      envSSG := pool
      insts := Function.update m.insts instNum
        (some (.ssg { s with envelopeNumber := envNum })) }
  | _ => m

/-- `setInstrumentSSGArpeggioEnabled` (lines 1794-1802). -/
def setInstrumentSSGArpeggioEnabled (m : InstrumentsManager) (instNum : Nat)
    (enabled : Bool) : InstrumentsManager :=
  match m.insts instNum with
  | some (.ssg s) =>
    let pool := if enabled then m.arpSSG.registerUser s.arpeggioNumber instNum
                else m.arpSSG.deregisterUser s.arpeggioNumber instNum
    { m with
      arpSSG := pool
      insts := Function.update m.insts instNum
        (some (.ssg { s with arpeggioEnabled := enabled })) }
  | _ => m

/-- `setInstrumentSSGArpeggio` (lines 1809-1817). -/
def setInstrumentSSGArpeggio (m : InstrumentsManager) (instNum arpNum : Nat) :
    InstrumentsManager :=
  match m.insts instNum with
  | some (.ssg s) =>
    let pool := if s.arpeggioEnabled then
                  (m.arpSSG.deregisterUser s.arpeggioNumber instNum).registerUser arpNum instNum
                else m.arpSSG
    { m with
      arpSSG := pool
      insts := Function.update m.insts instNum
        (some (.ssg { s with arpeggioNumber := arpNum })) }
  | _ => m

/-- `setInstrumentSSGPitchEnabled` (lines 1908-1916). -/
def setInstrumentSSGPitchEnabled (m : InstrumentsManager) (instNum : Nat)
    (enabled : Bool) : InstrumentsManager :=
  match m.insts instNum with
  | some (.ssg s) =>
    let pool := if enabled then m.ptSSG.registerUser s.pitchNumber instNum
                else m.ptSSG.deregisterUser s.pitchNumber instNum
    { m with
      ptSSG := pool
      insts := Function.update m.insts instNum
        (some (.ssg { s with pitchEnabled := enabled })) }
  | _ => m

/-- `setInstrumentSSGPitch`. -/
def setInstrumentSSGPitch (m : InstrumentsManager) (instNum ptNum : Nat) :
    InstrumentsManager :=
  match m.insts instNum with
  | some (.ssg s) =>
    let pool := if s.pitchEnabled then
                  (m.ptSSG.deregisterUser s.pitchNumber instNum).registerUser ptNum instNum
                else m.ptSSG
    { m with
      ptSSG := pool
      insts := Function.update m.insts instNum
        (some (.ssg { s with pitchNumber := ptNum })) }
  | _ => m

/-- `setInstrumentADPCMWaveform`: the waveform reference is always enabled,
so the old slot is deregistered and the new one registered unconditionally. -/
def setInstrumentADPCMWaveform (m : InstrumentsManager) (instNum wfNum : Nat) :
    InstrumentsManager :=
  match m.insts instNum with
  | some (.adpcm a) =>
    let pool := (m.wfADPCM.deregisterUser a.waveformNumber instNum).registerUser wfNum instNum
    { m with
      wfADPCM := pool
      insts := Function.update m.insts instNum
        (some (.adpcm { a with waveformNumber := wfNum })) }
  | _ => m

/-- `setInstrumentADPCMEnvelopeEnabled`. -/
def setInstrumentADPCMEnvelopeEnabled (m : InstrumentsManager) (instNum : Nat)
    (enabled : Bool) : InstrumentsManager :=
  match m.insts instNum with
  | some (.adpcm a) =>
    let pool := if enabled then m.envADPCM.registerUser a.envelopeNumber instNum
                else m.envADPCM.deregisterUser a.envelopeNumber instNum
    { m with
      envADPCM := pool
      insts := Function.update m.insts instNum
        (some (.adpcm { a with envelopeEnabled := enabled })) }
  | _ => m

/-- `setInstrumentADPCMEnvelope`. -/
def setInstrumentADPCMEnvelope (m : InstrumentsManager) (instNum envNum : Nat) :
    InstrumentsManager :=
  match m.insts instNum with
  | some (.adpcm a) =>
    let pool := if a.envelopeEnabled then
                  (m.envADPCM.deregisterUser a.envelopeNumber instNum).registerUser
                    envNum instNum
                else m.envADPCM
    { m with
      envADPCM := pool
      insts := Function.update m.insts instNum
        (some (.adpcm { a with envelopeNumber := envNum })) }
  | _ => m

/-- `setInstrumentADPCMArpeggioEnabled`. -/
def setInstrumentADPCMArpeggioEnabled (m : InstrumentsManager) (instNum : Nat)
    (enabled : Bool) : InstrumentsManager :=
  match m.insts instNum with
  | some (.adpcm a) =>
    let pool := if enabled then m.arpADPCM.registerUser a.arpeggioNumber instNum
                else m.arpADPCM.deregisterUser a.arpeggioNumber instNum
    { m with
      arpADPCM := pool
      insts := Function.update m.insts instNum
        (some (.adpcm { a with arpeggioEnabled := enabled })) }
  | _ => m

/-- `setInstrumentADPCMArpeggio`. -/
def setInstrumentADPCMArpeggio (m : InstrumentsManager) (instNum arpNum : Nat) :
    InstrumentsManager :=
  match m.insts instNum with
  | some (.adpcm a) =>
    let pool := if a.arpeggioEnabled then
                  (m.arpADPCM.deregisterUser a.arpeggioNumber instNum).registerUser
                    arpNum instNum
                else m.arpADPCM
    { m with
      arpADPCM := pool
      insts := Function.update m.insts instNum
        (some (.adpcm { a with arpeggioNumber := arpNum })) }
  | _ => m

/-- `setInstrumentADPCMPitchEnabled`. -/
def setInstrumentADPCMPitchEnabled (m : InstrumentsManager) (instNum : Nat)
    (enabled : Bool) : InstrumentsManager :=
  match m.insts instNum with
  | some (.adpcm a) =>
    let pool := if enabled then m.ptADPCM.registerUser a.pitchNumber instNum
                else m.ptADPCM.deregisterUser a.pitchNumber instNum
    { m with
      ptADPCM := pool
      insts := Function.update m.insts instNum
        (some (.adpcm { a with pitchEnabled := enabled })) }
  | _ => m

/-- `setInstrumentADPCMPitch`. -/
def setInstrumentADPCMPitch (m : InstrumentsManager) (instNum ptNum : Nat) :
    InstrumentsManager :=
  match m.insts instNum with
  | some (.adpcm a) =>
    let pool := if a.pitchEnabled then
                  (m.ptADPCM.deregisterUser a.pitchNumber instNum).registerUser ptNum instNum
                else m.ptADPCM
    { m with
      ptADPCM := pool
      insts := Function.update m.insts instNum
        (some (.adpcm { a with pitchNumber := ptNum })) }
  | _ => m

/-- `setEnvelopeFMParameter` (lines 996-999): a pure payload edit. -/
def setEnvelopeFMParameter (m : InstrumentsManager) (envNum : Nat)
    (param : FMEnvelopeParameter) (value : Int) : InstrumentsManager :=
  { m with envFM := m.envFM.setPayload envNum (fun e => e.setParameterValue param value) }

/-- `setEnvelopeFMOperatorEnabled` (lines 1006-1009): a pure payload edit. -/
def setEnvelopeFMOperatorEnabled (m : InstrumentsManager) (envNum : Nat)
    (opNum : Fin 4) (enabled : Bool) : InstrumentsManager :=
  { m with envFM := (m.envFM.setPayload envNum
      (fun e => e.withOp opNum (fun o => { o with enabled := enabled }))) }

/-- `addArpeggioFMSequenceCommand` (lines 1256-1259): append one step to an
FM arpeggio payload (sequence mutation modelled from the spec). -/
def addArpeggioFMSequenceCommand (m : InstrumentsManager) (arpNum : Nat)
    (type data : Int) : InstrumentsManager :=
  { m with arpFM := (m.arpFM.setPayload arpNum
      (fun c => { c with sequence := c.sequence ++ [⟨type, data⟩] })) }

/-- `setWaveformADPCMRootKeyNumber`: a pure payload edit. -/
def setWaveformADPCMRootKeyNumber (m : InstrumentsManager) (wfNum : Nat) (v : Int) :
    InstrumentsManager :=
  { m with wfADPCM := m.wfADPCM.setPayload wfNum (fun w => { w with rootKeyNum := v }) }

/-- `cloneFMEnvelope` (lines 536-548). -/
def cloneFMEnvelope (m : InstrumentsManager) (srcNum : Nat) : Nat × InstrumentsManager :=
  let r := m.envFM.cloneProp srcNum
  (r.1, { m with envFM := r.2 })

/-- `cloneFMLFO` (lines 550-562). -/
def cloneFMLFO (m : InstrumentsManager) (srcNum : Nat) : Nat × InstrumentsManager :=
  let r := m.lfoFM.cloneProp srcNum
  (r.1, { m with lfoFM := r.2 })

/-- `cloneFMOperatorSequence` (lines 564-576). -/
def cloneFMOperatorSequence (m : InstrumentsManager) (param : FMEnvelopeParameter)
    (srcNum : Nat) : Nat × InstrumentsManager :=
  let r := (m.opSeqFM param).cloneProp srcNum
  (r.1, { m with opSeqFM := Function.update m.opSeqFM param r.2 })

/-- `cloneFMArpeggio` (lines 578-590). -/
def cloneFMArpeggio (m : InstrumentsManager) (srcNum : Nat) : Nat × InstrumentsManager :=
  let r := m.arpFM.cloneProp srcNum
  (r.1, { m with arpFM := r.2 })

/-- `cloneFMPitch` (lines 592-604). -/
def cloneFMPitch (m : InstrumentsManager) (srcNum : Nat) : Nat × InstrumentsManager :=
  let r := m.ptFM.cloneProp srcNum
  (r.1, { m with ptFM := r.2 })

/-- `cloneSSGWaveform` (lines 606-618). -/
def cloneSSGWaveform (m : InstrumentsManager) (srcNum : Nat) : Nat × InstrumentsManager :=
  let r := m.wfSSG.cloneProp srcNum
  (r.1, { m with wfSSG := r.2 })

/-- `cloneSSGToneNoise` (lines 620-632). -/
def cloneSSGToneNoise (m : InstrumentsManager) (srcNum : Nat) : Nat × InstrumentsManager :=
  let r := m.tnSSG.cloneProp srcNum
  (r.1, { m with tnSSG := r.2 })

/-- `cloneSSGEnvelope` (lines 634-646). -/
def cloneSSGEnvelope (m : InstrumentsManager) (srcNum : Nat) : Nat × InstrumentsManager :=
  let r := m.envSSG.cloneProp srcNum
  (r.1, { m with envSSG := r.2 })

/-- `cloneSSGArpeggio` (lines 648-660). -/
def cloneSSGArpeggio (m : InstrumentsManager) (srcNum : Nat) : Nat × InstrumentsManager :=
  let r := m.arpSSG.cloneProp srcNum
  (r.1, { m with arpSSG := r.2 })

/-- `cloneSSGPitch` (lines 662-674). -/
def cloneSSGPitch (m : InstrumentsManager) (srcNum : Nat) : Nat × InstrumentsManager :=
  let r := m.ptSSG.cloneProp srcNum
  (r.1, { m with ptSSG := r.2 })

/-- `cloneADPCMWaveform` (lines 676-688). -/
def cloneADPCMWaveform (m : InstrumentsManager) (srcNum : Nat) : Nat × InstrumentsManager :=
  let r := m.wfADPCM.cloneProp srcNum
  (r.1, { m with wfADPCM := r.2 })

/-- `cloneADPCMEnvelope` (lines 690-702). -/
def cloneADPCMEnvelope (m : InstrumentsManager) (srcNum : Nat) : Nat × InstrumentsManager :=
  let r := m.envADPCM.cloneProp srcNum
  (r.1, { m with envADPCM := r.2 })

/-- `cloneADPCMArpeggio` (lines 704-716). -/
def cloneADPCMArpeggio (m : InstrumentsManager) (srcNum : Nat) : Nat × InstrumentsManager :=
  let r := m.arpADPCM.cloneProp srcNum
  (r.1, { m with arpADPCM := r.2 })

/-- `cloneADPCMPitch` (lines 718-730). -/
def cloneADPCMPitch (m : InstrumentsManager) (srcNum : Nat) : Nat × InstrumentsManager :=
  let r := m.ptADPCM.cloneProp srcNum
  (r.1, { m with ptADPCM := r.2 })

/-- `InstrumentsManager::cloneInstrument` (lines 338-396): a shallow clone
sharing every slot of the reference instrument, built through an
`addInstrument` call followed by the public setter operations. -/
def cloneInstrument (m : InstrumentsManager) (cloneInstNum refInstNum : Nat) :
    InstrumentsManager :=
  match m.insts refInstNum with
  | none => m
  | some refInst =>
    let m0 := m.addInstrument (cloneInstNum : Int) refInst.getSoundSource refInst.getName
    match refInst with
    | .fm refFm =>
      let m1 := m0.setInstrumentFMEnvelope cloneInstNum refFm.envelopeNumber
      let m2 := m1.setInstrumentFMLFO cloneInstNum refFm.lfoNumber
      let m3 := if refFm.lfoEnabled then m2.setInstrumentFMLFOEnabled cloneInstNum true
                else m2
      let m4 := envFMParams.foldl
        (fun (acc : InstrumentsManager) p =>
          let acc1 := acc.setInstrumentFMOperatorSequence cloneInstNum p (refFm.opSeqNumber p)
          if refFm.opSeqEnabled p then
            acc1.setInstrumentFMOperatorSequenceEnabled cloneInstNum p true
          else acc1)
        m3
      fmOpTypes.foldl
        (fun (acc : InstrumentsManager) t =>
          let a1 := acc.setInstrumentFMArpeggio cloneInstNum t (refFm.arpNumber t)
          let a2 := if refFm.arpEnabled t then
                      a1.setInstrumentFMArpeggioEnabled cloneInstNum t true
                    else a1
          let a3 := a2.setInstrumentFMPitch cloneInstNum t (refFm.ptNumber t)
          let a4 := if refFm.ptEnabled t then
                      a3.setInstrumentFMPitchEnabled cloneInstNum t true
                    else a3
          a4.setInstrumentFMEnvelopeResetEnabled cloneInstNum t (refFm.envResetEnabled t))
        m4
    | .ssg refSsg =>
      let m1 := m0.setInstrumentSSGWaveform cloneInstNum refSsg.waveformNumber
      let m2 := if refSsg.waveformEnabled then
                  m1.setInstrumentSSGWaveformEnabled cloneInstNum true
                else m1
      let m3 := m2.setInstrumentSSGToneNoise cloneInstNum refSsg.toneNoiseNumber
      let m4 := if refSsg.toneNoiseEnabled then
                  m3.setInstrumentSSGToneNoiseEnabled cloneInstNum true
                else m3
      let m5 := m4.setInstrumentSSGEnvelope cloneInstNum refSsg.envelopeNumber
      let m6 := if refSsg.envelopeEnabled then
                  m5.setInstrumentSSGEnvelopeEnabled cloneInstNum true
                else m5
      let m7 := m6.setInstrumentSSGArpeggio cloneInstNum refSsg.arpeggioNumber
      let m8 := if refSsg.arpeggioEnabled then
                  m7.setInstrumentSSGArpeggioEnabled cloneInstNum true
                else m7
      let m9 := m8.setInstrumentSSGPitch cloneInstNum refSsg.pitchNumber
      if refSsg.pitchEnabled then m9.setInstrumentSSGPitchEnabled cloneInstNum true
      else m9
    | .adpcm refAd =>
      let m1 := m0.setInstrumentADPCMWaveform cloneInstNum refAd.waveformNumber
      let m2 := m1.setInstrumentADPCMEnvelope cloneInstNum refAd.envelopeNumber
      let m3 := if refAd.envelopeEnabled then
                  m2.setInstrumentADPCMEnvelopeEnabled cloneInstNum true
                else m2
      let m4 := m3.setInstrumentADPCMArpeggio cloneInstNum refAd.arpeggioNumber
      let m5 := if refAd.arpeggioEnabled then
                  m4.setInstrumentADPCMArpeggioEnabled cloneInstNum true
                else m4
      let m6 := m5.setInstrumentADPCMPitch cloneInstNum refAd.pitchNumber
      if refAd.pitchEnabled then m6.setInstrumentADPCMPitchEnabled cloneInstNum true
      else m6

/-- Distinct elements of a list keeping their first occurrence, mirroring the
`std::unordered_map::emplace` collection of source slot numbers in
`deepCloneInstrument` (the C++ map's iteration order is unspecified; the
model fixes first-appearance order, which only influences which of several
aliased source payloads is cloned last). -/
def dedupFirst (l : List Nat) : List Nat :=
  l.foldl (fun acc a => if a ∈ acc then acc else acc ++ [a]) []

/-- `InstrumentsManager::deepCloneInstrument` (lines 398-534): first an
`addInstrument`, whose provisional always-enabled registrations (FM envelope,
ADPCM waveform) are explicitly deregistered, then a fresh-slot clone of
every payload the reference instrument has enabled. -/
def deepCloneInstrument (m : InstrumentsManager) (cloneInstNum refInstNum : Nat) :
    InstrumentsManager :=
  match m.insts refInstNum with
  | none => m
  | some refInst =>
    let m0 := m.addInstrument (cloneInstNum : Int) refInst.getSoundSource refInst.getName
    match refInst, m0.insts cloneInstNum with
    | .fm refFm, some (.fm cloneFm0) =>
      -- Remove the temporary envelope registration made by addInstrument.
      let m1 := { m0 with envFM := m0.envFM.deregisterUser cloneFm0.envelopeNumber cloneInstNum }
      let re := m1.cloneFMEnvelope refFm.envelopeNumber
      let m2 := updateFM re.2 cloneInstNum (fun f => { f with envelopeNumber := re.1 })
      let m3 := { m2 with envFM := m2.envFM.registerUser re.1 cloneInstNum }
      let m4 :=
        if refFm.lfoEnabled then
          let ma := updateFM m3 cloneInstNum (fun f => { f with lfoEnabled := true })
          let rl := ma.cloneFMLFO refFm.lfoNumber
          let mb := updateFM rl.2 cloneInstNum (fun f => { f with lfoNumber := rl.1 })
          { mb with lfoFM := mb.lfoFM.registerUser rl.1 cloneInstNum }
        else m3
      let m5 := envFMParams.foldl
        (fun (acc : InstrumentsManager) p =>
          if refFm.opSeqEnabled p then
            let ma := updateFM acc cloneInstNum
              (fun f => { f with opSeqEnabled := Function.update f.opSeqEnabled p true })
            let rs := ma.cloneFMOperatorSequence p (refFm.opSeqNumber p)
            let mb := updateFM rs.2 cloneInstNum
              (fun f => { f with opSeqNumber := Function.update f.opSeqNumber p rs.1 })
            { mb with opSeqFM := (Function.update mb.opSeqFM p
                ((mb.opSeqFM p).registerUser rs.1 cloneInstNum)) }
          else acc)
        m4
      -- Arpeggio: enable flags first, clone each distinct source slot,
      -- then assign and register.
      let enabledArp := fmOpTypes.filter (fun t => refFm.arpEnabled t)
      let m6 := enabledArp.foldl
        (fun (acc : InstrumentsManager) t =>
          updateFM acc cloneInstNum
            (fun f => { f with arpEnabled := Function.update f.arpEnabled t true }))
        m5
      let arpSrcs := dedupFirst (enabledArp.map refFm.arpNumber)
      let arpAcc := arpSrcs.foldl
        (fun (acc : List (Nat × Nat) × InstrumentsManager) a =>
          let r := acc.2.cloneFMArpeggio a
          (acc.1 ++ [(a, r.1)], r.2))
        ([], m6)
      let arpLookup : Nat → Nat := fun a =>
        ((arpAcc.1.find? (fun pr => pr.1 == a)).map Prod.snd).getD 0
      let m7 := fmOpTypes.foldl
        (fun (acc : InstrumentsManager) t =>
          if refFm.arpEnabled t then
            let n := arpLookup (refFm.arpNumber t)
            let ma := updateFM acc cloneInstNum
              (fun f => { f with arpNumber := Function.update f.arpNumber t n })
            { ma with arpFM := ma.arpFM.registerUser n cloneInstNum }
          else acc)
        arpAcc.2
      -- Pitch: same shape as arpeggio.
      let enabledPt := fmOpTypes.filter (fun t => refFm.ptEnabled t)
      let m8 := enabledPt.foldl
        (fun (acc : InstrumentsManager) t =>
          updateFM acc cloneInstNum
            (fun f => { f with ptEnabled := Function.update f.ptEnabled t true }))
        m7
      let ptSrcs := dedupFirst (enabledPt.map refFm.ptNumber)
      let ptAcc := ptSrcs.foldl
        (fun (acc : List (Nat × Nat) × InstrumentsManager) a =>
          let r := acc.2.cloneFMPitch a
          (acc.1 ++ [(a, r.1)], r.2))
        ([], m8)
      let ptLookup : Nat → Nat := fun a =>
        ((ptAcc.1.find? (fun pr => pr.1 == a)).map Prod.snd).getD 0
      let m9 := fmOpTypes.foldl
        (fun (acc : InstrumentsManager) t =>
          if refFm.ptEnabled t then
            let n := ptLookup (refFm.ptNumber t)
            let ma := updateFM acc cloneInstNum
              (fun f => { f with ptNumber := Function.update f.ptNumber t n })
            { ma with ptFM := ma.ptFM.registerUser n cloneInstNum }
          else acc)
        ptAcc.2
      fmOpTypes.foldl
        (fun (acc : InstrumentsManager) t =>
          acc.setInstrumentFMEnvelopeResetEnabled cloneInstNum t (refFm.envResetEnabled t))
        m9
    | .ssg refSsg, some (.ssg _) =>
      let m1 :=
        if refSsg.waveformEnabled then
          let ma := updateSSG m0 cloneInstNum (fun s => { s with waveformEnabled := true })
          let r := ma.cloneSSGWaveform refSsg.waveformNumber
          let mb := updateSSG r.2 cloneInstNum (fun s => { s with waveformNumber := r.1 })
          { mb with wfSSG := mb.wfSSG.registerUser r.1 cloneInstNum }
        else m0
      let m2 :=
        if refSsg.toneNoiseEnabled then
          let ma := updateSSG m1 cloneInstNum (fun s => { s with toneNoiseEnabled := true })
          let r := ma.cloneSSGToneNoise refSsg.toneNoiseNumber
          let mb := updateSSG r.2 cloneInstNum (fun s => { s with toneNoiseNumber := r.1 })
          { mb with tnSSG := mb.tnSSG.registerUser r.1 cloneInstNum }
        else m1
      let m3 :=
        if refSsg.envelopeEnabled then
          let ma := updateSSG m2 cloneInstNum (fun s => { s with envelopeEnabled := true })
          let r := ma.cloneSSGEnvelope refSsg.envelopeNumber
          let mb := updateSSG r.2 cloneInstNum (fun s => { s with envelopeNumber := r.1 })
          { mb with envSSG := mb.envSSG.registerUser r.1 cloneInstNum }
        else m2
      let m4 :=
        if refSsg.arpeggioEnabled then
          let ma := updateSSG m3 cloneInstNum (fun s => { s with arpeggioEnabled := true })
          let r := ma.cloneSSGArpeggio refSsg.arpeggioNumber
          let mb := updateSSG r.2 cloneInstNum (fun s => { s with arpeggioNumber := r.1 })
          { mb with arpSSG := mb.arpSSG.registerUser r.1 cloneInstNum }
        else m3
      if refSsg.pitchEnabled then
        let ma := updateSSG m4 cloneInstNum (fun s => { s with pitchEnabled := true })
        let r := ma.cloneSSGPitch refSsg.pitchNumber
        let mb := updateSSG r.2 cloneInstNum (fun s => { s with pitchNumber := r.1 })
        { mb with ptSSG := mb.ptSSG.registerUser r.1 cloneInstNum }
      else m4
    | .adpcm refAd, some (.adpcm cloneAd0) =>
      -- Remove the temporary waveform registration made by addInstrument.
      let m1 := { m0 with
        wfADPCM := m0.wfADPCM.deregisterUser cloneAd0.waveformNumber cloneInstNum }
      let rw := m1.cloneADPCMWaveform refAd.waveformNumber
      let m2 := updateADPCM rw.2 cloneInstNum (fun a => { a with waveformNumber := rw.1 })
      let m3 := { m2 with wfADPCM := m2.wfADPCM.registerUser rw.1 cloneInstNum }
      let m4 :=
        if refAd.envelopeEnabled then
          let ma := updateADPCM m3 cloneInstNum (fun a => { a with envelopeEnabled := true })
          let r := ma.cloneADPCMEnvelope refAd.envelopeNumber
          let mb := updateADPCM r.2 cloneInstNum (fun a => { a with envelopeNumber := r.1 })
          { mb with envADPCM := mb.envADPCM.registerUser r.1 cloneInstNum }
        else m3
      let m5 :=
        if refAd.arpeggioEnabled then
          let ma := updateADPCM m4 cloneInstNum (fun a => { a with arpeggioEnabled := true })
          let r := ma.cloneADPCMArpeggio refAd.arpeggioNumber
          let mb := updateADPCM r.2 cloneInstNum (fun a => { a with arpeggioNumber := r.1 })
          { mb with arpADPCM := mb.arpADPCM.registerUser r.1 cloneInstNum }
        else m4
      if refAd.pitchEnabled then
        let ma := updateADPCM m5 cloneInstNum (fun a => { a with pitchEnabled := true })
        let r := ma.cloneADPCMPitch refAd.pitchNumber
        let mb := updateADPCM r.2 cloneInstNum (fun a => { a with pitchNumber := r.1 })
        { mb with ptADPCM := mb.ptADPCM.registerUser r.1 cloneInstNum }
      else m5
    | _, _ => m0

/-- `getEntriedInstrumentIndices` (lines 859-868). -/
def getEntriedInstrumentIndices (m : InstrumentsManager) : List Nat :=
  (List.range 128).filter (fun i => (m.insts i).isSome)

/-- Modelled from the spec: value equality of two command-sequence payloads
(same step list, same loop regions, same release data, same sequence type);
the C++ comparison operator is not among the given sources. -/
def cmdSeqValueEq (a b : CommandSequence) : Bool := a == b

/-- Modelled from the spec: value equality of two LFO payloads. -/
def lfoValueEq (a b : LFOFM) : Bool := a == b

/-- Modelled from the spec: value equality of two ADPCM waveform payloads
(root key, root delta-N, repeat flag and sample data; the DRAM addresses are
storage artefacts and not part of the payload value). -/
def waveformADPCMValueEq (a b : WaveformADPCM) : Bool :=
  a.rootKeyNum == b.rootKeyNum && a.rootDeltaN == b.rootDeltaN &&
  a.repeatEnabled == b.repeatEnabled && a.samples == b.samples

/-- `equalPropertiesFM` (lines 1449-1479): compares the envelope payloads
through the free `operator==` of envelope_fm.cpp (embedded here as
`envelopeFMEq`, including its operator-0 comparison slip), then the enable
flags and payloads of every optional reference. -/
def equalPropertiesFM (m : InstrumentsManager) (a b : InstrumentFM) : Bool :=
  envelopeFMEq (m.envFM a.envelopeNumber).payload (m.envFM b.envelopeNumber).payload &&
  a.lfoEnabled == b.lfoEnabled &&
  (!a.lfoEnabled || lfoValueEq (m.lfoFM a.lfoNumber).payload (m.lfoFM b.lfoNumber).payload) &&
  envFMParams.all (fun p =>
    a.opSeqEnabled p == b.opSeqEnabled p &&
    (!a.opSeqEnabled p ||
      cmdSeqValueEq (m.opSeqFM p (a.opSeqNumber p)).payload
        (m.opSeqFM p (b.opSeqNumber p)).payload)) &&
  fmOpTypes.all (fun t =>
    a.arpEnabled t == b.arpEnabled t &&
    (!a.arpEnabled t ||
      cmdSeqValueEq (m.arpFM (a.arpNumber t)).payload (m.arpFM (b.arpNumber t)).payload) &&
    a.ptEnabled t == b.ptEnabled t &&
    (!a.ptEnabled t ||
      cmdSeqValueEq (m.ptFM (a.ptNumber t)).payload (m.ptFM (b.ptNumber t)).payload) &&
    a.envResetEnabled t == b.envResetEnabled t)

/-- `equalPropertiesSSG` (part_002, after the SSG pitch methods). -/
def equalPropertiesSSG (m : InstrumentsManager) (a b : InstrumentSSG) : Bool :=
  a.waveformEnabled == b.waveformEnabled &&
  (!a.waveformEnabled ||
    cmdSeqValueEq (m.wfSSG a.waveformNumber).payload (m.wfSSG b.waveformNumber).payload) &&
  a.toneNoiseEnabled == b.toneNoiseEnabled &&
  (!a.toneNoiseEnabled ||
    cmdSeqValueEq (m.tnSSG a.toneNoiseNumber).payload (m.tnSSG b.toneNoiseNumber).payload) &&
  a.envelopeEnabled == b.envelopeEnabled &&
  (!a.envelopeEnabled ||
    cmdSeqValueEq (m.envSSG a.envelopeNumber).payload (m.envSSG b.envelopeNumber).payload) &&
  a.arpeggioEnabled == b.arpeggioEnabled &&
  (!a.arpeggioEnabled ||
    cmdSeqValueEq (m.arpSSG a.arpeggioNumber).payload (m.arpSSG b.arpeggioNumber).payload) &&
  a.pitchEnabled == b.pitchEnabled &&
  (!a.pitchEnabled ||
    cmdSeqValueEq (m.ptSSG a.pitchNumber).payload (m.ptSSG b.pitchNumber).payload)

/-- `equalPropertiesADPCM` (end of part_002): the waveform payloads are
always compared, the other references only when enabled. -/
def equalPropertiesADPCM (m : InstrumentsManager) (a b : InstrumentADPCM) : Bool :=
  waveformADPCMValueEq (m.wfADPCM a.waveformNumber).payload
    (m.wfADPCM b.waveformNumber).payload &&
  a.envelopeEnabled == b.envelopeEnabled &&
  (!a.envelopeEnabled ||
    cmdSeqValueEq (m.envADPCM a.envelopeNumber).payload
      (m.envADPCM b.envelopeNumber).payload) &&
  a.arpeggioEnabled == b.arpeggioEnabled &&
  (!a.arpeggioEnabled ||
    cmdSeqValueEq (m.arpADPCM a.arpeggioNumber).payload
      (m.arpADPCM b.arpeggioNumber).payload) &&
  a.pitchEnabled == b.pitchEnabled &&
  (!a.pitchEnabled ||
    cmdSeqValueEq (m.ptADPCM a.pitchNumber).payload (m.ptADPCM b.pitchNumber).payload)

/-- The per-pair test of `checkDuplicateInstruments`: same sound source and
equal properties (DRUM-tagged entries never match). -/
def instrumentsEqual (m : InstrumentsManager) (i j : Nat) : Bool :=
  match m.insts i, m.insts j with
  | some (.fm a), some (.fm b) => m.equalPropertiesFM a b
  | some (.ssg a), some (.ssg b) => m.equalPropertiesSSG a b
  | some (.adpcm a), some (.adpcm b) => m.equalPropertiesADPCM a b
  | _, _ => false

/-- Grouping loop of `checkDuplicateInstruments` (lines 918-974): the first
remaining index seeds a group collecting every later index equal to it;
matched indices are removed from further consideration.  The fuel argument
(instantiated with the list length, which strictly bounds the rounds the
C++ loop makes) keeps the recursion structural. -/
def dupGroupsAux (m : InstrumentsManager) : Nat → List Nat → List (List Nat)
  | 0, _ => []
  | _, [] => []
  | fuel + 1, base :: rest =>
    let grouped := rest.filter (fun t => m.instrumentsEqual base t)
    let remaining := rest.filter (fun t => !m.instrumentsEqual base t)
    (if grouped.length > 0 then [base :: grouped] else []) ++
      dupGroupsAux m fuel remaining

/-- `InstrumentsManager::checkDuplicateInstruments`: partition the entried
instrument numbers into groups of property-equal instruments, reporting the
groups with more than one member. -/
def checkDuplicateInstruments (m : InstrumentsManager) : List (List Nat) :=
  dupGroupsAux m (getEntriedInstrumentIndices m).length (getEntriedInstrumentIndices m)

end InstrumentsManager

/-! ## Reference-set invariant: pointing predicates and the invariant -/

/-- Does an instrument reference FM envelope slot `s` (the FM envelope is
always enabled)? -/
def fmEnvPoints : AbstractInstrument → Nat → Bool
  | .fm f, s => f.envelopeNumber == s
  | _, _ => false

/-- Does an instrument reference FM LFO slot `s` with the LFO enabled? -/
def fmLfoPoints : AbstractInstrument → Nat → Bool
  | .fm f, s => f.lfoEnabled && f.lfoNumber == s
  | _, _ => false

/-- Does an instrument reference operator-sequence slot `s` of parameter `p`
with that sequence enabled? -/
def fmOpSeqPoints (p : FMEnvelopeParameter) : AbstractInstrument → Nat → Bool
  | .fm f, s => f.opSeqEnabled p && f.opSeqNumber p == s
  | _, _ => false

/-- Does an instrument reference FM arpeggio slot `s` through some enabled
operator type? -/
def fmArpPoints : AbstractInstrument → Nat → Bool
  | .fm f, s => fmOpTypes.any (fun t => f.arpEnabled t && f.arpNumber t == s)
  | _, _ => false

/-- Does an instrument reference FM pitch slot `s` through some enabled
operator type? -/
def fmPtPoints : AbstractInstrument → Nat → Bool
  | .fm f, s => fmOpTypes.any (fun t => f.ptEnabled t && f.ptNumber t == s)
  | _, _ => false

/-- Does an instrument reference SSG waveform slot `s` enabled? -/
def ssgWfPoints : AbstractInstrument → Nat → Bool
  | .ssg i, s => i.waveformEnabled && i.waveformNumber == s
  | _, _ => false

/-- Does an instrument reference SSG tone/noise slot `s` enabled? -/
def ssgTnPoints : AbstractInstrument → Nat → Bool
  | .ssg i, s => i.toneNoiseEnabled && i.toneNoiseNumber == s
  | _, _ => false

/-- Does an instrument reference SSG envelope slot `s` enabled? -/
def ssgEnvPoints : AbstractInstrument → Nat → Bool
  | .ssg i, s => i.envelopeEnabled && i.envelopeNumber == s
  | _, _ => false

/-- Does an instrument reference SSG arpeggio slot `s` enabled? -/
def ssgArpPoints : AbstractInstrument → Nat → Bool
  | .ssg i, s => i.arpeggioEnabled && i.arpeggioNumber == s
  | _, _ => false

/-- Does an instrument reference SSG pitch slot `s` enabled? -/
def ssgPtPoints : AbstractInstrument → Nat → Bool
  | .ssg i, s => i.pitchEnabled && i.pitchNumber == s
  | _, _ => false

/-- Does an instrument reference ADPCM waveform slot `s` (always enabled)? -/
def adpcmWfPoints : AbstractInstrument → Nat → Bool
  | .adpcm a, s => a.waveformNumber == s
  | _, _ => false

/-- Does an instrument reference ADPCM envelope slot `s` enabled? -/
def adpcmEnvPoints : AbstractInstrument → Nat → Bool
  | .adpcm a, s => a.envelopeEnabled && a.envelopeNumber == s
  | _, _ => false

/-- Does an instrument reference ADPCM arpeggio slot `s` enabled? -/
def adpcmArpPoints : AbstractInstrument → Nat → Bool
  | .adpcm a, s => a.arpeggioEnabled && a.arpeggioNumber == s
  | _, _ => false

/-- Does an instrument reference ADPCM pitch slot `s` enabled? -/
def adpcmPtPoints : AbstractInstrument → Nat → Bool
  | .adpcm a, s => a.pitchEnabled && a.pitchNumber == s
  | _, _ => false

/-- The set of instrument numbers currently stored in the table that point
at slot `s` with the given reference kind enabled. -/
def refsOf (insts : Nat → Option AbstractInstrument)
    (points : AbstractInstrument → Nat → Bool) (s : Nat) : Finset ℕ :=
  (Finset.range 128).filter (fun i => ((insts i).elim false (fun a => points a s)) = true)

/-- A pool is in sync with the instrument table when each slot's reference
set is exactly the set of pointing instrument numbers. -/
def PoolSync (pool : Pool π) (insts : Nat → Option AbstractInstrument)
    (points : AbstractInstrument → Nat → Bool) : Prop :=
  ∀ s, s < 128 → (pool s).users = refsOf insts points s

/-- The reference-count invariant: every slot of every pool carries exactly
the numbers of the stored instruments that reference it (with the FM
envelope and the ADPCM waveform counting as always enabled). -/
structure Inv (m : InstrumentsManager) : Prop where
  envFM : PoolSync m.envFM m.insts fmEnvPoints
  lfoFM : PoolSync m.lfoFM m.insts fmLfoPoints
  opSeqFM : ∀ p, p ∈ envFMParams → PoolSync (m.opSeqFM p) m.insts (fmOpSeqPoints p)
  arpFM : PoolSync m.arpFM m.insts fmArpPoints
  ptFM : PoolSync m.ptFM m.insts fmPtPoints
  wfSSG : PoolSync m.wfSSG m.insts ssgWfPoints
  tnSSG : PoolSync m.tnSSG m.insts ssgTnPoints
  envSSG : PoolSync m.envSSG m.insts ssgEnvPoints
  arpSSG : PoolSync m.arpSSG m.insts ssgArpPoints
  ptSSG : PoolSync m.ptSSG m.insts ssgPtPoints
  wfADPCM : PoolSync m.wfADPCM m.insts adpcmWfPoints
  envADPCM : PoolSync m.envADPCM m.insts adpcmEnvPoints
  arpADPCM : PoolSync m.arpADPCM m.insts adpcmArpPoints
  ptADPCM : PoolSync m.ptADPCM m.insts adpcmPtPoints

/-- The manager operations named by the reference-count claim: instrument
add/remove/clone/deep-clone and the property set/enable (register and
deregister) operations, together with representative payload edits. -/
inductive MgrOp
  | addInstrument (n : Int) (source : SoundSource) (name : String)
  | removeInstrument (n : Nat)
  | cloneInstrument (c r : Nat)
  | deepCloneInstrument (c r : Nat)
  | setInstrumentFMEnvelope (i e : Nat)
  | setInstrumentFMLFOEnabled (i : Nat) (b : Bool)
  | setInstrumentFMLFO (i l : Nat)
  | setInstrumentFMOperatorSequenceEnabled (i : Nat) (p : FMEnvelopeParameter) (b : Bool)
  | setInstrumentFMOperatorSequence (i : Nat) (p : FMEnvelopeParameter) (x : Nat)
  | setInstrumentFMArpeggioEnabled (i : Nat) (t : FMOperatorType) (b : Bool)
  | setInstrumentFMArpeggio (i : Nat) (t : FMOperatorType) (x : Nat)
  | setInstrumentFMPitchEnabled (i : Nat) (t : FMOperatorType) (b : Bool)
  | setInstrumentFMPitch (i : Nat) (t : FMOperatorType) (x : Nat)
  | setInstrumentFMEnvelopeResetEnabled (i : Nat) (t : FMOperatorType) (b : Bool)
  | setInstrumentSSGWaveformEnabled (i : Nat) (b : Bool)
  | setInstrumentSSGWaveform (i x : Nat)
  | setInstrumentSSGToneNoiseEnabled (i : Nat) (b : Bool)
  | setInstrumentSSGToneNoise (i x : Nat)
  | setInstrumentSSGEnvelopeEnabled (i : Nat) (b : Bool)
  | setInstrumentSSGEnvelope (i x : Nat)
  | setInstrumentSSGArpeggioEnabled (i : Nat) (b : Bool)
  | setInstrumentSSGArpeggio (i x : Nat)
  | setInstrumentSSGPitchEnabled (i : Nat) (b : Bool)
  | setInstrumentSSGPitch (i x : Nat)
  | setInstrumentADPCMWaveform (i x : Nat)
  | setInstrumentADPCMEnvelopeEnabled (i : Nat) (b : Bool)
  | setInstrumentADPCMEnvelope (i x : Nat)
  | setInstrumentADPCMArpeggioEnabled (i : Nat) (b : Bool)
  | setInstrumentADPCMArpeggio (i x : Nat)
  | setInstrumentADPCMPitchEnabled (i : Nat) (b : Bool)
  | setInstrumentADPCMPitch (i x : Nat)
  | setEnvelopeFMParameter (e : Nat) (p : FMEnvelopeParameter) (v : Int)
  | setEnvelopeFMOperatorEnabled (e : Nat) (o : Fin 4) (b : Bool)
  | addArpeggioFMSequenceCommand (a : Nat) (ty dt : Int)
  | setWaveformADPCMRootKeyNumber (w : Nat) (v : Int)

/-- Apply one manager operation. -/
def applyOp (m : InstrumentsManager) : MgrOp → InstrumentsManager
  | .addInstrument n source name => m.addInstrument n source name
  | .removeInstrument n => m.removeInstrument n
  | .cloneInstrument c r => m.cloneInstrument c r
  | .deepCloneInstrument c r => m.deepCloneInstrument c r
  | .setInstrumentFMEnvelope i e => m.setInstrumentFMEnvelope i e
  | .setInstrumentFMLFOEnabled i b => m.setInstrumentFMLFOEnabled i b
  | .setInstrumentFMLFO i l => m.setInstrumentFMLFO i l
  | .setInstrumentFMOperatorSequenceEnabled i p b =>
      m.setInstrumentFMOperatorSequenceEnabled i p b
  | .setInstrumentFMOperatorSequence i p x => m.setInstrumentFMOperatorSequence i p x
  | .setInstrumentFMArpeggioEnabled i t b => m.setInstrumentFMArpeggioEnabled i t b
  | .setInstrumentFMArpeggio i t x => m.setInstrumentFMArpeggio i t x
  | .setInstrumentFMPitchEnabled i t b => m.setInstrumentFMPitchEnabled i t b
  | .setInstrumentFMPitch i t x => m.setInstrumentFMPitch i t x
  | .setInstrumentFMEnvelopeResetEnabled i t b =>
      m.setInstrumentFMEnvelopeResetEnabled i t b
  | .setInstrumentSSGWaveformEnabled i b => m.setInstrumentSSGWaveformEnabled i b
  | .setInstrumentSSGWaveform i x => m.setInstrumentSSGWaveform i x
  | .setInstrumentSSGToneNoiseEnabled i b => m.setInstrumentSSGToneNoiseEnabled i b
  | .setInstrumentSSGToneNoise i x => m.setInstrumentSSGToneNoise i x
  | .setInstrumentSSGEnvelopeEnabled i b => m.setInstrumentSSGEnvelopeEnabled i b
  | .setInstrumentSSGEnvelope i x => m.setInstrumentSSGEnvelope i x
  | .setInstrumentSSGArpeggioEnabled i b => m.setInstrumentSSGArpeggioEnabled i b
  | .setInstrumentSSGArpeggio i x => m.setInstrumentSSGArpeggio i x
  | .setInstrumentSSGPitchEnabled i b => m.setInstrumentSSGPitchEnabled i b
  | .setInstrumentSSGPitch i x => m.setInstrumentSSGPitch i x
  | .setInstrumentADPCMWaveform i x => m.setInstrumentADPCMWaveform i x
  | .setInstrumentADPCMEnvelopeEnabled i b => m.setInstrumentADPCMEnvelopeEnabled i b
  | .setInstrumentADPCMEnvelope i x => m.setInstrumentADPCMEnvelope i x
  | .setInstrumentADPCMArpeggioEnabled i b => m.setInstrumentADPCMArpeggioEnabled i b
  | .setInstrumentADPCMArpeggio i x => m.setInstrumentADPCMArpeggio i x
  | .setInstrumentADPCMPitchEnabled i b => m.setInstrumentADPCMPitchEnabled i b
  | .setInstrumentADPCMPitch i x => m.setInstrumentADPCMPitch i x
  | .setEnvelopeFMParameter e p v => m.setEnvelopeFMParameter e p v
  | .setEnvelopeFMOperatorEnabled e o b => m.setEnvelopeFMOperatorEnabled e o b
  | .addArpeggioFMSequenceCommand a ty dt => m.addArpeggioFMSequenceCommand a ty dt
  | .setWaveformADPCMRootKeyNumber w v => m.setWaveformADPCMRootKeyNumber w v

/-- Apply a sequence of manager operations from the left. -/
def applyOps (m : InstrumentsManager) (l : List MgrOp) : InstrumentsManager :=
  l.foldl applyOp m

/-- Is there a stored FM instrument at this table entry? -/
def storedFM (m : InstrumentsManager) (i : Nat) : Bool :=
  match m.insts i with
  | some (.fm _) => true
  | _ => false

/-- Is there a stored SSG instrument at this table entry? -/
def storedSSG (m : InstrumentsManager) (i : Nat) : Bool :=
  match m.insts i with
  | some (.ssg _) => true
  | _ => false

/-- Is there a stored ADPCM instrument at this table entry? -/
def storedADPCM (m : InstrumentsManager) (i : Nat) : Bool :=
  match m.insts i with
  | some (.adpcm _) => true
  | _ => false

/-- No other enabled operator type of instrument `i` shares the arpeggio
slot referenced by operator type `t` (deregistering that slot is then
safe). -/
def fmArpAliasFree (m : InstrumentsManager) (i : Nat) (t : FMOperatorType) : Bool :=
  match m.insts i with
  | some (.fm f) =>
    fmOpTypes.all (fun u => u == t || !(f.arpEnabled u && f.arpNumber u == f.arpNumber t))
  | _ => false

/-- No other enabled operator type of instrument `i` shares the pitch slot
referenced by operator type `t`. -/
def fmPtAliasFree (m : InstrumentsManager) (i : Nat) (t : FMOperatorType) : Bool :=
  match m.insts i with
  | some (.fm f) =>
    fmOpTypes.all (fun u => u == t || !(f.ptEnabled u && f.ptNumber u == f.ptNumber t))
  | _ => false

/-- Does some slot of the pool have an empty reference set (a slot the
fresh-slot clone scan can claim)? -/
def poolHasFree (pool : Pool π) : Bool :=
  (List.range 128).any (fun s => !(pool s).isUserInstrument)

/-- Every pool `deepCloneInstrument` will clone into has a free slot (in
the C++ source an exhausted pool would make the clone index past the end
of the array, an out-of-bounds access). -/
def deepCloneFreeOK (m : InstrumentsManager) (r : Nat) : Bool :=
  match m.insts r with
  | some (.fm f) =>
    poolHasFree m.envFM &&
    (!f.lfoEnabled || poolHasFree m.lfoFM) &&
    envFMParams.all (fun p => !f.opSeqEnabled p || poolHasFree (m.opSeqFM p)) &&
    (fmOpTypes.all (fun t => !f.arpEnabled t) || poolHasFree m.arpFM) &&
    (fmOpTypes.all (fun t => !f.ptEnabled t) || poolHasFree m.ptFM)
  | some (.ssg i) =>
    (!i.waveformEnabled || poolHasFree m.wfSSG) &&
    (!i.toneNoiseEnabled || poolHasFree m.tnSSG) &&
    (!i.envelopeEnabled || poolHasFree m.envSSG) &&
    (!i.arpeggioEnabled || poolHasFree m.arpSSG) &&
    (!i.pitchEnabled || poolHasFree m.ptSSG)
  | some (.adpcm a) =>
    poolHasFree m.wfADPCM &&
    (!a.envelopeEnabled || poolHasFree m.envADPCM) &&
    (!a.arpeggioEnabled || poolHasFree m.arpADPCM) &&
    (!a.pitchEnabled || poolHasFree m.ptADPCM)
  | none => true

/-- Validity of one operation in the current state: targets of add and
clone operations are empty, setter targets exist with the right sound
source and in-range slot indices, operator-sequence parameters are among
the 38 pooled parameters, deep clones have a free slot in every pool they
clone into, and an FM arpeggio or pitch deregistration never touches a
slot another enabled operator type of the same instrument still points
at. -/
def validOp (m : InstrumentsManager) : MgrOp → Bool
  | .addInstrument n _ _ => decide (n < 0) || decide (128 ≤ n) || (m.insts n.toNat).isNone
  | .removeInstrument n => decide (n < 128) && (m.insts n).isSome
  | .cloneInstrument c r =>
    decide (c < 128) && decide (r < 128) && (m.insts c).isNone && (m.insts r).isSome
  | .deepCloneInstrument c r =>
    decide (c < 128) && decide (r < 128) && (m.insts c).isNone && (m.insts r).isSome &&
      deepCloneFreeOK m r
  | .setInstrumentFMEnvelope i e => storedFM m i && decide (i < 128) && decide (e < 128)
  | .setInstrumentFMLFOEnabled i _ => storedFM m i && decide (i < 128)
  | .setInstrumentFMLFO i l => storedFM m i && decide (i < 128) && decide (l < 128)
  | .setInstrumentFMOperatorSequenceEnabled i p _ =>
    storedFM m i && decide (i < 128) && decide (p ∈ envFMParams)
  | .setInstrumentFMOperatorSequence i p x =>
    storedFM m i && decide (i < 128) && decide (x < 128) && decide (p ∈ envFMParams)
  | .setInstrumentFMArpeggioEnabled i t b =>
    storedFM m i && decide (i < 128) && (b || fmArpAliasFree m i t)
  | .setInstrumentFMArpeggio i t x =>
    storedFM m i && decide (i < 128) && decide (x < 128) &&
      (match m.insts i with
       | some (.fm f) => !f.arpEnabled t || fmArpAliasFree m i t
       | _ => false)
  | .setInstrumentFMPitchEnabled i t b =>
    storedFM m i && decide (i < 128) && (b || fmPtAliasFree m i t)
  | .setInstrumentFMPitch i t x =>
    storedFM m i && decide (i < 128) && decide (x < 128) &&
      (match m.insts i with
       | some (.fm f) => !f.ptEnabled t || fmPtAliasFree m i t
       | _ => false)
  | .setInstrumentFMEnvelopeResetEnabled i _ _ => storedFM m i && decide (i < 128)
  | .setInstrumentSSGWaveformEnabled i _ => storedSSG m i && decide (i < 128)
  | .setInstrumentSSGWaveform i x => storedSSG m i && decide (i < 128) && decide (x < 128)
  | .setInstrumentSSGToneNoiseEnabled i _ => storedSSG m i && decide (i < 128)
  | .setInstrumentSSGToneNoise i x => storedSSG m i && decide (i < 128) && decide (x < 128)
  | .setInstrumentSSGEnvelopeEnabled i _ => storedSSG m i && decide (i < 128)
  | .setInstrumentSSGEnvelope i x => storedSSG m i && decide (i < 128) && decide (x < 128)
  | .setInstrumentSSGArpeggioEnabled i _ => storedSSG m i && decide (i < 128)
  | .setInstrumentSSGArpeggio i x => storedSSG m i && decide (i < 128) && decide (x < 128)
  | .setInstrumentSSGPitchEnabled i _ => storedSSG m i && decide (i < 128)
  | .setInstrumentSSGPitch i x => storedSSG m i && decide (i < 128) && decide (x < 128)
  | .setInstrumentADPCMWaveform i x =>
    storedADPCM m i && decide (i < 128) && decide (x < 128)
  | .setInstrumentADPCMEnvelopeEnabled i _ => storedADPCM m i && decide (i < 128)
  | .setInstrumentADPCMEnvelope i x =>
    storedADPCM m i && decide (i < 128) && decide (x < 128)
  | .setInstrumentADPCMArpeggioEnabled i _ => storedADPCM m i && decide (i < 128)
  | .setInstrumentADPCMArpeggio i x =>
    storedADPCM m i && decide (i < 128) && decide (x < 128)
  | .setInstrumentADPCMPitchEnabled i _ => storedADPCM m i && decide (i < 128)
  | .setInstrumentADPCMPitch i x =>
    storedADPCM m i && decide (i < 128) && decide (x < 128)
  | .setEnvelopeFMParameter e _ _ => decide (e < 128)
  | .setEnvelopeFMOperatorEnabled e _ _ => decide (e < 128)
  | .addArpeggioFMSequenceCommand a _ _ => decide (a < 128)
  | .setWaveformADPCMRootKeyNumber w _ => decide (w < 128)

/-- Validity of a whole operation sequence, checked along the trajectory. -/
def ValidSeq (m : InstrumentsManager) : List MgrOp → Bool
  | [] => true
  | op :: l => validOp m op && ValidSeq (applyOp m op) l

/-- Two manager states with the same instrument table and the same
reference sets everywhere (they may differ in slot payloads); the
`findFirstAssignable` and fresh-slot clone scans only edit payloads, so
they relate their input to their output. -/
structure UsersEq (m₁ m₂ : InstrumentsManager) : Prop where
  insts : m₁.insts = m₂.insts
  envFM : ∀ s, (m₁.envFM s).users = (m₂.envFM s).users
  lfoFM : ∀ s, (m₁.lfoFM s).users = (m₂.lfoFM s).users
  opSeqFM : ∀ p s, (m₁.opSeqFM p s).users = (m₂.opSeqFM p s).users
  arpFM : ∀ s, (m₁.arpFM s).users = (m₂.arpFM s).users
  ptFM : ∀ s, (m₁.ptFM s).users = (m₂.ptFM s).users
  wfSSG : ∀ s, (m₁.wfSSG s).users = (m₂.wfSSG s).users
  tnSSG : ∀ s, (m₁.tnSSG s).users = (m₂.tnSSG s).users
  envSSG : ∀ s, (m₁.envSSG s).users = (m₂.envSSG s).users
  arpSSG : ∀ s, (m₁.arpSSG s).users = (m₂.arpSSG s).users
  ptSSG : ∀ s, (m₁.ptSSG s).users = (m₂.ptSSG s).users
  wfADPCM : ∀ s, (m₁.wfADPCM s).users = (m₂.wfADPCM s).users
  envADPCM : ∀ s, (m₁.envADPCM s).users = (m₂.envADPCM s).users
  arpADPCM : ∀ s, (m₁.arpADPCM s).users = (m₂.arpADPCM s).users
  ptADPCM : ∀ s, (m₁.ptADPCM s).users = (m₂.ptADPCM s).users

/-- Two distinct slots of one pool, so that a payload edit through either
slot index leaves the other slot's payload untouched. -/
def SlotIndependent (pool : Pool π) (x y : Nat) : Prop :=
  x ≠ y ∧
    (∀ f, ((pool.setPayload x f) y).payload = (pool y).payload) ∧
    (∀ f, ((pool.setPayload y f) x).payload = (pool x).payload)

/-- Stage names for the FM branch of `addInstrument` (the manager after the
envelope scan and registration). -/
def addFMm2 (m : InstrumentsManager) (n : Nat) : InstrumentsManager :=
  { (m.findFirstAssignableEnvelopeFM).2 with
    envFM := ((m.envFM.findFirstAssignable m.regardingUnedited
        EnvelopeFM.isEdited EnvelopeFM.clearParameters).2).registerUser
      ((m.findFirstAssignableEnvelopeFM).1.getD 127) n }

/-- The manager after the LFO scan of the FM `addInstrument` branch. -/
def addFMm3 (m : InstrumentsManager) (n : Nat) : InstrumentsManager :=
  ((addFMm2 m n).findFirstAssignableLFOFM).2

/-- One step of the operator-sequence scan fold of `addInstrument`. -/
def addFMStep (acc : (FMEnvelopeParameter → Nat) × InstrumentsManager)
    (p : FMEnvelopeParameter) : (FMEnvelopeParameter → Nat) × InstrumentsManager :=
  (Function.update acc.1 p (((acc.2.findFirstAssignableOperatorSequenceFM p).1).getD 127),
   (acc.2.findFirstAssignableOperatorSequenceFM p).2)

/-- The accumulated operator-sequence numbers and manager of the FM
`addInstrument` branch. -/
def addFMacc (m : InstrumentsManager) (n : Nat) :
    (FMEnvelopeParameter → Nat) × InstrumentsManager :=
  envFMParams.foldl addFMStep ((fun _ => 0), addFMm3 m n)

/-- The manager after the arpeggio scan of the FM `addInstrument` branch. -/
def addFMm5 (m : InstrumentsManager) (n : Nat) : InstrumentsManager :=
  (((addFMacc m n).2).findFirstAssignableArpeggioFM).2

/-- The manager after the pitch scan of the FM `addInstrument` branch. -/
def addFMm6 (m : InstrumentsManager) (n : Nat) : InstrumentsManager :=
  ((addFMm5 m n).findFirstAssignablePitchFM).2

/-- The FM instrument record built by `addInstrument`. -/
def addFMrec (m : InstrumentsManager) (n : Nat) (name : String) : InstrumentFM :=
  { name := name
    envelopeNumber := (m.findFirstAssignableEnvelopeFM).1.getD 127
    lfoNumber := ((addFMm2 m n).findFirstAssignableLFOFM).1.getD 127
    lfoEnabled := false
    opSeqNumber := (addFMacc m n).1
    opSeqEnabled := fun _ => false
    arpNumber := fun _ => (((addFMacc m n).2).findFirstAssignableArpeggioFM).1.getD 127
    arpEnabled := fun _ => false
    ptNumber := fun _ => ((addFMm5 m n).findFirstAssignablePitchFM).1.getD 127
    ptEnabled := fun _ => false
    envResetEnabled := fun _ => true }

/-- Stage names for the SSG branch of `addInstrument`. -/
def addSSGm1 (m : InstrumentsManager) : InstrumentsManager :=
  (m.findFirstAssignableWaveformSSG).2

/-- The manager after the tone/noise scan of the SSG branch. -/
def addSSGm2 (m : InstrumentsManager) : InstrumentsManager :=
  ((addSSGm1 m).findFirstAssignableToneNoiseSSG).2

/-- The manager after the envelope scan of the SSG branch. -/
def addSSGm3 (m : InstrumentsManager) : InstrumentsManager :=
  ((addSSGm2 m).findFirstAssignableEnvelopeSSG).2

/-- The manager after the arpeggio scan of the SSG branch. -/
def addSSGm4 (m : InstrumentsManager) : InstrumentsManager :=
  ((addSSGm3 m).findFirstAssignableArpeggioSSG).2

/-- The manager after the pitch scan of the SSG branch. -/
def addSSGm5 (m : InstrumentsManager) : InstrumentsManager :=
  ((addSSGm4 m).findFirstAssignablePitchSSG).2

/-- The SSG instrument record built by `addInstrument`. -/
def addSSGrec (m : InstrumentsManager) (name : String) : InstrumentSSG :=
  { name := name
    waveformNumber := (m.findFirstAssignableWaveformSSG).1.getD 127
    waveformEnabled := false
    toneNoiseNumber := ((addSSGm1 m).findFirstAssignableToneNoiseSSG).1.getD 127
    toneNoiseEnabled := false
    envelopeNumber := ((addSSGm2 m).findFirstAssignableEnvelopeSSG).1.getD 127
    envelopeEnabled := false
    arpeggioNumber := ((addSSGm3 m).findFirstAssignableArpeggioSSG).1.getD 127
    arpeggioEnabled := false
    pitchNumber := ((addSSGm4 m).findFirstAssignablePitchSSG).1.getD 127
    pitchEnabled := false }

/-- Stage names for the ADPCM branch of `addInstrument` (the manager after
the waveform scan and registration). -/
def addADPCMm2 (m : InstrumentsManager) (n : Nat) : InstrumentsManager :=
  { (m.findFirstAssignableWaveformADPCM).2 with
    wfADPCM := ((m.wfADPCM.findFirstAssignable m.regardingUnedited
        (fun w => w != defaultWaveformADPCM) (fun _ => defaultWaveformADPCM)).2).registerUser
      ((m.findFirstAssignableWaveformADPCM).1.getD 127) n }

/-- The manager after the envelope scan of the ADPCM branch. -/
def addADPCMm3 (m : InstrumentsManager) (n : Nat) : InstrumentsManager :=
  ((addADPCMm2 m n).findFirstAssignableEnvelopeADPCM).2

/-- The manager after the arpeggio scan of the ADPCM branch. -/
def addADPCMm4 (m : InstrumentsManager) (n : Nat) : InstrumentsManager :=
  ((addADPCMm3 m n).findFirstAssignableArpeggioADPCM).2

/-- The manager after the pitch scan of the ADPCM branch. -/
def addADPCMm5 (m : InstrumentsManager) (n : Nat) : InstrumentsManager :=
  ((addADPCMm4 m n).findFirstAssignablePitchADPCM).2

/-- The ADPCM instrument record built by `addInstrument`. -/
def addADPCMrec (m : InstrumentsManager) (n : Nat) (name : String) : InstrumentADPCM :=
  { name := name
    waveformNumber := (m.findFirstAssignableWaveformADPCM).1.getD 127
    envelopeNumber := ((addADPCMm2 m n).findFirstAssignableEnvelopeADPCM).1.getD 127
    envelopeEnabled := false
    arpeggioNumber := ((addADPCMm3 m n).findFirstAssignableArpeggioADPCM).1.getD 127
    arpeggioEnabled := false
    pitchNumber := ((addADPCMm4 m n).findFirstAssignablePitchADPCM).1.getD 127
    pitchEnabled := false }

/-- Stage names for the FM branch of `removeInstrument` (after the envelope
deregistration). -/
def remFMm1 (m : InstrumentsManager) (fm : InstrumentFM) (n : Nat) : InstrumentsManager :=
  { m with envFM := m.envFM.deregisterUser fm.envelopeNumber n }

/-- After the conditional LFO deregistration. -/
def remFMm2 (m : InstrumentsManager) (fm : InstrumentFM) (n : Nat) : InstrumentsManager :=
  if fm.lfoEnabled then
    { remFMm1 m fm n with lfoFM := (remFMm1 m fm n).lfoFM.deregisterUser fm.lfoNumber n }
  else remFMm1 m fm n

/-- One step of the operator-sequence deregistration fold. -/
def remFMstep (fm : InstrumentFM) (n : Nat) (acc : InstrumentsManager)
    (p : FMEnvelopeParameter) : InstrumentsManager :=
  if fm.opSeqEnabled p then
    { acc with opSeqFM := (Function.update acc.opSeqFM p
        ((acc.opSeqFM p).deregisterUser (fm.opSeqNumber p) n)) }
  else acc

/-- After the operator-sequence deregistration fold. -/
def remFMm3 (m : InstrumentsManager) (fm : InstrumentFM) (n : Nat) : InstrumentsManager :=
  envFMParams.foldl (remFMstep fm n) (remFMm2 m fm n)

/-- One step of the arpeggio/pitch deregistration fold. -/
def remFMstep2 (fm : InstrumentFM) (n : Nat) (acc : InstrumentsManager)
    (t : FMOperatorType) : InstrumentsManager :=
  let acc1 :=
    if fm.arpEnabled t then
      { acc with arpFM := acc.arpFM.deregisterUser (fm.arpNumber t) n }
    else acc
  if fm.ptEnabled t then
    { acc1 with ptFM := acc1.ptFM.deregisterUser (fm.ptNumber t) n }
  else acc1

/-- After the arpeggio/pitch deregistration fold. -/
def remFMm4 (m : InstrumentsManager) (fm : InstrumentFM) (n : Nat) : InstrumentsManager :=
  fmOpTypes.foldl (remFMstep2 fm n) (remFMm3 m fm n)

/-- Stage names for the SSG branch of `removeInstrument`. -/
def remSSGm1 (m : InstrumentsManager) (s0 : InstrumentSSG) (n : Nat) : InstrumentsManager :=
  if s0.waveformEnabled then
    { m with wfSSG := m.wfSSG.deregisterUser s0.waveformNumber n }
  else m

/-- After the conditional tone/noise deregistration. -/
def remSSGm2 (m : InstrumentsManager) (s0 : InstrumentSSG) (n : Nat) : InstrumentsManager :=
  if s0.toneNoiseEnabled then
    { remSSGm1 m s0 n with tnSSG := (remSSGm1 m s0 n).tnSSG.deregisterUser s0.toneNoiseNumber n }
  else remSSGm1 m s0 n

/-- After the conditional envelope deregistration. -/
def remSSGm3 (m : InstrumentsManager) (s0 : InstrumentSSG) (n : Nat) : InstrumentsManager :=
  if s0.envelopeEnabled then
    { remSSGm2 m s0 n with envSSG := (remSSGm2 m s0 n).envSSG.deregisterUser s0.envelopeNumber n }
  else remSSGm2 m s0 n

/-- After the conditional arpeggio deregistration. -/
def remSSGm4 (m : InstrumentsManager) (s0 : InstrumentSSG) (n : Nat) : InstrumentsManager :=
  if s0.arpeggioEnabled then
    { remSSGm3 m s0 n with arpSSG := (remSSGm3 m s0 n).arpSSG.deregisterUser s0.arpeggioNumber n }
  else remSSGm3 m s0 n

/-- After the conditional pitch deregistration. -/
def remSSGm5 (m : InstrumentsManager) (s0 : InstrumentSSG) (n : Nat) : InstrumentsManager :=
  if s0.pitchEnabled then
    { remSSGm4 m s0 n with ptSSG := (remSSGm4 m s0 n).ptSSG.deregisterUser s0.pitchNumber n }
  else remSSGm4 m s0 n

/-- Stage names for the ADPCM branch of `removeInstrument` (after the
always-enabled waveform deregistration). -/
def remADPCMm1 (m : InstrumentsManager) (a0 : InstrumentADPCM) (n : Nat) :
    InstrumentsManager :=
  { m with wfADPCM := m.wfADPCM.deregisterUser a0.waveformNumber n }

/-- After the conditional envelope deregistration. -/
def remADPCMm2 (m : InstrumentsManager) (a0 : InstrumentADPCM) (n : Nat) :
    InstrumentsManager :=
  if a0.envelopeEnabled then
    { remADPCMm1 m a0 n with
      envADPCM := (remADPCMm1 m a0 n).envADPCM.deregisterUser a0.envelopeNumber n }
  else remADPCMm1 m a0 n

/-- After the conditional arpeggio deregistration. -/
def remADPCMm3 (m : InstrumentsManager) (a0 : InstrumentADPCM) (n : Nat) :
    InstrumentsManager :=
  if a0.arpeggioEnabled then
    { remADPCMm2 m a0 n with
      arpADPCM := (remADPCMm2 m a0 n).arpADPCM.deregisterUser a0.arpeggioNumber n }
  else remADPCMm2 m a0 n

/-- After the conditional pitch deregistration. -/
def remADPCMm4 (m : InstrumentsManager) (a0 : InstrumentADPCM) (n : Nat) :
    InstrumentsManager :=
  if a0.pitchEnabled then
    { remADPCMm3 m a0 n with
      ptADPCM := (remADPCMm3 m a0 n).ptADPCM.deregisterUser a0.pitchNumber n }
  else remADPCMm3 m a0 n

/-- What the operator-sequence deregistration fold does: every pool other
than the listed operator-sequence pools is untouched, and a listed pool is
deregistered exactly when its parameter is enabled. -/
def RemOpSeqRel (fm : InstrumentFM) (n : Nat) (l : List FMEnvelopeParameter)
    (m0 M : InstrumentsManager) : Prop :=
  M.insts = m0.insts ∧ M.envFM = m0.envFM ∧ M.lfoFM = m0.lfoFM ∧
  M.arpFM = m0.arpFM ∧ M.ptFM = m0.ptFM ∧ M.wfSSG = m0.wfSSG ∧ M.tnSSG = m0.tnSSG ∧
  M.envSSG = m0.envSSG ∧ M.arpSSG = m0.arpSSG ∧ M.ptSSG = m0.ptSSG ∧
  M.wfADPCM = m0.wfADPCM ∧ M.envADPCM = m0.envADPCM ∧ M.arpADPCM = m0.arpADPCM ∧
  M.ptADPCM = m0.ptADPCM ∧
  (∀ q, q ∉ l → M.opSeqFM q = m0.opSeqFM q) ∧
  (∀ q, q ∈ l → M.opSeqFM q =
    if fm.opSeqEnabled q then (m0.opSeqFM q).deregisterUser (fm.opSeqNumber q) n
    else m0.opSeqFM q)

/-- What the arpeggio/pitch deregistration fold does: every other pool is
untouched, and the number `n` is erased from exactly the slots pointed at
by a listed enabled operator type. -/
def RemArpPtRel (fm : InstrumentFM) (n : Nat) (l : List FMOperatorType)
    (m0 M : InstrumentsManager) : Prop :=
  M.insts = m0.insts ∧ M.envFM = m0.envFM ∧ M.lfoFM = m0.lfoFM ∧
  M.opSeqFM = m0.opSeqFM ∧ M.wfSSG = m0.wfSSG ∧ M.tnSSG = m0.tnSSG ∧
  M.envSSG = m0.envSSG ∧ M.arpSSG = m0.arpSSG ∧ M.ptSSG = m0.ptSSG ∧
  M.wfADPCM = m0.wfADPCM ∧ M.envADPCM = m0.envADPCM ∧ M.arpADPCM = m0.arpADPCM ∧
  M.ptADPCM = m0.ptADPCM ∧
  (∀ s, (M.arpFM s).users =
    if (l.any (fun t => fm.arpEnabled t && (fm.arpNumber t == s))) = true
    then ((m0.arpFM s).users).erase n else (m0.arpFM s).users) ∧
  (∀ s, (M.ptFM s).users =
    if (l.any (fun t => fm.ptEnabled t && (fm.ptNumber t == s))) = true
    then ((m0.ptFM s).users).erase n else (m0.ptFM s).users)

/-- Stage names for the FM branch of `cloneInstrument`: envelope setter. -/
def cloFMm1 (m0 : InstrumentsManager) (refFm : InstrumentFM) (c : Nat) :
    InstrumentsManager :=
  m0.setInstrumentFMEnvelope c refFm.envelopeNumber

/-- After the LFO number setter. -/
def cloFMm2 (m0 : InstrumentsManager) (refFm : InstrumentFM) (c : Nat) :
    InstrumentsManager :=
  (cloFMm1 m0 refFm c).setInstrumentFMLFO c refFm.lfoNumber

/-- After the conditional LFO enable. -/
def cloFMm3 (m0 : InstrumentsManager) (refFm : InstrumentFM) (c : Nat) :
    InstrumentsManager :=
  if refFm.lfoEnabled then (cloFMm2 m0 refFm c).setInstrumentFMLFOEnabled c true
  else cloFMm2 m0 refFm c

/-- After the operator-sequence setter fold. -/
def cloFMm4 (m0 : InstrumentsManager) (refFm : InstrumentFM) (c : Nat) :
    InstrumentsManager :=
  envFMParams.foldl
    (fun (acc : InstrumentsManager) p =>
      let acc1 := acc.setInstrumentFMOperatorSequence c p (refFm.opSeqNumber p)
      if refFm.opSeqEnabled p then
        acc1.setInstrumentFMOperatorSequenceEnabled c p true
      else acc1)
    (cloFMm3 m0 refFm c)

/-- After the arpeggio/pitch/reset setter fold: the full FM shallow clone. -/
def cloFMm5 (m0 : InstrumentsManager) (refFm : InstrumentFM) (c : Nat) :
    InstrumentsManager :=
  fmOpTypes.foldl
    (fun (acc : InstrumentsManager) t =>
      let a1 := acc.setInstrumentFMArpeggio c t (refFm.arpNumber t)
      let a2 := if refFm.arpEnabled t then
                  a1.setInstrumentFMArpeggioEnabled c t true
                else a1
      let a3 := a2.setInstrumentFMPitch c t (refFm.ptNumber t)
      let a4 := if refFm.ptEnabled t then
                  a3.setInstrumentFMPitchEnabled c t true
                else a3
      a4.setInstrumentFMEnvelopeResetEnabled c t (refFm.envResetEnabled t))
    (cloFMm4 m0 refFm c)

/-- Stage names for the SSG branch of `cloneInstrument`. -/
def cloSSGm1 (m0 : InstrumentsManager) (refSsg : InstrumentSSG) (c : Nat) :
    InstrumentsManager :=
  m0.setInstrumentSSGWaveform c refSsg.waveformNumber

/-- After the conditional waveform enable. -/
def cloSSGm2 (m0 : InstrumentsManager) (refSsg : InstrumentSSG) (c : Nat) :
    InstrumentsManager :=
  if refSsg.waveformEnabled then
    (cloSSGm1 m0 refSsg c).setInstrumentSSGWaveformEnabled c true
  else cloSSGm1 m0 refSsg c

/-- After the tone/noise setter. -/
def cloSSGm3 (m0 : InstrumentsManager) (refSsg : InstrumentSSG) (c : Nat) :
    InstrumentsManager :=
  (cloSSGm2 m0 refSsg c).setInstrumentSSGToneNoise c refSsg.toneNoiseNumber

/-- After the conditional tone/noise enable. -/
def cloSSGm4 (m0 : InstrumentsManager) (refSsg : InstrumentSSG) (c : Nat) :
    InstrumentsManager :=
  if refSsg.toneNoiseEnabled then
    (cloSSGm3 m0 refSsg c).setInstrumentSSGToneNoiseEnabled c true
  else cloSSGm3 m0 refSsg c

/-- After the envelope setter. -/
def cloSSGm5 (m0 : InstrumentsManager) (refSsg : InstrumentSSG) (c : Nat) :
    InstrumentsManager :=
  (cloSSGm4 m0 refSsg c).setInstrumentSSGEnvelope c refSsg.envelopeNumber

/-- After the conditional envelope enable. -/
def cloSSGm6 (m0 : InstrumentsManager) (refSsg : InstrumentSSG) (c : Nat) :
    InstrumentsManager :=
  if refSsg.envelopeEnabled then
    (cloSSGm5 m0 refSsg c).setInstrumentSSGEnvelopeEnabled c true
  else cloSSGm5 m0 refSsg c

/-- After the arpeggio setter. -/
def cloSSGm7 (m0 : InstrumentsManager) (refSsg : InstrumentSSG) (c : Nat) :
    InstrumentsManager :=
  (cloSSGm6 m0 refSsg c).setInstrumentSSGArpeggio c refSsg.arpeggioNumber

/-- After the conditional arpeggio enable. -/
def cloSSGm8 (m0 : InstrumentsManager) (refSsg : InstrumentSSG) (c : Nat) :
    InstrumentsManager :=
  if refSsg.arpeggioEnabled then
    (cloSSGm7 m0 refSsg c).setInstrumentSSGArpeggioEnabled c true
  else cloSSGm7 m0 refSsg c

/-- After the pitch setter. -/
def cloSSGm9 (m0 : InstrumentsManager) (refSsg : InstrumentSSG) (c : Nat) :
    InstrumentsManager :=
  (cloSSGm8 m0 refSsg c).setInstrumentSSGPitch c refSsg.pitchNumber

/-- After the conditional pitch enable: the full SSG shallow clone. -/
def cloSSGm10 (m0 : InstrumentsManager) (refSsg : InstrumentSSG) (c : Nat) :
    InstrumentsManager :=
  if refSsg.pitchEnabled then
    (cloSSGm9 m0 refSsg c).setInstrumentSSGPitchEnabled c true
  else cloSSGm9 m0 refSsg c

/-- Stage names for the ADPCM branch of `cloneInstrument`. -/
def cloADm1 (m0 : InstrumentsManager) (refAd : InstrumentADPCM) (c : Nat) :
    InstrumentsManager :=
  m0.setInstrumentADPCMWaveform c refAd.waveformNumber

/-- After the envelope setter. -/
def cloADm2 (m0 : InstrumentsManager) (refAd : InstrumentADPCM) (c : Nat) :
    InstrumentsManager :=
  (cloADm1 m0 refAd c).setInstrumentADPCMEnvelope c refAd.envelopeNumber

/-- After the conditional envelope enable. -/
def cloADm3 (m0 : InstrumentsManager) (refAd : InstrumentADPCM) (c : Nat) :
    InstrumentsManager :=
  if refAd.envelopeEnabled then
    (cloADm2 m0 refAd c).setInstrumentADPCMEnvelopeEnabled c true
  else cloADm2 m0 refAd c

/-- After the arpeggio setter. -/
def cloADm4 (m0 : InstrumentsManager) (refAd : InstrumentADPCM) (c : Nat) :
    InstrumentsManager :=
  (cloADm3 m0 refAd c).setInstrumentADPCMArpeggio c refAd.arpeggioNumber

/-- After the conditional arpeggio enable. -/
def cloADm5 (m0 : InstrumentsManager) (refAd : InstrumentADPCM) (c : Nat) :
    InstrumentsManager :=
  if refAd.arpeggioEnabled then
    (cloADm4 m0 refAd c).setInstrumentADPCMArpeggioEnabled c true
  else cloADm4 m0 refAd c

/-- After the pitch setter. -/
def cloADm6 (m0 : InstrumentsManager) (refAd : InstrumentADPCM) (c : Nat) :
    InstrumentsManager :=
  (cloADm5 m0 refAd c).setInstrumentADPCMPitch c refAd.pitchNumber

/-- After the conditional pitch enable: the full ADPCM shallow clone. -/
def cloADm7 (m0 : InstrumentsManager) (refAd : InstrumentADPCM) (c : Nat) :
    InstrumentsManager :=
  if refAd.pitchEnabled then
    (cloADm6 m0 refAd c).setInstrumentADPCMPitchEnabled c true
  else cloADm6 m0 refAd c

/-- Table entry `c` holds an FM instrument whose arpeggio and pitch
references are all still disabled (the state of a freshly added instrument
while the clone setters run). -/
def cloneReady (c : Nat) (m : InstrumentsManager) : Prop :=
  ∃ f, m.insts c = some (.fm f) ∧
    (∀ t, f.arpEnabled t = false) ∧ (∀ t, f.ptEnabled t = false)

/-- Stage names for the FM branch of `deepCloneInstrument`: deregister the
provisional envelope registration made by `addInstrument`. -/
def dcFMm1 (m0 : InstrumentsManager) (f0 : InstrumentFM) (c : Nat) :
    InstrumentsManager :=
  { m0 with envFM := m0.envFM.deregisterUser f0.envelopeNumber c }

/-- The fresh-slot envelope clone. -/
def dcFMre (m0 : InstrumentsManager) (f0 refFm : InstrumentFM) (c : Nat) :
    Nat × InstrumentsManager :=
  (dcFMm1 m0 f0 c).cloneFMEnvelope refFm.envelopeNumber

/-- After assigning the fresh envelope number to the clone. -/
def dcFMm2 (m0 : InstrumentsManager) (f0 refFm : InstrumentFM) (c : Nat) :
    InstrumentsManager :=
  InstrumentsManager.updateFM (dcFMre m0 f0 refFm c).2 c
    (fun f => { f with envelopeNumber := (dcFMre m0 f0 refFm c).1 })

/-- After registering the clone at the fresh envelope slot. -/
def dcFMm3 (m0 : InstrumentsManager) (f0 refFm : InstrumentFM) (c : Nat) :
    InstrumentsManager :=
  { dcFMm2 m0 f0 refFm c with
    envFM := (dcFMm2 m0 f0 refFm c).envFM.registerUser (dcFMre m0 f0 refFm c).1 c }

/-- After the conditional LFO deep clone. -/
def dcFMm4 (m0 : InstrumentsManager) (f0 refFm : InstrumentFM) (c : Nat) :
    InstrumentsManager :=
  if refFm.lfoEnabled then
    let ma := InstrumentsManager.updateFM (dcFMm3 m0 f0 refFm c) c (fun f => { f with lfoEnabled := true })
    let rl := ma.cloneFMLFO refFm.lfoNumber
    let mb := InstrumentsManager.updateFM rl.2 c (fun f => { f with lfoNumber := rl.1 })
    { mb with lfoFM := mb.lfoFM.registerUser rl.1 c }
  else dcFMm3 m0 f0 refFm c

/-- One step of the operator-sequence deep-clone fold. -/
def dcFMstep (refFm : InstrumentFM) (c : Nat) (acc : InstrumentsManager)
    (p : FMEnvelopeParameter) : InstrumentsManager :=
  if refFm.opSeqEnabled p then
    let ma := InstrumentsManager.updateFM acc c
      (fun f => { f with opSeqEnabled := Function.update f.opSeqEnabled p true })
    let rs := ma.cloneFMOperatorSequence p (refFm.opSeqNumber p)
    let mb := InstrumentsManager.updateFM rs.2 c
      (fun f => { f with opSeqNumber := Function.update f.opSeqNumber p rs.1 })
    { mb with opSeqFM := (Function.update mb.opSeqFM p
        ((mb.opSeqFM p).registerUser rs.1 c)) }
  else acc

/-- After the operator-sequence deep-clone fold. -/
def dcFMm5 (m0 : InstrumentsManager) (f0 refFm : InstrumentFM) (c : Nat) :
    InstrumentsManager :=
  envFMParams.foldl (dcFMstep refFm c) (dcFMm4 m0 f0 refFm c)

/-- The enabled arpeggio operator types of the reference instrument. -/
def dcFMenArp (refFm : InstrumentFM) : List FMOperatorType :=
  fmOpTypes.filter (fun t => refFm.arpEnabled t)

/-- After enabling the clone's arpeggio flags. -/
def dcFMm6 (m0 : InstrumentsManager) (f0 refFm : InstrumentFM) (c : Nat) :
    InstrumentsManager :=
  (dcFMenArp refFm).foldl
    (fun (acc : InstrumentsManager) t =>
      InstrumentsManager.updateFM acc c
        (fun f => { f with arpEnabled := Function.update f.arpEnabled t true }))
    (dcFMm5 m0 f0 refFm c)

/-- The arpeggio clone fold: source-to-fresh-slot pairs and the manager. -/
def dcFMarpAcc (m0 : InstrumentsManager) (f0 refFm : InstrumentFM) (c : Nat) :
    List (Nat × Nat) × InstrumentsManager :=
  (InstrumentsManager.dedupFirst ((dcFMenArp refFm).map refFm.arpNumber)).foldl
    (fun (acc : List (Nat × Nat) × InstrumentsManager) a =>
      let r := acc.2.cloneFMArpeggio a
      (acc.1 ++ [(a, r.1)], r.2))
    ([], dcFMm6 m0 f0 refFm c)

/-- The arpeggio source-to-fresh-slot lookup. -/
def dcFMarpL (m0 : InstrumentsManager) (f0 refFm : InstrumentFM) (c : Nat) :
    Nat → Nat := fun a =>
  (((dcFMarpAcc m0 f0 refFm c).1.find? (fun pr => pr.1 == a)).map Prod.snd).getD 0

/-- After assigning and registering the fresh arpeggio slots. -/
def dcFMm7 (m0 : InstrumentsManager) (f0 refFm : InstrumentFM) (c : Nat) :
    InstrumentsManager :=
  fmOpTypes.foldl
    (fun (acc : InstrumentsManager) t =>
      if refFm.arpEnabled t then
        let n := dcFMarpL m0 f0 refFm c (refFm.arpNumber t)
        let ma := InstrumentsManager.updateFM acc c
          (fun f => { f with arpNumber := Function.update f.arpNumber t n })
        { ma with arpFM := ma.arpFM.registerUser n c }
      else acc)
    (dcFMarpAcc m0 f0 refFm c).2

/-- The enabled pitch operator types of the reference instrument. -/
def dcFMenPt (refFm : InstrumentFM) : List FMOperatorType :=
  fmOpTypes.filter (fun t => refFm.ptEnabled t)

/-- After enabling the clone's pitch flags. -/
def dcFMm8 (m0 : InstrumentsManager) (f0 refFm : InstrumentFM) (c : Nat) :
    InstrumentsManager :=
  (dcFMenPt refFm).foldl
    (fun (acc : InstrumentsManager) t =>
      InstrumentsManager.updateFM acc c
        (fun f => { f with ptEnabled := Function.update f.ptEnabled t true }))
    (dcFMm7 m0 f0 refFm c)

/-- The pitch clone fold. -/
def dcFMptAcc (m0 : InstrumentsManager) (f0 refFm : InstrumentFM) (c : Nat) :
    List (Nat × Nat) × InstrumentsManager :=
  (InstrumentsManager.dedupFirst ((dcFMenPt refFm).map refFm.ptNumber)).foldl
    (fun (acc : List (Nat × Nat) × InstrumentsManager) a =>
      let r := acc.2.cloneFMPitch a
      (acc.1 ++ [(a, r.1)], r.2))
    ([], dcFMm8 m0 f0 refFm c)

/-- The pitch source-to-fresh-slot lookup. -/
def dcFMptL (m0 : InstrumentsManager) (f0 refFm : InstrumentFM) (c : Nat) :
    Nat → Nat := fun a =>
  (((dcFMptAcc m0 f0 refFm c).1.find? (fun pr => pr.1 == a)).map Prod.snd).getD 0

/-- After assigning and registering the fresh pitch slots. -/
def dcFMm9 (m0 : InstrumentsManager) (f0 refFm : InstrumentFM) (c : Nat) :
    InstrumentsManager :=
  fmOpTypes.foldl
    (fun (acc : InstrumentsManager) t =>
      if refFm.ptEnabled t then
        let n := dcFMptL m0 f0 refFm c (refFm.ptNumber t)
        let ma := InstrumentsManager.updateFM acc c
          (fun f => { f with ptNumber := Function.update f.ptNumber t n })
        { ma with ptFM := ma.ptFM.registerUser n c }
      else acc)
    (dcFMptAcc m0 f0 refFm c).2

/-- After copying the envelope-reset flags: the full FM deep clone. -/
def dcFMm10 (m0 : InstrumentsManager) (f0 refFm : InstrumentFM) (c : Nat) :
    InstrumentsManager :=
  fmOpTypes.foldl
    (fun (acc : InstrumentsManager) t =>
      acc.setInstrumentFMEnvelopeResetEnabled c t (refFm.envResetEnabled t))
    (dcFMm9 m0 f0 refFm c)

/-- Stage names for the SSG branch of `deepCloneInstrument`: the conditional
waveform deep clone. -/
def dcSSGm1 (m0 : InstrumentsManager) (refSsg : InstrumentSSG) (c : Nat) :
    InstrumentsManager :=
  if refSsg.waveformEnabled then
    let ma := InstrumentsManager.updateSSG m0 c (fun s => { s with waveformEnabled := true })
    let r := ma.cloneSSGWaveform refSsg.waveformNumber
    let mb := InstrumentsManager.updateSSG r.2 c (fun s => { s with waveformNumber := r.1 })
    { mb with wfSSG := mb.wfSSG.registerUser r.1 c }
  else m0

/-- The conditional tone/noise deep clone. -/
def dcSSGm2 (m0 : InstrumentsManager) (refSsg : InstrumentSSG) (c : Nat) :
    InstrumentsManager :=
  if refSsg.toneNoiseEnabled then
    let ma := InstrumentsManager.updateSSG (dcSSGm1 m0 refSsg c) c (fun s => { s with toneNoiseEnabled := true })
    let r := ma.cloneSSGToneNoise refSsg.toneNoiseNumber
    let mb := InstrumentsManager.updateSSG r.2 c (fun s => { s with toneNoiseNumber := r.1 })
    { mb with tnSSG := mb.tnSSG.registerUser r.1 c }
  else dcSSGm1 m0 refSsg c

/-- The conditional envelope deep clone. -/
def dcSSGm3 (m0 : InstrumentsManager) (refSsg : InstrumentSSG) (c : Nat) :
    InstrumentsManager :=
  if refSsg.envelopeEnabled then
    let ma := InstrumentsManager.updateSSG (dcSSGm2 m0 refSsg c) c (fun s => { s with envelopeEnabled := true })
    let r := ma.cloneSSGEnvelope refSsg.envelopeNumber
    let mb := InstrumentsManager.updateSSG r.2 c (fun s => { s with envelopeNumber := r.1 })
    { mb with envSSG := mb.envSSG.registerUser r.1 c }
  else dcSSGm2 m0 refSsg c

/-- The conditional arpeggio deep clone. -/
def dcSSGm4 (m0 : InstrumentsManager) (refSsg : InstrumentSSG) (c : Nat) :
    InstrumentsManager :=
  if refSsg.arpeggioEnabled then
    let ma := InstrumentsManager.updateSSG (dcSSGm3 m0 refSsg c) c (fun s => { s with arpeggioEnabled := true })
    let r := ma.cloneSSGArpeggio refSsg.arpeggioNumber
    let mb := InstrumentsManager.updateSSG r.2 c (fun s => { s with arpeggioNumber := r.1 })
    { mb with arpSSG := mb.arpSSG.registerUser r.1 c }
  else dcSSGm3 m0 refSsg c

/-- The conditional pitch deep clone: the full SSG deep clone. -/
def dcSSGm5 (m0 : InstrumentsManager) (refSsg : InstrumentSSG) (c : Nat) :
    InstrumentsManager :=
  if refSsg.pitchEnabled then
    let ma := InstrumentsManager.updateSSG (dcSSGm4 m0 refSsg c) c (fun s => { s with pitchEnabled := true })
    let r := ma.cloneSSGPitch refSsg.pitchNumber
    let mb := InstrumentsManager.updateSSG r.2 c (fun s => { s with pitchNumber := r.1 })
    { mb with ptSSG := mb.ptSSG.registerUser r.1 c }
  else dcSSGm4 m0 refSsg c

/-- Stage names for the ADPCM branch of `deepCloneInstrument`: deregister
the provisional waveform registration made by `addInstrument`. -/
def dcADm1 (m0 : InstrumentsManager) (a0 : InstrumentADPCM) (c : Nat) :
    InstrumentsManager :=
  { m0 with wfADPCM := m0.wfADPCM.deregisterUser a0.waveformNumber c }

/-- The fresh-slot waveform clone. -/
def dcADrw (m0 : InstrumentsManager) (a0 : InstrumentADPCM)
    (refAd : InstrumentADPCM) (c : Nat) : Nat × InstrumentsManager :=
  (dcADm1 m0 a0 c).cloneADPCMWaveform refAd.waveformNumber

/-- After assigning the fresh waveform number to the clone. -/
def dcADm2 (m0 : InstrumentsManager) (a0 refAd : InstrumentADPCM) (c : Nat) :
    InstrumentsManager :=
  InstrumentsManager.updateADPCM (dcADrw m0 a0 refAd c).2 c
    (fun a => { a with waveformNumber := (dcADrw m0 a0 refAd c).1 })

/-- After registering the clone at the fresh waveform slot. -/
def dcADm3 (m0 : InstrumentsManager) (a0 refAd : InstrumentADPCM) (c : Nat) :
    InstrumentsManager :=
  { dcADm2 m0 a0 refAd c with
    wfADPCM := (dcADm2 m0 a0 refAd c).wfADPCM.registerUser (dcADrw m0 a0 refAd c).1 c }

/-- The conditional envelope deep clone. -/
def dcADm4 (m0 : InstrumentsManager) (a0 refAd : InstrumentADPCM) (c : Nat) :
    InstrumentsManager :=
  if refAd.envelopeEnabled then
    let ma := InstrumentsManager.updateADPCM (dcADm3 m0 a0 refAd c) c (fun a => { a with envelopeEnabled := true })
    let r := ma.cloneADPCMEnvelope refAd.envelopeNumber
    let mb := InstrumentsManager.updateADPCM r.2 c (fun a => { a with envelopeNumber := r.1 })
    { mb with envADPCM := mb.envADPCM.registerUser r.1 c }
  else dcADm3 m0 a0 refAd c

/-- The conditional arpeggio deep clone. -/
def dcADm5 (m0 : InstrumentsManager) (a0 refAd : InstrumentADPCM) (c : Nat) :
    InstrumentsManager :=
  if refAd.arpeggioEnabled then
    let ma := InstrumentsManager.updateADPCM (dcADm4 m0 a0 refAd c) c (fun a => { a with arpeggioEnabled := true })
    let r := ma.cloneADPCMArpeggio refAd.arpeggioNumber
    let mb := InstrumentsManager.updateADPCM r.2 c (fun a => { a with arpeggioNumber := r.1 })
    { mb with arpADPCM := mb.arpADPCM.registerUser r.1 c }
  else dcADm4 m0 a0 refAd c

/-- The conditional pitch deep clone: the full ADPCM deep clone. -/
def dcADm6 (m0 : InstrumentsManager) (a0 refAd : InstrumentADPCM) (c : Nat) :
    InstrumentsManager :=
  if refAd.pitchEnabled then
    let ma := InstrumentsManager.updateADPCM (dcADm5 m0 a0 refAd c) c (fun a => { a with pitchEnabled := true })
    let r := ma.cloneADPCMPitch refAd.pitchNumber
    let mb := InstrumentsManager.updateADPCM r.2 c (fun a => { a with pitchNumber := r.1 })
    { mb with ptADPCM := mb.ptADPCM.registerUser r.1 c }
  else dcADm5 m0 a0 refAd c

/-! ## OPNAController: direct register queue, ADPCM sample storage, FM tick -/

/-- FM LFO parameter selector (instrument declarations). -/
inductive FMLFOParameter
  | FREQ | PMS | AMS | AM1 | AM2 | AM3 | AM4 | Count
  deriving DecidableEq, Repr

namespace OPNAController

/-- One pending direct register write (`registerSetBuf_` element). -/
structure RegisterUnit where
  address : Nat
  value : Nat
  hasCompleted : Bool
  deriving DecidableEq, Repr

/-- `OPNAController::sendRegisterAddress` (opna_controller.cpp lines 71-79):
start a new pending unit, or overwrite the address of an incomplete one. -/
def sendRegisterAddress (buf : List RegisterUnit) (bank address : Nat) :
    List RegisterUnit :=
  let a := (bank <<< 8) ||| address
  match buf.getLast? with
  | none => [⟨a, 0, false⟩]
  | some u =>
    if u.hasCompleted then buf ++ [⟨a, 0, false⟩]
    else buf.dropLast ++ [⟨a, u.value, false⟩]

/-- `OPNAController::sendRegisterValue` (lines 81-88): complete the pending
unit with a value; a value with no pending unit is dropped. -/
def sendRegisterValue (buf : List RegisterUnit) (value : Nat) : List RegisterUnit :=
  match buf.getLast? with
  | none => buf
  | some u => buf.dropLast ++ [⟨u.address, value, true⟩]

/-- The direct-register flush of `OPNAController::updateRegisterStates`
(lines 97-109): drop a trailing incomplete unit, emit one register write per
remaining unit in order, clear the buffer.  (The drum key-on/off status
update also performed there touches only drum state and is orthogonal to
the direct-register queue.) -/
def updateRegisterStatesDirect (buf : List RegisterUnit) :
    List (Nat × Nat) × List RegisterUnit :=
  if buf.isEmpty then ([], buf)
  else
    let buf1 :=
      match buf.getLast? with
      | some u => if !u.hasCompleted then buf.dropLast else buf
      | none => buf
    (buf1.map (fun u => (u.address, u.value % 256)), [])

/-- DRAM size fixed by the `OPNAController` constructor (256 KiB). -/
def dramSize : Nat := 262144

/-- The `sample.size() - 1` computation of `storeSampleADPCM`, performed on a
`size_t`, so an empty sample wraps around modulo `2 ^ 64`. -/
def sizeTSub1 (n : Nat) : Nat := (n + (2 ^ 64 - 1)) % 2 ^ 64

/-- `OPNAController::clearSamplesADPCM` (lines 3384-3387): rewind the
allocation pointer. -/
def clearSamplesADPCM (_storePointADPCM : Nat) : Nat := 0

/-- `OPNAController::storeSampleADPCM` (lines 3389-3425), returning the
(start, stop) address pair, the new allocation pointer, and the register
writes it performs.  When the pointer has reached the DRAM limit the store
is skipped and the zero-initialised address pair is returned. -/
def storeSampleADPCM (storePointADPCM : Nat) (sample : List Nat) :
    List Nat × Nat × List (Nat × Nat) :=
  let dramLim := (dramSize - 1) >>> 5
  let pre : List (Nat × Nat) :=
    [(0x110, 0x80), (0x100, 0x61), (0x100, 0x60), (0x101, 0x02),
     (0x10c, dramLim &&& 0xff), (0x10d, (dramLim >>> 8) &&& 0xff)]
  let post : List (Nat × Nat) := [(0x100, 0x00), (0x110, 0x80)]
  if storePointADPCM < dramLim then
    let startAddress := storePointADPCM
    let stopAddress := min (startAddress + (sizeTSub1 sample.length >>> 5)) dramLim
    let mid : List (Nat × Nat) :=
      [(0x102, startAddress &&& 0xff), (0x103, (startAddress >>> 8) &&& 0xff),
       (0x104, stopAddress &&& 0xff), (0x105, (stopAddress >>> 8) &&& 0xff)] ++
      sample.map (fun b => (0x108, b % 256))
    ([startAddress, stopAddress], stopAddress + 1, pre ++ mid ++ post)
  else
    ([0, 0], storePointADPCM, pre ++ post)

/-- `OPNAController::getFMChannelOffset` restricted to `SongType::Standard`
(opna_controller.cpp lines 1047-1084), where the pitch and non-pitch
variants coincide and the internal channel equals the channel. -/
def getFMChannelOffset (ch : Nat) : Nat :=
  if ch < 3 then ch
  else if ch < 6 then 0x100 + ch % 3
  else 0

/-- Truncation to `uint8` of a C++ `int` value. -/
def u8 (x : Int) : Nat := (x % 256).toNat

/-- Clamp as used by `checkVolumeEffectFM` (`clamp(data, 0, 127)`). -/
def clampInt (x lo hi : Int) : Int := max lo (min x hi)

/-- Carrier test for an operator under an algorithm value; the level-0 rows
of `OPNAController::getOperatorsInLevel` (lines 1917-1941) list exactly the
carriers: operator 3 always, operator 1 for algorithms 4-7, operator 2 for
5-7, operator 0 only for 7. -/
def isCarrier (op : Nat) (al : Int) : Bool :=
  if op == 3 then true
  else if op == 1 then 4 ≤ al && al ≤ 7
  else if op == 2 then 5 ≤ al && al ≤ 7
  else al == 7

/-- External functions of the controller whose definitions live outside the
given sources (pitch_converter.cpp and the `calculateTL` helper); the
theorems below hold for every choice of them. -/
structure FMExternalFuns where
  calcTL : Nat → Nat → Nat
  getPitchFM : Int → Int → Int → Nat

/-- The LFO parameters of the instrument referenced by a channel, as read
through `refInstFM_[inch]->getLFOParameter`. -/
structure InstLFOView where
  freq : Int
  pms : Int
  ams : Int
  am : Fin 4 → Nat

/-- Per-channel FM state consulted by the tick path of opna_controller.cpp
(standard song mode, operator type `All`). -/
structure FMChannelState where
  hasPreSetTickEventFM : Bool
  isMuteFM : Bool
  lfoStartCntFM : Int
  lfoFreq : Int
  refInstLFOEnabled : Bool
  instLFO : InstLFOView
  panFM : Nat
  envFM : FMEnvelopeParameter → Int
  volSldFM : Int
  sumVolSldFM : Int
  keyToneNote : Int
  keyToneOctave : Int
  keyTonePitch : Int
  sumPitchFM : Int
  detuneFM : Int
  sumNoteSldFM : Int
  transposeFM : Int
  needToneSetFM : Bool
  portamentoDepth : Int

/-- The per-tick outputs of the iterators a channel consults: for each
present iterator, what its advance call returns this tick (`next()` result
and, where read, `getCommandType()`).  `none` models an absent iterator. -/
structure FMTickInputs where
  opSeq : FMEnvelopeParameter → Option (Int × Int)
  tre : Option Int
  arp : Option Int
  pt : Option (Int × Int)
  vib : Option Int
  ns : Option (Int × Int)

/-- `OPNAController::getFMEnvelopeParametersForOperator` (lines 1104-1152). -/
def getFMEnvelopeParametersForOperator : FMOperatorType → List FMEnvelopeParameter
  | .All => envFMParams
  | .Op1 => [.AL, .FB, .AR1, .DR1, .SR1, .RR1, .SL1, .TL1, .KS1, .ML1, .DT1]
  | .Op2 => [.AR2, .DR2, .SR2, .RR2, .SL2, .TL2, .KS2, .ML2, .DT2]
  | .Op3 => [.AR3, .DR3, .SR3, .RR3, .SL3, .TL3, .KS3, .ML3, .DT3]
  | .Op4 => [.AR4, .DR4, .SR4, .RR4, .SL4, .TL4, .KS4, .ML4, .DT4]

/-- `OPNAController::writeFMEnveropeParameterToRegister` (lines 1369-1566)
restricted to standard song mode: store the new parameter value, then write
the packed register byte for the parameter's bit-field group; the total
levels of carrier operators pass through `calculateTL` and the adjusted
value is stored back. -/
def writeFMEnveropeParameterToRegister (fns : FMExternalFuns) (ch : Nat)
    (st : FMChannelState) (param : FMEnvelopeParameter) (value : Int) :
    FMChannelState × List (Nat × Nat) :=
  let bch := getFMChannelOffset ch
  let env0 := Function.update st.envFM param value
  let st := { st with envFM := env0 }
  let amBit : Fin 4 → Nat := fun i =>
    if st.refInstLFOEnabled then st.instLFO.am i else 0
  match param with
  | .AL | .FB =>
    (st, [(0xb0 + bch, u8 ((u8 (env0 .FB * 8) : Int) + env0 .AL))])
  | .DT1 | .ML1 =>
    (st, [(0x30 + bch, u8 (Int.lor (u8 (env0 .DT1 * 16) : Int) (env0 .ML1)))])
  | .TL1 =>
    let data0 := u8 (env0 .TL1)
    if isCarrier 0 (env0 .AL) then
      let data := fns.calcTL ch data0 % 256
      ({ st with envFM := Function.update env0 .TL1 (data : Int) },
       [(0x40 + bch, data)])
    else (st, [(0x40 + bch, data0)])
  | .KS1 | .AR1 =>
    (st, [(0x50 + bch, u8 (Int.lor (u8 (env0 .KS1 * 64) : Int) (env0 .AR1)))])
  | .DR1 =>
    (st, [(0x60 + bch, u8 (Int.lor (u8 ((amBit 0 : Int) * 128) : Int) (env0 .DR1)))])
  | .SR1 =>
    (st, [(0x70 + bch, u8 (env0 .SR1))])
  | .SL1 | .RR1 =>
    (st, [(0x80 + bch, u8 (Int.lor (u8 (env0 .SL1 * 16) : Int) (env0 .RR1)))])
  | .SSGEG1 =>
    let tmp := env0 .SSGEG1
    (st, [(0x90 + bch, if tmp == -1 then 0 else u8 (8 + tmp))])
  | .DT2 | .ML2 =>
    (st, [(0x30 + bch + 8, u8 (Int.lor (u8 (env0 .DT2 * 16) : Int) (env0 .ML2)))])
  | .TL2 =>
    let data0 := u8 (env0 .TL2)
    if isCarrier 1 (env0 .AL) then
      let data := fns.calcTL ch data0 % 256
      ({ st with envFM := Function.update env0 .TL2 (data : Int) },
       [(0x40 + bch + 8, data)])
    else (st, [(0x40 + bch + 8, data0)])
  | .KS2 | .AR2 =>
    (st, [(0x50 + bch + 8, u8 (Int.lor (u8 (env0 .KS2 * 64) : Int) (env0 .AR2)))])
  | .DR2 =>
    (st, [(0x60 + bch + 8, u8 (Int.lor (u8 ((amBit 1 : Int) * 128) : Int) (env0 .DR2)))])
  | .SR2 =>
    (st, [(0x70 + bch + 8, u8 (env0 .SR2))])
  | .SL2 | .RR2 =>
    (st, [(0x80 + bch + 8, u8 (Int.lor (u8 (env0 .SL2 * 16) : Int) (env0 .RR2)))])
  | .SSGEG2 =>
    let tmp := env0 .SSGEG2
    (st, [(0x90 + bch + 8, if tmp == -1 then 0 else u8 (8 + tmp))])
  | .DT3 | .ML3 =>
    (st, [(0x30 + bch + 4, u8 (Int.lor (u8 (env0 .DT3 * 16) : Int) (env0 .ML3)))])
  | .TL3 =>
    let data0 := u8 (env0 .TL3)
    if isCarrier 2 (env0 .AL) then
      let data := fns.calcTL ch data0 % 256
      ({ st with envFM := Function.update env0 .TL3 (data : Int) },
       [(0x40 + bch + 4, data)])
    else (st, [(0x40 + bch + 4, data0)])
  | .KS3 | .AR3 =>
    (st, [(0x50 + bch + 4, u8 (Int.lor (u8 (env0 .KS3 * 64) : Int) (env0 .AR3)))])
  | .DR3 =>
    (st, [(0x60 + bch + 4, u8 (Int.lor (u8 ((amBit 2 : Int) * 128) : Int) (env0 .DR3)))])
  | .SR3 =>
    (st, [(0x70 + bch + 4, u8 (env0 .SR3))])
  | .SL3 | .RR3 =>
    (st, [(0x80 + bch + 4, u8 (Int.lor (u8 (env0 .SL3 * 16) : Int) (env0 .RR3)))])
  | .SSGEG3 =>
    let tmp := env0 .SSGEG3
    (st, [(0x90 + bch + 4, if tmp == -1 then 0 else u8 (8 + tmp))])
  | .DT4 | .ML4 =>
    (st, [(0x30 + bch + 12, u8 (Int.lor (u8 (env0 .DT4 * 16) : Int) (env0 .ML4)))])
  | .TL4 =>
    -- Operator 4 is always treated as a carrier in standard mode.
    let data0 := u8 (env0 .TL4)
    let data := fns.calcTL ch data0 % 256
    ({ st with envFM := Function.update env0 .TL4 (data : Int) },
     [(0x40 + bch + 12, data)])
  | .KS4 | .AR4 =>
    (st, [(0x50 + bch + 12, u8 (Int.lor (u8 (env0 .KS4 * 64) : Int) (env0 .AR4)))])
  | .DR4 =>
    (st, [(0x60 + bch + 12, u8 (Int.lor (u8 ((amBit 3 : Int) * 128) : Int) (env0 .DR4)))])
  | .SR4 =>
    (st, [(0x70 + bch + 12, u8 (env0 .SR4))])
  | .SL4 | .RR4 =>
    (st, [(0x80 + bch + 12, u8 (Int.lor (u8 (env0 .SL4 * 16) : Int) (env0 .RR4)))])
  | .SSGEG4 =>
    -- judgeSSEGRegisterValue is not among the given sources; modelled from
    -- the spec and the inline SSGEG1-3 branches: -1 encodes "off".
    let tmp := env0 .SSGEG4
    (st, [(0x90 + bch + 12, if tmp == -1 then 0 else u8 (8 + tmp))])

/-- `OPNAController::writeFMLFORegister` (lines 1648-1689). -/
def writeFMLFORegister (ch : Nat) (st : FMChannelState) (param : FMLFOParameter) :
    FMChannelState × List (Nat × Nat) :=
  let bch := getFMChannelOffset ch
  match param with
  | .FREQ =>
    let st := { st with lfoFreq := st.instLFO.freq }
    (st, [(0x22, u8 (Int.lor st.instLFO.freq 8))])
  | .PMS | .AMS =>
    let d1 : Int := u8 ((st.panFM : Int) * 64)
    let d2 : Int := u8 (Int.lor d1 (st.instLFO.ams * 16))
    (st, [(0xb4 + bch, u8 (Int.lor d2 st.instLFO.pms))])
  | .AM1 =>
    (st, [(0x60 + bch, u8 (Int.lor (u8 ((st.instLFO.am 0 : Int) * 128) : Int) (st.envFM .DR1)))])
  | .AM2 =>
    (st, [(0x60 + bch + 8, u8 (Int.lor (u8 ((st.instLFO.am 1 : Int) * 128) : Int) (st.envFM .DR2)))])
  | .AM3 =>
    (st, [(0x60 + bch + 4, u8 (Int.lor (u8 ((st.instLFO.am 2 : Int) * 128) : Int) (st.envFM .DR3)))])
  | .AM4 =>
    (st, [(0x60 + bch + 12, u8 (Int.lor (u8 ((st.instLFO.am 3 : Int) * 128) : Int) (st.envFM .DR4)))])
  | .Count => (st, [])

/-- `OPNAController::writeFMLFOAllRegisters` (lines 1625-1645). -/
def writeFMLFOAllRegisters (ch : Nat) (st : FMChannelState) :
    FMChannelState × List (Nat × Nat) :=
  if !st.refInstLFOEnabled || st.lfoStartCntFM > 0 then
    let bch := getFMChannelOffset ch
    (st,
     [(0xb4 + bch, u8 ((st.panFM : Int) * 64)),
      (0x60 + bch, u8 (st.envFM .DR1)),
      (0x60 + bch + 8, u8 (st.envFM .DR2)),
      (0x60 + bch + 4, u8 (st.envFM .DR3)),
      (0x60 + bch + 12, u8 (st.envFM .DR4))])
  else
    let r1 := writeFMLFORegister ch st .FREQ
    let r2 := writeFMLFORegister ch r1.1 .PMS
    let r3 := writeFMLFORegister ch r2.1 .AMS
    let r4 := writeFMLFORegister ch r3.1 .AM1
    let r5 := writeFMLFORegister ch r4.1 .AM2
    let r6 := writeFMLFORegister ch r5.1 .AM3
    let r7 := writeFMLFORegister ch r6.1 .AM4
    ({ r7.1 with lfoStartCntFM := -1 },
     r1.2 ++ r2.2 ++ r3.2 ++ r4.2 ++ r5.2 ++ r6.2 ++ r7.2)

/-- `OPNAController::checkOperatorSequenceFM` (lines 1805-1825) for an
ordinary tick: a parameter register is written only when its iterator
outputs a value this tick and that value differs from the stored envelope
parameter (register diffing). -/
def checkOperatorSequenceFM (fns : FMExternalFuns) (ch : Nat)
    (st : FMChannelState) (inp : FMTickInputs) : FMChannelState × List (Nat × Nat) :=
  (getFMEnvelopeParametersForOperator .All).foldl
    (fun (acc : FMChannelState × List (Nat × Nat)) p =>
      match inp.opSeq p with
      | none => acc
      | some td =>
        if td.1 != -1 then
          if td.2 != acc.1.envFM p then
            let r := writeFMEnveropeParameterToRegister fns ch acc.1 p td.2
            (r.1, acc.2 ++ r.2)
          else acc
        else acc)
    (st, [])

/-- `OPNAController::checkVolumeEffectFM` (lines 1828-1888), operator type
`All`: when a tremolo iterator is present (or a volume slide is active) the
total-level register of every carrier operator is written, with no
comparison against the previously written value. -/
def checkVolumeEffectFM (ch : Nat) (st : FMChannelState) (inp : FMTickInputs) :
    List (Nat × Nat) :=
  let vOpt : Option Int :=
    match inp.tre with
    | some tv => some (tv + st.sumVolSldFM)
    | none => if st.volSldFM != 0 then some st.sumVolSldFM else none
  match vOpt with
  | none => []
  | some v =>
    let bch := getFMChannelOffset ch
    let al := st.envFM .AL
    (if isCarrier 0 al then
      [(0x40 + bch, u8 (clampInt (st.envFM .TL1 + v) 0 127))] else []) ++
    (if isCarrier 1 al then
      [(0x40 + bch + 8, u8 (clampInt (st.envFM .TL2 + v) 0 127))] else []) ++
    (if isCarrier 2 al then
      [(0x40 + bch + 4, u8 (clampInt (st.envFM .TL3 + v) 0 127))] else []) ++
    (if isCarrier 3 al then
      [(0x40 + bch + 12, u8 (clampInt (st.envFM .TL4 + v) 0 127))] else [])

/-- Modelled from the spec: `checkRealToneFMByArpeggio` (implementation not
among the given sources).  When the arpeggio iterator outputs no value this
tick (-1), the resolved tone is untouched; otherwise the tone is recomputed
from the echo buffer and the tone-set flag is raised.  No register is
written here. -/
def checkRealToneFMByArpeggio (st : FMChannelState) (t : Int) : FMChannelState :=
  if t == -1 then st else { st with needToneSetFM := true }

/-- Modelled from the spec: `checkPortamentoFM` (implementation not among
the given sources).  With no active portamento (depth 0) the state is
untouched; otherwise the tone moves toward the target and the tone-set flag
is raised.  No register is written here. -/
def checkPortamentoFM (st : FMChannelState) : FMChannelState :=
  if st.portamentoDepth != 0 then { st with needToneSetFM := true } else st

/-- Modelled from the spec: `checkRealToneFMByPitch` (implementation not
among the given sources).  When the pitch iterator outputs a value this
tick, the pitch-macro accumulator is updated from it and the tone-set flag
is raised.  No register is written here. -/
def checkRealToneFMByPitch (st : FMChannelState) (inp : Option (Int × Int)) :
    FMChannelState :=
  match inp with
  | some td =>
    if td.1 != -1 then
      { st with sumPitchFM := st.sumPitchFM + (td.2 - 127), needToneSetFM := true }
    else st
  | none => st

/-- `OPNAController::writePitchFM` (lines 1889-1907): the pitch value is the
converter applied to the channel note and octave and the sum of fine pitch,
pitch-macro accumulator, vibrato value (zero when absent), detune,
note-slide accumulator and transpose accumulator; the two pitch registers
receive its high and low byte. -/
def writePitchFM (fns : FMExternalFuns) (ch : Nat) (st : FMChannelState)
    (inp : FMTickInputs) : FMChannelState × List (Nat × Nat) :=
  if st.keyToneOctave == -1 then (st, [])
  else
    let p := fns.getPitchFM st.keyToneNote st.keyToneOctave
      (st.keyTonePitch + st.sumPitchFM + (inp.vib.getD 0) + st.detuneFM +
        st.sumNoteSldFM + st.transposeFM) % 65536
    let offset := getFMChannelOffset ch
    ({ st with needToneSetFM := false },
     [(0xa4 + offset, p >>> 8), (0xa0 + offset, p % 256)])

/-- `OPNAController::tickEventFM` (lines 1767-1803), standard song mode:
skip when the pre-set flag is raised or the channel is muted, else run the
LFO start counter, the operator-sequence check, the volume effects, the
tone effects, and finally the pitch write when a tone set is pending. -/
def tickEventFM (fns : FMExternalFuns) (ch : Nat) (st : FMChannelState)
    (inp : FMTickInputs) : FMChannelState × List (Nat × Nat) :=
  if st.hasPreSetTickEventFM then ({ st with hasPreSetTickEventFM := false }, [])
  else if st.isMuteFM then (st, [])
  else
    let r1 :=
      if st.lfoStartCntFM > 0 then
        writeFMLFOAllRegisters ch { st with lfoStartCntFM := st.lfoStartCntFM - 1 }
      else (st, [])
    let r2 := checkOperatorSequenceFM fns ch r1.1 inp
    let st2 := { r2.1 with sumVolSldFM := r2.1.sumVolSldFM + r2.1.volSldFM }
    let w3 := checkVolumeEffectFM ch st2 inp
    let st3 := match inp.arp with
      | some t => checkRealToneFMByArpeggio st2 t
      | none => st2
    let st4 := checkPortamentoFM st3
    let st5 := checkRealToneFMByPitch st4 inp.pt
    let st6 := if inp.vib.isSome then { st5 with needToneSetFM := true } else st5
    let st7 := match inp.ns with
      | some td =>
        if td.1 != -1 then
          { st6 with sumNoteSldFM := st6.sumNoteSldFM + td.2, needToneSetFM := true }
        else st6
      | none => st6
    let r4 := if st7.needToneSetFM then writePitchFM fns ch st7 inp else (st7, [])
    (r4.1, r1.2 ++ r2.2 ++ w3 ++ r4.2)

end OPNAController

end BT

open BT

/-! ## General helper lemmas -/

/-- A fold preserves any projection each step leaves untouched. -/
theorem foldl_preserves {α β γ : Type} (f : β → α → β) (proj : β → γ)
    (h : ∀ b a, proj (f b a) = proj b) (l : List α) (b : β) :
    proj (l.foldl f b) = proj b := by
  induction l generalizing b with
  | nil => rfl
  | cons x xs ih => rw [List.foldl_cons, ih, h]

/-- A fold whose initial accumulator is a fixed point of every step. -/
theorem foldl_fixed {α β : Type} (f : β → α → β) (b : β)
    (h : ∀ a, f b a = b) (l : List α) : l.foldl f b = b := by
  induction l with
  | nil => rfl
  | cons x xs ih => rw [List.foldl_cons, h, ih]

/-! ## Claims C6, C10, C7 : manager error handling -/

/-- C6: for every instrument number outside the range 0..127 and every sound
source and name, `addInstrument` is a silent no-op leaving the whole manager
state (instrument table and all pools) unchanged. -/
theorem C6_addInstrument_out_of_range_noop (m : BT.InstrumentsManager) (n : Int)
    (source : BT.SoundSource) (name : String) (h : n < 0 ∨ 128 ≤ n) :
    m.addInstrument n source name = m := by
  have hc : (decide (n < 0) || decide (128 ≤ n)) = true := by
    rcases h with h | h <;> simp [h]
  unfold BT.InstrumentsManager.addInstrument
  simp only [hc, Bool.or_eq_true, decide_eq_true_eq] at hc ⊢
  split
  · rfl
  · rename_i hne
    exact absurd hc hne

/-- Witness for C6 at the concrete out-of-range number 200. -/
theorem C6_witness :
    (BT.InstrumentsManager.mkInit true).addInstrument 200 .FM "a" =
      BT.InstrumentsManager.mkInit true :=
  C6_addInstrument_out_of_range_noop _ 200 _ _ (Or.inr (by norm_num))

/-- C10: `getInstrumentSharedPtr` never raises; it returns a null pointer for
every number outside 0..127 and for every in-range number whose table entry
is empty, and the stored instrument otherwise. -/
theorem C10_getInstrumentSharedPtr_graceful (m : BT.InstrumentsManager) (n : Int) :
    ((n < 0 ∨ 128 ≤ n) → m.getInstrumentSharedPtr n = none) ∧
    (0 ≤ n → n < 128 → m.insts n.toNat = none → m.getInstrumentSharedPtr n = none) ∧
    (∀ inst, 0 ≤ n → n < 128 → m.insts n.toNat = some inst →
      m.getInstrumentSharedPtr n = some inst) := by
  refine ⟨fun h => ?_, fun h0 h1 he => ?_, fun inst h0 h1 hs => ?_⟩
  · unfold BT.InstrumentsManager.getInstrumentSharedPtr
    rcases h with h | h
    · rw [if_neg]; intro hc; exact absurd hc.1 (by omega)
    · rw [if_neg]; intro hc; exact absurd hc.2 (by omega)
  · unfold BT.InstrumentsManager.getInstrumentSharedPtr
    rw [if_pos ⟨h0, h1⟩, he]
  · unfold BT.InstrumentsManager.getInstrumentSharedPtr
    rw [if_pos ⟨h0, h1⟩, hs]

/-- Witness for C10: a negative number and an empty in-range entry both give
a null result on the fresh manager. -/
theorem C10_witness :
    (BT.InstrumentsManager.mkInit true).getInstrumentSharedPtr (-3) = none ∧
    (BT.InstrumentsManager.mkInit true).getInstrumentSharedPtr 5 = none :=
  ⟨(C10_getInstrumentSharedPtr_graceful _ (-3)).1 (Or.inl (by norm_num)),
   (C10_getInstrumentSharedPtr_graceful _ 5).2.1 (by norm_num) (by norm_num) rfl⟩

/-- Envelope slot number of a stored FM instrument, `none` for any other
table entry. -/
def fmEnvNumberOf : Option BT.AbstractInstrument → Option Nat
  | some (.fm f) => some f.envelopeNumber
  | _ => none

/-! ## Claim C8 : ADPCM bump allocator -/

open BT.OPNAController in
/-- C8 (amended): while the allocation pointer is below the DRAM limit,
`storeSampleADPCM` returns a pair starting at the pointer whose stop never
exceeds the limit, and moves the pointer just past the stop (so the next
in-bounds store starts at the previous stop plus one); a store attempted at
or beyond the limit returns the zero-initialised pair and leaves the
pointer unchanged; `clearSamplesADPCM` rewinds the pointer to zero so the
next store starts at address zero. -/
theorem C8_bump_allocator (pt : Nat) (sample : List Nat) :
    (pt < (dramSize - 1) >>> 5 →
      ∃ stop, (storeSampleADPCM pt sample).1 = [pt, stop] ∧
        stop ≤ (dramSize - 1) >>> 5 ∧
        (storeSampleADPCM pt sample).2.1 = stop + 1) ∧
    ((dramSize - 1) >>> 5 ≤ pt →
      (storeSampleADPCM pt sample).1 = [0, 0] ∧
      (storeSampleADPCM pt sample).2.1 = pt) ∧
    clearSamplesADPCM pt = 0 ∧
    (storeSampleADPCM (clearSamplesADPCM pt) sample).1.head? = some 0 := by
  refine ⟨fun h => ?_, fun h => ?_, rfl, ?_⟩
  · refine ⟨min (pt + (sizeTSub1 sample.length >>> 5)) ((dramSize - 1) >>> 5),
      ?_, Nat.min_le_right _ _, ?_⟩ <;>
      simp [storeSampleADPCM, if_pos h]
  · have h' : ¬ pt < (dramSize - 1) >>> 5 := Nat.not_lt.mpr h
    constructor <;> simp [storeSampleADPCM, if_neg h']
  · have h0 : (0 : Nat) < (dramSize - 1) >>> 5 := by decide
    simp [clearSamplesADPCM, storeSampleADPCM, if_pos h0]

open BT.OPNAController in
/-- Witness for C8 at pointer 0 and a three-byte sample. -/
theorem C8_witness :
    (0 < (dramSize - 1) >>> 5) ∧
    (∃ stop, (storeSampleADPCM 0 [1, 2, 3]).1 = [0, stop] ∧
      stop ≤ (dramSize - 1) >>> 5 ∧
      (storeSampleADPCM 0 [1, 2, 3]).2.1 = stop + 1) :=
  ⟨by decide, (C8_bump_allocator 0 [1, 2, 3]).1 (by decide)⟩

open BT.OPNAController in
/-- Counterexample for C8 as stated: a store of an empty sample runs the
`sample.size() - 1` computation on a `size_t`, wraps around, and advances
the allocation pointer past the DRAM limit; the next call then returns the
pair (0, 0) whose start address is not the allocation pointer (8192), so
the unconditional "start equals the current allocation pointer" and "each
new start equals the previous stop + 1" parts of the claim fail. -/
theorem C8_counterexample :
    (storeSampleADPCM (clearSamplesADPCM 0) []).2.1 = 8192 ∧
    (storeSampleADPCM 8192 [5]).1 = [0, 0] ∧
    (storeSampleADPCM 8192 [5]).1.head? ≠ some 8192 := by
  refine ⟨by decide, by decide, by decide⟩

/-! ## Claim C4 : direct-register pass-through queue -/

/-- A user-originated direct register injection: either an address selection
or a value completion. -/
inductive DirectRegOp
  | addr (bank address : Nat)
  | val (value : Nat)

open BT.OPNAController in
/-- Run a sequence of injections on the (tick-initial, empty) queue. -/
def applySends (ops : List DirectRegOp) : List RegisterUnit :=
  ops.foldl
    (fun buf op =>
      match op with
      | .addr bank address => sendRegisterAddress buf bank address
      | .val v => sendRegisterValue buf v)
    []

open BT.OPNAController in
/-- Queue shape maintained by the send operations: only the last unit may be
incomplete. -/
def BufWF (buf : List RegisterUnit) : Prop :=
  ∀ u ∈ buf.dropLast, u.hasCompleted = true

/-- Splitting membership in a non-empty list into the front part and the
last element. -/
theorem mem_dropLast_or_getLast {α : Type} (l : List α) (hne : l ≠ []) (v : α)
    (hv : v ∈ l) : v ∈ l.dropLast ∨ v = l.getLast hne := by
  conv at hv => rw [← List.dropLast_concat_getLast hne]
  rcases List.mem_append.mp hv with h1 | h1
  · exact Or.inl h1
  · simp only [List.mem_singleton] at h1
    exact Or.inr h1

open BT.OPNAController in
theorem bufWF_sendRegisterAddress (buf : List RegisterUnit) (bank address : Nat)
    (h : BufWF buf) : BufWF (sendRegisterAddress buf bank address) := by
  unfold BT.OPNAController.sendRegisterAddress
  cases hl : buf.getLast? with
  | none =>
    intro u hu
    simp at hu
  | some u =>
    have hne : buf ≠ [] := by
      intro he; rw [he] at hl; simp at hl
    rw [List.getLast?_eq_getLast buf hne] at hl
    have hu : u = buf.getLast hne := (Option.some_inj.mp hl).symm
    cases hc : u.hasCompleted with
    | true =>
      simp only [hc, if_true]
      intro v hv
      rw [List.dropLast_concat] at hv
      rcases mem_dropLast_or_getLast buf hne v hv with h1 | h1
      · exact h v h1
      · rw [h1, ← hu]; exact hc
    | false =>
      simp only [hc, Bool.false_eq_true, if_false]
      intro v hv
      rw [List.dropLast_concat] at hv
      exact h v hv

open BT.OPNAController in
theorem bufWF_sendRegisterValue (buf : List RegisterUnit) (v : Nat)
    (h : BufWF buf) : BufWF (sendRegisterValue buf v) := by
  unfold BT.OPNAController.sendRegisterValue
  cases hl : buf.getLast? with
  | none => exact h
  | some u =>
    intro w hw
    rw [List.dropLast_concat] at hw
    exact h w hw

open BT.OPNAController in
theorem bufWF_nil : BufWF [] := by
  intro u hu
  simp at hu

open BT.OPNAController in
theorem bufWF_applySends (ops : List DirectRegOp) : BufWF (applySends ops) := by
  unfold applySends
  have main : ∀ (l : List DirectRegOp) (buf : List RegisterUnit), BufWF buf →
      BufWF (l.foldl
        (fun buf op =>
          match op with
          | .addr bank address => sendRegisterAddress buf bank address
          | .val v => sendRegisterValue buf v) buf) := by
    intro l
    induction l with
    | nil => exact fun buf h => h
    | cons op l ih =>
      intro buf h
      rw [List.foldl_cons]
      refine ih _ ?_
      cases op with
      | addr bank address => exact bufWF_sendRegisterAddress buf bank address h
      | val v => exact bufWF_sendRegisterValue buf v h
  exact main ops [] (by intro u hu; simp at hu)

open BT.OPNAController in
/-- On a well-formed queue the flush emits exactly the completed units, in
order. -/
theorem flush_eq_completed (buf : List RegisterUnit) (h : BufWF buf) :
    (updateRegisterStatesDirect buf).1 =
      (buf.filter (fun u => u.hasCompleted)).map
        (fun u => (u.address, u.value % 256)) := by
  unfold BT.OPNAController.updateRegisterStatesDirect
  by_cases hne : buf = []
  · subst hne; simp
  · rw [if_neg (by simpa using hne)]
    rw [List.getLast?_eq_getLast buf hne]
    simp only []
    by_cases hc : (buf.getLast hne).hasCompleted
    · rw [hc]
      simp only [Bool.not_true, Bool.false_eq_true, if_false]
      have hall : buf.filter (fun u => u.hasCompleted) = buf := by
        rw [List.filter_eq_self]
        intro u hu
        rcases mem_dropLast_or_getLast buf hne u hu with h1 | h1
        · exact h u h1
        · rw [h1]; exact hc
      rw [hall]
    · have hcf : (buf.getLast hne).hasCompleted = false := by
        simpa using hc
      rw [hcf]
      simp only [Bool.not_false, if_true]
      have hsplit : buf = buf.dropLast ++ [buf.getLast hne] :=
        (List.dropLast_concat_getLast hne).symm
      conv_rhs => rw [hsplit]
      rw [List.filter_append]
      have h1 : List.filter (fun u => u.hasCompleted) [buf.getLast hne] = [] := by
        simp [hcf]
      have h2 : buf.dropLast.filter (fun u => u.hasCompleted) = buf.dropLast := by
        rw [List.filter_eq_self]
        exact fun u hu => h u hu
      rw [h1, h2, List.append_nil]

/-- Apply a register-write trace to a register file, later writes
overwriting earlier ones. -/
def applyWrites (ws : List (Nat × Nat)) (regs : Nat → Option Nat) : Nat → Option Nat :=
  ws.foldl (fun r w => Function.update r w.1 (some w.2)) regs

/-- A register-write trace leaves each address holding its last written
value. -/
theorem applyWrites_last (ws : List (Nat × Nat)) (regs : Nat → Option Nat) (a : Nat) :
    applyWrites ws regs a =
      ((ws.filter (fun w => w.1 == a)).getLast?).elim (regs a) (fun w => some w.2) := by
  induction ws using List.reverseRecOn generalizing regs with
  | nil => rfl
  | append_singleton ws w ih =>
    unfold applyWrites
    rw [List.foldl_append, List.foldl_cons, List.foldl_nil, List.filter_append]
    by_cases hw : w.1 = a
    · have hf : List.filter (fun w => w.1 == a) [w] = [w] := by simp [hw]
      rw [hf, List.getLast?_concat]
      simp [Function.update, hw]
    · have hf : List.filter (fun w => w.1 == a) [w] = [] := by simp [hw]
      rw [hf, List.append_nil]
      have hrec := ih regs
      unfold applyWrites at hrec
      rw [← hrec]
      have hne : a ≠ w.1 := fun h => hw h.symm
      simp [Function.update, hne]

open BT.OPNAController in
/-- C4 (amended): all raw pairs injected within one tick are flushed once
per tick by the register-state update, as one register write per completed
pair in injection order (a trailing address with no value is dropped, and a
repeated `sendRegisterAddress` with no intervening value overwrites the
pending address); repeated completed writes to the same address are each
emitted, the last one carrying the latest value, so after the flush the
register state holds the latest value for every address; the queue is
cleared, so flushing again emits nothing. -/
theorem C4_direct_register_flush (ops : List DirectRegOp) (regs : Nat → Option Nat)
    (a : Nat) :
    (updateRegisterStatesDirect (applySends ops)).1 =
      ((applySends ops).filter (fun u => u.hasCompleted)).map
        (fun u => (u.address, u.value % 256)) ∧
    applyWrites (updateRegisterStatesDirect (applySends ops)).1 regs a =
      (((updateRegisterStatesDirect (applySends ops)).1.filter
          (fun w => w.1 == a)).getLast?).elim (regs a) (fun w => some w.2) ∧
    (updateRegisterStatesDirect (applySends ops)).2 = [] ∧
    (updateRegisterStatesDirect (updateRegisterStatesDirect (applySends ops)).2).1 = [] := by
  have hwf := bufWF_applySends ops
  have hclear : (updateRegisterStatesDirect (applySends ops)).2 = [] := by
    unfold BT.OPNAController.updateRegisterStatesDirect
    by_cases hne : applySends ops = []
    · rw [if_pos (by simpa using hne)]; exact hne
    · rw [if_neg (by simpa using hne)]
  refine ⟨flush_eq_completed _ hwf, applyWrites_last _ regs a, hclear, ?_⟩
  rw [hclear]
  rfl

open BT.OPNAController in
/-- Counterexample for C4 as stated: two completed injections to the same
address within one tick are flushed as two separate writes (values 1 then
2), not coalesced into a single write carrying the latest value. -/
theorem C4_counterexample :
    (updateRegisterStatesDirect (applySends
      [.addr 0 0x10, .val 1, .addr 0 0x10, .val 2])).1 = [(0x10, 1), (0x10, 2)] ∧
    (updateRegisterStatesDirect (applySends
      [.addr 0 0x10, .val 1, .addr 0 0x10, .val 2])).1 ≠ [(0x10, 2)] := by
  refine ⟨by decide, by decide⟩

/-! ## Claim C2 : checkDuplicateInstruments -/

/-- Two FM instruments whose envelope payloads agree on everything except
operator 2's attack rate: instrument 0 uses envelope slot 0 (factory
default), instrument 1 uses envelope slot 1, edited at `AR2`. -/
def C2exManager : BT.InstrumentsManager :=
  (((BT.InstrumentsManager.mkInit true).addInstrument 0 .FM "a").addInstrument
      1 .FM "b").setEnvelopeFMParameter 1 .AR2 5

/-- C2: the claim fails on the code, and the code contradicts its own
intent: the envelope `operator==` loops `i` over 0..3 but compares
`a.op_[0] != b.op_[0]` in every iteration, so `checkDuplicateInstruments`
groups instruments 0 and 1 as duplicates although the envelope payloads
they reference (both always enabled) differ in operator 2's attack rate. -/
theorem C2_code_bug_envelope_op_compare :
    C2exManager.checkDuplicateInstruments = [[0, 1]] ∧
    (C2exManager.envFM 0).payload.getParameterValue .AR2 ≠
      (C2exManager.envFM 1).payload.getParameterValue .AR2 ∧
    fmEnvNumberOf (C2exManager.insts 0) = some 0 ∧
    fmEnvNumberOf (C2exManager.insts 1) = some 1 := by
  refine ⟨by decide, by decide, by decide, by decide⟩

/-! ## Claims C3 and C9 : the FM tick path -/

open BT.OPNAController in
/-- When every present operator-sequence iterator either outputs nothing or
repeats the stored parameter value, the diffing check writes nothing and
leaves the channel state unchanged. -/
theorem checkOpSeq_no_change (fns : FMExternalFuns) (ch : Nat)
    (st : FMChannelState) (inp : FMTickInputs)
    (hop : ∀ p, (inp.opSeq p).elim True (fun td => td.1 = -1 ∨ td.2 = st.envFM p)) :
    checkOperatorSequenceFM fns ch st inp = (st, []) := by
  unfold BT.OPNAController.checkOperatorSequenceFM
  have hstep : ∀ p, (fun (acc : FMChannelState × List (Nat × Nat)) p =>
      match inp.opSeq p with
      | none => acc
      | some td =>
        if td.1 != -1 then
          if td.2 != acc.1.envFM p then
            let r := writeFMEnveropeParameterToRegister fns ch acc.1 p td.2
            (r.1, acc.2 ++ r.2)
          else acc
        else acc) (st, []) p = (st, []) := by
    intro p
    have h := hop p
    cases hsp : inp.opSeq p with
    | none => simp only [hsp]
    | some td =>
      rw [hsp] at h
      simp only [Option.elim] at h
      simp only [hsp]
      rcases h with h | h
      · simp [h]
      · by_cases h1 : td.1 = -1
        · simp [h1]
        · simp [h1, h]
  exact foldl_fixed _ _ hstep _

open BT.OPNAController in
/-- With no tremolo iterator and no active volume slide, the volume-effect
check writes nothing. -/
theorem checkVolumeEffect_none (ch : Nat) (st : FMChannelState) (inp : FMTickInputs)
    (htre : inp.tre = none) (hvsld : st.volSldFM = 0) :
    checkVolumeEffectFM ch st inp = [] := by
  unfold BT.OPNAController.checkVolumeEffectFM
  rw [htre]
  simp [hvsld]

open BT.OPNAController in
/-- C3 (amended): operator-sequence parameter writes are diffed against the
stored envelope parameter values, and with no tremolo, volume slide,
vibrato, note-slide output, arpeggio output, pitch-macro output, pending
tone set, active portamento, or pending LFO start count, a tickEvent call
emits zero register writes; in particular a second consecutive tickEvent
whose iterators advance to no new value emits nothing.  (The tremolo and
vibrato paths, by contrast, write their registers unconditionally whenever
such an iterator is attached; see the counterexample.) -/
theorem C3_no_change_no_writes (fns : FMExternalFuns) (ch : Nat)
    (st : FMChannelState) (inp : FMTickInputs)
    (hlfo : st.lfoStartCntFM ≤ 0)
    (hop : ∀ p, (inp.opSeq p).elim True (fun td => td.1 = -1 ∨ td.2 = st.envFM p))
    (htre : inp.tre = none) (hvsld : st.volSldFM = 0)
    (harp : (inp.arp).elim True (fun t => t = -1))
    (hpt : (inp.pt).elim True (fun td => td.1 = -1))
    (hport : st.portamentoDepth = 0)
    (hvib : inp.vib = none)
    (hns : (inp.ns).elim True (fun td => td.1 = -1))
    (hnts : st.needToneSetFM = false) :
    (tickEventFM fns ch st inp).2 = [] := by
  unfold BT.OPNAController.tickEventFM
  by_cases hpre : st.hasPreSetTickEventFM
  · simp [hpre]
  · simp only [hpre, Bool.false_eq_true, if_false]
    by_cases hmute : st.isMuteFM
    · simp [hmute]
    · simp only [hmute, Bool.false_eq_true, if_false]
      have hlfo' : ¬ st.lfoStartCntFM > 0 := by omega
      rw [if_neg hlfo']
      rw [checkOpSeq_no_change fns ch st inp hop]
      set st2 : FMChannelState := { st with sumVolSldFM := st.sumVolSldFM + st.volSldFM }
        with hst2
      have hv : checkVolumeEffectFM ch st2 inp = [] :=
        checkVolumeEffect_none ch st2 inp htre (by rw [hst2]; exact hvsld)
      rw [hv]
      have hst3 : (match inp.arp with
          | some t => checkRealToneFMByArpeggio st2 t
          | none => st2) = st2 := by
        cases ha : inp.arp with
        | none => rfl
        | some t =>
          rw [ha] at harp
          simp only [Option.elim] at harp
          simp [BT.OPNAController.checkRealToneFMByArpeggio, harp]
      rw [hst3]
      have hst4 : checkPortamentoFM st2 = st2 := by
        simp [BT.OPNAController.checkPortamentoFM, hst2, hport]
      rw [hst4]
      have hst5 : checkRealToneFMByPitch st2 inp.pt = st2 := by
        cases hp : inp.pt with
        | none => rfl
        | some td =>
          rw [hp] at hpt
          simp only [Option.elim] at hpt
          simp [BT.OPNAController.checkRealToneFMByPitch, hpt]
      rw [hst5]
      rw [hvib]
      simp only [Option.isSome_none, Bool.false_eq_true, if_false]
      have hst7 : (match inp.ns with
          | some td =>
            if td.1 != -1 then
              { st2 with sumNoteSldFM := st2.sumNoteSldFM + td.2, needToneSetFM := true }
            else st2
          | none => st2) = st2 := by
        cases hn : inp.ns with
        | none => rfl
        | some td =>
          rw [hn] at hns
          simp only [Option.elim] at hns
          simp [hns]
      rw [hst7]
      have hnts2 : st2.needToneSetFM = false := by rw [hst2]; exact hnts
      rw [hnts2]
      simp

open BT.OPNAController in
/-- External functions used by the concrete tick states: an identity
total-level adjustment and a zero pitch table. -/
def C3stFns : FMExternalFuns := ⟨fun _ d => d, fun _ _ _ => 0⟩

open BT.OPNAController in
/-- A quiet FM channel: no effect iterators pending, nothing to write. -/
def C3quietState : FMChannelState where
  hasPreSetTickEventFM := false
  isMuteFM := false
  lfoStartCntFM := -1
  lfoFreq := -1
  refInstLFOEnabled := false
  instLFO := ⟨0, 0, 0, fun _ => 0⟩
  panFM := 3
  envFM := fun _ => 0
  volSldFM := 0
  sumVolSldFM := 0
  keyToneNote := 0
  keyToneOctave := 4
  keyTonePitch := 0
  sumPitchFM := 0
  detuneFM := 0
  sumNoteSldFM := 0
  transposeFM := 0
  needToneSetFM := false
  portamentoDepth := 0

open BT.OPNAController in
/-- Tick inputs with no iterator attached at all. -/
def C3quietInputs : FMTickInputs := ⟨fun _ => none, none, none, none, none, none⟩

open BT.OPNAController in
/-- Witness for C3: on the quiet channel a tick emits zero register writes. -/
theorem C3_witness :
    ((-1 : Int) ≤ 0) ∧ (tickEventFM C3stFns 0 C3quietState C3quietInputs).2 = [] :=
  ⟨by decide,
   C3_no_change_no_writes C3stFns 0 C3quietState C3quietInputs (by decide)
     (fun _ => trivial) rfl rfl trivial trivial rfl rfl trivial rfl⟩

open BT.OPNAController in
/-- The same quiet channel with a tremolo iterator attached whose value is 0
on every tick (so it never advances to a new value). -/
def C3tremInputs : FMTickInputs := ⟨fun _ => none, some 0, none, none, none, none⟩

set_option maxHeartbeats 2000000 in
open BT.OPNAController in
/-- Counterexample for C3 as stated: with a tremolo iterator attached whose
value does not change, two consecutive tickEvent calls each write the
carrier total-level register (address 0x4c, value 0) unconditionally —
the same value that was just written — so the second call does not emit
zero register writes. -/
theorem C3_counterexample :
    (tickEventFM C3stFns 0 C3quietState C3tremInputs).2 = [(0x4c, 0)] ∧
    (tickEventFM C3stFns 0 (tickEventFM C3stFns 0 C3quietState C3tremInputs).1
      C3tremInputs).2 = [(0x4c, 0)] ∧
    ([((0x4c : Nat), (0 : Nat))] : List (Nat × Nat)) ≠ [] := by
  refine ⟨by decide, by decide, by decide⟩

set_option maxHeartbeats 2000000 in
open BT.OPNAController in
/-- C9: on an ordinary tick (pre-set flag clear, channel not muted) with a
note-slide step arriving (so a tone write is needed) and no arpeggio,
pitch-macro or portamento interference, the pitch registers receive exactly
the converter value of the channel's base note and octave applied to the
sum of its fine pitch, the pitch-macro accumulator, the vibrato iterator's
current value (zero when absent), the detune setting, the note-slide
accumulator and the transpose accumulator. -/
theorem C9_effective_pitch (fns : FMExternalFuns) (ch : Nat) (st : FMChannelState)
    (inp : FMTickInputs) (t d : Int)
    (hpre : st.hasPreSetTickEventFM = false) (hmute : st.isMuteFM = false)
    (hlfo : st.lfoStartCntFM ≤ 0)
    (hop : ∀ p, inp.opSeq p = none)
    (htre : inp.tre = none) (hvsld : st.volSldFM = 0)
    (harp : inp.arp = none) (hpt : inp.pt = none)
    (hport : st.portamentoDepth = 0)
    (hns : inp.ns = some (t, d)) (ht : t ≠ -1)
    (hoct : st.keyToneOctave ≠ -1) :
    (tickEventFM fns ch st inp).2 =
      [(0xa4 + getFMChannelOffset ch,
        (fns.getPitchFM st.keyToneNote st.keyToneOctave
          (st.keyTonePitch + st.sumPitchFM + (inp.vib.getD 0) + st.detuneFM +
            (st.sumNoteSldFM + d) + st.transposeFM) % 65536) >>> 8),
       (0xa0 + getFMChannelOffset ch,
        (fns.getPitchFM st.keyToneNote st.keyToneOctave
          (st.keyTonePitch + st.sumPitchFM + (inp.vib.getD 0) + st.detuneFM +
            (st.sumNoteSldFM + d) + st.transposeFM) % 65536) % 256)] := by
  unfold BT.OPNAController.tickEventFM
  rw [hpre]
  simp only [Bool.false_eq_true, if_false]
  rw [hmute]
  simp only [Bool.false_eq_true, if_false]
  have hlfo' : ¬ st.lfoStartCntFM > 0 := by omega
  rw [if_neg hlfo']
  rw [checkOpSeq_no_change fns ch st inp (fun p => by rw [hop p]; trivial)]
  set st2 : FMChannelState := { st with sumVolSldFM := st.sumVolSldFM + st.volSldFM }
    with hst2
  rw [checkVolumeEffect_none ch st2 inp htre (by rw [hst2]; exact hvsld)]
  rw [harp]
  have hst4 : checkPortamentoFM st2 = st2 := by
    simp [BT.OPNAController.checkPortamentoFM, hst2, hport]
  rw [hst4]
  rw [hpt]
  simp only [BT.OPNAController.checkRealToneFMByPitch]
  rw [hns]
  have ht' : (t != -1) = true := by simpa using ht
  simp only [ht', if_true]
  have hb : (st.keyToneOctave == -1) = false := by simpa using hoct
  cases hv : inp.vib with
  | none =>
    simp only [hv, Option.isSome_none, Bool.false_eq_true, if_false,
      BT.OPNAController.writePitchFM, hb, Option.getD_none]
    simp [hst2]
  | some vv =>
    simp only [hv, Option.isSome_some, if_true,
      BT.OPNAController.writePitchFM, hb, Option.getD_some]
    simp [hst2]

open BT.OPNAController in
/-- External functions for the C9 witness: the pitch converter just sums its
arguments. -/
def C9wFns : FMExternalFuns := ⟨fun _ d => d, fun n o p => (n + o + p).toNat⟩

open BT.OPNAController in
/-- A channel with distinct pitch contributions for the C9 witness. -/
def C9wState : FMChannelState :=
  { C3quietState with
    keyToneNote := 1, keyToneOctave := 2, keyTonePitch := 3, sumPitchFM := 4,
    detuneFM := 6, sumNoteSldFM := 7, transposeFM := 8 }

open BT.OPNAController in
/-- Inputs for the C9 witness: a vibrato value of 5 and a note-slide step
of 2. -/
def C9wInputs : FMTickInputs := ⟨fun _ => none, none, none, none, some 5, some (0, 2)⟩

open BT.OPNAController in
/-- Witness for C9: 1 + 2 + (3 + 4 + 5 + 6 + (7 + 2) + 8) = 38, emitted as
high byte 0 and low byte 38 on the channel-0 pitch registers. -/
theorem C9_witness :
    (tickEventFM C9wFns 0 C9wState C9wInputs).2 = [(0xa4, 0), (0xa0, 38)] := by
  rw [C9_effective_pitch C9wFns 0 C9wState C9wInputs 0 2 rfl rfl (by decide)
    (fun _ => rfl) rfl rfl rfl rfl rfl rfl (by decide) (by decide)]
  decide

/-! ### Reference-set invariant: slot-level lemmas -/

/-- Reference sets after a `registerUser`. -/
theorem users_registerUser {π : Type} (pool : BT.Pool π) (cur i s : Nat) :
    ((pool.registerUser cur i) s).users =
      if s = cur then insert i ((pool cur).users) else (pool s).users := by
  unfold BT.Pool.registerUser
  by_cases h : s = cur
  · subst h; rw [Function.update_same]; simp
  · rw [Function.update_noteq h]; simp [h]

/-- Reference sets after a `deregisterUser`. -/
theorem users_deregisterUser {π : Type} (pool : BT.Pool π) (cur i s : Nat) :
    ((pool.deregisterUser cur i) s).users =
      if s = cur then ((pool cur).users).erase i else (pool s).users := by
  unfold BT.Pool.deregisterUser
  by_cases h : s = cur
  · subst h; rw [Function.update_same]; simp
  · rw [Function.update_noteq h]; simp [h]

/-- `setPayload` leaves every reference set unchanged. -/
theorem users_setPayload {π : Type} (pool : BT.Pool π) (s0 : Nat) (f : π → π) (s : Nat) :
    ((pool.setPayload s0 f) s).users = (pool s).users := by
  unfold BT.Pool.setPayload
  by_cases h : s = s0
  · subst h; rw [Function.update_same]
  · rw [Function.update_noteq h]

/-- The `findFirstAssignable` scan leaves every reference set unchanged. -/
theorem users_findFirstAssignable {π : Type} (pool : BT.Pool π) (regard : Bool)
    (edited : π → Bool) (clear : π → π) (s : Nat) :
    (((pool.findFirstAssignable regard edited clear).2) s).users = (pool s).users := by
  unfold BT.Pool.findFirstAssignable
  cases h : (List.range 128).find? (fun s => !BT.assignCond regard edited (pool s)) with
  | none => rfl
  | some k =>
    by_cases hr : regard
    · simp [hr]
    · simp [hr, users_setPayload]

/-- The fresh-slot clone scan leaves every reference set unchanged: the
slot it overwrites had an empty reference set and receives an empty one. -/
theorem users_cloneProp {π : Type} (pool : BT.Pool π) (srcNum s : Nat) :
    (((pool.cloneProp srcNum).2) s).users = (pool s).users := by
  unfold BT.Pool.cloneProp
  cases h : (List.range 128).find? (fun s => !(pool s).isUserInstrument) with
  | none => rfl
  | some k =>
    have hk : (pool k).users = ∅ := by
      have h2 := List.find?_some h
      simpa [BT.Slot.isUserInstrument] using h2
    by_cases hs : s = k
    · subst hs; simp [Function.update_same, hk]
    · simp [Function.update_noteq hs]

/-- Membership in a reference-set specification. -/
theorem mem_refsOf {insts : Nat → Option BT.AbstractInstrument}
    {points : BT.AbstractInstrument → Nat → Bool} {s x : Nat} :
    x ∈ BT.refsOf insts points s ↔
      x < 128 ∧ ((insts x).elim false (fun a => points a s)) = true := by
  unfold BT.refsOf
  simp [Finset.mem_filter, Finset.mem_range]

/-- The workhorse: a pool stays in sync with an instrument table updated at
`i` whenever its reference sets satisfy the membership characterisation
induced by the new entry's pointing predicate. -/
theorem poolSync_transfer {π : Type} {pool pool' : BT.Pool π}
    {insts : Nat → Option BT.AbstractInstrument}
    {points : BT.AbstractInstrument → Nat → Bool} {i : Nat}
    {a' : Option BT.AbstractInstrument} (hi : i < 128)
    (husers : ∀ s, s < 128 → ∀ x, x ∈ (pool' s).users ↔
      (if x = i then (a'.elim false (fun a => points a s)) = true
       else x ∈ (pool s).users))
    (h : BT.PoolSync pool insts points) :
    BT.PoolSync pool' (Function.update insts i a') points := by
  intro s hs
  ext x
  rw [husers s hs x, mem_refsOf]
  by_cases hx : x = i
  · subst hx
    simp [Function.update_same, hi]
  · rw [if_neg hx, Function.update_noteq hx, h s hs, mem_refsOf]

/-- Sync is preserved by any pool transformation that keeps every
reference set (payload edits, scans, fresh-slot clones). -/
theorem poolSync_of_usersPreserved {π : Type} {pool pool' : BT.Pool π}
    {insts : Nat → Option BT.AbstractInstrument}
    {points : BT.AbstractInstrument → Nat → Bool}
    (hu : ∀ s, (pool' s).users = (pool s).users)
    (h : BT.PoolSync pool insts points) : BT.PoolSync pool' insts points :=
  fun s hs => (hu s).trans (h s hs)

/-- Sync is preserved when the table entry `i` is replaced by an entry with
the same pointing behaviour and the pool is untouched. -/
theorem poolSync_update_irrelevant {π : Type} {pool : BT.Pool π}
    {insts : Nat → Option BT.AbstractInstrument}
    {points : BT.AbstractInstrument → Nat → Bool} {i : Nat}
    {a' : Option BT.AbstractInstrument}
    (hp : ∀ s, (a'.elim false (fun a => points a s)) =
      ((insts i).elim false (fun a => points a s)))
    (h : BT.PoolSync pool insts points) :
    BT.PoolSync pool (Function.update insts i a') points := by
  intro s hs
  rw [h s hs]
  unfold BT.refsOf
  apply Finset.filter_congr
  intro x _
  by_cases hx : x = i
  · subst hx; rw [Function.update_same, hp s]
  · rw [Function.update_noteq hx]

/-- Sync after registering `i` on slot `cur` while the new table entry
points wherever the old one did plus at `cur`. -/
theorem poolSync_register {π : Type} {pool : BT.Pool π}
    {insts : Nat → Option BT.AbstractInstrument}
    {points : BT.AbstractInstrument → Nat → Bool} {i : Nat} (cur : Nat)
    {a a' : BT.AbstractInstrument}
    (hi : i < 128) (hins : insts i = some a)
    (hnew : ∀ s, points a' s = (points a s || (cur == s)))
    (h : BT.PoolSync pool insts points) :
    BT.PoolSync (pool.registerUser cur i) (Function.update insts i (some a')) points := by
  refine poolSync_transfer hi ?_ h
  intro s hs x
  rw [users_registerUser]
  have hmem : i ∈ (pool s).users ↔ points a s = true := by
    rw [h s hs, mem_refsOf, hins]
    simp [hi]
  by_cases hx : x = i
  · subst hx
    by_cases hc : s = cur
    · subst hc; simp [hnew, hmem]
    · have : (cur == s) = false := by simp [Ne.symm hc]
      simp [hc, hnew, this, hmem]
  · by_cases hc : s = cur
    · subst hc; simp [hx, Finset.mem_insert]
    · simp [hx, hc]

/-- Sync after deregistering `i` from slot `cur` while the new table entry
points wherever the old one did except at `cur`. -/
theorem poolSync_deregister {π : Type} {pool : BT.Pool π}
    {insts : Nat → Option BT.AbstractInstrument}
    {points : BT.AbstractInstrument → Nat → Bool} {i : Nat} (cur : Nat)
    {a a' : BT.AbstractInstrument}
    (hi : i < 128) (hins : insts i = some a)
    (hnew : ∀ s, points a' s = (points a s && !(cur == s)))
    (h : BT.PoolSync pool insts points) :
    BT.PoolSync (pool.deregisterUser cur i) (Function.update insts i (some a')) points := by
  refine poolSync_transfer hi ?_ h
  intro s hs x
  rw [users_deregisterUser]
  have hmem : i ∈ (pool s).users ↔ points a s = true := by
    rw [h s hs, mem_refsOf, hins]
    simp [hi]
  by_cases hx : x = i
  · subst hx
    by_cases hc : s = cur
    · subst hc; simp [hnew, Finset.mem_erase]
    · have : (cur == s) = false := by simp [Ne.symm hc]
      simp [hc, hnew, this, hmem]
  · by_cases hc : s = cur
    · subst hc; simp [hx, Finset.mem_erase]
    · simp [hx, hc]

/-- Sync after deregistering `i` from `old` and registering it on `new`
(with an arbitrary users-preserving transformation in between) while the
new table entry repoints accordingly. -/
theorem poolSync_repoint {π : Type} {pool pmid : BT.Pool π}
    {insts : Nat → Option BT.AbstractInstrument}
    {points : BT.AbstractInstrument → Nat → Bool} {i : Nat} (old new : Nat)
    {a a' : BT.AbstractInstrument}
    (hi : i < 128) (hins : insts i = some a)
    (hmid : ∀ s, (pmid s).users = ((pool.deregisterUser old i) s).users)
    (hnew : ∀ s, points a' s = ((points a s && !(old == s)) || (new == s)))
    (h : BT.PoolSync pool insts points) :
    BT.PoolSync (pmid.registerUser new i) (Function.update insts i (some a')) points := by
  refine poolSync_transfer hi ?_ h
  intro s hs x
  rw [users_registerUser, hmid, hmid, users_deregisterUser, users_deregisterUser]
  have hmem : i ∈ (pool s).users ↔ points a s = true := by
    rw [h s hs, mem_refsOf, hins]
    simp [hi]
  by_cases hx : x = i
  · rw [if_pos hx, hx]
    simp only [Option.elim]
    by_cases hn : s = new
    · rw [if_pos hn]
      have h1 : points a' s = true := by
        rw [hnew s, hn]; simp
      simp [h1, Finset.mem_insert]
    · rw [if_neg hn]
      by_cases ho : s = old
      · have h1 : points a' s = false := by
          rw [hnew s, ho]
          have h2 : (new == old) = false := by
            rw [beq_eq_false_iff_ne]
            intro hh
            exact hn (ho.trans hh.symm)
          simp [h2]
        rw [if_pos ho]
        simp [h1, Finset.mem_erase]
      · have hbo : (old == s) = false := by
          rw [beq_eq_false_iff_ne]
          exact fun hh => ho hh.symm
        have hb : (new == s) = false := by
          rw [beq_eq_false_iff_ne]
          exact fun hh => hn hh.symm
        have h1 : points a' s = points a s := by
          rw [hnew s, hbo, hb]; simp
        rw [if_neg ho, h1]
        exact hmem
  · rw [if_neg hx]
    by_cases hn : s = new
    · rw [if_pos hn]
      by_cases hno : new = old
      · rw [if_pos hno]
        simp [Finset.mem_insert, Finset.mem_erase, hx, hn, hno]
      · rw [if_neg hno]
        simp [Finset.mem_insert, hx, hn]
    · rw [if_neg hn]
      by_cases ho : s = old
      · rw [if_pos ho]
        simp [Finset.mem_erase, hx, ho]
      · rw [if_neg ho]

/-- Sync after a new instrument arrives at the empty entry `n`: every slot
the new entry points at gains `n`, every other reference set is kept. -/
theorem poolSync_arrive {π : Type} {pool pool' : BT.Pool π}
    {insts : Nat → Option BT.AbstractInstrument}
    {points : BT.AbstractInstrument → Nat → Bool} {n : Nat}
    {a' : BT.AbstractInstrument}
    (hn128 : n < 128) (hn : insts n = none)
    (husers : ∀ s, s < 128 → (pool' s).users =
      if points a' s = true then insert n ((pool s).users) else (pool s).users)
    (h : BT.PoolSync pool insts points) :
    BT.PoolSync pool' (Function.update insts n (some a')) points := by
  refine poolSync_transfer hn128 ?_ h
  intro s hs x
  rw [husers s hs]
  have hnm : n ∉ (pool s).users := by
    rw [h s hs, mem_refsOf]
    simp [hn]
  by_cases hx : x = n
  · subst hx
    by_cases hp : points a' s = true <;> simp [hp, hnm]
  · by_cases hp : points a' s = true <;> simp [hp, hx]

/-- Sync after the instrument at entry `n` departs: it is erased from every
slot it pointed at (erasing it elsewhere is harmless since sync places it
nowhere else), and the entry becomes empty. -/
theorem poolSync_depart {π : Type} {pool pool' : BT.Pool π}
    {insts : Nat → Option BT.AbstractInstrument}
    {points : BT.AbstractInstrument → Nat → Bool} {n : Nat}
    {a : BT.AbstractInstrument}
    (hn128 : n < 128) (hins : insts n = some a)
    (husers : ∀ s, s < 128 →
      ((pool' s).users = ((pool s).users).erase n) ∨
        ((pool' s).users = (pool s).users ∧ points a s = false))
    (h : BT.PoolSync pool insts points) :
    BT.PoolSync pool' (Function.update insts n none) points := by
  refine poolSync_transfer hn128 ?_ h
  intro s hs x
  rcases husers s hs with h1 | ⟨h1, h2⟩ <;> rw [h1] <;> by_cases hx : x = n
  · rw [if_pos hx, hx]
    simp [Finset.mem_erase]
  · rw [if_neg hx]
    simp [Finset.mem_erase, hx]
  · rw [if_pos hx]
    have hnm : x ∉ (pool s).users := by
      rw [hx, h s hs, mem_refsOf, hins]
      simp [h2]
    simp [hnm]
  · rw [if_neg hx]

/-- `UsersEq` is reflexive. -/
theorem usersEq_refl (m : BT.InstrumentsManager) : BT.UsersEq m m :=
  ⟨rfl, fun _ => rfl, fun _ => rfl, fun _ _ => rfl, fun _ => rfl, fun _ => rfl,
   fun _ => rfl, fun _ => rfl, fun _ => rfl, fun _ => rfl, fun _ => rfl, fun _ => rfl,
   fun _ => rfl, fun _ => rfl, fun _ => rfl⟩

/-- `UsersEq` is transitive. -/
theorem usersEq_trans {m₁ m₂ m₃ : BT.InstrumentsManager} (h₁ : BT.UsersEq m₁ m₂)
    (h₂ : BT.UsersEq m₂ m₃) : BT.UsersEq m₁ m₃ :=
  ⟨h₁.insts.trans h₂.insts,
   fun s => (h₁.envFM s).trans (h₂.envFM s),
   fun s => (h₁.lfoFM s).trans (h₂.lfoFM s),
   fun p s => (h₁.opSeqFM p s).trans (h₂.opSeqFM p s),
   fun s => (h₁.arpFM s).trans (h₂.arpFM s),
   fun s => (h₁.ptFM s).trans (h₂.ptFM s),
   fun s => (h₁.wfSSG s).trans (h₂.wfSSG s),
   fun s => (h₁.tnSSG s).trans (h₂.tnSSG s),
   fun s => (h₁.envSSG s).trans (h₂.envSSG s),
   fun s => (h₁.arpSSG s).trans (h₂.arpSSG s),
   fun s => (h₁.ptSSG s).trans (h₂.ptSSG s),
   fun s => (h₁.wfADPCM s).trans (h₂.wfADPCM s),
   fun s => (h₁.envADPCM s).trans (h₂.envADPCM s),
   fun s => (h₁.arpADPCM s).trans (h₂.arpADPCM s),
   fun s => (h₁.ptADPCM s).trans (h₂.ptADPCM s)⟩

/-- The invariant transfers backwards along `UsersEq`. -/
theorem inv_of_usersEq {m₁ m₂ : BT.InstrumentsManager} (hu : BT.UsersEq m₁ m₂)
    (h : BT.Inv m₂) : BT.Inv m₁ := by
  refine ⟨?_, ?_, ?_, ?_, ?_, ?_, ?_, ?_, ?_, ?_, ?_, ?_, ?_, ?_⟩
  · intro s hs; rw [hu.envFM s, hu.insts]; exact h.envFM s hs
  · intro s hs; rw [hu.lfoFM s, hu.insts]; exact h.lfoFM s hs
  · intro p hp s hs; rw [hu.opSeqFM p s, hu.insts]; exact h.opSeqFM p hp s hs
  · intro s hs; rw [hu.arpFM s, hu.insts]; exact h.arpFM s hs
  · intro s hs; rw [hu.ptFM s, hu.insts]; exact h.ptFM s hs
  · intro s hs; rw [hu.wfSSG s, hu.insts]; exact h.wfSSG s hs
  · intro s hs; rw [hu.tnSSG s, hu.insts]; exact h.tnSSG s hs
  · intro s hs; rw [hu.envSSG s, hu.insts]; exact h.envSSG s hs
  · intro s hs; rw [hu.arpSSG s, hu.insts]; exact h.arpSSG s hs
  · intro s hs; rw [hu.ptSSG s, hu.insts]; exact h.ptSSG s hs
  · intro s hs; rw [hu.wfADPCM s, hu.insts]; exact h.wfADPCM s hs
  · intro s hs; rw [hu.envADPCM s, hu.insts]; exact h.envADPCM s hs
  · intro s hs; rw [hu.arpADPCM s, hu.insts]; exact h.arpADPCM s hs
  · intro s hs; rw [hu.ptADPCM s, hu.insts]; exact h.ptADPCM s hs

/-- The operator-sequence find scan relates to its input by `UsersEq`. -/
theorem usersEq_findOpSeqFM (m : BT.InstrumentsManager) (p : BT.FMEnvelopeParameter) :
    BT.UsersEq (m.findFirstAssignableOperatorSequenceFM p).2 m := by
  refine ⟨rfl, fun _ => rfl, fun _ => rfl, ?_, fun _ => rfl, fun _ => rfl, fun _ => rfl,
    fun _ => rfl, fun _ => rfl, fun _ => rfl, fun _ => rfl, fun _ => rfl, fun _ => rfl,
    fun _ => rfl, fun _ => rfl⟩
  intro q s
  by_cases hq : q = p
  · subst hq
    show ((Function.update m.opSeqFM q _ q) s).users = _
    rw [Function.update_same]
    exact users_findFirstAssignable _ _ _ _ s
  · show ((Function.update m.opSeqFM p _ q) s).users = _
    rw [Function.update_noteq hq]

/-- A fold of `UsersEq`-preserving steps on the second component preserves
`UsersEq`. -/
theorem usersEq_foldl_snd {α β : Type}
    (f : β × BT.InstrumentsManager → α → β × BT.InstrumentsManager)
    (hf : ∀ acc a, BT.UsersEq (f acc a).2 acc.2) (l : List α)
    (acc : β × BT.InstrumentsManager) :
    BT.UsersEq (l.foldl f acc).2 acc.2 := by
  induction l generalizing acc with
  | nil => exact usersEq_refl _
  | cons a l ih => exact usersEq_trans (ih (f acc a)) (hf acc a)

/-- Helper shared with the C6 claim: out-of-range `addInstrument` is the
identity. -/
theorem addInstrument_out_of_range (m : BT.InstrumentsManager) (n : Int)
    (source : BT.SoundSource) (name : String) (h : n < 0 ∨ 128 ≤ n) :
    m.addInstrument n source name = m := by
  have hc : (decide (n < 0) || decide (128 ≤ n)) = true := by
    rcases h with h | h <;> simp [h]
  unfold BT.InstrumentsManager.addInstrument
  simp only [hc, Bool.or_eq_true, decide_eq_true_eq] at hc ⊢
  split
  · rfl
  · rename_i hne
    exact absurd hc hne

/-- In-range `addInstrument` with the `DRUM` source is the identity. -/
theorem addInstrument_drum (m : BT.InstrumentsManager) (n : Int) (name : String)
    (hc : (decide (n < 0) || decide (128 ≤ n)) = false) :
    m.addInstrument n .DRUM name = m := by
  unfold BT.InstrumentsManager.addInstrument
  simp only [hc, Bool.false_eq_true, if_false]


/-- The FM envelope find scan relates to its input by `UsersEq`. -/
theorem usersEq_findEnvFM (m : BT.InstrumentsManager) :
    BT.UsersEq (m.findFirstAssignableEnvelopeFM).2 m := by
  refine ⟨rfl, ?_, fun _ => rfl, fun _ _ => rfl, fun _ => rfl, fun _ => rfl, fun _ => rfl,
    fun _ => rfl, fun _ => rfl, fun _ => rfl, fun _ => rfl, fun _ => rfl, fun _ => rfl,
    fun _ => rfl, fun _ => rfl⟩
  intro s
  exact users_findFirstAssignable _ _ _ _ s

/-- The FM LFO find scan relates to its input by `UsersEq`. -/
theorem usersEq_findLFOFM (m : BT.InstrumentsManager) :
    BT.UsersEq (m.findFirstAssignableLFOFM).2 m := by
  refine ⟨rfl, fun _ => rfl, ?_, fun _ _ => rfl, fun _ => rfl, fun _ => rfl, fun _ => rfl,
    fun _ => rfl, fun _ => rfl, fun _ => rfl, fun _ => rfl, fun _ => rfl, fun _ => rfl,
    fun _ => rfl, fun _ => rfl⟩
  intro s
  exact users_findFirstAssignable _ _ _ _ s

/-- The FM arpeggio find scan relates to its input by `UsersEq`. -/
theorem usersEq_findArpFM (m : BT.InstrumentsManager) :
    BT.UsersEq (m.findFirstAssignableArpeggioFM).2 m := by
  refine ⟨rfl, fun _ => rfl, fun _ => rfl, fun _ _ => rfl, ?_, fun _ => rfl, fun _ => rfl,
    fun _ => rfl, fun _ => rfl, fun _ => rfl, fun _ => rfl, fun _ => rfl, fun _ => rfl,
    fun _ => rfl, fun _ => rfl⟩
  intro s
  exact users_findFirstAssignable _ _ _ _ s

/-- The FM pitch find scan relates to its input by `UsersEq`. -/
theorem usersEq_findPtFM (m : BT.InstrumentsManager) :
    BT.UsersEq (m.findFirstAssignablePitchFM).2 m := by
  refine ⟨rfl, fun _ => rfl, fun _ => rfl, fun _ _ => rfl, fun _ => rfl, ?_, fun _ => rfl,
    fun _ => rfl, fun _ => rfl, fun _ => rfl, fun _ => rfl, fun _ => rfl, fun _ => rfl,
    fun _ => rfl, fun _ => rfl⟩
  intro s
  exact users_findFirstAssignable _ _ _ _ s

/-- The SSG waveform find scan relates to its input by `UsersEq`. -/
theorem usersEq_findWfSSG (m : BT.InstrumentsManager) :
    BT.UsersEq (m.findFirstAssignableWaveformSSG).2 m := by
  refine ⟨rfl, fun _ => rfl, fun _ => rfl, fun _ _ => rfl, fun _ => rfl, fun _ => rfl, ?_,
    fun _ => rfl, fun _ => rfl, fun _ => rfl, fun _ => rfl, fun _ => rfl, fun _ => rfl,
    fun _ => rfl, fun _ => rfl⟩
  intro s
  exact users_findFirstAssignable _ _ _ _ s

/-- The SSG tone/noise find scan relates to its input by `UsersEq`. -/
theorem usersEq_findTnSSG (m : BT.InstrumentsManager) :
    BT.UsersEq (m.findFirstAssignableToneNoiseSSG).2 m := by
  refine ⟨rfl, fun _ => rfl, fun _ => rfl, fun _ _ => rfl, fun _ => rfl, fun _ => rfl,
    fun _ => rfl, ?_, fun _ => rfl, fun _ => rfl, fun _ => rfl, fun _ => rfl, fun _ => rfl,
    fun _ => rfl, fun _ => rfl⟩
  intro s
  exact users_findFirstAssignable _ _ _ _ s

/-- The SSG envelope find scan relates to its input by `UsersEq`. -/
theorem usersEq_findEnvSSG (m : BT.InstrumentsManager) :
    BT.UsersEq (m.findFirstAssignableEnvelopeSSG).2 m := by
  refine ⟨rfl, fun _ => rfl, fun _ => rfl, fun _ _ => rfl, fun _ => rfl, fun _ => rfl,
    fun _ => rfl, fun _ => rfl, ?_, fun _ => rfl, fun _ => rfl, fun _ => rfl, fun _ => rfl,
    fun _ => rfl, fun _ => rfl⟩
  intro s
  exact users_findFirstAssignable _ _ _ _ s

/-- The SSG arpeggio find scan relates to its input by `UsersEq`. -/
theorem usersEq_findArpSSG (m : BT.InstrumentsManager) :
    BT.UsersEq (m.findFirstAssignableArpeggioSSG).2 m := by
  refine ⟨rfl, fun _ => rfl, fun _ => rfl, fun _ _ => rfl, fun _ => rfl, fun _ => rfl,
    fun _ => rfl, fun _ => rfl, fun _ => rfl, ?_, fun _ => rfl, fun _ => rfl, fun _ => rfl,
    fun _ => rfl, fun _ => rfl⟩
  intro s
  exact users_findFirstAssignable _ _ _ _ s

/-- The SSG pitch find scan relates to its input by `UsersEq`. -/
theorem usersEq_findPtSSG (m : BT.InstrumentsManager) :
    BT.UsersEq (m.findFirstAssignablePitchSSG).2 m := by
  refine ⟨rfl, fun _ => rfl, fun _ => rfl, fun _ _ => rfl, fun _ => rfl, fun _ => rfl,
    fun _ => rfl, fun _ => rfl, fun _ => rfl, fun _ => rfl, ?_, fun _ => rfl, fun _ => rfl,
    fun _ => rfl, fun _ => rfl⟩
  intro s
  exact users_findFirstAssignable _ _ _ _ s

/-- The ADPCM waveform find scan relates to its input by `UsersEq`. -/
theorem usersEq_findWfADPCM (m : BT.InstrumentsManager) :
    BT.UsersEq (m.findFirstAssignableWaveformADPCM).2 m := by
  refine ⟨rfl, fun _ => rfl, fun _ => rfl, fun _ _ => rfl, fun _ => rfl, fun _ => rfl,
    fun _ => rfl, fun _ => rfl, fun _ => rfl, fun _ => rfl, fun _ => rfl, ?_, fun _ => rfl,
    fun _ => rfl, fun _ => rfl⟩
  intro s
  exact users_findFirstAssignable _ _ _ _ s

/-- The ADPCM envelope find scan relates to its input by `UsersEq`. -/
theorem usersEq_findEnvADPCM (m : BT.InstrumentsManager) :
    BT.UsersEq (m.findFirstAssignableEnvelopeADPCM).2 m := by
  refine ⟨rfl, fun _ => rfl, fun _ => rfl, fun _ _ => rfl, fun _ => rfl, fun _ => rfl,
    fun _ => rfl, fun _ => rfl, fun _ => rfl, fun _ => rfl, fun _ => rfl, fun _ => rfl, ?_,
    fun _ => rfl, fun _ => rfl⟩
  intro s
  exact users_findFirstAssignable _ _ _ _ s

/-- The ADPCM arpeggio find scan relates to its input by `UsersEq`. -/
theorem usersEq_findArpADPCM (m : BT.InstrumentsManager) :
    BT.UsersEq (m.findFirstAssignableArpeggioADPCM).2 m := by
  refine ⟨rfl, fun _ => rfl, fun _ => rfl, fun _ _ => rfl, fun _ => rfl, fun _ => rfl,
    fun _ => rfl, fun _ => rfl, fun _ => rfl, fun _ => rfl, fun _ => rfl, fun _ => rfl,
    fun _ => rfl, ?_, fun _ => rfl⟩
  intro s
  exact users_findFirstAssignable _ _ _ _ s

/-- The ADPCM pitch find scan relates to its input by `UsersEq`. -/
theorem usersEq_findPtADPCM (m : BT.InstrumentsManager) :
    BT.UsersEq (m.findFirstAssignablePitchADPCM).2 m := by
  refine ⟨rfl, fun _ => rfl, fun _ => rfl, fun _ _ => rfl, fun _ => rfl, fun _ => rfl,
    fun _ => rfl, fun _ => rfl, fun _ => rfl, fun _ => rfl, fun _ => rfl, fun _ => rfl,
    fun _ => rfl, fun _ => rfl, ?_⟩
  intro s
  exact users_findFirstAssignable _ _ _ _ s

/-- The stages after the FM envelope registration keep all reference sets. -/
theorem addFMm6_usersEq (m : BT.InstrumentsManager) (n : Nat) :
    BT.UsersEq (BT.addFMm6 m n) (BT.addFMm2 m n) :=
  usersEq_trans
    (usersEq_trans
      (usersEq_trans (usersEq_findPtFM (BT.addFMm5 m n))
        (usersEq_findArpFM ((BT.addFMacc m n).2)))
      (usersEq_foldl_snd BT.addFMStep (fun acc p => usersEq_findOpSeqFM acc.2 p)
        BT.envFMParams ((fun _ => 0), BT.addFMm3 m n)))
    (usersEq_findLFOFM (BT.addFMm2 m n))

/-- The whole SSG `addInstrument` scan chain keeps all reference sets. -/
theorem addSSGm5_usersEq (m : BT.InstrumentsManager) :
    BT.UsersEq (BT.addSSGm5 m) m :=
  usersEq_trans
    (usersEq_trans
      (usersEq_trans
        (usersEq_trans (usersEq_findPtSSG (BT.addSSGm4 m))
          (usersEq_findArpSSG (BT.addSSGm3 m)))
        (usersEq_findEnvSSG (BT.addSSGm2 m)))
      (usersEq_findTnSSG (BT.addSSGm1 m)))
    (usersEq_findWfSSG m)

/-- The stages after the ADPCM waveform registration keep all reference
sets. -/
theorem addADPCMm5_usersEq (m : BT.InstrumentsManager) (n : Nat) :
    BT.UsersEq (BT.addADPCMm5 m n) (BT.addADPCMm2 m n) :=
  usersEq_trans
    (usersEq_trans (usersEq_findPtADPCM (BT.addADPCMm4 m n))
      (usersEq_findArpADPCM (BT.addADPCMm3 m n)))
    (usersEq_findEnvADPCM (BT.addADPCMm2 m n))

set_option maxHeartbeats 1000000 in
/-- An in-range FM `addInstrument` is the staged construction. -/
theorem addFM_proj (m : BT.InstrumentsManager) (n : Int) (name : String)
    (hc : (decide (n < 0) || decide (128 ≤ n)) = false) :
    (m.addInstrument n .FM name).insts =
      Function.update (BT.addFMm6 m n.toNat).insts n.toNat
        (some (.fm (BT.addFMrec m n.toNat name))) ∧
    (m.addInstrument n .FM name).envFM = (BT.addFMm6 m n.toNat).envFM ∧
    (m.addInstrument n .FM name).lfoFM = (BT.addFMm6 m n.toNat).lfoFM ∧
    (m.addInstrument n .FM name).opSeqFM = (BT.addFMm6 m n.toNat).opSeqFM ∧
    (m.addInstrument n .FM name).arpFM = (BT.addFMm6 m n.toNat).arpFM ∧
    (m.addInstrument n .FM name).ptFM = (BT.addFMm6 m n.toNat).ptFM ∧
    (m.addInstrument n .FM name).wfSSG = (BT.addFMm6 m n.toNat).wfSSG ∧
    (m.addInstrument n .FM name).tnSSG = (BT.addFMm6 m n.toNat).tnSSG ∧
    (m.addInstrument n .FM name).envSSG = (BT.addFMm6 m n.toNat).envSSG ∧
    (m.addInstrument n .FM name).arpSSG = (BT.addFMm6 m n.toNat).arpSSG ∧
    (m.addInstrument n .FM name).ptSSG = (BT.addFMm6 m n.toNat).ptSSG ∧
    (m.addInstrument n .FM name).wfADPCM = (BT.addFMm6 m n.toNat).wfADPCM ∧
    (m.addInstrument n .FM name).envADPCM = (BT.addFMm6 m n.toNat).envADPCM ∧
    (m.addInstrument n .FM name).arpADPCM = (BT.addFMm6 m n.toNat).arpADPCM ∧
    (m.addInstrument n .FM name).ptADPCM = (BT.addFMm6 m n.toNat).ptADPCM := by
  unfold BT.InstrumentsManager.addInstrument
  simp only [hc, Bool.false_eq_true, if_false]
  exact ⟨rfl, rfl, rfl, rfl, rfl, rfl, rfl, rfl, rfl, rfl, rfl, rfl, rfl, rfl, rfl⟩

/-- Characterisation of an in-range FM `addInstrument` at the level of
tables and reference sets: the envelope slot gains the new number and every
other reference set is kept. -/
theorem addFM_char (m : BT.InstrumentsManager) (n : Int) (name : String)
    (hc : (decide (n < 0) || decide (128 ≤ n)) = false) :
    (m.addInstrument n .FM name).insts =
      Function.update m.insts n.toNat (some (.fm (BT.addFMrec m n.toNat name))) ∧
    (∀ s, ((m.addInstrument n .FM name).envFM s).users =
      if s = (BT.addFMrec m n.toNat name).envelopeNumber
      then insert n.toNat ((m.envFM s).users) else (m.envFM s).users) ∧
    (∀ s, ((m.addInstrument n .FM name).lfoFM s).users = (m.lfoFM s).users) ∧
    (∀ p s, (((m.addInstrument n .FM name).opSeqFM p) s).users =
      ((m.opSeqFM p) s).users) ∧
    (∀ s, ((m.addInstrument n .FM name).arpFM s).users = (m.arpFM s).users) ∧
    (∀ s, ((m.addInstrument n .FM name).ptFM s).users = (m.ptFM s).users) ∧
    (∀ s, ((m.addInstrument n .FM name).wfSSG s).users = (m.wfSSG s).users) ∧
    (∀ s, ((m.addInstrument n .FM name).tnSSG s).users = (m.tnSSG s).users) ∧
    (∀ s, ((m.addInstrument n .FM name).envSSG s).users = (m.envSSG s).users) ∧
    (∀ s, ((m.addInstrument n .FM name).arpSSG s).users = (m.arpSSG s).users) ∧
    (∀ s, ((m.addInstrument n .FM name).ptSSG s).users = (m.ptSSG s).users) ∧
    (∀ s, ((m.addInstrument n .FM name).wfADPCM s).users = (m.wfADPCM s).users) ∧
    (∀ s, ((m.addInstrument n .FM name).envADPCM s).users = (m.envADPCM s).users) ∧
    (∀ s, ((m.addInstrument n .FM name).arpADPCM s).users = (m.arpADPCM s).users) ∧
    (∀ s, ((m.addInstrument n .FM name).ptADPCM s).users = (m.ptADPCM s).users) := by
  obtain ⟨h0, hEnv, hLfo, hOps, hArp, hPt, h6, h7, h8, h9, h10, h11, h12, h13, h14⟩ :=
    addFM_proj m n name hc
  have hu := addFMm6_usersEq m n.toNat
  have hrec : (BT.addFMrec m n.toNat name).envelopeNumber =
      (m.findFirstAssignableEnvelopeFM).1.getD 127 := rfl
  refine ⟨?_, ?_, ?_, ?_, ?_, ?_, ?_, ?_, ?_, ?_, ?_, ?_, ?_, ?_, ?_⟩
  · rw [h0]
    have h2 : (BT.addFMm6 m n.toNat).insts = m.insts := hu.insts.trans rfl
    rw [h2]
  · intro s
    rw [hEnv, hu.envFM s, hrec]
    show ((((m.envFM.findFirstAssignable m.regardingUnedited BT.EnvelopeFM.isEdited
      BT.EnvelopeFM.clearParameters).2).registerUser
      ((m.findFirstAssignableEnvelopeFM).1.getD 127) n.toNat) s).users = _
    rw [users_registerUser]
    simp only [users_findFirstAssignable]
    by_cases hcs : s = (m.findFirstAssignableEnvelopeFM).1.getD 127
    · rw [if_pos hcs, if_pos hcs, hcs]
    · rw [if_neg hcs, if_neg hcs]
  · intro s; rw [hLfo, hu.lfoFM s]; rfl
  · intro p s; rw [hOps, hu.opSeqFM p s]; rfl
  · intro s; rw [hArp, hu.arpFM s]; rfl
  · intro s; rw [hPt, hu.ptFM s]; rfl
  · intro s; rw [h6, hu.wfSSG s]; rfl
  · intro s; rw [h7, hu.tnSSG s]; rfl
  · intro s; rw [h8, hu.envSSG s]; rfl
  · intro s; rw [h9, hu.arpSSG s]; rfl
  · intro s; rw [h10, hu.ptSSG s]; rfl
  · intro s; rw [h11, hu.wfADPCM s]; rfl
  · intro s; rw [h12, hu.envADPCM s]; rfl
  · intro s; rw [h13, hu.arpADPCM s]; rfl
  · intro s; rw [h14, hu.ptADPCM s]; rfl

set_option maxHeartbeats 1000000 in
/-- An in-range SSG `addInstrument` is the staged construction. -/
theorem addSSG_proj (m : BT.InstrumentsManager) (n : Int) (name : String)
    (hc : (decide (n < 0) || decide (128 ≤ n)) = false) :
    (m.addInstrument n .SSG name).insts =
      Function.update (BT.addSSGm5 m).insts n.toNat
        (some (.ssg (BT.addSSGrec m name))) ∧
    (m.addInstrument n .SSG name).envFM = (BT.addSSGm5 m).envFM ∧
    (m.addInstrument n .SSG name).lfoFM = (BT.addSSGm5 m).lfoFM ∧
    (m.addInstrument n .SSG name).opSeqFM = (BT.addSSGm5 m).opSeqFM ∧
    (m.addInstrument n .SSG name).arpFM = (BT.addSSGm5 m).arpFM ∧
    (m.addInstrument n .SSG name).ptFM = (BT.addSSGm5 m).ptFM ∧
    (m.addInstrument n .SSG name).wfSSG = (BT.addSSGm5 m).wfSSG ∧
    (m.addInstrument n .SSG name).tnSSG = (BT.addSSGm5 m).tnSSG ∧
    (m.addInstrument n .SSG name).envSSG = (BT.addSSGm5 m).envSSG ∧
    (m.addInstrument n .SSG name).arpSSG = (BT.addSSGm5 m).arpSSG ∧
    (m.addInstrument n .SSG name).ptSSG = (BT.addSSGm5 m).ptSSG ∧
    (m.addInstrument n .SSG name).wfADPCM = (BT.addSSGm5 m).wfADPCM ∧
    (m.addInstrument n .SSG name).envADPCM = (BT.addSSGm5 m).envADPCM ∧
    (m.addInstrument n .SSG name).arpADPCM = (BT.addSSGm5 m).arpADPCM ∧
    (m.addInstrument n .SSG name).ptADPCM = (BT.addSSGm5 m).ptADPCM := by
  unfold BT.InstrumentsManager.addInstrument
  simp only [hc, Bool.false_eq_true, if_false]
  exact ⟨rfl, rfl, rfl, rfl, rfl, rfl, rfl, rfl, rfl, rfl, rfl, rfl, rfl, rfl, rfl⟩

/-- Characterisation of an in-range SSG `addInstrument`: the table gains the
all-disabled SSG instrument and every reference set is kept. -/
theorem addSSG_char (m : BT.InstrumentsManager) (n : Int) (name : String)
    (hc : (decide (n < 0) || decide (128 ≤ n)) = false) :
    (m.addInstrument n .SSG name).insts =
      Function.update m.insts n.toNat (some (.ssg (BT.addSSGrec m name))) ∧
    (∀ s, ((m.addInstrument n .SSG name).envFM s).users = (m.envFM s).users) ∧
    (∀ s, ((m.addInstrument n .SSG name).lfoFM s).users = (m.lfoFM s).users) ∧
    (∀ p s, (((m.addInstrument n .SSG name).opSeqFM p) s).users =
      ((m.opSeqFM p) s).users) ∧
    (∀ s, ((m.addInstrument n .SSG name).arpFM s).users = (m.arpFM s).users) ∧
    (∀ s, ((m.addInstrument n .SSG name).ptFM s).users = (m.ptFM s).users) ∧
    (∀ s, ((m.addInstrument n .SSG name).wfSSG s).users = (m.wfSSG s).users) ∧
    (∀ s, ((m.addInstrument n .SSG name).tnSSG s).users = (m.tnSSG s).users) ∧
    (∀ s, ((m.addInstrument n .SSG name).envSSG s).users = (m.envSSG s).users) ∧
    (∀ s, ((m.addInstrument n .SSG name).arpSSG s).users = (m.arpSSG s).users) ∧
    (∀ s, ((m.addInstrument n .SSG name).ptSSG s).users = (m.ptSSG s).users) ∧
    (∀ s, ((m.addInstrument n .SSG name).wfADPCM s).users = (m.wfADPCM s).users) ∧
    (∀ s, ((m.addInstrument n .SSG name).envADPCM s).users = (m.envADPCM s).users) ∧
    (∀ s, ((m.addInstrument n .SSG name).arpADPCM s).users = (m.arpADPCM s).users) ∧
    (∀ s, ((m.addInstrument n .SSG name).ptADPCM s).users = (m.ptADPCM s).users) := by
  obtain ⟨h0, h1, h2, h3, h4, h5, h6, h7, h8, h9, h10, h11, h12, h13, h14⟩ :=
    addSSG_proj m n name hc
  have hu := addSSGm5_usersEq m
  refine ⟨?_, ?_, ?_, ?_, ?_, ?_, ?_, ?_, ?_, ?_, ?_, ?_, ?_, ?_, ?_⟩
  · rw [h0, hu.insts]
  · intro s; rw [h1, hu.envFM s]
  · intro s; rw [h2, hu.lfoFM s]
  · intro p s; rw [h3, hu.opSeqFM p s]
  · intro s; rw [h4, hu.arpFM s]
  · intro s; rw [h5, hu.ptFM s]
  · intro s; rw [h6, hu.wfSSG s]
  · intro s; rw [h7, hu.tnSSG s]
  · intro s; rw [h8, hu.envSSG s]
  · intro s; rw [h9, hu.arpSSG s]
  · intro s; rw [h10, hu.ptSSG s]
  · intro s; rw [h11, hu.wfADPCM s]
  · intro s; rw [h12, hu.envADPCM s]
  · intro s; rw [h13, hu.arpADPCM s]
  · intro s; rw [h14, hu.ptADPCM s]

set_option maxHeartbeats 1000000 in
/-- An in-range ADPCM `addInstrument` is the staged construction. -/
theorem addADPCM_proj (m : BT.InstrumentsManager) (n : Int) (name : String)
    (hc : (decide (n < 0) || decide (128 ≤ n)) = false) :
    (m.addInstrument n .ADPCM name).insts =
      Function.update (BT.addADPCMm5 m n.toNat).insts n.toNat
        (some (.adpcm (BT.addADPCMrec m n.toNat name))) ∧
    (m.addInstrument n .ADPCM name).envFM = (BT.addADPCMm5 m n.toNat).envFM ∧
    (m.addInstrument n .ADPCM name).lfoFM = (BT.addADPCMm5 m n.toNat).lfoFM ∧
    (m.addInstrument n .ADPCM name).opSeqFM = (BT.addADPCMm5 m n.toNat).opSeqFM ∧
    (m.addInstrument n .ADPCM name).arpFM = (BT.addADPCMm5 m n.toNat).arpFM ∧
    (m.addInstrument n .ADPCM name).ptFM = (BT.addADPCMm5 m n.toNat).ptFM ∧
    (m.addInstrument n .ADPCM name).wfSSG = (BT.addADPCMm5 m n.toNat).wfSSG ∧
    (m.addInstrument n .ADPCM name).tnSSG = (BT.addADPCMm5 m n.toNat).tnSSG ∧
    (m.addInstrument n .ADPCM name).envSSG = (BT.addADPCMm5 m n.toNat).envSSG ∧
    (m.addInstrument n .ADPCM name).arpSSG = (BT.addADPCMm5 m n.toNat).arpSSG ∧
    (m.addInstrument n .ADPCM name).ptSSG = (BT.addADPCMm5 m n.toNat).ptSSG ∧
    (m.addInstrument n .ADPCM name).wfADPCM = (BT.addADPCMm5 m n.toNat).wfADPCM ∧
    (m.addInstrument n .ADPCM name).envADPCM = (BT.addADPCMm5 m n.toNat).envADPCM ∧
    (m.addInstrument n .ADPCM name).arpADPCM = (BT.addADPCMm5 m n.toNat).arpADPCM ∧
    (m.addInstrument n .ADPCM name).ptADPCM = (BT.addADPCMm5 m n.toNat).ptADPCM := by
  unfold BT.InstrumentsManager.addInstrument
  simp only [hc, Bool.false_eq_true, if_false]
  exact ⟨rfl, rfl, rfl, rfl, rfl, rfl, rfl, rfl, rfl, rfl, rfl, rfl, rfl, rfl, rfl⟩

/-- Characterisation of an in-range ADPCM `addInstrument`: the waveform slot
gains the new number and every other reference set is kept. -/
theorem addADPCM_char (m : BT.InstrumentsManager) (n : Int) (name : String)
    (hc : (decide (n < 0) || decide (128 ≤ n)) = false) :
    (m.addInstrument n .ADPCM name).insts =
      Function.update m.insts n.toNat (some (.adpcm (BT.addADPCMrec m n.toNat name))) ∧
    (∀ s, ((m.addInstrument n .ADPCM name).wfADPCM s).users =
      if s = (BT.addADPCMrec m n.toNat name).waveformNumber
      then insert n.toNat ((m.wfADPCM s).users) else (m.wfADPCM s).users) ∧
    (∀ s, ((m.addInstrument n .ADPCM name).envFM s).users = (m.envFM s).users) ∧
    (∀ s, ((m.addInstrument n .ADPCM name).lfoFM s).users = (m.lfoFM s).users) ∧
    (∀ p s, (((m.addInstrument n .ADPCM name).opSeqFM p) s).users =
      ((m.opSeqFM p) s).users) ∧
    (∀ s, ((m.addInstrument n .ADPCM name).arpFM s).users = (m.arpFM s).users) ∧
    (∀ s, ((m.addInstrument n .ADPCM name).ptFM s).users = (m.ptFM s).users) ∧
    (∀ s, ((m.addInstrument n .ADPCM name).wfSSG s).users = (m.wfSSG s).users) ∧
    (∀ s, ((m.addInstrument n .ADPCM name).tnSSG s).users = (m.tnSSG s).users) ∧
    (∀ s, ((m.addInstrument n .ADPCM name).envSSG s).users = (m.envSSG s).users) ∧
    (∀ s, ((m.addInstrument n .ADPCM name).arpSSG s).users = (m.arpSSG s).users) ∧
    (∀ s, ((m.addInstrument n .ADPCM name).ptSSG s).users = (m.ptSSG s).users) ∧
    (∀ s, ((m.addInstrument n .ADPCM name).envADPCM s).users = (m.envADPCM s).users) ∧
    (∀ s, ((m.addInstrument n .ADPCM name).arpADPCM s).users = (m.arpADPCM s).users) ∧
    (∀ s, ((m.addInstrument n .ADPCM name).ptADPCM s).users = (m.ptADPCM s).users) := by
  obtain ⟨h0, h1, h2, h3, h4, h5, h6, h7, h8, h9, h10, h11, h12, h13, h14⟩ :=
    addADPCM_proj m n name hc
  have hu := addADPCMm5_usersEq m n.toNat
  have hrec : (BT.addADPCMrec m n.toNat name).waveformNumber =
      (m.findFirstAssignableWaveformADPCM).1.getD 127 := rfl
  refine ⟨?_, ?_, ?_, ?_, ?_, ?_, ?_, ?_, ?_, ?_, ?_, ?_, ?_, ?_, ?_⟩
  · rw [h0]
    have h15 : (BT.addADPCMm5 m n.toNat).insts = m.insts := hu.insts.trans rfl
    rw [h15]
  · intro s
    rw [h11, hu.wfADPCM s, hrec]
    show ((((m.wfADPCM.findFirstAssignable m.regardingUnedited
      (fun w => w != BT.defaultWaveformADPCM) (fun _ => BT.defaultWaveformADPCM)).2).registerUser
      ((m.findFirstAssignableWaveformADPCM).1.getD 127) n.toNat) s).users = _
    rw [users_registerUser]
    simp only [users_findFirstAssignable]
    by_cases hcs : s = (m.findFirstAssignableWaveformADPCM).1.getD 127
    · rw [if_pos hcs, if_pos hcs, hcs]
    · rw [if_neg hcs, if_neg hcs]
  · intro s; rw [h1, hu.envFM s]; rfl
  · intro s; rw [h2, hu.lfoFM s]; rfl
  · intro p s; rw [h3, hu.opSeqFM p s]; rfl
  · intro s; rw [h4, hu.arpFM s]; rfl
  · intro s; rw [h5, hu.ptFM s]; rfl
  · intro s; rw [h6, hu.wfSSG s]; rfl
  · intro s; rw [h7, hu.tnSSG s]; rfl
  · intro s; rw [h8, hu.envSSG s]; rfl
  · intro s; rw [h9, hu.arpSSG s]; rfl
  · intro s; rw [h10, hu.ptSSG s]; rfl
  · intro s; rw [h12, hu.envADPCM s]; rfl
  · intro s; rw [h13, hu.arpADPCM s]; rfl
  · intro s; rw [h14, hu.ptADPCM s]; rfl

/-- Two booleans agreeing as propositions are equal. -/
theorem bool_eq_of_iff {a b : Bool} (h : a = true ↔ b = true) : a = b := by
  cases a <;> cases b <;> simp_all

/-- Every operator type is in the scan list. -/
theorem mem_fmOpTypes (t : BT.FMOperatorType) : t ∈ BT.fmOpTypes := by
  cases t <;> decide

/-- Pointing through some enabled operator type, as a proposition. -/
theorem anyPoints_iff (g : BT.FMOperatorType → Bool) (nums : BT.FMOperatorType → Nat)
    (s : Nat) :
    (BT.fmOpTypes.any (fun u => g u && (nums u == s))) = true ↔
      ∃ u, g u = true ∧ nums u = s := by
  rw [List.any_eq_true]
  constructor
  · rintro ⟨u, _, hu⟩
    rw [Bool.and_eq_true, beq_iff_eq] at hu
    exact ⟨u, hu⟩
  · rintro ⟨u, hg, hn⟩
    refine ⟨u, mem_fmOpTypes u, ?_⟩
    rw [Bool.and_eq_true, beq_iff_eq]
    exact ⟨hg, hn⟩

/-- Pointing after one enable flag is replaced. -/
theorem anyPoints_update_flag (g : BT.FMOperatorType → Bool)
    (nums : BT.FMOperatorType → Nat) (t : BT.FMOperatorType) (b : Bool) (s : Nat) :
    (BT.fmOpTypes.any (fun u => (Function.update g t b) u && (nums u == s))) = true ↔
      ((∃ u, u ≠ t ∧ g u = true ∧ nums u = s) ∨ (b = true ∧ nums t = s)) := by
  rw [List.any_eq_true]
  constructor
  · rintro ⟨u, _, hu⟩
    rw [Bool.and_eq_true, beq_iff_eq] at hu
    by_cases hut : u = t
    · subst hut
      rw [Function.update_same] at hu
      exact Or.inr hu
    · rw [Function.update_noteq hut] at hu
      exact Or.inl ⟨u, hut, hu⟩
  · rintro (⟨u, hut, hg, hn⟩ | ⟨hb, hn⟩)
    · refine ⟨u, mem_fmOpTypes u, ?_⟩
      rw [Bool.and_eq_true, beq_iff_eq, Function.update_noteq hut]
      exact ⟨hg, hn⟩
    · refine ⟨t, mem_fmOpTypes t, ?_⟩
      rw [Bool.and_eq_true, beq_iff_eq, Function.update_same]
      exact ⟨hb, hn⟩

/-- Pointing after one slot number is replaced. -/
theorem anyPoints_update_num (g : BT.FMOperatorType → Bool)
    (nums : BT.FMOperatorType → Nat) (t : BT.FMOperatorType) (x s : Nat) :
    (BT.fmOpTypes.any (fun u => g u && ((Function.update nums t x u) == s))) = true ↔
      ((∃ u, u ≠ t ∧ g u = true ∧ nums u = s) ∨ (g t = true ∧ x = s)) := by
  rw [List.any_eq_true]
  constructor
  · rintro ⟨u, _, hu⟩
    rw [Bool.and_eq_true, beq_iff_eq] at hu
    by_cases hut : u = t
    · subst hut
      rw [Function.update_same] at hu
      exact Or.inr hu
    · rw [Function.update_noteq hut] at hu
      exact Or.inl ⟨u, hut, hu⟩
  · rintro (⟨u, hut, hg, hn⟩ | ⟨hb, hn⟩)
    · refine ⟨u, mem_fmOpTypes u, ?_⟩
      rw [Bool.and_eq_true, beq_iff_eq, Function.update_noteq hut]
      exact ⟨hg, hn⟩
    · refine ⟨t, mem_fmOpTypes t, ?_⟩
      rw [Bool.and_eq_true, beq_iff_eq, Function.update_same]
      exact ⟨hb, hn⟩

/-- Sync after an enable-flag setter: register when turning on, deregister
when turning off. -/
theorem poolSync_setFlag {π : Type} {pool : BT.Pool π}
    {insts : Nat → Option BT.AbstractInstrument}
    {points : BT.AbstractInstrument → Nat → Bool} {i : Nat} (cur : Nat) (b : Bool)
    {a a' : BT.AbstractInstrument}
    (hi : i < 128) (hins : insts i = some a)
    (hnew : ∀ s, points a' s =
      (if b then (points a s || (cur == s)) else (points a s && !(cur == s))))
    (h : BT.PoolSync pool insts points) :
    BT.PoolSync (if b then pool.registerUser cur i else pool.deregisterUser cur i)
      (Function.update insts i (some a')) points := by
  cases b
  · exact poolSync_deregister cur hi hins hnew h
  · exact poolSync_register cur hi hins hnew h

/-- Sync after a slot-number setter: deregister the old slot and register
the new one when enabled, leave the pool alone otherwise. -/
theorem poolSync_setNum {π : Type} {pool : BT.Pool π}
    {insts : Nat → Option BT.AbstractInstrument}
    {points : BT.AbstractInstrument → Nat → Bool} {i : Nat} (old new : Nat) (b : Bool)
    {a a' : BT.AbstractInstrument}
    (hi : i < 128) (hins : insts i = some a)
    (hnew : ∀ s, points a' s =
      (if b then ((points a s && !(old == s)) || (new == s)) else points a s))
    (h : BT.PoolSync pool insts points) :
    BT.PoolSync (if b then (pool.deregisterUser old i).registerUser new i else pool)
      (Function.update insts i (some a')) points := by
  cases b
  · refine poolSync_update_irrelevant ?_ h
    intro s
    rw [hins]
    exact hnew s
  · exact poolSync_repoint old new hi hins (fun s => rfl) hnew h

/-- The invariant is preserved by `addInstrument` whenever the target entry
is out of range or empty. -/
theorem inv_addInstrument (m : BT.InstrumentsManager) (n : Int)
    (source : BT.SoundSource) (name : String)
    (hfree : n < 0 ∨ 128 ≤ n ∨ m.insts n.toNat = none)
    (inv : BT.Inv m) : BT.Inv (m.addInstrument n source name) := by
  by_cases hr : n < 0 ∨ 128 ≤ n
  · rw [addInstrument_out_of_range m n source name hr]
    exact inv
  · push_neg at hr
    have hc : (decide (n < 0) || decide (128 ≤ n)) = false := by
      simp
      omega
    have hnone : m.insts n.toNat = none := by
      rcases hfree with h | h | h
      · exact absurd h (by omega)
      · exact absurd h (by omega)
      · exact h
    have hn128 : n.toNat < 128 := by omega
    cases source with
    | DRUM =>
      rw [addInstrument_drum m n name hc]
      exact inv
    | FM =>
      obtain ⟨h0, hEnv, hLfo, hOps, hArp, hPt, h6, h7, h8, h9, h10, h11, h12, h13, h14⟩ :=
        addFM_char m n name hc
      refine ⟨?_, ?_, ?_, ?_, ?_, ?_, ?_, ?_, ?_, ?_, ?_, ?_, ?_, ?_⟩
      · rw [h0]
        refine poolSync_arrive hn128 hnone ?_ inv.envFM
        intro s hs
        rw [hEnv s]
        by_cases hcs : s = (BT.addFMrec m n.toNat name).envelopeNumber
        · have hp : BT.fmEnvPoints (.fm (BT.addFMrec m n.toNat name)) s = true := by
            simp [BT.fmEnvPoints, hcs]
          rw [if_pos hcs, if_pos hp]
        · have hp : ¬ BT.fmEnvPoints (.fm (BT.addFMrec m n.toNat name)) s = true := by
            simp [BT.fmEnvPoints]
            exact fun hh => hcs hh.symm
          rw [if_neg hcs, if_neg hp]
      · rw [h0]
        refine poolSync_arrive hn128 hnone ?_ inv.lfoFM
        intro s hs
        rw [hLfo s, show BT.fmLfoPoints (.fm (BT.addFMrec m n.toNat name)) s = false from rfl]
        simp
      · intro p hp
        rw [h0]
        refine poolSync_arrive hn128 hnone ?_ (inv.opSeqFM p hp)
        intro s hs
        rw [hOps p s,
          show BT.fmOpSeqPoints p (.fm (BT.addFMrec m n.toNat name)) s = false from rfl]
        simp
      · rw [h0]
        refine poolSync_arrive hn128 hnone ?_ inv.arpFM
        intro s hs
        rw [hArp s, show BT.fmArpPoints (.fm (BT.addFMrec m n.toNat name)) s = false from rfl]
        simp
      · rw [h0]
        refine poolSync_arrive hn128 hnone ?_ inv.ptFM
        intro s hs
        rw [hPt s, show BT.fmPtPoints (.fm (BT.addFMrec m n.toNat name)) s = false from rfl]
        simp
      · rw [h0]
        refine poolSync_arrive hn128 hnone ?_ inv.wfSSG
        intro s hs
        rw [h6 s, show BT.ssgWfPoints (.fm (BT.addFMrec m n.toNat name)) s = false from rfl]
        simp
      · rw [h0]
        refine poolSync_arrive hn128 hnone ?_ inv.tnSSG
        intro s hs
        rw [h7 s, show BT.ssgTnPoints (.fm (BT.addFMrec m n.toNat name)) s = false from rfl]
        simp
      · rw [h0]
        refine poolSync_arrive hn128 hnone ?_ inv.envSSG
        intro s hs
        rw [h8 s, show BT.ssgEnvPoints (.fm (BT.addFMrec m n.toNat name)) s = false from rfl]
        simp
      · rw [h0]
        refine poolSync_arrive hn128 hnone ?_ inv.arpSSG
        intro s hs
        rw [h9 s, show BT.ssgArpPoints (.fm (BT.addFMrec m n.toNat name)) s = false from rfl]
        simp
      · rw [h0]
        refine poolSync_arrive hn128 hnone ?_ inv.ptSSG
        intro s hs
        rw [h10 s, show BT.ssgPtPoints (.fm (BT.addFMrec m n.toNat name)) s = false from rfl]
        simp
      · rw [h0]
        refine poolSync_arrive hn128 hnone ?_ inv.wfADPCM
        intro s hs
        rw [h11 s, show BT.adpcmWfPoints (.fm (BT.addFMrec m n.toNat name)) s = false from rfl]
        simp
      · rw [h0]
        refine poolSync_arrive hn128 hnone ?_ inv.envADPCM
        intro s hs
        rw [h12 s, show BT.adpcmEnvPoints (.fm (BT.addFMrec m n.toNat name)) s = false from rfl]
        simp
      · rw [h0]
        refine poolSync_arrive hn128 hnone ?_ inv.arpADPCM
        intro s hs
        rw [h13 s, show BT.adpcmArpPoints (.fm (BT.addFMrec m n.toNat name)) s = false from rfl]
        simp
      · rw [h0]
        refine poolSync_arrive hn128 hnone ?_ inv.ptADPCM
        intro s hs
        rw [h14 s, show BT.adpcmPtPoints (.fm (BT.addFMrec m n.toNat name)) s = false from rfl]
        simp
    | SSG =>
      obtain ⟨h0, h1, h2, h3, h4, h5, h6, h7, h8, h9, h10, h11, h12, h13, h14⟩ :=
        addSSG_char m n name hc
      refine ⟨?_, ?_, ?_, ?_, ?_, ?_, ?_, ?_, ?_, ?_, ?_, ?_, ?_, ?_⟩
      · rw [h0]
        refine poolSync_arrive hn128 hnone ?_ inv.envFM
        intro s hs
        rw [h1 s, show BT.fmEnvPoints (.ssg (BT.addSSGrec m name)) s = false from rfl]
        simp
      · rw [h0]
        refine poolSync_arrive hn128 hnone ?_ inv.lfoFM
        intro s hs
        rw [h2 s, show BT.fmLfoPoints (.ssg (BT.addSSGrec m name)) s = false from rfl]
        simp
      · intro p hp
        rw [h0]
        refine poolSync_arrive hn128 hnone ?_ (inv.opSeqFM p hp)
        intro s hs
        rw [h3 p s, show BT.fmOpSeqPoints p (.ssg (BT.addSSGrec m name)) s = false from rfl]
        simp
      · rw [h0]
        refine poolSync_arrive hn128 hnone ?_ inv.arpFM
        intro s hs
        rw [h4 s, show BT.fmArpPoints (.ssg (BT.addSSGrec m name)) s = false from rfl]
        simp
      · rw [h0]
        refine poolSync_arrive hn128 hnone ?_ inv.ptFM
        intro s hs
        rw [h5 s, show BT.fmPtPoints (.ssg (BT.addSSGrec m name)) s = false from rfl]
        simp
      · rw [h0]
        refine poolSync_arrive hn128 hnone ?_ inv.wfSSG
        intro s hs
        rw [h6 s, show BT.ssgWfPoints (.ssg (BT.addSSGrec m name)) s = false from rfl]
        simp
      · rw [h0]
        refine poolSync_arrive hn128 hnone ?_ inv.tnSSG
        intro s hs
        rw [h7 s, show BT.ssgTnPoints (.ssg (BT.addSSGrec m name)) s = false from rfl]
        simp
      · rw [h0]
        refine poolSync_arrive hn128 hnone ?_ inv.envSSG
        intro s hs
        rw [h8 s, show BT.ssgEnvPoints (.ssg (BT.addSSGrec m name)) s = false from rfl]
        simp
      · rw [h0]
        refine poolSync_arrive hn128 hnone ?_ inv.arpSSG
        intro s hs
        rw [h9 s, show BT.ssgArpPoints (.ssg (BT.addSSGrec m name)) s = false from rfl]
        simp
      · rw [h0]
        refine poolSync_arrive hn128 hnone ?_ inv.ptSSG
        intro s hs
        rw [h10 s, show BT.ssgPtPoints (.ssg (BT.addSSGrec m name)) s = false from rfl]
        simp
      · rw [h0]
        refine poolSync_arrive hn128 hnone ?_ inv.wfADPCM
        intro s hs
        rw [h11 s, show BT.adpcmWfPoints (.ssg (BT.addSSGrec m name)) s = false from rfl]
        simp
      · rw [h0]
        refine poolSync_arrive hn128 hnone ?_ inv.envADPCM
        intro s hs
        rw [h12 s, show BT.adpcmEnvPoints (.ssg (BT.addSSGrec m name)) s = false from rfl]
        simp
      · rw [h0]
        refine poolSync_arrive hn128 hnone ?_ inv.arpADPCM
        intro s hs
        rw [h13 s, show BT.adpcmArpPoints (.ssg (BT.addSSGrec m name)) s = false from rfl]
        simp
      · rw [h0]
        refine poolSync_arrive hn128 hnone ?_ inv.ptADPCM
        intro s hs
        rw [h14 s, show BT.adpcmPtPoints (.ssg (BT.addSSGrec m name)) s = false from rfl]
        simp
    | ADPCM =>
      obtain ⟨h0, hWf, h1, h2, h3, h4, h5, h6, h7, h8, h9, h10, h12, h13, h14⟩ :=
        addADPCM_char m n name hc
      refine ⟨?_, ?_, ?_, ?_, ?_, ?_, ?_, ?_, ?_, ?_, ?_, ?_, ?_, ?_⟩
      · rw [h0]
        refine poolSync_arrive hn128 hnone ?_ inv.envFM
        intro s hs
        rw [h1 s, show BT.fmEnvPoints (.adpcm (BT.addADPCMrec m n.toNat name)) s = false from rfl]
        simp
      · rw [h0]
        refine poolSync_arrive hn128 hnone ?_ inv.lfoFM
        intro s hs
        rw [h2 s, show BT.fmLfoPoints (.adpcm (BT.addADPCMrec m n.toNat name)) s = false from rfl]
        simp
      · intro p hp
        rw [h0]
        refine poolSync_arrive hn128 hnone ?_ (inv.opSeqFM p hp)
        intro s hs
        rw [h3 p s,
          show BT.fmOpSeqPoints p (.adpcm (BT.addADPCMrec m n.toNat name)) s = false from rfl]
        simp
      · rw [h0]
        refine poolSync_arrive hn128 hnone ?_ inv.arpFM
        intro s hs
        rw [h4 s, show BT.fmArpPoints (.adpcm (BT.addADPCMrec m n.toNat name)) s = false from rfl]
        simp
      · rw [h0]
        refine poolSync_arrive hn128 hnone ?_ inv.ptFM
        intro s hs
        rw [h5 s, show BT.fmPtPoints (.adpcm (BT.addADPCMrec m n.toNat name)) s = false from rfl]
        simp
      · rw [h0]
        refine poolSync_arrive hn128 hnone ?_ inv.wfSSG
        intro s hs
        rw [h6 s, show BT.ssgWfPoints (.adpcm (BT.addADPCMrec m n.toNat name)) s = false from rfl]
        simp
      · rw [h0]
        refine poolSync_arrive hn128 hnone ?_ inv.tnSSG
        intro s hs
        rw [h7 s, show BT.ssgTnPoints (.adpcm (BT.addADPCMrec m n.toNat name)) s = false from rfl]
        simp
      · rw [h0]
        refine poolSync_arrive hn128 hnone ?_ inv.envSSG
        intro s hs
        rw [h8 s, show BT.ssgEnvPoints (.adpcm (BT.addADPCMrec m n.toNat name)) s = false from rfl]
        simp
      · rw [h0]
        refine poolSync_arrive hn128 hnone ?_ inv.arpSSG
        intro s hs
        rw [h9 s, show BT.ssgArpPoints (.adpcm (BT.addADPCMrec m n.toNat name)) s = false from rfl]
        simp
      · rw [h0]
        refine poolSync_arrive hn128 hnone ?_ inv.ptSSG
        intro s hs
        rw [h10 s, show BT.ssgPtPoints (.adpcm (BT.addADPCMrec m n.toNat name)) s = false from rfl]
        simp
      · rw [h0]
        refine poolSync_arrive hn128 hnone ?_ inv.wfADPCM
        intro s hs
        rw [hWf s]
        by_cases hcs : s = (BT.addADPCMrec m n.toNat name).waveformNumber
        · have hp : BT.adpcmWfPoints (.adpcm (BT.addADPCMrec m n.toNat name)) s = true := by
            simp [BT.adpcmWfPoints, hcs]
          rw [if_pos hcs, if_pos hp]
        · have hp : ¬ BT.adpcmWfPoints (.adpcm (BT.addADPCMrec m n.toNat name)) s = true := by
            simp [BT.adpcmWfPoints]
            exact fun hh => hcs hh.symm
          rw [if_neg hcs, if_neg hp]
      · rw [h0]
        refine poolSync_arrive hn128 hnone ?_ inv.envADPCM
        intro s hs
        rw [h12 s,
          show BT.adpcmEnvPoints (.adpcm (BT.addADPCMrec m n.toNat name)) s = false from rfl]
        simp
      · rw [h0]
        refine poolSync_arrive hn128 hnone ?_ inv.arpADPCM
        intro s hs
        rw [h13 s,
          show BT.adpcmArpPoints (.adpcm (BT.addADPCMrec m n.toNat name)) s = false from rfl]
        simp
      · rw [h0]
        refine poolSync_arrive hn128 hnone ?_ inv.ptADPCM
        intro s hs
        rw [h14 s,
          show BT.adpcmPtPoints (.adpcm (BT.addADPCMrec m n.toNat name)) s = false from rfl]
        simp

/-- The alias-free check, read back as a proposition about the stored FM
instrument's arpeggio references. -/
theorem aliasFree_arp_prop {m : BT.InstrumentsManager} {i : Nat} {t : BT.FMOperatorType}
    {fm : BT.InstrumentFM} (hins : m.insts i = some (.fm fm))
    (h : BT.fmArpAliasFree m i t = true) :
    ∀ u, u ≠ t → ¬(fm.arpEnabled u = true ∧ fm.arpNumber u = fm.arpNumber t) := by
  unfold BT.fmArpAliasFree at h
  simp only [hins] at h
  rw [List.all_eq_true] at h
  intro u hut hcontra
  have h3 := h u (mem_fmOpTypes u)
  rw [Bool.or_eq_true] at h3
  rcases h3 with h3 | h3
  · exact hut (by rwa [beq_iff_eq] at h3)
  · rw [Bool.not_eq_true'] at h3
    rcases hcontra with ⟨h1, h2⟩
    simp [h1, h2] at h3

/-- The alias-free check for pitch references, as a proposition. -/
theorem aliasFree_pt_prop {m : BT.InstrumentsManager} {i : Nat} {t : BT.FMOperatorType}
    {fm : BT.InstrumentFM} (hins : m.insts i = some (.fm fm))
    (h : BT.fmPtAliasFree m i t = true) :
    ∀ u, u ≠ t → ¬(fm.ptEnabled u = true ∧ fm.ptNumber u = fm.ptNumber t) := by
  unfold BT.fmPtAliasFree at h
  simp only [hins] at h
  rw [List.all_eq_true] at h
  intro u hut hcontra
  have h3 := h u (mem_fmOpTypes u)
  rw [Bool.or_eq_true] at h3
  rcases h3 with h3 | h3
  · exact hut (by rwa [beq_iff_eq] at h3)
  · rw [Bool.not_eq_true'] at h3
    rcases hcontra with ⟨h1, h2⟩
    simp [h1, h2] at h3

/-- The invariant is preserved by `setInstrumentFMEnvelope`. -/
theorem inv_setInstrumentFMEnvelope (m : BT.InstrumentsManager) (i e : Nat)
    (hi : i < 128) (inv : BT.Inv m) : BT.Inv (m.setInstrumentFMEnvelope i e) := by
  unfold BT.InstrumentsManager.setInstrumentFMEnvelope
  cases hins : m.insts i with
  | none => exact inv
  | some inst =>
    cases inst with
    | ssg s0 => exact inv
    | adpcm a0 => exact inv
    | fm fm =>
      refine ⟨?_, ?_, ?_, ?_, ?_, ?_, ?_, ?_, ?_, ?_, ?_, ?_, ?_, ?_⟩
      · exact poolSync_repoint fm.envelopeNumber e hi hins (fun s => rfl)
          (fun s => by simp [BT.fmEnvPoints]) inv.envFM
      · exact poolSync_update_irrelevant (fun s => by rw [hins]; rfl) inv.lfoFM
      · intro p hp
        exact poolSync_update_irrelevant (fun s => by rw [hins]; rfl) (inv.opSeqFM p hp)
      · exact poolSync_update_irrelevant (fun s => by rw [hins]; rfl) inv.arpFM
      · exact poolSync_update_irrelevant (fun s => by rw [hins]; rfl) inv.ptFM
      · exact poolSync_update_irrelevant (fun s => by rw [hins]; rfl) inv.wfSSG
      · exact poolSync_update_irrelevant (fun s => by rw [hins]; rfl) inv.tnSSG
      · exact poolSync_update_irrelevant (fun s => by rw [hins]; rfl) inv.envSSG
      · exact poolSync_update_irrelevant (fun s => by rw [hins]; rfl) inv.arpSSG
      · exact poolSync_update_irrelevant (fun s => by rw [hins]; rfl) inv.ptSSG
      · exact poolSync_update_irrelevant (fun s => by rw [hins]; rfl) inv.wfADPCM
      · exact poolSync_update_irrelevant (fun s => by rw [hins]; rfl) inv.envADPCM
      · exact poolSync_update_irrelevant (fun s => by rw [hins]; rfl) inv.arpADPCM
      · exact poolSync_update_irrelevant (fun s => by rw [hins]; rfl) inv.ptADPCM

/-- The invariant is preserved by `setInstrumentFMLFOEnabled`. -/
theorem inv_setInstrumentFMLFOEnabled (m : BT.InstrumentsManager) (i : Nat) (b : Bool)
    (hi : i < 128) (inv : BT.Inv m) : BT.Inv (m.setInstrumentFMLFOEnabled i b) := by
  unfold BT.InstrumentsManager.setInstrumentFMLFOEnabled
  cases hins : m.insts i with
  | none => exact inv
  | some inst =>
    cases inst with
    | ssg s0 => exact inv
    | adpcm a0 => exact inv
    | fm fm =>
      refine ⟨?_, ?_, ?_, ?_, ?_, ?_, ?_, ?_, ?_, ?_, ?_, ?_, ?_, ?_⟩
      · exact poolSync_update_irrelevant (fun s => by rw [hins]; rfl) inv.envFM
      · exact poolSync_setFlag fm.lfoNumber b hi hins
          (fun s => by cases b <;> cases hgb : fm.lfoEnabled <;>
            simp [BT.fmLfoPoints, hgb]) inv.lfoFM
      · intro p hp
        exact poolSync_update_irrelevant (fun s => by rw [hins]; rfl) (inv.opSeqFM p hp)
      · exact poolSync_update_irrelevant (fun s => by rw [hins]; rfl) inv.arpFM
      · exact poolSync_update_irrelevant (fun s => by rw [hins]; rfl) inv.ptFM
      · exact poolSync_update_irrelevant (fun s => by rw [hins]; rfl) inv.wfSSG
      · exact poolSync_update_irrelevant (fun s => by rw [hins]; rfl) inv.tnSSG
      · exact poolSync_update_irrelevant (fun s => by rw [hins]; rfl) inv.envSSG
      · exact poolSync_update_irrelevant (fun s => by rw [hins]; rfl) inv.arpSSG
      · exact poolSync_update_irrelevant (fun s => by rw [hins]; rfl) inv.ptSSG
      · exact poolSync_update_irrelevant (fun s => by rw [hins]; rfl) inv.wfADPCM
      · exact poolSync_update_irrelevant (fun s => by rw [hins]; rfl) inv.envADPCM
      · exact poolSync_update_irrelevant (fun s => by rw [hins]; rfl) inv.arpADPCM
      · exact poolSync_update_irrelevant (fun s => by rw [hins]; rfl) inv.ptADPCM

/-- The invariant is preserved by `setInstrumentFMLFO`. -/
theorem inv_setInstrumentFMLFO (m : BT.InstrumentsManager) (i l : Nat)
    (hi : i < 128) (inv : BT.Inv m) : BT.Inv (m.setInstrumentFMLFO i l) := by
  unfold BT.InstrumentsManager.setInstrumentFMLFO
  cases hins : m.insts i with
  | none => exact inv
  | some inst =>
    cases inst with
    | ssg s0 => exact inv
    | adpcm a0 => exact inv
    | fm fm =>
      refine ⟨?_, ?_, ?_, ?_, ?_, ?_, ?_, ?_, ?_, ?_, ?_, ?_, ?_, ?_⟩
      · exact poolSync_update_irrelevant (fun s => by rw [hins]; rfl) inv.envFM
      · exact poolSync_setNum fm.lfoNumber l fm.lfoEnabled hi hins
          (fun s => by cases hgb : fm.lfoEnabled <;>
            simp [BT.fmLfoPoints, hgb]) inv.lfoFM
      · intro p hp
        exact poolSync_update_irrelevant (fun s => by rw [hins]; rfl) (inv.opSeqFM p hp)
      · exact poolSync_update_irrelevant (fun s => by rw [hins]; rfl) inv.arpFM
      · exact poolSync_update_irrelevant (fun s => by rw [hins]; rfl) inv.ptFM
      · exact poolSync_update_irrelevant (fun s => by rw [hins]; rfl) inv.wfSSG
      · exact poolSync_update_irrelevant (fun s => by rw [hins]; rfl) inv.tnSSG
      · exact poolSync_update_irrelevant (fun s => by rw [hins]; rfl) inv.envSSG
      · exact poolSync_update_irrelevant (fun s => by rw [hins]; rfl) inv.arpSSG
      · exact poolSync_update_irrelevant (fun s => by rw [hins]; rfl) inv.ptSSG
      · exact poolSync_update_irrelevant (fun s => by rw [hins]; rfl) inv.wfADPCM
      · exact poolSync_update_irrelevant (fun s => by rw [hins]; rfl) inv.envADPCM
      · exact poolSync_update_irrelevant (fun s => by rw [hins]; rfl) inv.arpADPCM
      · exact poolSync_update_irrelevant (fun s => by rw [hins]; rfl) inv.ptADPCM

/-- The invariant is preserved by `setInstrumentFMOperatorSequenceEnabled`. -/
theorem inv_setInstrumentFMOperatorSequenceEnabled (m : BT.InstrumentsManager) (i : Nat)
    (q : BT.FMEnvelopeParameter) (b : Bool) (hi : i < 128) (inv : BT.Inv m) :
    BT.Inv (m.setInstrumentFMOperatorSequenceEnabled i q b) := by
  unfold BT.InstrumentsManager.setInstrumentFMOperatorSequenceEnabled
  cases hins : m.insts i with
  | none => exact inv
  | some inst =>
    cases inst with
    | ssg s0 => exact inv
    | adpcm a0 => exact inv
    | fm fm =>
      refine ⟨?_, ?_, ?_, ?_, ?_, ?_, ?_, ?_, ?_, ?_, ?_, ?_, ?_, ?_⟩
      · exact poolSync_update_irrelevant (fun s => by rw [hins]; rfl) inv.envFM
      · exact poolSync_update_irrelevant (fun s => by rw [hins]; rfl) inv.lfoFM
      · intro p hp
        by_cases hpq : p = q
        · subst hpq
          refine ?_
          show BT.PoolSync ((Function.update m.opSeqFM p _) p) _ _
          rw [Function.update_same]
          exact poolSync_setFlag (fm.opSeqNumber p) b hi hins
            (fun s => by cases b <;> cases hgb : fm.opSeqEnabled p <;>
              simp [BT.fmOpSeqPoints, hgb]) (inv.opSeqFM p hp)
        · show BT.PoolSync ((Function.update m.opSeqFM q _) p) _ _
          rw [Function.update_noteq hpq]
          refine poolSync_update_irrelevant ?_ (inv.opSeqFM p hp)
          intro s
          rw [hins]
          simp only [Option.elim, BT.fmOpSeqPoints, Function.update_noteq hpq]
      · exact poolSync_update_irrelevant (fun s => by rw [hins]; rfl) inv.arpFM
      · exact poolSync_update_irrelevant (fun s => by rw [hins]; rfl) inv.ptFM
      · exact poolSync_update_irrelevant (fun s => by rw [hins]; rfl) inv.wfSSG
      · exact poolSync_update_irrelevant (fun s => by rw [hins]; rfl) inv.tnSSG
      · exact poolSync_update_irrelevant (fun s => by rw [hins]; rfl) inv.envSSG
      · exact poolSync_update_irrelevant (fun s => by rw [hins]; rfl) inv.arpSSG
      · exact poolSync_update_irrelevant (fun s => by rw [hins]; rfl) inv.ptSSG
      · exact poolSync_update_irrelevant (fun s => by rw [hins]; rfl) inv.wfADPCM
      · exact poolSync_update_irrelevant (fun s => by rw [hins]; rfl) inv.envADPCM
      · exact poolSync_update_irrelevant (fun s => by rw [hins]; rfl) inv.arpADPCM
      · exact poolSync_update_irrelevant (fun s => by rw [hins]; rfl) inv.ptADPCM

/-- The invariant is preserved by `setInstrumentFMOperatorSequence`. -/
theorem inv_setInstrumentFMOperatorSequence (m : BT.InstrumentsManager) (i : Nat)
    (q : BT.FMEnvelopeParameter) (x : Nat) (hi : i < 128) (inv : BT.Inv m) :
    BT.Inv (m.setInstrumentFMOperatorSequence i q x) := by
  unfold BT.InstrumentsManager.setInstrumentFMOperatorSequence
  cases hins : m.insts i with
  | none => exact inv
  | some inst =>
    cases inst with
    | ssg s0 => exact inv
    | adpcm a0 => exact inv
    | fm fm =>
      refine ⟨?_, ?_, ?_, ?_, ?_, ?_, ?_, ?_, ?_, ?_, ?_, ?_, ?_, ?_⟩
      · exact poolSync_update_irrelevant (fun s => by rw [hins]; rfl) inv.envFM
      · exact poolSync_update_irrelevant (fun s => by rw [hins]; rfl) inv.lfoFM
      · intro p hp
        by_cases hpq : p = q
        · subst hpq
          show BT.PoolSync ((Function.update m.opSeqFM p _) p) _ _
          rw [Function.update_same]
          exact poolSync_setNum (fm.opSeqNumber p) x (fm.opSeqEnabled p) hi hins
            (fun s => by cases hgb : fm.opSeqEnabled p <;>
              simp [BT.fmOpSeqPoints, hgb]) (inv.opSeqFM p hp)
        · show BT.PoolSync ((Function.update m.opSeqFM q _) p) _ _
          rw [Function.update_noteq hpq]
          refine poolSync_update_irrelevant ?_ (inv.opSeqFM p hp)
          intro s
          rw [hins]
          simp only [Option.elim, BT.fmOpSeqPoints, Function.update_noteq hpq]
      · exact poolSync_update_irrelevant (fun s => by rw [hins]; rfl) inv.arpFM
      · exact poolSync_update_irrelevant (fun s => by rw [hins]; rfl) inv.ptFM
      · exact poolSync_update_irrelevant (fun s => by rw [hins]; rfl) inv.wfSSG
      · exact poolSync_update_irrelevant (fun s => by rw [hins]; rfl) inv.tnSSG
      · exact poolSync_update_irrelevant (fun s => by rw [hins]; rfl) inv.envSSG
      · exact poolSync_update_irrelevant (fun s => by rw [hins]; rfl) inv.arpSSG
      · exact poolSync_update_irrelevant (fun s => by rw [hins]; rfl) inv.ptSSG
      · exact poolSync_update_irrelevant (fun s => by rw [hins]; rfl) inv.wfADPCM
      · exact poolSync_update_irrelevant (fun s => by rw [hins]; rfl) inv.envADPCM
      · exact poolSync_update_irrelevant (fun s => by rw [hins]; rfl) inv.arpADPCM
      · exact poolSync_update_irrelevant (fun s => by rw [hins]; rfl) inv.ptADPCM

/-- The invariant is preserved by `setInstrumentFMEnvelopeResetEnabled`
(a pure instrument-flag edit that no pool reads). -/
theorem inv_setInstrumentFMEnvelopeResetEnabled (m : BT.InstrumentsManager) (i : Nat)
    (t : BT.FMOperatorType) (b : Bool) (inv : BT.Inv m) :
    BT.Inv (m.setInstrumentFMEnvelopeResetEnabled i t b) := by
  unfold BT.InstrumentsManager.setInstrumentFMEnvelopeResetEnabled
    BT.InstrumentsManager.updateFM
  cases hins : m.insts i with
  | none => exact inv
  | some inst =>
    cases inst with
    | ssg s0 => exact inv
    | adpcm a0 => exact inv
    | fm fm =>
      refine ⟨?_, ?_, ?_, ?_, ?_, ?_, ?_, ?_, ?_, ?_, ?_, ?_, ?_, ?_⟩
      · exact poolSync_update_irrelevant (fun s => by rw [hins]; rfl) inv.envFM
      · exact poolSync_update_irrelevant (fun s => by rw [hins]; rfl) inv.lfoFM
      · intro p hp
        exact poolSync_update_irrelevant (fun s => by rw [hins]; rfl) (inv.opSeqFM p hp)
      · exact poolSync_update_irrelevant (fun s => by rw [hins]; rfl) inv.arpFM
      · exact poolSync_update_irrelevant (fun s => by rw [hins]; rfl) inv.ptFM
      · exact poolSync_update_irrelevant (fun s => by rw [hins]; rfl) inv.wfSSG
      · exact poolSync_update_irrelevant (fun s => by rw [hins]; rfl) inv.tnSSG
      · exact poolSync_update_irrelevant (fun s => by rw [hins]; rfl) inv.envSSG
      · exact poolSync_update_irrelevant (fun s => by rw [hins]; rfl) inv.arpSSG
      · exact poolSync_update_irrelevant (fun s => by rw [hins]; rfl) inv.ptSSG
      · exact poolSync_update_irrelevant (fun s => by rw [hins]; rfl) inv.wfADPCM
      · exact poolSync_update_irrelevant (fun s => by rw [hins]; rfl) inv.envADPCM
      · exact poolSync_update_irrelevant (fun s => by rw [hins]; rfl) inv.arpADPCM
      · exact poolSync_update_irrelevant (fun s => by rw [hins]; rfl) inv.ptADPCM

/-- The invariant is preserved by `setInstrumentFMArpeggioEnabled` when
enabling, or when disabling a slot no other enabled operator type shares. -/
theorem inv_setInstrumentFMArpeggioEnabled (m : BT.InstrumentsManager) (i : Nat)
    (t : BT.FMOperatorType) (b : Bool) (hi : i < 128)
    (hval : (b || BT.fmArpAliasFree m i t) = true) (inv : BT.Inv m) :
    BT.Inv (m.setInstrumentFMArpeggioEnabled i t b) := by
  unfold BT.InstrumentsManager.setInstrumentFMArpeggioEnabled
  cases hins : m.insts i with
  | none => exact inv
  | some inst =>
    cases inst with
    | ssg s0 => exact inv
    | adpcm a0 => exact inv
    | fm fm =>
      refine ⟨?_, ?_, ?_, ?_, ?_, ?_, ?_, ?_, ?_, ?_, ?_, ?_, ?_, ?_⟩
      · exact poolSync_update_irrelevant (fun s => by rw [hins]; rfl) inv.envFM
      · exact poolSync_update_irrelevant (fun s => by rw [hins]; rfl) inv.lfoFM
      · intro p hp
        exact poolSync_update_irrelevant (fun s => by rw [hins]; rfl) (inv.opSeqFM p hp)
      · refine poolSync_setFlag (fm.arpNumber t) b hi hins ?_ inv.arpFM
        intro s
        cases b with
        | false =>
          rw [Bool.false_or] at hval
          have hAF := aliasFree_arp_prop hins hval
          apply bool_eq_of_iff
          show (BT.fmOpTypes.any fun u =>
              (Function.update fm.arpEnabled t false) u && (fm.arpNumber u == s)) = true ↔
            ((BT.fmOpTypes.any fun u => fm.arpEnabled u && (fm.arpNumber u == s)) &&
              !(fm.arpNumber t == s)) = true
          rw [anyPoints_update_flag, Bool.and_eq_true, Bool.not_eq_true', anyPoints_iff]
          constructor
          · rintro (⟨u, hut, hg, hn⟩ | ⟨hfalse, _⟩)
            · refine ⟨⟨u, hg, hn⟩, ?_⟩
              rw [beq_eq_false_iff_ne]
              intro hts
              exact hAF u hut ⟨hg, hn.trans hts.symm⟩
            · exact absurd hfalse (by simp)
          · rintro ⟨⟨u, hg, hn⟩, hne⟩
            rw [beq_eq_false_iff_ne] at hne
            by_cases hut : u = t
            · subst hut
              exact absurd hn hne
            · exact Or.inl ⟨u, hut, hg, hn⟩
        | true =>
          apply bool_eq_of_iff
          show (BT.fmOpTypes.any fun u =>
              (Function.update fm.arpEnabled t true) u && (fm.arpNumber u == s)) = true ↔
            ((BT.fmOpTypes.any fun u => fm.arpEnabled u && (fm.arpNumber u == s)) ||
              (fm.arpNumber t == s)) = true
          rw [anyPoints_update_flag, Bool.or_eq_true, anyPoints_iff, beq_iff_eq]
          constructor
          · rintro (⟨u, _, hg, hn⟩ | ⟨_, hn⟩)
            · exact Or.inl ⟨u, hg, hn⟩
            · exact Or.inr hn
          · rintro (⟨u, hg, hn⟩ | hn)
            · by_cases hut : u = t
              · subst hut
                exact Or.inr ⟨rfl, hn⟩
              · exact Or.inl ⟨u, hut, hg, hn⟩
            · exact Or.inr ⟨rfl, hn⟩
      · exact poolSync_update_irrelevant (fun s => by rw [hins]; rfl) inv.ptFM
      · exact poolSync_update_irrelevant (fun s => by rw [hins]; rfl) inv.wfSSG
      · exact poolSync_update_irrelevant (fun s => by rw [hins]; rfl) inv.tnSSG
      · exact poolSync_update_irrelevant (fun s => by rw [hins]; rfl) inv.envSSG
      · exact poolSync_update_irrelevant (fun s => by rw [hins]; rfl) inv.arpSSG
      · exact poolSync_update_irrelevant (fun s => by rw [hins]; rfl) inv.ptSSG
      · exact poolSync_update_irrelevant (fun s => by rw [hins]; rfl) inv.wfADPCM
      · exact poolSync_update_irrelevant (fun s => by rw [hins]; rfl) inv.envADPCM
      · exact poolSync_update_irrelevant (fun s => by rw [hins]; rfl) inv.arpADPCM
      · exact poolSync_update_irrelevant (fun s => by rw [hins]; rfl) inv.ptADPCM

/-- The invariant is preserved by `setInstrumentFMArpeggio` when the type is
disabled, or when its current slot is not shared with another enabled type. -/
theorem inv_setInstrumentFMArpeggio (m : BT.InstrumentsManager) (i : Nat)
    (t : BT.FMOperatorType) (x : Nat) (hi : i < 128)
    (hval : (match m.insts i with
             | some (.fm f) => !f.arpEnabled t || BT.fmArpAliasFree m i t
             | _ => false) = true) (inv : BT.Inv m) :
    BT.Inv (m.setInstrumentFMArpeggio i t x) := by
  unfold BT.InstrumentsManager.setInstrumentFMArpeggio
  cases hins : m.insts i with
  | none => exact inv
  | some inst =>
    cases inst with
    | ssg s0 => exact inv
    | adpcm a0 => exact inv
    | fm fm =>
      simp only [hins] at hval
      refine ⟨?_, ?_, ?_, ?_, ?_, ?_, ?_, ?_, ?_, ?_, ?_, ?_, ?_, ?_⟩
      · exact poolSync_update_irrelevant (fun s => by rw [hins]; rfl) inv.envFM
      · exact poolSync_update_irrelevant (fun s => by rw [hins]; rfl) inv.lfoFM
      · intro p hp
        exact poolSync_update_irrelevant (fun s => by rw [hins]; rfl) (inv.opSeqFM p hp)
      · refine poolSync_setNum (fm.arpNumber t) x (fm.arpEnabled t) hi hins ?_ inv.arpFM
        intro s
        cases henb : fm.arpEnabled t with
        | true =>
          rw [henb, Bool.not_true, Bool.false_or] at hval
          have hAF := aliasFree_arp_prop hins hval
          apply bool_eq_of_iff
          show (BT.fmOpTypes.any fun u =>
              fm.arpEnabled u && ((Function.update fm.arpNumber t x) u == s)) = true ↔
            (((BT.fmOpTypes.any fun u => fm.arpEnabled u && (fm.arpNumber u == s)) &&
              !(fm.arpNumber t == s)) || (x == s)) = true
          rw [anyPoints_update_num, Bool.or_eq_true, Bool.and_eq_true, Bool.not_eq_true',
            anyPoints_iff, beq_iff_eq]
          constructor
          · rintro (⟨u, hut, hg, hn⟩ | ⟨_, hx⟩)
            · refine Or.inl ⟨⟨u, hg, hn⟩, ?_⟩
              rw [beq_eq_false_iff_ne]
              intro hts
              exact hAF u hut ⟨hg, hn.trans hts.symm⟩
            · exact Or.inr hx
          · rintro (⟨⟨u, hg, hn⟩, hne⟩ | hx)
            · rw [beq_eq_false_iff_ne] at hne
              by_cases hut : u = t
              · subst hut
                exact absurd hn hne
              · exact Or.inl ⟨u, hut, hg, hn⟩
            · exact Or.inr ⟨henb, hx⟩
        | false =>
          apply bool_eq_of_iff
          show (BT.fmOpTypes.any fun u =>
              fm.arpEnabled u && ((Function.update fm.arpNumber t x) u == s)) = true ↔
            (BT.fmOpTypes.any fun u => fm.arpEnabled u && (fm.arpNumber u == s)) = true
          rw [anyPoints_update_num, anyPoints_iff]
          constructor
          · rintro (⟨u, _, hg, hn⟩ | ⟨hgt, _⟩)
            · exact ⟨u, hg, hn⟩
            · rw [henb] at hgt
              exact absurd hgt (by simp)
          · rintro ⟨u, hg, hn⟩
            by_cases hut : u = t
            · subst hut
              rw [henb] at hg
              exact absurd hg (by simp)
            · exact Or.inl ⟨u, hut, hg, hn⟩
      · exact poolSync_update_irrelevant (fun s => by rw [hins]; rfl) inv.ptFM
      · exact poolSync_update_irrelevant (fun s => by rw [hins]; rfl) inv.wfSSG
      · exact poolSync_update_irrelevant (fun s => by rw [hins]; rfl) inv.tnSSG
      · exact poolSync_update_irrelevant (fun s => by rw [hins]; rfl) inv.envSSG
      · exact poolSync_update_irrelevant (fun s => by rw [hins]; rfl) inv.arpSSG
      · exact poolSync_update_irrelevant (fun s => by rw [hins]; rfl) inv.ptSSG
      · exact poolSync_update_irrelevant (fun s => by rw [hins]; rfl) inv.wfADPCM
      · exact poolSync_update_irrelevant (fun s => by rw [hins]; rfl) inv.envADPCM
      · exact poolSync_update_irrelevant (fun s => by rw [hins]; rfl) inv.arpADPCM
      · exact poolSync_update_irrelevant (fun s => by rw [hins]; rfl) inv.ptADPCM

/-- The invariant is preserved by `setInstrumentFMPitchEnabled` when
enabling, or when disabling a slot no other enabled operator type shares. -/
theorem inv_setInstrumentFMPitchEnabled (m : BT.InstrumentsManager) (i : Nat)
    (t : BT.FMOperatorType) (b : Bool) (hi : i < 128)
    (hval : (b || BT.fmPtAliasFree m i t) = true) (inv : BT.Inv m) :
    BT.Inv (m.setInstrumentFMPitchEnabled i t b) := by
  unfold BT.InstrumentsManager.setInstrumentFMPitchEnabled
  cases hins : m.insts i with
  | none => exact inv
  | some inst =>
    cases inst with
    | ssg s0 => exact inv
    | adpcm a0 => exact inv
    | fm fm =>
      refine ⟨?_, ?_, ?_, ?_, ?_, ?_, ?_, ?_, ?_, ?_, ?_, ?_, ?_, ?_⟩
      · exact poolSync_update_irrelevant (fun s => by rw [hins]; rfl) inv.envFM
      · exact poolSync_update_irrelevant (fun s => by rw [hins]; rfl) inv.lfoFM
      · intro p hp
        exact poolSync_update_irrelevant (fun s => by rw [hins]; rfl) (inv.opSeqFM p hp)
      · exact poolSync_update_irrelevant (fun s => by rw [hins]; rfl) inv.arpFM
      · refine poolSync_setFlag (fm.ptNumber t) b hi hins ?_ inv.ptFM
        intro s
        cases b with
        | false =>
          rw [Bool.false_or] at hval
          have hAF := aliasFree_pt_prop hins hval
          apply bool_eq_of_iff
          show (BT.fmOpTypes.any fun u =>
              (Function.update fm.ptEnabled t false) u && (fm.ptNumber u == s)) = true ↔
            ((BT.fmOpTypes.any fun u => fm.ptEnabled u && (fm.ptNumber u == s)) &&
              !(fm.ptNumber t == s)) = true
          rw [anyPoints_update_flag, Bool.and_eq_true, Bool.not_eq_true', anyPoints_iff]
          constructor
          · rintro (⟨u, hut, hg, hn⟩ | ⟨hfalse, _⟩)
            · refine ⟨⟨u, hg, hn⟩, ?_⟩
              rw [beq_eq_false_iff_ne]
              intro hts
              exact hAF u hut ⟨hg, hn.trans hts.symm⟩
            · exact absurd hfalse (by simp)
          · rintro ⟨⟨u, hg, hn⟩, hne⟩
            rw [beq_eq_false_iff_ne] at hne
            by_cases hut : u = t
            · subst hut
              exact absurd hn hne
            · exact Or.inl ⟨u, hut, hg, hn⟩
        | true =>
          apply bool_eq_of_iff
          show (BT.fmOpTypes.any fun u =>
              (Function.update fm.ptEnabled t true) u && (fm.ptNumber u == s)) = true ↔
            ((BT.fmOpTypes.any fun u => fm.ptEnabled u && (fm.ptNumber u == s)) ||
              (fm.ptNumber t == s)) = true
          rw [anyPoints_update_flag, Bool.or_eq_true, anyPoints_iff, beq_iff_eq]
          constructor
          · rintro (⟨u, _, hg, hn⟩ | ⟨_, hn⟩)
            · exact Or.inl ⟨u, hg, hn⟩
            · exact Or.inr hn
          · rintro (⟨u, hg, hn⟩ | hn)
            · by_cases hut : u = t
              · subst hut
                exact Or.inr ⟨rfl, hn⟩
              · exact Or.inl ⟨u, hut, hg, hn⟩
            · exact Or.inr ⟨rfl, hn⟩
      · exact poolSync_update_irrelevant (fun s => by rw [hins]; rfl) inv.wfSSG
      · exact poolSync_update_irrelevant (fun s => by rw [hins]; rfl) inv.tnSSG
      · exact poolSync_update_irrelevant (fun s => by rw [hins]; rfl) inv.envSSG
      · exact poolSync_update_irrelevant (fun s => by rw [hins]; rfl) inv.arpSSG
      · exact poolSync_update_irrelevant (fun s => by rw [hins]; rfl) inv.ptSSG
      · exact poolSync_update_irrelevant (fun s => by rw [hins]; rfl) inv.wfADPCM
      · exact poolSync_update_irrelevant (fun s => by rw [hins]; rfl) inv.envADPCM
      · exact poolSync_update_irrelevant (fun s => by rw [hins]; rfl) inv.arpADPCM
      · exact poolSync_update_irrelevant (fun s => by rw [hins]; rfl) inv.ptADPCM

/-- The invariant is preserved by `setInstrumentFMPitch` when the type is
disabled, or when its current slot is not shared with another enabled type. -/
theorem inv_setInstrumentFMPitch (m : BT.InstrumentsManager) (i : Nat)
    (t : BT.FMOperatorType) (x : Nat) (hi : i < 128)
    (hval : (match m.insts i with
             | some (.fm f) => !f.ptEnabled t || BT.fmPtAliasFree m i t
             | _ => false) = true) (inv : BT.Inv m) :
    BT.Inv (m.setInstrumentFMPitch i t x) := by
  unfold BT.InstrumentsManager.setInstrumentFMPitch
  cases hins : m.insts i with
  | none => exact inv
  | some inst =>
    cases inst with
    | ssg s0 => exact inv
    | adpcm a0 => exact inv
    | fm fm =>
      simp only [hins] at hval
      refine ⟨?_, ?_, ?_, ?_, ?_, ?_, ?_, ?_, ?_, ?_, ?_, ?_, ?_, ?_⟩
      · exact poolSync_update_irrelevant (fun s => by rw [hins]; rfl) inv.envFM
      · exact poolSync_update_irrelevant (fun s => by rw [hins]; rfl) inv.lfoFM
      · intro p hp
        exact poolSync_update_irrelevant (fun s => by rw [hins]; rfl) (inv.opSeqFM p hp)
      · exact poolSync_update_irrelevant (fun s => by rw [hins]; rfl) inv.arpFM
      · refine poolSync_setNum (fm.ptNumber t) x (fm.ptEnabled t) hi hins ?_ inv.ptFM
        intro s
        cases henb : fm.ptEnabled t with
        | true =>
          rw [henb, Bool.not_true, Bool.false_or] at hval
          have hAF := aliasFree_pt_prop hins hval
          apply bool_eq_of_iff
          show (BT.fmOpTypes.any fun u =>
              fm.ptEnabled u && ((Function.update fm.ptNumber t x) u == s)) = true ↔
            (((BT.fmOpTypes.any fun u => fm.ptEnabled u && (fm.ptNumber u == s)) &&
              !(fm.ptNumber t == s)) || (x == s)) = true
          rw [anyPoints_update_num, Bool.or_eq_true, Bool.and_eq_true, Bool.not_eq_true',
            anyPoints_iff, beq_iff_eq]
          constructor
          · rintro (⟨u, hut, hg, hn⟩ | ⟨_, hx⟩)
            · refine Or.inl ⟨⟨u, hg, hn⟩, ?_⟩
              rw [beq_eq_false_iff_ne]
              intro hts
              exact hAF u hut ⟨hg, hn.trans hts.symm⟩
            · exact Or.inr hx
          · rintro (⟨⟨u, hg, hn⟩, hne⟩ | hx)
            · rw [beq_eq_false_iff_ne] at hne
              by_cases hut : u = t
              · subst hut
                exact absurd hn hne
              · exact Or.inl ⟨u, hut, hg, hn⟩
            · exact Or.inr ⟨henb, hx⟩
        | false =>
          apply bool_eq_of_iff
          show (BT.fmOpTypes.any fun u =>
              fm.ptEnabled u && ((Function.update fm.ptNumber t x) u == s)) = true ↔
            (BT.fmOpTypes.any fun u => fm.ptEnabled u && (fm.ptNumber u == s)) = true
          rw [anyPoints_update_num, anyPoints_iff]
          constructor
          · rintro (⟨u, _, hg, hn⟩ | ⟨hgt, _⟩)
            · exact ⟨u, hg, hn⟩
            · rw [henb] at hgt
              exact absurd hgt (by simp)
          · rintro ⟨u, hg, hn⟩
            by_cases hut : u = t
            · subst hut
              rw [henb] at hg
              exact absurd hg (by simp)
            · exact Or.inl ⟨u, hut, hg, hn⟩
      · exact poolSync_update_irrelevant (fun s => by rw [hins]; rfl) inv.wfSSG
      · exact poolSync_update_irrelevant (fun s => by rw [hins]; rfl) inv.tnSSG
      · exact poolSync_update_irrelevant (fun s => by rw [hins]; rfl) inv.envSSG
      · exact poolSync_update_irrelevant (fun s => by rw [hins]; rfl) inv.arpSSG
      · exact poolSync_update_irrelevant (fun s => by rw [hins]; rfl) inv.ptSSG
      · exact poolSync_update_irrelevant (fun s => by rw [hins]; rfl) inv.wfADPCM
      · exact poolSync_update_irrelevant (fun s => by rw [hins]; rfl) inv.envADPCM
      · exact poolSync_update_irrelevant (fun s => by rw [hins]; rfl) inv.arpADPCM
      · exact poolSync_update_irrelevant (fun s => by rw [hins]; rfl) inv.ptADPCM
/-- The invariant is preserved by `setInstrumentSSGWaveformEnabled`. -/
theorem inv_setInstrumentSSGWaveformEnabled (m : BT.InstrumentsManager) (i : Nat) (b : Bool)
    (hi : i < 128) (inv : BT.Inv m) : BT.Inv (m.setInstrumentSSGWaveformEnabled i b) := by
  unfold BT.InstrumentsManager.setInstrumentSSGWaveformEnabled
  cases hins : m.insts i with
  | none => exact inv
  | some inst =>
    cases inst with
    | fm fm0 => exact inv
    | adpcm a0 => exact inv
    | ssg s0 =>
      refine ⟨?_, ?_, ?_, ?_, ?_, ?_, ?_, ?_, ?_, ?_, ?_, ?_, ?_, ?_⟩
      · exact poolSync_update_irrelevant (fun s => by rw [hins]; rfl) inv.envFM
      · exact poolSync_update_irrelevant (fun s => by rw [hins]; rfl) inv.lfoFM
      · intro p hp
        exact poolSync_update_irrelevant (fun s => by rw [hins]; rfl) (inv.opSeqFM p hp)
      · exact poolSync_update_irrelevant (fun s => by rw [hins]; rfl) inv.arpFM
      · exact poolSync_update_irrelevant (fun s => by rw [hins]; rfl) inv.ptFM
      · exact poolSync_setFlag s0.waveformNumber b hi hins
          (fun s => by cases b <;> cases hgb : s0.waveformEnabled <;>
            simp [BT.ssgWfPoints, hgb]) inv.wfSSG
      · exact poolSync_update_irrelevant (fun s => by rw [hins]; rfl) inv.tnSSG
      · exact poolSync_update_irrelevant (fun s => by rw [hins]; rfl) inv.envSSG
      · exact poolSync_update_irrelevant (fun s => by rw [hins]; rfl) inv.arpSSG
      · exact poolSync_update_irrelevant (fun s => by rw [hins]; rfl) inv.ptSSG
      · exact poolSync_update_irrelevant (fun s => by rw [hins]; rfl) inv.wfADPCM
      · exact poolSync_update_irrelevant (fun s => by rw [hins]; rfl) inv.envADPCM
      · exact poolSync_update_irrelevant (fun s => by rw [hins]; rfl) inv.arpADPCM
      · exact poolSync_update_irrelevant (fun s => by rw [hins]; rfl) inv.ptADPCM

/-- The invariant is preserved by `setInstrumentSSGWaveform`. -/
theorem inv_setInstrumentSSGWaveform (m : BT.InstrumentsManager) (i x : Nat)
    (hi : i < 128) (inv : BT.Inv m) : BT.Inv (m.setInstrumentSSGWaveform i x) := by
  unfold BT.InstrumentsManager.setInstrumentSSGWaveform
  cases hins : m.insts i with
  | none => exact inv
  | some inst =>
    cases inst with
    | fm fm0 => exact inv
    | adpcm a0 => exact inv
    | ssg s0 =>
      refine ⟨?_, ?_, ?_, ?_, ?_, ?_, ?_, ?_, ?_, ?_, ?_, ?_, ?_, ?_⟩
      · exact poolSync_update_irrelevant (fun s => by rw [hins]; rfl) inv.envFM
      · exact poolSync_update_irrelevant (fun s => by rw [hins]; rfl) inv.lfoFM
      · intro p hp
        exact poolSync_update_irrelevant (fun s => by rw [hins]; rfl) (inv.opSeqFM p hp)
      · exact poolSync_update_irrelevant (fun s => by rw [hins]; rfl) inv.arpFM
      · exact poolSync_update_irrelevant (fun s => by rw [hins]; rfl) inv.ptFM
      · exact poolSync_setNum s0.waveformNumber x s0.waveformEnabled hi hins
          (fun s => by cases hgb : s0.waveformEnabled <;>
            simp [BT.ssgWfPoints, hgb]) inv.wfSSG
      · exact poolSync_update_irrelevant (fun s => by rw [hins]; rfl) inv.tnSSG
      · exact poolSync_update_irrelevant (fun s => by rw [hins]; rfl) inv.envSSG
      · exact poolSync_update_irrelevant (fun s => by rw [hins]; rfl) inv.arpSSG
      · exact poolSync_update_irrelevant (fun s => by rw [hins]; rfl) inv.ptSSG
      · exact poolSync_update_irrelevant (fun s => by rw [hins]; rfl) inv.wfADPCM
      · exact poolSync_update_irrelevant (fun s => by rw [hins]; rfl) inv.envADPCM
      · exact poolSync_update_irrelevant (fun s => by rw [hins]; rfl) inv.arpADPCM
      · exact poolSync_update_irrelevant (fun s => by rw [hins]; rfl) inv.ptADPCM

/-- The invariant is preserved by `setInstrumentSSGToneNoiseEnabled`. -/
theorem inv_setInstrumentSSGToneNoiseEnabled (m : BT.InstrumentsManager) (i : Nat) (b : Bool)
    (hi : i < 128) (inv : BT.Inv m) : BT.Inv (m.setInstrumentSSGToneNoiseEnabled i b) := by
  unfold BT.InstrumentsManager.setInstrumentSSGToneNoiseEnabled
  cases hins : m.insts i with
  | none => exact inv
  | some inst =>
    cases inst with
    | fm fm0 => exact inv
    | adpcm a0 => exact inv
    | ssg s0 =>
      refine ⟨?_, ?_, ?_, ?_, ?_, ?_, ?_, ?_, ?_, ?_, ?_, ?_, ?_, ?_⟩
      · exact poolSync_update_irrelevant (fun s => by rw [hins]; rfl) inv.envFM
      · exact poolSync_update_irrelevant (fun s => by rw [hins]; rfl) inv.lfoFM
      · intro p hp
        exact poolSync_update_irrelevant (fun s => by rw [hins]; rfl) (inv.opSeqFM p hp)
      · exact poolSync_update_irrelevant (fun s => by rw [hins]; rfl) inv.arpFM
      · exact poolSync_update_irrelevant (fun s => by rw [hins]; rfl) inv.ptFM
      · exact poolSync_update_irrelevant (fun s => by rw [hins]; rfl) inv.wfSSG
      · exact poolSync_setFlag s0.toneNoiseNumber b hi hins
          (fun s => by cases b <;> cases hgb : s0.toneNoiseEnabled <;>
            simp [BT.ssgTnPoints, hgb]) inv.tnSSG
      · exact poolSync_update_irrelevant (fun s => by rw [hins]; rfl) inv.envSSG
      · exact poolSync_update_irrelevant (fun s => by rw [hins]; rfl) inv.arpSSG
      · exact poolSync_update_irrelevant (fun s => by rw [hins]; rfl) inv.ptSSG
      · exact poolSync_update_irrelevant (fun s => by rw [hins]; rfl) inv.wfADPCM
      · exact poolSync_update_irrelevant (fun s => by rw [hins]; rfl) inv.envADPCM
      · exact poolSync_update_irrelevant (fun s => by rw [hins]; rfl) inv.arpADPCM
      · exact poolSync_update_irrelevant (fun s => by rw [hins]; rfl) inv.ptADPCM

/-- The invariant is preserved by `setInstrumentSSGToneNoise`. -/
theorem inv_setInstrumentSSGToneNoise (m : BT.InstrumentsManager) (i x : Nat)
    (hi : i < 128) (inv : BT.Inv m) : BT.Inv (m.setInstrumentSSGToneNoise i x) := by
  unfold BT.InstrumentsManager.setInstrumentSSGToneNoise
  cases hins : m.insts i with
  | none => exact inv
  | some inst =>
    cases inst with
    | fm fm0 => exact inv
    | adpcm a0 => exact inv
    | ssg s0 =>
      refine ⟨?_, ?_, ?_, ?_, ?_, ?_, ?_, ?_, ?_, ?_, ?_, ?_, ?_, ?_⟩
      · exact poolSync_update_irrelevant (fun s => by rw [hins]; rfl) inv.envFM
      · exact poolSync_update_irrelevant (fun s => by rw [hins]; rfl) inv.lfoFM
      · intro p hp
        exact poolSync_update_irrelevant (fun s => by rw [hins]; rfl) (inv.opSeqFM p hp)
      · exact poolSync_update_irrelevant (fun s => by rw [hins]; rfl) inv.arpFM
      · exact poolSync_update_irrelevant (fun s => by rw [hins]; rfl) inv.ptFM
      · exact poolSync_update_irrelevant (fun s => by rw [hins]; rfl) inv.wfSSG
      · exact poolSync_setNum s0.toneNoiseNumber x s0.toneNoiseEnabled hi hins
          (fun s => by cases hgb : s0.toneNoiseEnabled <;>
            simp [BT.ssgTnPoints, hgb]) inv.tnSSG
      · exact poolSync_update_irrelevant (fun s => by rw [hins]; rfl) inv.envSSG
      · exact poolSync_update_irrelevant (fun s => by rw [hins]; rfl) inv.arpSSG
      · exact poolSync_update_irrelevant (fun s => by rw [hins]; rfl) inv.ptSSG
      · exact poolSync_update_irrelevant (fun s => by rw [hins]; rfl) inv.wfADPCM
      · exact poolSync_update_irrelevant (fun s => by rw [hins]; rfl) inv.envADPCM
      · exact poolSync_update_irrelevant (fun s => by rw [hins]; rfl) inv.arpADPCM
      · exact poolSync_update_irrelevant (fun s => by rw [hins]; rfl) inv.ptADPCM

/-- The invariant is preserved by `setInstrumentSSGEnvelopeEnabled`. -/
theorem inv_setInstrumentSSGEnvelopeEnabled (m : BT.InstrumentsManager) (i : Nat) (b : Bool)
    (hi : i < 128) (inv : BT.Inv m) : BT.Inv (m.setInstrumentSSGEnvelopeEnabled i b) := by
  unfold BT.InstrumentsManager.setInstrumentSSGEnvelopeEnabled
  cases hins : m.insts i with
  | none => exact inv
  | some inst =>
    cases inst with
    | fm fm0 => exact inv
    | adpcm a0 => exact inv
    | ssg s0 =>
      refine ⟨?_, ?_, ?_, ?_, ?_, ?_, ?_, ?_, ?_, ?_, ?_, ?_, ?_, ?_⟩
      · exact poolSync_update_irrelevant (fun s => by rw [hins]; rfl) inv.envFM
      · exact poolSync_update_irrelevant (fun s => by rw [hins]; rfl) inv.lfoFM
      · intro p hp
        exact poolSync_update_irrelevant (fun s => by rw [hins]; rfl) (inv.opSeqFM p hp)
      · exact poolSync_update_irrelevant (fun s => by rw [hins]; rfl) inv.arpFM
      · exact poolSync_update_irrelevant (fun s => by rw [hins]; rfl) inv.ptFM
      · exact poolSync_update_irrelevant (fun s => by rw [hins]; rfl) inv.wfSSG
      · exact poolSync_update_irrelevant (fun s => by rw [hins]; rfl) inv.tnSSG
      · exact poolSync_setFlag s0.envelopeNumber b hi hins
          (fun s => by cases b <;> cases hgb : s0.envelopeEnabled <;>
            simp [BT.ssgEnvPoints, hgb]) inv.envSSG
      · exact poolSync_update_irrelevant (fun s => by rw [hins]; rfl) inv.arpSSG
      · exact poolSync_update_irrelevant (fun s => by rw [hins]; rfl) inv.ptSSG
      · exact poolSync_update_irrelevant (fun s => by rw [hins]; rfl) inv.wfADPCM
      · exact poolSync_update_irrelevant (fun s => by rw [hins]; rfl) inv.envADPCM
      · exact poolSync_update_irrelevant (fun s => by rw [hins]; rfl) inv.arpADPCM
      · exact poolSync_update_irrelevant (fun s => by rw [hins]; rfl) inv.ptADPCM

/-- The invariant is preserved by `setInstrumentSSGEnvelope`. -/
theorem inv_setInstrumentSSGEnvelope (m : BT.InstrumentsManager) (i x : Nat)
    (hi : i < 128) (inv : BT.Inv m) : BT.Inv (m.setInstrumentSSGEnvelope i x) := by
  unfold BT.InstrumentsManager.setInstrumentSSGEnvelope
  cases hins : m.insts i with
  | none => exact inv
  | some inst =>
    cases inst with
    | fm fm0 => exact inv
    | adpcm a0 => exact inv
    | ssg s0 =>
      refine ⟨?_, ?_, ?_, ?_, ?_, ?_, ?_, ?_, ?_, ?_, ?_, ?_, ?_, ?_⟩
      · exact poolSync_update_irrelevant (fun s => by rw [hins]; rfl) inv.envFM
      · exact poolSync_update_irrelevant (fun s => by rw [hins]; rfl) inv.lfoFM
      · intro p hp
        exact poolSync_update_irrelevant (fun s => by rw [hins]; rfl) (inv.opSeqFM p hp)
      · exact poolSync_update_irrelevant (fun s => by rw [hins]; rfl) inv.arpFM
      · exact poolSync_update_irrelevant (fun s => by rw [hins]; rfl) inv.ptFM
      · exact poolSync_update_irrelevant (fun s => by rw [hins]; rfl) inv.wfSSG
      · exact poolSync_update_irrelevant (fun s => by rw [hins]; rfl) inv.tnSSG
      · exact poolSync_setNum s0.envelopeNumber x s0.envelopeEnabled hi hins
          (fun s => by cases hgb : s0.envelopeEnabled <;>
            simp [BT.ssgEnvPoints, hgb]) inv.envSSG
      · exact poolSync_update_irrelevant (fun s => by rw [hins]; rfl) inv.arpSSG
      · exact poolSync_update_irrelevant (fun s => by rw [hins]; rfl) inv.ptSSG
      · exact poolSync_update_irrelevant (fun s => by rw [hins]; rfl) inv.wfADPCM
      · exact poolSync_update_irrelevant (fun s => by rw [hins]; rfl) inv.envADPCM
      · exact poolSync_update_irrelevant (fun s => by rw [hins]; rfl) inv.arpADPCM
      · exact poolSync_update_irrelevant (fun s => by rw [hins]; rfl) inv.ptADPCM

/-- The invariant is preserved by `setInstrumentSSGArpeggioEnabled`. -/
theorem inv_setInstrumentSSGArpeggioEnabled (m : BT.InstrumentsManager) (i : Nat) (b : Bool)
    (hi : i < 128) (inv : BT.Inv m) : BT.Inv (m.setInstrumentSSGArpeggioEnabled i b) := by
  unfold BT.InstrumentsManager.setInstrumentSSGArpeggioEnabled
  cases hins : m.insts i with
  | none => exact inv
  | some inst =>
    cases inst with
    | fm fm0 => exact inv
    | adpcm a0 => exact inv
    | ssg s0 =>
      refine ⟨?_, ?_, ?_, ?_, ?_, ?_, ?_, ?_, ?_, ?_, ?_, ?_, ?_, ?_⟩
      · exact poolSync_update_irrelevant (fun s => by rw [hins]; rfl) inv.envFM
      · exact poolSync_update_irrelevant (fun s => by rw [hins]; rfl) inv.lfoFM
      · intro p hp
        exact poolSync_update_irrelevant (fun s => by rw [hins]; rfl) (inv.opSeqFM p hp)
      · exact poolSync_update_irrelevant (fun s => by rw [hins]; rfl) inv.arpFM
      · exact poolSync_update_irrelevant (fun s => by rw [hins]; rfl) inv.ptFM
      · exact poolSync_update_irrelevant (fun s => by rw [hins]; rfl) inv.wfSSG
      · exact poolSync_update_irrelevant (fun s => by rw [hins]; rfl) inv.tnSSG
      · exact poolSync_update_irrelevant (fun s => by rw [hins]; rfl) inv.envSSG
      · exact poolSync_setFlag s0.arpeggioNumber b hi hins
          (fun s => by cases b <;> cases hgb : s0.arpeggioEnabled <;>
            simp [BT.ssgArpPoints, hgb]) inv.arpSSG
      · exact poolSync_update_irrelevant (fun s => by rw [hins]; rfl) inv.ptSSG
      · exact poolSync_update_irrelevant (fun s => by rw [hins]; rfl) inv.wfADPCM
      · exact poolSync_update_irrelevant (fun s => by rw [hins]; rfl) inv.envADPCM
      · exact poolSync_update_irrelevant (fun s => by rw [hins]; rfl) inv.arpADPCM
      · exact poolSync_update_irrelevant (fun s => by rw [hins]; rfl) inv.ptADPCM

/-- The invariant is preserved by `setInstrumentSSGArpeggio`. -/
theorem inv_setInstrumentSSGArpeggio (m : BT.InstrumentsManager) (i x : Nat)
    (hi : i < 128) (inv : BT.Inv m) : BT.Inv (m.setInstrumentSSGArpeggio i x) := by
  unfold BT.InstrumentsManager.setInstrumentSSGArpeggio
  cases hins : m.insts i with
  | none => exact inv
  | some inst =>
    cases inst with
    | fm fm0 => exact inv
    | adpcm a0 => exact inv
    | ssg s0 =>
      refine ⟨?_, ?_, ?_, ?_, ?_, ?_, ?_, ?_, ?_, ?_, ?_, ?_, ?_, ?_⟩
      · exact poolSync_update_irrelevant (fun s => by rw [hins]; rfl) inv.envFM
      · exact poolSync_update_irrelevant (fun s => by rw [hins]; rfl) inv.lfoFM
      · intro p hp
        exact poolSync_update_irrelevant (fun s => by rw [hins]; rfl) (inv.opSeqFM p hp)
      · exact poolSync_update_irrelevant (fun s => by rw [hins]; rfl) inv.arpFM
      · exact poolSync_update_irrelevant (fun s => by rw [hins]; rfl) inv.ptFM
      · exact poolSync_update_irrelevant (fun s => by rw [hins]; rfl) inv.wfSSG
      · exact poolSync_update_irrelevant (fun s => by rw [hins]; rfl) inv.tnSSG
      · exact poolSync_update_irrelevant (fun s => by rw [hins]; rfl) inv.envSSG
      · exact poolSync_setNum s0.arpeggioNumber x s0.arpeggioEnabled hi hins
          (fun s => by cases hgb : s0.arpeggioEnabled <;>
            simp [BT.ssgArpPoints, hgb]) inv.arpSSG
      · exact poolSync_update_irrelevant (fun s => by rw [hins]; rfl) inv.ptSSG
      · exact poolSync_update_irrelevant (fun s => by rw [hins]; rfl) inv.wfADPCM
      · exact poolSync_update_irrelevant (fun s => by rw [hins]; rfl) inv.envADPCM
      · exact poolSync_update_irrelevant (fun s => by rw [hins]; rfl) inv.arpADPCM
      · exact poolSync_update_irrelevant (fun s => by rw [hins]; rfl) inv.ptADPCM

/-- The invariant is preserved by `setInstrumentSSGPitchEnabled`. -/
theorem inv_setInstrumentSSGPitchEnabled (m : BT.InstrumentsManager) (i : Nat) (b : Bool)
    (hi : i < 128) (inv : BT.Inv m) : BT.Inv (m.setInstrumentSSGPitchEnabled i b) := by
  unfold BT.InstrumentsManager.setInstrumentSSGPitchEnabled
  cases hins : m.insts i with
  | none => exact inv
  | some inst =>
    cases inst with
    | fm fm0 => exact inv
    | adpcm a0 => exact inv
    | ssg s0 =>
      refine ⟨?_, ?_, ?_, ?_, ?_, ?_, ?_, ?_, ?_, ?_, ?_, ?_, ?_, ?_⟩
      · exact poolSync_update_irrelevant (fun s => by rw [hins]; rfl) inv.envFM
      · exact poolSync_update_irrelevant (fun s => by rw [hins]; rfl) inv.lfoFM
      · intro p hp
        exact poolSync_update_irrelevant (fun s => by rw [hins]; rfl) (inv.opSeqFM p hp)
      · exact poolSync_update_irrelevant (fun s => by rw [hins]; rfl) inv.arpFM
      · exact poolSync_update_irrelevant (fun s => by rw [hins]; rfl) inv.ptFM
      · exact poolSync_update_irrelevant (fun s => by rw [hins]; rfl) inv.wfSSG
      · exact poolSync_update_irrelevant (fun s => by rw [hins]; rfl) inv.tnSSG
      · exact poolSync_update_irrelevant (fun s => by rw [hins]; rfl) inv.envSSG
      · exact poolSync_update_irrelevant (fun s => by rw [hins]; rfl) inv.arpSSG
      · exact poolSync_setFlag s0.pitchNumber b hi hins
          (fun s => by cases b <;> cases hgb : s0.pitchEnabled <;>
            simp [BT.ssgPtPoints, hgb]) inv.ptSSG
      · exact poolSync_update_irrelevant (fun s => by rw [hins]; rfl) inv.wfADPCM
      · exact poolSync_update_irrelevant (fun s => by rw [hins]; rfl) inv.envADPCM
      · exact poolSync_update_irrelevant (fun s => by rw [hins]; rfl) inv.arpADPCM
      · exact poolSync_update_irrelevant (fun s => by rw [hins]; rfl) inv.ptADPCM

/-- The invariant is preserved by `setInstrumentSSGPitch`. -/
theorem inv_setInstrumentSSGPitch (m : BT.InstrumentsManager) (i x : Nat)
    (hi : i < 128) (inv : BT.Inv m) : BT.Inv (m.setInstrumentSSGPitch i x) := by
  unfold BT.InstrumentsManager.setInstrumentSSGPitch
  cases hins : m.insts i with
  | none => exact inv
  | some inst =>
    cases inst with
    | fm fm0 => exact inv
    | adpcm a0 => exact inv
    | ssg s0 =>
      refine ⟨?_, ?_, ?_, ?_, ?_, ?_, ?_, ?_, ?_, ?_, ?_, ?_, ?_, ?_⟩
      · exact poolSync_update_irrelevant (fun s => by rw [hins]; rfl) inv.envFM
      · exact poolSync_update_irrelevant (fun s => by rw [hins]; rfl) inv.lfoFM
      · intro p hp
        exact poolSync_update_irrelevant (fun s => by rw [hins]; rfl) (inv.opSeqFM p hp)
      · exact poolSync_update_irrelevant (fun s => by rw [hins]; rfl) inv.arpFM
      · exact poolSync_update_irrelevant (fun s => by rw [hins]; rfl) inv.ptFM
      · exact poolSync_update_irrelevant (fun s => by rw [hins]; rfl) inv.wfSSG
      · exact poolSync_update_irrelevant (fun s => by rw [hins]; rfl) inv.tnSSG
      · exact poolSync_update_irrelevant (fun s => by rw [hins]; rfl) inv.envSSG
      · exact poolSync_update_irrelevant (fun s => by rw [hins]; rfl) inv.arpSSG
      · exact poolSync_setNum s0.pitchNumber x s0.pitchEnabled hi hins
          (fun s => by cases hgb : s0.pitchEnabled <;>
            simp [BT.ssgPtPoints, hgb]) inv.ptSSG
      · exact poolSync_update_irrelevant (fun s => by rw [hins]; rfl) inv.wfADPCM
      · exact poolSync_update_irrelevant (fun s => by rw [hins]; rfl) inv.envADPCM
      · exact poolSync_update_irrelevant (fun s => by rw [hins]; rfl) inv.arpADPCM
      · exact poolSync_update_irrelevant (fun s => by rw [hins]; rfl) inv.ptADPCM

/-- The invariant is preserved by `setInstrumentADPCMWaveform`. -/
theorem inv_setInstrumentADPCMWaveform (m : BT.InstrumentsManager) (i x : Nat)
    (hi : i < 128) (inv : BT.Inv m) : BT.Inv (m.setInstrumentADPCMWaveform i x) := by
  unfold BT.InstrumentsManager.setInstrumentADPCMWaveform
  cases hins : m.insts i with
  | none => exact inv
  | some inst =>
    cases inst with
    | fm fm0 => exact inv
    | ssg s0 => exact inv
    | adpcm a0 =>
      refine ⟨?_, ?_, ?_, ?_, ?_, ?_, ?_, ?_, ?_, ?_, ?_, ?_, ?_, ?_⟩
      · exact poolSync_update_irrelevant (fun s => by rw [hins]; rfl) inv.envFM
      · exact poolSync_update_irrelevant (fun s => by rw [hins]; rfl) inv.lfoFM
      · intro p hp
        exact poolSync_update_irrelevant (fun s => by rw [hins]; rfl) (inv.opSeqFM p hp)
      · exact poolSync_update_irrelevant (fun s => by rw [hins]; rfl) inv.arpFM
      · exact poolSync_update_irrelevant (fun s => by rw [hins]; rfl) inv.ptFM
      · exact poolSync_update_irrelevant (fun s => by rw [hins]; rfl) inv.wfSSG
      · exact poolSync_update_irrelevant (fun s => by rw [hins]; rfl) inv.tnSSG
      · exact poolSync_update_irrelevant (fun s => by rw [hins]; rfl) inv.envSSG
      · exact poolSync_update_irrelevant (fun s => by rw [hins]; rfl) inv.arpSSG
      · exact poolSync_update_irrelevant (fun s => by rw [hins]; rfl) inv.ptSSG
      · exact poolSync_repoint a0.waveformNumber x hi hins (fun s => rfl)
          (fun s => by simp [BT.adpcmWfPoints]) inv.wfADPCM
      · exact poolSync_update_irrelevant (fun s => by rw [hins]; rfl) inv.envADPCM
      · exact poolSync_update_irrelevant (fun s => by rw [hins]; rfl) inv.arpADPCM
      · exact poolSync_update_irrelevant (fun s => by rw [hins]; rfl) inv.ptADPCM

/-- The invariant is preserved by `setInstrumentADPCMEnvelopeEnabled`. -/
theorem inv_setInstrumentADPCMEnvelopeEnabled (m : BT.InstrumentsManager) (i : Nat) (b : Bool)
    (hi : i < 128) (inv : BT.Inv m) : BT.Inv (m.setInstrumentADPCMEnvelopeEnabled i b) := by
  unfold BT.InstrumentsManager.setInstrumentADPCMEnvelopeEnabled
  cases hins : m.insts i with
  | none => exact inv
  | some inst =>
    cases inst with
    | fm fm0 => exact inv
    | ssg s0 => exact inv
    | adpcm a0 =>
      refine ⟨?_, ?_, ?_, ?_, ?_, ?_, ?_, ?_, ?_, ?_, ?_, ?_, ?_, ?_⟩
      · exact poolSync_update_irrelevant (fun s => by rw [hins]; rfl) inv.envFM
      · exact poolSync_update_irrelevant (fun s => by rw [hins]; rfl) inv.lfoFM
      · intro p hp
        exact poolSync_update_irrelevant (fun s => by rw [hins]; rfl) (inv.opSeqFM p hp)
      · exact poolSync_update_irrelevant (fun s => by rw [hins]; rfl) inv.arpFM
      · exact poolSync_update_irrelevant (fun s => by rw [hins]; rfl) inv.ptFM
      · exact poolSync_update_irrelevant (fun s => by rw [hins]; rfl) inv.wfSSG
      · exact poolSync_update_irrelevant (fun s => by rw [hins]; rfl) inv.tnSSG
      · exact poolSync_update_irrelevant (fun s => by rw [hins]; rfl) inv.envSSG
      · exact poolSync_update_irrelevant (fun s => by rw [hins]; rfl) inv.arpSSG
      · exact poolSync_update_irrelevant (fun s => by rw [hins]; rfl) inv.ptSSG
      · exact poolSync_update_irrelevant (fun s => by rw [hins]; rfl) inv.wfADPCM
      · exact poolSync_setFlag a0.envelopeNumber b hi hins
          (fun s => by cases b <;> cases hgb : a0.envelopeEnabled <;>
            simp [BT.adpcmEnvPoints, hgb]) inv.envADPCM
      · exact poolSync_update_irrelevant (fun s => by rw [hins]; rfl) inv.arpADPCM
      · exact poolSync_update_irrelevant (fun s => by rw [hins]; rfl) inv.ptADPCM

/-- The invariant is preserved by `setInstrumentADPCMEnvelope`. -/
theorem inv_setInstrumentADPCMEnvelope (m : BT.InstrumentsManager) (i x : Nat)
    (hi : i < 128) (inv : BT.Inv m) : BT.Inv (m.setInstrumentADPCMEnvelope i x) := by
  unfold BT.InstrumentsManager.setInstrumentADPCMEnvelope
  cases hins : m.insts i with
  | none => exact inv
  | some inst =>
    cases inst with
    | fm fm0 => exact inv
    | ssg s0 => exact inv
    | adpcm a0 =>
      refine ⟨?_, ?_, ?_, ?_, ?_, ?_, ?_, ?_, ?_, ?_, ?_, ?_, ?_, ?_⟩
      · exact poolSync_update_irrelevant (fun s => by rw [hins]; rfl) inv.envFM
      · exact poolSync_update_irrelevant (fun s => by rw [hins]; rfl) inv.lfoFM
      · intro p hp
        exact poolSync_update_irrelevant (fun s => by rw [hins]; rfl) (inv.opSeqFM p hp)
      · exact poolSync_update_irrelevant (fun s => by rw [hins]; rfl) inv.arpFM
      · exact poolSync_update_irrelevant (fun s => by rw [hins]; rfl) inv.ptFM
      · exact poolSync_update_irrelevant (fun s => by rw [hins]; rfl) inv.wfSSG
      · exact poolSync_update_irrelevant (fun s => by rw [hins]; rfl) inv.tnSSG
      · exact poolSync_update_irrelevant (fun s => by rw [hins]; rfl) inv.envSSG
      · exact poolSync_update_irrelevant (fun s => by rw [hins]; rfl) inv.arpSSG
      · exact poolSync_update_irrelevant (fun s => by rw [hins]; rfl) inv.ptSSG
      · exact poolSync_update_irrelevant (fun s => by rw [hins]; rfl) inv.wfADPCM
      · exact poolSync_setNum a0.envelopeNumber x a0.envelopeEnabled hi hins
          (fun s => by cases hgb : a0.envelopeEnabled <;>
            simp [BT.adpcmEnvPoints, hgb]) inv.envADPCM
      · exact poolSync_update_irrelevant (fun s => by rw [hins]; rfl) inv.arpADPCM
      · exact poolSync_update_irrelevant (fun s => by rw [hins]; rfl) inv.ptADPCM

/-- The invariant is preserved by `setInstrumentADPCMArpeggioEnabled`. -/
theorem inv_setInstrumentADPCMArpeggioEnabled (m : BT.InstrumentsManager) (i : Nat) (b : Bool)
    (hi : i < 128) (inv : BT.Inv m) : BT.Inv (m.setInstrumentADPCMArpeggioEnabled i b) := by
  unfold BT.InstrumentsManager.setInstrumentADPCMArpeggioEnabled
  cases hins : m.insts i with
  | none => exact inv
  | some inst =>
    cases inst with
    | fm fm0 => exact inv
    | ssg s0 => exact inv
    | adpcm a0 =>
      refine ⟨?_, ?_, ?_, ?_, ?_, ?_, ?_, ?_, ?_, ?_, ?_, ?_, ?_, ?_⟩
      · exact poolSync_update_irrelevant (fun s => by rw [hins]; rfl) inv.envFM
      · exact poolSync_update_irrelevant (fun s => by rw [hins]; rfl) inv.lfoFM
      · intro p hp
        exact poolSync_update_irrelevant (fun s => by rw [hins]; rfl) (inv.opSeqFM p hp)
      · exact poolSync_update_irrelevant (fun s => by rw [hins]; rfl) inv.arpFM
      · exact poolSync_update_irrelevant (fun s => by rw [hins]; rfl) inv.ptFM
      · exact poolSync_update_irrelevant (fun s => by rw [hins]; rfl) inv.wfSSG
      · exact poolSync_update_irrelevant (fun s => by rw [hins]; rfl) inv.tnSSG
      · exact poolSync_update_irrelevant (fun s => by rw [hins]; rfl) inv.envSSG
      · exact poolSync_update_irrelevant (fun s => by rw [hins]; rfl) inv.arpSSG
      · exact poolSync_update_irrelevant (fun s => by rw [hins]; rfl) inv.ptSSG
      · exact poolSync_update_irrelevant (fun s => by rw [hins]; rfl) inv.wfADPCM
      · exact poolSync_update_irrelevant (fun s => by rw [hins]; rfl) inv.envADPCM
      · exact poolSync_setFlag a0.arpeggioNumber b hi hins
          (fun s => by cases b <;> cases hgb : a0.arpeggioEnabled <;>
            simp [BT.adpcmArpPoints, hgb]) inv.arpADPCM
      · exact poolSync_update_irrelevant (fun s => by rw [hins]; rfl) inv.ptADPCM

/-- The invariant is preserved by `setInstrumentADPCMArpeggio`. -/
theorem inv_setInstrumentADPCMArpeggio (m : BT.InstrumentsManager) (i x : Nat)
    (hi : i < 128) (inv : BT.Inv m) : BT.Inv (m.setInstrumentADPCMArpeggio i x) := by
  unfold BT.InstrumentsManager.setInstrumentADPCMArpeggio
  cases hins : m.insts i with
  | none => exact inv
  | some inst =>
    cases inst with
    | fm fm0 => exact inv
    | ssg s0 => exact inv
    | adpcm a0 =>
      refine ⟨?_, ?_, ?_, ?_, ?_, ?_, ?_, ?_, ?_, ?_, ?_, ?_, ?_, ?_⟩
      · exact poolSync_update_irrelevant (fun s => by rw [hins]; rfl) inv.envFM
      · exact poolSync_update_irrelevant (fun s => by rw [hins]; rfl) inv.lfoFM
      · intro p hp
        exact poolSync_update_irrelevant (fun s => by rw [hins]; rfl) (inv.opSeqFM p hp)
      · exact poolSync_update_irrelevant (fun s => by rw [hins]; rfl) inv.arpFM
      · exact poolSync_update_irrelevant (fun s => by rw [hins]; rfl) inv.ptFM
      · exact poolSync_update_irrelevant (fun s => by rw [hins]; rfl) inv.wfSSG
      · exact poolSync_update_irrelevant (fun s => by rw [hins]; rfl) inv.tnSSG
      · exact poolSync_update_irrelevant (fun s => by rw [hins]; rfl) inv.envSSG
      · exact poolSync_update_irrelevant (fun s => by rw [hins]; rfl) inv.arpSSG
      · exact poolSync_update_irrelevant (fun s => by rw [hins]; rfl) inv.ptSSG
      · exact poolSync_update_irrelevant (fun s => by rw [hins]; rfl) inv.wfADPCM
      · exact poolSync_update_irrelevant (fun s => by rw [hins]; rfl) inv.envADPCM
      · exact poolSync_setNum a0.arpeggioNumber x a0.arpeggioEnabled hi hins
          (fun s => by cases hgb : a0.arpeggioEnabled <;>
            simp [BT.adpcmArpPoints, hgb]) inv.arpADPCM
      · exact poolSync_update_irrelevant (fun s => by rw [hins]; rfl) inv.ptADPCM

/-- The invariant is preserved by `setInstrumentADPCMPitchEnabled`. -/
theorem inv_setInstrumentADPCMPitchEnabled (m : BT.InstrumentsManager) (i : Nat) (b : Bool)
    (hi : i < 128) (inv : BT.Inv m) : BT.Inv (m.setInstrumentADPCMPitchEnabled i b) := by
  unfold BT.InstrumentsManager.setInstrumentADPCMPitchEnabled
  cases hins : m.insts i with
  | none => exact inv
  | some inst =>
    cases inst with
    | fm fm0 => exact inv
    | ssg s0 => exact inv
    | adpcm a0 =>
      refine ⟨?_, ?_, ?_, ?_, ?_, ?_, ?_, ?_, ?_, ?_, ?_, ?_, ?_, ?_⟩
      · exact poolSync_update_irrelevant (fun s => by rw [hins]; rfl) inv.envFM
      · exact poolSync_update_irrelevant (fun s => by rw [hins]; rfl) inv.lfoFM
      · intro p hp
        exact poolSync_update_irrelevant (fun s => by rw [hins]; rfl) (inv.opSeqFM p hp)
      · exact poolSync_update_irrelevant (fun s => by rw [hins]; rfl) inv.arpFM
      · exact poolSync_update_irrelevant (fun s => by rw [hins]; rfl) inv.ptFM
      · exact poolSync_update_irrelevant (fun s => by rw [hins]; rfl) inv.wfSSG
      · exact poolSync_update_irrelevant (fun s => by rw [hins]; rfl) inv.tnSSG
      · exact poolSync_update_irrelevant (fun s => by rw [hins]; rfl) inv.envSSG
      · exact poolSync_update_irrelevant (fun s => by rw [hins]; rfl) inv.arpSSG
      · exact poolSync_update_irrelevant (fun s => by rw [hins]; rfl) inv.ptSSG
      · exact poolSync_update_irrelevant (fun s => by rw [hins]; rfl) inv.wfADPCM
      · exact poolSync_update_irrelevant (fun s => by rw [hins]; rfl) inv.envADPCM
      · exact poolSync_update_irrelevant (fun s => by rw [hins]; rfl) inv.arpADPCM
      · exact poolSync_setFlag a0.pitchNumber b hi hins
          (fun s => by cases b <;> cases hgb : a0.pitchEnabled <;>
            simp [BT.adpcmPtPoints, hgb]) inv.ptADPCM

/-- The invariant is preserved by `setInstrumentADPCMPitch`. -/
theorem inv_setInstrumentADPCMPitch (m : BT.InstrumentsManager) (i x : Nat)
    (hi : i < 128) (inv : BT.Inv m) : BT.Inv (m.setInstrumentADPCMPitch i x) := by
  unfold BT.InstrumentsManager.setInstrumentADPCMPitch
  cases hins : m.insts i with
  | none => exact inv
  | some inst =>
    cases inst with
    | fm fm0 => exact inv
    | ssg s0 => exact inv
    | adpcm a0 =>
      refine ⟨?_, ?_, ?_, ?_, ?_, ?_, ?_, ?_, ?_, ?_, ?_, ?_, ?_, ?_⟩
      · exact poolSync_update_irrelevant (fun s => by rw [hins]; rfl) inv.envFM
      · exact poolSync_update_irrelevant (fun s => by rw [hins]; rfl) inv.lfoFM
      · intro p hp
        exact poolSync_update_irrelevant (fun s => by rw [hins]; rfl) (inv.opSeqFM p hp)
      · exact poolSync_update_irrelevant (fun s => by rw [hins]; rfl) inv.arpFM
      · exact poolSync_update_irrelevant (fun s => by rw [hins]; rfl) inv.ptFM
      · exact poolSync_update_irrelevant (fun s => by rw [hins]; rfl) inv.wfSSG
      · exact poolSync_update_irrelevant (fun s => by rw [hins]; rfl) inv.tnSSG
      · exact poolSync_update_irrelevant (fun s => by rw [hins]; rfl) inv.envSSG
      · exact poolSync_update_irrelevant (fun s => by rw [hins]; rfl) inv.arpSSG
      · exact poolSync_update_irrelevant (fun s => by rw [hins]; rfl) inv.ptSSG
      · exact poolSync_update_irrelevant (fun s => by rw [hins]; rfl) inv.wfADPCM
      · exact poolSync_update_irrelevant (fun s => by rw [hins]; rfl) inv.envADPCM
      · exact poolSync_update_irrelevant (fun s => by rw [hins]; rfl) inv.arpADPCM
      · exact poolSync_setNum a0.pitchNumber x a0.pitchEnabled hi hins
          (fun s => by cases hgb : a0.pitchEnabled <;>
            simp [BT.adpcmPtPoints, hgb]) inv.ptADPCM


/-- The invariant is preserved by the payload edit `setEnvelopeFMParameter`. -/
theorem inv_setEnvelopeFMParameter (m : BT.InstrumentsManager) (e : Nat)
    (p : BT.FMEnvelopeParameter) (v : Int) (inv : BT.Inv m) :
    BT.Inv (m.setEnvelopeFMParameter e p v) := by
  unfold BT.InstrumentsManager.setEnvelopeFMParameter
  exact ⟨poolSync_of_usersPreserved (fun s => users_setPayload _ _ _ s) inv.envFM,
    inv.lfoFM, inv.opSeqFM, inv.arpFM, inv.ptFM, inv.wfSSG, inv.tnSSG, inv.envSSG,
    inv.arpSSG, inv.ptSSG, inv.wfADPCM, inv.envADPCM, inv.arpADPCM, inv.ptADPCM⟩

/-- The invariant is preserved by the payload edit `setEnvelopeFMOperatorEnabled`. -/
theorem inv_setEnvelopeFMOperatorEnabled (m : BT.InstrumentsManager) (e : Nat)
    (o : Fin 4) (b : Bool) (inv : BT.Inv m) :
    BT.Inv (m.setEnvelopeFMOperatorEnabled e o b) := by
  unfold BT.InstrumentsManager.setEnvelopeFMOperatorEnabled
  exact ⟨poolSync_of_usersPreserved (fun s => users_setPayload _ _ _ s) inv.envFM,
    inv.lfoFM, inv.opSeqFM, inv.arpFM, inv.ptFM, inv.wfSSG, inv.tnSSG, inv.envSSG,
    inv.arpSSG, inv.ptSSG, inv.wfADPCM, inv.envADPCM, inv.arpADPCM, inv.ptADPCM⟩

/-- The invariant is preserved by the payload edit `addArpeggioFMSequenceCommand`. -/
theorem inv_addArpeggioFMSequenceCommand (m : BT.InstrumentsManager) (a : Nat)
    (ty dt : Int) (inv : BT.Inv m) :
    BT.Inv (m.addArpeggioFMSequenceCommand a ty dt) := by
  unfold BT.InstrumentsManager.addArpeggioFMSequenceCommand
  exact ⟨inv.envFM, inv.lfoFM, inv.opSeqFM,
    poolSync_of_usersPreserved (fun s => users_setPayload _ _ _ s) inv.arpFM,
    inv.ptFM, inv.wfSSG, inv.tnSSG, inv.envSSG,
    inv.arpSSG, inv.ptSSG, inv.wfADPCM, inv.envADPCM, inv.arpADPCM, inv.ptADPCM⟩

/-- The invariant is preserved by the payload edit `setWaveformADPCMRootKeyNumber`. -/
theorem inv_setWaveformADPCMRootKeyNumber (m : BT.InstrumentsManager) (w : Nat)
    (v : Int) (inv : BT.Inv m) :
    BT.Inv (m.setWaveformADPCMRootKeyNumber w v) := by
  unfold BT.InstrumentsManager.setWaveformADPCMRootKeyNumber
  exact ⟨inv.envFM, inv.lfoFM, inv.opSeqFM, inv.arpFM, inv.ptFM, inv.wfSSG, inv.tnSSG,
    inv.envSSG, inv.arpSSG, inv.ptSSG,
    poolSync_of_usersPreserved (fun s => users_setPayload _ _ _ s) inv.wfADPCM,
    inv.envADPCM, inv.arpADPCM, inv.ptADPCM⟩
/-- Pass-through projection of stage 1 of the remFM removal. -/
theorem remFMm1_insts (m : BT.InstrumentsManager) (fm : BT.InstrumentFM) (n : Nat) :
    (BT.remFMm1 m fm n).insts = m.insts := rfl

/-- Own-family projection of stage 1 of the remFM removal. -/
theorem remFMm1_envFM (m : BT.InstrumentsManager) (fm : BT.InstrumentFM) (n : Nat) :
    (BT.remFMm1 m fm n).envFM = m.envFM.deregisterUser fm.envelopeNumber n := rfl

/-- Pass-through projection of stage 1 of the remFM removal. -/
theorem remFMm1_lfoFM (m : BT.InstrumentsManager) (fm : BT.InstrumentFM) (n : Nat) :
    (BT.remFMm1 m fm n).lfoFM = m.lfoFM := rfl

/-- Pass-through projection of stage 1 of the remFM removal. -/
theorem remFMm1_opSeqFM (m : BT.InstrumentsManager) (fm : BT.InstrumentFM) (n : Nat) :
    (BT.remFMm1 m fm n).opSeqFM = m.opSeqFM := rfl

/-- Pass-through projection of stage 1 of the remFM removal. -/
theorem remFMm1_arpFM (m : BT.InstrumentsManager) (fm : BT.InstrumentFM) (n : Nat) :
    (BT.remFMm1 m fm n).arpFM = m.arpFM := rfl

/-- Pass-through projection of stage 1 of the remFM removal. -/
theorem remFMm1_ptFM (m : BT.InstrumentsManager) (fm : BT.InstrumentFM) (n : Nat) :
    (BT.remFMm1 m fm n).ptFM = m.ptFM := rfl

/-- Pass-through projection of stage 1 of the remFM removal. -/
theorem remFMm1_wfSSG (m : BT.InstrumentsManager) (fm : BT.InstrumentFM) (n : Nat) :
    (BT.remFMm1 m fm n).wfSSG = m.wfSSG := rfl

/-- Pass-through projection of stage 1 of the remFM removal. -/
theorem remFMm1_tnSSG (m : BT.InstrumentsManager) (fm : BT.InstrumentFM) (n : Nat) :
    (BT.remFMm1 m fm n).tnSSG = m.tnSSG := rfl

/-- Pass-through projection of stage 1 of the remFM removal. -/
theorem remFMm1_envSSG (m : BT.InstrumentsManager) (fm : BT.InstrumentFM) (n : Nat) :
    (BT.remFMm1 m fm n).envSSG = m.envSSG := rfl

/-- Pass-through projection of stage 1 of the remFM removal. -/
theorem remFMm1_arpSSG (m : BT.InstrumentsManager) (fm : BT.InstrumentFM) (n : Nat) :
    (BT.remFMm1 m fm n).arpSSG = m.arpSSG := rfl

/-- Pass-through projection of stage 1 of the remFM removal. -/
theorem remFMm1_ptSSG (m : BT.InstrumentsManager) (fm : BT.InstrumentFM) (n : Nat) :
    (BT.remFMm1 m fm n).ptSSG = m.ptSSG := rfl

/-- Pass-through projection of stage 1 of the remFM removal. -/
theorem remFMm1_wfADPCM (m : BT.InstrumentsManager) (fm : BT.InstrumentFM) (n : Nat) :
    (BT.remFMm1 m fm n).wfADPCM = m.wfADPCM := rfl

/-- Pass-through projection of stage 1 of the remFM removal. -/
theorem remFMm1_envADPCM (m : BT.InstrumentsManager) (fm : BT.InstrumentFM) (n : Nat) :
    (BT.remFMm1 m fm n).envADPCM = m.envADPCM := rfl

/-- Pass-through projection of stage 1 of the remFM removal. -/
theorem remFMm1_arpADPCM (m : BT.InstrumentsManager) (fm : BT.InstrumentFM) (n : Nat) :
    (BT.remFMm1 m fm n).arpADPCM = m.arpADPCM := rfl

/-- Pass-through projection of stage 1 of the remFM removal. -/
theorem remFMm1_ptADPCM (m : BT.InstrumentsManager) (fm : BT.InstrumentFM) (n : Nat) :
    (BT.remFMm1 m fm n).ptADPCM = m.ptADPCM := rfl

/-- Pass-through projection of stage 2 of the remFM removal. -/
theorem remFMm2_insts (m : BT.InstrumentsManager) (fm : BT.InstrumentFM) (n : Nat) :
    (BT.remFMm2 m fm n).insts = (BT.remFMm1 m fm n).insts := by
  unfold BT.remFMm2
  split <;> rfl

/-- Pass-through projection of stage 2 of the remFM removal. -/
theorem remFMm2_envFM (m : BT.InstrumentsManager) (fm : BT.InstrumentFM) (n : Nat) :
    (BT.remFMm2 m fm n).envFM = (BT.remFMm1 m fm n).envFM := by
  unfold BT.remFMm2
  split <;> rfl

/-- Own-family projection of stage 2 of the remFM removal. -/
theorem remFMm2_lfoFM (m : BT.InstrumentsManager) (fm : BT.InstrumentFM) (n : Nat) :
    (BT.remFMm2 m fm n).lfoFM =
      (if fm.lfoEnabled then (BT.remFMm1 m fm n).lfoFM.deregisterUser fm.lfoNumber n else (BT.remFMm1 m fm n).lfoFM) := by
  unfold BT.remFMm2
  split <;> rfl

/-- Pass-through projection of stage 2 of the remFM removal. -/
theorem remFMm2_opSeqFM (m : BT.InstrumentsManager) (fm : BT.InstrumentFM) (n : Nat) :
    (BT.remFMm2 m fm n).opSeqFM = (BT.remFMm1 m fm n).opSeqFM := by
  unfold BT.remFMm2
  split <;> rfl

/-- Pass-through projection of stage 2 of the remFM removal. -/
theorem remFMm2_arpFM (m : BT.InstrumentsManager) (fm : BT.InstrumentFM) (n : Nat) :
    (BT.remFMm2 m fm n).arpFM = (BT.remFMm1 m fm n).arpFM := by
  unfold BT.remFMm2
  split <;> rfl

/-- Pass-through projection of stage 2 of the remFM removal. -/
theorem remFMm2_ptFM (m : BT.InstrumentsManager) (fm : BT.InstrumentFM) (n : Nat) :
    (BT.remFMm2 m fm n).ptFM = (BT.remFMm1 m fm n).ptFM := by
  unfold BT.remFMm2
  split <;> rfl

/-- Pass-through projection of stage 2 of the remFM removal. -/
theorem remFMm2_wfSSG (m : BT.InstrumentsManager) (fm : BT.InstrumentFM) (n : Nat) :
    (BT.remFMm2 m fm n).wfSSG = (BT.remFMm1 m fm n).wfSSG := by
  unfold BT.remFMm2
  split <;> rfl

/-- Pass-through projection of stage 2 of the remFM removal. -/
theorem remFMm2_tnSSG (m : BT.InstrumentsManager) (fm : BT.InstrumentFM) (n : Nat) :
    (BT.remFMm2 m fm n).tnSSG = (BT.remFMm1 m fm n).tnSSG := by
  unfold BT.remFMm2
  split <;> rfl

/-- Pass-through projection of stage 2 of the remFM removal. -/
theorem remFMm2_envSSG (m : BT.InstrumentsManager) (fm : BT.InstrumentFM) (n : Nat) :
    (BT.remFMm2 m fm n).envSSG = (BT.remFMm1 m fm n).envSSG := by
  unfold BT.remFMm2
  split <;> rfl

/-- Pass-through projection of stage 2 of the remFM removal. -/
theorem remFMm2_arpSSG (m : BT.InstrumentsManager) (fm : BT.InstrumentFM) (n : Nat) :
    (BT.remFMm2 m fm n).arpSSG = (BT.remFMm1 m fm n).arpSSG := by
  unfold BT.remFMm2
  split <;> rfl

/-- Pass-through projection of stage 2 of the remFM removal. -/
theorem remFMm2_ptSSG (m : BT.InstrumentsManager) (fm : BT.InstrumentFM) (n : Nat) :
    (BT.remFMm2 m fm n).ptSSG = (BT.remFMm1 m fm n).ptSSG := by
  unfold BT.remFMm2
  split <;> rfl

/-- Pass-through projection of stage 2 of the remFM removal. -/
theorem remFMm2_wfADPCM (m : BT.InstrumentsManager) (fm : BT.InstrumentFM) (n : Nat) :
    (BT.remFMm2 m fm n).wfADPCM = (BT.remFMm1 m fm n).wfADPCM := by
  unfold BT.remFMm2
  split <;> rfl

/-- Pass-through projection of stage 2 of the remFM removal. -/
theorem remFMm2_envADPCM (m : BT.InstrumentsManager) (fm : BT.InstrumentFM) (n : Nat) :
    (BT.remFMm2 m fm n).envADPCM = (BT.remFMm1 m fm n).envADPCM := by
  unfold BT.remFMm2
  split <;> rfl

/-- Pass-through projection of stage 2 of the remFM removal. -/
theorem remFMm2_arpADPCM (m : BT.InstrumentsManager) (fm : BT.InstrumentFM) (n : Nat) :
    (BT.remFMm2 m fm n).arpADPCM = (BT.remFMm1 m fm n).arpADPCM := by
  unfold BT.remFMm2
  split <;> rfl

/-- Pass-through projection of stage 2 of the remFM removal. -/
theorem remFMm2_ptADPCM (m : BT.InstrumentsManager) (fm : BT.InstrumentFM) (n : Nat) :
    (BT.remFMm2 m fm n).ptADPCM = (BT.remFMm1 m fm n).ptADPCM := by
  unfold BT.remFMm2
  split <;> rfl

/-- Pass-through projection of stage 1 of the remSSG removal. -/
theorem remSSGm1_insts (m : BT.InstrumentsManager) (s0 : BT.InstrumentSSG) (n : Nat) :
    (BT.remSSGm1 m s0 n).insts = m.insts := by
  unfold BT.remSSGm1
  split <;> rfl

/-- Pass-through projection of stage 1 of the remSSG removal. -/
theorem remSSGm1_envFM (m : BT.InstrumentsManager) (s0 : BT.InstrumentSSG) (n : Nat) :
    (BT.remSSGm1 m s0 n).envFM = m.envFM := by
  unfold BT.remSSGm1
  split <;> rfl

/-- Pass-through projection of stage 1 of the remSSG removal. -/
theorem remSSGm1_lfoFM (m : BT.InstrumentsManager) (s0 : BT.InstrumentSSG) (n : Nat) :
    (BT.remSSGm1 m s0 n).lfoFM = m.lfoFM := by
  unfold BT.remSSGm1
  split <;> rfl

/-- Pass-through projection of stage 1 of the remSSG removal. -/
theorem remSSGm1_opSeqFM (m : BT.InstrumentsManager) (s0 : BT.InstrumentSSG) (n : Nat) :
    (BT.remSSGm1 m s0 n).opSeqFM = m.opSeqFM := by
  unfold BT.remSSGm1
  split <;> rfl

/-- Pass-through projection of stage 1 of the remSSG removal. -/
theorem remSSGm1_arpFM (m : BT.InstrumentsManager) (s0 : BT.InstrumentSSG) (n : Nat) :
    (BT.remSSGm1 m s0 n).arpFM = m.arpFM := by
  unfold BT.remSSGm1
  split <;> rfl

/-- Pass-through projection of stage 1 of the remSSG removal. -/
theorem remSSGm1_ptFM (m : BT.InstrumentsManager) (s0 : BT.InstrumentSSG) (n : Nat) :
    (BT.remSSGm1 m s0 n).ptFM = m.ptFM := by
  unfold BT.remSSGm1
  split <;> rfl

/-- Own-family projection of stage 1 of the remSSG removal. -/
theorem remSSGm1_wfSSG (m : BT.InstrumentsManager) (s0 : BT.InstrumentSSG) (n : Nat) :
    (BT.remSSGm1 m s0 n).wfSSG =
      (if s0.waveformEnabled then m.wfSSG.deregisterUser s0.waveformNumber n else m.wfSSG) := by
  unfold BT.remSSGm1
  split <;> rfl

/-- Pass-through projection of stage 1 of the remSSG removal. -/
theorem remSSGm1_tnSSG (m : BT.InstrumentsManager) (s0 : BT.InstrumentSSG) (n : Nat) :
    (BT.remSSGm1 m s0 n).tnSSG = m.tnSSG := by
  unfold BT.remSSGm1
  split <;> rfl

/-- Pass-through projection of stage 1 of the remSSG removal. -/
theorem remSSGm1_envSSG (m : BT.InstrumentsManager) (s0 : BT.InstrumentSSG) (n : Nat) :
    (BT.remSSGm1 m s0 n).envSSG = m.envSSG := by
  unfold BT.remSSGm1
  split <;> rfl

/-- Pass-through projection of stage 1 of the remSSG removal. -/
theorem remSSGm1_arpSSG (m : BT.InstrumentsManager) (s0 : BT.InstrumentSSG) (n : Nat) :
    (BT.remSSGm1 m s0 n).arpSSG = m.arpSSG := by
  unfold BT.remSSGm1
  split <;> rfl

/-- Pass-through projection of stage 1 of the remSSG removal. -/
theorem remSSGm1_ptSSG (m : BT.InstrumentsManager) (s0 : BT.InstrumentSSG) (n : Nat) :
    (BT.remSSGm1 m s0 n).ptSSG = m.ptSSG := by
  unfold BT.remSSGm1
  split <;> rfl

/-- Pass-through projection of stage 1 of the remSSG removal. -/
theorem remSSGm1_wfADPCM (m : BT.InstrumentsManager) (s0 : BT.InstrumentSSG) (n : Nat) :
    (BT.remSSGm1 m s0 n).wfADPCM = m.wfADPCM := by
  unfold BT.remSSGm1
  split <;> rfl

/-- Pass-through projection of stage 1 of the remSSG removal. -/
theorem remSSGm1_envADPCM (m : BT.InstrumentsManager) (s0 : BT.InstrumentSSG) (n : Nat) :
    (BT.remSSGm1 m s0 n).envADPCM = m.envADPCM := by
  unfold BT.remSSGm1
  split <;> rfl

/-- Pass-through projection of stage 1 of the remSSG removal. -/
theorem remSSGm1_arpADPCM (m : BT.InstrumentsManager) (s0 : BT.InstrumentSSG) (n : Nat) :
    (BT.remSSGm1 m s0 n).arpADPCM = m.arpADPCM := by
  unfold BT.remSSGm1
  split <;> rfl

/-- Pass-through projection of stage 1 of the remSSG removal. -/
theorem remSSGm1_ptADPCM (m : BT.InstrumentsManager) (s0 : BT.InstrumentSSG) (n : Nat) :
    (BT.remSSGm1 m s0 n).ptADPCM = m.ptADPCM := by
  unfold BT.remSSGm1
  split <;> rfl

/-- Pass-through projection of stage 2 of the remSSG removal. -/
theorem remSSGm2_insts (m : BT.InstrumentsManager) (s0 : BT.InstrumentSSG) (n : Nat) :
    (BT.remSSGm2 m s0 n).insts = (BT.remSSGm1 m s0 n).insts := by
  unfold BT.remSSGm2
  split <;> rfl

/-- Pass-through projection of stage 2 of the remSSG removal. -/
theorem remSSGm2_envFM (m : BT.InstrumentsManager) (s0 : BT.InstrumentSSG) (n : Nat) :
    (BT.remSSGm2 m s0 n).envFM = (BT.remSSGm1 m s0 n).envFM := by
  unfold BT.remSSGm2
  split <;> rfl

/-- Pass-through projection of stage 2 of the remSSG removal. -/
theorem remSSGm2_lfoFM (m : BT.InstrumentsManager) (s0 : BT.InstrumentSSG) (n : Nat) :
    (BT.remSSGm2 m s0 n).lfoFM = (BT.remSSGm1 m s0 n).lfoFM := by
  unfold BT.remSSGm2
  split <;> rfl

/-- Pass-through projection of stage 2 of the remSSG removal. -/
theorem remSSGm2_opSeqFM (m : BT.InstrumentsManager) (s0 : BT.InstrumentSSG) (n : Nat) :
    (BT.remSSGm2 m s0 n).opSeqFM = (BT.remSSGm1 m s0 n).opSeqFM := by
  unfold BT.remSSGm2
  split <;> rfl

/-- Pass-through projection of stage 2 of the remSSG removal. -/
theorem remSSGm2_arpFM (m : BT.InstrumentsManager) (s0 : BT.InstrumentSSG) (n : Nat) :
    (BT.remSSGm2 m s0 n).arpFM = (BT.remSSGm1 m s0 n).arpFM := by
  unfold BT.remSSGm2
  split <;> rfl

/-- Pass-through projection of stage 2 of the remSSG removal. -/
theorem remSSGm2_ptFM (m : BT.InstrumentsManager) (s0 : BT.InstrumentSSG) (n : Nat) :
    (BT.remSSGm2 m s0 n).ptFM = (BT.remSSGm1 m s0 n).ptFM := by
  unfold BT.remSSGm2
  split <;> rfl

/-- Pass-through projection of stage 2 of the remSSG removal. -/
theorem remSSGm2_wfSSG (m : BT.InstrumentsManager) (s0 : BT.InstrumentSSG) (n : Nat) :
    (BT.remSSGm2 m s0 n).wfSSG = (BT.remSSGm1 m s0 n).wfSSG := by
  unfold BT.remSSGm2
  split <;> rfl

/-- Own-family projection of stage 2 of the remSSG removal. -/
theorem remSSGm2_tnSSG (m : BT.InstrumentsManager) (s0 : BT.InstrumentSSG) (n : Nat) :
    (BT.remSSGm2 m s0 n).tnSSG =
      (if s0.toneNoiseEnabled then (BT.remSSGm1 m s0 n).tnSSG.deregisterUser s0.toneNoiseNumber n else (BT.remSSGm1 m s0 n).tnSSG) := by
  unfold BT.remSSGm2
  split <;> rfl

/-- Pass-through projection of stage 2 of the remSSG removal. -/
theorem remSSGm2_envSSG (m : BT.InstrumentsManager) (s0 : BT.InstrumentSSG) (n : Nat) :
    (BT.remSSGm2 m s0 n).envSSG = (BT.remSSGm1 m s0 n).envSSG := by
  unfold BT.remSSGm2
  split <;> rfl

/-- Pass-through projection of stage 2 of the remSSG removal. -/
theorem remSSGm2_arpSSG (m : BT.InstrumentsManager) (s0 : BT.InstrumentSSG) (n : Nat) :
    (BT.remSSGm2 m s0 n).arpSSG = (BT.remSSGm1 m s0 n).arpSSG := by
  unfold BT.remSSGm2
  split <;> rfl

/-- Pass-through projection of stage 2 of the remSSG removal. -/
theorem remSSGm2_ptSSG (m : BT.InstrumentsManager) (s0 : BT.InstrumentSSG) (n : Nat) :
    (BT.remSSGm2 m s0 n).ptSSG = (BT.remSSGm1 m s0 n).ptSSG := by
  unfold BT.remSSGm2
  split <;> rfl

/-- Pass-through projection of stage 2 of the remSSG removal. -/
theorem remSSGm2_wfADPCM (m : BT.InstrumentsManager) (s0 : BT.InstrumentSSG) (n : Nat) :
    (BT.remSSGm2 m s0 n).wfADPCM = (BT.remSSGm1 m s0 n).wfADPCM := by
  unfold BT.remSSGm2
  split <;> rfl

/-- Pass-through projection of stage 2 of the remSSG removal. -/
theorem remSSGm2_envADPCM (m : BT.InstrumentsManager) (s0 : BT.InstrumentSSG) (n : Nat) :
    (BT.remSSGm2 m s0 n).envADPCM = (BT.remSSGm1 m s0 n).envADPCM := by
  unfold BT.remSSGm2
  split <;> rfl

/-- Pass-through projection of stage 2 of the remSSG removal. -/
theorem remSSGm2_arpADPCM (m : BT.InstrumentsManager) (s0 : BT.InstrumentSSG) (n : Nat) :
    (BT.remSSGm2 m s0 n).arpADPCM = (BT.remSSGm1 m s0 n).arpADPCM := by
  unfold BT.remSSGm2
  split <;> rfl

/-- Pass-through projection of stage 2 of the remSSG removal. -/
theorem remSSGm2_ptADPCM (m : BT.InstrumentsManager) (s0 : BT.InstrumentSSG) (n : Nat) :
    (BT.remSSGm2 m s0 n).ptADPCM = (BT.remSSGm1 m s0 n).ptADPCM := by
  unfold BT.remSSGm2
  split <;> rfl

/-- Pass-through projection of stage 3 of the remSSG removal. -/
theorem remSSGm3_insts (m : BT.InstrumentsManager) (s0 : BT.InstrumentSSG) (n : Nat) :
    (BT.remSSGm3 m s0 n).insts = (BT.remSSGm2 m s0 n).insts := by
  unfold BT.remSSGm3
  split <;> rfl

/-- Pass-through projection of stage 3 of the remSSG removal. -/
theorem remSSGm3_envFM (m : BT.InstrumentsManager) (s0 : BT.InstrumentSSG) (n : Nat) :
    (BT.remSSGm3 m s0 n).envFM = (BT.remSSGm2 m s0 n).envFM := by
  unfold BT.remSSGm3
  split <;> rfl

/-- Pass-through projection of stage 3 of the remSSG removal. -/
theorem remSSGm3_lfoFM (m : BT.InstrumentsManager) (s0 : BT.InstrumentSSG) (n : Nat) :
    (BT.remSSGm3 m s0 n).lfoFM = (BT.remSSGm2 m s0 n).lfoFM := by
  unfold BT.remSSGm3
  split <;> rfl

/-- Pass-through projection of stage 3 of the remSSG removal. -/
theorem remSSGm3_opSeqFM (m : BT.InstrumentsManager) (s0 : BT.InstrumentSSG) (n : Nat) :
    (BT.remSSGm3 m s0 n).opSeqFM = (BT.remSSGm2 m s0 n).opSeqFM := by
  unfold BT.remSSGm3
  split <;> rfl

/-- Pass-through projection of stage 3 of the remSSG removal. -/
theorem remSSGm3_arpFM (m : BT.InstrumentsManager) (s0 : BT.InstrumentSSG) (n : Nat) :
    (BT.remSSGm3 m s0 n).arpFM = (BT.remSSGm2 m s0 n).arpFM := by
  unfold BT.remSSGm3
  split <;> rfl

/-- Pass-through projection of stage 3 of the remSSG removal. -/
theorem remSSGm3_ptFM (m : BT.InstrumentsManager) (s0 : BT.InstrumentSSG) (n : Nat) :
    (BT.remSSGm3 m s0 n).ptFM = (BT.remSSGm2 m s0 n).ptFM := by
  unfold BT.remSSGm3
  split <;> rfl

/-- Pass-through projection of stage 3 of the remSSG removal. -/
theorem remSSGm3_wfSSG (m : BT.InstrumentsManager) (s0 : BT.InstrumentSSG) (n : Nat) :
    (BT.remSSGm3 m s0 n).wfSSG = (BT.remSSGm2 m s0 n).wfSSG := by
  unfold BT.remSSGm3
  split <;> rfl

/-- Pass-through projection of stage 3 of the remSSG removal. -/
theorem remSSGm3_tnSSG (m : BT.InstrumentsManager) (s0 : BT.InstrumentSSG) (n : Nat) :
    (BT.remSSGm3 m s0 n).tnSSG = (BT.remSSGm2 m s0 n).tnSSG := by
  unfold BT.remSSGm3
  split <;> rfl

/-- Own-family projection of stage 3 of the remSSG removal. -/
theorem remSSGm3_envSSG (m : BT.InstrumentsManager) (s0 : BT.InstrumentSSG) (n : Nat) :
    (BT.remSSGm3 m s0 n).envSSG =
      (if s0.envelopeEnabled then (BT.remSSGm2 m s0 n).envSSG.deregisterUser s0.envelopeNumber n else (BT.remSSGm2 m s0 n).envSSG) := by
  unfold BT.remSSGm3
  split <;> rfl

/-- Pass-through projection of stage 3 of the remSSG removal. -/
theorem remSSGm3_arpSSG (m : BT.InstrumentsManager) (s0 : BT.InstrumentSSG) (n : Nat) :
    (BT.remSSGm3 m s0 n).arpSSG = (BT.remSSGm2 m s0 n).arpSSG := by
  unfold BT.remSSGm3
  split <;> rfl

/-- Pass-through projection of stage 3 of the remSSG removal. -/
theorem remSSGm3_ptSSG (m : BT.InstrumentsManager) (s0 : BT.InstrumentSSG) (n : Nat) :
    (BT.remSSGm3 m s0 n).ptSSG = (BT.remSSGm2 m s0 n).ptSSG := by
  unfold BT.remSSGm3
  split <;> rfl

/-- Pass-through projection of stage 3 of the remSSG removal. -/
theorem remSSGm3_wfADPCM (m : BT.InstrumentsManager) (s0 : BT.InstrumentSSG) (n : Nat) :
    (BT.remSSGm3 m s0 n).wfADPCM = (BT.remSSGm2 m s0 n).wfADPCM := by
  unfold BT.remSSGm3
  split <;> rfl

/-- Pass-through projection of stage 3 of the remSSG removal. -/
theorem remSSGm3_envADPCM (m : BT.InstrumentsManager) (s0 : BT.InstrumentSSG) (n : Nat) :
    (BT.remSSGm3 m s0 n).envADPCM = (BT.remSSGm2 m s0 n).envADPCM := by
  unfold BT.remSSGm3
  split <;> rfl

/-- Pass-through projection of stage 3 of the remSSG removal. -/
theorem remSSGm3_arpADPCM (m : BT.InstrumentsManager) (s0 : BT.InstrumentSSG) (n : Nat) :
    (BT.remSSGm3 m s0 n).arpADPCM = (BT.remSSGm2 m s0 n).arpADPCM := by
  unfold BT.remSSGm3
  split <;> rfl

/-- Pass-through projection of stage 3 of the remSSG removal. -/
theorem remSSGm3_ptADPCM (m : BT.InstrumentsManager) (s0 : BT.InstrumentSSG) (n : Nat) :
    (BT.remSSGm3 m s0 n).ptADPCM = (BT.remSSGm2 m s0 n).ptADPCM := by
  unfold BT.remSSGm3
  split <;> rfl

/-- Pass-through projection of stage 4 of the remSSG removal. -/
theorem remSSGm4_insts (m : BT.InstrumentsManager) (s0 : BT.InstrumentSSG) (n : Nat) :
    (BT.remSSGm4 m s0 n).insts = (BT.remSSGm3 m s0 n).insts := by
  unfold BT.remSSGm4
  split <;> rfl

/-- Pass-through projection of stage 4 of the remSSG removal. -/
theorem remSSGm4_envFM (m : BT.InstrumentsManager) (s0 : BT.InstrumentSSG) (n : Nat) :
    (BT.remSSGm4 m s0 n).envFM = (BT.remSSGm3 m s0 n).envFM := by
  unfold BT.remSSGm4
  split <;> rfl

/-- Pass-through projection of stage 4 of the remSSG removal. -/
theorem remSSGm4_lfoFM (m : BT.InstrumentsManager) (s0 : BT.InstrumentSSG) (n : Nat) :
    (BT.remSSGm4 m s0 n).lfoFM = (BT.remSSGm3 m s0 n).lfoFM := by
  unfold BT.remSSGm4
  split <;> rfl

/-- Pass-through projection of stage 4 of the remSSG removal. -/
theorem remSSGm4_opSeqFM (m : BT.InstrumentsManager) (s0 : BT.InstrumentSSG) (n : Nat) :
    (BT.remSSGm4 m s0 n).opSeqFM = (BT.remSSGm3 m s0 n).opSeqFM := by
  unfold BT.remSSGm4
  split <;> rfl

/-- Pass-through projection of stage 4 of the remSSG removal. -/
theorem remSSGm4_arpFM (m : BT.InstrumentsManager) (s0 : BT.InstrumentSSG) (n : Nat) :
    (BT.remSSGm4 m s0 n).arpFM = (BT.remSSGm3 m s0 n).arpFM := by
  unfold BT.remSSGm4
  split <;> rfl

/-- Pass-through projection of stage 4 of the remSSG removal. -/
theorem remSSGm4_ptFM (m : BT.InstrumentsManager) (s0 : BT.InstrumentSSG) (n : Nat) :
    (BT.remSSGm4 m s0 n).ptFM = (BT.remSSGm3 m s0 n).ptFM := by
  unfold BT.remSSGm4
  split <;> rfl

/-- Pass-through projection of stage 4 of the remSSG removal. -/
theorem remSSGm4_wfSSG (m : BT.InstrumentsManager) (s0 : BT.InstrumentSSG) (n : Nat) :
    (BT.remSSGm4 m s0 n).wfSSG = (BT.remSSGm3 m s0 n).wfSSG := by
  unfold BT.remSSGm4
  split <;> rfl

/-- Pass-through projection of stage 4 of the remSSG removal. -/
theorem remSSGm4_tnSSG (m : BT.InstrumentsManager) (s0 : BT.InstrumentSSG) (n : Nat) :
    (BT.remSSGm4 m s0 n).tnSSG = (BT.remSSGm3 m s0 n).tnSSG := by
  unfold BT.remSSGm4
  split <;> rfl

/-- Pass-through projection of stage 4 of the remSSG removal. -/
theorem remSSGm4_envSSG (m : BT.InstrumentsManager) (s0 : BT.InstrumentSSG) (n : Nat) :
    (BT.remSSGm4 m s0 n).envSSG = (BT.remSSGm3 m s0 n).envSSG := by
  unfold BT.remSSGm4
  split <;> rfl

/-- Own-family projection of stage 4 of the remSSG removal. -/
theorem remSSGm4_arpSSG (m : BT.InstrumentsManager) (s0 : BT.InstrumentSSG) (n : Nat) :
    (BT.remSSGm4 m s0 n).arpSSG =
      (if s0.arpeggioEnabled then (BT.remSSGm3 m s0 n).arpSSG.deregisterUser s0.arpeggioNumber n else (BT.remSSGm3 m s0 n).arpSSG) := by
  unfold BT.remSSGm4
  split <;> rfl

/-- Pass-through projection of stage 4 of the remSSG removal. -/
theorem remSSGm4_ptSSG (m : BT.InstrumentsManager) (s0 : BT.InstrumentSSG) (n : Nat) :
    (BT.remSSGm4 m s0 n).ptSSG = (BT.remSSGm3 m s0 n).ptSSG := by
  unfold BT.remSSGm4
  split <;> rfl

/-- Pass-through projection of stage 4 of the remSSG removal. -/
theorem remSSGm4_wfADPCM (m : BT.InstrumentsManager) (s0 : BT.InstrumentSSG) (n : Nat) :
    (BT.remSSGm4 m s0 n).wfADPCM = (BT.remSSGm3 m s0 n).wfADPCM := by
  unfold BT.remSSGm4
  split <;> rfl

/-- Pass-through projection of stage 4 of the remSSG removal. -/
theorem remSSGm4_envADPCM (m : BT.InstrumentsManager) (s0 : BT.InstrumentSSG) (n : Nat) :
    (BT.remSSGm4 m s0 n).envADPCM = (BT.remSSGm3 m s0 n).envADPCM := by
  unfold BT.remSSGm4
  split <;> rfl

/-- Pass-through projection of stage 4 of the remSSG removal. -/
theorem remSSGm4_arpADPCM (m : BT.InstrumentsManager) (s0 : BT.InstrumentSSG) (n : Nat) :
    (BT.remSSGm4 m s0 n).arpADPCM = (BT.remSSGm3 m s0 n).arpADPCM := by
  unfold BT.remSSGm4
  split <;> rfl

/-- Pass-through projection of stage 4 of the remSSG removal. -/
theorem remSSGm4_ptADPCM (m : BT.InstrumentsManager) (s0 : BT.InstrumentSSG) (n : Nat) :
    (BT.remSSGm4 m s0 n).ptADPCM = (BT.remSSGm3 m s0 n).ptADPCM := by
  unfold BT.remSSGm4
  split <;> rfl

/-- Pass-through projection of stage 5 of the remSSG removal. -/
theorem remSSGm5_insts (m : BT.InstrumentsManager) (s0 : BT.InstrumentSSG) (n : Nat) :
    (BT.remSSGm5 m s0 n).insts = (BT.remSSGm4 m s0 n).insts := by
  unfold BT.remSSGm5
  split <;> rfl

/-- Pass-through projection of stage 5 of the remSSG removal. -/
theorem remSSGm5_envFM (m : BT.InstrumentsManager) (s0 : BT.InstrumentSSG) (n : Nat) :
    (BT.remSSGm5 m s0 n).envFM = (BT.remSSGm4 m s0 n).envFM := by
  unfold BT.remSSGm5
  split <;> rfl

/-- Pass-through projection of stage 5 of the remSSG removal. -/
theorem remSSGm5_lfoFM (m : BT.InstrumentsManager) (s0 : BT.InstrumentSSG) (n : Nat) :
    (BT.remSSGm5 m s0 n).lfoFM = (BT.remSSGm4 m s0 n).lfoFM := by
  unfold BT.remSSGm5
  split <;> rfl

/-- Pass-through projection of stage 5 of the remSSG removal. -/
theorem remSSGm5_opSeqFM (m : BT.InstrumentsManager) (s0 : BT.InstrumentSSG) (n : Nat) :
    (BT.remSSGm5 m s0 n).opSeqFM = (BT.remSSGm4 m s0 n).opSeqFM := by
  unfold BT.remSSGm5
  split <;> rfl

/-- Pass-through projection of stage 5 of the remSSG removal. -/
theorem remSSGm5_arpFM (m : BT.InstrumentsManager) (s0 : BT.InstrumentSSG) (n : Nat) :
    (BT.remSSGm5 m s0 n).arpFM = (BT.remSSGm4 m s0 n).arpFM := by
  unfold BT.remSSGm5
  split <;> rfl

/-- Pass-through projection of stage 5 of the remSSG removal. -/
theorem remSSGm5_ptFM (m : BT.InstrumentsManager) (s0 : BT.InstrumentSSG) (n : Nat) :
    (BT.remSSGm5 m s0 n).ptFM = (BT.remSSGm4 m s0 n).ptFM := by
  unfold BT.remSSGm5
  split <;> rfl

/-- Pass-through projection of stage 5 of the remSSG removal. -/
theorem remSSGm5_wfSSG (m : BT.InstrumentsManager) (s0 : BT.InstrumentSSG) (n : Nat) :
    (BT.remSSGm5 m s0 n).wfSSG = (BT.remSSGm4 m s0 n).wfSSG := by
  unfold BT.remSSGm5
  split <;> rfl

/-- Pass-through projection of stage 5 of the remSSG removal. -/
theorem remSSGm5_tnSSG (m : BT.InstrumentsManager) (s0 : BT.InstrumentSSG) (n : Nat) :
    (BT.remSSGm5 m s0 n).tnSSG = (BT.remSSGm4 m s0 n).tnSSG := by
  unfold BT.remSSGm5
  split <;> rfl

/-- Pass-through projection of stage 5 of the remSSG removal. -/
theorem remSSGm5_envSSG (m : BT.InstrumentsManager) (s0 : BT.InstrumentSSG) (n : Nat) :
    (BT.remSSGm5 m s0 n).envSSG = (BT.remSSGm4 m s0 n).envSSG := by
  unfold BT.remSSGm5
  split <;> rfl

/-- Pass-through projection of stage 5 of the remSSG removal. -/
theorem remSSGm5_arpSSG (m : BT.InstrumentsManager) (s0 : BT.InstrumentSSG) (n : Nat) :
    (BT.remSSGm5 m s0 n).arpSSG = (BT.remSSGm4 m s0 n).arpSSG := by
  unfold BT.remSSGm5
  split <;> rfl

/-- Own-family projection of stage 5 of the remSSG removal. -/
theorem remSSGm5_ptSSG (m : BT.InstrumentsManager) (s0 : BT.InstrumentSSG) (n : Nat) :
    (BT.remSSGm5 m s0 n).ptSSG =
      (if s0.pitchEnabled then (BT.remSSGm4 m s0 n).ptSSG.deregisterUser s0.pitchNumber n else (BT.remSSGm4 m s0 n).ptSSG) := by
  unfold BT.remSSGm5
  split <;> rfl

/-- Pass-through projection of stage 5 of the remSSG removal. -/
theorem remSSGm5_wfADPCM (m : BT.InstrumentsManager) (s0 : BT.InstrumentSSG) (n : Nat) :
    (BT.remSSGm5 m s0 n).wfADPCM = (BT.remSSGm4 m s0 n).wfADPCM := by
  unfold BT.remSSGm5
  split <;> rfl

/-- Pass-through projection of stage 5 of the remSSG removal. -/
theorem remSSGm5_envADPCM (m : BT.InstrumentsManager) (s0 : BT.InstrumentSSG) (n : Nat) :
    (BT.remSSGm5 m s0 n).envADPCM = (BT.remSSGm4 m s0 n).envADPCM := by
  unfold BT.remSSGm5
  split <;> rfl

/-- Pass-through projection of stage 5 of the remSSG removal. -/
theorem remSSGm5_arpADPCM (m : BT.InstrumentsManager) (s0 : BT.InstrumentSSG) (n : Nat) :
    (BT.remSSGm5 m s0 n).arpADPCM = (BT.remSSGm4 m s0 n).arpADPCM := by
  unfold BT.remSSGm5
  split <;> rfl

/-- Pass-through projection of stage 5 of the remSSG removal. -/
theorem remSSGm5_ptADPCM (m : BT.InstrumentsManager) (s0 : BT.InstrumentSSG) (n : Nat) :
    (BT.remSSGm5 m s0 n).ptADPCM = (BT.remSSGm4 m s0 n).ptADPCM := by
  unfold BT.remSSGm5
  split <;> rfl

/-- Pass-through projection of stage 1 of the remADPCM removal. -/
theorem remADPCMm1_insts (m : BT.InstrumentsManager) (a0 : BT.InstrumentADPCM) (n : Nat) :
    (BT.remADPCMm1 m a0 n).insts = m.insts := rfl

/-- Pass-through projection of stage 1 of the remADPCM removal. -/
theorem remADPCMm1_envFM (m : BT.InstrumentsManager) (a0 : BT.InstrumentADPCM) (n : Nat) :
    (BT.remADPCMm1 m a0 n).envFM = m.envFM := rfl

/-- Pass-through projection of stage 1 of the remADPCM removal. -/
theorem remADPCMm1_lfoFM (m : BT.InstrumentsManager) (a0 : BT.InstrumentADPCM) (n : Nat) :
    (BT.remADPCMm1 m a0 n).lfoFM = m.lfoFM := rfl

/-- Pass-through projection of stage 1 of the remADPCM removal. -/
theorem remADPCMm1_opSeqFM (m : BT.InstrumentsManager) (a0 : BT.InstrumentADPCM) (n : Nat) :
    (BT.remADPCMm1 m a0 n).opSeqFM = m.opSeqFM := rfl

/-- Pass-through projection of stage 1 of the remADPCM removal. -/
theorem remADPCMm1_arpFM (m : BT.InstrumentsManager) (a0 : BT.InstrumentADPCM) (n : Nat) :
    (BT.remADPCMm1 m a0 n).arpFM = m.arpFM := rfl

/-- Pass-through projection of stage 1 of the remADPCM removal. -/
theorem remADPCMm1_ptFM (m : BT.InstrumentsManager) (a0 : BT.InstrumentADPCM) (n : Nat) :
    (BT.remADPCMm1 m a0 n).ptFM = m.ptFM := rfl

/-- Pass-through projection of stage 1 of the remADPCM removal. -/
theorem remADPCMm1_wfSSG (m : BT.InstrumentsManager) (a0 : BT.InstrumentADPCM) (n : Nat) :
    (BT.remADPCMm1 m a0 n).wfSSG = m.wfSSG := rfl

/-- Pass-through projection of stage 1 of the remADPCM removal. -/
theorem remADPCMm1_tnSSG (m : BT.InstrumentsManager) (a0 : BT.InstrumentADPCM) (n : Nat) :
    (BT.remADPCMm1 m a0 n).tnSSG = m.tnSSG := rfl

/-- Pass-through projection of stage 1 of the remADPCM removal. -/
theorem remADPCMm1_envSSG (m : BT.InstrumentsManager) (a0 : BT.InstrumentADPCM) (n : Nat) :
    (BT.remADPCMm1 m a0 n).envSSG = m.envSSG := rfl

/-- Pass-through projection of stage 1 of the remADPCM removal. -/
theorem remADPCMm1_arpSSG (m : BT.InstrumentsManager) (a0 : BT.InstrumentADPCM) (n : Nat) :
    (BT.remADPCMm1 m a0 n).arpSSG = m.arpSSG := rfl

/-- Pass-through projection of stage 1 of the remADPCM removal. -/
theorem remADPCMm1_ptSSG (m : BT.InstrumentsManager) (a0 : BT.InstrumentADPCM) (n : Nat) :
    (BT.remADPCMm1 m a0 n).ptSSG = m.ptSSG := rfl

/-- Own-family projection of stage 1 of the remADPCM removal. -/
theorem remADPCMm1_wfADPCM (m : BT.InstrumentsManager) (a0 : BT.InstrumentADPCM) (n : Nat) :
    (BT.remADPCMm1 m a0 n).wfADPCM = m.wfADPCM.deregisterUser a0.waveformNumber n := rfl

/-- Pass-through projection of stage 1 of the remADPCM removal. -/
theorem remADPCMm1_envADPCM (m : BT.InstrumentsManager) (a0 : BT.InstrumentADPCM) (n : Nat) :
    (BT.remADPCMm1 m a0 n).envADPCM = m.envADPCM := rfl

/-- Pass-through projection of stage 1 of the remADPCM removal. -/
theorem remADPCMm1_arpADPCM (m : BT.InstrumentsManager) (a0 : BT.InstrumentADPCM) (n : Nat) :
    (BT.remADPCMm1 m a0 n).arpADPCM = m.arpADPCM := rfl

/-- Pass-through projection of stage 1 of the remADPCM removal. -/
theorem remADPCMm1_ptADPCM (m : BT.InstrumentsManager) (a0 : BT.InstrumentADPCM) (n : Nat) :
    (BT.remADPCMm1 m a0 n).ptADPCM = m.ptADPCM := rfl

/-- Pass-through projection of stage 2 of the remADPCM removal. -/
theorem remADPCMm2_insts (m : BT.InstrumentsManager) (a0 : BT.InstrumentADPCM) (n : Nat) :
    (BT.remADPCMm2 m a0 n).insts = (BT.remADPCMm1 m a0 n).insts := by
  unfold BT.remADPCMm2
  split <;> rfl

/-- Pass-through projection of stage 2 of the remADPCM removal. -/
theorem remADPCMm2_envFM (m : BT.InstrumentsManager) (a0 : BT.InstrumentADPCM) (n : Nat) :
    (BT.remADPCMm2 m a0 n).envFM = (BT.remADPCMm1 m a0 n).envFM := by
  unfold BT.remADPCMm2
  split <;> rfl

/-- Pass-through projection of stage 2 of the remADPCM removal. -/
theorem remADPCMm2_lfoFM (m : BT.InstrumentsManager) (a0 : BT.InstrumentADPCM) (n : Nat) :
    (BT.remADPCMm2 m a0 n).lfoFM = (BT.remADPCMm1 m a0 n).lfoFM := by
  unfold BT.remADPCMm2
  split <;> rfl

/-- Pass-through projection of stage 2 of the remADPCM removal. -/
theorem remADPCMm2_opSeqFM (m : BT.InstrumentsManager) (a0 : BT.InstrumentADPCM) (n : Nat) :
    (BT.remADPCMm2 m a0 n).opSeqFM = (BT.remADPCMm1 m a0 n).opSeqFM := by
  unfold BT.remADPCMm2
  split <;> rfl

/-- Pass-through projection of stage 2 of the remADPCM removal. -/
theorem remADPCMm2_arpFM (m : BT.InstrumentsManager) (a0 : BT.InstrumentADPCM) (n : Nat) :
    (BT.remADPCMm2 m a0 n).arpFM = (BT.remADPCMm1 m a0 n).arpFM := by
  unfold BT.remADPCMm2
  split <;> rfl

/-- Pass-through projection of stage 2 of the remADPCM removal. -/
theorem remADPCMm2_ptFM (m : BT.InstrumentsManager) (a0 : BT.InstrumentADPCM) (n : Nat) :
    (BT.remADPCMm2 m a0 n).ptFM = (BT.remADPCMm1 m a0 n).ptFM := by
  unfold BT.remADPCMm2
  split <;> rfl

/-- Pass-through projection of stage 2 of the remADPCM removal. -/
theorem remADPCMm2_wfSSG (m : BT.InstrumentsManager) (a0 : BT.InstrumentADPCM) (n : Nat) :
    (BT.remADPCMm2 m a0 n).wfSSG = (BT.remADPCMm1 m a0 n).wfSSG := by
  unfold BT.remADPCMm2
  split <;> rfl

/-- Pass-through projection of stage 2 of the remADPCM removal. -/
theorem remADPCMm2_tnSSG (m : BT.InstrumentsManager) (a0 : BT.InstrumentADPCM) (n : Nat) :
    (BT.remADPCMm2 m a0 n).tnSSG = (BT.remADPCMm1 m a0 n).tnSSG := by
  unfold BT.remADPCMm2
  split <;> rfl

/-- Pass-through projection of stage 2 of the remADPCM removal. -/
theorem remADPCMm2_envSSG (m : BT.InstrumentsManager) (a0 : BT.InstrumentADPCM) (n : Nat) :
    (BT.remADPCMm2 m a0 n).envSSG = (BT.remADPCMm1 m a0 n).envSSG := by
  unfold BT.remADPCMm2
  split <;> rfl

/-- Pass-through projection of stage 2 of the remADPCM removal. -/
theorem remADPCMm2_arpSSG (m : BT.InstrumentsManager) (a0 : BT.InstrumentADPCM) (n : Nat) :
    (BT.remADPCMm2 m a0 n).arpSSG = (BT.remADPCMm1 m a0 n).arpSSG := by
  unfold BT.remADPCMm2
  split <;> rfl

/-- Pass-through projection of stage 2 of the remADPCM removal. -/
theorem remADPCMm2_ptSSG (m : BT.InstrumentsManager) (a0 : BT.InstrumentADPCM) (n : Nat) :
    (BT.remADPCMm2 m a0 n).ptSSG = (BT.remADPCMm1 m a0 n).ptSSG := by
  unfold BT.remADPCMm2
  split <;> rfl

/-- Pass-through projection of stage 2 of the remADPCM removal. -/
theorem remADPCMm2_wfADPCM (m : BT.InstrumentsManager) (a0 : BT.InstrumentADPCM) (n : Nat) :
    (BT.remADPCMm2 m a0 n).wfADPCM = (BT.remADPCMm1 m a0 n).wfADPCM := by
  unfold BT.remADPCMm2
  split <;> rfl

/-- Own-family projection of stage 2 of the remADPCM removal. -/
theorem remADPCMm2_envADPCM (m : BT.InstrumentsManager) (a0 : BT.InstrumentADPCM) (n : Nat) :
    (BT.remADPCMm2 m a0 n).envADPCM =
      (if a0.envelopeEnabled then (BT.remADPCMm1 m a0 n).envADPCM.deregisterUser a0.envelopeNumber n else (BT.remADPCMm1 m a0 n).envADPCM) := by
  unfold BT.remADPCMm2
  split <;> rfl

/-- Pass-through projection of stage 2 of the remADPCM removal. -/
theorem remADPCMm2_arpADPCM (m : BT.InstrumentsManager) (a0 : BT.InstrumentADPCM) (n : Nat) :
    (BT.remADPCMm2 m a0 n).arpADPCM = (BT.remADPCMm1 m a0 n).arpADPCM := by
  unfold BT.remADPCMm2
  split <;> rfl

/-- Pass-through projection of stage 2 of the remADPCM removal. -/
theorem remADPCMm2_ptADPCM (m : BT.InstrumentsManager) (a0 : BT.InstrumentADPCM) (n : Nat) :
    (BT.remADPCMm2 m a0 n).ptADPCM = (BT.remADPCMm1 m a0 n).ptADPCM := by
  unfold BT.remADPCMm2
  split <;> rfl

/-- Pass-through projection of stage 3 of the remADPCM removal. -/
theorem remADPCMm3_insts (m : BT.InstrumentsManager) (a0 : BT.InstrumentADPCM) (n : Nat) :
    (BT.remADPCMm3 m a0 n).insts = (BT.remADPCMm2 m a0 n).insts := by
  unfold BT.remADPCMm3
  split <;> rfl

/-- Pass-through projection of stage 3 of the remADPCM removal. -/
theorem remADPCMm3_envFM (m : BT.InstrumentsManager) (a0 : BT.InstrumentADPCM) (n : Nat) :
    (BT.remADPCMm3 m a0 n).envFM = (BT.remADPCMm2 m a0 n).envFM := by
  unfold BT.remADPCMm3
  split <;> rfl

/-- Pass-through projection of stage 3 of the remADPCM removal. -/
theorem remADPCMm3_lfoFM (m : BT.InstrumentsManager) (a0 : BT.InstrumentADPCM) (n : Nat) :
    (BT.remADPCMm3 m a0 n).lfoFM = (BT.remADPCMm2 m a0 n).lfoFM := by
  unfold BT.remADPCMm3
  split <;> rfl

/-- Pass-through projection of stage 3 of the remADPCM removal. -/
theorem remADPCMm3_opSeqFM (m : BT.InstrumentsManager) (a0 : BT.InstrumentADPCM) (n : Nat) :
    (BT.remADPCMm3 m a0 n).opSeqFM = (BT.remADPCMm2 m a0 n).opSeqFM := by
  unfold BT.remADPCMm3
  split <;> rfl

/-- Pass-through projection of stage 3 of the remADPCM removal. -/
theorem remADPCMm3_arpFM (m : BT.InstrumentsManager) (a0 : BT.InstrumentADPCM) (n : Nat) :
    (BT.remADPCMm3 m a0 n).arpFM = (BT.remADPCMm2 m a0 n).arpFM := by
  unfold BT.remADPCMm3
  split <;> rfl

/-- Pass-through projection of stage 3 of the remADPCM removal. -/
theorem remADPCMm3_ptFM (m : BT.InstrumentsManager) (a0 : BT.InstrumentADPCM) (n : Nat) :
    (BT.remADPCMm3 m a0 n).ptFM = (BT.remADPCMm2 m a0 n).ptFM := by
  unfold BT.remADPCMm3
  split <;> rfl

/-- Pass-through projection of stage 3 of the remADPCM removal. -/
theorem remADPCMm3_wfSSG (m : BT.InstrumentsManager) (a0 : BT.InstrumentADPCM) (n : Nat) :
    (BT.remADPCMm3 m a0 n).wfSSG = (BT.remADPCMm2 m a0 n).wfSSG := by
  unfold BT.remADPCMm3
  split <;> rfl

/-- Pass-through projection of stage 3 of the remADPCM removal. -/
theorem remADPCMm3_tnSSG (m : BT.InstrumentsManager) (a0 : BT.InstrumentADPCM) (n : Nat) :
    (BT.remADPCMm3 m a0 n).tnSSG = (BT.remADPCMm2 m a0 n).tnSSG := by
  unfold BT.remADPCMm3
  split <;> rfl

/-- Pass-through projection of stage 3 of the remADPCM removal. -/
theorem remADPCMm3_envSSG (m : BT.InstrumentsManager) (a0 : BT.InstrumentADPCM) (n : Nat) :
    (BT.remADPCMm3 m a0 n).envSSG = (BT.remADPCMm2 m a0 n).envSSG := by
  unfold BT.remADPCMm3
  split <;> rfl

/-- Pass-through projection of stage 3 of the remADPCM removal. -/
theorem remADPCMm3_arpSSG (m : BT.InstrumentsManager) (a0 : BT.InstrumentADPCM) (n : Nat) :
    (BT.remADPCMm3 m a0 n).arpSSG = (BT.remADPCMm2 m a0 n).arpSSG := by
  unfold BT.remADPCMm3
  split <;> rfl

/-- Pass-through projection of stage 3 of the remADPCM removal. -/
theorem remADPCMm3_ptSSG (m : BT.InstrumentsManager) (a0 : BT.InstrumentADPCM) (n : Nat) :
    (BT.remADPCMm3 m a0 n).ptSSG = (BT.remADPCMm2 m a0 n).ptSSG := by
  unfold BT.remADPCMm3
  split <;> rfl

/-- Pass-through projection of stage 3 of the remADPCM removal. -/
theorem remADPCMm3_wfADPCM (m : BT.InstrumentsManager) (a0 : BT.InstrumentADPCM) (n : Nat) :
    (BT.remADPCMm3 m a0 n).wfADPCM = (BT.remADPCMm2 m a0 n).wfADPCM := by
  unfold BT.remADPCMm3
  split <;> rfl

/-- Pass-through projection of stage 3 of the remADPCM removal. -/
theorem remADPCMm3_envADPCM (m : BT.InstrumentsManager) (a0 : BT.InstrumentADPCM) (n : Nat) :
    (BT.remADPCMm3 m a0 n).envADPCM = (BT.remADPCMm2 m a0 n).envADPCM := by
  unfold BT.remADPCMm3
  split <;> rfl

/-- Own-family projection of stage 3 of the remADPCM removal. -/
theorem remADPCMm3_arpADPCM (m : BT.InstrumentsManager) (a0 : BT.InstrumentADPCM) (n : Nat) :
    (BT.remADPCMm3 m a0 n).arpADPCM =
      (if a0.arpeggioEnabled then (BT.remADPCMm2 m a0 n).arpADPCM.deregisterUser a0.arpeggioNumber n else (BT.remADPCMm2 m a0 n).arpADPCM) := by
  unfold BT.remADPCMm3
  split <;> rfl

/-- Pass-through projection of stage 3 of the remADPCM removal. -/
theorem remADPCMm3_ptADPCM (m : BT.InstrumentsManager) (a0 : BT.InstrumentADPCM) (n : Nat) :
    (BT.remADPCMm3 m a0 n).ptADPCM = (BT.remADPCMm2 m a0 n).ptADPCM := by
  unfold BT.remADPCMm3
  split <;> rfl

/-- Pass-through projection of stage 4 of the remADPCM removal. -/
theorem remADPCMm4_insts (m : BT.InstrumentsManager) (a0 : BT.InstrumentADPCM) (n : Nat) :
    (BT.remADPCMm4 m a0 n).insts = (BT.remADPCMm3 m a0 n).insts := by
  unfold BT.remADPCMm4
  split <;> rfl

/-- Pass-through projection of stage 4 of the remADPCM removal. -/
theorem remADPCMm4_envFM (m : BT.InstrumentsManager) (a0 : BT.InstrumentADPCM) (n : Nat) :
    (BT.remADPCMm4 m a0 n).envFM = (BT.remADPCMm3 m a0 n).envFM := by
  unfold BT.remADPCMm4
  split <;> rfl

/-- Pass-through projection of stage 4 of the remADPCM removal. -/
theorem remADPCMm4_lfoFM (m : BT.InstrumentsManager) (a0 : BT.InstrumentADPCM) (n : Nat) :
    (BT.remADPCMm4 m a0 n).lfoFM = (BT.remADPCMm3 m a0 n).lfoFM := by
  unfold BT.remADPCMm4
  split <;> rfl

/-- Pass-through projection of stage 4 of the remADPCM removal. -/
theorem remADPCMm4_opSeqFM (m : BT.InstrumentsManager) (a0 : BT.InstrumentADPCM) (n : Nat) :
    (BT.remADPCMm4 m a0 n).opSeqFM = (BT.remADPCMm3 m a0 n).opSeqFM := by
  unfold BT.remADPCMm4
  split <;> rfl

/-- Pass-through projection of stage 4 of the remADPCM removal. -/
theorem remADPCMm4_arpFM (m : BT.InstrumentsManager) (a0 : BT.InstrumentADPCM) (n : Nat) :
    (BT.remADPCMm4 m a0 n).arpFM = (BT.remADPCMm3 m a0 n).arpFM := by
  unfold BT.remADPCMm4
  split <;> rfl

/-- Pass-through projection of stage 4 of the remADPCM removal. -/
theorem remADPCMm4_ptFM (m : BT.InstrumentsManager) (a0 : BT.InstrumentADPCM) (n : Nat) :
    (BT.remADPCMm4 m a0 n).ptFM = (BT.remADPCMm3 m a0 n).ptFM := by
  unfold BT.remADPCMm4
  split <;> rfl

/-- Pass-through projection of stage 4 of the remADPCM removal. -/
theorem remADPCMm4_wfSSG (m : BT.InstrumentsManager) (a0 : BT.InstrumentADPCM) (n : Nat) :
    (BT.remADPCMm4 m a0 n).wfSSG = (BT.remADPCMm3 m a0 n).wfSSG := by
  unfold BT.remADPCMm4
  split <;> rfl

/-- Pass-through projection of stage 4 of the remADPCM removal. -/
theorem remADPCMm4_tnSSG (m : BT.InstrumentsManager) (a0 : BT.InstrumentADPCM) (n : Nat) :
    (BT.remADPCMm4 m a0 n).tnSSG = (BT.remADPCMm3 m a0 n).tnSSG := by
  unfold BT.remADPCMm4
  split <;> rfl

/-- Pass-through projection of stage 4 of the remADPCM removal. -/
theorem remADPCMm4_envSSG (m : BT.InstrumentsManager) (a0 : BT.InstrumentADPCM) (n : Nat) :
    (BT.remADPCMm4 m a0 n).envSSG = (BT.remADPCMm3 m a0 n).envSSG := by
  unfold BT.remADPCMm4
  split <;> rfl

/-- Pass-through projection of stage 4 of the remADPCM removal. -/
theorem remADPCMm4_arpSSG (m : BT.InstrumentsManager) (a0 : BT.InstrumentADPCM) (n : Nat) :
    (BT.remADPCMm4 m a0 n).arpSSG = (BT.remADPCMm3 m a0 n).arpSSG := by
  unfold BT.remADPCMm4
  split <;> rfl

/-- Pass-through projection of stage 4 of the remADPCM removal. -/
theorem remADPCMm4_ptSSG (m : BT.InstrumentsManager) (a0 : BT.InstrumentADPCM) (n : Nat) :
    (BT.remADPCMm4 m a0 n).ptSSG = (BT.remADPCMm3 m a0 n).ptSSG := by
  unfold BT.remADPCMm4
  split <;> rfl

/-- Pass-through projection of stage 4 of the remADPCM removal. -/
theorem remADPCMm4_wfADPCM (m : BT.InstrumentsManager) (a0 : BT.InstrumentADPCM) (n : Nat) :
    (BT.remADPCMm4 m a0 n).wfADPCM = (BT.remADPCMm3 m a0 n).wfADPCM := by
  unfold BT.remADPCMm4
  split <;> rfl

/-- Pass-through projection of stage 4 of the remADPCM removal. -/
theorem remADPCMm4_envADPCM (m : BT.InstrumentsManager) (a0 : BT.InstrumentADPCM) (n : Nat) :
    (BT.remADPCMm4 m a0 n).envADPCM = (BT.remADPCMm3 m a0 n).envADPCM := by
  unfold BT.remADPCMm4
  split <;> rfl

/-- Pass-through projection of stage 4 of the remADPCM removal. -/
theorem remADPCMm4_arpADPCM (m : BT.InstrumentsManager) (a0 : BT.InstrumentADPCM) (n : Nat) :
    (BT.remADPCMm4 m a0 n).arpADPCM = (BT.remADPCMm3 m a0 n).arpADPCM := by
  unfold BT.remADPCMm4
  split <;> rfl

/-- Own-family projection of stage 4 of the remADPCM removal. -/
theorem remADPCMm4_ptADPCM (m : BT.InstrumentsManager) (a0 : BT.InstrumentADPCM) (n : Nat) :
    (BT.remADPCMm4 m a0 n).ptADPCM =
      (if a0.pitchEnabled then (BT.remADPCMm3 m a0 n).ptADPCM.deregisterUser a0.pitchNumber n else (BT.remADPCMm3 m a0 n).ptADPCM) := by
  unfold BT.remADPCMm4
  split <;> rfl


/-- The operator-sequence deregistration fold of `removeInstrument` does what
`RemOpSeqRel` says. -/
theorem remove_fold_opseq (fm : BT.InstrumentFM) (n : Nat)
    (l : List BT.FMEnvelopeParameter) (hl : l.Nodup) (m0 : BT.InstrumentsManager) :
    BT.RemOpSeqRel fm n l m0 (l.foldl (BT.remFMstep fm n) m0) := by
  induction l generalizing m0 with
  | nil =>
    exact ⟨rfl, rfl, rfl, rfl, rfl, rfl, rfl, rfl, rfl, rfl, rfl, rfl, rfl, rfl,
      fun q _ => rfl, fun q hq => absurd hq (List.not_mem_nil q)⟩
  | cons p l ih =>
    rw [List.nodup_cons] at hl
    obtain ⟨hpl, hl⟩ := hl
    rw [List.foldl_cons]
    obtain ⟨c1, c2, c3, c4, c5, c6, c7, c8, c9, c10, c11, c12, c13, c14, c15, c16⟩ :=
      ih hl (BT.remFMstep fm n m0 p)
    have s1 : (BT.remFMstep fm n m0 p).insts = m0.insts := by
      simp only [BT.remFMstep]
      split <;> rfl
    have s2 : (BT.remFMstep fm n m0 p).envFM = m0.envFM := by
      simp only [BT.remFMstep]
      split <;> rfl
    have s3 : (BT.remFMstep fm n m0 p).lfoFM = m0.lfoFM := by
      simp only [BT.remFMstep]
      split <;> rfl
    have s4 : (BT.remFMstep fm n m0 p).arpFM = m0.arpFM := by
      simp only [BT.remFMstep]
      split <;> rfl
    have s5 : (BT.remFMstep fm n m0 p).ptFM = m0.ptFM := by
      simp only [BT.remFMstep]
      split <;> rfl
    have s6 : (BT.remFMstep fm n m0 p).wfSSG = m0.wfSSG := by
      simp only [BT.remFMstep]
      split <;> rfl
    have s7 : (BT.remFMstep fm n m0 p).tnSSG = m0.tnSSG := by
      simp only [BT.remFMstep]
      split <;> rfl
    have s8 : (BT.remFMstep fm n m0 p).envSSG = m0.envSSG := by
      simp only [BT.remFMstep]
      split <;> rfl
    have s9 : (BT.remFMstep fm n m0 p).arpSSG = m0.arpSSG := by
      simp only [BT.remFMstep]
      split <;> rfl
    have s10 : (BT.remFMstep fm n m0 p).ptSSG = m0.ptSSG := by
      simp only [BT.remFMstep]
      split <;> rfl
    have s11 : (BT.remFMstep fm n m0 p).wfADPCM = m0.wfADPCM := by
      simp only [BT.remFMstep]
      split <;> rfl
    have s12 : (BT.remFMstep fm n m0 p).envADPCM = m0.envADPCM := by
      simp only [BT.remFMstep]
      split <;> rfl
    have s13 : (BT.remFMstep fm n m0 p).arpADPCM = m0.arpADPCM := by
      simp only [BT.remFMstep]
      split <;> rfl
    have s14 : (BT.remFMstep fm n m0 p).ptADPCM = m0.ptADPCM := by
      simp only [BT.remFMstep]
      split <;> rfl
    have sne : ∀ q, q ≠ p → (BT.remFMstep fm n m0 p).opSeqFM q = m0.opSeqFM q := by
      intro q hq
      by_cases h : fm.opSeqEnabled p = true
      · simp only [BT.remFMstep]
        rw [if_pos h]
        exact Function.update_noteq hq _ _
      · simp only [BT.remFMstep]
        rw [if_neg h]
    have sp : (BT.remFMstep fm n m0 p).opSeqFM p =
        (if fm.opSeqEnabled p then (m0.opSeqFM p).deregisterUser (fm.opSeqNumber p) n
         else m0.opSeqFM p) := by
      by_cases h : fm.opSeqEnabled p = true
      · simp only [BT.remFMstep]
        rw [if_pos h, if_pos h]
        exact Function.update_same _ _ _
      · simp only [BT.remFMstep]
        rw [if_neg h, if_neg h]
    refine ⟨c1.trans s1, c2.trans s2, c3.trans s3, c4.trans s4, c5.trans s5,
      c6.trans s6, c7.trans s7, c8.trans s8, c9.trans s9, c10.trans s10,
      c11.trans s11, c12.trans s12, c13.trans s13, c14.trans s14, ?_, ?_⟩
    · intro q hq
      rw [List.mem_cons] at hq
      push_neg at hq
      exact (c15 q hq.2).trans (sne q hq.1)
    · intro q hq
      rw [List.mem_cons] at hq
      rcases hq with hq | hq
      · subst hq
        exact (c15 q hpl).trans sp
      · have hqp : q ≠ p := fun hh => hpl (hh ▸ hq)
        rw [c16 q hq, sne q hqp]


/-- The arpeggio/pitch deregistration fold of `removeInstrument` does what
`RemArpPtRel` says. -/
theorem remove_fold_arppt (fm : BT.InstrumentFM) (n : Nat)
    (l : List BT.FMOperatorType) (m0 : BT.InstrumentsManager) :
    BT.RemArpPtRel fm n l m0 (l.foldl (BT.remFMstep2 fm n) m0) := by
  induction l generalizing m0 with
  | nil =>
    refine ⟨rfl, rfl, rfl, rfl, rfl, rfl, rfl, rfl, rfl, rfl, rfl, rfl, rfl, ?_, ?_⟩
    · intro s
      simp
    · intro s
      simp
  | cons t l ih =>
    rw [List.foldl_cons]
    obtain ⟨c1, c2, c3, c4, c5, c6, c7, c8, c9, c10, c11, c12, c13, c14, c15⟩ :=
      ih (BT.remFMstep2 fm n m0 t)
    have s1 : (BT.remFMstep2 fm n m0 t).insts = m0.insts := by
      simp only [BT.remFMstep2]
      split <;> split <;> rfl
    have s2 : (BT.remFMstep2 fm n m0 t).envFM = m0.envFM := by
      simp only [BT.remFMstep2]
      split <;> split <;> rfl
    have s3 : (BT.remFMstep2 fm n m0 t).lfoFM = m0.lfoFM := by
      simp only [BT.remFMstep2]
      split <;> split <;> rfl
    have s4 : (BT.remFMstep2 fm n m0 t).opSeqFM = m0.opSeqFM := by
      simp only [BT.remFMstep2]
      split <;> split <;> rfl
    have s5 : (BT.remFMstep2 fm n m0 t).wfSSG = m0.wfSSG := by
      simp only [BT.remFMstep2]
      split <;> split <;> rfl
    have s6 : (BT.remFMstep2 fm n m0 t).tnSSG = m0.tnSSG := by
      simp only [BT.remFMstep2]
      split <;> split <;> rfl
    have s7 : (BT.remFMstep2 fm n m0 t).envSSG = m0.envSSG := by
      simp only [BT.remFMstep2]
      split <;> split <;> rfl
    have s8 : (BT.remFMstep2 fm n m0 t).arpSSG = m0.arpSSG := by
      simp only [BT.remFMstep2]
      split <;> split <;> rfl
    have s9 : (BT.remFMstep2 fm n m0 t).ptSSG = m0.ptSSG := by
      simp only [BT.remFMstep2]
      split <;> split <;> rfl
    have s10 : (BT.remFMstep2 fm n m0 t).wfADPCM = m0.wfADPCM := by
      simp only [BT.remFMstep2]
      split <;> split <;> rfl
    have s11 : (BT.remFMstep2 fm n m0 t).envADPCM = m0.envADPCM := by
      simp only [BT.remFMstep2]
      split <;> split <;> rfl
    have s12 : (BT.remFMstep2 fm n m0 t).arpADPCM = m0.arpADPCM := by
      simp only [BT.remFMstep2]
      split <;> split <;> rfl
    have s13 : (BT.remFMstep2 fm n m0 t).ptADPCM = m0.ptADPCM := by
      simp only [BT.remFMstep2]
      split <;> split <;> rfl
    have sarp : ∀ s, ((BT.remFMstep2 fm n m0 t).arpFM s).users =
        (if (fm.arpEnabled t && (fm.arpNumber t == s)) = true
         then ((m0.arpFM s).users).erase n else (m0.arpFM s).users) := by
      intro s
      simp only [BT.remFMstep2]
      by_cases ha : fm.arpEnabled t = true
      · by_cases hp : fm.ptEnabled t = true
        · rw [if_pos ha, if_pos hp]
          show (((m0.arpFM.deregisterUser (fm.arpNumber t) n)) s).users = _
          rw [users_deregisterUser]
          by_cases hs : s = fm.arpNumber t
          · rw [if_pos hs, if_pos (by simp [ha, hs]), hs]
          · rw [if_neg hs, if_neg (by
              rw [Bool.and_eq_true]
              rintro ⟨-, hb⟩
              rw [beq_iff_eq] at hb
              exact hs hb.symm)]
        · rw [if_pos ha, if_neg hp]
          show (((m0.arpFM.deregisterUser (fm.arpNumber t) n)) s).users = _
          rw [users_deregisterUser]
          by_cases hs : s = fm.arpNumber t
          · rw [if_pos hs, if_pos (by simp [ha, hs]), hs]
          · rw [if_neg hs, if_neg (by
              rw [Bool.and_eq_true]
              rintro ⟨-, hb⟩
              rw [beq_iff_eq] at hb
              exact hs hb.symm)]
      · have hcond : ¬ ((fm.arpEnabled t && (fm.arpNumber t == s)) = true) := by
          rw [Bool.and_eq_true]
          rintro ⟨h1, -⟩
          exact ha h1
        by_cases hp : fm.ptEnabled t = true
        · rw [if_neg ha, if_pos hp, if_neg hcond]
        · rw [if_neg ha, if_neg hp, if_neg hcond]
    have spt : ∀ s, ((BT.remFMstep2 fm n m0 t).ptFM s).users =
        (if (fm.ptEnabled t && (fm.ptNumber t == s)) = true
         then ((m0.ptFM s).users).erase n else (m0.ptFM s).users) := by
      intro s
      simp only [BT.remFMstep2]
      by_cases hp : fm.ptEnabled t = true
      · by_cases ha : fm.arpEnabled t = true
        · rw [if_pos ha, if_pos hp]
          show ((((({ m0 with
            arpFM := m0.arpFM.deregisterUser (fm.arpNumber t) n }).ptFM).deregisterUser
            (fm.ptNumber t) n)) s).users = _
          rw [users_deregisterUser]
          by_cases hs : s = fm.ptNumber t
          · rw [if_pos hs, if_pos (by simp [hp, hs]), hs]
          · rw [if_neg hs, if_neg (by
              rw [Bool.and_eq_true]
              rintro ⟨-, hb⟩
              rw [beq_iff_eq] at hb
              exact hs hb.symm)]
        · rw [if_neg ha, if_pos hp]
          show (((m0.ptFM.deregisterUser (fm.ptNumber t) n)) s).users = _
          rw [users_deregisterUser]
          by_cases hs : s = fm.ptNumber t
          · rw [if_pos hs, if_pos (by simp [hp, hs]), hs]
          · rw [if_neg hs, if_neg (by
              rw [Bool.and_eq_true]
              rintro ⟨-, hb⟩
              rw [beq_iff_eq] at hb
              exact hs hb.symm)]
      · have hcond : ¬ ((fm.ptEnabled t && (fm.ptNumber t == s)) = true) := by
          rw [Bool.and_eq_true]
          rintro ⟨h1, -⟩
          exact hp h1
        by_cases ha : fm.arpEnabled t = true
        · rw [if_pos ha, if_neg hp, if_neg hcond]
        · rw [if_neg ha, if_neg hp, if_neg hcond]
    refine ⟨c1.trans s1, c2.trans s2, c3.trans s3, c4.trans s4, c5.trans s5,
      c6.trans s6, c7.trans s7, c8.trans s8, c9.trans s9, c10.trans s10,
      c11.trans s11, c12.trans s12, c13.trans s13, ?_, ?_⟩
    · intro s
      rw [c14 s, sarp s, List.any_cons]
      by_cases hc1 : (fm.arpEnabled t && (fm.arpNumber t == s)) = true <;>
        by_cases hc2 :
          (l.any (fun u => fm.arpEnabled u && (fm.arpNumber u == s))) = true <;>
        simp [hc1, hc2, Finset.erase_idem]
    · intro s
      rw [c15 s, spt s, List.any_cons]
      by_cases hc1 : (fm.ptEnabled t && (fm.ptNumber t == s)) = true <;>
        by_cases hc2 :
          (l.any (fun u => fm.ptEnabled u && (fm.ptNumber u == s))) = true <;>
        simp [hc1, hc2, Finset.erase_idem]

set_option maxHeartbeats 1000000 in
/-- An occupied-entry `fm` removal is the staged construction. -/
theorem removeFM_proj (m : BT.InstrumentsManager) (n : Nat) (fm : BT.InstrumentFM)
    (hins : m.insts n = some (.fm fm)) :
    (m.removeInstrument n).insts = Function.update (BT.remFMm4 m fm n).insts n none ∧
    (m.removeInstrument n).envFM = (BT.remFMm4 m fm n).envFM ∧
    (m.removeInstrument n).lfoFM = (BT.remFMm4 m fm n).lfoFM ∧
    (m.removeInstrument n).opSeqFM = (BT.remFMm4 m fm n).opSeqFM ∧
    (m.removeInstrument n).arpFM = (BT.remFMm4 m fm n).arpFM ∧
    (m.removeInstrument n).ptFM = (BT.remFMm4 m fm n).ptFM ∧
    (m.removeInstrument n).wfSSG = (BT.remFMm4 m fm n).wfSSG ∧
    (m.removeInstrument n).tnSSG = (BT.remFMm4 m fm n).tnSSG ∧
    (m.removeInstrument n).envSSG = (BT.remFMm4 m fm n).envSSG ∧
    (m.removeInstrument n).arpSSG = (BT.remFMm4 m fm n).arpSSG ∧
    (m.removeInstrument n).ptSSG = (BT.remFMm4 m fm n).ptSSG ∧
    (m.removeInstrument n).wfADPCM = (BT.remFMm4 m fm n).wfADPCM ∧
    (m.removeInstrument n).envADPCM = (BT.remFMm4 m fm n).envADPCM ∧
    (m.removeInstrument n).arpADPCM = (BT.remFMm4 m fm n).arpADPCM ∧
    (m.removeInstrument n).ptADPCM = (BT.remFMm4 m fm n).ptADPCM := by
  unfold BT.InstrumentsManager.removeInstrument
  simp only [hins]
  exact ⟨rfl, rfl, rfl, rfl, rfl, rfl, rfl, rfl, rfl, rfl, rfl, rfl, rfl, rfl, rfl⟩

set_option maxHeartbeats 1000000 in
/-- An occupied-entry `ssg` removal is the staged construction. -/
theorem removeSSG_proj (m : BT.InstrumentsManager) (n : Nat) (s0 : BT.InstrumentSSG)
    (hins : m.insts n = some (.ssg s0)) :
    (m.removeInstrument n).insts = Function.update (BT.remSSGm5 m s0 n).insts n none ∧
    (m.removeInstrument n).envFM = (BT.remSSGm5 m s0 n).envFM ∧
    (m.removeInstrument n).lfoFM = (BT.remSSGm5 m s0 n).lfoFM ∧
    (m.removeInstrument n).opSeqFM = (BT.remSSGm5 m s0 n).opSeqFM ∧
    (m.removeInstrument n).arpFM = (BT.remSSGm5 m s0 n).arpFM ∧
    (m.removeInstrument n).ptFM = (BT.remSSGm5 m s0 n).ptFM ∧
    (m.removeInstrument n).wfSSG = (BT.remSSGm5 m s0 n).wfSSG ∧
    (m.removeInstrument n).tnSSG = (BT.remSSGm5 m s0 n).tnSSG ∧
    (m.removeInstrument n).envSSG = (BT.remSSGm5 m s0 n).envSSG ∧
    (m.removeInstrument n).arpSSG = (BT.remSSGm5 m s0 n).arpSSG ∧
    (m.removeInstrument n).ptSSG = (BT.remSSGm5 m s0 n).ptSSG ∧
    (m.removeInstrument n).wfADPCM = (BT.remSSGm5 m s0 n).wfADPCM ∧
    (m.removeInstrument n).envADPCM = (BT.remSSGm5 m s0 n).envADPCM ∧
    (m.removeInstrument n).arpADPCM = (BT.remSSGm5 m s0 n).arpADPCM ∧
    (m.removeInstrument n).ptADPCM = (BT.remSSGm5 m s0 n).ptADPCM := by
  unfold BT.InstrumentsManager.removeInstrument
  simp only [hins]
  exact ⟨rfl, rfl, rfl, rfl, rfl, rfl, rfl, rfl, rfl, rfl, rfl, rfl, rfl, rfl, rfl⟩

set_option maxHeartbeats 1000000 in
/-- An occupied-entry `adpcm` removal is the staged construction. -/
theorem removeADPCM_proj (m : BT.InstrumentsManager) (n : Nat) (a0 : BT.InstrumentADPCM)
    (hins : m.insts n = some (.adpcm a0)) :
    (m.removeInstrument n).insts = Function.update (BT.remADPCMm4 m a0 n).insts n none ∧
    (m.removeInstrument n).envFM = (BT.remADPCMm4 m a0 n).envFM ∧
    (m.removeInstrument n).lfoFM = (BT.remADPCMm4 m a0 n).lfoFM ∧
    (m.removeInstrument n).opSeqFM = (BT.remADPCMm4 m a0 n).opSeqFM ∧
    (m.removeInstrument n).arpFM = (BT.remADPCMm4 m a0 n).arpFM ∧
    (m.removeInstrument n).ptFM = (BT.remADPCMm4 m a0 n).ptFM ∧
    (m.removeInstrument n).wfSSG = (BT.remADPCMm4 m a0 n).wfSSG ∧
    (m.removeInstrument n).tnSSG = (BT.remADPCMm4 m a0 n).tnSSG ∧
    (m.removeInstrument n).envSSG = (BT.remADPCMm4 m a0 n).envSSG ∧
    (m.removeInstrument n).arpSSG = (BT.remADPCMm4 m a0 n).arpSSG ∧
    (m.removeInstrument n).ptSSG = (BT.remADPCMm4 m a0 n).ptSSG ∧
    (m.removeInstrument n).wfADPCM = (BT.remADPCMm4 m a0 n).wfADPCM ∧
    (m.removeInstrument n).envADPCM = (BT.remADPCMm4 m a0 n).envADPCM ∧
    (m.removeInstrument n).arpADPCM = (BT.remADPCMm4 m a0 n).arpADPCM ∧
    (m.removeInstrument n).ptADPCM = (BT.remADPCMm4 m a0 n).ptADPCM := by
  unfold BT.InstrumentsManager.removeInstrument
  simp only [hins]
  exact ⟨rfl, rfl, rfl, rfl, rfl, rfl, rfl, rfl, rfl, rfl, rfl, rfl, rfl, rfl, rfl⟩

/-- Reference-set characterisation of an SSG instrument removal. -/
theorem removeSSG_char (m : BT.InstrumentsManager) (n : Nat) (s0 : BT.InstrumentSSG)
    (hins : m.insts n = some (.ssg s0)) :
    (m.removeInstrument n).insts = Function.update m.insts n none ∧
    (∀ s, ((m.removeInstrument n).wfSSG s).users =
      if (s0.waveformEnabled && (s0.waveformNumber == s)) = true
      then (((m.wfSSG) s).users).erase n else ((m.wfSSG) s).users) ∧
    (∀ s, ((m.removeInstrument n).tnSSG s).users =
      if (s0.toneNoiseEnabled && (s0.toneNoiseNumber == s)) = true
      then (((m.tnSSG) s).users).erase n else ((m.tnSSG) s).users) ∧
    (∀ s, ((m.removeInstrument n).envSSG s).users =
      if (s0.envelopeEnabled && (s0.envelopeNumber == s)) = true
      then (((m.envSSG) s).users).erase n else ((m.envSSG) s).users) ∧
    (∀ s, ((m.removeInstrument n).arpSSG s).users =
      if (s0.arpeggioEnabled && (s0.arpeggioNumber == s)) = true
      then (((m.arpSSG) s).users).erase n else ((m.arpSSG) s).users) ∧
    (∀ s, ((m.removeInstrument n).ptSSG s).users =
      if (s0.pitchEnabled && (s0.pitchNumber == s)) = true
      then (((m.ptSSG) s).users).erase n else ((m.ptSSG) s).users) ∧
    (m.removeInstrument n).envFM = m.envFM ∧
    (m.removeInstrument n).lfoFM = m.lfoFM ∧
    (m.removeInstrument n).opSeqFM = m.opSeqFM ∧
    (m.removeInstrument n).arpFM = m.arpFM ∧
    (m.removeInstrument n).ptFM = m.ptFM ∧
    (m.removeInstrument n).wfADPCM = m.wfADPCM ∧
    (m.removeInstrument n).envADPCM = m.envADPCM ∧
    (m.removeInstrument n).arpADPCM = m.arpADPCM ∧
    (m.removeInstrument n).ptADPCM = m.ptADPCM := by
  obtain ⟨p0, p1, p2, p3, p4, p5, p6, p7, p8, p9, p10, p11, p12, p13, p14⟩ :=
    removeSSG_proj m n s0 hins
  refine ⟨?_, ?_, ?_, ?_, ?_, ?_, ?_, ?_, ?_, ?_, ?_, ?_, ?_, ?_, ?_⟩
  · rw [p0, remSSGm5_insts, remSSGm4_insts, remSSGm3_insts, remSSGm2_insts, remSSGm1_insts]
  · intro s
    rw [p6, remSSGm5_wfSSG, remSSGm4_wfSSG, remSSGm3_wfSSG, remSSGm2_wfSSG, remSSGm1_wfSSG]
    by_cases hf : s0.waveformEnabled = true
    · rw [if_pos hf, users_deregisterUser]
      by_cases hs : s = s0.waveformNumber
      · rw [if_pos hs, if_pos (by simp [hf, hs]), hs]
      · rw [if_neg hs, if_neg (by
          rw [Bool.and_eq_true]
          rintro ⟨-, hb⟩
          rw [beq_iff_eq] at hb
          exact hs hb.symm)]
    · rw [if_neg hf, if_neg (by
        rw [Bool.and_eq_true]
        rintro ⟨h1, -⟩
        exact hf h1)]
  · intro s
    rw [p7, remSSGm5_tnSSG, remSSGm4_tnSSG, remSSGm3_tnSSG, remSSGm2_tnSSG, remSSGm1_tnSSG]
    by_cases hf : s0.toneNoiseEnabled = true
    · rw [if_pos hf, users_deregisterUser]
      by_cases hs : s = s0.toneNoiseNumber
      · rw [if_pos hs, if_pos (by simp [hf, hs]), hs]
      · rw [if_neg hs, if_neg (by
          rw [Bool.and_eq_true]
          rintro ⟨-, hb⟩
          rw [beq_iff_eq] at hb
          exact hs hb.symm)]
    · rw [if_neg hf, if_neg (by
        rw [Bool.and_eq_true]
        rintro ⟨h1, -⟩
        exact hf h1)]
  · intro s
    rw [p8, remSSGm5_envSSG, remSSGm4_envSSG, remSSGm3_envSSG, remSSGm2_envSSG, remSSGm1_envSSG]
    by_cases hf : s0.envelopeEnabled = true
    · rw [if_pos hf, users_deregisterUser]
      by_cases hs : s = s0.envelopeNumber
      · rw [if_pos hs, if_pos (by simp [hf, hs]), hs]
      · rw [if_neg hs, if_neg (by
          rw [Bool.and_eq_true]
          rintro ⟨-, hb⟩
          rw [beq_iff_eq] at hb
          exact hs hb.symm)]
    · rw [if_neg hf, if_neg (by
        rw [Bool.and_eq_true]
        rintro ⟨h1, -⟩
        exact hf h1)]
  · intro s
    rw [p9, remSSGm5_arpSSG, remSSGm4_arpSSG, remSSGm3_arpSSG, remSSGm2_arpSSG, remSSGm1_arpSSG]
    by_cases hf : s0.arpeggioEnabled = true
    · rw [if_pos hf, users_deregisterUser]
      by_cases hs : s = s0.arpeggioNumber
      · rw [if_pos hs, if_pos (by simp [hf, hs]), hs]
      · rw [if_neg hs, if_neg (by
          rw [Bool.and_eq_true]
          rintro ⟨-, hb⟩
          rw [beq_iff_eq] at hb
          exact hs hb.symm)]
    · rw [if_neg hf, if_neg (by
        rw [Bool.and_eq_true]
        rintro ⟨h1, -⟩
        exact hf h1)]
  · intro s
    rw [p10, remSSGm5_ptSSG, remSSGm4_ptSSG, remSSGm3_ptSSG, remSSGm2_ptSSG, remSSGm1_ptSSG]
    by_cases hf : s0.pitchEnabled = true
    · rw [if_pos hf, users_deregisterUser]
      by_cases hs : s = s0.pitchNumber
      · rw [if_pos hs, if_pos (by simp [hf, hs]), hs]
      · rw [if_neg hs, if_neg (by
          rw [Bool.and_eq_true]
          rintro ⟨-, hb⟩
          rw [beq_iff_eq] at hb
          exact hs hb.symm)]
    · rw [if_neg hf, if_neg (by
        rw [Bool.and_eq_true]
        rintro ⟨h1, -⟩
        exact hf h1)]
  · rw [p1, remSSGm5_envFM, remSSGm4_envFM, remSSGm3_envFM, remSSGm2_envFM, remSSGm1_envFM]
  · rw [p2, remSSGm5_lfoFM, remSSGm4_lfoFM, remSSGm3_lfoFM, remSSGm2_lfoFM, remSSGm1_lfoFM]
  · rw [p3, remSSGm5_opSeqFM, remSSGm4_opSeqFM, remSSGm3_opSeqFM, remSSGm2_opSeqFM, remSSGm1_opSeqFM]
  · rw [p4, remSSGm5_arpFM, remSSGm4_arpFM, remSSGm3_arpFM, remSSGm2_arpFM, remSSGm1_arpFM]
  · rw [p5, remSSGm5_ptFM, remSSGm4_ptFM, remSSGm3_ptFM, remSSGm2_ptFM, remSSGm1_ptFM]
  · rw [p11, remSSGm5_wfADPCM, remSSGm4_wfADPCM, remSSGm3_wfADPCM, remSSGm2_wfADPCM, remSSGm1_wfADPCM]
  · rw [p12, remSSGm5_envADPCM, remSSGm4_envADPCM, remSSGm3_envADPCM, remSSGm2_envADPCM, remSSGm1_envADPCM]
  · rw [p13, remSSGm5_arpADPCM, remSSGm4_arpADPCM, remSSGm3_arpADPCM, remSSGm2_arpADPCM, remSSGm1_arpADPCM]
  · rw [p14, remSSGm5_ptADPCM, remSSGm4_ptADPCM, remSSGm3_ptADPCM, remSSGm2_ptADPCM, remSSGm1_ptADPCM]

/-- Reference-set characterisation of an ADPCM instrument removal. -/
theorem removeADPCM_char (m : BT.InstrumentsManager) (n : Nat) (a0 : BT.InstrumentADPCM)
    (hins : m.insts n = some (.adpcm a0)) :
    (m.removeInstrument n).insts = Function.update m.insts n none ∧
    (∀ s, ((m.removeInstrument n).wfADPCM s).users =
      if s = a0.waveformNumber
      then (((m.wfADPCM) s).users).erase n else ((m.wfADPCM) s).users) ∧
    (∀ s, ((m.removeInstrument n).envADPCM s).users =
      if (a0.envelopeEnabled && (a0.envelopeNumber == s)) = true
      then (((m.envADPCM) s).users).erase n else ((m.envADPCM) s).users) ∧
    (∀ s, ((m.removeInstrument n).arpADPCM s).users =
      if (a0.arpeggioEnabled && (a0.arpeggioNumber == s)) = true
      then (((m.arpADPCM) s).users).erase n else ((m.arpADPCM) s).users) ∧
    (∀ s, ((m.removeInstrument n).ptADPCM s).users =
      if (a0.pitchEnabled && (a0.pitchNumber == s)) = true
      then (((m.ptADPCM) s).users).erase n else ((m.ptADPCM) s).users) ∧
    (m.removeInstrument n).envFM = m.envFM ∧
    (m.removeInstrument n).lfoFM = m.lfoFM ∧
    (m.removeInstrument n).opSeqFM = m.opSeqFM ∧
    (m.removeInstrument n).arpFM = m.arpFM ∧
    (m.removeInstrument n).ptFM = m.ptFM ∧
    (m.removeInstrument n).wfSSG = m.wfSSG ∧
    (m.removeInstrument n).tnSSG = m.tnSSG ∧
    (m.removeInstrument n).envSSG = m.envSSG ∧
    (m.removeInstrument n).arpSSG = m.arpSSG ∧
    (m.removeInstrument n).ptSSG = m.ptSSG := by
  obtain ⟨p0, p1, p2, p3, p4, p5, p6, p7, p8, p9, p10, p11, p12, p13, p14⟩ :=
    removeADPCM_proj m n a0 hins
  refine ⟨?_, ?_, ?_, ?_, ?_, ?_, ?_, ?_, ?_, ?_, ?_, ?_, ?_, ?_, ?_⟩
  · rw [p0, remADPCMm4_insts, remADPCMm3_insts, remADPCMm2_insts, remADPCMm1_insts]
  · intro s
    rw [p11, remADPCMm4_wfADPCM, remADPCMm3_wfADPCM, remADPCMm2_wfADPCM, remADPCMm1_wfADPCM, users_deregisterUser]
    by_cases hs : s = a0.waveformNumber
    · rw [if_pos hs, if_pos hs, hs]
    · rw [if_neg hs, if_neg hs]
  · intro s
    rw [p12, remADPCMm4_envADPCM, remADPCMm3_envADPCM, remADPCMm2_envADPCM, remADPCMm1_envADPCM]
    by_cases hf : a0.envelopeEnabled = true
    · rw [if_pos hf, users_deregisterUser]
      by_cases hs : s = a0.envelopeNumber
      · rw [if_pos hs, if_pos (by simp [hf, hs]), hs]
      · rw [if_neg hs, if_neg (by
          rw [Bool.and_eq_true]
          rintro ⟨-, hb⟩
          rw [beq_iff_eq] at hb
          exact hs hb.symm)]
    · rw [if_neg hf, if_neg (by
        rw [Bool.and_eq_true]
        rintro ⟨h1, -⟩
        exact hf h1)]
  · intro s
    rw [p13, remADPCMm4_arpADPCM, remADPCMm3_arpADPCM, remADPCMm2_arpADPCM, remADPCMm1_arpADPCM]
    by_cases hf : a0.arpeggioEnabled = true
    · rw [if_pos hf, users_deregisterUser]
      by_cases hs : s = a0.arpeggioNumber
      · rw [if_pos hs, if_pos (by simp [hf, hs]), hs]
      · rw [if_neg hs, if_neg (by
          rw [Bool.and_eq_true]
          rintro ⟨-, hb⟩
          rw [beq_iff_eq] at hb
          exact hs hb.symm)]
    · rw [if_neg hf, if_neg (by
        rw [Bool.and_eq_true]
        rintro ⟨h1, -⟩
        exact hf h1)]
  · intro s
    rw [p14, remADPCMm4_ptADPCM, remADPCMm3_ptADPCM, remADPCMm2_ptADPCM, remADPCMm1_ptADPCM]
    by_cases hf : a0.pitchEnabled = true
    · rw [if_pos hf, users_deregisterUser]
      by_cases hs : s = a0.pitchNumber
      · rw [if_pos hs, if_pos (by simp [hf, hs]), hs]
      · rw [if_neg hs, if_neg (by
          rw [Bool.and_eq_true]
          rintro ⟨-, hb⟩
          rw [beq_iff_eq] at hb
          exact hs hb.symm)]
    · rw [if_neg hf, if_neg (by
        rw [Bool.and_eq_true]
        rintro ⟨h1, -⟩
        exact hf h1)]
  · rw [p1, remADPCMm4_envFM, remADPCMm3_envFM, remADPCMm2_envFM, remADPCMm1_envFM]
  · rw [p2, remADPCMm4_lfoFM, remADPCMm3_lfoFM, remADPCMm2_lfoFM, remADPCMm1_lfoFM]
  · rw [p3, remADPCMm4_opSeqFM, remADPCMm3_opSeqFM, remADPCMm2_opSeqFM, remADPCMm1_opSeqFM]
  · rw [p4, remADPCMm4_arpFM, remADPCMm3_arpFM, remADPCMm2_arpFM, remADPCMm1_arpFM]
  · rw [p5, remADPCMm4_ptFM, remADPCMm3_ptFM, remADPCMm2_ptFM, remADPCMm1_ptFM]
  · rw [p6, remADPCMm4_wfSSG, remADPCMm3_wfSSG, remADPCMm2_wfSSG, remADPCMm1_wfSSG]
  · rw [p7, remADPCMm4_tnSSG, remADPCMm3_tnSSG, remADPCMm2_tnSSG, remADPCMm1_tnSSG]
  · rw [p8, remADPCMm4_envSSG, remADPCMm3_envSSG, remADPCMm2_envSSG, remADPCMm1_envSSG]
  · rw [p9, remADPCMm4_arpSSG, remADPCMm3_arpSSG, remADPCMm2_arpSSG, remADPCMm1_arpSSG]
  · rw [p10, remADPCMm4_ptSSG, remADPCMm3_ptSSG, remADPCMm2_ptSSG, remADPCMm1_ptSSG]

/-- A `Bool` that is not `true` is `false`. -/
theorem bool_false_of_not_true {b : Bool} (h : ¬ b = true) : b = false := by
  cases b
  · rfl
  · exact absurd rfl h

set_option maxHeartbeats 1000000 in
/-- Reference-set characterisation of an FM instrument removal. -/
theorem removeFM_char (m : BT.InstrumentsManager) (n : Nat) (fm : BT.InstrumentFM)
    (hins : m.insts n = some (.fm fm)) :
    (m.removeInstrument n).insts = Function.update m.insts n none ∧
    (∀ s, ((m.removeInstrument n).envFM s).users =
      if (fm.envelopeNumber == s) = true
      then (((m.envFM) s).users).erase n else ((m.envFM) s).users) ∧
    (∀ s, ((m.removeInstrument n).lfoFM s).users =
      if (fm.lfoEnabled && (fm.lfoNumber == s)) = true
      then (((m.lfoFM) s).users).erase n else ((m.lfoFM) s).users) ∧
    (∀ q, q ∈ BT.envFMParams → ∀ s, (((m.removeInstrument n).opSeqFM q) s).users =
      if (fm.opSeqEnabled q && (fm.opSeqNumber q == s)) = true
      then (((m.opSeqFM q) s).users).erase n else ((m.opSeqFM q) s).users) ∧
    (∀ s, ((m.removeInstrument n).arpFM s).users =
      if (BT.fmOpTypes.any (fun t => fm.arpEnabled t && (fm.arpNumber t == s))) = true
      then (((m.arpFM) s).users).erase n else ((m.arpFM) s).users) ∧
    (∀ s, ((m.removeInstrument n).ptFM s).users =
      if (BT.fmOpTypes.any (fun t => fm.ptEnabled t && (fm.ptNumber t == s))) = true
      then (((m.ptFM) s).users).erase n else ((m.ptFM) s).users) ∧
    (m.removeInstrument n).wfSSG = m.wfSSG ∧
    (m.removeInstrument n).tnSSG = m.tnSSG ∧
    (m.removeInstrument n).envSSG = m.envSSG ∧
    (m.removeInstrument n).arpSSG = m.arpSSG ∧
    (m.removeInstrument n).ptSSG = m.ptSSG ∧
    (m.removeInstrument n).wfADPCM = m.wfADPCM ∧
    (m.removeInstrument n).envADPCM = m.envADPCM ∧
    (m.removeInstrument n).arpADPCM = m.arpADPCM ∧
    (m.removeInstrument n).ptADPCM = m.ptADPCM := by
  obtain ⟨p0, p1, p2, p3, p4, p5, p6, p7, p8, p9, p10, p11, p12, p13, p14⟩ :=
    removeFM_proj m n fm hins
  have h4 : BT.RemArpPtRel fm n BT.fmOpTypes (BT.remFMm3 m fm n) (BT.remFMm4 m fm n) :=
    remove_fold_arppt fm n BT.fmOpTypes (BT.remFMm3 m fm n)
  have h3 : BT.RemOpSeqRel fm n BT.envFMParams (BT.remFMm2 m fm n) (BT.remFMm3 m fm n) :=
    remove_fold_opseq fm n BT.envFMParams (by decide) (BT.remFMm2 m fm n)
  obtain ⟨a1, a2, a3, a4, a5, a6, a7, a8, a9, a10, a11, a12, a13, a14, a15⟩ := h4
  obtain ⟨b1, b2, b3, b4, b5, b6, b7, b8, b9, b10, b11, b12, b13, b14, b15, b16⟩ := h3
  refine ⟨?_, ?_, ?_, ?_, ?_, ?_, ?_, ?_, ?_, ?_, ?_, ?_, ?_, ?_, ?_⟩
  · rw [p0, a1, b1, remFMm2_insts, remFMm1_insts]
  · intro s
    rw [p1, a2, b2, remFMm2_envFM, remFMm1_envFM, users_deregisterUser]
    by_cases hs : s = fm.envelopeNumber
    · rw [if_pos hs, if_pos (by simp [hs]), hs]
    · rw [if_neg hs, if_neg (by
        rw [beq_iff_eq]
        exact fun hh => hs hh.symm)]
  · intro s
    rw [p2, a3, b3, remFMm2_lfoFM, remFMm1_lfoFM]
    by_cases hf : fm.lfoEnabled = true
    · rw [if_pos hf, users_deregisterUser]
      by_cases hs : s = fm.lfoNumber
      · rw [if_pos hs, if_pos (by simp [hf, hs]), hs]
      · rw [if_neg hs, if_neg (by
          rw [Bool.and_eq_true]
          rintro ⟨-, hb⟩
          rw [beq_iff_eq] at hb
          exact hs hb.symm)]
    · rw [if_neg hf, if_neg (by
        rw [Bool.and_eq_true]
        rintro ⟨h1, -⟩
        exact hf h1)]
  · intro q hq s
    rw [p3, a4, b16 q hq, remFMm2_opSeqFM, remFMm1_opSeqFM]
    by_cases hf : fm.opSeqEnabled q = true
    · rw [if_pos hf, users_deregisterUser]
      by_cases hs : s = fm.opSeqNumber q
      · rw [if_pos hs, if_pos (by simp [hf, hs]), hs]
      · rw [if_neg hs, if_neg (by
          rw [Bool.and_eq_true]
          rintro ⟨-, hb⟩
          rw [beq_iff_eq] at hb
          exact hs hb.symm)]
    · rw [if_neg hf, if_neg (by
        rw [Bool.and_eq_true]
        rintro ⟨h1, -⟩
        exact hf h1)]
  · intro s
    rw [p4, a14 s, b4, remFMm2_arpFM, remFMm1_arpFM]
  · intro s
    rw [p5, a15 s, b5, remFMm2_ptFM, remFMm1_ptFM]
  · rw [p6, a5, b6, remFMm2_wfSSG, remFMm1_wfSSG]
  · rw [p7, a6, b7, remFMm2_tnSSG, remFMm1_tnSSG]
  · rw [p8, a7, b8, remFMm2_envSSG, remFMm1_envSSG]
  · rw [p9, a8, b9, remFMm2_arpSSG, remFMm1_arpSSG]
  · rw [p10, a9, b10, remFMm2_ptSSG, remFMm1_ptSSG]
  · rw [p11, a10, b11, remFMm2_wfADPCM, remFMm1_wfADPCM]
  · rw [p12, a11, b12, remFMm2_envADPCM, remFMm1_envADPCM]
  · rw [p13, a12, b13, remFMm2_arpADPCM, remFMm1_arpADPCM]
  · rw [p14, a13, b14, remFMm2_ptADPCM, remFMm1_ptADPCM]

set_option maxHeartbeats 1000000 in
/-- `removeInstrument` preserves the reference-count invariant. -/
theorem inv_removeInstrument (m : BT.InstrumentsManager) (n : Nat) (hn : n < 128)
    (inv : BT.Inv m) : BT.Inv (m.removeInstrument n) := by
  cases hins : m.insts n with
  | none =>
    have hid : m.removeInstrument n = m := by
      unfold BT.InstrumentsManager.removeInstrument
      simp only [hins]
    rw [hid]
    exact inv
  | some inst =>
    cases inst with
    | fm fm =>
      obtain ⟨h0, hEnv, hLfo, hOps, hArp, hPt, h6, h7, h8, h9, h10, h11, h12, h13, h14⟩ :=
        removeFM_char m n fm hins
      refine ⟨?_, ?_, ?_, ?_, ?_, ?_, ?_, ?_, ?_, ?_, ?_, ?_, ?_, ?_⟩
      · rw [h0]
        refine poolSync_depart hn hins ?_ inv.envFM
        intro s hs
        by_cases hc : (fm.envelopeNumber == s) = true
        · exact Or.inl (by rw [hEnv s, if_pos hc])
        · exact Or.inr ⟨by rw [hEnv s, if_neg hc], bool_false_of_not_true hc⟩
      · rw [h0]
        refine poolSync_depart hn hins ?_ inv.lfoFM
        intro s hs
        by_cases hc : (fm.lfoEnabled && (fm.lfoNumber == s)) = true
        · exact Or.inl (by rw [hLfo s, if_pos hc])
        · exact Or.inr ⟨by rw [hLfo s, if_neg hc], bool_false_of_not_true hc⟩
      · intro q hq
        rw [h0]
        refine poolSync_depart hn hins ?_ (inv.opSeqFM q hq)
        intro s hs
        by_cases hc : (fm.opSeqEnabled q && (fm.opSeqNumber q == s)) = true
        · exact Or.inl (by rw [hOps q hq s, if_pos hc])
        · exact Or.inr ⟨by rw [hOps q hq s, if_neg hc], bool_false_of_not_true hc⟩
      · rw [h0]
        refine poolSync_depart hn hins ?_ inv.arpFM
        intro s hs
        by_cases hc :
            (BT.fmOpTypes.any (fun t => fm.arpEnabled t && (fm.arpNumber t == s))) = true
        · exact Or.inl (by rw [hArp s, if_pos hc])
        · exact Or.inr ⟨by rw [hArp s, if_neg hc], bool_false_of_not_true hc⟩
      · rw [h0]
        refine poolSync_depart hn hins ?_ inv.ptFM
        intro s hs
        by_cases hc :
            (BT.fmOpTypes.any (fun t => fm.ptEnabled t && (fm.ptNumber t == s))) = true
        · exact Or.inl (by rw [hPt s, if_pos hc])
        · exact Or.inr ⟨by rw [hPt s, if_neg hc], bool_false_of_not_true hc⟩
      · rw [h0, h6]
        exact poolSync_depart hn hins (fun s hs => Or.inr ⟨rfl, rfl⟩) inv.wfSSG
      · rw [h0, h7]
        exact poolSync_depart hn hins (fun s hs => Or.inr ⟨rfl, rfl⟩) inv.tnSSG
      · rw [h0, h8]
        exact poolSync_depart hn hins (fun s hs => Or.inr ⟨rfl, rfl⟩) inv.envSSG
      · rw [h0, h9]
        exact poolSync_depart hn hins (fun s hs => Or.inr ⟨rfl, rfl⟩) inv.arpSSG
      · rw [h0, h10]
        exact poolSync_depart hn hins (fun s hs => Or.inr ⟨rfl, rfl⟩) inv.ptSSG
      · rw [h0, h11]
        exact poolSync_depart hn hins (fun s hs => Or.inr ⟨rfl, rfl⟩) inv.wfADPCM
      · rw [h0, h12]
        exact poolSync_depart hn hins (fun s hs => Or.inr ⟨rfl, rfl⟩) inv.envADPCM
      · rw [h0, h13]
        exact poolSync_depart hn hins (fun s hs => Or.inr ⟨rfl, rfl⟩) inv.arpADPCM
      · rw [h0, h14]
        exact poolSync_depart hn hins (fun s hs => Or.inr ⟨rfl, rfl⟩) inv.ptADPCM
    | ssg s0 =>
      obtain ⟨h0, hWf, hTn, hEnv, hArp, hPt, e1, e2, e3, e4, e5, e6, e7, e8, e9⟩ :=
        removeSSG_char m n s0 hins
      refine ⟨?_, ?_, ?_, ?_, ?_, ?_, ?_, ?_, ?_, ?_, ?_, ?_, ?_, ?_⟩
      · rw [h0, e1]
        exact poolSync_depart hn hins (fun s hs => Or.inr ⟨rfl, rfl⟩) inv.envFM
      · rw [h0, e2]
        exact poolSync_depart hn hins (fun s hs => Or.inr ⟨rfl, rfl⟩) inv.lfoFM
      · intro q hq
        rw [h0, e3]
        exact poolSync_depart hn hins (fun s hs => Or.inr ⟨rfl, rfl⟩) (inv.opSeqFM q hq)
      · rw [h0, e4]
        exact poolSync_depart hn hins (fun s hs => Or.inr ⟨rfl, rfl⟩) inv.arpFM
      · rw [h0, e5]
        exact poolSync_depart hn hins (fun s hs => Or.inr ⟨rfl, rfl⟩) inv.ptFM
      · rw [h0]
        refine poolSync_depart hn hins ?_ inv.wfSSG
        intro s hs
        by_cases hc : (s0.waveformEnabled && (s0.waveformNumber == s)) = true
        · exact Or.inl (by rw [hWf s, if_pos hc])
        · exact Or.inr ⟨by rw [hWf s, if_neg hc], bool_false_of_not_true hc⟩
      · rw [h0]
        refine poolSync_depart hn hins ?_ inv.tnSSG
        intro s hs
        by_cases hc : (s0.toneNoiseEnabled && (s0.toneNoiseNumber == s)) = true
        · exact Or.inl (by rw [hTn s, if_pos hc])
        · exact Or.inr ⟨by rw [hTn s, if_neg hc], bool_false_of_not_true hc⟩
      · rw [h0]
        refine poolSync_depart hn hins ?_ inv.envSSG
        intro s hs
        by_cases hc : (s0.envelopeEnabled && (s0.envelopeNumber == s)) = true
        · exact Or.inl (by rw [hEnv s, if_pos hc])
        · exact Or.inr ⟨by rw [hEnv s, if_neg hc], bool_false_of_not_true hc⟩
      · rw [h0]
        refine poolSync_depart hn hins ?_ inv.arpSSG
        intro s hs
        by_cases hc : (s0.arpeggioEnabled && (s0.arpeggioNumber == s)) = true
        · exact Or.inl (by rw [hArp s, if_pos hc])
        · exact Or.inr ⟨by rw [hArp s, if_neg hc], bool_false_of_not_true hc⟩
      · rw [h0]
        refine poolSync_depart hn hins ?_ inv.ptSSG
        intro s hs
        by_cases hc : (s0.pitchEnabled && (s0.pitchNumber == s)) = true
        · exact Or.inl (by rw [hPt s, if_pos hc])
        · exact Or.inr ⟨by rw [hPt s, if_neg hc], bool_false_of_not_true hc⟩
      · rw [h0, e6]
        exact poolSync_depart hn hins (fun s hs => Or.inr ⟨rfl, rfl⟩) inv.wfADPCM
      · rw [h0, e7]
        exact poolSync_depart hn hins (fun s hs => Or.inr ⟨rfl, rfl⟩) inv.envADPCM
      · rw [h0, e8]
        exact poolSync_depart hn hins (fun s hs => Or.inr ⟨rfl, rfl⟩) inv.arpADPCM
      · rw [h0, e9]
        exact poolSync_depart hn hins (fun s hs => Or.inr ⟨rfl, rfl⟩) inv.ptADPCM
    | adpcm a0 =>
      obtain ⟨h0, hWf, hEnv, hArp, hPt, e1, e2, e3, e4, e5, e6, e7, e8, e9, e10⟩ :=
        removeADPCM_char m n a0 hins
      refine ⟨?_, ?_, ?_, ?_, ?_, ?_, ?_, ?_, ?_, ?_, ?_, ?_, ?_, ?_⟩
      · rw [h0, e1]
        exact poolSync_depart hn hins (fun s hs => Or.inr ⟨rfl, rfl⟩) inv.envFM
      · rw [h0, e2]
        exact poolSync_depart hn hins (fun s hs => Or.inr ⟨rfl, rfl⟩) inv.lfoFM
      · intro q hq
        rw [h0, e3]
        exact poolSync_depart hn hins (fun s hs => Or.inr ⟨rfl, rfl⟩) (inv.opSeqFM q hq)
      · rw [h0, e4]
        exact poolSync_depart hn hins (fun s hs => Or.inr ⟨rfl, rfl⟩) inv.arpFM
      · rw [h0, e5]
        exact poolSync_depart hn hins (fun s hs => Or.inr ⟨rfl, rfl⟩) inv.ptFM
      · rw [h0, e6]
        exact poolSync_depart hn hins (fun s hs => Or.inr ⟨rfl, rfl⟩) inv.wfSSG
      · rw [h0, e7]
        exact poolSync_depart hn hins (fun s hs => Or.inr ⟨rfl, rfl⟩) inv.tnSSG
      · rw [h0, e8]
        exact poolSync_depart hn hins (fun s hs => Or.inr ⟨rfl, rfl⟩) inv.envSSG
      · rw [h0, e9]
        exact poolSync_depart hn hins (fun s hs => Or.inr ⟨rfl, rfl⟩) inv.arpSSG
      · rw [h0, e10]
        exact poolSync_depart hn hins (fun s hs => Or.inr ⟨rfl, rfl⟩) inv.ptSSG
      · rw [h0]
        refine poolSync_depart hn hins ?_ inv.wfADPCM
        intro s hs
        by_cases hc : s = a0.waveformNumber
        · exact Or.inl (by rw [hWf s, if_pos hc])
        · refine Or.inr ⟨by rw [hWf s, if_neg hc], ?_⟩
          have hb : (a0.waveformNumber == s) = false := by
            rw [beq_eq_false_iff_ne]
            exact fun hh => hc hh.symm
          exact hb
      · rw [h0]
        refine poolSync_depart hn hins ?_ inv.envADPCM
        intro s hs
        by_cases hc : (a0.envelopeEnabled && (a0.envelopeNumber == s)) = true
        · exact Or.inl (by rw [hEnv s, if_pos hc])
        · exact Or.inr ⟨by rw [hEnv s, if_neg hc], bool_false_of_not_true hc⟩
      · rw [h0]
        refine poolSync_depart hn hins ?_ inv.arpADPCM
        intro s hs
        by_cases hc : (a0.arpeggioEnabled && (a0.arpeggioNumber == s)) = true
        · exact Or.inl (by rw [hArp s, if_pos hc])
        · exact Or.inr ⟨by rw [hArp s, if_neg hc], bool_false_of_not_true hc⟩
      · rw [h0]
        refine poolSync_depart hn hins ?_ inv.ptADPCM
        intro s hs
        by_cases hc : (a0.pitchEnabled && (a0.pitchNumber == s)) = true
        · exact Or.inl (by rw [hPt s, if_pos hc])
        · exact Or.inr ⟨by rw [hPt s, if_neg hc], bool_false_of_not_true hc⟩
/-- The stored record at the target after `setInstrumentFMEnvelope`. -/
theorem insts_setInstrumentFMEnvelope (m : BT.InstrumentsManager) (i e : Nat)
    (f : BT.InstrumentFM) (hf : m.insts i = some (.fm f)) :
    (m.setInstrumentFMEnvelope i e).insts i =
      some (.fm { f with envelopeNumber := e }) := by
  unfold BT.InstrumentsManager.setInstrumentFMEnvelope
  simp only [hf]
  exact Function.update_same i _ m.insts

/-- The stored record at the target after `setInstrumentFMLFOEnabled`. -/
theorem insts_setInstrumentFMLFOEnabled (m : BT.InstrumentsManager) (i : Nat) (b : Bool)
    (f : BT.InstrumentFM) (hf : m.insts i = some (.fm f)) :
    (m.setInstrumentFMLFOEnabled i b).insts i =
      some (.fm { f with lfoEnabled := b }) := by
  unfold BT.InstrumentsManager.setInstrumentFMLFOEnabled
  simp only [hf]
  exact Function.update_same i _ m.insts

/-- The stored record at the target after `setInstrumentFMLFO`. -/
theorem insts_setInstrumentFMLFO (m : BT.InstrumentsManager) (i x : Nat)
    (f : BT.InstrumentFM) (hf : m.insts i = some (.fm f)) :
    (m.setInstrumentFMLFO i x).insts i =
      some (.fm { f with lfoNumber := x }) := by
  unfold BT.InstrumentsManager.setInstrumentFMLFO
  simp only [hf]
  exact Function.update_same i _ m.insts

/-- The stored record at the target after `setInstrumentFMOperatorSequenceEnabled`. -/
theorem insts_setInstrumentFMOperatorSequenceEnabled (m : BT.InstrumentsManager) (i : Nat) (p : BT.FMEnvelopeParameter) (b : Bool)
    (f : BT.InstrumentFM) (hf : m.insts i = some (.fm f)) :
    (m.setInstrumentFMOperatorSequenceEnabled i p b).insts i =
      some (.fm { f with opSeqEnabled := Function.update f.opSeqEnabled p b }) := by
  unfold BT.InstrumentsManager.setInstrumentFMOperatorSequenceEnabled
  simp only [hf]
  exact Function.update_same i _ m.insts

/-- The stored record at the target after `setInstrumentFMOperatorSequence`. -/
theorem insts_setInstrumentFMOperatorSequence (m : BT.InstrumentsManager) (i : Nat) (p : BT.FMEnvelopeParameter) (x : Nat)
    (f : BT.InstrumentFM) (hf : m.insts i = some (.fm f)) :
    (m.setInstrumentFMOperatorSequence i p x).insts i =
      some (.fm { f with opSeqNumber := Function.update f.opSeqNumber p x }) := by
  unfold BT.InstrumentsManager.setInstrumentFMOperatorSequence
  simp only [hf]
  exact Function.update_same i _ m.insts

/-- The stored record at the target after `setInstrumentFMArpeggioEnabled`. -/
theorem insts_setInstrumentFMArpeggioEnabled (m : BT.InstrumentsManager) (i : Nat) (t : BT.FMOperatorType) (b : Bool)
    (f : BT.InstrumentFM) (hf : m.insts i = some (.fm f)) :
    (m.setInstrumentFMArpeggioEnabled i t b).insts i =
      some (.fm { f with arpEnabled := Function.update f.arpEnabled t b }) := by
  unfold BT.InstrumentsManager.setInstrumentFMArpeggioEnabled
  simp only [hf]
  exact Function.update_same i _ m.insts

/-- The stored record at the target after `setInstrumentFMArpeggio`. -/
theorem insts_setInstrumentFMArpeggio (m : BT.InstrumentsManager) (i : Nat) (t : BT.FMOperatorType) (x : Nat)
    (f : BT.InstrumentFM) (hf : m.insts i = some (.fm f)) :
    (m.setInstrumentFMArpeggio i t x).insts i =
      some (.fm { f with arpNumber := Function.update f.arpNumber t x }) := by
  unfold BT.InstrumentsManager.setInstrumentFMArpeggio
  simp only [hf]
  exact Function.update_same i _ m.insts

/-- The stored record at the target after `setInstrumentFMPitchEnabled`. -/
theorem insts_setInstrumentFMPitchEnabled (m : BT.InstrumentsManager) (i : Nat) (t : BT.FMOperatorType) (b : Bool)
    (f : BT.InstrumentFM) (hf : m.insts i = some (.fm f)) :
    (m.setInstrumentFMPitchEnabled i t b).insts i =
      some (.fm { f with ptEnabled := Function.update f.ptEnabled t b }) := by
  unfold BT.InstrumentsManager.setInstrumentFMPitchEnabled
  simp only [hf]
  exact Function.update_same i _ m.insts

/-- The stored record at the target after `setInstrumentFMPitch`. -/
theorem insts_setInstrumentFMPitch (m : BT.InstrumentsManager) (i : Nat) (t : BT.FMOperatorType) (x : Nat)
    (f : BT.InstrumentFM) (hf : m.insts i = some (.fm f)) :
    (m.setInstrumentFMPitch i t x).insts i =
      some (.fm { f with ptNumber := Function.update f.ptNumber t x }) := by
  unfold BT.InstrumentsManager.setInstrumentFMPitch
  simp only [hf]
  exact Function.update_same i _ m.insts

/-- The stored record at the target after `setInstrumentFMEnvelopeResetEnabled`. -/
theorem insts_setInstrumentFMEnvelopeResetEnabled (m : BT.InstrumentsManager) (i : Nat) (t : BT.FMOperatorType) (b : Bool)
    (f : BT.InstrumentFM) (hf : m.insts i = some (.fm f)) :
    (m.setInstrumentFMEnvelopeResetEnabled i t b).insts i =
      some (.fm { f with envResetEnabled := Function.update f.envResetEnabled t b }) := by
  unfold BT.InstrumentsManager.setInstrumentFMEnvelopeResetEnabled BT.InstrumentsManager.updateFM
  simp only [hf]
  exact Function.update_same i _ m.insts

/-- The arpeggio/pitch references stay disabled across `setInstrumentFMEnvelope`. -/
theorem cloneReady_setFMEnvelope (m : BT.InstrumentsManager) (c e : Nat)
    (h : BT.cloneReady c m) : BT.cloneReady c (m.setInstrumentFMEnvelope c e) := by
  obtain ⟨f, hf, ha, hp⟩ := h
  exact ⟨_, insts_setInstrumentFMEnvelope m c e f hf, ha, hp⟩

/-- The arpeggio/pitch references stay disabled across `setInstrumentFMLFO`. -/
theorem cloneReady_setFMLFO (m : BT.InstrumentsManager) (c x : Nat)
    (h : BT.cloneReady c m) : BT.cloneReady c (m.setInstrumentFMLFO c x) := by
  obtain ⟨f, hf, ha, hp⟩ := h
  exact ⟨_, insts_setInstrumentFMLFO m c x f hf, ha, hp⟩

/-- The arpeggio/pitch references stay disabled across `setInstrumentFMLFOEnabled`. -/
theorem cloneReady_setFMLFOEnabled (m : BT.InstrumentsManager) (c : Nat) (b : Bool)
    (h : BT.cloneReady c m) : BT.cloneReady c (m.setInstrumentFMLFOEnabled c b) := by
  obtain ⟨f, hf, ha, hp⟩ := h
  exact ⟨_, insts_setInstrumentFMLFOEnabled m c b f hf, ha, hp⟩

/-- The arpeggio/pitch references stay disabled across `setInstrumentFMOperatorSequence`. -/
theorem cloneReady_setFMOperatorSequence (m : BT.InstrumentsManager) (c : Nat) (p : BT.FMEnvelopeParameter) (x : Nat)
    (h : BT.cloneReady c m) : BT.cloneReady c (m.setInstrumentFMOperatorSequence c p x) := by
  obtain ⟨f, hf, ha, hp⟩ := h
  exact ⟨_, insts_setInstrumentFMOperatorSequence m c p x f hf, ha, hp⟩

/-- The arpeggio/pitch references stay disabled across `setInstrumentFMOperatorSequenceEnabled`. -/
theorem cloneReady_setFMOperatorSequenceEnabled (m : BT.InstrumentsManager) (c : Nat) (p : BT.FMEnvelopeParameter) (b : Bool)
    (h : BT.cloneReady c m) : BT.cloneReady c (m.setInstrumentFMOperatorSequenceEnabled c p b) := by
  obtain ⟨f, hf, ha, hp⟩ := h
  exact ⟨_, insts_setInstrumentFMOperatorSequenceEnabled m c p b f hf, ha, hp⟩

/-- An occupied-source FM shallow clone is the staged construction. -/
theorem cloneFM_eq (m : BT.InstrumentsManager) (c r : Nat) (refFm : BT.InstrumentFM)
    (hins : m.insts r = some (.fm refFm)) :
    m.cloneInstrument c r =
      BT.cloFMm5 (m.addInstrument (c : Int) .FM refFm.name) refFm c := by
  unfold BT.InstrumentsManager.cloneInstrument
  simp only [hins]
  rfl

/-- An occupied-source SSG shallow clone is the staged construction. -/
theorem cloneSSG_eq (m : BT.InstrumentsManager) (c r : Nat) (refSsg : BT.InstrumentSSG)
    (hins : m.insts r = some (.ssg refSsg)) :
    m.cloneInstrument c r =
      BT.cloSSGm10 (m.addInstrument (c : Int) .SSG refSsg.name) refSsg c := by
  unfold BT.InstrumentsManager.cloneInstrument
  simp only [hins]
  rfl

/-- An occupied-source ADPCM shallow clone is the staged construction. -/
theorem cloneAD_eq (m : BT.InstrumentsManager) (c r : Nat) (refAd : BT.InstrumentADPCM)
    (hins : m.insts r = some (.adpcm refAd)) :
    m.cloneInstrument c r =
      BT.cloADm7 (m.addInstrument (c : Int) .ADPCM refAd.name) refAd c := by
  unfold BT.InstrumentsManager.cloneInstrument
  simp only [hins]
  rfl

set_option maxHeartbeats 1000000 in
/-- The operator-sequence setter fold of the FM shallow clone preserves the
invariant and keeps the arpeggio/pitch references disabled. -/
theorem cloneFM_opSeq_fold (c : Nat) (refFm : BT.InstrumentFM) (hc : c < 128) :
    ∀ (l : List BT.FMEnvelopeParameter) (acc : BT.InstrumentsManager),
      BT.Inv acc → BT.cloneReady c acc →
      BT.Inv (l.foldl
        (fun (acc : BT.InstrumentsManager) p =>
          let acc1 := acc.setInstrumentFMOperatorSequence c p (refFm.opSeqNumber p)
          if refFm.opSeqEnabled p then
            acc1.setInstrumentFMOperatorSequenceEnabled c p true
          else acc1) acc) ∧
      BT.cloneReady c (l.foldl
        (fun (acc : BT.InstrumentsManager) p =>
          let acc1 := acc.setInstrumentFMOperatorSequence c p (refFm.opSeqNumber p)
          if refFm.opSeqEnabled p then
            acc1.setInstrumentFMOperatorSequenceEnabled c p true
          else acc1) acc) := by
  intro l
  induction l with
  | nil => intro acc hinv hready; exact ⟨hinv, hready⟩
  | cons p l ih =>
    intro acc hinv hready
    rw [List.foldl_cons]
    have hinv1 := inv_setInstrumentFMOperatorSequence acc c p (refFm.opSeqNumber p) hc hinv
    have hready1 := cloneReady_setFMOperatorSequence acc c p (refFm.opSeqNumber p) hready
    have hstep : BT.Inv (if refFm.opSeqEnabled p then
          (acc.setInstrumentFMOperatorSequence c p (refFm.opSeqNumber p)).setInstrumentFMOperatorSequenceEnabled c p true
        else acc.setInstrumentFMOperatorSequence c p (refFm.opSeqNumber p)) ∧
        BT.cloneReady c (if refFm.opSeqEnabled p then
          (acc.setInstrumentFMOperatorSequence c p (refFm.opSeqNumber p)).setInstrumentFMOperatorSequenceEnabled c p true
        else acc.setInstrumentFMOperatorSequence c p (refFm.opSeqNumber p)) := by
      by_cases hb : refFm.opSeqEnabled p = true
      · rw [if_pos hb]
        exact ⟨inv_setInstrumentFMOperatorSequenceEnabled _ c p true hc hinv1,
          cloneReady_setFMOperatorSequenceEnabled _ c p true hready1⟩
      · rw [if_neg hb]
        exact ⟨hinv1, hready1⟩
    exact ih _ hstep.1 hstep.2

set_option maxHeartbeats 1000000 in
/-- The arpeggio/pitch/reset setter fold of the FM shallow clone preserves
the invariant: each operator type is processed while its own arpeggio and
pitch references are still disabled, so the deregistrations inside the
setters are alias-safe. -/
theorem cloneFM_arpPt_fold (c : Nat) (refFm : BT.InstrumentFM) (hc : c < 128) :
    ∀ (l : List BT.FMOperatorType), l.Nodup →
      ∀ acc : BT.InstrumentsManager, BT.Inv acc →
      (∃ f, acc.insts c = some (.fm f) ∧
        ∀ t ∈ l, f.arpEnabled t = false ∧ f.ptEnabled t = false) →
      BT.Inv (l.foldl
        (fun (acc : BT.InstrumentsManager) t =>
          let a1 := acc.setInstrumentFMArpeggio c t (refFm.arpNumber t)
          let a2 := if refFm.arpEnabled t then
                      a1.setInstrumentFMArpeggioEnabled c t true
                    else a1
          let a3 := a2.setInstrumentFMPitch c t (refFm.ptNumber t)
          let a4 := if refFm.ptEnabled t then
                      a3.setInstrumentFMPitchEnabled c t true
                    else a3
          a4.setInstrumentFMEnvelopeResetEnabled c t (refFm.envResetEnabled t)) acc) := by
  intro l
  induction l with
  | nil => intro _ acc hinv _; exact hinv
  | cons t l ih =>
    intro hnd acc hinv hst
    have hnd' := List.nodup_cons.mp hnd
    obtain ⟨f, hf, hflags⟩ := hst
    have hft := hflags t (List.mem_cons_self t l)
    rw [List.foldl_cons]
    have hval1 : (match acc.insts c with
        | some (.fm f) => !f.arpEnabled t || BT.fmArpAliasFree acc c t
        | _ => false) = true := by
      simp only [hf]
      rw [hft.1]
      rfl
    have hinv1 := inv_setInstrumentFMArpeggio acc c t (refFm.arpNumber t) hc hval1 hinv
    have hf1 := insts_setInstrumentFMArpeggio acc c t (refFm.arpNumber t) f hf
    have h2 : BT.Inv (if refFm.arpEnabled t then (acc.setInstrumentFMArpeggio c t (refFm.arpNumber t)).setInstrumentFMArpeggioEnabled c t true else acc.setInstrumentFMArpeggio c t (refFm.arpNumber t)) ∧
        ∃ f2, ((if refFm.arpEnabled t then (acc.setInstrumentFMArpeggio c t (refFm.arpNumber t)).setInstrumentFMArpeggioEnabled c t true else acc.setInstrumentFMArpeggio c t (refFm.arpNumber t))).insts c = some (.fm f2) ∧
          (∀ u, u ≠ t → f2.arpEnabled u = f.arpEnabled u) ∧ f2.ptEnabled = f.ptEnabled := by
      by_cases hb : refFm.arpEnabled t = true
      · rw [if_pos hb]
        refine ⟨inv_setInstrumentFMArpeggioEnabled _ c t true hc rfl hinv1, ?_⟩
        refine ⟨_, insts_setInstrumentFMArpeggioEnabled _ c t true _ hf1, ?_, rfl⟩
        intro u hu
        show Function.update f.arpEnabled t true u = f.arpEnabled u
        rw [Function.update_noteq hu]
      · rw [if_neg hb]
        exact ⟨hinv1, _, hf1, fun u hu => rfl, rfl⟩
    obtain ⟨hinv2, f2, hf2, hf2arp, hf2pt⟩ := h2
    have hpt2 : f2.ptEnabled t = false := by
      rw [hf2pt]
      exact hft.2
    have hval3 : (match ((if refFm.arpEnabled t then (acc.setInstrumentFMArpeggio c t (refFm.arpNumber t)).setInstrumentFMArpeggioEnabled c t true else acc.setInstrumentFMArpeggio c t (refFm.arpNumber t))).insts c with
        | some (.fm f) => !f.ptEnabled t || BT.fmPtAliasFree (if refFm.arpEnabled t then (acc.setInstrumentFMArpeggio c t (refFm.arpNumber t)).setInstrumentFMArpeggioEnabled c t true else acc.setInstrumentFMArpeggio c t (refFm.arpNumber t)) c t
        | _ => false) = true := by
      simp only [hf2]
      rw [hpt2]
      rfl
    have hinv3 := inv_setInstrumentFMPitch (if refFm.arpEnabled t then (acc.setInstrumentFMArpeggio c t (refFm.arpNumber t)).setInstrumentFMArpeggioEnabled c t true else acc.setInstrumentFMArpeggio c t (refFm.arpNumber t)) c t (refFm.ptNumber t) hc hval3 hinv2
    have hf3 := insts_setInstrumentFMPitch (if refFm.arpEnabled t then (acc.setInstrumentFMArpeggio c t (refFm.arpNumber t)).setInstrumentFMArpeggioEnabled c t true else acc.setInstrumentFMArpeggio c t (refFm.arpNumber t)) c t (refFm.ptNumber t) f2 hf2
    have h4 : BT.Inv (if refFm.ptEnabled t then (((if refFm.arpEnabled t then (acc.setInstrumentFMArpeggio c t (refFm.arpNumber t)).setInstrumentFMArpeggioEnabled c t true else acc.setInstrumentFMArpeggio c t (refFm.arpNumber t))).setInstrumentFMPitch c t (refFm.ptNumber t)).setInstrumentFMPitchEnabled c t true else ((if refFm.arpEnabled t then (acc.setInstrumentFMArpeggio c t (refFm.arpNumber t)).setInstrumentFMArpeggioEnabled c t true else acc.setInstrumentFMArpeggio c t (refFm.arpNumber t))).setInstrumentFMPitch c t (refFm.ptNumber t)) ∧
        ∃ f4, ((if refFm.ptEnabled t then (((if refFm.arpEnabled t then (acc.setInstrumentFMArpeggio c t (refFm.arpNumber t)).setInstrumentFMArpeggioEnabled c t true else acc.setInstrumentFMArpeggio c t (refFm.arpNumber t))).setInstrumentFMPitch c t (refFm.ptNumber t)).setInstrumentFMPitchEnabled c t true else ((if refFm.arpEnabled t then (acc.setInstrumentFMArpeggio c t (refFm.arpNumber t)).setInstrumentFMArpeggioEnabled c t true else acc.setInstrumentFMArpeggio c t (refFm.arpNumber t))).setInstrumentFMPitch c t (refFm.ptNumber t))).insts c = some (.fm f4) ∧
          (∀ u, u ≠ t → f4.arpEnabled u = f.arpEnabled u ∧ f4.ptEnabled u = f.ptEnabled u) := by
      by_cases hb : refFm.ptEnabled t = true
      · rw [if_pos hb]
        refine ⟨inv_setInstrumentFMPitchEnabled _ c t true hc rfl hinv3, ?_⟩
        refine ⟨_, insts_setInstrumentFMPitchEnabled _ c t true _ hf3, ?_⟩
        intro u hu
        constructor
        · show f2.arpEnabled u = f.arpEnabled u
          exact hf2arp u hu
        · show Function.update f2.ptEnabled t true u = f.ptEnabled u
          rw [Function.update_noteq hu, hf2pt]
      · rw [if_neg hb]
        refine ⟨hinv3, _, hf3, ?_⟩
        intro u hu
        refine ⟨hf2arp u hu, ?_⟩
        show f2.ptEnabled u = f.ptEnabled u
        rw [hf2pt]
    obtain ⟨hinv4, f4, hf4, hflags4⟩ := h4
    have hinv5 := inv_setInstrumentFMEnvelopeResetEnabled (if refFm.ptEnabled t then (((if refFm.arpEnabled t then (acc.setInstrumentFMArpeggio c t (refFm.arpNumber t)).setInstrumentFMArpeggioEnabled c t true else acc.setInstrumentFMArpeggio c t (refFm.arpNumber t))).setInstrumentFMPitch c t (refFm.ptNumber t)).setInstrumentFMPitchEnabled c t true else ((if refFm.arpEnabled t then (acc.setInstrumentFMArpeggio c t (refFm.arpNumber t)).setInstrumentFMArpeggioEnabled c t true else acc.setInstrumentFMArpeggio c t (refFm.arpNumber t))).setInstrumentFMPitch c t (refFm.ptNumber t)) c t (refFm.envResetEnabled t) hinv4
    have hf5 := insts_setInstrumentFMEnvelopeResetEnabled (if refFm.ptEnabled t then (((if refFm.arpEnabled t then (acc.setInstrumentFMArpeggio c t (refFm.arpNumber t)).setInstrumentFMArpeggioEnabled c t true else acc.setInstrumentFMArpeggio c t (refFm.arpNumber t))).setInstrumentFMPitch c t (refFm.ptNumber t)).setInstrumentFMPitchEnabled c t true else ((if refFm.arpEnabled t then (acc.setInstrumentFMArpeggio c t (refFm.arpNumber t)).setInstrumentFMArpeggioEnabled c t true else acc.setInstrumentFMArpeggio c t (refFm.arpNumber t))).setInstrumentFMPitch c t (refFm.ptNumber t)) c t (refFm.envResetEnabled t) f4 hf4
    refine ih hnd'.2 _ hinv5 ⟨_, hf5, fun u hu => ?_⟩
    have hune : u ≠ t := fun he => hnd'.1 (he ▸ hu)
    have hq := hflags4 u hune
    have hm := hflags u (List.mem_cons_of_mem t hu)
    constructor
    · show f4.arpEnabled u = false
      rw [hq.1]
      exact hm.1
    · show f4.ptEnabled u = false
      rw [hq.2]
      exact hm.2

/-- The FM shallow-clone setter chain preserves the invariant. -/
theorem inv_cloFM (m0 : BT.InstrumentsManager) (refFm : BT.InstrumentFM) (c : Nat)
    (hc : c < 128) (inv0 : BT.Inv m0) (hready : BT.cloneReady c m0) :
    BT.Inv (BT.cloFMm5 m0 refFm c) := by
  have h1 : BT.Inv (BT.cloFMm1 m0 refFm c) :=
    inv_setInstrumentFMEnvelope m0 c refFm.envelopeNumber hc inv0
  have r1 : BT.cloneReady c (BT.cloFMm1 m0 refFm c) :=
    cloneReady_setFMEnvelope m0 c refFm.envelopeNumber hready
  have h2 : BT.Inv (BT.cloFMm2 m0 refFm c) :=
    inv_setInstrumentFMLFO _ c refFm.lfoNumber hc h1
  have r2 : BT.cloneReady c (BT.cloFMm2 m0 refFm c) :=
    cloneReady_setFMLFO _ c refFm.lfoNumber r1
  have h3 : BT.Inv (BT.cloFMm3 m0 refFm c) := by
    unfold BT.cloFMm3
    by_cases hb : refFm.lfoEnabled = true
    · rw [if_pos hb]
      exact inv_setInstrumentFMLFOEnabled _ c true hc h2
    · rw [if_neg hb]
      exact h2
  have r3 : BT.cloneReady c (BT.cloFMm3 m0 refFm c) := by
    unfold BT.cloFMm3
    by_cases hb : refFm.lfoEnabled = true
    · rw [if_pos hb]
      exact cloneReady_setFMLFOEnabled _ c true r2
    · rw [if_neg hb]
      exact r2
  have h4 : BT.Inv (BT.cloFMm4 m0 refFm c) ∧ BT.cloneReady c (BT.cloFMm4 m0 refFm c) :=
    cloneFM_opSeq_fold c refFm hc BT.envFMParams (BT.cloFMm3 m0 refFm c) h3 r3
  obtain ⟨f, hf, ha, hp⟩ := h4.2
  exact cloneFM_arpPt_fold c refFm hc BT.fmOpTypes (by decide) (BT.cloFMm4 m0 refFm c)
    h4.1 ⟨f, hf, fun t _ => ⟨ha t, hp t⟩⟩

/-- The SSG shallow-clone setter chain preserves the invariant. -/
theorem inv_cloSSG (m0 : BT.InstrumentsManager) (refSsg : BT.InstrumentSSG) (c : Nat)
    (hc : c < 128) (inv0 : BT.Inv m0) : BT.Inv (BT.cloSSGm10 m0 refSsg c) := by
  have h1 : BT.Inv (BT.cloSSGm1 m0 refSsg c) :=
    inv_setInstrumentSSGWaveform m0 c refSsg.waveformNumber hc inv0
  have h2 : BT.Inv (BT.cloSSGm2 m0 refSsg c) := by
    unfold BT.cloSSGm2
    by_cases hb2 : refSsg.waveformEnabled = true
    · rw [if_pos hb2]
      exact inv_setInstrumentSSGWaveformEnabled _ c true hc h1
    · rw [if_neg hb2]
      exact h1
  have h3 : BT.Inv (BT.cloSSGm3 m0 refSsg c) :=
    inv_setInstrumentSSGToneNoise _ c refSsg.toneNoiseNumber hc h2
  have h4 : BT.Inv (BT.cloSSGm4 m0 refSsg c) := by
    unfold BT.cloSSGm4
    by_cases hb4 : refSsg.toneNoiseEnabled = true
    · rw [if_pos hb4]
      exact inv_setInstrumentSSGToneNoiseEnabled _ c true hc h3
    · rw [if_neg hb4]
      exact h3
  have h5 : BT.Inv (BT.cloSSGm5 m0 refSsg c) :=
    inv_setInstrumentSSGEnvelope _ c refSsg.envelopeNumber hc h4
  have h6 : BT.Inv (BT.cloSSGm6 m0 refSsg c) := by
    unfold BT.cloSSGm6
    by_cases hb6 : refSsg.envelopeEnabled = true
    · rw [if_pos hb6]
      exact inv_setInstrumentSSGEnvelopeEnabled _ c true hc h5
    · rw [if_neg hb6]
      exact h5
  have h7 : BT.Inv (BT.cloSSGm7 m0 refSsg c) :=
    inv_setInstrumentSSGArpeggio _ c refSsg.arpeggioNumber hc h6
  have h8 : BT.Inv (BT.cloSSGm8 m0 refSsg c) := by
    unfold BT.cloSSGm8
    by_cases hb8 : refSsg.arpeggioEnabled = true
    · rw [if_pos hb8]
      exact inv_setInstrumentSSGArpeggioEnabled _ c true hc h7
    · rw [if_neg hb8]
      exact h7
  have h9 : BT.Inv (BT.cloSSGm9 m0 refSsg c) :=
    inv_setInstrumentSSGPitch _ c refSsg.pitchNumber hc h8
  have h10 : BT.Inv (BT.cloSSGm10 m0 refSsg c) := by
    unfold BT.cloSSGm10
    by_cases hb10 : refSsg.pitchEnabled = true
    · rw [if_pos hb10]
      exact inv_setInstrumentSSGPitchEnabled _ c true hc h9
    · rw [if_neg hb10]
      exact h9
  exact h10

/-- The ADPCM shallow-clone setter chain preserves the invariant. -/
theorem inv_cloAD (m0 : BT.InstrumentsManager) (refAd : BT.InstrumentADPCM) (c : Nat)
    (hc : c < 128) (inv0 : BT.Inv m0) : BT.Inv (BT.cloADm7 m0 refAd c) := by
  have h1 : BT.Inv (BT.cloADm1 m0 refAd c) :=
    inv_setInstrumentADPCMWaveform m0 c refAd.waveformNumber hc inv0
  have h2 : BT.Inv (BT.cloADm2 m0 refAd c) :=
    inv_setInstrumentADPCMEnvelope _ c refAd.envelopeNumber hc h1
  have h3 : BT.Inv (BT.cloADm3 m0 refAd c) := by
    unfold BT.cloADm3
    by_cases hb3 : refAd.envelopeEnabled = true
    · rw [if_pos hb3]
      exact inv_setInstrumentADPCMEnvelopeEnabled _ c true hc h2
    · rw [if_neg hb3]
      exact h2
  have h4 : BT.Inv (BT.cloADm4 m0 refAd c) :=
    inv_setInstrumentADPCMArpeggio _ c refAd.arpeggioNumber hc h3
  have h5 : BT.Inv (BT.cloADm5 m0 refAd c) := by
    unfold BT.cloADm5
    by_cases hb5 : refAd.arpeggioEnabled = true
    · rw [if_pos hb5]
      exact inv_setInstrumentADPCMArpeggioEnabled _ c true hc h4
    · rw [if_neg hb5]
      exact h4
  have h6 : BT.Inv (BT.cloADm6 m0 refAd c) :=
    inv_setInstrumentADPCMPitch _ c refAd.pitchNumber hc h5
  have h7 : BT.Inv (BT.cloADm7 m0 refAd c) := by
    unfold BT.cloADm7
    by_cases hb7 : refAd.pitchEnabled = true
    · rw [if_pos hb7]
      exact inv_setInstrumentADPCMPitchEnabled _ c true hc h6
    · rw [if_neg hb7]
      exact h6
  exact h7

set_option maxHeartbeats 1000000 in
/-- `cloneInstrument` preserves the reference-count invariant when the
clone target is an empty in-range entry. -/
theorem inv_cloneInstrument (m : BT.InstrumentsManager) (c r : Nat)
    (hc : c < 128) (hcnone : m.insts c = none) (inv : BT.Inv m) :
    BT.Inv (m.cloneInstrument c r) := by
  cases hins : m.insts r with
  | none =>
    have hid : m.cloneInstrument c r = m := by
      unfold BT.InstrumentsManager.cloneInstrument
      simp only [hins]
    rw [hid]
    exact inv
  | some inst =>
    have hfree : (c : Int) < 0 ∨ (128 : Int) ≤ (c : Int) ∨ m.insts ((c : Int)).toNat = none := by
      right
      right
      rw [Int.toNat_natCast]
      exact hcnone
    have hc' : (decide ((c : Int) < 0) || decide ((128 : Int) ≤ (c : Int))) = false := by
      rw [Bool.or_eq_false_iff, decide_eq_false_iff_not, decide_eq_false_iff_not]
      exact ⟨Int.not_lt.mpr (Int.natCast_nonneg c), Int.not_le.mpr (by exact_mod_cast hc)⟩
    cases inst with
    | fm refFm =>
      rw [cloneFM_eq m c r refFm hins]
      have inv0 : BT.Inv (m.addInstrument (c : Int) .FM refFm.name) :=
        inv_addInstrument m (c : Int) .FM refFm.name hfree inv
      have hch := (addFM_char m (c : Int) refFm.name hc').1
      rw [Int.toNat_natCast] at hch
      have hstored : (m.addInstrument (c : Int) .FM refFm.name).insts c =
          some (.fm (BT.addFMrec m c refFm.name)) := by
        rw [hch]
        exact Function.update_same c _ m.insts
      exact inv_cloFM _ refFm c hc inv0 ⟨_, hstored, fun t => rfl, fun t => rfl⟩
    | ssg refSsg =>
      rw [cloneSSG_eq m c r refSsg hins]
      exact inv_cloSSG _ refSsg c hc
        (inv_addInstrument m (c : Int) .SSG refSsg.name hfree inv)
    | adpcm refAd =>
      rw [cloneAD_eq m c r refAd hins]
      exact inv_cloAD _ refAd c hc
        (inv_addInstrument m (c : Int) .ADPCM refAd.name hfree inv)
/-- `updateFM` leaves every pool untouched. -/
theorem updateFM_envFM (m : BT.InstrumentsManager) (i : Nat)
    (g : BT.InstrumentFM → BT.InstrumentFM) :
    (BT.InstrumentsManager.updateFM m i g).envFM = m.envFM := by
  unfold BT.InstrumentsManager.updateFM
  cases h : m.insts i with
  | none => rfl
  | some inst => cases inst <;> rfl

/-- `updateFM` leaves every pool untouched. -/
theorem updateFM_lfoFM (m : BT.InstrumentsManager) (i : Nat)
    (g : BT.InstrumentFM → BT.InstrumentFM) :
    (BT.InstrumentsManager.updateFM m i g).lfoFM = m.lfoFM := by
  unfold BT.InstrumentsManager.updateFM
  cases h : m.insts i with
  | none => rfl
  | some inst => cases inst <;> rfl

/-- `updateFM` leaves every pool untouched. -/
theorem updateFM_opSeqFM (m : BT.InstrumentsManager) (i : Nat)
    (g : BT.InstrumentFM → BT.InstrumentFM) :
    (BT.InstrumentsManager.updateFM m i g).opSeqFM = m.opSeqFM := by
  unfold BT.InstrumentsManager.updateFM
  cases h : m.insts i with
  | none => rfl
  | some inst => cases inst <;> rfl

/-- `updateFM` leaves every pool untouched. -/
theorem updateFM_arpFM (m : BT.InstrumentsManager) (i : Nat)
    (g : BT.InstrumentFM → BT.InstrumentFM) :
    (BT.InstrumentsManager.updateFM m i g).arpFM = m.arpFM := by
  unfold BT.InstrumentsManager.updateFM
  cases h : m.insts i with
  | none => rfl
  | some inst => cases inst <;> rfl

/-- `updateFM` leaves every pool untouched. -/
theorem updateFM_ptFM (m : BT.InstrumentsManager) (i : Nat)
    (g : BT.InstrumentFM → BT.InstrumentFM) :
    (BT.InstrumentsManager.updateFM m i g).ptFM = m.ptFM := by
  unfold BT.InstrumentsManager.updateFM
  cases h : m.insts i with
  | none => rfl
  | some inst => cases inst <;> rfl

/-- `updateFM` leaves every pool untouched. -/
theorem updateFM_wfSSG (m : BT.InstrumentsManager) (i : Nat)
    (g : BT.InstrumentFM → BT.InstrumentFM) :
    (BT.InstrumentsManager.updateFM m i g).wfSSG = m.wfSSG := by
  unfold BT.InstrumentsManager.updateFM
  cases h : m.insts i with
  | none => rfl
  | some inst => cases inst <;> rfl

/-- `updateFM` leaves every pool untouched. -/
theorem updateFM_tnSSG (m : BT.InstrumentsManager) (i : Nat)
    (g : BT.InstrumentFM → BT.InstrumentFM) :
    (BT.InstrumentsManager.updateFM m i g).tnSSG = m.tnSSG := by
  unfold BT.InstrumentsManager.updateFM
  cases h : m.insts i with
  | none => rfl
  | some inst => cases inst <;> rfl

/-- `updateFM` leaves every pool untouched. -/
theorem updateFM_envSSG (m : BT.InstrumentsManager) (i : Nat)
    (g : BT.InstrumentFM → BT.InstrumentFM) :
    (BT.InstrumentsManager.updateFM m i g).envSSG = m.envSSG := by
  unfold BT.InstrumentsManager.updateFM
  cases h : m.insts i with
  | none => rfl
  | some inst => cases inst <;> rfl

/-- `updateFM` leaves every pool untouched. -/
theorem updateFM_arpSSG (m : BT.InstrumentsManager) (i : Nat)
    (g : BT.InstrumentFM → BT.InstrumentFM) :
    (BT.InstrumentsManager.updateFM m i g).arpSSG = m.arpSSG := by
  unfold BT.InstrumentsManager.updateFM
  cases h : m.insts i with
  | none => rfl
  | some inst => cases inst <;> rfl

/-- `updateFM` leaves every pool untouched. -/
theorem updateFM_ptSSG (m : BT.InstrumentsManager) (i : Nat)
    (g : BT.InstrumentFM → BT.InstrumentFM) :
    (BT.InstrumentsManager.updateFM m i g).ptSSG = m.ptSSG := by
  unfold BT.InstrumentsManager.updateFM
  cases h : m.insts i with
  | none => rfl
  | some inst => cases inst <;> rfl

/-- `updateFM` leaves every pool untouched. -/
theorem updateFM_wfADPCM (m : BT.InstrumentsManager) (i : Nat)
    (g : BT.InstrumentFM → BT.InstrumentFM) :
    (BT.InstrumentsManager.updateFM m i g).wfADPCM = m.wfADPCM := by
  unfold BT.InstrumentsManager.updateFM
  cases h : m.insts i with
  | none => rfl
  | some inst => cases inst <;> rfl

/-- `updateFM` leaves every pool untouched. -/
theorem updateFM_envADPCM (m : BT.InstrumentsManager) (i : Nat)
    (g : BT.InstrumentFM → BT.InstrumentFM) :
    (BT.InstrumentsManager.updateFM m i g).envADPCM = m.envADPCM := by
  unfold BT.InstrumentsManager.updateFM
  cases h : m.insts i with
  | none => rfl
  | some inst => cases inst <;> rfl

/-- `updateFM` leaves every pool untouched. -/
theorem updateFM_arpADPCM (m : BT.InstrumentsManager) (i : Nat)
    (g : BT.InstrumentFM → BT.InstrumentFM) :
    (BT.InstrumentsManager.updateFM m i g).arpADPCM = m.arpADPCM := by
  unfold BT.InstrumentsManager.updateFM
  cases h : m.insts i with
  | none => rfl
  | some inst => cases inst <;> rfl

/-- `updateFM` leaves every pool untouched. -/
theorem updateFM_ptADPCM (m : BT.InstrumentsManager) (i : Nat)
    (g : BT.InstrumentFM → BT.InstrumentFM) :
    (BT.InstrumentsManager.updateFM m i g).ptADPCM = m.ptADPCM := by
  unfold BT.InstrumentsManager.updateFM
  cases h : m.insts i with
  | none => rfl
  | some inst => cases inst <;> rfl

/-- `updateSSG` leaves every pool untouched. -/
theorem updateSSG_envFM (m : BT.InstrumentsManager) (i : Nat)
    (g : BT.InstrumentSSG → BT.InstrumentSSG) :
    (BT.InstrumentsManager.updateSSG m i g).envFM = m.envFM := by
  unfold BT.InstrumentsManager.updateSSG
  cases h : m.insts i with
  | none => rfl
  | some inst => cases inst <;> rfl

/-- `updateSSG` leaves every pool untouched. -/
theorem updateSSG_lfoFM (m : BT.InstrumentsManager) (i : Nat)
    (g : BT.InstrumentSSG → BT.InstrumentSSG) :
    (BT.InstrumentsManager.updateSSG m i g).lfoFM = m.lfoFM := by
  unfold BT.InstrumentsManager.updateSSG
  cases h : m.insts i with
  | none => rfl
  | some inst => cases inst <;> rfl

/-- `updateSSG` leaves every pool untouched. -/
theorem updateSSG_opSeqFM (m : BT.InstrumentsManager) (i : Nat)
    (g : BT.InstrumentSSG → BT.InstrumentSSG) :
    (BT.InstrumentsManager.updateSSG m i g).opSeqFM = m.opSeqFM := by
  unfold BT.InstrumentsManager.updateSSG
  cases h : m.insts i with
  | none => rfl
  | some inst => cases inst <;> rfl

/-- `updateSSG` leaves every pool untouched. -/
theorem updateSSG_arpFM (m : BT.InstrumentsManager) (i : Nat)
    (g : BT.InstrumentSSG → BT.InstrumentSSG) :
    (BT.InstrumentsManager.updateSSG m i g).arpFM = m.arpFM := by
  unfold BT.InstrumentsManager.updateSSG
  cases h : m.insts i with
  | none => rfl
  | some inst => cases inst <;> rfl

/-- `updateSSG` leaves every pool untouched. -/
theorem updateSSG_ptFM (m : BT.InstrumentsManager) (i : Nat)
    (g : BT.InstrumentSSG → BT.InstrumentSSG) :
    (BT.InstrumentsManager.updateSSG m i g).ptFM = m.ptFM := by
  unfold BT.InstrumentsManager.updateSSG
  cases h : m.insts i with
  | none => rfl
  | some inst => cases inst <;> rfl

/-- `updateSSG` leaves every pool untouched. -/
theorem updateSSG_wfSSG (m : BT.InstrumentsManager) (i : Nat)
    (g : BT.InstrumentSSG → BT.InstrumentSSG) :
    (BT.InstrumentsManager.updateSSG m i g).wfSSG = m.wfSSG := by
  unfold BT.InstrumentsManager.updateSSG
  cases h : m.insts i with
  | none => rfl
  | some inst => cases inst <;> rfl

/-- `updateSSG` leaves every pool untouched. -/
theorem updateSSG_tnSSG (m : BT.InstrumentsManager) (i : Nat)
    (g : BT.InstrumentSSG → BT.InstrumentSSG) :
    (BT.InstrumentsManager.updateSSG m i g).tnSSG = m.tnSSG := by
  unfold BT.InstrumentsManager.updateSSG
  cases h : m.insts i with
  | none => rfl
  | some inst => cases inst <;> rfl

/-- `updateSSG` leaves every pool untouched. -/
theorem updateSSG_envSSG (m : BT.InstrumentsManager) (i : Nat)
    (g : BT.InstrumentSSG → BT.InstrumentSSG) :
    (BT.InstrumentsManager.updateSSG m i g).envSSG = m.envSSG := by
  unfold BT.InstrumentsManager.updateSSG
  cases h : m.insts i with
  | none => rfl
  | some inst => cases inst <;> rfl

/-- `updateSSG` leaves every pool untouched. -/
theorem updateSSG_arpSSG (m : BT.InstrumentsManager) (i : Nat)
    (g : BT.InstrumentSSG → BT.InstrumentSSG) :
    (BT.InstrumentsManager.updateSSG m i g).arpSSG = m.arpSSG := by
  unfold BT.InstrumentsManager.updateSSG
  cases h : m.insts i with
  | none => rfl
  | some inst => cases inst <;> rfl

/-- `updateSSG` leaves every pool untouched. -/
theorem updateSSG_ptSSG (m : BT.InstrumentsManager) (i : Nat)
    (g : BT.InstrumentSSG → BT.InstrumentSSG) :
    (BT.InstrumentsManager.updateSSG m i g).ptSSG = m.ptSSG := by
  unfold BT.InstrumentsManager.updateSSG
  cases h : m.insts i with
  | none => rfl
  | some inst => cases inst <;> rfl

/-- `updateSSG` leaves every pool untouched. -/
theorem updateSSG_wfADPCM (m : BT.InstrumentsManager) (i : Nat)
    (g : BT.InstrumentSSG → BT.InstrumentSSG) :
    (BT.InstrumentsManager.updateSSG m i g).wfADPCM = m.wfADPCM := by
  unfold BT.InstrumentsManager.updateSSG
  cases h : m.insts i with
  | none => rfl
  | some inst => cases inst <;> rfl

/-- `updateSSG` leaves every pool untouched. -/
theorem updateSSG_envADPCM (m : BT.InstrumentsManager) (i : Nat)
    (g : BT.InstrumentSSG → BT.InstrumentSSG) :
    (BT.InstrumentsManager.updateSSG m i g).envADPCM = m.envADPCM := by
  unfold BT.InstrumentsManager.updateSSG
  cases h : m.insts i with
  | none => rfl
  | some inst => cases inst <;> rfl

/-- `updateSSG` leaves every pool untouched. -/
theorem updateSSG_arpADPCM (m : BT.InstrumentsManager) (i : Nat)
    (g : BT.InstrumentSSG → BT.InstrumentSSG) :
    (BT.InstrumentsManager.updateSSG m i g).arpADPCM = m.arpADPCM := by
  unfold BT.InstrumentsManager.updateSSG
  cases h : m.insts i with
  | none => rfl
  | some inst => cases inst <;> rfl

/-- `updateSSG` leaves every pool untouched. -/
theorem updateSSG_ptADPCM (m : BT.InstrumentsManager) (i : Nat)
    (g : BT.InstrumentSSG → BT.InstrumentSSG) :
    (BT.InstrumentsManager.updateSSG m i g).ptADPCM = m.ptADPCM := by
  unfold BT.InstrumentsManager.updateSSG
  cases h : m.insts i with
  | none => rfl
  | some inst => cases inst <;> rfl

/-- `updateADPCM` leaves every pool untouched. -/
theorem updateADPCM_envFM (m : BT.InstrumentsManager) (i : Nat)
    (g : BT.InstrumentADPCM → BT.InstrumentADPCM) :
    (BT.InstrumentsManager.updateADPCM m i g).envFM = m.envFM := by
  unfold BT.InstrumentsManager.updateADPCM
  cases h : m.insts i with
  | none => rfl
  | some inst => cases inst <;> rfl

/-- `updateADPCM` leaves every pool untouched. -/
theorem updateADPCM_lfoFM (m : BT.InstrumentsManager) (i : Nat)
    (g : BT.InstrumentADPCM → BT.InstrumentADPCM) :
    (BT.InstrumentsManager.updateADPCM m i g).lfoFM = m.lfoFM := by
  unfold BT.InstrumentsManager.updateADPCM
  cases h : m.insts i with
  | none => rfl
  | some inst => cases inst <;> rfl

/-- `updateADPCM` leaves every pool untouched. -/
theorem updateADPCM_opSeqFM (m : BT.InstrumentsManager) (i : Nat)
    (g : BT.InstrumentADPCM → BT.InstrumentADPCM) :
    (BT.InstrumentsManager.updateADPCM m i g).opSeqFM = m.opSeqFM := by
  unfold BT.InstrumentsManager.updateADPCM
  cases h : m.insts i with
  | none => rfl
  | some inst => cases inst <;> rfl

/-- `updateADPCM` leaves every pool untouched. -/
theorem updateADPCM_arpFM (m : BT.InstrumentsManager) (i : Nat)
    (g : BT.InstrumentADPCM → BT.InstrumentADPCM) :
    (BT.InstrumentsManager.updateADPCM m i g).arpFM = m.arpFM := by
  unfold BT.InstrumentsManager.updateADPCM
  cases h : m.insts i with
  | none => rfl
  | some inst => cases inst <;> rfl

/-- `updateADPCM` leaves every pool untouched. -/
theorem updateADPCM_ptFM (m : BT.InstrumentsManager) (i : Nat)
    (g : BT.InstrumentADPCM → BT.InstrumentADPCM) :
    (BT.InstrumentsManager.updateADPCM m i g).ptFM = m.ptFM := by
  unfold BT.InstrumentsManager.updateADPCM
  cases h : m.insts i with
  | none => rfl
  | some inst => cases inst <;> rfl

/-- `updateADPCM` leaves every pool untouched. -/
theorem updateADPCM_wfSSG (m : BT.InstrumentsManager) (i : Nat)
    (g : BT.InstrumentADPCM → BT.InstrumentADPCM) :
    (BT.InstrumentsManager.updateADPCM m i g).wfSSG = m.wfSSG := by
  unfold BT.InstrumentsManager.updateADPCM
  cases h : m.insts i with
  | none => rfl
  | some inst => cases inst <;> rfl

/-- `updateADPCM` leaves every pool untouched. -/
theorem updateADPCM_tnSSG (m : BT.InstrumentsManager) (i : Nat)
    (g : BT.InstrumentADPCM → BT.InstrumentADPCM) :
    (BT.InstrumentsManager.updateADPCM m i g).tnSSG = m.tnSSG := by
  unfold BT.InstrumentsManager.updateADPCM
  cases h : m.insts i with
  | none => rfl
  | some inst => cases inst <;> rfl

/-- `updateADPCM` leaves every pool untouched. -/
theorem updateADPCM_envSSG (m : BT.InstrumentsManager) (i : Nat)
    (g : BT.InstrumentADPCM → BT.InstrumentADPCM) :
    (BT.InstrumentsManager.updateADPCM m i g).envSSG = m.envSSG := by
  unfold BT.InstrumentsManager.updateADPCM
  cases h : m.insts i with
  | none => rfl
  | some inst => cases inst <;> rfl

/-- `updateADPCM` leaves every pool untouched. -/
theorem updateADPCM_arpSSG (m : BT.InstrumentsManager) (i : Nat)
    (g : BT.InstrumentADPCM → BT.InstrumentADPCM) :
    (BT.InstrumentsManager.updateADPCM m i g).arpSSG = m.arpSSG := by
  unfold BT.InstrumentsManager.updateADPCM
  cases h : m.insts i with
  | none => rfl
  | some inst => cases inst <;> rfl

/-- `updateADPCM` leaves every pool untouched. -/
theorem updateADPCM_ptSSG (m : BT.InstrumentsManager) (i : Nat)
    (g : BT.InstrumentADPCM → BT.InstrumentADPCM) :
    (BT.InstrumentsManager.updateADPCM m i g).ptSSG = m.ptSSG := by
  unfold BT.InstrumentsManager.updateADPCM
  cases h : m.insts i with
  | none => rfl
  | some inst => cases inst <;> rfl

/-- `updateADPCM` leaves every pool untouched. -/
theorem updateADPCM_wfADPCM (m : BT.InstrumentsManager) (i : Nat)
    (g : BT.InstrumentADPCM → BT.InstrumentADPCM) :
    (BT.InstrumentsManager.updateADPCM m i g).wfADPCM = m.wfADPCM := by
  unfold BT.InstrumentsManager.updateADPCM
  cases h : m.insts i with
  | none => rfl
  | some inst => cases inst <;> rfl

/-- `updateADPCM` leaves every pool untouched. -/
theorem updateADPCM_envADPCM (m : BT.InstrumentsManager) (i : Nat)
    (g : BT.InstrumentADPCM → BT.InstrumentADPCM) :
    (BT.InstrumentsManager.updateADPCM m i g).envADPCM = m.envADPCM := by
  unfold BT.InstrumentsManager.updateADPCM
  cases h : m.insts i with
  | none => rfl
  | some inst => cases inst <;> rfl

/-- `updateADPCM` leaves every pool untouched. -/
theorem updateADPCM_arpADPCM (m : BT.InstrumentsManager) (i : Nat)
    (g : BT.InstrumentADPCM → BT.InstrumentADPCM) :
    (BT.InstrumentsManager.updateADPCM m i g).arpADPCM = m.arpADPCM := by
  unfold BT.InstrumentsManager.updateADPCM
  cases h : m.insts i with
  | none => rfl
  | some inst => cases inst <;> rfl

/-- `updateADPCM` leaves every pool untouched. -/
theorem updateADPCM_ptADPCM (m : BT.InstrumentsManager) (i : Nat)
    (g : BT.InstrumentADPCM → BT.InstrumentADPCM) :
    (BT.InstrumentsManager.updateADPCM m i g).ptADPCM = m.ptADPCM := by
  unfold BT.InstrumentsManager.updateADPCM
  cases h : m.insts i with
  | none => rfl
  | some inst => cases inst <;> rfl

/-- The instrument table after a successful `updateFM`. -/
theorem updateFM_insts (m : BT.InstrumentsManager) (i : Nat)
    (g : BT.InstrumentFM → BT.InstrumentFM) (f : BT.InstrumentFM)
    (hf : m.insts i = some (.fm f)) :
    (BT.InstrumentsManager.updateFM m i g).insts =
      Function.update m.insts i (some (.fm (g f))) := by
  unfold BT.InstrumentsManager.updateFM
  simp only [hf]

/-- The instrument table after a successful `updateSSG`. -/
theorem updateSSG_insts (m : BT.InstrumentsManager) (i : Nat)
    (g : BT.InstrumentSSG → BT.InstrumentSSG) (f : BT.InstrumentSSG)
    (hf : m.insts i = some (.ssg f)) :
    (BT.InstrumentsManager.updateSSG m i g).insts =
      Function.update m.insts i (some (.ssg (g f))) := by
  unfold BT.InstrumentsManager.updateSSG
  simp only [hf]

/-- The instrument table after a successful `updateADPCM`. -/
theorem updateADPCM_insts (m : BT.InstrumentsManager) (i : Nat)
    (g : BT.InstrumentADPCM → BT.InstrumentADPCM) (f : BT.InstrumentADPCM)
    (hf : m.insts i = some (.adpcm f)) :
    (BT.InstrumentsManager.updateADPCM m i g).insts =
      Function.update m.insts i (some (.adpcm (g f))) := by
  unfold BT.InstrumentsManager.updateADPCM
  simp only [hf]

/-- A `Bool` identity used when repointing an always-enabled reference. -/
theorem bool_repoint (x y : Bool) : y = ((x && !x) || y) := by
  cases x <;> cases y <;> rfl

/-- `List.any` is determined by the pointwise values of its predicate. -/
theorem list_any_congr {α : Type} {p q : α → Bool} :
    ∀ (l : List α), (∀ a ∈ l, p a = q a) → l.any p = l.any q := by
  intro l
  induction l with
  | nil => intro _; rfl
  | cons a l ih =>
    intro h
    rw [List.any_cons, List.any_cons, h a (List.mem_cons_self a l),
      ih (fun b hb => h b (List.mem_cons_of_mem a hb))]

/-- `List.any` of an everywhere-false predicate is false. -/
theorem list_any_false {α : Type} {p : α → Bool} :
    ∀ (l : List α), (∀ a ∈ l, p a = false) → l.any p = false := by
  intro l
  induction l with
  | nil => intro _; rfl
  | cons a l ih =>
    intro h
    rw [List.any_cons, h a (List.mem_cons_self a l),
      ih (fun b hb => h b (List.mem_cons_of_mem a hb))]
    rfl

/-- Sync after a disabled-everywhere table entry is overwritten by a record
that points wherever the pool freshly registered it. -/
theorem poolSync_overwrite_register {π : Type} {pool pool' : BT.Pool π}
    {insts : Nat → Option BT.AbstractInstrument}
    {points : BT.AbstractInstrument → Nat → Bool} {n : Nat}
    {a a' : BT.AbstractInstrument}
    (hn128 : n < 128) (hins : insts n = some a)
    (hold : ∀ s, points a s = false)
    (husers : ∀ s, s < 128 → (pool' s).users =
      if points a' s = true then insert n ((pool s).users) else (pool s).users)
    (h : BT.PoolSync pool insts points) :
    BT.PoolSync pool' (Function.update insts n (some a')) points := by
  refine poolSync_transfer hn128 ?_ h
  intro s hs x
  rw [husers s hs]
  have hnm : n ∉ (pool s).users := by
    rw [h s hs, mem_refsOf]
    simp [hins, hold s]
  by_cases hx : x = n
  · subst hx
    by_cases hp : points a' s = true <;> simp [hp, hnm]
  · by_cases hp : points a' s = true <;> simp [hp, hx]

set_option maxHeartbeats 2000000 in
/-- An FM deep clone with a stored clone record is the staged construction. -/
theorem deepCloneFM_eq (m : BT.InstrumentsManager) (c r : Nat)
    (refFm f0 : BT.InstrumentFM)
    (hins : m.insts r = some (.fm refFm))
    (hstored : (m.addInstrument (c : Int) .FM refFm.name).insts c = some (.fm f0)) :
    m.deepCloneInstrument c r =
      BT.dcFMm10 (m.addInstrument (c : Int) .FM refFm.name) f0 refFm c := by
  unfold BT.InstrumentsManager.deepCloneInstrument
  simp only [hins, BT.AbstractInstrument.getSoundSource, BT.AbstractInstrument.getName,
    hstored]
  rfl

set_option maxHeartbeats 2000000 in
/-- An SSG deep clone with a stored clone record is the staged construction. -/
theorem deepCloneSSG_eq (m : BT.InstrumentsManager) (c r : Nat)
    (refSsg s0 : BT.InstrumentSSG)
    (hins : m.insts r = some (.ssg refSsg))
    (hstored : (m.addInstrument (c : Int) .SSG refSsg.name).insts c = some (.ssg s0)) :
    m.deepCloneInstrument c r =
      BT.dcSSGm5 (m.addInstrument (c : Int) .SSG refSsg.name) refSsg c := by
  unfold BT.InstrumentsManager.deepCloneInstrument
  simp only [hins, BT.AbstractInstrument.getSoundSource, BT.AbstractInstrument.getName,
    hstored]
  rfl

set_option maxHeartbeats 2000000 in
/-- An ADPCM deep clone with a stored clone record is the staged construction. -/
theorem deepCloneAD_eq (m : BT.InstrumentsManager) (c r : Nat)
    (refAd a0 : BT.InstrumentADPCM)
    (hins : m.insts r = some (.adpcm refAd))
    (hstored : (m.addInstrument (c : Int) .ADPCM refAd.name).insts c = some (.adpcm a0)) :
    m.deepCloneInstrument c r =
      BT.dcADm6 (m.addInstrument (c : Int) .ADPCM refAd.name) a0 refAd c := by
  unfold BT.InstrumentsManager.deepCloneInstrument
  simp only [hins, BT.AbstractInstrument.getSoundSource, BT.AbstractInstrument.getName,
    hstored]
  rfl
set_option maxHeartbeats 1000000 in
/-- The envelope repoint stage of the FM deep clone preserves the invariant. -/
theorem inv_dcFMm3 (m0 : BT.InstrumentsManager) (f0 refFm : BT.InstrumentFM) (c : Nat)
    (hc : c < 128) (hf0 : m0.insts c = some (.fm f0)) (inv0 : BT.Inv m0) :
    BT.Inv (BT.dcFMm3 m0 f0 refFm c) ∧
    (BT.dcFMm3 m0 f0 refFm c).insts =
      Function.update m0.insts c
        (some (.fm { f0 with envelopeNumber := (BT.dcFMre m0 f0 refFm c).1 })) := by
  have hre : (BT.dcFMre m0 f0 refFm c).2.insts c = some (.fm f0) := hf0
  have hm3i : (BT.dcFMm3 m0 f0 refFm c).insts =
      Function.update m0.insts c
        (some (.fm { f0 with envelopeNumber := (BT.dcFMre m0 f0 refFm c).1 })) :=
    updateFM_insts (BT.dcFMre m0 f0 refFm c).2 c (fun f => { f with envelopeNumber := (BT.dcFMre m0 f0 refFm c).1 }) f0 hre
  have hm2env : (BT.dcFMm2 m0 f0 refFm c).envFM = (BT.dcFMre m0 f0 refFm c).2.envFM :=
    updateFM_envFM (BT.dcFMre m0 f0 refFm c).2 c (fun f => { f with envelopeNumber := (BT.dcFMre m0 f0 refFm c).1 })
  have hm3env : (BT.dcFMm3 m0 f0 refFm c).envFM =
      ((BT.dcFMre m0 f0 refFm c).2.envFM).registerUser (BT.dcFMre m0 f0 refFm c).1 c := by
    show (BT.dcFMm2 m0 f0 refFm c).envFM.registerUser (BT.dcFMre m0 f0 refFm c).1 c =
      ((BT.dcFMre m0 f0 refFm c).2.envFM).registerUser (BT.dcFMre m0 f0 refFm c).1 c
    rw [hm2env]
  have hmid : ∀ s, ((BT.dcFMre m0 f0 refFm c).2.envFM s).users =
      ((m0.envFM.deregisterUser f0.envelopeNumber c) s).users :=
    fun s => users_cloneProp (m0.envFM.deregisterUser f0.envelopeNumber c)
      refFm.envelopeNumber s
  refine ⟨⟨?_, ?_, ?_, ?_, ?_, ?_, ?_, ?_, ?_, ?_, ?_, ?_, ?_, ?_⟩, hm3i⟩
  · rw [hm3env, hm3i]
    exact poolSync_repoint f0.envelopeNumber (BT.dcFMre m0 f0 refFm c).1 hc hf0 hmid
      (fun s => bool_repoint (f0.envelopeNumber == s) ((BT.dcFMre m0 f0 refFm c).1 == s)) inv0.envFM
  · have hq : (BT.dcFMm3 m0 f0 refFm c).lfoFM = m0.lfoFM :=
      updateFM_lfoFM (BT.dcFMre m0 f0 refFm c).2 c (fun f => { f with envelopeNumber := (BT.dcFMre m0 f0 refFm c).1 })
    rw [hq, hm3i]
    exact poolSync_update_irrelevant (fun s => by rw [hf0]; rfl) inv0.lfoFM
  · intro p hp
    have hq : (BT.dcFMm3 m0 f0 refFm c).opSeqFM = m0.opSeqFM :=
      updateFM_opSeqFM (BT.dcFMre m0 f0 refFm c).2 c (fun f => { f with envelopeNumber := (BT.dcFMre m0 f0 refFm c).1 })
    rw [hq, hm3i]
    exact poolSync_update_irrelevant (fun s => by rw [hf0]; rfl) (inv0.opSeqFM p hp)
  · have hq : (BT.dcFMm3 m0 f0 refFm c).arpFM = m0.arpFM :=
      updateFM_arpFM (BT.dcFMre m0 f0 refFm c).2 c (fun f => { f with envelopeNumber := (BT.dcFMre m0 f0 refFm c).1 })
    rw [hq, hm3i]
    exact poolSync_update_irrelevant (fun s => by rw [hf0]; rfl) inv0.arpFM
  · have hq : (BT.dcFMm3 m0 f0 refFm c).ptFM = m0.ptFM :=
      updateFM_ptFM (BT.dcFMre m0 f0 refFm c).2 c (fun f => { f with envelopeNumber := (BT.dcFMre m0 f0 refFm c).1 })
    rw [hq, hm3i]
    exact poolSync_update_irrelevant (fun s => by rw [hf0]; rfl) inv0.ptFM
  · have hq : (BT.dcFMm3 m0 f0 refFm c).wfSSG = m0.wfSSG :=
      updateFM_wfSSG (BT.dcFMre m0 f0 refFm c).2 c (fun f => { f with envelopeNumber := (BT.dcFMre m0 f0 refFm c).1 })
    rw [hq, hm3i]
    exact poolSync_update_irrelevant (fun s => by rw [hf0]; rfl) inv0.wfSSG
  · have hq : (BT.dcFMm3 m0 f0 refFm c).tnSSG = m0.tnSSG :=
      updateFM_tnSSG (BT.dcFMre m0 f0 refFm c).2 c (fun f => { f with envelopeNumber := (BT.dcFMre m0 f0 refFm c).1 })
    rw [hq, hm3i]
    exact poolSync_update_irrelevant (fun s => by rw [hf0]; rfl) inv0.tnSSG
  · have hq : (BT.dcFMm3 m0 f0 refFm c).envSSG = m0.envSSG :=
      updateFM_envSSG (BT.dcFMre m0 f0 refFm c).2 c (fun f => { f with envelopeNumber := (BT.dcFMre m0 f0 refFm c).1 })
    rw [hq, hm3i]
    exact poolSync_update_irrelevant (fun s => by rw [hf0]; rfl) inv0.envSSG
  · have hq : (BT.dcFMm3 m0 f0 refFm c).arpSSG = m0.arpSSG :=
      updateFM_arpSSG (BT.dcFMre m0 f0 refFm c).2 c (fun f => { f with envelopeNumber := (BT.dcFMre m0 f0 refFm c).1 })
    rw [hq, hm3i]
    exact poolSync_update_irrelevant (fun s => by rw [hf0]; rfl) inv0.arpSSG
  · have hq : (BT.dcFMm3 m0 f0 refFm c).ptSSG = m0.ptSSG :=
      updateFM_ptSSG (BT.dcFMre m0 f0 refFm c).2 c (fun f => { f with envelopeNumber := (BT.dcFMre m0 f0 refFm c).1 })
    rw [hq, hm3i]
    exact poolSync_update_irrelevant (fun s => by rw [hf0]; rfl) inv0.ptSSG
  · have hq : (BT.dcFMm3 m0 f0 refFm c).wfADPCM = m0.wfADPCM :=
      updateFM_wfADPCM (BT.dcFMre m0 f0 refFm c).2 c (fun f => { f with envelopeNumber := (BT.dcFMre m0 f0 refFm c).1 })
    rw [hq, hm3i]
    exact poolSync_update_irrelevant (fun s => by rw [hf0]; rfl) inv0.wfADPCM
  · have hq : (BT.dcFMm3 m0 f0 refFm c).envADPCM = m0.envADPCM :=
      updateFM_envADPCM (BT.dcFMre m0 f0 refFm c).2 c (fun f => { f with envelopeNumber := (BT.dcFMre m0 f0 refFm c).1 })
    rw [hq, hm3i]
    exact poolSync_update_irrelevant (fun s => by rw [hf0]; rfl) inv0.envADPCM
  · have hq : (BT.dcFMm3 m0 f0 refFm c).arpADPCM = m0.arpADPCM :=
      updateFM_arpADPCM (BT.dcFMre m0 f0 refFm c).2 c (fun f => { f with envelopeNumber := (BT.dcFMre m0 f0 refFm c).1 })
    rw [hq, hm3i]
    exact poolSync_update_irrelevant (fun s => by rw [hf0]; rfl) inv0.arpADPCM
  · have hq : (BT.dcFMm3 m0 f0 refFm c).ptADPCM = m0.ptADPCM :=
      updateFM_ptADPCM (BT.dcFMre m0 f0 refFm c).2 c (fun f => { f with envelopeNumber := (BT.dcFMre m0 f0 refFm c).1 })
    rw [hq, hm3i]
    exact poolSync_update_irrelevant (fun s => by rw [hf0]; rfl) inv0.ptADPCM
set_option maxHeartbeats 2000000 in
/-- The lfoFM deep-clone block preserves the invariant: the prior flag is
disabled, so the freshly registered slot is the record's only reference. -/
theorem inv_dcBlock_lfoFM (M : BT.InstrumentsManager) (refFm : BT.InstrumentFM) (c : Nat)
    (hc : c < 128) (f : BT.InstrumentFM) (hf : M.insts c = some (.fm f))
    (hflag : f.lfoEnabled = false) (inv : BT.Inv M) :
    BT.Inv (if refFm.lfoEnabled then { (BT.InstrumentsManager.updateFM ((BT.InstrumentsManager.updateFM M c (fun f => { f with lfoEnabled := true })).cloneFMLFO refFm.lfoNumber).2 c (fun f => { f with lfoNumber := ((BT.InstrumentsManager.updateFM M c (fun f => { f with lfoEnabled := true })).cloneFMLFO refFm.lfoNumber).1 })) with lfoFM := (BT.InstrumentsManager.updateFM ((BT.InstrumentsManager.updateFM M c (fun f => { f with lfoEnabled := true })).cloneFMLFO refFm.lfoNumber).2 c (fun f => { f with lfoNumber := ((BT.InstrumentsManager.updateFM M c (fun f => { f with lfoEnabled := true })).cloneFMLFO refFm.lfoNumber).1 })).lfoFM.registerUser ((BT.InstrumentsManager.updateFM M c (fun f => { f with lfoEnabled := true })).cloneFMLFO refFm.lfoNumber).1 c } else M) ∧
    ∃ f', ((if refFm.lfoEnabled then { (BT.InstrumentsManager.updateFM ((BT.InstrumentsManager.updateFM M c (fun f => { f with lfoEnabled := true })).cloneFMLFO refFm.lfoNumber).2 c (fun f => { f with lfoNumber := ((BT.InstrumentsManager.updateFM M c (fun f => { f with lfoEnabled := true })).cloneFMLFO refFm.lfoNumber).1 })) with lfoFM := (BT.InstrumentsManager.updateFM ((BT.InstrumentsManager.updateFM M c (fun f => { f with lfoEnabled := true })).cloneFMLFO refFm.lfoNumber).2 c (fun f => { f with lfoNumber := ((BT.InstrumentsManager.updateFM M c (fun f => { f with lfoEnabled := true })).cloneFMLFO refFm.lfoNumber).1 })).lfoFM.registerUser ((BT.InstrumentsManager.updateFM M c (fun f => { f with lfoEnabled := true })).cloneFMLFO refFm.lfoNumber).1 c } else M)).insts c = some (.fm f') ∧
      f'.opSeqEnabled = f.opSeqEnabled ∧
      f'.arpEnabled = f.arpEnabled ∧
      f'.ptEnabled = f.ptEnabled := by
  by_cases hb : refFm.lfoEnabled = true
  · rw [if_pos hb]
    have hma_i : (BT.InstrumentsManager.updateFM M c (fun f => { f with lfoEnabled := true })).insts = Function.update M.insts c (some (.fm { f with lfoEnabled := true })) :=
      updateFM_insts M c (fun f => { f with lfoEnabled := true }) f hf
    have hma_c : (BT.InstrumentsManager.updateFM M c (fun f => { f with lfoEnabled := true })).insts c = some (.fm { f with lfoEnabled := true }) := by
      rw [hma_i]
      exact Function.update_same c _ M.insts
    have hrl_c : ((BT.InstrumentsManager.updateFM M c (fun f => { f with lfoEnabled := true })).cloneFMLFO refFm.lfoNumber).2.insts c = some (.fm { f with lfoEnabled := true }) := hma_c
    have hmb_i : (BT.InstrumentsManager.updateFM ((BT.InstrumentsManager.updateFM M c (fun f => { f with lfoEnabled := true })).cloneFMLFO refFm.lfoNumber).2 c (fun f => { f with lfoNumber := ((BT.InstrumentsManager.updateFM M c (fun f => { f with lfoEnabled := true })).cloneFMLFO refFm.lfoNumber).1 })).insts = Function.update ((BT.InstrumentsManager.updateFM M c (fun f => { f with lfoEnabled := true })).cloneFMLFO refFm.lfoNumber).2.insts c
        (some (.fm { { f with lfoEnabled := true } with lfoNumber := ((BT.InstrumentsManager.updateFM M c (fun f => { f with lfoEnabled := true })).cloneFMLFO refFm.lfoNumber).1 })) :=
      updateFM_insts ((BT.InstrumentsManager.updateFM M c (fun f => { f with lfoEnabled := true })).cloneFMLFO refFm.lfoNumber).2 c (fun f => { f with lfoNumber := ((BT.InstrumentsManager.updateFM M c (fun f => { f with lfoEnabled := true })).cloneFMLFO refFm.lfoNumber).1 }) { f with lfoEnabled := true } hrl_c
    have hfin_i : ({ (BT.InstrumentsManager.updateFM ((BT.InstrumentsManager.updateFM M c (fun f => { f with lfoEnabled := true })).cloneFMLFO refFm.lfoNumber).2 c (fun f => { f with lfoNumber := ((BT.InstrumentsManager.updateFM M c (fun f => { f with lfoEnabled := true })).cloneFMLFO refFm.lfoNumber).1 })) with lfoFM := (BT.InstrumentsManager.updateFM ((BT.InstrumentsManager.updateFM M c (fun f => { f with lfoEnabled := true })).cloneFMLFO refFm.lfoNumber).2 c (fun f => { f with lfoNumber := ((BT.InstrumentsManager.updateFM M c (fun f => { f with lfoEnabled := true })).cloneFMLFO refFm.lfoNumber).1 })).lfoFM.registerUser ((BT.InstrumentsManager.updateFM M c (fun f => { f with lfoEnabled := true })).cloneFMLFO refFm.lfoNumber).1 c }).insts = Function.update M.insts c (some (.fm { f with lfoEnabled := true, lfoNumber := ((BT.InstrumentsManager.updateFM M c (fun f => { f with lfoEnabled := true })).cloneFMLFO refFm.lfoNumber).1 })) := by
      show (BT.InstrumentsManager.updateFM ((BT.InstrumentsManager.updateFM M c (fun f => { f with lfoEnabled := true })).cloneFMLFO refFm.lfoNumber).2 c (fun f => { f with lfoNumber := ((BT.InstrumentsManager.updateFM M c (fun f => { f with lfoEnabled := true })).cloneFMLFO refFm.lfoNumber).1 })).insts = _
      rw [hmb_i]
      show Function.update (BT.InstrumentsManager.updateFM M c (fun f => { f with lfoEnabled := true })).insts c (some (.fm { f with lfoEnabled := true, lfoNumber := ((BT.InstrumentsManager.updateFM M c (fun f => { f with lfoEnabled := true })).cloneFMLFO refFm.lfoNumber).1 })) = _
      rw [hma_i, Function.update_idem]
    have hfin_pool : ({ (BT.InstrumentsManager.updateFM ((BT.InstrumentsManager.updateFM M c (fun f => { f with lfoEnabled := true })).cloneFMLFO refFm.lfoNumber).2 c (fun f => { f with lfoNumber := ((BT.InstrumentsManager.updateFM M c (fun f => { f with lfoEnabled := true })).cloneFMLFO refFm.lfoNumber).1 })) with lfoFM := (BT.InstrumentsManager.updateFM ((BT.InstrumentsManager.updateFM M c (fun f => { f with lfoEnabled := true })).cloneFMLFO refFm.lfoNumber).2 c (fun f => { f with lfoNumber := ((BT.InstrumentsManager.updateFM M c (fun f => { f with lfoEnabled := true })).cloneFMLFO refFm.lfoNumber).1 })).lfoFM.registerUser ((BT.InstrumentsManager.updateFM M c (fun f => { f with lfoEnabled := true })).cloneFMLFO refFm.lfoNumber).1 c }).lfoFM =
        (((BT.InstrumentsManager.updateFM M c (fun f => { f with lfoEnabled := true })).lfoFM.cloneProp refFm.lfoNumber).2).registerUser ((BT.InstrumentsManager.updateFM M c (fun f => { f with lfoEnabled := true })).cloneFMLFO refFm.lfoNumber).1 c := by
      show (BT.InstrumentsManager.updateFM ((BT.InstrumentsManager.updateFM M c (fun f => { f with lfoEnabled := true })).cloneFMLFO refFm.lfoNumber).2 c (fun f => { f with lfoNumber := ((BT.InstrumentsManager.updateFM M c (fun f => { f with lfoEnabled := true })).cloneFMLFO refFm.lfoNumber).1 })).lfoFM.registerUser ((BT.InstrumentsManager.updateFM M c (fun f => { f with lfoEnabled := true })).cloneFMLFO refFm.lfoNumber).1 c = _
      rw [updateFM_lfoFM ((BT.InstrumentsManager.updateFM M c (fun f => { f with lfoEnabled := true })).cloneFMLFO refFm.lfoNumber).2 c (fun f => { f with lfoNumber := ((BT.InstrumentsManager.updateFM M c (fun f => { f with lfoEnabled := true })).cloneFMLFO refFm.lfoNumber).1 })]
      rfl
    have hold : ∀ s, BT.fmLfoPoints (.fm f) s = false := by
      intro s
      show (f.lfoEnabled && (f.lfoNumber == s)) = false
      rw [hflag]
      rfl
    have husers : ∀ s, s < 128 → (({ (BT.InstrumentsManager.updateFM ((BT.InstrumentsManager.updateFM M c (fun f => { f with lfoEnabled := true })).cloneFMLFO refFm.lfoNumber).2 c (fun f => { f with lfoNumber := ((BT.InstrumentsManager.updateFM M c (fun f => { f with lfoEnabled := true })).cloneFMLFO refFm.lfoNumber).1 })) with lfoFM := (BT.InstrumentsManager.updateFM ((BT.InstrumentsManager.updateFM M c (fun f => { f with lfoEnabled := true })).cloneFMLFO refFm.lfoNumber).2 c (fun f => { f with lfoNumber := ((BT.InstrumentsManager.updateFM M c (fun f => { f with lfoEnabled := true })).cloneFMLFO refFm.lfoNumber).1 })).lfoFM.registerUser ((BT.InstrumentsManager.updateFM M c (fun f => { f with lfoEnabled := true })).cloneFMLFO refFm.lfoNumber).1 c }).lfoFM s).users =
        if BT.fmLfoPoints (.fm { f with lfoEnabled := true, lfoNumber := ((BT.InstrumentsManager.updateFM M c (fun f => { f with lfoEnabled := true })).cloneFMLFO refFm.lfoNumber).1 }) s = true
        then insert c ((M.lfoFM s).users) else (M.lfoFM s).users := by
      intro s hs
      rw [hfin_pool, users_registerUser, users_cloneProp, users_cloneProp]
      rw [updateFM_lfoFM M c (fun f => { f with lfoEnabled := true })]
      by_cases hp : BT.fmLfoPoints (.fm { f with lfoEnabled := true, lfoNumber := ((BT.InstrumentsManager.updateFM M c (fun f => { f with lfoEnabled := true })).cloneFMLFO refFm.lfoNumber).1 }) s = true
      · rw [if_pos hp]
        have h2 : (true && (((BT.InstrumentsManager.updateFM M c (fun f => { f with lfoEnabled := true })).cloneFMLFO refFm.lfoNumber).1 == s)) = true := hp
        rw [Bool.true_and, beq_iff_eq] at h2
        rw [if_pos h2.symm, h2]
      · rw [if_neg hp]
        have hsne : ¬ s = ((BT.InstrumentsManager.updateFM M c (fun f => { f with lfoEnabled := true })).cloneFMLFO refFm.lfoNumber).1 := by
          intro hseq
          apply hp
          show (true && (((BT.InstrumentsManager.updateFM M c (fun f => { f with lfoEnabled := true })).cloneFMLFO refFm.lfoNumber).1 == s)) = true
          rw [hseq]
          simp
        rw [if_neg hsne]
    refine ⟨⟨?_, ?_, ?_, ?_, ?_, ?_, ?_, ?_, ?_, ?_, ?_, ?_, ?_, ?_⟩,
      { f with lfoEnabled := true, lfoNumber := ((BT.InstrumentsManager.updateFM M c (fun f => { f with lfoEnabled := true })).cloneFMLFO refFm.lfoNumber).1 }, by
        rw [hfin_i]
        exact Function.update_same c _ M.insts, rfl, rfl, rfl⟩
    · have hFq : ({ (BT.InstrumentsManager.updateFM ((BT.InstrumentsManager.updateFM M c (fun f => { f with lfoEnabled := true })).cloneFMLFO refFm.lfoNumber).2 c (fun f => { f with lfoNumber := ((BT.InstrumentsManager.updateFM M c (fun f => { f with lfoEnabled := true })).cloneFMLFO refFm.lfoNumber).1 })) with lfoFM := (BT.InstrumentsManager.updateFM ((BT.InstrumentsManager.updateFM M c (fun f => { f with lfoEnabled := true })).cloneFMLFO refFm.lfoNumber).2 c (fun f => { f with lfoNumber := ((BT.InstrumentsManager.updateFM M c (fun f => { f with lfoEnabled := true })).cloneFMLFO refFm.lfoNumber).1 })).lfoFM.registerUser ((BT.InstrumentsManager.updateFM M c (fun f => { f with lfoEnabled := true })).cloneFMLFO refFm.lfoNumber).1 c }).envFM = M.envFM := by
        show (BT.InstrumentsManager.updateFM ((BT.InstrumentsManager.updateFM M c (fun f => { f with lfoEnabled := true })).cloneFMLFO refFm.lfoNumber).2 c (fun f => { f with lfoNumber := ((BT.InstrumentsManager.updateFM M c (fun f => { f with lfoEnabled := true })).cloneFMLFO refFm.lfoNumber).1 })).envFM = M.envFM
        rw [updateFM_envFM ((BT.InstrumentsManager.updateFM M c (fun f => { f with lfoEnabled := true })).cloneFMLFO refFm.lfoNumber).2 c (fun f => { f with lfoNumber := ((BT.InstrumentsManager.updateFM M c (fun f => { f with lfoEnabled := true })).cloneFMLFO refFm.lfoNumber).1 })]
        rw [show ((BT.InstrumentsManager.updateFM M c (fun f => { f with lfoEnabled := true })).cloneFMLFO refFm.lfoNumber).2.envFM = (BT.InstrumentsManager.updateFM M c (fun f => { f with lfoEnabled := true })).envFM from rfl]
        rw [updateFM_envFM M c (fun f => { f with lfoEnabled := true })]
      rw [hFq, hfin_i]
      exact poolSync_update_irrelevant (fun s => by rw [hf]; rfl) inv.envFM
    · rw [hfin_i]
      exact poolSync_overwrite_register hc hf hold husers inv.lfoFM
    · intro p hp
      have hFq : ({ (BT.InstrumentsManager.updateFM ((BT.InstrumentsManager.updateFM M c (fun f => { f with lfoEnabled := true })).cloneFMLFO refFm.lfoNumber).2 c (fun f => { f with lfoNumber := ((BT.InstrumentsManager.updateFM M c (fun f => { f with lfoEnabled := true })).cloneFMLFO refFm.lfoNumber).1 })) with lfoFM := (BT.InstrumentsManager.updateFM ((BT.InstrumentsManager.updateFM M c (fun f => { f with lfoEnabled := true })).cloneFMLFO refFm.lfoNumber).2 c (fun f => { f with lfoNumber := ((BT.InstrumentsManager.updateFM M c (fun f => { f with lfoEnabled := true })).cloneFMLFO refFm.lfoNumber).1 })).lfoFM.registerUser ((BT.InstrumentsManager.updateFM M c (fun f => { f with lfoEnabled := true })).cloneFMLFO refFm.lfoNumber).1 c }).opSeqFM = M.opSeqFM := by
        show (BT.InstrumentsManager.updateFM ((BT.InstrumentsManager.updateFM M c (fun f => { f with lfoEnabled := true })).cloneFMLFO refFm.lfoNumber).2 c (fun f => { f with lfoNumber := ((BT.InstrumentsManager.updateFM M c (fun f => { f with lfoEnabled := true })).cloneFMLFO refFm.lfoNumber).1 })).opSeqFM = M.opSeqFM
        rw [updateFM_opSeqFM ((BT.InstrumentsManager.updateFM M c (fun f => { f with lfoEnabled := true })).cloneFMLFO refFm.lfoNumber).2 c (fun f => { f with lfoNumber := ((BT.InstrumentsManager.updateFM M c (fun f => { f with lfoEnabled := true })).cloneFMLFO refFm.lfoNumber).1 })]
        rw [show ((BT.InstrumentsManager.updateFM M c (fun f => { f with lfoEnabled := true })).cloneFMLFO refFm.lfoNumber).2.opSeqFM = (BT.InstrumentsManager.updateFM M c (fun f => { f with lfoEnabled := true })).opSeqFM from rfl]
        rw [updateFM_opSeqFM M c (fun f => { f with lfoEnabled := true })]
      rw [hFq, hfin_i]
      exact poolSync_update_irrelevant (fun s => by rw [hf]; rfl) (inv.opSeqFM p hp)
    · have hFq : ({ (BT.InstrumentsManager.updateFM ((BT.InstrumentsManager.updateFM M c (fun f => { f with lfoEnabled := true })).cloneFMLFO refFm.lfoNumber).2 c (fun f => { f with lfoNumber := ((BT.InstrumentsManager.updateFM M c (fun f => { f with lfoEnabled := true })).cloneFMLFO refFm.lfoNumber).1 })) with lfoFM := (BT.InstrumentsManager.updateFM ((BT.InstrumentsManager.updateFM M c (fun f => { f with lfoEnabled := true })).cloneFMLFO refFm.lfoNumber).2 c (fun f => { f with lfoNumber := ((BT.InstrumentsManager.updateFM M c (fun f => { f with lfoEnabled := true })).cloneFMLFO refFm.lfoNumber).1 })).lfoFM.registerUser ((BT.InstrumentsManager.updateFM M c (fun f => { f with lfoEnabled := true })).cloneFMLFO refFm.lfoNumber).1 c }).arpFM = M.arpFM := by
        show (BT.InstrumentsManager.updateFM ((BT.InstrumentsManager.updateFM M c (fun f => { f with lfoEnabled := true })).cloneFMLFO refFm.lfoNumber).2 c (fun f => { f with lfoNumber := ((BT.InstrumentsManager.updateFM M c (fun f => { f with lfoEnabled := true })).cloneFMLFO refFm.lfoNumber).1 })).arpFM = M.arpFM
        rw [updateFM_arpFM ((BT.InstrumentsManager.updateFM M c (fun f => { f with lfoEnabled := true })).cloneFMLFO refFm.lfoNumber).2 c (fun f => { f with lfoNumber := ((BT.InstrumentsManager.updateFM M c (fun f => { f with lfoEnabled := true })).cloneFMLFO refFm.lfoNumber).1 })]
        rw [show ((BT.InstrumentsManager.updateFM M c (fun f => { f with lfoEnabled := true })).cloneFMLFO refFm.lfoNumber).2.arpFM = (BT.InstrumentsManager.updateFM M c (fun f => { f with lfoEnabled := true })).arpFM from rfl]
        rw [updateFM_arpFM M c (fun f => { f with lfoEnabled := true })]
      rw [hFq, hfin_i]
      exact poolSync_update_irrelevant (fun s => by rw [hf]; rfl) inv.arpFM
    · have hFq : ({ (BT.InstrumentsManager.updateFM ((BT.InstrumentsManager.updateFM M c (fun f => { f with lfoEnabled := true })).cloneFMLFO refFm.lfoNumber).2 c (fun f => { f with lfoNumber := ((BT.InstrumentsManager.updateFM M c (fun f => { f with lfoEnabled := true })).cloneFMLFO refFm.lfoNumber).1 })) with lfoFM := (BT.InstrumentsManager.updateFM ((BT.InstrumentsManager.updateFM M c (fun f => { f with lfoEnabled := true })).cloneFMLFO refFm.lfoNumber).2 c (fun f => { f with lfoNumber := ((BT.InstrumentsManager.updateFM M c (fun f => { f with lfoEnabled := true })).cloneFMLFO refFm.lfoNumber).1 })).lfoFM.registerUser ((BT.InstrumentsManager.updateFM M c (fun f => { f with lfoEnabled := true })).cloneFMLFO refFm.lfoNumber).1 c }).ptFM = M.ptFM := by
        show (BT.InstrumentsManager.updateFM ((BT.InstrumentsManager.updateFM M c (fun f => { f with lfoEnabled := true })).cloneFMLFO refFm.lfoNumber).2 c (fun f => { f with lfoNumber := ((BT.InstrumentsManager.updateFM M c (fun f => { f with lfoEnabled := true })).cloneFMLFO refFm.lfoNumber).1 })).ptFM = M.ptFM
        rw [updateFM_ptFM ((BT.InstrumentsManager.updateFM M c (fun f => { f with lfoEnabled := true })).cloneFMLFO refFm.lfoNumber).2 c (fun f => { f with lfoNumber := ((BT.InstrumentsManager.updateFM M c (fun f => { f with lfoEnabled := true })).cloneFMLFO refFm.lfoNumber).1 })]
        rw [show ((BT.InstrumentsManager.updateFM M c (fun f => { f with lfoEnabled := true })).cloneFMLFO refFm.lfoNumber).2.ptFM = (BT.InstrumentsManager.updateFM M c (fun f => { f with lfoEnabled := true })).ptFM from rfl]
        rw [updateFM_ptFM M c (fun f => { f with lfoEnabled := true })]
      rw [hFq, hfin_i]
      exact poolSync_update_irrelevant (fun s => by rw [hf]; rfl) inv.ptFM
    · have hFq : ({ (BT.InstrumentsManager.updateFM ((BT.InstrumentsManager.updateFM M c (fun f => { f with lfoEnabled := true })).cloneFMLFO refFm.lfoNumber).2 c (fun f => { f with lfoNumber := ((BT.InstrumentsManager.updateFM M c (fun f => { f with lfoEnabled := true })).cloneFMLFO refFm.lfoNumber).1 })) with lfoFM := (BT.InstrumentsManager.updateFM ((BT.InstrumentsManager.updateFM M c (fun f => { f with lfoEnabled := true })).cloneFMLFO refFm.lfoNumber).2 c (fun f => { f with lfoNumber := ((BT.InstrumentsManager.updateFM M c (fun f => { f with lfoEnabled := true })).cloneFMLFO refFm.lfoNumber).1 })).lfoFM.registerUser ((BT.InstrumentsManager.updateFM M c (fun f => { f with lfoEnabled := true })).cloneFMLFO refFm.lfoNumber).1 c }).wfSSG = M.wfSSG := by
        show (BT.InstrumentsManager.updateFM ((BT.InstrumentsManager.updateFM M c (fun f => { f with lfoEnabled := true })).cloneFMLFO refFm.lfoNumber).2 c (fun f => { f with lfoNumber := ((BT.InstrumentsManager.updateFM M c (fun f => { f with lfoEnabled := true })).cloneFMLFO refFm.lfoNumber).1 })).wfSSG = M.wfSSG
        rw [updateFM_wfSSG ((BT.InstrumentsManager.updateFM M c (fun f => { f with lfoEnabled := true })).cloneFMLFO refFm.lfoNumber).2 c (fun f => { f with lfoNumber := ((BT.InstrumentsManager.updateFM M c (fun f => { f with lfoEnabled := true })).cloneFMLFO refFm.lfoNumber).1 })]
        rw [show ((BT.InstrumentsManager.updateFM M c (fun f => { f with lfoEnabled := true })).cloneFMLFO refFm.lfoNumber).2.wfSSG = (BT.InstrumentsManager.updateFM M c (fun f => { f with lfoEnabled := true })).wfSSG from rfl]
        rw [updateFM_wfSSG M c (fun f => { f with lfoEnabled := true })]
      rw [hFq, hfin_i]
      exact poolSync_update_irrelevant (fun s => by rw [hf]; rfl) inv.wfSSG
    · have hFq : ({ (BT.InstrumentsManager.updateFM ((BT.InstrumentsManager.updateFM M c (fun f => { f with lfoEnabled := true })).cloneFMLFO refFm.lfoNumber).2 c (fun f => { f with lfoNumber := ((BT.InstrumentsManager.updateFM M c (fun f => { f with lfoEnabled := true })).cloneFMLFO refFm.lfoNumber).1 })) with lfoFM := (BT.InstrumentsManager.updateFM ((BT.InstrumentsManager.updateFM M c (fun f => { f with lfoEnabled := true })).cloneFMLFO refFm.lfoNumber).2 c (fun f => { f with lfoNumber := ((BT.InstrumentsManager.updateFM M c (fun f => { f with lfoEnabled := true })).cloneFMLFO refFm.lfoNumber).1 })).lfoFM.registerUser ((BT.InstrumentsManager.updateFM M c (fun f => { f with lfoEnabled := true })).cloneFMLFO refFm.lfoNumber).1 c }).tnSSG = M.tnSSG := by
        show (BT.InstrumentsManager.updateFM ((BT.InstrumentsManager.updateFM M c (fun f => { f with lfoEnabled := true })).cloneFMLFO refFm.lfoNumber).2 c (fun f => { f with lfoNumber := ((BT.InstrumentsManager.updateFM M c (fun f => { f with lfoEnabled := true })).cloneFMLFO refFm.lfoNumber).1 })).tnSSG = M.tnSSG
        rw [updateFM_tnSSG ((BT.InstrumentsManager.updateFM M c (fun f => { f with lfoEnabled := true })).cloneFMLFO refFm.lfoNumber).2 c (fun f => { f with lfoNumber := ((BT.InstrumentsManager.updateFM M c (fun f => { f with lfoEnabled := true })).cloneFMLFO refFm.lfoNumber).1 })]
        rw [show ((BT.InstrumentsManager.updateFM M c (fun f => { f with lfoEnabled := true })).cloneFMLFO refFm.lfoNumber).2.tnSSG = (BT.InstrumentsManager.updateFM M c (fun f => { f with lfoEnabled := true })).tnSSG from rfl]
        rw [updateFM_tnSSG M c (fun f => { f with lfoEnabled := true })]
      rw [hFq, hfin_i]
      exact poolSync_update_irrelevant (fun s => by rw [hf]; rfl) inv.tnSSG
    · have hFq : ({ (BT.InstrumentsManager.updateFM ((BT.InstrumentsManager.updateFM M c (fun f => { f with lfoEnabled := true })).cloneFMLFO refFm.lfoNumber).2 c (fun f => { f with lfoNumber := ((BT.InstrumentsManager.updateFM M c (fun f => { f with lfoEnabled := true })).cloneFMLFO refFm.lfoNumber).1 })) with lfoFM := (BT.InstrumentsManager.updateFM ((BT.InstrumentsManager.updateFM M c (fun f => { f with lfoEnabled := true })).cloneFMLFO refFm.lfoNumber).2 c (fun f => { f with lfoNumber := ((BT.InstrumentsManager.updateFM M c (fun f => { f with lfoEnabled := true })).cloneFMLFO refFm.lfoNumber).1 })).lfoFM.registerUser ((BT.InstrumentsManager.updateFM M c (fun f => { f with lfoEnabled := true })).cloneFMLFO refFm.lfoNumber).1 c }).envSSG = M.envSSG := by
        show (BT.InstrumentsManager.updateFM ((BT.InstrumentsManager.updateFM M c (fun f => { f with lfoEnabled := true })).cloneFMLFO refFm.lfoNumber).2 c (fun f => { f with lfoNumber := ((BT.InstrumentsManager.updateFM M c (fun f => { f with lfoEnabled := true })).cloneFMLFO refFm.lfoNumber).1 })).envSSG = M.envSSG
        rw [updateFM_envSSG ((BT.InstrumentsManager.updateFM M c (fun f => { f with lfoEnabled := true })).cloneFMLFO refFm.lfoNumber).2 c (fun f => { f with lfoNumber := ((BT.InstrumentsManager.updateFM M c (fun f => { f with lfoEnabled := true })).cloneFMLFO refFm.lfoNumber).1 })]
        rw [show ((BT.InstrumentsManager.updateFM M c (fun f => { f with lfoEnabled := true })).cloneFMLFO refFm.lfoNumber).2.envSSG = (BT.InstrumentsManager.updateFM M c (fun f => { f with lfoEnabled := true })).envSSG from rfl]
        rw [updateFM_envSSG M c (fun f => { f with lfoEnabled := true })]
      rw [hFq, hfin_i]
      exact poolSync_update_irrelevant (fun s => by rw [hf]; rfl) inv.envSSG
    · have hFq : ({ (BT.InstrumentsManager.updateFM ((BT.InstrumentsManager.updateFM M c (fun f => { f with lfoEnabled := true })).cloneFMLFO refFm.lfoNumber).2 c (fun f => { f with lfoNumber := ((BT.InstrumentsManager.updateFM M c (fun f => { f with lfoEnabled := true })).cloneFMLFO refFm.lfoNumber).1 })) with lfoFM := (BT.InstrumentsManager.updateFM ((BT.InstrumentsManager.updateFM M c (fun f => { f with lfoEnabled := true })).cloneFMLFO refFm.lfoNumber).2 c (fun f => { f with lfoNumber := ((BT.InstrumentsManager.updateFM M c (fun f => { f with lfoEnabled := true })).cloneFMLFO refFm.lfoNumber).1 })).lfoFM.registerUser ((BT.InstrumentsManager.updateFM M c (fun f => { f with lfoEnabled := true })).cloneFMLFO refFm.lfoNumber).1 c }).arpSSG = M.arpSSG := by
        show (BT.InstrumentsManager.updateFM ((BT.InstrumentsManager.updateFM M c (fun f => { f with lfoEnabled := true })).cloneFMLFO refFm.lfoNumber).2 c (fun f => { f with lfoNumber := ((BT.InstrumentsManager.updateFM M c (fun f => { f with lfoEnabled := true })).cloneFMLFO refFm.lfoNumber).1 })).arpSSG = M.arpSSG
        rw [updateFM_arpSSG ((BT.InstrumentsManager.updateFM M c (fun f => { f with lfoEnabled := true })).cloneFMLFO refFm.lfoNumber).2 c (fun f => { f with lfoNumber := ((BT.InstrumentsManager.updateFM M c (fun f => { f with lfoEnabled := true })).cloneFMLFO refFm.lfoNumber).1 })]
        rw [show ((BT.InstrumentsManager.updateFM M c (fun f => { f with lfoEnabled := true })).cloneFMLFO refFm.lfoNumber).2.arpSSG = (BT.InstrumentsManager.updateFM M c (fun f => { f with lfoEnabled := true })).arpSSG from rfl]
        rw [updateFM_arpSSG M c (fun f => { f with lfoEnabled := true })]
      rw [hFq, hfin_i]
      exact poolSync_update_irrelevant (fun s => by rw [hf]; rfl) inv.arpSSG
    · have hFq : ({ (BT.InstrumentsManager.updateFM ((BT.InstrumentsManager.updateFM M c (fun f => { f with lfoEnabled := true })).cloneFMLFO refFm.lfoNumber).2 c (fun f => { f with lfoNumber := ((BT.InstrumentsManager.updateFM M c (fun f => { f with lfoEnabled := true })).cloneFMLFO refFm.lfoNumber).1 })) with lfoFM := (BT.InstrumentsManager.updateFM ((BT.InstrumentsManager.updateFM M c (fun f => { f with lfoEnabled := true })).cloneFMLFO refFm.lfoNumber).2 c (fun f => { f with lfoNumber := ((BT.InstrumentsManager.updateFM M c (fun f => { f with lfoEnabled := true })).cloneFMLFO refFm.lfoNumber).1 })).lfoFM.registerUser ((BT.InstrumentsManager.updateFM M c (fun f => { f with lfoEnabled := true })).cloneFMLFO refFm.lfoNumber).1 c }).ptSSG = M.ptSSG := by
        show (BT.InstrumentsManager.updateFM ((BT.InstrumentsManager.updateFM M c (fun f => { f with lfoEnabled := true })).cloneFMLFO refFm.lfoNumber).2 c (fun f => { f with lfoNumber := ((BT.InstrumentsManager.updateFM M c (fun f => { f with lfoEnabled := true })).cloneFMLFO refFm.lfoNumber).1 })).ptSSG = M.ptSSG
        rw [updateFM_ptSSG ((BT.InstrumentsManager.updateFM M c (fun f => { f with lfoEnabled := true })).cloneFMLFO refFm.lfoNumber).2 c (fun f => { f with lfoNumber := ((BT.InstrumentsManager.updateFM M c (fun f => { f with lfoEnabled := true })).cloneFMLFO refFm.lfoNumber).1 })]
        rw [show ((BT.InstrumentsManager.updateFM M c (fun f => { f with lfoEnabled := true })).cloneFMLFO refFm.lfoNumber).2.ptSSG = (BT.InstrumentsManager.updateFM M c (fun f => { f with lfoEnabled := true })).ptSSG from rfl]
        rw [updateFM_ptSSG M c (fun f => { f with lfoEnabled := true })]
      rw [hFq, hfin_i]
      exact poolSync_update_irrelevant (fun s => by rw [hf]; rfl) inv.ptSSG
    · have hFq : ({ (BT.InstrumentsManager.updateFM ((BT.InstrumentsManager.updateFM M c (fun f => { f with lfoEnabled := true })).cloneFMLFO refFm.lfoNumber).2 c (fun f => { f with lfoNumber := ((BT.InstrumentsManager.updateFM M c (fun f => { f with lfoEnabled := true })).cloneFMLFO refFm.lfoNumber).1 })) with lfoFM := (BT.InstrumentsManager.updateFM ((BT.InstrumentsManager.updateFM M c (fun f => { f with lfoEnabled := true })).cloneFMLFO refFm.lfoNumber).2 c (fun f => { f with lfoNumber := ((BT.InstrumentsManager.updateFM M c (fun f => { f with lfoEnabled := true })).cloneFMLFO refFm.lfoNumber).1 })).lfoFM.registerUser ((BT.InstrumentsManager.updateFM M c (fun f => { f with lfoEnabled := true })).cloneFMLFO refFm.lfoNumber).1 c }).wfADPCM = M.wfADPCM := by
        show (BT.InstrumentsManager.updateFM ((BT.InstrumentsManager.updateFM M c (fun f => { f with lfoEnabled := true })).cloneFMLFO refFm.lfoNumber).2 c (fun f => { f with lfoNumber := ((BT.InstrumentsManager.updateFM M c (fun f => { f with lfoEnabled := true })).cloneFMLFO refFm.lfoNumber).1 })).wfADPCM = M.wfADPCM
        rw [updateFM_wfADPCM ((BT.InstrumentsManager.updateFM M c (fun f => { f with lfoEnabled := true })).cloneFMLFO refFm.lfoNumber).2 c (fun f => { f with lfoNumber := ((BT.InstrumentsManager.updateFM M c (fun f => { f with lfoEnabled := true })).cloneFMLFO refFm.lfoNumber).1 })]
        rw [show ((BT.InstrumentsManager.updateFM M c (fun f => { f with lfoEnabled := true })).cloneFMLFO refFm.lfoNumber).2.wfADPCM = (BT.InstrumentsManager.updateFM M c (fun f => { f with lfoEnabled := true })).wfADPCM from rfl]
        rw [updateFM_wfADPCM M c (fun f => { f with lfoEnabled := true })]
      rw [hFq, hfin_i]
      exact poolSync_update_irrelevant (fun s => by rw [hf]; rfl) inv.wfADPCM
    · have hFq : ({ (BT.InstrumentsManager.updateFM ((BT.InstrumentsManager.updateFM M c (fun f => { f with lfoEnabled := true })).cloneFMLFO refFm.lfoNumber).2 c (fun f => { f with lfoNumber := ((BT.InstrumentsManager.updateFM M c (fun f => { f with lfoEnabled := true })).cloneFMLFO refFm.lfoNumber).1 })) with lfoFM := (BT.InstrumentsManager.updateFM ((BT.InstrumentsManager.updateFM M c (fun f => { f with lfoEnabled := true })).cloneFMLFO refFm.lfoNumber).2 c (fun f => { f with lfoNumber := ((BT.InstrumentsManager.updateFM M c (fun f => { f with lfoEnabled := true })).cloneFMLFO refFm.lfoNumber).1 })).lfoFM.registerUser ((BT.InstrumentsManager.updateFM M c (fun f => { f with lfoEnabled := true })).cloneFMLFO refFm.lfoNumber).1 c }).envADPCM = M.envADPCM := by
        show (BT.InstrumentsManager.updateFM ((BT.InstrumentsManager.updateFM M c (fun f => { f with lfoEnabled := true })).cloneFMLFO refFm.lfoNumber).2 c (fun f => { f with lfoNumber := ((BT.InstrumentsManager.updateFM M c (fun f => { f with lfoEnabled := true })).cloneFMLFO refFm.lfoNumber).1 })).envADPCM = M.envADPCM
        rw [updateFM_envADPCM ((BT.InstrumentsManager.updateFM M c (fun f => { f with lfoEnabled := true })).cloneFMLFO refFm.lfoNumber).2 c (fun f => { f with lfoNumber := ((BT.InstrumentsManager.updateFM M c (fun f => { f with lfoEnabled := true })).cloneFMLFO refFm.lfoNumber).1 })]
        rw [show ((BT.InstrumentsManager.updateFM M c (fun f => { f with lfoEnabled := true })).cloneFMLFO refFm.lfoNumber).2.envADPCM = (BT.InstrumentsManager.updateFM M c (fun f => { f with lfoEnabled := true })).envADPCM from rfl]
        rw [updateFM_envADPCM M c (fun f => { f with lfoEnabled := true })]
      rw [hFq, hfin_i]
      exact poolSync_update_irrelevant (fun s => by rw [hf]; rfl) inv.envADPCM
    · have hFq : ({ (BT.InstrumentsManager.updateFM ((BT.InstrumentsManager.updateFM M c (fun f => { f with lfoEnabled := true })).cloneFMLFO refFm.lfoNumber).2 c (fun f => { f with lfoNumber := ((BT.InstrumentsManager.updateFM M c (fun f => { f with lfoEnabled := true })).cloneFMLFO refFm.lfoNumber).1 })) with lfoFM := (BT.InstrumentsManager.updateFM ((BT.InstrumentsManager.updateFM M c (fun f => { f with lfoEnabled := true })).cloneFMLFO refFm.lfoNumber).2 c (fun f => { f with lfoNumber := ((BT.InstrumentsManager.updateFM M c (fun f => { f with lfoEnabled := true })).cloneFMLFO refFm.lfoNumber).1 })).lfoFM.registerUser ((BT.InstrumentsManager.updateFM M c (fun f => { f with lfoEnabled := true })).cloneFMLFO refFm.lfoNumber).1 c }).arpADPCM = M.arpADPCM := by
        show (BT.InstrumentsManager.updateFM ((BT.InstrumentsManager.updateFM M c (fun f => { f with lfoEnabled := true })).cloneFMLFO refFm.lfoNumber).2 c (fun f => { f with lfoNumber := ((BT.InstrumentsManager.updateFM M c (fun f => { f with lfoEnabled := true })).cloneFMLFO refFm.lfoNumber).1 })).arpADPCM = M.arpADPCM
        rw [updateFM_arpADPCM ((BT.InstrumentsManager.updateFM M c (fun f => { f with lfoEnabled := true })).cloneFMLFO refFm.lfoNumber).2 c (fun f => { f with lfoNumber := ((BT.InstrumentsManager.updateFM M c (fun f => { f with lfoEnabled := true })).cloneFMLFO refFm.lfoNumber).1 })]
        rw [show ((BT.InstrumentsManager.updateFM M c (fun f => { f with lfoEnabled := true })).cloneFMLFO refFm.lfoNumber).2.arpADPCM = (BT.InstrumentsManager.updateFM M c (fun f => { f with lfoEnabled := true })).arpADPCM from rfl]
        rw [updateFM_arpADPCM M c (fun f => { f with lfoEnabled := true })]
      rw [hFq, hfin_i]
      exact poolSync_update_irrelevant (fun s => by rw [hf]; rfl) inv.arpADPCM
    · have hFq : ({ (BT.InstrumentsManager.updateFM ((BT.InstrumentsManager.updateFM M c (fun f => { f with lfoEnabled := true })).cloneFMLFO refFm.lfoNumber).2 c (fun f => { f with lfoNumber := ((BT.InstrumentsManager.updateFM M c (fun f => { f with lfoEnabled := true })).cloneFMLFO refFm.lfoNumber).1 })) with lfoFM := (BT.InstrumentsManager.updateFM ((BT.InstrumentsManager.updateFM M c (fun f => { f with lfoEnabled := true })).cloneFMLFO refFm.lfoNumber).2 c (fun f => { f with lfoNumber := ((BT.InstrumentsManager.updateFM M c (fun f => { f with lfoEnabled := true })).cloneFMLFO refFm.lfoNumber).1 })).lfoFM.registerUser ((BT.InstrumentsManager.updateFM M c (fun f => { f with lfoEnabled := true })).cloneFMLFO refFm.lfoNumber).1 c }).ptADPCM = M.ptADPCM := by
        show (BT.InstrumentsManager.updateFM ((BT.InstrumentsManager.updateFM M c (fun f => { f with lfoEnabled := true })).cloneFMLFO refFm.lfoNumber).2 c (fun f => { f with lfoNumber := ((BT.InstrumentsManager.updateFM M c (fun f => { f with lfoEnabled := true })).cloneFMLFO refFm.lfoNumber).1 })).ptADPCM = M.ptADPCM
        rw [updateFM_ptADPCM ((BT.InstrumentsManager.updateFM M c (fun f => { f with lfoEnabled := true })).cloneFMLFO refFm.lfoNumber).2 c (fun f => { f with lfoNumber := ((BT.InstrumentsManager.updateFM M c (fun f => { f with lfoEnabled := true })).cloneFMLFO refFm.lfoNumber).1 })]
        rw [show ((BT.InstrumentsManager.updateFM M c (fun f => { f with lfoEnabled := true })).cloneFMLFO refFm.lfoNumber).2.ptADPCM = (BT.InstrumentsManager.updateFM M c (fun f => { f with lfoEnabled := true })).ptADPCM from rfl]
        rw [updateFM_ptADPCM M c (fun f => { f with lfoEnabled := true })]
      rw [hFq, hfin_i]
      exact poolSync_update_irrelevant (fun s => by rw [hf]; rfl) inv.ptADPCM
  · rw [if_neg hb]
    exact ⟨inv, f, hf, rfl, rfl, rfl⟩

set_option maxHeartbeats 2000000 in
/-- The wfSSG deep-clone block preserves the invariant: the prior flag is
disabled, so the freshly registered slot is the record's only reference. -/
theorem inv_dcBlock_wfSSG (M : BT.InstrumentsManager) (refSsg : BT.InstrumentSSG) (c : Nat)
    (hc : c < 128) (f : BT.InstrumentSSG) (hf : M.insts c = some (.ssg f))
    (hflag : f.waveformEnabled = false) (inv : BT.Inv M) :
    BT.Inv (if refSsg.waveformEnabled then { (BT.InstrumentsManager.updateSSG ((BT.InstrumentsManager.updateSSG M c (fun s => { s with waveformEnabled := true })).cloneSSGWaveform refSsg.waveformNumber).2 c (fun s => { s with waveformNumber := ((BT.InstrumentsManager.updateSSG M c (fun s => { s with waveformEnabled := true })).cloneSSGWaveform refSsg.waveformNumber).1 })) with wfSSG := (BT.InstrumentsManager.updateSSG ((BT.InstrumentsManager.updateSSG M c (fun s => { s with waveformEnabled := true })).cloneSSGWaveform refSsg.waveformNumber).2 c (fun s => { s with waveformNumber := ((BT.InstrumentsManager.updateSSG M c (fun s => { s with waveformEnabled := true })).cloneSSGWaveform refSsg.waveformNumber).1 })).wfSSG.registerUser ((BT.InstrumentsManager.updateSSG M c (fun s => { s with waveformEnabled := true })).cloneSSGWaveform refSsg.waveformNumber).1 c } else M) ∧
    ∃ f', ((if refSsg.waveformEnabled then { (BT.InstrumentsManager.updateSSG ((BT.InstrumentsManager.updateSSG M c (fun s => { s with waveformEnabled := true })).cloneSSGWaveform refSsg.waveformNumber).2 c (fun s => { s with waveformNumber := ((BT.InstrumentsManager.updateSSG M c (fun s => { s with waveformEnabled := true })).cloneSSGWaveform refSsg.waveformNumber).1 })) with wfSSG := (BT.InstrumentsManager.updateSSG ((BT.InstrumentsManager.updateSSG M c (fun s => { s with waveformEnabled := true })).cloneSSGWaveform refSsg.waveformNumber).2 c (fun s => { s with waveformNumber := ((BT.InstrumentsManager.updateSSG M c (fun s => { s with waveformEnabled := true })).cloneSSGWaveform refSsg.waveformNumber).1 })).wfSSG.registerUser ((BT.InstrumentsManager.updateSSG M c (fun s => { s with waveformEnabled := true })).cloneSSGWaveform refSsg.waveformNumber).1 c } else M)).insts c = some (.ssg f') ∧
      f'.toneNoiseEnabled = f.toneNoiseEnabled ∧
      f'.envelopeEnabled = f.envelopeEnabled ∧
      f'.arpeggioEnabled = f.arpeggioEnabled ∧
      f'.pitchEnabled = f.pitchEnabled := by
  by_cases hb : refSsg.waveformEnabled = true
  · rw [if_pos hb]
    have hma_i : (BT.InstrumentsManager.updateSSG M c (fun s => { s with waveformEnabled := true })).insts = Function.update M.insts c (some (.ssg { f with waveformEnabled := true })) :=
      updateSSG_insts M c (fun s => { s with waveformEnabled := true }) f hf
    have hma_c : (BT.InstrumentsManager.updateSSG M c (fun s => { s with waveformEnabled := true })).insts c = some (.ssg { f with waveformEnabled := true }) := by
      rw [hma_i]
      exact Function.update_same c _ M.insts
    have hrl_c : ((BT.InstrumentsManager.updateSSG M c (fun s => { s with waveformEnabled := true })).cloneSSGWaveform refSsg.waveformNumber).2.insts c = some (.ssg { f with waveformEnabled := true }) := hma_c
    have hmb_i : (BT.InstrumentsManager.updateSSG ((BT.InstrumentsManager.updateSSG M c (fun s => { s with waveformEnabled := true })).cloneSSGWaveform refSsg.waveformNumber).2 c (fun s => { s with waveformNumber := ((BT.InstrumentsManager.updateSSG M c (fun s => { s with waveformEnabled := true })).cloneSSGWaveform refSsg.waveformNumber).1 })).insts = Function.update ((BT.InstrumentsManager.updateSSG M c (fun s => { s with waveformEnabled := true })).cloneSSGWaveform refSsg.waveformNumber).2.insts c
        (some (.ssg { { f with waveformEnabled := true } with waveformNumber := ((BT.InstrumentsManager.updateSSG M c (fun s => { s with waveformEnabled := true })).cloneSSGWaveform refSsg.waveformNumber).1 })) :=
      updateSSG_insts ((BT.InstrumentsManager.updateSSG M c (fun s => { s with waveformEnabled := true })).cloneSSGWaveform refSsg.waveformNumber).2 c (fun s => { s with waveformNumber := ((BT.InstrumentsManager.updateSSG M c (fun s => { s with waveformEnabled := true })).cloneSSGWaveform refSsg.waveformNumber).1 }) { f with waveformEnabled := true } hrl_c
    have hfin_i : ({ (BT.InstrumentsManager.updateSSG ((BT.InstrumentsManager.updateSSG M c (fun s => { s with waveformEnabled := true })).cloneSSGWaveform refSsg.waveformNumber).2 c (fun s => { s with waveformNumber := ((BT.InstrumentsManager.updateSSG M c (fun s => { s with waveformEnabled := true })).cloneSSGWaveform refSsg.waveformNumber).1 })) with wfSSG := (BT.InstrumentsManager.updateSSG ((BT.InstrumentsManager.updateSSG M c (fun s => { s with waveformEnabled := true })).cloneSSGWaveform refSsg.waveformNumber).2 c (fun s => { s with waveformNumber := ((BT.InstrumentsManager.updateSSG M c (fun s => { s with waveformEnabled := true })).cloneSSGWaveform refSsg.waveformNumber).1 })).wfSSG.registerUser ((BT.InstrumentsManager.updateSSG M c (fun s => { s with waveformEnabled := true })).cloneSSGWaveform refSsg.waveformNumber).1 c }).insts = Function.update M.insts c (some (.ssg { f with waveformEnabled := true, waveformNumber := ((BT.InstrumentsManager.updateSSG M c (fun s => { s with waveformEnabled := true })).cloneSSGWaveform refSsg.waveformNumber).1 })) := by
      show (BT.InstrumentsManager.updateSSG ((BT.InstrumentsManager.updateSSG M c (fun s => { s with waveformEnabled := true })).cloneSSGWaveform refSsg.waveformNumber).2 c (fun s => { s with waveformNumber := ((BT.InstrumentsManager.updateSSG M c (fun s => { s with waveformEnabled := true })).cloneSSGWaveform refSsg.waveformNumber).1 })).insts = _
      rw [hmb_i]
      show Function.update (BT.InstrumentsManager.updateSSG M c (fun s => { s with waveformEnabled := true })).insts c (some (.ssg { f with waveformEnabled := true, waveformNumber := ((BT.InstrumentsManager.updateSSG M c (fun s => { s with waveformEnabled := true })).cloneSSGWaveform refSsg.waveformNumber).1 })) = _
      rw [hma_i, Function.update_idem]
    have hfin_pool : ({ (BT.InstrumentsManager.updateSSG ((BT.InstrumentsManager.updateSSG M c (fun s => { s with waveformEnabled := true })).cloneSSGWaveform refSsg.waveformNumber).2 c (fun s => { s with waveformNumber := ((BT.InstrumentsManager.updateSSG M c (fun s => { s with waveformEnabled := true })).cloneSSGWaveform refSsg.waveformNumber).1 })) with wfSSG := (BT.InstrumentsManager.updateSSG ((BT.InstrumentsManager.updateSSG M c (fun s => { s with waveformEnabled := true })).cloneSSGWaveform refSsg.waveformNumber).2 c (fun s => { s with waveformNumber := ((BT.InstrumentsManager.updateSSG M c (fun s => { s with waveformEnabled := true })).cloneSSGWaveform refSsg.waveformNumber).1 })).wfSSG.registerUser ((BT.InstrumentsManager.updateSSG M c (fun s => { s with waveformEnabled := true })).cloneSSGWaveform refSsg.waveformNumber).1 c }).wfSSG =
        (((BT.InstrumentsManager.updateSSG M c (fun s => { s with waveformEnabled := true })).wfSSG.cloneProp refSsg.waveformNumber).2).registerUser ((BT.InstrumentsManager.updateSSG M c (fun s => { s with waveformEnabled := true })).cloneSSGWaveform refSsg.waveformNumber).1 c := by
      show (BT.InstrumentsManager.updateSSG ((BT.InstrumentsManager.updateSSG M c (fun s => { s with waveformEnabled := true })).cloneSSGWaveform refSsg.waveformNumber).2 c (fun s => { s with waveformNumber := ((BT.InstrumentsManager.updateSSG M c (fun s => { s with waveformEnabled := true })).cloneSSGWaveform refSsg.waveformNumber).1 })).wfSSG.registerUser ((BT.InstrumentsManager.updateSSG M c (fun s => { s with waveformEnabled := true })).cloneSSGWaveform refSsg.waveformNumber).1 c = _
      rw [updateSSG_wfSSG ((BT.InstrumentsManager.updateSSG M c (fun s => { s with waveformEnabled := true })).cloneSSGWaveform refSsg.waveformNumber).2 c (fun s => { s with waveformNumber := ((BT.InstrumentsManager.updateSSG M c (fun s => { s with waveformEnabled := true })).cloneSSGWaveform refSsg.waveformNumber).1 })]
      rfl
    have hold : ∀ s, BT.ssgWfPoints (.ssg f) s = false := by
      intro s
      show (f.waveformEnabled && (f.waveformNumber == s)) = false
      rw [hflag]
      rfl
    have husers : ∀ s, s < 128 → (({ (BT.InstrumentsManager.updateSSG ((BT.InstrumentsManager.updateSSG M c (fun s => { s with waveformEnabled := true })).cloneSSGWaveform refSsg.waveformNumber).2 c (fun s => { s with waveformNumber := ((BT.InstrumentsManager.updateSSG M c (fun s => { s with waveformEnabled := true })).cloneSSGWaveform refSsg.waveformNumber).1 })) with wfSSG := (BT.InstrumentsManager.updateSSG ((BT.InstrumentsManager.updateSSG M c (fun s => { s with waveformEnabled := true })).cloneSSGWaveform refSsg.waveformNumber).2 c (fun s => { s with waveformNumber := ((BT.InstrumentsManager.updateSSG M c (fun s => { s with waveformEnabled := true })).cloneSSGWaveform refSsg.waveformNumber).1 })).wfSSG.registerUser ((BT.InstrumentsManager.updateSSG M c (fun s => { s with waveformEnabled := true })).cloneSSGWaveform refSsg.waveformNumber).1 c }).wfSSG s).users =
        if BT.ssgWfPoints (.ssg { f with waveformEnabled := true, waveformNumber := ((BT.InstrumentsManager.updateSSG M c (fun s => { s with waveformEnabled := true })).cloneSSGWaveform refSsg.waveformNumber).1 }) s = true
        then insert c ((M.wfSSG s).users) else (M.wfSSG s).users := by
      intro s hs
      rw [hfin_pool, users_registerUser, users_cloneProp, users_cloneProp]
      rw [updateSSG_wfSSG M c (fun s => { s with waveformEnabled := true })]
      by_cases hp : BT.ssgWfPoints (.ssg { f with waveformEnabled := true, waveformNumber := ((BT.InstrumentsManager.updateSSG M c (fun s => { s with waveformEnabled := true })).cloneSSGWaveform refSsg.waveformNumber).1 }) s = true
      · rw [if_pos hp]
        have h2 : (true && (((BT.InstrumentsManager.updateSSG M c (fun s => { s with waveformEnabled := true })).cloneSSGWaveform refSsg.waveformNumber).1 == s)) = true := hp
        rw [Bool.true_and, beq_iff_eq] at h2
        rw [if_pos h2.symm, h2]
      · rw [if_neg hp]
        have hsne : ¬ s = ((BT.InstrumentsManager.updateSSG M c (fun s => { s with waveformEnabled := true })).cloneSSGWaveform refSsg.waveformNumber).1 := by
          intro hseq
          apply hp
          show (true && (((BT.InstrumentsManager.updateSSG M c (fun s => { s with waveformEnabled := true })).cloneSSGWaveform refSsg.waveformNumber).1 == s)) = true
          rw [hseq]
          simp
        rw [if_neg hsne]
    refine ⟨⟨?_, ?_, ?_, ?_, ?_, ?_, ?_, ?_, ?_, ?_, ?_, ?_, ?_, ?_⟩,
      { f with waveformEnabled := true, waveformNumber := ((BT.InstrumentsManager.updateSSG M c (fun s => { s with waveformEnabled := true })).cloneSSGWaveform refSsg.waveformNumber).1 }, by
        rw [hfin_i]
        exact Function.update_same c _ M.insts, rfl, rfl, rfl, rfl⟩
    · have hFq : ({ (BT.InstrumentsManager.updateSSG ((BT.InstrumentsManager.updateSSG M c (fun s => { s with waveformEnabled := true })).cloneSSGWaveform refSsg.waveformNumber).2 c (fun s => { s with waveformNumber := ((BT.InstrumentsManager.updateSSG M c (fun s => { s with waveformEnabled := true })).cloneSSGWaveform refSsg.waveformNumber).1 })) with wfSSG := (BT.InstrumentsManager.updateSSG ((BT.InstrumentsManager.updateSSG M c (fun s => { s with waveformEnabled := true })).cloneSSGWaveform refSsg.waveformNumber).2 c (fun s => { s with waveformNumber := ((BT.InstrumentsManager.updateSSG M c (fun s => { s with waveformEnabled := true })).cloneSSGWaveform refSsg.waveformNumber).1 })).wfSSG.registerUser ((BT.InstrumentsManager.updateSSG M c (fun s => { s with waveformEnabled := true })).cloneSSGWaveform refSsg.waveformNumber).1 c }).envFM = M.envFM := by
        show (BT.InstrumentsManager.updateSSG ((BT.InstrumentsManager.updateSSG M c (fun s => { s with waveformEnabled := true })).cloneSSGWaveform refSsg.waveformNumber).2 c (fun s => { s with waveformNumber := ((BT.InstrumentsManager.updateSSG M c (fun s => { s with waveformEnabled := true })).cloneSSGWaveform refSsg.waveformNumber).1 })).envFM = M.envFM
        rw [updateSSG_envFM ((BT.InstrumentsManager.updateSSG M c (fun s => { s with waveformEnabled := true })).cloneSSGWaveform refSsg.waveformNumber).2 c (fun s => { s with waveformNumber := ((BT.InstrumentsManager.updateSSG M c (fun s => { s with waveformEnabled := true })).cloneSSGWaveform refSsg.waveformNumber).1 })]
        rw [show ((BT.InstrumentsManager.updateSSG M c (fun s => { s with waveformEnabled := true })).cloneSSGWaveform refSsg.waveformNumber).2.envFM = (BT.InstrumentsManager.updateSSG M c (fun s => { s with waveformEnabled := true })).envFM from rfl]
        rw [updateSSG_envFM M c (fun s => { s with waveformEnabled := true })]
      rw [hFq, hfin_i]
      exact poolSync_update_irrelevant (fun s => by rw [hf]; rfl) inv.envFM
    · have hFq : ({ (BT.InstrumentsManager.updateSSG ((BT.InstrumentsManager.updateSSG M c (fun s => { s with waveformEnabled := true })).cloneSSGWaveform refSsg.waveformNumber).2 c (fun s => { s with waveformNumber := ((BT.InstrumentsManager.updateSSG M c (fun s => { s with waveformEnabled := true })).cloneSSGWaveform refSsg.waveformNumber).1 })) with wfSSG := (BT.InstrumentsManager.updateSSG ((BT.InstrumentsManager.updateSSG M c (fun s => { s with waveformEnabled := true })).cloneSSGWaveform refSsg.waveformNumber).2 c (fun s => { s with waveformNumber := ((BT.InstrumentsManager.updateSSG M c (fun s => { s with waveformEnabled := true })).cloneSSGWaveform refSsg.waveformNumber).1 })).wfSSG.registerUser ((BT.InstrumentsManager.updateSSG M c (fun s => { s with waveformEnabled := true })).cloneSSGWaveform refSsg.waveformNumber).1 c }).lfoFM = M.lfoFM := by
        show (BT.InstrumentsManager.updateSSG ((BT.InstrumentsManager.updateSSG M c (fun s => { s with waveformEnabled := true })).cloneSSGWaveform refSsg.waveformNumber).2 c (fun s => { s with waveformNumber := ((BT.InstrumentsManager.updateSSG M c (fun s => { s with waveformEnabled := true })).cloneSSGWaveform refSsg.waveformNumber).1 })).lfoFM = M.lfoFM
        rw [updateSSG_lfoFM ((BT.InstrumentsManager.updateSSG M c (fun s => { s with waveformEnabled := true })).cloneSSGWaveform refSsg.waveformNumber).2 c (fun s => { s with waveformNumber := ((BT.InstrumentsManager.updateSSG M c (fun s => { s with waveformEnabled := true })).cloneSSGWaveform refSsg.waveformNumber).1 })]
        rw [show ((BT.InstrumentsManager.updateSSG M c (fun s => { s with waveformEnabled := true })).cloneSSGWaveform refSsg.waveformNumber).2.lfoFM = (BT.InstrumentsManager.updateSSG M c (fun s => { s with waveformEnabled := true })).lfoFM from rfl]
        rw [updateSSG_lfoFM M c (fun s => { s with waveformEnabled := true })]
      rw [hFq, hfin_i]
      exact poolSync_update_irrelevant (fun s => by rw [hf]; rfl) inv.lfoFM
    · intro p hp
      have hFq : ({ (BT.InstrumentsManager.updateSSG ((BT.InstrumentsManager.updateSSG M c (fun s => { s with waveformEnabled := true })).cloneSSGWaveform refSsg.waveformNumber).2 c (fun s => { s with waveformNumber := ((BT.InstrumentsManager.updateSSG M c (fun s => { s with waveformEnabled := true })).cloneSSGWaveform refSsg.waveformNumber).1 })) with wfSSG := (BT.InstrumentsManager.updateSSG ((BT.InstrumentsManager.updateSSG M c (fun s => { s with waveformEnabled := true })).cloneSSGWaveform refSsg.waveformNumber).2 c (fun s => { s with waveformNumber := ((BT.InstrumentsManager.updateSSG M c (fun s => { s with waveformEnabled := true })).cloneSSGWaveform refSsg.waveformNumber).1 })).wfSSG.registerUser ((BT.InstrumentsManager.updateSSG M c (fun s => { s with waveformEnabled := true })).cloneSSGWaveform refSsg.waveformNumber).1 c }).opSeqFM = M.opSeqFM := by
        show (BT.InstrumentsManager.updateSSG ((BT.InstrumentsManager.updateSSG M c (fun s => { s with waveformEnabled := true })).cloneSSGWaveform refSsg.waveformNumber).2 c (fun s => { s with waveformNumber := ((BT.InstrumentsManager.updateSSG M c (fun s => { s with waveformEnabled := true })).cloneSSGWaveform refSsg.waveformNumber).1 })).opSeqFM = M.opSeqFM
        rw [updateSSG_opSeqFM ((BT.InstrumentsManager.updateSSG M c (fun s => { s with waveformEnabled := true })).cloneSSGWaveform refSsg.waveformNumber).2 c (fun s => { s with waveformNumber := ((BT.InstrumentsManager.updateSSG M c (fun s => { s with waveformEnabled := true })).cloneSSGWaveform refSsg.waveformNumber).1 })]
        rw [show ((BT.InstrumentsManager.updateSSG M c (fun s => { s with waveformEnabled := true })).cloneSSGWaveform refSsg.waveformNumber).2.opSeqFM = (BT.InstrumentsManager.updateSSG M c (fun s => { s with waveformEnabled := true })).opSeqFM from rfl]
        rw [updateSSG_opSeqFM M c (fun s => { s with waveformEnabled := true })]
      rw [hFq, hfin_i]
      exact poolSync_update_irrelevant (fun s => by rw [hf]; rfl) (inv.opSeqFM p hp)
    · have hFq : ({ (BT.InstrumentsManager.updateSSG ((BT.InstrumentsManager.updateSSG M c (fun s => { s with waveformEnabled := true })).cloneSSGWaveform refSsg.waveformNumber).2 c (fun s => { s with waveformNumber := ((BT.InstrumentsManager.updateSSG M c (fun s => { s with waveformEnabled := true })).cloneSSGWaveform refSsg.waveformNumber).1 })) with wfSSG := (BT.InstrumentsManager.updateSSG ((BT.InstrumentsManager.updateSSG M c (fun s => { s with waveformEnabled := true })).cloneSSGWaveform refSsg.waveformNumber).2 c (fun s => { s with waveformNumber := ((BT.InstrumentsManager.updateSSG M c (fun s => { s with waveformEnabled := true })).cloneSSGWaveform refSsg.waveformNumber).1 })).wfSSG.registerUser ((BT.InstrumentsManager.updateSSG M c (fun s => { s with waveformEnabled := true })).cloneSSGWaveform refSsg.waveformNumber).1 c }).arpFM = M.arpFM := by
        show (BT.InstrumentsManager.updateSSG ((BT.InstrumentsManager.updateSSG M c (fun s => { s with waveformEnabled := true })).cloneSSGWaveform refSsg.waveformNumber).2 c (fun s => { s with waveformNumber := ((BT.InstrumentsManager.updateSSG M c (fun s => { s with waveformEnabled := true })).cloneSSGWaveform refSsg.waveformNumber).1 })).arpFM = M.arpFM
        rw [updateSSG_arpFM ((BT.InstrumentsManager.updateSSG M c (fun s => { s with waveformEnabled := true })).cloneSSGWaveform refSsg.waveformNumber).2 c (fun s => { s with waveformNumber := ((BT.InstrumentsManager.updateSSG M c (fun s => { s with waveformEnabled := true })).cloneSSGWaveform refSsg.waveformNumber).1 })]
        rw [show ((BT.InstrumentsManager.updateSSG M c (fun s => { s with waveformEnabled := true })).cloneSSGWaveform refSsg.waveformNumber).2.arpFM = (BT.InstrumentsManager.updateSSG M c (fun s => { s with waveformEnabled := true })).arpFM from rfl]
        rw [updateSSG_arpFM M c (fun s => { s with waveformEnabled := true })]
      rw [hFq, hfin_i]
      exact poolSync_update_irrelevant (fun s => by rw [hf]; rfl) inv.arpFM
    · have hFq : ({ (BT.InstrumentsManager.updateSSG ((BT.InstrumentsManager.updateSSG M c (fun s => { s with waveformEnabled := true })).cloneSSGWaveform refSsg.waveformNumber).2 c (fun s => { s with waveformNumber := ((BT.InstrumentsManager.updateSSG M c (fun s => { s with waveformEnabled := true })).cloneSSGWaveform refSsg.waveformNumber).1 })) with wfSSG := (BT.InstrumentsManager.updateSSG ((BT.InstrumentsManager.updateSSG M c (fun s => { s with waveformEnabled := true })).cloneSSGWaveform refSsg.waveformNumber).2 c (fun s => { s with waveformNumber := ((BT.InstrumentsManager.updateSSG M c (fun s => { s with waveformEnabled := true })).cloneSSGWaveform refSsg.waveformNumber).1 })).wfSSG.registerUser ((BT.InstrumentsManager.updateSSG M c (fun s => { s with waveformEnabled := true })).cloneSSGWaveform refSsg.waveformNumber).1 c }).ptFM = M.ptFM := by
        show (BT.InstrumentsManager.updateSSG ((BT.InstrumentsManager.updateSSG M c (fun s => { s with waveformEnabled := true })).cloneSSGWaveform refSsg.waveformNumber).2 c (fun s => { s with waveformNumber := ((BT.InstrumentsManager.updateSSG M c (fun s => { s with waveformEnabled := true })).cloneSSGWaveform refSsg.waveformNumber).1 })).ptFM = M.ptFM
        rw [updateSSG_ptFM ((BT.InstrumentsManager.updateSSG M c (fun s => { s with waveformEnabled := true })).cloneSSGWaveform refSsg.waveformNumber).2 c (fun s => { s with waveformNumber := ((BT.InstrumentsManager.updateSSG M c (fun s => { s with waveformEnabled := true })).cloneSSGWaveform refSsg.waveformNumber).1 })]
        rw [show ((BT.InstrumentsManager.updateSSG M c (fun s => { s with waveformEnabled := true })).cloneSSGWaveform refSsg.waveformNumber).2.ptFM = (BT.InstrumentsManager.updateSSG M c (fun s => { s with waveformEnabled := true })).ptFM from rfl]
        rw [updateSSG_ptFM M c (fun s => { s with waveformEnabled := true })]
      rw [hFq, hfin_i]
      exact poolSync_update_irrelevant (fun s => by rw [hf]; rfl) inv.ptFM
    · rw [hfin_i]
      exact poolSync_overwrite_register hc hf hold husers inv.wfSSG
    · have hFq : ({ (BT.InstrumentsManager.updateSSG ((BT.InstrumentsManager.updateSSG M c (fun s => { s with waveformEnabled := true })).cloneSSGWaveform refSsg.waveformNumber).2 c (fun s => { s with waveformNumber := ((BT.InstrumentsManager.updateSSG M c (fun s => { s with waveformEnabled := true })).cloneSSGWaveform refSsg.waveformNumber).1 })) with wfSSG := (BT.InstrumentsManager.updateSSG ((BT.InstrumentsManager.updateSSG M c (fun s => { s with waveformEnabled := true })).cloneSSGWaveform refSsg.waveformNumber).2 c (fun s => { s with waveformNumber := ((BT.InstrumentsManager.updateSSG M c (fun s => { s with waveformEnabled := true })).cloneSSGWaveform refSsg.waveformNumber).1 })).wfSSG.registerUser ((BT.InstrumentsManager.updateSSG M c (fun s => { s with waveformEnabled := true })).cloneSSGWaveform refSsg.waveformNumber).1 c }).tnSSG = M.tnSSG := by
        show (BT.InstrumentsManager.updateSSG ((BT.InstrumentsManager.updateSSG M c (fun s => { s with waveformEnabled := true })).cloneSSGWaveform refSsg.waveformNumber).2 c (fun s => { s with waveformNumber := ((BT.InstrumentsManager.updateSSG M c (fun s => { s with waveformEnabled := true })).cloneSSGWaveform refSsg.waveformNumber).1 })).tnSSG = M.tnSSG
        rw [updateSSG_tnSSG ((BT.InstrumentsManager.updateSSG M c (fun s => { s with waveformEnabled := true })).cloneSSGWaveform refSsg.waveformNumber).2 c (fun s => { s with waveformNumber := ((BT.InstrumentsManager.updateSSG M c (fun s => { s with waveformEnabled := true })).cloneSSGWaveform refSsg.waveformNumber).1 })]
        rw [show ((BT.InstrumentsManager.updateSSG M c (fun s => { s with waveformEnabled := true })).cloneSSGWaveform refSsg.waveformNumber).2.tnSSG = (BT.InstrumentsManager.updateSSG M c (fun s => { s with waveformEnabled := true })).tnSSG from rfl]
        rw [updateSSG_tnSSG M c (fun s => { s with waveformEnabled := true })]
      rw [hFq, hfin_i]
      exact poolSync_update_irrelevant (fun s => by rw [hf]; rfl) inv.tnSSG
    · have hFq : ({ (BT.InstrumentsManager.updateSSG ((BT.InstrumentsManager.updateSSG M c (fun s => { s with waveformEnabled := true })).cloneSSGWaveform refSsg.waveformNumber).2 c (fun s => { s with waveformNumber := ((BT.InstrumentsManager.updateSSG M c (fun s => { s with waveformEnabled := true })).cloneSSGWaveform refSsg.waveformNumber).1 })) with wfSSG := (BT.InstrumentsManager.updateSSG ((BT.InstrumentsManager.updateSSG M c (fun s => { s with waveformEnabled := true })).cloneSSGWaveform refSsg.waveformNumber).2 c (fun s => { s with waveformNumber := ((BT.InstrumentsManager.updateSSG M c (fun s => { s with waveformEnabled := true })).cloneSSGWaveform refSsg.waveformNumber).1 })).wfSSG.registerUser ((BT.InstrumentsManager.updateSSG M c (fun s => { s with waveformEnabled := true })).cloneSSGWaveform refSsg.waveformNumber).1 c }).envSSG = M.envSSG := by
        show (BT.InstrumentsManager.updateSSG ((BT.InstrumentsManager.updateSSG M c (fun s => { s with waveformEnabled := true })).cloneSSGWaveform refSsg.waveformNumber).2 c (fun s => { s with waveformNumber := ((BT.InstrumentsManager.updateSSG M c (fun s => { s with waveformEnabled := true })).cloneSSGWaveform refSsg.waveformNumber).1 })).envSSG = M.envSSG
        rw [updateSSG_envSSG ((BT.InstrumentsManager.updateSSG M c (fun s => { s with waveformEnabled := true })).cloneSSGWaveform refSsg.waveformNumber).2 c (fun s => { s with waveformNumber := ((BT.InstrumentsManager.updateSSG M c (fun s => { s with waveformEnabled := true })).cloneSSGWaveform refSsg.waveformNumber).1 })]
        rw [show ((BT.InstrumentsManager.updateSSG M c (fun s => { s with waveformEnabled := true })).cloneSSGWaveform refSsg.waveformNumber).2.envSSG = (BT.InstrumentsManager.updateSSG M c (fun s => { s with waveformEnabled := true })).envSSG from rfl]
        rw [updateSSG_envSSG M c (fun s => { s with waveformEnabled := true })]
      rw [hFq, hfin_i]
      exact poolSync_update_irrelevant (fun s => by rw [hf]; rfl) inv.envSSG
    · have hFq : ({ (BT.InstrumentsManager.updateSSG ((BT.InstrumentsManager.updateSSG M c (fun s => { s with waveformEnabled := true })).cloneSSGWaveform refSsg.waveformNumber).2 c (fun s => { s with waveformNumber := ((BT.InstrumentsManager.updateSSG M c (fun s => { s with waveformEnabled := true })).cloneSSGWaveform refSsg.waveformNumber).1 })) with wfSSG := (BT.InstrumentsManager.updateSSG ((BT.InstrumentsManager.updateSSG M c (fun s => { s with waveformEnabled := true })).cloneSSGWaveform refSsg.waveformNumber).2 c (fun s => { s with waveformNumber := ((BT.InstrumentsManager.updateSSG M c (fun s => { s with waveformEnabled := true })).cloneSSGWaveform refSsg.waveformNumber).1 })).wfSSG.registerUser ((BT.InstrumentsManager.updateSSG M c (fun s => { s with waveformEnabled := true })).cloneSSGWaveform refSsg.waveformNumber).1 c }).arpSSG = M.arpSSG := by
        show (BT.InstrumentsManager.updateSSG ((BT.InstrumentsManager.updateSSG M c (fun s => { s with waveformEnabled := true })).cloneSSGWaveform refSsg.waveformNumber).2 c (fun s => { s with waveformNumber := ((BT.InstrumentsManager.updateSSG M c (fun s => { s with waveformEnabled := true })).cloneSSGWaveform refSsg.waveformNumber).1 })).arpSSG = M.arpSSG
        rw [updateSSG_arpSSG ((BT.InstrumentsManager.updateSSG M c (fun s => { s with waveformEnabled := true })).cloneSSGWaveform refSsg.waveformNumber).2 c (fun s => { s with waveformNumber := ((BT.InstrumentsManager.updateSSG M c (fun s => { s with waveformEnabled := true })).cloneSSGWaveform refSsg.waveformNumber).1 })]
        rw [show ((BT.InstrumentsManager.updateSSG M c (fun s => { s with waveformEnabled := true })).cloneSSGWaveform refSsg.waveformNumber).2.arpSSG = (BT.InstrumentsManager.updateSSG M c (fun s => { s with waveformEnabled := true })).arpSSG from rfl]
        rw [updateSSG_arpSSG M c (fun s => { s with waveformEnabled := true })]
      rw [hFq, hfin_i]
      exact poolSync_update_irrelevant (fun s => by rw [hf]; rfl) inv.arpSSG
    · have hFq : ({ (BT.InstrumentsManager.updateSSG ((BT.InstrumentsManager.updateSSG M c (fun s => { s with waveformEnabled := true })).cloneSSGWaveform refSsg.waveformNumber).2 c (fun s => { s with waveformNumber := ((BT.InstrumentsManager.updateSSG M c (fun s => { s with waveformEnabled := true })).cloneSSGWaveform refSsg.waveformNumber).1 })) with wfSSG := (BT.InstrumentsManager.updateSSG ((BT.InstrumentsManager.updateSSG M c (fun s => { s with waveformEnabled := true })).cloneSSGWaveform refSsg.waveformNumber).2 c (fun s => { s with waveformNumber := ((BT.InstrumentsManager.updateSSG M c (fun s => { s with waveformEnabled := true })).cloneSSGWaveform refSsg.waveformNumber).1 })).wfSSG.registerUser ((BT.InstrumentsManager.updateSSG M c (fun s => { s with waveformEnabled := true })).cloneSSGWaveform refSsg.waveformNumber).1 c }).ptSSG = M.ptSSG := by
        show (BT.InstrumentsManager.updateSSG ((BT.InstrumentsManager.updateSSG M c (fun s => { s with waveformEnabled := true })).cloneSSGWaveform refSsg.waveformNumber).2 c (fun s => { s with waveformNumber := ((BT.InstrumentsManager.updateSSG M c (fun s => { s with waveformEnabled := true })).cloneSSGWaveform refSsg.waveformNumber).1 })).ptSSG = M.ptSSG
        rw [updateSSG_ptSSG ((BT.InstrumentsManager.updateSSG M c (fun s => { s with waveformEnabled := true })).cloneSSGWaveform refSsg.waveformNumber).2 c (fun s => { s with waveformNumber := ((BT.InstrumentsManager.updateSSG M c (fun s => { s with waveformEnabled := true })).cloneSSGWaveform refSsg.waveformNumber).1 })]
        rw [show ((BT.InstrumentsManager.updateSSG M c (fun s => { s with waveformEnabled := true })).cloneSSGWaveform refSsg.waveformNumber).2.ptSSG = (BT.InstrumentsManager.updateSSG M c (fun s => { s with waveformEnabled := true })).ptSSG from rfl]
        rw [updateSSG_ptSSG M c (fun s => { s with waveformEnabled := true })]
      rw [hFq, hfin_i]
      exact poolSync_update_irrelevant (fun s => by rw [hf]; rfl) inv.ptSSG
    · have hFq : ({ (BT.InstrumentsManager.updateSSG ((BT.InstrumentsManager.updateSSG M c (fun s => { s with waveformEnabled := true })).cloneSSGWaveform refSsg.waveformNumber).2 c (fun s => { s with waveformNumber := ((BT.InstrumentsManager.updateSSG M c (fun s => { s with waveformEnabled := true })).cloneSSGWaveform refSsg.waveformNumber).1 })) with wfSSG := (BT.InstrumentsManager.updateSSG ((BT.InstrumentsManager.updateSSG M c (fun s => { s with waveformEnabled := true })).cloneSSGWaveform refSsg.waveformNumber).2 c (fun s => { s with waveformNumber := ((BT.InstrumentsManager.updateSSG M c (fun s => { s with waveformEnabled := true })).cloneSSGWaveform refSsg.waveformNumber).1 })).wfSSG.registerUser ((BT.InstrumentsManager.updateSSG M c (fun s => { s with waveformEnabled := true })).cloneSSGWaveform refSsg.waveformNumber).1 c }).wfADPCM = M.wfADPCM := by
        show (BT.InstrumentsManager.updateSSG ((BT.InstrumentsManager.updateSSG M c (fun s => { s with waveformEnabled := true })).cloneSSGWaveform refSsg.waveformNumber).2 c (fun s => { s with waveformNumber := ((BT.InstrumentsManager.updateSSG M c (fun s => { s with waveformEnabled := true })).cloneSSGWaveform refSsg.waveformNumber).1 })).wfADPCM = M.wfADPCM
        rw [updateSSG_wfADPCM ((BT.InstrumentsManager.updateSSG M c (fun s => { s with waveformEnabled := true })).cloneSSGWaveform refSsg.waveformNumber).2 c (fun s => { s with waveformNumber := ((BT.InstrumentsManager.updateSSG M c (fun s => { s with waveformEnabled := true })).cloneSSGWaveform refSsg.waveformNumber).1 })]
        rw [show ((BT.InstrumentsManager.updateSSG M c (fun s => { s with waveformEnabled := true })).cloneSSGWaveform refSsg.waveformNumber).2.wfADPCM = (BT.InstrumentsManager.updateSSG M c (fun s => { s with waveformEnabled := true })).wfADPCM from rfl]
        rw [updateSSG_wfADPCM M c (fun s => { s with waveformEnabled := true })]
      rw [hFq, hfin_i]
      exact poolSync_update_irrelevant (fun s => by rw [hf]; rfl) inv.wfADPCM
    · have hFq : ({ (BT.InstrumentsManager.updateSSG ((BT.InstrumentsManager.updateSSG M c (fun s => { s with waveformEnabled := true })).cloneSSGWaveform refSsg.waveformNumber).2 c (fun s => { s with waveformNumber := ((BT.InstrumentsManager.updateSSG M c (fun s => { s with waveformEnabled := true })).cloneSSGWaveform refSsg.waveformNumber).1 })) with wfSSG := (BT.InstrumentsManager.updateSSG ((BT.InstrumentsManager.updateSSG M c (fun s => { s with waveformEnabled := true })).cloneSSGWaveform refSsg.waveformNumber).2 c (fun s => { s with waveformNumber := ((BT.InstrumentsManager.updateSSG M c (fun s => { s with waveformEnabled := true })).cloneSSGWaveform refSsg.waveformNumber).1 })).wfSSG.registerUser ((BT.InstrumentsManager.updateSSG M c (fun s => { s with waveformEnabled := true })).cloneSSGWaveform refSsg.waveformNumber).1 c }).envADPCM = M.envADPCM := by
        show (BT.InstrumentsManager.updateSSG ((BT.InstrumentsManager.updateSSG M c (fun s => { s with waveformEnabled := true })).cloneSSGWaveform refSsg.waveformNumber).2 c (fun s => { s with waveformNumber := ((BT.InstrumentsManager.updateSSG M c (fun s => { s with waveformEnabled := true })).cloneSSGWaveform refSsg.waveformNumber).1 })).envADPCM = M.envADPCM
        rw [updateSSG_envADPCM ((BT.InstrumentsManager.updateSSG M c (fun s => { s with waveformEnabled := true })).cloneSSGWaveform refSsg.waveformNumber).2 c (fun s => { s with waveformNumber := ((BT.InstrumentsManager.updateSSG M c (fun s => { s with waveformEnabled := true })).cloneSSGWaveform refSsg.waveformNumber).1 })]
        rw [show ((BT.InstrumentsManager.updateSSG M c (fun s => { s with waveformEnabled := true })).cloneSSGWaveform refSsg.waveformNumber).2.envADPCM = (BT.InstrumentsManager.updateSSG M c (fun s => { s with waveformEnabled := true })).envADPCM from rfl]
        rw [updateSSG_envADPCM M c (fun s => { s with waveformEnabled := true })]
      rw [hFq, hfin_i]
      exact poolSync_update_irrelevant (fun s => by rw [hf]; rfl) inv.envADPCM
    · have hFq : ({ (BT.InstrumentsManager.updateSSG ((BT.InstrumentsManager.updateSSG M c (fun s => { s with waveformEnabled := true })).cloneSSGWaveform refSsg.waveformNumber).2 c (fun s => { s with waveformNumber := ((BT.InstrumentsManager.updateSSG M c (fun s => { s with waveformEnabled := true })).cloneSSGWaveform refSsg.waveformNumber).1 })) with wfSSG := (BT.InstrumentsManager.updateSSG ((BT.InstrumentsManager.updateSSG M c (fun s => { s with waveformEnabled := true })).cloneSSGWaveform refSsg.waveformNumber).2 c (fun s => { s with waveformNumber := ((BT.InstrumentsManager.updateSSG M c (fun s => { s with waveformEnabled := true })).cloneSSGWaveform refSsg.waveformNumber).1 })).wfSSG.registerUser ((BT.InstrumentsManager.updateSSG M c (fun s => { s with waveformEnabled := true })).cloneSSGWaveform refSsg.waveformNumber).1 c }).arpADPCM = M.arpADPCM := by
        show (BT.InstrumentsManager.updateSSG ((BT.InstrumentsManager.updateSSG M c (fun s => { s with waveformEnabled := true })).cloneSSGWaveform refSsg.waveformNumber).2 c (fun s => { s with waveformNumber := ((BT.InstrumentsManager.updateSSG M c (fun s => { s with waveformEnabled := true })).cloneSSGWaveform refSsg.waveformNumber).1 })).arpADPCM = M.arpADPCM
        rw [updateSSG_arpADPCM ((BT.InstrumentsManager.updateSSG M c (fun s => { s with waveformEnabled := true })).cloneSSGWaveform refSsg.waveformNumber).2 c (fun s => { s with waveformNumber := ((BT.InstrumentsManager.updateSSG M c (fun s => { s with waveformEnabled := true })).cloneSSGWaveform refSsg.waveformNumber).1 })]
        rw [show ((BT.InstrumentsManager.updateSSG M c (fun s => { s with waveformEnabled := true })).cloneSSGWaveform refSsg.waveformNumber).2.arpADPCM = (BT.InstrumentsManager.updateSSG M c (fun s => { s with waveformEnabled := true })).arpADPCM from rfl]
        rw [updateSSG_arpADPCM M c (fun s => { s with waveformEnabled := true })]
      rw [hFq, hfin_i]
      exact poolSync_update_irrelevant (fun s => by rw [hf]; rfl) inv.arpADPCM
    · have hFq : ({ (BT.InstrumentsManager.updateSSG ((BT.InstrumentsManager.updateSSG M c (fun s => { s with waveformEnabled := true })).cloneSSGWaveform refSsg.waveformNumber).2 c (fun s => { s with waveformNumber := ((BT.InstrumentsManager.updateSSG M c (fun s => { s with waveformEnabled := true })).cloneSSGWaveform refSsg.waveformNumber).1 })) with wfSSG := (BT.InstrumentsManager.updateSSG ((BT.InstrumentsManager.updateSSG M c (fun s => { s with waveformEnabled := true })).cloneSSGWaveform refSsg.waveformNumber).2 c (fun s => { s with waveformNumber := ((BT.InstrumentsManager.updateSSG M c (fun s => { s with waveformEnabled := true })).cloneSSGWaveform refSsg.waveformNumber).1 })).wfSSG.registerUser ((BT.InstrumentsManager.updateSSG M c (fun s => { s with waveformEnabled := true })).cloneSSGWaveform refSsg.waveformNumber).1 c }).ptADPCM = M.ptADPCM := by
        show (BT.InstrumentsManager.updateSSG ((BT.InstrumentsManager.updateSSG M c (fun s => { s with waveformEnabled := true })).cloneSSGWaveform refSsg.waveformNumber).2 c (fun s => { s with waveformNumber := ((BT.InstrumentsManager.updateSSG M c (fun s => { s with waveformEnabled := true })).cloneSSGWaveform refSsg.waveformNumber).1 })).ptADPCM = M.ptADPCM
        rw [updateSSG_ptADPCM ((BT.InstrumentsManager.updateSSG M c (fun s => { s with waveformEnabled := true })).cloneSSGWaveform refSsg.waveformNumber).2 c (fun s => { s with waveformNumber := ((BT.InstrumentsManager.updateSSG M c (fun s => { s with waveformEnabled := true })).cloneSSGWaveform refSsg.waveformNumber).1 })]
        rw [show ((BT.InstrumentsManager.updateSSG M c (fun s => { s with waveformEnabled := true })).cloneSSGWaveform refSsg.waveformNumber).2.ptADPCM = (BT.InstrumentsManager.updateSSG M c (fun s => { s with waveformEnabled := true })).ptADPCM from rfl]
        rw [updateSSG_ptADPCM M c (fun s => { s with waveformEnabled := true })]
      rw [hFq, hfin_i]
      exact poolSync_update_irrelevant (fun s => by rw [hf]; rfl) inv.ptADPCM
  · rw [if_neg hb]
    exact ⟨inv, f, hf, rfl, rfl, rfl, rfl⟩

set_option maxHeartbeats 2000000 in
/-- The tnSSG deep-clone block preserves the invariant: the prior flag is
disabled, so the freshly registered slot is the record's only reference. -/
theorem inv_dcBlock_tnSSG (M : BT.InstrumentsManager) (refSsg : BT.InstrumentSSG) (c : Nat)
    (hc : c < 128) (f : BT.InstrumentSSG) (hf : M.insts c = some (.ssg f))
    (hflag : f.toneNoiseEnabled = false) (inv : BT.Inv M) :
    BT.Inv (if refSsg.toneNoiseEnabled then { (BT.InstrumentsManager.updateSSG ((BT.InstrumentsManager.updateSSG M c (fun s => { s with toneNoiseEnabled := true })).cloneSSGToneNoise refSsg.toneNoiseNumber).2 c (fun s => { s with toneNoiseNumber := ((BT.InstrumentsManager.updateSSG M c (fun s => { s with toneNoiseEnabled := true })).cloneSSGToneNoise refSsg.toneNoiseNumber).1 })) with tnSSG := (BT.InstrumentsManager.updateSSG ((BT.InstrumentsManager.updateSSG M c (fun s => { s with toneNoiseEnabled := true })).cloneSSGToneNoise refSsg.toneNoiseNumber).2 c (fun s => { s with toneNoiseNumber := ((BT.InstrumentsManager.updateSSG M c (fun s => { s with toneNoiseEnabled := true })).cloneSSGToneNoise refSsg.toneNoiseNumber).1 })).tnSSG.registerUser ((BT.InstrumentsManager.updateSSG M c (fun s => { s with toneNoiseEnabled := true })).cloneSSGToneNoise refSsg.toneNoiseNumber).1 c } else M) ∧
    ∃ f', ((if refSsg.toneNoiseEnabled then { (BT.InstrumentsManager.updateSSG ((BT.InstrumentsManager.updateSSG M c (fun s => { s with toneNoiseEnabled := true })).cloneSSGToneNoise refSsg.toneNoiseNumber).2 c (fun s => { s with toneNoiseNumber := ((BT.InstrumentsManager.updateSSG M c (fun s => { s with toneNoiseEnabled := true })).cloneSSGToneNoise refSsg.toneNoiseNumber).1 })) with tnSSG := (BT.InstrumentsManager.updateSSG ((BT.InstrumentsManager.updateSSG M c (fun s => { s with toneNoiseEnabled := true })).cloneSSGToneNoise refSsg.toneNoiseNumber).2 c (fun s => { s with toneNoiseNumber := ((BT.InstrumentsManager.updateSSG M c (fun s => { s with toneNoiseEnabled := true })).cloneSSGToneNoise refSsg.toneNoiseNumber).1 })).tnSSG.registerUser ((BT.InstrumentsManager.updateSSG M c (fun s => { s with toneNoiseEnabled := true })).cloneSSGToneNoise refSsg.toneNoiseNumber).1 c } else M)).insts c = some (.ssg f') ∧
      f'.waveformEnabled = f.waveformEnabled ∧
      f'.envelopeEnabled = f.envelopeEnabled ∧
      f'.arpeggioEnabled = f.arpeggioEnabled ∧
      f'.pitchEnabled = f.pitchEnabled := by
  by_cases hb : refSsg.toneNoiseEnabled = true
  · rw [if_pos hb]
    have hma_i : (BT.InstrumentsManager.updateSSG M c (fun s => { s with toneNoiseEnabled := true })).insts = Function.update M.insts c (some (.ssg { f with toneNoiseEnabled := true })) :=
      updateSSG_insts M c (fun s => { s with toneNoiseEnabled := true }) f hf
    have hma_c : (BT.InstrumentsManager.updateSSG M c (fun s => { s with toneNoiseEnabled := true })).insts c = some (.ssg { f with toneNoiseEnabled := true }) := by
      rw [hma_i]
      exact Function.update_same c _ M.insts
    have hrl_c : ((BT.InstrumentsManager.updateSSG M c (fun s => { s with toneNoiseEnabled := true })).cloneSSGToneNoise refSsg.toneNoiseNumber).2.insts c = some (.ssg { f with toneNoiseEnabled := true }) := hma_c
    have hmb_i : (BT.InstrumentsManager.updateSSG ((BT.InstrumentsManager.updateSSG M c (fun s => { s with toneNoiseEnabled := true })).cloneSSGToneNoise refSsg.toneNoiseNumber).2 c (fun s => { s with toneNoiseNumber := ((BT.InstrumentsManager.updateSSG M c (fun s => { s with toneNoiseEnabled := true })).cloneSSGToneNoise refSsg.toneNoiseNumber).1 })).insts = Function.update ((BT.InstrumentsManager.updateSSG M c (fun s => { s with toneNoiseEnabled := true })).cloneSSGToneNoise refSsg.toneNoiseNumber).2.insts c
        (some (.ssg { { f with toneNoiseEnabled := true } with toneNoiseNumber := ((BT.InstrumentsManager.updateSSG M c (fun s => { s with toneNoiseEnabled := true })).cloneSSGToneNoise refSsg.toneNoiseNumber).1 })) :=
      updateSSG_insts ((BT.InstrumentsManager.updateSSG M c (fun s => { s with toneNoiseEnabled := true })).cloneSSGToneNoise refSsg.toneNoiseNumber).2 c (fun s => { s with toneNoiseNumber := ((BT.InstrumentsManager.updateSSG M c (fun s => { s with toneNoiseEnabled := true })).cloneSSGToneNoise refSsg.toneNoiseNumber).1 }) { f with toneNoiseEnabled := true } hrl_c
    have hfin_i : ({ (BT.InstrumentsManager.updateSSG ((BT.InstrumentsManager.updateSSG M c (fun s => { s with toneNoiseEnabled := true })).cloneSSGToneNoise refSsg.toneNoiseNumber).2 c (fun s => { s with toneNoiseNumber := ((BT.InstrumentsManager.updateSSG M c (fun s => { s with toneNoiseEnabled := true })).cloneSSGToneNoise refSsg.toneNoiseNumber).1 })) with tnSSG := (BT.InstrumentsManager.updateSSG ((BT.InstrumentsManager.updateSSG M c (fun s => { s with toneNoiseEnabled := true })).cloneSSGToneNoise refSsg.toneNoiseNumber).2 c (fun s => { s with toneNoiseNumber := ((BT.InstrumentsManager.updateSSG M c (fun s => { s with toneNoiseEnabled := true })).cloneSSGToneNoise refSsg.toneNoiseNumber).1 })).tnSSG.registerUser ((BT.InstrumentsManager.updateSSG M c (fun s => { s with toneNoiseEnabled := true })).cloneSSGToneNoise refSsg.toneNoiseNumber).1 c }).insts = Function.update M.insts c (some (.ssg { f with toneNoiseEnabled := true, toneNoiseNumber := ((BT.InstrumentsManager.updateSSG M c (fun s => { s with toneNoiseEnabled := true })).cloneSSGToneNoise refSsg.toneNoiseNumber).1 })) := by
      show (BT.InstrumentsManager.updateSSG ((BT.InstrumentsManager.updateSSG M c (fun s => { s with toneNoiseEnabled := true })).cloneSSGToneNoise refSsg.toneNoiseNumber).2 c (fun s => { s with toneNoiseNumber := ((BT.InstrumentsManager.updateSSG M c (fun s => { s with toneNoiseEnabled := true })).cloneSSGToneNoise refSsg.toneNoiseNumber).1 })).insts = _
      rw [hmb_i]
      show Function.update (BT.InstrumentsManager.updateSSG M c (fun s => { s with toneNoiseEnabled := true })).insts c (some (.ssg { f with toneNoiseEnabled := true, toneNoiseNumber := ((BT.InstrumentsManager.updateSSG M c (fun s => { s with toneNoiseEnabled := true })).cloneSSGToneNoise refSsg.toneNoiseNumber).1 })) = _
      rw [hma_i, Function.update_idem]
    have hfin_pool : ({ (BT.InstrumentsManager.updateSSG ((BT.InstrumentsManager.updateSSG M c (fun s => { s with toneNoiseEnabled := true })).cloneSSGToneNoise refSsg.toneNoiseNumber).2 c (fun s => { s with toneNoiseNumber := ((BT.InstrumentsManager.updateSSG M c (fun s => { s with toneNoiseEnabled := true })).cloneSSGToneNoise refSsg.toneNoiseNumber).1 })) with tnSSG := (BT.InstrumentsManager.updateSSG ((BT.InstrumentsManager.updateSSG M c (fun s => { s with toneNoiseEnabled := true })).cloneSSGToneNoise refSsg.toneNoiseNumber).2 c (fun s => { s with toneNoiseNumber := ((BT.InstrumentsManager.updateSSG M c (fun s => { s with toneNoiseEnabled := true })).cloneSSGToneNoise refSsg.toneNoiseNumber).1 })).tnSSG.registerUser ((BT.InstrumentsManager.updateSSG M c (fun s => { s with toneNoiseEnabled := true })).cloneSSGToneNoise refSsg.toneNoiseNumber).1 c }).tnSSG =
        (((BT.InstrumentsManager.updateSSG M c (fun s => { s with toneNoiseEnabled := true })).tnSSG.cloneProp refSsg.toneNoiseNumber).2).registerUser ((BT.InstrumentsManager.updateSSG M c (fun s => { s with toneNoiseEnabled := true })).cloneSSGToneNoise refSsg.toneNoiseNumber).1 c := by
      show (BT.InstrumentsManager.updateSSG ((BT.InstrumentsManager.updateSSG M c (fun s => { s with toneNoiseEnabled := true })).cloneSSGToneNoise refSsg.toneNoiseNumber).2 c (fun s => { s with toneNoiseNumber := ((BT.InstrumentsManager.updateSSG M c (fun s => { s with toneNoiseEnabled := true })).cloneSSGToneNoise refSsg.toneNoiseNumber).1 })).tnSSG.registerUser ((BT.InstrumentsManager.updateSSG M c (fun s => { s with toneNoiseEnabled := true })).cloneSSGToneNoise refSsg.toneNoiseNumber).1 c = _
      rw [updateSSG_tnSSG ((BT.InstrumentsManager.updateSSG M c (fun s => { s with toneNoiseEnabled := true })).cloneSSGToneNoise refSsg.toneNoiseNumber).2 c (fun s => { s with toneNoiseNumber := ((BT.InstrumentsManager.updateSSG M c (fun s => { s with toneNoiseEnabled := true })).cloneSSGToneNoise refSsg.toneNoiseNumber).1 })]
      rfl
    have hold : ∀ s, BT.ssgTnPoints (.ssg f) s = false := by
      intro s
      show (f.toneNoiseEnabled && (f.toneNoiseNumber == s)) = false
      rw [hflag]
      rfl
    have husers : ∀ s, s < 128 → (({ (BT.InstrumentsManager.updateSSG ((BT.InstrumentsManager.updateSSG M c (fun s => { s with toneNoiseEnabled := true })).cloneSSGToneNoise refSsg.toneNoiseNumber).2 c (fun s => { s with toneNoiseNumber := ((BT.InstrumentsManager.updateSSG M c (fun s => { s with toneNoiseEnabled := true })).cloneSSGToneNoise refSsg.toneNoiseNumber).1 })) with tnSSG := (BT.InstrumentsManager.updateSSG ((BT.InstrumentsManager.updateSSG M c (fun s => { s with toneNoiseEnabled := true })).cloneSSGToneNoise refSsg.toneNoiseNumber).2 c (fun s => { s with toneNoiseNumber := ((BT.InstrumentsManager.updateSSG M c (fun s => { s with toneNoiseEnabled := true })).cloneSSGToneNoise refSsg.toneNoiseNumber).1 })).tnSSG.registerUser ((BT.InstrumentsManager.updateSSG M c (fun s => { s with toneNoiseEnabled := true })).cloneSSGToneNoise refSsg.toneNoiseNumber).1 c }).tnSSG s).users =
        if BT.ssgTnPoints (.ssg { f with toneNoiseEnabled := true, toneNoiseNumber := ((BT.InstrumentsManager.updateSSG M c (fun s => { s with toneNoiseEnabled := true })).cloneSSGToneNoise refSsg.toneNoiseNumber).1 }) s = true
        then insert c ((M.tnSSG s).users) else (M.tnSSG s).users := by
      intro s hs
      rw [hfin_pool, users_registerUser, users_cloneProp, users_cloneProp]
      rw [updateSSG_tnSSG M c (fun s => { s with toneNoiseEnabled := true })]
      by_cases hp : BT.ssgTnPoints (.ssg { f with toneNoiseEnabled := true, toneNoiseNumber := ((BT.InstrumentsManager.updateSSG M c (fun s => { s with toneNoiseEnabled := true })).cloneSSGToneNoise refSsg.toneNoiseNumber).1 }) s = true
      · rw [if_pos hp]
        have h2 : (true && (((BT.InstrumentsManager.updateSSG M c (fun s => { s with toneNoiseEnabled := true })).cloneSSGToneNoise refSsg.toneNoiseNumber).1 == s)) = true := hp
        rw [Bool.true_and, beq_iff_eq] at h2
        rw [if_pos h2.symm, h2]
      · rw [if_neg hp]
        have hsne : ¬ s = ((BT.InstrumentsManager.updateSSG M c (fun s => { s with toneNoiseEnabled := true })).cloneSSGToneNoise refSsg.toneNoiseNumber).1 := by
          intro hseq
          apply hp
          show (true && (((BT.InstrumentsManager.updateSSG M c (fun s => { s with toneNoiseEnabled := true })).cloneSSGToneNoise refSsg.toneNoiseNumber).1 == s)) = true
          rw [hseq]
          simp
        rw [if_neg hsne]
    refine ⟨⟨?_, ?_, ?_, ?_, ?_, ?_, ?_, ?_, ?_, ?_, ?_, ?_, ?_, ?_⟩,
      { f with toneNoiseEnabled := true, toneNoiseNumber := ((BT.InstrumentsManager.updateSSG M c (fun s => { s with toneNoiseEnabled := true })).cloneSSGToneNoise refSsg.toneNoiseNumber).1 }, by
        rw [hfin_i]
        exact Function.update_same c _ M.insts, rfl, rfl, rfl, rfl⟩
    · have hFq : ({ (BT.InstrumentsManager.updateSSG ((BT.InstrumentsManager.updateSSG M c (fun s => { s with toneNoiseEnabled := true })).cloneSSGToneNoise refSsg.toneNoiseNumber).2 c (fun s => { s with toneNoiseNumber := ((BT.InstrumentsManager.updateSSG M c (fun s => { s with toneNoiseEnabled := true })).cloneSSGToneNoise refSsg.toneNoiseNumber).1 })) with tnSSG := (BT.InstrumentsManager.updateSSG ((BT.InstrumentsManager.updateSSG M c (fun s => { s with toneNoiseEnabled := true })).cloneSSGToneNoise refSsg.toneNoiseNumber).2 c (fun s => { s with toneNoiseNumber := ((BT.InstrumentsManager.updateSSG M c (fun s => { s with toneNoiseEnabled := true })).cloneSSGToneNoise refSsg.toneNoiseNumber).1 })).tnSSG.registerUser ((BT.InstrumentsManager.updateSSG M c (fun s => { s with toneNoiseEnabled := true })).cloneSSGToneNoise refSsg.toneNoiseNumber).1 c }).envFM = M.envFM := by
        show (BT.InstrumentsManager.updateSSG ((BT.InstrumentsManager.updateSSG M c (fun s => { s with toneNoiseEnabled := true })).cloneSSGToneNoise refSsg.toneNoiseNumber).2 c (fun s => { s with toneNoiseNumber := ((BT.InstrumentsManager.updateSSG M c (fun s => { s with toneNoiseEnabled := true })).cloneSSGToneNoise refSsg.toneNoiseNumber).1 })).envFM = M.envFM
        rw [updateSSG_envFM ((BT.InstrumentsManager.updateSSG M c (fun s => { s with toneNoiseEnabled := true })).cloneSSGToneNoise refSsg.toneNoiseNumber).2 c (fun s => { s with toneNoiseNumber := ((BT.InstrumentsManager.updateSSG M c (fun s => { s with toneNoiseEnabled := true })).cloneSSGToneNoise refSsg.toneNoiseNumber).1 })]
        rw [show ((BT.InstrumentsManager.updateSSG M c (fun s => { s with toneNoiseEnabled := true })).cloneSSGToneNoise refSsg.toneNoiseNumber).2.envFM = (BT.InstrumentsManager.updateSSG M c (fun s => { s with toneNoiseEnabled := true })).envFM from rfl]
        rw [updateSSG_envFM M c (fun s => { s with toneNoiseEnabled := true })]
      rw [hFq, hfin_i]
      exact poolSync_update_irrelevant (fun s => by rw [hf]; rfl) inv.envFM
    · have hFq : ({ (BT.InstrumentsManager.updateSSG ((BT.InstrumentsManager.updateSSG M c (fun s => { s with toneNoiseEnabled := true })).cloneSSGToneNoise refSsg.toneNoiseNumber).2 c (fun s => { s with toneNoiseNumber := ((BT.InstrumentsManager.updateSSG M c (fun s => { s with toneNoiseEnabled := true })).cloneSSGToneNoise refSsg.toneNoiseNumber).1 })) with tnSSG := (BT.InstrumentsManager.updateSSG ((BT.InstrumentsManager.updateSSG M c (fun s => { s with toneNoiseEnabled := true })).cloneSSGToneNoise refSsg.toneNoiseNumber).2 c (fun s => { s with toneNoiseNumber := ((BT.InstrumentsManager.updateSSG M c (fun s => { s with toneNoiseEnabled := true })).cloneSSGToneNoise refSsg.toneNoiseNumber).1 })).tnSSG.registerUser ((BT.InstrumentsManager.updateSSG M c (fun s => { s with toneNoiseEnabled := true })).cloneSSGToneNoise refSsg.toneNoiseNumber).1 c }).lfoFM = M.lfoFM := by
        show (BT.InstrumentsManager.updateSSG ((BT.InstrumentsManager.updateSSG M c (fun s => { s with toneNoiseEnabled := true })).cloneSSGToneNoise refSsg.toneNoiseNumber).2 c (fun s => { s with toneNoiseNumber := ((BT.InstrumentsManager.updateSSG M c (fun s => { s with toneNoiseEnabled := true })).cloneSSGToneNoise refSsg.toneNoiseNumber).1 })).lfoFM = M.lfoFM
        rw [updateSSG_lfoFM ((BT.InstrumentsManager.updateSSG M c (fun s => { s with toneNoiseEnabled := true })).cloneSSGToneNoise refSsg.toneNoiseNumber).2 c (fun s => { s with toneNoiseNumber := ((BT.InstrumentsManager.updateSSG M c (fun s => { s with toneNoiseEnabled := true })).cloneSSGToneNoise refSsg.toneNoiseNumber).1 })]
        rw [show ((BT.InstrumentsManager.updateSSG M c (fun s => { s with toneNoiseEnabled := true })).cloneSSGToneNoise refSsg.toneNoiseNumber).2.lfoFM = (BT.InstrumentsManager.updateSSG M c (fun s => { s with toneNoiseEnabled := true })).lfoFM from rfl]
        rw [updateSSG_lfoFM M c (fun s => { s with toneNoiseEnabled := true })]
      rw [hFq, hfin_i]
      exact poolSync_update_irrelevant (fun s => by rw [hf]; rfl) inv.lfoFM
    · intro p hp
      have hFq : ({ (BT.InstrumentsManager.updateSSG ((BT.InstrumentsManager.updateSSG M c (fun s => { s with toneNoiseEnabled := true })).cloneSSGToneNoise refSsg.toneNoiseNumber).2 c (fun s => { s with toneNoiseNumber := ((BT.InstrumentsManager.updateSSG M c (fun s => { s with toneNoiseEnabled := true })).cloneSSGToneNoise refSsg.toneNoiseNumber).1 })) with tnSSG := (BT.InstrumentsManager.updateSSG ((BT.InstrumentsManager.updateSSG M c (fun s => { s with toneNoiseEnabled := true })).cloneSSGToneNoise refSsg.toneNoiseNumber).2 c (fun s => { s with toneNoiseNumber := ((BT.InstrumentsManager.updateSSG M c (fun s => { s with toneNoiseEnabled := true })).cloneSSGToneNoise refSsg.toneNoiseNumber).1 })).tnSSG.registerUser ((BT.InstrumentsManager.updateSSG M c (fun s => { s with toneNoiseEnabled := true })).cloneSSGToneNoise refSsg.toneNoiseNumber).1 c }).opSeqFM = M.opSeqFM := by
        show (BT.InstrumentsManager.updateSSG ((BT.InstrumentsManager.updateSSG M c (fun s => { s with toneNoiseEnabled := true })).cloneSSGToneNoise refSsg.toneNoiseNumber).2 c (fun s => { s with toneNoiseNumber := ((BT.InstrumentsManager.updateSSG M c (fun s => { s with toneNoiseEnabled := true })).cloneSSGToneNoise refSsg.toneNoiseNumber).1 })).opSeqFM = M.opSeqFM
        rw [updateSSG_opSeqFM ((BT.InstrumentsManager.updateSSG M c (fun s => { s with toneNoiseEnabled := true })).cloneSSGToneNoise refSsg.toneNoiseNumber).2 c (fun s => { s with toneNoiseNumber := ((BT.InstrumentsManager.updateSSG M c (fun s => { s with toneNoiseEnabled := true })).cloneSSGToneNoise refSsg.toneNoiseNumber).1 })]
        rw [show ((BT.InstrumentsManager.updateSSG M c (fun s => { s with toneNoiseEnabled := true })).cloneSSGToneNoise refSsg.toneNoiseNumber).2.opSeqFM = (BT.InstrumentsManager.updateSSG M c (fun s => { s with toneNoiseEnabled := true })).opSeqFM from rfl]
        rw [updateSSG_opSeqFM M c (fun s => { s with toneNoiseEnabled := true })]
      rw [hFq, hfin_i]
      exact poolSync_update_irrelevant (fun s => by rw [hf]; rfl) (inv.opSeqFM p hp)
    · have hFq : ({ (BT.InstrumentsManager.updateSSG ((BT.InstrumentsManager.updateSSG M c (fun s => { s with toneNoiseEnabled := true })).cloneSSGToneNoise refSsg.toneNoiseNumber).2 c (fun s => { s with toneNoiseNumber := ((BT.InstrumentsManager.updateSSG M c (fun s => { s with toneNoiseEnabled := true })).cloneSSGToneNoise refSsg.toneNoiseNumber).1 })) with tnSSG := (BT.InstrumentsManager.updateSSG ((BT.InstrumentsManager.updateSSG M c (fun s => { s with toneNoiseEnabled := true })).cloneSSGToneNoise refSsg.toneNoiseNumber).2 c (fun s => { s with toneNoiseNumber := ((BT.InstrumentsManager.updateSSG M c (fun s => { s with toneNoiseEnabled := true })).cloneSSGToneNoise refSsg.toneNoiseNumber).1 })).tnSSG.registerUser ((BT.InstrumentsManager.updateSSG M c (fun s => { s with toneNoiseEnabled := true })).cloneSSGToneNoise refSsg.toneNoiseNumber).1 c }).arpFM = M.arpFM := by
        show (BT.InstrumentsManager.updateSSG ((BT.InstrumentsManager.updateSSG M c (fun s => { s with toneNoiseEnabled := true })).cloneSSGToneNoise refSsg.toneNoiseNumber).2 c (fun s => { s with toneNoiseNumber := ((BT.InstrumentsManager.updateSSG M c (fun s => { s with toneNoiseEnabled := true })).cloneSSGToneNoise refSsg.toneNoiseNumber).1 })).arpFM = M.arpFM
        rw [updateSSG_arpFM ((BT.InstrumentsManager.updateSSG M c (fun s => { s with toneNoiseEnabled := true })).cloneSSGToneNoise refSsg.toneNoiseNumber).2 c (fun s => { s with toneNoiseNumber := ((BT.InstrumentsManager.updateSSG M c (fun s => { s with toneNoiseEnabled := true })).cloneSSGToneNoise refSsg.toneNoiseNumber).1 })]
        rw [show ((BT.InstrumentsManager.updateSSG M c (fun s => { s with toneNoiseEnabled := true })).cloneSSGToneNoise refSsg.toneNoiseNumber).2.arpFM = (BT.InstrumentsManager.updateSSG M c (fun s => { s with toneNoiseEnabled := true })).arpFM from rfl]
        rw [updateSSG_arpFM M c (fun s => { s with toneNoiseEnabled := true })]
      rw [hFq, hfin_i]
      exact poolSync_update_irrelevant (fun s => by rw [hf]; rfl) inv.arpFM
    · have hFq : ({ (BT.InstrumentsManager.updateSSG ((BT.InstrumentsManager.updateSSG M c (fun s => { s with toneNoiseEnabled := true })).cloneSSGToneNoise refSsg.toneNoiseNumber).2 c (fun s => { s with toneNoiseNumber := ((BT.InstrumentsManager.updateSSG M c (fun s => { s with toneNoiseEnabled := true })).cloneSSGToneNoise refSsg.toneNoiseNumber).1 })) with tnSSG := (BT.InstrumentsManager.updateSSG ((BT.InstrumentsManager.updateSSG M c (fun s => { s with toneNoiseEnabled := true })).cloneSSGToneNoise refSsg.toneNoiseNumber).2 c (fun s => { s with toneNoiseNumber := ((BT.InstrumentsManager.updateSSG M c (fun s => { s with toneNoiseEnabled := true })).cloneSSGToneNoise refSsg.toneNoiseNumber).1 })).tnSSG.registerUser ((BT.InstrumentsManager.updateSSG M c (fun s => { s with toneNoiseEnabled := true })).cloneSSGToneNoise refSsg.toneNoiseNumber).1 c }).ptFM = M.ptFM := by
        show (BT.InstrumentsManager.updateSSG ((BT.InstrumentsManager.updateSSG M c (fun s => { s with toneNoiseEnabled := true })).cloneSSGToneNoise refSsg.toneNoiseNumber).2 c (fun s => { s with toneNoiseNumber := ((BT.InstrumentsManager.updateSSG M c (fun s => { s with toneNoiseEnabled := true })).cloneSSGToneNoise refSsg.toneNoiseNumber).1 })).ptFM = M.ptFM
        rw [updateSSG_ptFM ((BT.InstrumentsManager.updateSSG M c (fun s => { s with toneNoiseEnabled := true })).cloneSSGToneNoise refSsg.toneNoiseNumber).2 c (fun s => { s with toneNoiseNumber := ((BT.InstrumentsManager.updateSSG M c (fun s => { s with toneNoiseEnabled := true })).cloneSSGToneNoise refSsg.toneNoiseNumber).1 })]
        rw [show ((BT.InstrumentsManager.updateSSG M c (fun s => { s with toneNoiseEnabled := true })).cloneSSGToneNoise refSsg.toneNoiseNumber).2.ptFM = (BT.InstrumentsManager.updateSSG M c (fun s => { s with toneNoiseEnabled := true })).ptFM from rfl]
        rw [updateSSG_ptFM M c (fun s => { s with toneNoiseEnabled := true })]
      rw [hFq, hfin_i]
      exact poolSync_update_irrelevant (fun s => by rw [hf]; rfl) inv.ptFM
    · have hFq : ({ (BT.InstrumentsManager.updateSSG ((BT.InstrumentsManager.updateSSG M c (fun s => { s with toneNoiseEnabled := true })).cloneSSGToneNoise refSsg.toneNoiseNumber).2 c (fun s => { s with toneNoiseNumber := ((BT.InstrumentsManager.updateSSG M c (fun s => { s with toneNoiseEnabled := true })).cloneSSGToneNoise refSsg.toneNoiseNumber).1 })) with tnSSG := (BT.InstrumentsManager.updateSSG ((BT.InstrumentsManager.updateSSG M c (fun s => { s with toneNoiseEnabled := true })).cloneSSGToneNoise refSsg.toneNoiseNumber).2 c (fun s => { s with toneNoiseNumber := ((BT.InstrumentsManager.updateSSG M c (fun s => { s with toneNoiseEnabled := true })).cloneSSGToneNoise refSsg.toneNoiseNumber).1 })).tnSSG.registerUser ((BT.InstrumentsManager.updateSSG M c (fun s => { s with toneNoiseEnabled := true })).cloneSSGToneNoise refSsg.toneNoiseNumber).1 c }).wfSSG = M.wfSSG := by
        show (BT.InstrumentsManager.updateSSG ((BT.InstrumentsManager.updateSSG M c (fun s => { s with toneNoiseEnabled := true })).cloneSSGToneNoise refSsg.toneNoiseNumber).2 c (fun s => { s with toneNoiseNumber := ((BT.InstrumentsManager.updateSSG M c (fun s => { s with toneNoiseEnabled := true })).cloneSSGToneNoise refSsg.toneNoiseNumber).1 })).wfSSG = M.wfSSG
        rw [updateSSG_wfSSG ((BT.InstrumentsManager.updateSSG M c (fun s => { s with toneNoiseEnabled := true })).cloneSSGToneNoise refSsg.toneNoiseNumber).2 c (fun s => { s with toneNoiseNumber := ((BT.InstrumentsManager.updateSSG M c (fun s => { s with toneNoiseEnabled := true })).cloneSSGToneNoise refSsg.toneNoiseNumber).1 })]
        rw [show ((BT.InstrumentsManager.updateSSG M c (fun s => { s with toneNoiseEnabled := true })).cloneSSGToneNoise refSsg.toneNoiseNumber).2.wfSSG = (BT.InstrumentsManager.updateSSG M c (fun s => { s with toneNoiseEnabled := true })).wfSSG from rfl]
        rw [updateSSG_wfSSG M c (fun s => { s with toneNoiseEnabled := true })]
      rw [hFq, hfin_i]
      exact poolSync_update_irrelevant (fun s => by rw [hf]; rfl) inv.wfSSG
    · rw [hfin_i]
      exact poolSync_overwrite_register hc hf hold husers inv.tnSSG
    · have hFq : ({ (BT.InstrumentsManager.updateSSG ((BT.InstrumentsManager.updateSSG M c (fun s => { s with toneNoiseEnabled := true })).cloneSSGToneNoise refSsg.toneNoiseNumber).2 c (fun s => { s with toneNoiseNumber := ((BT.InstrumentsManager.updateSSG M c (fun s => { s with toneNoiseEnabled := true })).cloneSSGToneNoise refSsg.toneNoiseNumber).1 })) with tnSSG := (BT.InstrumentsManager.updateSSG ((BT.InstrumentsManager.updateSSG M c (fun s => { s with toneNoiseEnabled := true })).cloneSSGToneNoise refSsg.toneNoiseNumber).2 c (fun s => { s with toneNoiseNumber := ((BT.InstrumentsManager.updateSSG M c (fun s => { s with toneNoiseEnabled := true })).cloneSSGToneNoise refSsg.toneNoiseNumber).1 })).tnSSG.registerUser ((BT.InstrumentsManager.updateSSG M c (fun s => { s with toneNoiseEnabled := true })).cloneSSGToneNoise refSsg.toneNoiseNumber).1 c }).envSSG = M.envSSG := by
        show (BT.InstrumentsManager.updateSSG ((BT.InstrumentsManager.updateSSG M c (fun s => { s with toneNoiseEnabled := true })).cloneSSGToneNoise refSsg.toneNoiseNumber).2 c (fun s => { s with toneNoiseNumber := ((BT.InstrumentsManager.updateSSG M c (fun s => { s with toneNoiseEnabled := true })).cloneSSGToneNoise refSsg.toneNoiseNumber).1 })).envSSG = M.envSSG
        rw [updateSSG_envSSG ((BT.InstrumentsManager.updateSSG M c (fun s => { s with toneNoiseEnabled := true })).cloneSSGToneNoise refSsg.toneNoiseNumber).2 c (fun s => { s with toneNoiseNumber := ((BT.InstrumentsManager.updateSSG M c (fun s => { s with toneNoiseEnabled := true })).cloneSSGToneNoise refSsg.toneNoiseNumber).1 })]
        rw [show ((BT.InstrumentsManager.updateSSG M c (fun s => { s with toneNoiseEnabled := true })).cloneSSGToneNoise refSsg.toneNoiseNumber).2.envSSG = (BT.InstrumentsManager.updateSSG M c (fun s => { s with toneNoiseEnabled := true })).envSSG from rfl]
        rw [updateSSG_envSSG M c (fun s => { s with toneNoiseEnabled := true })]
      rw [hFq, hfin_i]
      exact poolSync_update_irrelevant (fun s => by rw [hf]; rfl) inv.envSSG
    · have hFq : ({ (BT.InstrumentsManager.updateSSG ((BT.InstrumentsManager.updateSSG M c (fun s => { s with toneNoiseEnabled := true })).cloneSSGToneNoise refSsg.toneNoiseNumber).2 c (fun s => { s with toneNoiseNumber := ((BT.InstrumentsManager.updateSSG M c (fun s => { s with toneNoiseEnabled := true })).cloneSSGToneNoise refSsg.toneNoiseNumber).1 })) with tnSSG := (BT.InstrumentsManager.updateSSG ((BT.InstrumentsManager.updateSSG M c (fun s => { s with toneNoiseEnabled := true })).cloneSSGToneNoise refSsg.toneNoiseNumber).2 c (fun s => { s with toneNoiseNumber := ((BT.InstrumentsManager.updateSSG M c (fun s => { s with toneNoiseEnabled := true })).cloneSSGToneNoise refSsg.toneNoiseNumber).1 })).tnSSG.registerUser ((BT.InstrumentsManager.updateSSG M c (fun s => { s with toneNoiseEnabled := true })).cloneSSGToneNoise refSsg.toneNoiseNumber).1 c }).arpSSG = M.arpSSG := by
        show (BT.InstrumentsManager.updateSSG ((BT.InstrumentsManager.updateSSG M c (fun s => { s with toneNoiseEnabled := true })).cloneSSGToneNoise refSsg.toneNoiseNumber).2 c (fun s => { s with toneNoiseNumber := ((BT.InstrumentsManager.updateSSG M c (fun s => { s with toneNoiseEnabled := true })).cloneSSGToneNoise refSsg.toneNoiseNumber).1 })).arpSSG = M.arpSSG
        rw [updateSSG_arpSSG ((BT.InstrumentsManager.updateSSG M c (fun s => { s with toneNoiseEnabled := true })).cloneSSGToneNoise refSsg.toneNoiseNumber).2 c (fun s => { s with toneNoiseNumber := ((BT.InstrumentsManager.updateSSG M c (fun s => { s with toneNoiseEnabled := true })).cloneSSGToneNoise refSsg.toneNoiseNumber).1 })]
        rw [show ((BT.InstrumentsManager.updateSSG M c (fun s => { s with toneNoiseEnabled := true })).cloneSSGToneNoise refSsg.toneNoiseNumber).2.arpSSG = (BT.InstrumentsManager.updateSSG M c (fun s => { s with toneNoiseEnabled := true })).arpSSG from rfl]
        rw [updateSSG_arpSSG M c (fun s => { s with toneNoiseEnabled := true })]
      rw [hFq, hfin_i]
      exact poolSync_update_irrelevant (fun s => by rw [hf]; rfl) inv.arpSSG
    · have hFq : ({ (BT.InstrumentsManager.updateSSG ((BT.InstrumentsManager.updateSSG M c (fun s => { s with toneNoiseEnabled := true })).cloneSSGToneNoise refSsg.toneNoiseNumber).2 c (fun s => { s with toneNoiseNumber := ((BT.InstrumentsManager.updateSSG M c (fun s => { s with toneNoiseEnabled := true })).cloneSSGToneNoise refSsg.toneNoiseNumber).1 })) with tnSSG := (BT.InstrumentsManager.updateSSG ((BT.InstrumentsManager.updateSSG M c (fun s => { s with toneNoiseEnabled := true })).cloneSSGToneNoise refSsg.toneNoiseNumber).2 c (fun s => { s with toneNoiseNumber := ((BT.InstrumentsManager.updateSSG M c (fun s => { s with toneNoiseEnabled := true })).cloneSSGToneNoise refSsg.toneNoiseNumber).1 })).tnSSG.registerUser ((BT.InstrumentsManager.updateSSG M c (fun s => { s with toneNoiseEnabled := true })).cloneSSGToneNoise refSsg.toneNoiseNumber).1 c }).ptSSG = M.ptSSG := by
        show (BT.InstrumentsManager.updateSSG ((BT.InstrumentsManager.updateSSG M c (fun s => { s with toneNoiseEnabled := true })).cloneSSGToneNoise refSsg.toneNoiseNumber).2 c (fun s => { s with toneNoiseNumber := ((BT.InstrumentsManager.updateSSG M c (fun s => { s with toneNoiseEnabled := true })).cloneSSGToneNoise refSsg.toneNoiseNumber).1 })).ptSSG = M.ptSSG
        rw [updateSSG_ptSSG ((BT.InstrumentsManager.updateSSG M c (fun s => { s with toneNoiseEnabled := true })).cloneSSGToneNoise refSsg.toneNoiseNumber).2 c (fun s => { s with toneNoiseNumber := ((BT.InstrumentsManager.updateSSG M c (fun s => { s with toneNoiseEnabled := true })).cloneSSGToneNoise refSsg.toneNoiseNumber).1 })]
        rw [show ((BT.InstrumentsManager.updateSSG M c (fun s => { s with toneNoiseEnabled := true })).cloneSSGToneNoise refSsg.toneNoiseNumber).2.ptSSG = (BT.InstrumentsManager.updateSSG M c (fun s => { s with toneNoiseEnabled := true })).ptSSG from rfl]
        rw [updateSSG_ptSSG M c (fun s => { s with toneNoiseEnabled := true })]
      rw [hFq, hfin_i]
      exact poolSync_update_irrelevant (fun s => by rw [hf]; rfl) inv.ptSSG
    · have hFq : ({ (BT.InstrumentsManager.updateSSG ((BT.InstrumentsManager.updateSSG M c (fun s => { s with toneNoiseEnabled := true })).cloneSSGToneNoise refSsg.toneNoiseNumber).2 c (fun s => { s with toneNoiseNumber := ((BT.InstrumentsManager.updateSSG M c (fun s => { s with toneNoiseEnabled := true })).cloneSSGToneNoise refSsg.toneNoiseNumber).1 })) with tnSSG := (BT.InstrumentsManager.updateSSG ((BT.InstrumentsManager.updateSSG M c (fun s => { s with toneNoiseEnabled := true })).cloneSSGToneNoise refSsg.toneNoiseNumber).2 c (fun s => { s with toneNoiseNumber := ((BT.InstrumentsManager.updateSSG M c (fun s => { s with toneNoiseEnabled := true })).cloneSSGToneNoise refSsg.toneNoiseNumber).1 })).tnSSG.registerUser ((BT.InstrumentsManager.updateSSG M c (fun s => { s with toneNoiseEnabled := true })).cloneSSGToneNoise refSsg.toneNoiseNumber).1 c }).wfADPCM = M.wfADPCM := by
        show (BT.InstrumentsManager.updateSSG ((BT.InstrumentsManager.updateSSG M c (fun s => { s with toneNoiseEnabled := true })).cloneSSGToneNoise refSsg.toneNoiseNumber).2 c (fun s => { s with toneNoiseNumber := ((BT.InstrumentsManager.updateSSG M c (fun s => { s with toneNoiseEnabled := true })).cloneSSGToneNoise refSsg.toneNoiseNumber).1 })).wfADPCM = M.wfADPCM
        rw [updateSSG_wfADPCM ((BT.InstrumentsManager.updateSSG M c (fun s => { s with toneNoiseEnabled := true })).cloneSSGToneNoise refSsg.toneNoiseNumber).2 c (fun s => { s with toneNoiseNumber := ((BT.InstrumentsManager.updateSSG M c (fun s => { s with toneNoiseEnabled := true })).cloneSSGToneNoise refSsg.toneNoiseNumber).1 })]
        rw [show ((BT.InstrumentsManager.updateSSG M c (fun s => { s with toneNoiseEnabled := true })).cloneSSGToneNoise refSsg.toneNoiseNumber).2.wfADPCM = (BT.InstrumentsManager.updateSSG M c (fun s => { s with toneNoiseEnabled := true })).wfADPCM from rfl]
        rw [updateSSG_wfADPCM M c (fun s => { s with toneNoiseEnabled := true })]
      rw [hFq, hfin_i]
      exact poolSync_update_irrelevant (fun s => by rw [hf]; rfl) inv.wfADPCM
    · have hFq : ({ (BT.InstrumentsManager.updateSSG ((BT.InstrumentsManager.updateSSG M c (fun s => { s with toneNoiseEnabled := true })).cloneSSGToneNoise refSsg.toneNoiseNumber).2 c (fun s => { s with toneNoiseNumber := ((BT.InstrumentsManager.updateSSG M c (fun s => { s with toneNoiseEnabled := true })).cloneSSGToneNoise refSsg.toneNoiseNumber).1 })) with tnSSG := (BT.InstrumentsManager.updateSSG ((BT.InstrumentsManager.updateSSG M c (fun s => { s with toneNoiseEnabled := true })).cloneSSGToneNoise refSsg.toneNoiseNumber).2 c (fun s => { s with toneNoiseNumber := ((BT.InstrumentsManager.updateSSG M c (fun s => { s with toneNoiseEnabled := true })).cloneSSGToneNoise refSsg.toneNoiseNumber).1 })).tnSSG.registerUser ((BT.InstrumentsManager.updateSSG M c (fun s => { s with toneNoiseEnabled := true })).cloneSSGToneNoise refSsg.toneNoiseNumber).1 c }).envADPCM = M.envADPCM := by
        show (BT.InstrumentsManager.updateSSG ((BT.InstrumentsManager.updateSSG M c (fun s => { s with toneNoiseEnabled := true })).cloneSSGToneNoise refSsg.toneNoiseNumber).2 c (fun s => { s with toneNoiseNumber := ((BT.InstrumentsManager.updateSSG M c (fun s => { s with toneNoiseEnabled := true })).cloneSSGToneNoise refSsg.toneNoiseNumber).1 })).envADPCM = M.envADPCM
        rw [updateSSG_envADPCM ((BT.InstrumentsManager.updateSSG M c (fun s => { s with toneNoiseEnabled := true })).cloneSSGToneNoise refSsg.toneNoiseNumber).2 c (fun s => { s with toneNoiseNumber := ((BT.InstrumentsManager.updateSSG M c (fun s => { s with toneNoiseEnabled := true })).cloneSSGToneNoise refSsg.toneNoiseNumber).1 })]
        rw [show ((BT.InstrumentsManager.updateSSG M c (fun s => { s with toneNoiseEnabled := true })).cloneSSGToneNoise refSsg.toneNoiseNumber).2.envADPCM = (BT.InstrumentsManager.updateSSG M c (fun s => { s with toneNoiseEnabled := true })).envADPCM from rfl]
        rw [updateSSG_envADPCM M c (fun s => { s with toneNoiseEnabled := true })]
      rw [hFq, hfin_i]
      exact poolSync_update_irrelevant (fun s => by rw [hf]; rfl) inv.envADPCM
    · have hFq : ({ (BT.InstrumentsManager.updateSSG ((BT.InstrumentsManager.updateSSG M c (fun s => { s with toneNoiseEnabled := true })).cloneSSGToneNoise refSsg.toneNoiseNumber).2 c (fun s => { s with toneNoiseNumber := ((BT.InstrumentsManager.updateSSG M c (fun s => { s with toneNoiseEnabled := true })).cloneSSGToneNoise refSsg.toneNoiseNumber).1 })) with tnSSG := (BT.InstrumentsManager.updateSSG ((BT.InstrumentsManager.updateSSG M c (fun s => { s with toneNoiseEnabled := true })).cloneSSGToneNoise refSsg.toneNoiseNumber).2 c (fun s => { s with toneNoiseNumber := ((BT.InstrumentsManager.updateSSG M c (fun s => { s with toneNoiseEnabled := true })).cloneSSGToneNoise refSsg.toneNoiseNumber).1 })).tnSSG.registerUser ((BT.InstrumentsManager.updateSSG M c (fun s => { s with toneNoiseEnabled := true })).cloneSSGToneNoise refSsg.toneNoiseNumber).1 c }).arpADPCM = M.arpADPCM := by
        show (BT.InstrumentsManager.updateSSG ((BT.InstrumentsManager.updateSSG M c (fun s => { s with toneNoiseEnabled := true })).cloneSSGToneNoise refSsg.toneNoiseNumber).2 c (fun s => { s with toneNoiseNumber := ((BT.InstrumentsManager.updateSSG M c (fun s => { s with toneNoiseEnabled := true })).cloneSSGToneNoise refSsg.toneNoiseNumber).1 })).arpADPCM = M.arpADPCM
        rw [updateSSG_arpADPCM ((BT.InstrumentsManager.updateSSG M c (fun s => { s with toneNoiseEnabled := true })).cloneSSGToneNoise refSsg.toneNoiseNumber).2 c (fun s => { s with toneNoiseNumber := ((BT.InstrumentsManager.updateSSG M c (fun s => { s with toneNoiseEnabled := true })).cloneSSGToneNoise refSsg.toneNoiseNumber).1 })]
        rw [show ((BT.InstrumentsManager.updateSSG M c (fun s => { s with toneNoiseEnabled := true })).cloneSSGToneNoise refSsg.toneNoiseNumber).2.arpADPCM = (BT.InstrumentsManager.updateSSG M c (fun s => { s with toneNoiseEnabled := true })).arpADPCM from rfl]
        rw [updateSSG_arpADPCM M c (fun s => { s with toneNoiseEnabled := true })]
      rw [hFq, hfin_i]
      exact poolSync_update_irrelevant (fun s => by rw [hf]; rfl) inv.arpADPCM
    · have hFq : ({ (BT.InstrumentsManager.updateSSG ((BT.InstrumentsManager.updateSSG M c (fun s => { s with toneNoiseEnabled := true })).cloneSSGToneNoise refSsg.toneNoiseNumber).2 c (fun s => { s with toneNoiseNumber := ((BT.InstrumentsManager.updateSSG M c (fun s => { s with toneNoiseEnabled := true })).cloneSSGToneNoise refSsg.toneNoiseNumber).1 })) with tnSSG := (BT.InstrumentsManager.updateSSG ((BT.InstrumentsManager.updateSSG M c (fun s => { s with toneNoiseEnabled := true })).cloneSSGToneNoise refSsg.toneNoiseNumber).2 c (fun s => { s with toneNoiseNumber := ((BT.InstrumentsManager.updateSSG M c (fun s => { s with toneNoiseEnabled := true })).cloneSSGToneNoise refSsg.toneNoiseNumber).1 })).tnSSG.registerUser ((BT.InstrumentsManager.updateSSG M c (fun s => { s with toneNoiseEnabled := true })).cloneSSGToneNoise refSsg.toneNoiseNumber).1 c }).ptADPCM = M.ptADPCM := by
        show (BT.InstrumentsManager.updateSSG ((BT.InstrumentsManager.updateSSG M c (fun s => { s with toneNoiseEnabled := true })).cloneSSGToneNoise refSsg.toneNoiseNumber).2 c (fun s => { s with toneNoiseNumber := ((BT.InstrumentsManager.updateSSG M c (fun s => { s with toneNoiseEnabled := true })).cloneSSGToneNoise refSsg.toneNoiseNumber).1 })).ptADPCM = M.ptADPCM
        rw [updateSSG_ptADPCM ((BT.InstrumentsManager.updateSSG M c (fun s => { s with toneNoiseEnabled := true })).cloneSSGToneNoise refSsg.toneNoiseNumber).2 c (fun s => { s with toneNoiseNumber := ((BT.InstrumentsManager.updateSSG M c (fun s => { s with toneNoiseEnabled := true })).cloneSSGToneNoise refSsg.toneNoiseNumber).1 })]
        rw [show ((BT.InstrumentsManager.updateSSG M c (fun s => { s with toneNoiseEnabled := true })).cloneSSGToneNoise refSsg.toneNoiseNumber).2.ptADPCM = (BT.InstrumentsManager.updateSSG M c (fun s => { s with toneNoiseEnabled := true })).ptADPCM from rfl]
        rw [updateSSG_ptADPCM M c (fun s => { s with toneNoiseEnabled := true })]
      rw [hFq, hfin_i]
      exact poolSync_update_irrelevant (fun s => by rw [hf]; rfl) inv.ptADPCM
  · rw [if_neg hb]
    exact ⟨inv, f, hf, rfl, rfl, rfl, rfl⟩

set_option maxHeartbeats 2000000 in
/-- The envSSG deep-clone block preserves the invariant: the prior flag is
disabled, so the freshly registered slot is the record's only reference. -/
theorem inv_dcBlock_envSSG (M : BT.InstrumentsManager) (refSsg : BT.InstrumentSSG) (c : Nat)
    (hc : c < 128) (f : BT.InstrumentSSG) (hf : M.insts c = some (.ssg f))
    (hflag : f.envelopeEnabled = false) (inv : BT.Inv M) :
    BT.Inv (if refSsg.envelopeEnabled then { (BT.InstrumentsManager.updateSSG ((BT.InstrumentsManager.updateSSG M c (fun s => { s with envelopeEnabled := true })).cloneSSGEnvelope refSsg.envelopeNumber).2 c (fun s => { s with envelopeNumber := ((BT.InstrumentsManager.updateSSG M c (fun s => { s with envelopeEnabled := true })).cloneSSGEnvelope refSsg.envelopeNumber).1 })) with envSSG := (BT.InstrumentsManager.updateSSG ((BT.InstrumentsManager.updateSSG M c (fun s => { s with envelopeEnabled := true })).cloneSSGEnvelope refSsg.envelopeNumber).2 c (fun s => { s with envelopeNumber := ((BT.InstrumentsManager.updateSSG M c (fun s => { s with envelopeEnabled := true })).cloneSSGEnvelope refSsg.envelopeNumber).1 })).envSSG.registerUser ((BT.InstrumentsManager.updateSSG M c (fun s => { s with envelopeEnabled := true })).cloneSSGEnvelope refSsg.envelopeNumber).1 c } else M) ∧
    ∃ f', ((if refSsg.envelopeEnabled then { (BT.InstrumentsManager.updateSSG ((BT.InstrumentsManager.updateSSG M c (fun s => { s with envelopeEnabled := true })).cloneSSGEnvelope refSsg.envelopeNumber).2 c (fun s => { s with envelopeNumber := ((BT.InstrumentsManager.updateSSG M c (fun s => { s with envelopeEnabled := true })).cloneSSGEnvelope refSsg.envelopeNumber).1 })) with envSSG := (BT.InstrumentsManager.updateSSG ((BT.InstrumentsManager.updateSSG M c (fun s => { s with envelopeEnabled := true })).cloneSSGEnvelope refSsg.envelopeNumber).2 c (fun s => { s with envelopeNumber := ((BT.InstrumentsManager.updateSSG M c (fun s => { s with envelopeEnabled := true })).cloneSSGEnvelope refSsg.envelopeNumber).1 })).envSSG.registerUser ((BT.InstrumentsManager.updateSSG M c (fun s => { s with envelopeEnabled := true })).cloneSSGEnvelope refSsg.envelopeNumber).1 c } else M)).insts c = some (.ssg f') ∧
      f'.waveformEnabled = f.waveformEnabled ∧
      f'.toneNoiseEnabled = f.toneNoiseEnabled ∧
      f'.arpeggioEnabled = f.arpeggioEnabled ∧
      f'.pitchEnabled = f.pitchEnabled := by
  by_cases hb : refSsg.envelopeEnabled = true
  · rw [if_pos hb]
    have hma_i : (BT.InstrumentsManager.updateSSG M c (fun s => { s with envelopeEnabled := true })).insts = Function.update M.insts c (some (.ssg { f with envelopeEnabled := true })) :=
      updateSSG_insts M c (fun s => { s with envelopeEnabled := true }) f hf
    have hma_c : (BT.InstrumentsManager.updateSSG M c (fun s => { s with envelopeEnabled := true })).insts c = some (.ssg { f with envelopeEnabled := true }) := by
      rw [hma_i]
      exact Function.update_same c _ M.insts
    have hrl_c : ((BT.InstrumentsManager.updateSSG M c (fun s => { s with envelopeEnabled := true })).cloneSSGEnvelope refSsg.envelopeNumber).2.insts c = some (.ssg { f with envelopeEnabled := true }) := hma_c
    have hmb_i : (BT.InstrumentsManager.updateSSG ((BT.InstrumentsManager.updateSSG M c (fun s => { s with envelopeEnabled := true })).cloneSSGEnvelope refSsg.envelopeNumber).2 c (fun s => { s with envelopeNumber := ((BT.InstrumentsManager.updateSSG M c (fun s => { s with envelopeEnabled := true })).cloneSSGEnvelope refSsg.envelopeNumber).1 })).insts = Function.update ((BT.InstrumentsManager.updateSSG M c (fun s => { s with envelopeEnabled := true })).cloneSSGEnvelope refSsg.envelopeNumber).2.insts c
        (some (.ssg { { f with envelopeEnabled := true } with envelopeNumber := ((BT.InstrumentsManager.updateSSG M c (fun s => { s with envelopeEnabled := true })).cloneSSGEnvelope refSsg.envelopeNumber).1 })) :=
      updateSSG_insts ((BT.InstrumentsManager.updateSSG M c (fun s => { s with envelopeEnabled := true })).cloneSSGEnvelope refSsg.envelopeNumber).2 c (fun s => { s with envelopeNumber := ((BT.InstrumentsManager.updateSSG M c (fun s => { s with envelopeEnabled := true })).cloneSSGEnvelope refSsg.envelopeNumber).1 }) { f with envelopeEnabled := true } hrl_c
    have hfin_i : ({ (BT.InstrumentsManager.updateSSG ((BT.InstrumentsManager.updateSSG M c (fun s => { s with envelopeEnabled := true })).cloneSSGEnvelope refSsg.envelopeNumber).2 c (fun s => { s with envelopeNumber := ((BT.InstrumentsManager.updateSSG M c (fun s => { s with envelopeEnabled := true })).cloneSSGEnvelope refSsg.envelopeNumber).1 })) with envSSG := (BT.InstrumentsManager.updateSSG ((BT.InstrumentsManager.updateSSG M c (fun s => { s with envelopeEnabled := true })).cloneSSGEnvelope refSsg.envelopeNumber).2 c (fun s => { s with envelopeNumber := ((BT.InstrumentsManager.updateSSG M c (fun s => { s with envelopeEnabled := true })).cloneSSGEnvelope refSsg.envelopeNumber).1 })).envSSG.registerUser ((BT.InstrumentsManager.updateSSG M c (fun s => { s with envelopeEnabled := true })).cloneSSGEnvelope refSsg.envelopeNumber).1 c }).insts = Function.update M.insts c (some (.ssg { f with envelopeEnabled := true, envelopeNumber := ((BT.InstrumentsManager.updateSSG M c (fun s => { s with envelopeEnabled := true })).cloneSSGEnvelope refSsg.envelopeNumber).1 })) := by
      show (BT.InstrumentsManager.updateSSG ((BT.InstrumentsManager.updateSSG M c (fun s => { s with envelopeEnabled := true })).cloneSSGEnvelope refSsg.envelopeNumber).2 c (fun s => { s with envelopeNumber := ((BT.InstrumentsManager.updateSSG M c (fun s => { s with envelopeEnabled := true })).cloneSSGEnvelope refSsg.envelopeNumber).1 })).insts = _
      rw [hmb_i]
      show Function.update (BT.InstrumentsManager.updateSSG M c (fun s => { s with envelopeEnabled := true })).insts c (some (.ssg { f with envelopeEnabled := true, envelopeNumber := ((BT.InstrumentsManager.updateSSG M c (fun s => { s with envelopeEnabled := true })).cloneSSGEnvelope refSsg.envelopeNumber).1 })) = _
      rw [hma_i, Function.update_idem]
    have hfin_pool : ({ (BT.InstrumentsManager.updateSSG ((BT.InstrumentsManager.updateSSG M c (fun s => { s with envelopeEnabled := true })).cloneSSGEnvelope refSsg.envelopeNumber).2 c (fun s => { s with envelopeNumber := ((BT.InstrumentsManager.updateSSG M c (fun s => { s with envelopeEnabled := true })).cloneSSGEnvelope refSsg.envelopeNumber).1 })) with envSSG := (BT.InstrumentsManager.updateSSG ((BT.InstrumentsManager.updateSSG M c (fun s => { s with envelopeEnabled := true })).cloneSSGEnvelope refSsg.envelopeNumber).2 c (fun s => { s with envelopeNumber := ((BT.InstrumentsManager.updateSSG M c (fun s => { s with envelopeEnabled := true })).cloneSSGEnvelope refSsg.envelopeNumber).1 })).envSSG.registerUser ((BT.InstrumentsManager.updateSSG M c (fun s => { s with envelopeEnabled := true })).cloneSSGEnvelope refSsg.envelopeNumber).1 c }).envSSG =
        (((BT.InstrumentsManager.updateSSG M c (fun s => { s with envelopeEnabled := true })).envSSG.cloneProp refSsg.envelopeNumber).2).registerUser ((BT.InstrumentsManager.updateSSG M c (fun s => { s with envelopeEnabled := true })).cloneSSGEnvelope refSsg.envelopeNumber).1 c := by
      show (BT.InstrumentsManager.updateSSG ((BT.InstrumentsManager.updateSSG M c (fun s => { s with envelopeEnabled := true })).cloneSSGEnvelope refSsg.envelopeNumber).2 c (fun s => { s with envelopeNumber := ((BT.InstrumentsManager.updateSSG M c (fun s => { s with envelopeEnabled := true })).cloneSSGEnvelope refSsg.envelopeNumber).1 })).envSSG.registerUser ((BT.InstrumentsManager.updateSSG M c (fun s => { s with envelopeEnabled := true })).cloneSSGEnvelope refSsg.envelopeNumber).1 c = _
      rw [updateSSG_envSSG ((BT.InstrumentsManager.updateSSG M c (fun s => { s with envelopeEnabled := true })).cloneSSGEnvelope refSsg.envelopeNumber).2 c (fun s => { s with envelopeNumber := ((BT.InstrumentsManager.updateSSG M c (fun s => { s with envelopeEnabled := true })).cloneSSGEnvelope refSsg.envelopeNumber).1 })]
      rfl
    have hold : ∀ s, BT.ssgEnvPoints (.ssg f) s = false := by
      intro s
      show (f.envelopeEnabled && (f.envelopeNumber == s)) = false
      rw [hflag]
      rfl
    have husers : ∀ s, s < 128 → (({ (BT.InstrumentsManager.updateSSG ((BT.InstrumentsManager.updateSSG M c (fun s => { s with envelopeEnabled := true })).cloneSSGEnvelope refSsg.envelopeNumber).2 c (fun s => { s with envelopeNumber := ((BT.InstrumentsManager.updateSSG M c (fun s => { s with envelopeEnabled := true })).cloneSSGEnvelope refSsg.envelopeNumber).1 })) with envSSG := (BT.InstrumentsManager.updateSSG ((BT.InstrumentsManager.updateSSG M c (fun s => { s with envelopeEnabled := true })).cloneSSGEnvelope refSsg.envelopeNumber).2 c (fun s => { s with envelopeNumber := ((BT.InstrumentsManager.updateSSG M c (fun s => { s with envelopeEnabled := true })).cloneSSGEnvelope refSsg.envelopeNumber).1 })).envSSG.registerUser ((BT.InstrumentsManager.updateSSG M c (fun s => { s with envelopeEnabled := true })).cloneSSGEnvelope refSsg.envelopeNumber).1 c }).envSSG s).users =
        if BT.ssgEnvPoints (.ssg { f with envelopeEnabled := true, envelopeNumber := ((BT.InstrumentsManager.updateSSG M c (fun s => { s with envelopeEnabled := true })).cloneSSGEnvelope refSsg.envelopeNumber).1 }) s = true
        then insert c ((M.envSSG s).users) else (M.envSSG s).users := by
      intro s hs
      rw [hfin_pool, users_registerUser, users_cloneProp, users_cloneProp]
      rw [updateSSG_envSSG M c (fun s => { s with envelopeEnabled := true })]
      by_cases hp : BT.ssgEnvPoints (.ssg { f with envelopeEnabled := true, envelopeNumber := ((BT.InstrumentsManager.updateSSG M c (fun s => { s with envelopeEnabled := true })).cloneSSGEnvelope refSsg.envelopeNumber).1 }) s = true
      · rw [if_pos hp]
        have h2 : (true && (((BT.InstrumentsManager.updateSSG M c (fun s => { s with envelopeEnabled := true })).cloneSSGEnvelope refSsg.envelopeNumber).1 == s)) = true := hp
        rw [Bool.true_and, beq_iff_eq] at h2
        rw [if_pos h2.symm, h2]
      · rw [if_neg hp]
        have hsne : ¬ s = ((BT.InstrumentsManager.updateSSG M c (fun s => { s with envelopeEnabled := true })).cloneSSGEnvelope refSsg.envelopeNumber).1 := by
          intro hseq
          apply hp
          show (true && (((BT.InstrumentsManager.updateSSG M c (fun s => { s with envelopeEnabled := true })).cloneSSGEnvelope refSsg.envelopeNumber).1 == s)) = true
          rw [hseq]
          simp
        rw [if_neg hsne]
    refine ⟨⟨?_, ?_, ?_, ?_, ?_, ?_, ?_, ?_, ?_, ?_, ?_, ?_, ?_, ?_⟩,
      { f with envelopeEnabled := true, envelopeNumber := ((BT.InstrumentsManager.updateSSG M c (fun s => { s with envelopeEnabled := true })).cloneSSGEnvelope refSsg.envelopeNumber).1 }, by
        rw [hfin_i]
        exact Function.update_same c _ M.insts, rfl, rfl, rfl, rfl⟩
    · have hFq : ({ (BT.InstrumentsManager.updateSSG ((BT.InstrumentsManager.updateSSG M c (fun s => { s with envelopeEnabled := true })).cloneSSGEnvelope refSsg.envelopeNumber).2 c (fun s => { s with envelopeNumber := ((BT.InstrumentsManager.updateSSG M c (fun s => { s with envelopeEnabled := true })).cloneSSGEnvelope refSsg.envelopeNumber).1 })) with envSSG := (BT.InstrumentsManager.updateSSG ((BT.InstrumentsManager.updateSSG M c (fun s => { s with envelopeEnabled := true })).cloneSSGEnvelope refSsg.envelopeNumber).2 c (fun s => { s with envelopeNumber := ((BT.InstrumentsManager.updateSSG M c (fun s => { s with envelopeEnabled := true })).cloneSSGEnvelope refSsg.envelopeNumber).1 })).envSSG.registerUser ((BT.InstrumentsManager.updateSSG M c (fun s => { s with envelopeEnabled := true })).cloneSSGEnvelope refSsg.envelopeNumber).1 c }).envFM = M.envFM := by
        show (BT.InstrumentsManager.updateSSG ((BT.InstrumentsManager.updateSSG M c (fun s => { s with envelopeEnabled := true })).cloneSSGEnvelope refSsg.envelopeNumber).2 c (fun s => { s with envelopeNumber := ((BT.InstrumentsManager.updateSSG M c (fun s => { s with envelopeEnabled := true })).cloneSSGEnvelope refSsg.envelopeNumber).1 })).envFM = M.envFM
        rw [updateSSG_envFM ((BT.InstrumentsManager.updateSSG M c (fun s => { s with envelopeEnabled := true })).cloneSSGEnvelope refSsg.envelopeNumber).2 c (fun s => { s with envelopeNumber := ((BT.InstrumentsManager.updateSSG M c (fun s => { s with envelopeEnabled := true })).cloneSSGEnvelope refSsg.envelopeNumber).1 })]
        rw [show ((BT.InstrumentsManager.updateSSG M c (fun s => { s with envelopeEnabled := true })).cloneSSGEnvelope refSsg.envelopeNumber).2.envFM = (BT.InstrumentsManager.updateSSG M c (fun s => { s with envelopeEnabled := true })).envFM from rfl]
        rw [updateSSG_envFM M c (fun s => { s with envelopeEnabled := true })]
      rw [hFq, hfin_i]
      exact poolSync_update_irrelevant (fun s => by rw [hf]; rfl) inv.envFM
    · have hFq : ({ (BT.InstrumentsManager.updateSSG ((BT.InstrumentsManager.updateSSG M c (fun s => { s with envelopeEnabled := true })).cloneSSGEnvelope refSsg.envelopeNumber).2 c (fun s => { s with envelopeNumber := ((BT.InstrumentsManager.updateSSG M c (fun s => { s with envelopeEnabled := true })).cloneSSGEnvelope refSsg.envelopeNumber).1 })) with envSSG := (BT.InstrumentsManager.updateSSG ((BT.InstrumentsManager.updateSSG M c (fun s => { s with envelopeEnabled := true })).cloneSSGEnvelope refSsg.envelopeNumber).2 c (fun s => { s with envelopeNumber := ((BT.InstrumentsManager.updateSSG M c (fun s => { s with envelopeEnabled := true })).cloneSSGEnvelope refSsg.envelopeNumber).1 })).envSSG.registerUser ((BT.InstrumentsManager.updateSSG M c (fun s => { s with envelopeEnabled := true })).cloneSSGEnvelope refSsg.envelopeNumber).1 c }).lfoFM = M.lfoFM := by
        show (BT.InstrumentsManager.updateSSG ((BT.InstrumentsManager.updateSSG M c (fun s => { s with envelopeEnabled := true })).cloneSSGEnvelope refSsg.envelopeNumber).2 c (fun s => { s with envelopeNumber := ((BT.InstrumentsManager.updateSSG M c (fun s => { s with envelopeEnabled := true })).cloneSSGEnvelope refSsg.envelopeNumber).1 })).lfoFM = M.lfoFM
        rw [updateSSG_lfoFM ((BT.InstrumentsManager.updateSSG M c (fun s => { s with envelopeEnabled := true })).cloneSSGEnvelope refSsg.envelopeNumber).2 c (fun s => { s with envelopeNumber := ((BT.InstrumentsManager.updateSSG M c (fun s => { s with envelopeEnabled := true })).cloneSSGEnvelope refSsg.envelopeNumber).1 })]
        rw [show ((BT.InstrumentsManager.updateSSG M c (fun s => { s with envelopeEnabled := true })).cloneSSGEnvelope refSsg.envelopeNumber).2.lfoFM = (BT.InstrumentsManager.updateSSG M c (fun s => { s with envelopeEnabled := true })).lfoFM from rfl]
        rw [updateSSG_lfoFM M c (fun s => { s with envelopeEnabled := true })]
      rw [hFq, hfin_i]
      exact poolSync_update_irrelevant (fun s => by rw [hf]; rfl) inv.lfoFM
    · intro p hp
      have hFq : ({ (BT.InstrumentsManager.updateSSG ((BT.InstrumentsManager.updateSSG M c (fun s => { s with envelopeEnabled := true })).cloneSSGEnvelope refSsg.envelopeNumber).2 c (fun s => { s with envelopeNumber := ((BT.InstrumentsManager.updateSSG M c (fun s => { s with envelopeEnabled := true })).cloneSSGEnvelope refSsg.envelopeNumber).1 })) with envSSG := (BT.InstrumentsManager.updateSSG ((BT.InstrumentsManager.updateSSG M c (fun s => { s with envelopeEnabled := true })).cloneSSGEnvelope refSsg.envelopeNumber).2 c (fun s => { s with envelopeNumber := ((BT.InstrumentsManager.updateSSG M c (fun s => { s with envelopeEnabled := true })).cloneSSGEnvelope refSsg.envelopeNumber).1 })).envSSG.registerUser ((BT.InstrumentsManager.updateSSG M c (fun s => { s with envelopeEnabled := true })).cloneSSGEnvelope refSsg.envelopeNumber).1 c }).opSeqFM = M.opSeqFM := by
        show (BT.InstrumentsManager.updateSSG ((BT.InstrumentsManager.updateSSG M c (fun s => { s with envelopeEnabled := true })).cloneSSGEnvelope refSsg.envelopeNumber).2 c (fun s => { s with envelopeNumber := ((BT.InstrumentsManager.updateSSG M c (fun s => { s with envelopeEnabled := true })).cloneSSGEnvelope refSsg.envelopeNumber).1 })).opSeqFM = M.opSeqFM
        rw [updateSSG_opSeqFM ((BT.InstrumentsManager.updateSSG M c (fun s => { s with envelopeEnabled := true })).cloneSSGEnvelope refSsg.envelopeNumber).2 c (fun s => { s with envelopeNumber := ((BT.InstrumentsManager.updateSSG M c (fun s => { s with envelopeEnabled := true })).cloneSSGEnvelope refSsg.envelopeNumber).1 })]
        rw [show ((BT.InstrumentsManager.updateSSG M c (fun s => { s with envelopeEnabled := true })).cloneSSGEnvelope refSsg.envelopeNumber).2.opSeqFM = (BT.InstrumentsManager.updateSSG M c (fun s => { s with envelopeEnabled := true })).opSeqFM from rfl]
        rw [updateSSG_opSeqFM M c (fun s => { s with envelopeEnabled := true })]
      rw [hFq, hfin_i]
      exact poolSync_update_irrelevant (fun s => by rw [hf]; rfl) (inv.opSeqFM p hp)
    · have hFq : ({ (BT.InstrumentsManager.updateSSG ((BT.InstrumentsManager.updateSSG M c (fun s => { s with envelopeEnabled := true })).cloneSSGEnvelope refSsg.envelopeNumber).2 c (fun s => { s with envelopeNumber := ((BT.InstrumentsManager.updateSSG M c (fun s => { s with envelopeEnabled := true })).cloneSSGEnvelope refSsg.envelopeNumber).1 })) with envSSG := (BT.InstrumentsManager.updateSSG ((BT.InstrumentsManager.updateSSG M c (fun s => { s with envelopeEnabled := true })).cloneSSGEnvelope refSsg.envelopeNumber).2 c (fun s => { s with envelopeNumber := ((BT.InstrumentsManager.updateSSG M c (fun s => { s with envelopeEnabled := true })).cloneSSGEnvelope refSsg.envelopeNumber).1 })).envSSG.registerUser ((BT.InstrumentsManager.updateSSG M c (fun s => { s with envelopeEnabled := true })).cloneSSGEnvelope refSsg.envelopeNumber).1 c }).arpFM = M.arpFM := by
        show (BT.InstrumentsManager.updateSSG ((BT.InstrumentsManager.updateSSG M c (fun s => { s with envelopeEnabled := true })).cloneSSGEnvelope refSsg.envelopeNumber).2 c (fun s => { s with envelopeNumber := ((BT.InstrumentsManager.updateSSG M c (fun s => { s with envelopeEnabled := true })).cloneSSGEnvelope refSsg.envelopeNumber).1 })).arpFM = M.arpFM
        rw [updateSSG_arpFM ((BT.InstrumentsManager.updateSSG M c (fun s => { s with envelopeEnabled := true })).cloneSSGEnvelope refSsg.envelopeNumber).2 c (fun s => { s with envelopeNumber := ((BT.InstrumentsManager.updateSSG M c (fun s => { s with envelopeEnabled := true })).cloneSSGEnvelope refSsg.envelopeNumber).1 })]
        rw [show ((BT.InstrumentsManager.updateSSG M c (fun s => { s with envelopeEnabled := true })).cloneSSGEnvelope refSsg.envelopeNumber).2.arpFM = (BT.InstrumentsManager.updateSSG M c (fun s => { s with envelopeEnabled := true })).arpFM from rfl]
        rw [updateSSG_arpFM M c (fun s => { s with envelopeEnabled := true })]
      rw [hFq, hfin_i]
      exact poolSync_update_irrelevant (fun s => by rw [hf]; rfl) inv.arpFM
    · have hFq : ({ (BT.InstrumentsManager.updateSSG ((BT.InstrumentsManager.updateSSG M c (fun s => { s with envelopeEnabled := true })).cloneSSGEnvelope refSsg.envelopeNumber).2 c (fun s => { s with envelopeNumber := ((BT.InstrumentsManager.updateSSG M c (fun s => { s with envelopeEnabled := true })).cloneSSGEnvelope refSsg.envelopeNumber).1 })) with envSSG := (BT.InstrumentsManager.updateSSG ((BT.InstrumentsManager.updateSSG M c (fun s => { s with envelopeEnabled := true })).cloneSSGEnvelope refSsg.envelopeNumber).2 c (fun s => { s with envelopeNumber := ((BT.InstrumentsManager.updateSSG M c (fun s => { s with envelopeEnabled := true })).cloneSSGEnvelope refSsg.envelopeNumber).1 })).envSSG.registerUser ((BT.InstrumentsManager.updateSSG M c (fun s => { s with envelopeEnabled := true })).cloneSSGEnvelope refSsg.envelopeNumber).1 c }).ptFM = M.ptFM := by
        show (BT.InstrumentsManager.updateSSG ((BT.InstrumentsManager.updateSSG M c (fun s => { s with envelopeEnabled := true })).cloneSSGEnvelope refSsg.envelopeNumber).2 c (fun s => { s with envelopeNumber := ((BT.InstrumentsManager.updateSSG M c (fun s => { s with envelopeEnabled := true })).cloneSSGEnvelope refSsg.envelopeNumber).1 })).ptFM = M.ptFM
        rw [updateSSG_ptFM ((BT.InstrumentsManager.updateSSG M c (fun s => { s with envelopeEnabled := true })).cloneSSGEnvelope refSsg.envelopeNumber).2 c (fun s => { s with envelopeNumber := ((BT.InstrumentsManager.updateSSG M c (fun s => { s with envelopeEnabled := true })).cloneSSGEnvelope refSsg.envelopeNumber).1 })]
        rw [show ((BT.InstrumentsManager.updateSSG M c (fun s => { s with envelopeEnabled := true })).cloneSSGEnvelope refSsg.envelopeNumber).2.ptFM = (BT.InstrumentsManager.updateSSG M c (fun s => { s with envelopeEnabled := true })).ptFM from rfl]
        rw [updateSSG_ptFM M c (fun s => { s with envelopeEnabled := true })]
      rw [hFq, hfin_i]
      exact poolSync_update_irrelevant (fun s => by rw [hf]; rfl) inv.ptFM
    · have hFq : ({ (BT.InstrumentsManager.updateSSG ((BT.InstrumentsManager.updateSSG M c (fun s => { s with envelopeEnabled := true })).cloneSSGEnvelope refSsg.envelopeNumber).2 c (fun s => { s with envelopeNumber := ((BT.InstrumentsManager.updateSSG M c (fun s => { s with envelopeEnabled := true })).cloneSSGEnvelope refSsg.envelopeNumber).1 })) with envSSG := (BT.InstrumentsManager.updateSSG ((BT.InstrumentsManager.updateSSG M c (fun s => { s with envelopeEnabled := true })).cloneSSGEnvelope refSsg.envelopeNumber).2 c (fun s => { s with envelopeNumber := ((BT.InstrumentsManager.updateSSG M c (fun s => { s with envelopeEnabled := true })).cloneSSGEnvelope refSsg.envelopeNumber).1 })).envSSG.registerUser ((BT.InstrumentsManager.updateSSG M c (fun s => { s with envelopeEnabled := true })).cloneSSGEnvelope refSsg.envelopeNumber).1 c }).wfSSG = M.wfSSG := by
        show (BT.InstrumentsManager.updateSSG ((BT.InstrumentsManager.updateSSG M c (fun s => { s with envelopeEnabled := true })).cloneSSGEnvelope refSsg.envelopeNumber).2 c (fun s => { s with envelopeNumber := ((BT.InstrumentsManager.updateSSG M c (fun s => { s with envelopeEnabled := true })).cloneSSGEnvelope refSsg.envelopeNumber).1 })).wfSSG = M.wfSSG
        rw [updateSSG_wfSSG ((BT.InstrumentsManager.updateSSG M c (fun s => { s with envelopeEnabled := true })).cloneSSGEnvelope refSsg.envelopeNumber).2 c (fun s => { s with envelopeNumber := ((BT.InstrumentsManager.updateSSG M c (fun s => { s with envelopeEnabled := true })).cloneSSGEnvelope refSsg.envelopeNumber).1 })]
        rw [show ((BT.InstrumentsManager.updateSSG M c (fun s => { s with envelopeEnabled := true })).cloneSSGEnvelope refSsg.envelopeNumber).2.wfSSG = (BT.InstrumentsManager.updateSSG M c (fun s => { s with envelopeEnabled := true })).wfSSG from rfl]
        rw [updateSSG_wfSSG M c (fun s => { s with envelopeEnabled := true })]
      rw [hFq, hfin_i]
      exact poolSync_update_irrelevant (fun s => by rw [hf]; rfl) inv.wfSSG
    · have hFq : ({ (BT.InstrumentsManager.updateSSG ((BT.InstrumentsManager.updateSSG M c (fun s => { s with envelopeEnabled := true })).cloneSSGEnvelope refSsg.envelopeNumber).2 c (fun s => { s with envelopeNumber := ((BT.InstrumentsManager.updateSSG M c (fun s => { s with envelopeEnabled := true })).cloneSSGEnvelope refSsg.envelopeNumber).1 })) with envSSG := (BT.InstrumentsManager.updateSSG ((BT.InstrumentsManager.updateSSG M c (fun s => { s with envelopeEnabled := true })).cloneSSGEnvelope refSsg.envelopeNumber).2 c (fun s => { s with envelopeNumber := ((BT.InstrumentsManager.updateSSG M c (fun s => { s with envelopeEnabled := true })).cloneSSGEnvelope refSsg.envelopeNumber).1 })).envSSG.registerUser ((BT.InstrumentsManager.updateSSG M c (fun s => { s with envelopeEnabled := true })).cloneSSGEnvelope refSsg.envelopeNumber).1 c }).tnSSG = M.tnSSG := by
        show (BT.InstrumentsManager.updateSSG ((BT.InstrumentsManager.updateSSG M c (fun s => { s with envelopeEnabled := true })).cloneSSGEnvelope refSsg.envelopeNumber).2 c (fun s => { s with envelopeNumber := ((BT.InstrumentsManager.updateSSG M c (fun s => { s with envelopeEnabled := true })).cloneSSGEnvelope refSsg.envelopeNumber).1 })).tnSSG = M.tnSSG
        rw [updateSSG_tnSSG ((BT.InstrumentsManager.updateSSG M c (fun s => { s with envelopeEnabled := true })).cloneSSGEnvelope refSsg.envelopeNumber).2 c (fun s => { s with envelopeNumber := ((BT.InstrumentsManager.updateSSG M c (fun s => { s with envelopeEnabled := true })).cloneSSGEnvelope refSsg.envelopeNumber).1 })]
        rw [show ((BT.InstrumentsManager.updateSSG M c (fun s => { s with envelopeEnabled := true })).cloneSSGEnvelope refSsg.envelopeNumber).2.tnSSG = (BT.InstrumentsManager.updateSSG M c (fun s => { s with envelopeEnabled := true })).tnSSG from rfl]
        rw [updateSSG_tnSSG M c (fun s => { s with envelopeEnabled := true })]
      rw [hFq, hfin_i]
      exact poolSync_update_irrelevant (fun s => by rw [hf]; rfl) inv.tnSSG
    · rw [hfin_i]
      exact poolSync_overwrite_register hc hf hold husers inv.envSSG
    · have hFq : ({ (BT.InstrumentsManager.updateSSG ((BT.InstrumentsManager.updateSSG M c (fun s => { s with envelopeEnabled := true })).cloneSSGEnvelope refSsg.envelopeNumber).2 c (fun s => { s with envelopeNumber := ((BT.InstrumentsManager.updateSSG M c (fun s => { s with envelopeEnabled := true })).cloneSSGEnvelope refSsg.envelopeNumber).1 })) with envSSG := (BT.InstrumentsManager.updateSSG ((BT.InstrumentsManager.updateSSG M c (fun s => { s with envelopeEnabled := true })).cloneSSGEnvelope refSsg.envelopeNumber).2 c (fun s => { s with envelopeNumber := ((BT.InstrumentsManager.updateSSG M c (fun s => { s with envelopeEnabled := true })).cloneSSGEnvelope refSsg.envelopeNumber).1 })).envSSG.registerUser ((BT.InstrumentsManager.updateSSG M c (fun s => { s with envelopeEnabled := true })).cloneSSGEnvelope refSsg.envelopeNumber).1 c }).arpSSG = M.arpSSG := by
        show (BT.InstrumentsManager.updateSSG ((BT.InstrumentsManager.updateSSG M c (fun s => { s with envelopeEnabled := true })).cloneSSGEnvelope refSsg.envelopeNumber).2 c (fun s => { s with envelopeNumber := ((BT.InstrumentsManager.updateSSG M c (fun s => { s with envelopeEnabled := true })).cloneSSGEnvelope refSsg.envelopeNumber).1 })).arpSSG = M.arpSSG
        rw [updateSSG_arpSSG ((BT.InstrumentsManager.updateSSG M c (fun s => { s with envelopeEnabled := true })).cloneSSGEnvelope refSsg.envelopeNumber).2 c (fun s => { s with envelopeNumber := ((BT.InstrumentsManager.updateSSG M c (fun s => { s with envelopeEnabled := true })).cloneSSGEnvelope refSsg.envelopeNumber).1 })]
        rw [show ((BT.InstrumentsManager.updateSSG M c (fun s => { s with envelopeEnabled := true })).cloneSSGEnvelope refSsg.envelopeNumber).2.arpSSG = (BT.InstrumentsManager.updateSSG M c (fun s => { s with envelopeEnabled := true })).arpSSG from rfl]
        rw [updateSSG_arpSSG M c (fun s => { s with envelopeEnabled := true })]
      rw [hFq, hfin_i]
      exact poolSync_update_irrelevant (fun s => by rw [hf]; rfl) inv.arpSSG
    · have hFq : ({ (BT.InstrumentsManager.updateSSG ((BT.InstrumentsManager.updateSSG M c (fun s => { s with envelopeEnabled := true })).cloneSSGEnvelope refSsg.envelopeNumber).2 c (fun s => { s with envelopeNumber := ((BT.InstrumentsManager.updateSSG M c (fun s => { s with envelopeEnabled := true })).cloneSSGEnvelope refSsg.envelopeNumber).1 })) with envSSG := (BT.InstrumentsManager.updateSSG ((BT.InstrumentsManager.updateSSG M c (fun s => { s with envelopeEnabled := true })).cloneSSGEnvelope refSsg.envelopeNumber).2 c (fun s => { s with envelopeNumber := ((BT.InstrumentsManager.updateSSG M c (fun s => { s with envelopeEnabled := true })).cloneSSGEnvelope refSsg.envelopeNumber).1 })).envSSG.registerUser ((BT.InstrumentsManager.updateSSG M c (fun s => { s with envelopeEnabled := true })).cloneSSGEnvelope refSsg.envelopeNumber).1 c }).ptSSG = M.ptSSG := by
        show (BT.InstrumentsManager.updateSSG ((BT.InstrumentsManager.updateSSG M c (fun s => { s with envelopeEnabled := true })).cloneSSGEnvelope refSsg.envelopeNumber).2 c (fun s => { s with envelopeNumber := ((BT.InstrumentsManager.updateSSG M c (fun s => { s with envelopeEnabled := true })).cloneSSGEnvelope refSsg.envelopeNumber).1 })).ptSSG = M.ptSSG
        rw [updateSSG_ptSSG ((BT.InstrumentsManager.updateSSG M c (fun s => { s with envelopeEnabled := true })).cloneSSGEnvelope refSsg.envelopeNumber).2 c (fun s => { s with envelopeNumber := ((BT.InstrumentsManager.updateSSG M c (fun s => { s with envelopeEnabled := true })).cloneSSGEnvelope refSsg.envelopeNumber).1 })]
        rw [show ((BT.InstrumentsManager.updateSSG M c (fun s => { s with envelopeEnabled := true })).cloneSSGEnvelope refSsg.envelopeNumber).2.ptSSG = (BT.InstrumentsManager.updateSSG M c (fun s => { s with envelopeEnabled := true })).ptSSG from rfl]
        rw [updateSSG_ptSSG M c (fun s => { s with envelopeEnabled := true })]
      rw [hFq, hfin_i]
      exact poolSync_update_irrelevant (fun s => by rw [hf]; rfl) inv.ptSSG
    · have hFq : ({ (BT.InstrumentsManager.updateSSG ((BT.InstrumentsManager.updateSSG M c (fun s => { s with envelopeEnabled := true })).cloneSSGEnvelope refSsg.envelopeNumber).2 c (fun s => { s with envelopeNumber := ((BT.InstrumentsManager.updateSSG M c (fun s => { s with envelopeEnabled := true })).cloneSSGEnvelope refSsg.envelopeNumber).1 })) with envSSG := (BT.InstrumentsManager.updateSSG ((BT.InstrumentsManager.updateSSG M c (fun s => { s with envelopeEnabled := true })).cloneSSGEnvelope refSsg.envelopeNumber).2 c (fun s => { s with envelopeNumber := ((BT.InstrumentsManager.updateSSG M c (fun s => { s with envelopeEnabled := true })).cloneSSGEnvelope refSsg.envelopeNumber).1 })).envSSG.registerUser ((BT.InstrumentsManager.updateSSG M c (fun s => { s with envelopeEnabled := true })).cloneSSGEnvelope refSsg.envelopeNumber).1 c }).wfADPCM = M.wfADPCM := by
        show (BT.InstrumentsManager.updateSSG ((BT.InstrumentsManager.updateSSG M c (fun s => { s with envelopeEnabled := true })).cloneSSGEnvelope refSsg.envelopeNumber).2 c (fun s => { s with envelopeNumber := ((BT.InstrumentsManager.updateSSG M c (fun s => { s with envelopeEnabled := true })).cloneSSGEnvelope refSsg.envelopeNumber).1 })).wfADPCM = M.wfADPCM
        rw [updateSSG_wfADPCM ((BT.InstrumentsManager.updateSSG M c (fun s => { s with envelopeEnabled := true })).cloneSSGEnvelope refSsg.envelopeNumber).2 c (fun s => { s with envelopeNumber := ((BT.InstrumentsManager.updateSSG M c (fun s => { s with envelopeEnabled := true })).cloneSSGEnvelope refSsg.envelopeNumber).1 })]
        rw [show ((BT.InstrumentsManager.updateSSG M c (fun s => { s with envelopeEnabled := true })).cloneSSGEnvelope refSsg.envelopeNumber).2.wfADPCM = (BT.InstrumentsManager.updateSSG M c (fun s => { s with envelopeEnabled := true })).wfADPCM from rfl]
        rw [updateSSG_wfADPCM M c (fun s => { s with envelopeEnabled := true })]
      rw [hFq, hfin_i]
      exact poolSync_update_irrelevant (fun s => by rw [hf]; rfl) inv.wfADPCM
    · have hFq : ({ (BT.InstrumentsManager.updateSSG ((BT.InstrumentsManager.updateSSG M c (fun s => { s with envelopeEnabled := true })).cloneSSGEnvelope refSsg.envelopeNumber).2 c (fun s => { s with envelopeNumber := ((BT.InstrumentsManager.updateSSG M c (fun s => { s with envelopeEnabled := true })).cloneSSGEnvelope refSsg.envelopeNumber).1 })) with envSSG := (BT.InstrumentsManager.updateSSG ((BT.InstrumentsManager.updateSSG M c (fun s => { s with envelopeEnabled := true })).cloneSSGEnvelope refSsg.envelopeNumber).2 c (fun s => { s with envelopeNumber := ((BT.InstrumentsManager.updateSSG M c (fun s => { s with envelopeEnabled := true })).cloneSSGEnvelope refSsg.envelopeNumber).1 })).envSSG.registerUser ((BT.InstrumentsManager.updateSSG M c (fun s => { s with envelopeEnabled := true })).cloneSSGEnvelope refSsg.envelopeNumber).1 c }).envADPCM = M.envADPCM := by
        show (BT.InstrumentsManager.updateSSG ((BT.InstrumentsManager.updateSSG M c (fun s => { s with envelopeEnabled := true })).cloneSSGEnvelope refSsg.envelopeNumber).2 c (fun s => { s with envelopeNumber := ((BT.InstrumentsManager.updateSSG M c (fun s => { s with envelopeEnabled := true })).cloneSSGEnvelope refSsg.envelopeNumber).1 })).envADPCM = M.envADPCM
        rw [updateSSG_envADPCM ((BT.InstrumentsManager.updateSSG M c (fun s => { s with envelopeEnabled := true })).cloneSSGEnvelope refSsg.envelopeNumber).2 c (fun s => { s with envelopeNumber := ((BT.InstrumentsManager.updateSSG M c (fun s => { s with envelopeEnabled := true })).cloneSSGEnvelope refSsg.envelopeNumber).1 })]
        rw [show ((BT.InstrumentsManager.updateSSG M c (fun s => { s with envelopeEnabled := true })).cloneSSGEnvelope refSsg.envelopeNumber).2.envADPCM = (BT.InstrumentsManager.updateSSG M c (fun s => { s with envelopeEnabled := true })).envADPCM from rfl]
        rw [updateSSG_envADPCM M c (fun s => { s with envelopeEnabled := true })]
      rw [hFq, hfin_i]
      exact poolSync_update_irrelevant (fun s => by rw [hf]; rfl) inv.envADPCM
    · have hFq : ({ (BT.InstrumentsManager.updateSSG ((BT.InstrumentsManager.updateSSG M c (fun s => { s with envelopeEnabled := true })).cloneSSGEnvelope refSsg.envelopeNumber).2 c (fun s => { s with envelopeNumber := ((BT.InstrumentsManager.updateSSG M c (fun s => { s with envelopeEnabled := true })).cloneSSGEnvelope refSsg.envelopeNumber).1 })) with envSSG := (BT.InstrumentsManager.updateSSG ((BT.InstrumentsManager.updateSSG M c (fun s => { s with envelopeEnabled := true })).cloneSSGEnvelope refSsg.envelopeNumber).2 c (fun s => { s with envelopeNumber := ((BT.InstrumentsManager.updateSSG M c (fun s => { s with envelopeEnabled := true })).cloneSSGEnvelope refSsg.envelopeNumber).1 })).envSSG.registerUser ((BT.InstrumentsManager.updateSSG M c (fun s => { s with envelopeEnabled := true })).cloneSSGEnvelope refSsg.envelopeNumber).1 c }).arpADPCM = M.arpADPCM := by
        show (BT.InstrumentsManager.updateSSG ((BT.InstrumentsManager.updateSSG M c (fun s => { s with envelopeEnabled := true })).cloneSSGEnvelope refSsg.envelopeNumber).2 c (fun s => { s with envelopeNumber := ((BT.InstrumentsManager.updateSSG M c (fun s => { s with envelopeEnabled := true })).cloneSSGEnvelope refSsg.envelopeNumber).1 })).arpADPCM = M.arpADPCM
        rw [updateSSG_arpADPCM ((BT.InstrumentsManager.updateSSG M c (fun s => { s with envelopeEnabled := true })).cloneSSGEnvelope refSsg.envelopeNumber).2 c (fun s => { s with envelopeNumber := ((BT.InstrumentsManager.updateSSG M c (fun s => { s with envelopeEnabled := true })).cloneSSGEnvelope refSsg.envelopeNumber).1 })]
        rw [show ((BT.InstrumentsManager.updateSSG M c (fun s => { s with envelopeEnabled := true })).cloneSSGEnvelope refSsg.envelopeNumber).2.arpADPCM = (BT.InstrumentsManager.updateSSG M c (fun s => { s with envelopeEnabled := true })).arpADPCM from rfl]
        rw [updateSSG_arpADPCM M c (fun s => { s with envelopeEnabled := true })]
      rw [hFq, hfin_i]
      exact poolSync_update_irrelevant (fun s => by rw [hf]; rfl) inv.arpADPCM
    · have hFq : ({ (BT.InstrumentsManager.updateSSG ((BT.InstrumentsManager.updateSSG M c (fun s => { s with envelopeEnabled := true })).cloneSSGEnvelope refSsg.envelopeNumber).2 c (fun s => { s with envelopeNumber := ((BT.InstrumentsManager.updateSSG M c (fun s => { s with envelopeEnabled := true })).cloneSSGEnvelope refSsg.envelopeNumber).1 })) with envSSG := (BT.InstrumentsManager.updateSSG ((BT.InstrumentsManager.updateSSG M c (fun s => { s with envelopeEnabled := true })).cloneSSGEnvelope refSsg.envelopeNumber).2 c (fun s => { s with envelopeNumber := ((BT.InstrumentsManager.updateSSG M c (fun s => { s with envelopeEnabled := true })).cloneSSGEnvelope refSsg.envelopeNumber).1 })).envSSG.registerUser ((BT.InstrumentsManager.updateSSG M c (fun s => { s with envelopeEnabled := true })).cloneSSGEnvelope refSsg.envelopeNumber).1 c }).ptADPCM = M.ptADPCM := by
        show (BT.InstrumentsManager.updateSSG ((BT.InstrumentsManager.updateSSG M c (fun s => { s with envelopeEnabled := true })).cloneSSGEnvelope refSsg.envelopeNumber).2 c (fun s => { s with envelopeNumber := ((BT.InstrumentsManager.updateSSG M c (fun s => { s with envelopeEnabled := true })).cloneSSGEnvelope refSsg.envelopeNumber).1 })).ptADPCM = M.ptADPCM
        rw [updateSSG_ptADPCM ((BT.InstrumentsManager.updateSSG M c (fun s => { s with envelopeEnabled := true })).cloneSSGEnvelope refSsg.envelopeNumber).2 c (fun s => { s with envelopeNumber := ((BT.InstrumentsManager.updateSSG M c (fun s => { s with envelopeEnabled := true })).cloneSSGEnvelope refSsg.envelopeNumber).1 })]
        rw [show ((BT.InstrumentsManager.updateSSG M c (fun s => { s with envelopeEnabled := true })).cloneSSGEnvelope refSsg.envelopeNumber).2.ptADPCM = (BT.InstrumentsManager.updateSSG M c (fun s => { s with envelopeEnabled := true })).ptADPCM from rfl]
        rw [updateSSG_ptADPCM M c (fun s => { s with envelopeEnabled := true })]
      rw [hFq, hfin_i]
      exact poolSync_update_irrelevant (fun s => by rw [hf]; rfl) inv.ptADPCM
  · rw [if_neg hb]
    exact ⟨inv, f, hf, rfl, rfl, rfl, rfl⟩

set_option maxHeartbeats 2000000 in
/-- The arpSSG deep-clone block preserves the invariant: the prior flag is
disabled, so the freshly registered slot is the record's only reference. -/
theorem inv_dcBlock_arpSSG (M : BT.InstrumentsManager) (refSsg : BT.InstrumentSSG) (c : Nat)
    (hc : c < 128) (f : BT.InstrumentSSG) (hf : M.insts c = some (.ssg f))
    (hflag : f.arpeggioEnabled = false) (inv : BT.Inv M) :
    BT.Inv (if refSsg.arpeggioEnabled then { (BT.InstrumentsManager.updateSSG ((BT.InstrumentsManager.updateSSG M c (fun s => { s with arpeggioEnabled := true })).cloneSSGArpeggio refSsg.arpeggioNumber).2 c (fun s => { s with arpeggioNumber := ((BT.InstrumentsManager.updateSSG M c (fun s => { s with arpeggioEnabled := true })).cloneSSGArpeggio refSsg.arpeggioNumber).1 })) with arpSSG := (BT.InstrumentsManager.updateSSG ((BT.InstrumentsManager.updateSSG M c (fun s => { s with arpeggioEnabled := true })).cloneSSGArpeggio refSsg.arpeggioNumber).2 c (fun s => { s with arpeggioNumber := ((BT.InstrumentsManager.updateSSG M c (fun s => { s with arpeggioEnabled := true })).cloneSSGArpeggio refSsg.arpeggioNumber).1 })).arpSSG.registerUser ((BT.InstrumentsManager.updateSSG M c (fun s => { s with arpeggioEnabled := true })).cloneSSGArpeggio refSsg.arpeggioNumber).1 c } else M) ∧
    ∃ f', ((if refSsg.arpeggioEnabled then { (BT.InstrumentsManager.updateSSG ((BT.InstrumentsManager.updateSSG M c (fun s => { s with arpeggioEnabled := true })).cloneSSGArpeggio refSsg.arpeggioNumber).2 c (fun s => { s with arpeggioNumber := ((BT.InstrumentsManager.updateSSG M c (fun s => { s with arpeggioEnabled := true })).cloneSSGArpeggio refSsg.arpeggioNumber).1 })) with arpSSG := (BT.InstrumentsManager.updateSSG ((BT.InstrumentsManager.updateSSG M c (fun s => { s with arpeggioEnabled := true })).cloneSSGArpeggio refSsg.arpeggioNumber).2 c (fun s => { s with arpeggioNumber := ((BT.InstrumentsManager.updateSSG M c (fun s => { s with arpeggioEnabled := true })).cloneSSGArpeggio refSsg.arpeggioNumber).1 })).arpSSG.registerUser ((BT.InstrumentsManager.updateSSG M c (fun s => { s with arpeggioEnabled := true })).cloneSSGArpeggio refSsg.arpeggioNumber).1 c } else M)).insts c = some (.ssg f') ∧
      f'.waveformEnabled = f.waveformEnabled ∧
      f'.toneNoiseEnabled = f.toneNoiseEnabled ∧
      f'.envelopeEnabled = f.envelopeEnabled ∧
      f'.pitchEnabled = f.pitchEnabled := by
  by_cases hb : refSsg.arpeggioEnabled = true
  · rw [if_pos hb]
    have hma_i : (BT.InstrumentsManager.updateSSG M c (fun s => { s with arpeggioEnabled := true })).insts = Function.update M.insts c (some (.ssg { f with arpeggioEnabled := true })) :=
      updateSSG_insts M c (fun s => { s with arpeggioEnabled := true }) f hf
    have hma_c : (BT.InstrumentsManager.updateSSG M c (fun s => { s with arpeggioEnabled := true })).insts c = some (.ssg { f with arpeggioEnabled := true }) := by
      rw [hma_i]
      exact Function.update_same c _ M.insts
    have hrl_c : ((BT.InstrumentsManager.updateSSG M c (fun s => { s with arpeggioEnabled := true })).cloneSSGArpeggio refSsg.arpeggioNumber).2.insts c = some (.ssg { f with arpeggioEnabled := true }) := hma_c
    have hmb_i : (BT.InstrumentsManager.updateSSG ((BT.InstrumentsManager.updateSSG M c (fun s => { s with arpeggioEnabled := true })).cloneSSGArpeggio refSsg.arpeggioNumber).2 c (fun s => { s with arpeggioNumber := ((BT.InstrumentsManager.updateSSG M c (fun s => { s with arpeggioEnabled := true })).cloneSSGArpeggio refSsg.arpeggioNumber).1 })).insts = Function.update ((BT.InstrumentsManager.updateSSG M c (fun s => { s with arpeggioEnabled := true })).cloneSSGArpeggio refSsg.arpeggioNumber).2.insts c
        (some (.ssg { { f with arpeggioEnabled := true } with arpeggioNumber := ((BT.InstrumentsManager.updateSSG M c (fun s => { s with arpeggioEnabled := true })).cloneSSGArpeggio refSsg.arpeggioNumber).1 })) :=
      updateSSG_insts ((BT.InstrumentsManager.updateSSG M c (fun s => { s with arpeggioEnabled := true })).cloneSSGArpeggio refSsg.arpeggioNumber).2 c (fun s => { s with arpeggioNumber := ((BT.InstrumentsManager.updateSSG M c (fun s => { s with arpeggioEnabled := true })).cloneSSGArpeggio refSsg.arpeggioNumber).1 }) { f with arpeggioEnabled := true } hrl_c
    have hfin_i : ({ (BT.InstrumentsManager.updateSSG ((BT.InstrumentsManager.updateSSG M c (fun s => { s with arpeggioEnabled := true })).cloneSSGArpeggio refSsg.arpeggioNumber).2 c (fun s => { s with arpeggioNumber := ((BT.InstrumentsManager.updateSSG M c (fun s => { s with arpeggioEnabled := true })).cloneSSGArpeggio refSsg.arpeggioNumber).1 })) with arpSSG := (BT.InstrumentsManager.updateSSG ((BT.InstrumentsManager.updateSSG M c (fun s => { s with arpeggioEnabled := true })).cloneSSGArpeggio refSsg.arpeggioNumber).2 c (fun s => { s with arpeggioNumber := ((BT.InstrumentsManager.updateSSG M c (fun s => { s with arpeggioEnabled := true })).cloneSSGArpeggio refSsg.arpeggioNumber).1 })).arpSSG.registerUser ((BT.InstrumentsManager.updateSSG M c (fun s => { s with arpeggioEnabled := true })).cloneSSGArpeggio refSsg.arpeggioNumber).1 c }).insts = Function.update M.insts c (some (.ssg { f with arpeggioEnabled := true, arpeggioNumber := ((BT.InstrumentsManager.updateSSG M c (fun s => { s with arpeggioEnabled := true })).cloneSSGArpeggio refSsg.arpeggioNumber).1 })) := by
      show (BT.InstrumentsManager.updateSSG ((BT.InstrumentsManager.updateSSG M c (fun s => { s with arpeggioEnabled := true })).cloneSSGArpeggio refSsg.arpeggioNumber).2 c (fun s => { s with arpeggioNumber := ((BT.InstrumentsManager.updateSSG M c (fun s => { s with arpeggioEnabled := true })).cloneSSGArpeggio refSsg.arpeggioNumber).1 })).insts = _
      rw [hmb_i]
      show Function.update (BT.InstrumentsManager.updateSSG M c (fun s => { s with arpeggioEnabled := true })).insts c (some (.ssg { f with arpeggioEnabled := true, arpeggioNumber := ((BT.InstrumentsManager.updateSSG M c (fun s => { s with arpeggioEnabled := true })).cloneSSGArpeggio refSsg.arpeggioNumber).1 })) = _
      rw [hma_i, Function.update_idem]
    have hfin_pool : ({ (BT.InstrumentsManager.updateSSG ((BT.InstrumentsManager.updateSSG M c (fun s => { s with arpeggioEnabled := true })).cloneSSGArpeggio refSsg.arpeggioNumber).2 c (fun s => { s with arpeggioNumber := ((BT.InstrumentsManager.updateSSG M c (fun s => { s with arpeggioEnabled := true })).cloneSSGArpeggio refSsg.arpeggioNumber).1 })) with arpSSG := (BT.InstrumentsManager.updateSSG ((BT.InstrumentsManager.updateSSG M c (fun s => { s with arpeggioEnabled := true })).cloneSSGArpeggio refSsg.arpeggioNumber).2 c (fun s => { s with arpeggioNumber := ((BT.InstrumentsManager.updateSSG M c (fun s => { s with arpeggioEnabled := true })).cloneSSGArpeggio refSsg.arpeggioNumber).1 })).arpSSG.registerUser ((BT.InstrumentsManager.updateSSG M c (fun s => { s with arpeggioEnabled := true })).cloneSSGArpeggio refSsg.arpeggioNumber).1 c }).arpSSG =
        (((BT.InstrumentsManager.updateSSG M c (fun s => { s with arpeggioEnabled := true })).arpSSG.cloneProp refSsg.arpeggioNumber).2).registerUser ((BT.InstrumentsManager.updateSSG M c (fun s => { s with arpeggioEnabled := true })).cloneSSGArpeggio refSsg.arpeggioNumber).1 c := by
      show (BT.InstrumentsManager.updateSSG ((BT.InstrumentsManager.updateSSG M c (fun s => { s with arpeggioEnabled := true })).cloneSSGArpeggio refSsg.arpeggioNumber).2 c (fun s => { s with arpeggioNumber := ((BT.InstrumentsManager.updateSSG M c (fun s => { s with arpeggioEnabled := true })).cloneSSGArpeggio refSsg.arpeggioNumber).1 })).arpSSG.registerUser ((BT.InstrumentsManager.updateSSG M c (fun s => { s with arpeggioEnabled := true })).cloneSSGArpeggio refSsg.arpeggioNumber).1 c = _
      rw [updateSSG_arpSSG ((BT.InstrumentsManager.updateSSG M c (fun s => { s with arpeggioEnabled := true })).cloneSSGArpeggio refSsg.arpeggioNumber).2 c (fun s => { s with arpeggioNumber := ((BT.InstrumentsManager.updateSSG M c (fun s => { s with arpeggioEnabled := true })).cloneSSGArpeggio refSsg.arpeggioNumber).1 })]
      rfl
    have hold : ∀ s, BT.ssgArpPoints (.ssg f) s = false := by
      intro s
      show (f.arpeggioEnabled && (f.arpeggioNumber == s)) = false
      rw [hflag]
      rfl
    have husers : ∀ s, s < 128 → (({ (BT.InstrumentsManager.updateSSG ((BT.InstrumentsManager.updateSSG M c (fun s => { s with arpeggioEnabled := true })).cloneSSGArpeggio refSsg.arpeggioNumber).2 c (fun s => { s with arpeggioNumber := ((BT.InstrumentsManager.updateSSG M c (fun s => { s with arpeggioEnabled := true })).cloneSSGArpeggio refSsg.arpeggioNumber).1 })) with arpSSG := (BT.InstrumentsManager.updateSSG ((BT.InstrumentsManager.updateSSG M c (fun s => { s with arpeggioEnabled := true })).cloneSSGArpeggio refSsg.arpeggioNumber).2 c (fun s => { s with arpeggioNumber := ((BT.InstrumentsManager.updateSSG M c (fun s => { s with arpeggioEnabled := true })).cloneSSGArpeggio refSsg.arpeggioNumber).1 })).arpSSG.registerUser ((BT.InstrumentsManager.updateSSG M c (fun s => { s with arpeggioEnabled := true })).cloneSSGArpeggio refSsg.arpeggioNumber).1 c }).arpSSG s).users =
        if BT.ssgArpPoints (.ssg { f with arpeggioEnabled := true, arpeggioNumber := ((BT.InstrumentsManager.updateSSG M c (fun s => { s with arpeggioEnabled := true })).cloneSSGArpeggio refSsg.arpeggioNumber).1 }) s = true
        then insert c ((M.arpSSG s).users) else (M.arpSSG s).users := by
      intro s hs
      rw [hfin_pool, users_registerUser, users_cloneProp, users_cloneProp]
      rw [updateSSG_arpSSG M c (fun s => { s with arpeggioEnabled := true })]
      by_cases hp : BT.ssgArpPoints (.ssg { f with arpeggioEnabled := true, arpeggioNumber := ((BT.InstrumentsManager.updateSSG M c (fun s => { s with arpeggioEnabled := true })).cloneSSGArpeggio refSsg.arpeggioNumber).1 }) s = true
      · rw [if_pos hp]
        have h2 : (true && (((BT.InstrumentsManager.updateSSG M c (fun s => { s with arpeggioEnabled := true })).cloneSSGArpeggio refSsg.arpeggioNumber).1 == s)) = true := hp
        rw [Bool.true_and, beq_iff_eq] at h2
        rw [if_pos h2.symm, h2]
      · rw [if_neg hp]
        have hsne : ¬ s = ((BT.InstrumentsManager.updateSSG M c (fun s => { s with arpeggioEnabled := true })).cloneSSGArpeggio refSsg.arpeggioNumber).1 := by
          intro hseq
          apply hp
          show (true && (((BT.InstrumentsManager.updateSSG M c (fun s => { s with arpeggioEnabled := true })).cloneSSGArpeggio refSsg.arpeggioNumber).1 == s)) = true
          rw [hseq]
          simp
        rw [if_neg hsne]
    refine ⟨⟨?_, ?_, ?_, ?_, ?_, ?_, ?_, ?_, ?_, ?_, ?_, ?_, ?_, ?_⟩,
      { f with arpeggioEnabled := true, arpeggioNumber := ((BT.InstrumentsManager.updateSSG M c (fun s => { s with arpeggioEnabled := true })).cloneSSGArpeggio refSsg.arpeggioNumber).1 }, by
        rw [hfin_i]
        exact Function.update_same c _ M.insts, rfl, rfl, rfl, rfl⟩
    · have hFq : ({ (BT.InstrumentsManager.updateSSG ((BT.InstrumentsManager.updateSSG M c (fun s => { s with arpeggioEnabled := true })).cloneSSGArpeggio refSsg.arpeggioNumber).2 c (fun s => { s with arpeggioNumber := ((BT.InstrumentsManager.updateSSG M c (fun s => { s with arpeggioEnabled := true })).cloneSSGArpeggio refSsg.arpeggioNumber).1 })) with arpSSG := (BT.InstrumentsManager.updateSSG ((BT.InstrumentsManager.updateSSG M c (fun s => { s with arpeggioEnabled := true })).cloneSSGArpeggio refSsg.arpeggioNumber).2 c (fun s => { s with arpeggioNumber := ((BT.InstrumentsManager.updateSSG M c (fun s => { s with arpeggioEnabled := true })).cloneSSGArpeggio refSsg.arpeggioNumber).1 })).arpSSG.registerUser ((BT.InstrumentsManager.updateSSG M c (fun s => { s with arpeggioEnabled := true })).cloneSSGArpeggio refSsg.arpeggioNumber).1 c }).envFM = M.envFM := by
        show (BT.InstrumentsManager.updateSSG ((BT.InstrumentsManager.updateSSG M c (fun s => { s with arpeggioEnabled := true })).cloneSSGArpeggio refSsg.arpeggioNumber).2 c (fun s => { s with arpeggioNumber := ((BT.InstrumentsManager.updateSSG M c (fun s => { s with arpeggioEnabled := true })).cloneSSGArpeggio refSsg.arpeggioNumber).1 })).envFM = M.envFM
        rw [updateSSG_envFM ((BT.InstrumentsManager.updateSSG M c (fun s => { s with arpeggioEnabled := true })).cloneSSGArpeggio refSsg.arpeggioNumber).2 c (fun s => { s with arpeggioNumber := ((BT.InstrumentsManager.updateSSG M c (fun s => { s with arpeggioEnabled := true })).cloneSSGArpeggio refSsg.arpeggioNumber).1 })]
        rw [show ((BT.InstrumentsManager.updateSSG M c (fun s => { s with arpeggioEnabled := true })).cloneSSGArpeggio refSsg.arpeggioNumber).2.envFM = (BT.InstrumentsManager.updateSSG M c (fun s => { s with arpeggioEnabled := true })).envFM from rfl]
        rw [updateSSG_envFM M c (fun s => { s with arpeggioEnabled := true })]
      rw [hFq, hfin_i]
      exact poolSync_update_irrelevant (fun s => by rw [hf]; rfl) inv.envFM
    · have hFq : ({ (BT.InstrumentsManager.updateSSG ((BT.InstrumentsManager.updateSSG M c (fun s => { s with arpeggioEnabled := true })).cloneSSGArpeggio refSsg.arpeggioNumber).2 c (fun s => { s with arpeggioNumber := ((BT.InstrumentsManager.updateSSG M c (fun s => { s with arpeggioEnabled := true })).cloneSSGArpeggio refSsg.arpeggioNumber).1 })) with arpSSG := (BT.InstrumentsManager.updateSSG ((BT.InstrumentsManager.updateSSG M c (fun s => { s with arpeggioEnabled := true })).cloneSSGArpeggio refSsg.arpeggioNumber).2 c (fun s => { s with arpeggioNumber := ((BT.InstrumentsManager.updateSSG M c (fun s => { s with arpeggioEnabled := true })).cloneSSGArpeggio refSsg.arpeggioNumber).1 })).arpSSG.registerUser ((BT.InstrumentsManager.updateSSG M c (fun s => { s with arpeggioEnabled := true })).cloneSSGArpeggio refSsg.arpeggioNumber).1 c }).lfoFM = M.lfoFM := by
        show (BT.InstrumentsManager.updateSSG ((BT.InstrumentsManager.updateSSG M c (fun s => { s with arpeggioEnabled := true })).cloneSSGArpeggio refSsg.arpeggioNumber).2 c (fun s => { s with arpeggioNumber := ((BT.InstrumentsManager.updateSSG M c (fun s => { s with arpeggioEnabled := true })).cloneSSGArpeggio refSsg.arpeggioNumber).1 })).lfoFM = M.lfoFM
        rw [updateSSG_lfoFM ((BT.InstrumentsManager.updateSSG M c (fun s => { s with arpeggioEnabled := true })).cloneSSGArpeggio refSsg.arpeggioNumber).2 c (fun s => { s with arpeggioNumber := ((BT.InstrumentsManager.updateSSG M c (fun s => { s with arpeggioEnabled := true })).cloneSSGArpeggio refSsg.arpeggioNumber).1 })]
        rw [show ((BT.InstrumentsManager.updateSSG M c (fun s => { s with arpeggioEnabled := true })).cloneSSGArpeggio refSsg.arpeggioNumber).2.lfoFM = (BT.InstrumentsManager.updateSSG M c (fun s => { s with arpeggioEnabled := true })).lfoFM from rfl]
        rw [updateSSG_lfoFM M c (fun s => { s with arpeggioEnabled := true })]
      rw [hFq, hfin_i]
      exact poolSync_update_irrelevant (fun s => by rw [hf]; rfl) inv.lfoFM
    · intro p hp
      have hFq : ({ (BT.InstrumentsManager.updateSSG ((BT.InstrumentsManager.updateSSG M c (fun s => { s with arpeggioEnabled := true })).cloneSSGArpeggio refSsg.arpeggioNumber).2 c (fun s => { s with arpeggioNumber := ((BT.InstrumentsManager.updateSSG M c (fun s => { s with arpeggioEnabled := true })).cloneSSGArpeggio refSsg.arpeggioNumber).1 })) with arpSSG := (BT.InstrumentsManager.updateSSG ((BT.InstrumentsManager.updateSSG M c (fun s => { s with arpeggioEnabled := true })).cloneSSGArpeggio refSsg.arpeggioNumber).2 c (fun s => { s with arpeggioNumber := ((BT.InstrumentsManager.updateSSG M c (fun s => { s with arpeggioEnabled := true })).cloneSSGArpeggio refSsg.arpeggioNumber).1 })).arpSSG.registerUser ((BT.InstrumentsManager.updateSSG M c (fun s => { s with arpeggioEnabled := true })).cloneSSGArpeggio refSsg.arpeggioNumber).1 c }).opSeqFM = M.opSeqFM := by
        show (BT.InstrumentsManager.updateSSG ((BT.InstrumentsManager.updateSSG M c (fun s => { s with arpeggioEnabled := true })).cloneSSGArpeggio refSsg.arpeggioNumber).2 c (fun s => { s with arpeggioNumber := ((BT.InstrumentsManager.updateSSG M c (fun s => { s with arpeggioEnabled := true })).cloneSSGArpeggio refSsg.arpeggioNumber).1 })).opSeqFM = M.opSeqFM
        rw [updateSSG_opSeqFM ((BT.InstrumentsManager.updateSSG M c (fun s => { s with arpeggioEnabled := true })).cloneSSGArpeggio refSsg.arpeggioNumber).2 c (fun s => { s with arpeggioNumber := ((BT.InstrumentsManager.updateSSG M c (fun s => { s with arpeggioEnabled := true })).cloneSSGArpeggio refSsg.arpeggioNumber).1 })]
        rw [show ((BT.InstrumentsManager.updateSSG M c (fun s => { s with arpeggioEnabled := true })).cloneSSGArpeggio refSsg.arpeggioNumber).2.opSeqFM = (BT.InstrumentsManager.updateSSG M c (fun s => { s with arpeggioEnabled := true })).opSeqFM from rfl]
        rw [updateSSG_opSeqFM M c (fun s => { s with arpeggioEnabled := true })]
      rw [hFq, hfin_i]
      exact poolSync_update_irrelevant (fun s => by rw [hf]; rfl) (inv.opSeqFM p hp)
    · have hFq : ({ (BT.InstrumentsManager.updateSSG ((BT.InstrumentsManager.updateSSG M c (fun s => { s with arpeggioEnabled := true })).cloneSSGArpeggio refSsg.arpeggioNumber).2 c (fun s => { s with arpeggioNumber := ((BT.InstrumentsManager.updateSSG M c (fun s => { s with arpeggioEnabled := true })).cloneSSGArpeggio refSsg.arpeggioNumber).1 })) with arpSSG := (BT.InstrumentsManager.updateSSG ((BT.InstrumentsManager.updateSSG M c (fun s => { s with arpeggioEnabled := true })).cloneSSGArpeggio refSsg.arpeggioNumber).2 c (fun s => { s with arpeggioNumber := ((BT.InstrumentsManager.updateSSG M c (fun s => { s with arpeggioEnabled := true })).cloneSSGArpeggio refSsg.arpeggioNumber).1 })).arpSSG.registerUser ((BT.InstrumentsManager.updateSSG M c (fun s => { s with arpeggioEnabled := true })).cloneSSGArpeggio refSsg.arpeggioNumber).1 c }).arpFM = M.arpFM := by
        show (BT.InstrumentsManager.updateSSG ((BT.InstrumentsManager.updateSSG M c (fun s => { s with arpeggioEnabled := true })).cloneSSGArpeggio refSsg.arpeggioNumber).2 c (fun s => { s with arpeggioNumber := ((BT.InstrumentsManager.updateSSG M c (fun s => { s with arpeggioEnabled := true })).cloneSSGArpeggio refSsg.arpeggioNumber).1 })).arpFM = M.arpFM
        rw [updateSSG_arpFM ((BT.InstrumentsManager.updateSSG M c (fun s => { s with arpeggioEnabled := true })).cloneSSGArpeggio refSsg.arpeggioNumber).2 c (fun s => { s with arpeggioNumber := ((BT.InstrumentsManager.updateSSG M c (fun s => { s with arpeggioEnabled := true })).cloneSSGArpeggio refSsg.arpeggioNumber).1 })]
        rw [show ((BT.InstrumentsManager.updateSSG M c (fun s => { s with arpeggioEnabled := true })).cloneSSGArpeggio refSsg.arpeggioNumber).2.arpFM = (BT.InstrumentsManager.updateSSG M c (fun s => { s with arpeggioEnabled := true })).arpFM from rfl]
        rw [updateSSG_arpFM M c (fun s => { s with arpeggioEnabled := true })]
      rw [hFq, hfin_i]
      exact poolSync_update_irrelevant (fun s => by rw [hf]; rfl) inv.arpFM
    · have hFq : ({ (BT.InstrumentsManager.updateSSG ((BT.InstrumentsManager.updateSSG M c (fun s => { s with arpeggioEnabled := true })).cloneSSGArpeggio refSsg.arpeggioNumber).2 c (fun s => { s with arpeggioNumber := ((BT.InstrumentsManager.updateSSG M c (fun s => { s with arpeggioEnabled := true })).cloneSSGArpeggio refSsg.arpeggioNumber).1 })) with arpSSG := (BT.InstrumentsManager.updateSSG ((BT.InstrumentsManager.updateSSG M c (fun s => { s with arpeggioEnabled := true })).cloneSSGArpeggio refSsg.arpeggioNumber).2 c (fun s => { s with arpeggioNumber := ((BT.InstrumentsManager.updateSSG M c (fun s => { s with arpeggioEnabled := true })).cloneSSGArpeggio refSsg.arpeggioNumber).1 })).arpSSG.registerUser ((BT.InstrumentsManager.updateSSG M c (fun s => { s with arpeggioEnabled := true })).cloneSSGArpeggio refSsg.arpeggioNumber).1 c }).ptFM = M.ptFM := by
        show (BT.InstrumentsManager.updateSSG ((BT.InstrumentsManager.updateSSG M c (fun s => { s with arpeggioEnabled := true })).cloneSSGArpeggio refSsg.arpeggioNumber).2 c (fun s => { s with arpeggioNumber := ((BT.InstrumentsManager.updateSSG M c (fun s => { s with arpeggioEnabled := true })).cloneSSGArpeggio refSsg.arpeggioNumber).1 })).ptFM = M.ptFM
        rw [updateSSG_ptFM ((BT.InstrumentsManager.updateSSG M c (fun s => { s with arpeggioEnabled := true })).cloneSSGArpeggio refSsg.arpeggioNumber).2 c (fun s => { s with arpeggioNumber := ((BT.InstrumentsManager.updateSSG M c (fun s => { s with arpeggioEnabled := true })).cloneSSGArpeggio refSsg.arpeggioNumber).1 })]
        rw [show ((BT.InstrumentsManager.updateSSG M c (fun s => { s with arpeggioEnabled := true })).cloneSSGArpeggio refSsg.arpeggioNumber).2.ptFM = (BT.InstrumentsManager.updateSSG M c (fun s => { s with arpeggioEnabled := true })).ptFM from rfl]
        rw [updateSSG_ptFM M c (fun s => { s with arpeggioEnabled := true })]
      rw [hFq, hfin_i]
      exact poolSync_update_irrelevant (fun s => by rw [hf]; rfl) inv.ptFM
    · have hFq : ({ (BT.InstrumentsManager.updateSSG ((BT.InstrumentsManager.updateSSG M c (fun s => { s with arpeggioEnabled := true })).cloneSSGArpeggio refSsg.arpeggioNumber).2 c (fun s => { s with arpeggioNumber := ((BT.InstrumentsManager.updateSSG M c (fun s => { s with arpeggioEnabled := true })).cloneSSGArpeggio refSsg.arpeggioNumber).1 })) with arpSSG := (BT.InstrumentsManager.updateSSG ((BT.InstrumentsManager.updateSSG M c (fun s => { s with arpeggioEnabled := true })).cloneSSGArpeggio refSsg.arpeggioNumber).2 c (fun s => { s with arpeggioNumber := ((BT.InstrumentsManager.updateSSG M c (fun s => { s with arpeggioEnabled := true })).cloneSSGArpeggio refSsg.arpeggioNumber).1 })).arpSSG.registerUser ((BT.InstrumentsManager.updateSSG M c (fun s => { s with arpeggioEnabled := true })).cloneSSGArpeggio refSsg.arpeggioNumber).1 c }).wfSSG = M.wfSSG := by
        show (BT.InstrumentsManager.updateSSG ((BT.InstrumentsManager.updateSSG M c (fun s => { s with arpeggioEnabled := true })).cloneSSGArpeggio refSsg.arpeggioNumber).2 c (fun s => { s with arpeggioNumber := ((BT.InstrumentsManager.updateSSG M c (fun s => { s with arpeggioEnabled := true })).cloneSSGArpeggio refSsg.arpeggioNumber).1 })).wfSSG = M.wfSSG
        rw [updateSSG_wfSSG ((BT.InstrumentsManager.updateSSG M c (fun s => { s with arpeggioEnabled := true })).cloneSSGArpeggio refSsg.arpeggioNumber).2 c (fun s => { s with arpeggioNumber := ((BT.InstrumentsManager.updateSSG M c (fun s => { s with arpeggioEnabled := true })).cloneSSGArpeggio refSsg.arpeggioNumber).1 })]
        rw [show ((BT.InstrumentsManager.updateSSG M c (fun s => { s with arpeggioEnabled := true })).cloneSSGArpeggio refSsg.arpeggioNumber).2.wfSSG = (BT.InstrumentsManager.updateSSG M c (fun s => { s with arpeggioEnabled := true })).wfSSG from rfl]
        rw [updateSSG_wfSSG M c (fun s => { s with arpeggioEnabled := true })]
      rw [hFq, hfin_i]
      exact poolSync_update_irrelevant (fun s => by rw [hf]; rfl) inv.wfSSG
    · have hFq : ({ (BT.InstrumentsManager.updateSSG ((BT.InstrumentsManager.updateSSG M c (fun s => { s with arpeggioEnabled := true })).cloneSSGArpeggio refSsg.arpeggioNumber).2 c (fun s => { s with arpeggioNumber := ((BT.InstrumentsManager.updateSSG M c (fun s => { s with arpeggioEnabled := true })).cloneSSGArpeggio refSsg.arpeggioNumber).1 })) with arpSSG := (BT.InstrumentsManager.updateSSG ((BT.InstrumentsManager.updateSSG M c (fun s => { s with arpeggioEnabled := true })).cloneSSGArpeggio refSsg.arpeggioNumber).2 c (fun s => { s with arpeggioNumber := ((BT.InstrumentsManager.updateSSG M c (fun s => { s with arpeggioEnabled := true })).cloneSSGArpeggio refSsg.arpeggioNumber).1 })).arpSSG.registerUser ((BT.InstrumentsManager.updateSSG M c (fun s => { s with arpeggioEnabled := true })).cloneSSGArpeggio refSsg.arpeggioNumber).1 c }).tnSSG = M.tnSSG := by
        show (BT.InstrumentsManager.updateSSG ((BT.InstrumentsManager.updateSSG M c (fun s => { s with arpeggioEnabled := true })).cloneSSGArpeggio refSsg.arpeggioNumber).2 c (fun s => { s with arpeggioNumber := ((BT.InstrumentsManager.updateSSG M c (fun s => { s with arpeggioEnabled := true })).cloneSSGArpeggio refSsg.arpeggioNumber).1 })).tnSSG = M.tnSSG
        rw [updateSSG_tnSSG ((BT.InstrumentsManager.updateSSG M c (fun s => { s with arpeggioEnabled := true })).cloneSSGArpeggio refSsg.arpeggioNumber).2 c (fun s => { s with arpeggioNumber := ((BT.InstrumentsManager.updateSSG M c (fun s => { s with arpeggioEnabled := true })).cloneSSGArpeggio refSsg.arpeggioNumber).1 })]
        rw [show ((BT.InstrumentsManager.updateSSG M c (fun s => { s with arpeggioEnabled := true })).cloneSSGArpeggio refSsg.arpeggioNumber).2.tnSSG = (BT.InstrumentsManager.updateSSG M c (fun s => { s with arpeggioEnabled := true })).tnSSG from rfl]
        rw [updateSSG_tnSSG M c (fun s => { s with arpeggioEnabled := true })]
      rw [hFq, hfin_i]
      exact poolSync_update_irrelevant (fun s => by rw [hf]; rfl) inv.tnSSG
    · have hFq : ({ (BT.InstrumentsManager.updateSSG ((BT.InstrumentsManager.updateSSG M c (fun s => { s with arpeggioEnabled := true })).cloneSSGArpeggio refSsg.arpeggioNumber).2 c (fun s => { s with arpeggioNumber := ((BT.InstrumentsManager.updateSSG M c (fun s => { s with arpeggioEnabled := true })).cloneSSGArpeggio refSsg.arpeggioNumber).1 })) with arpSSG := (BT.InstrumentsManager.updateSSG ((BT.InstrumentsManager.updateSSG M c (fun s => { s with arpeggioEnabled := true })).cloneSSGArpeggio refSsg.arpeggioNumber).2 c (fun s => { s with arpeggioNumber := ((BT.InstrumentsManager.updateSSG M c (fun s => { s with arpeggioEnabled := true })).cloneSSGArpeggio refSsg.arpeggioNumber).1 })).arpSSG.registerUser ((BT.InstrumentsManager.updateSSG M c (fun s => { s with arpeggioEnabled := true })).cloneSSGArpeggio refSsg.arpeggioNumber).1 c }).envSSG = M.envSSG := by
        show (BT.InstrumentsManager.updateSSG ((BT.InstrumentsManager.updateSSG M c (fun s => { s with arpeggioEnabled := true })).cloneSSGArpeggio refSsg.arpeggioNumber).2 c (fun s => { s with arpeggioNumber := ((BT.InstrumentsManager.updateSSG M c (fun s => { s with arpeggioEnabled := true })).cloneSSGArpeggio refSsg.arpeggioNumber).1 })).envSSG = M.envSSG
        rw [updateSSG_envSSG ((BT.InstrumentsManager.updateSSG M c (fun s => { s with arpeggioEnabled := true })).cloneSSGArpeggio refSsg.arpeggioNumber).2 c (fun s => { s with arpeggioNumber := ((BT.InstrumentsManager.updateSSG M c (fun s => { s with arpeggioEnabled := true })).cloneSSGArpeggio refSsg.arpeggioNumber).1 })]
        rw [show ((BT.InstrumentsManager.updateSSG M c (fun s => { s with arpeggioEnabled := true })).cloneSSGArpeggio refSsg.arpeggioNumber).2.envSSG = (BT.InstrumentsManager.updateSSG M c (fun s => { s with arpeggioEnabled := true })).envSSG from rfl]
        rw [updateSSG_envSSG M c (fun s => { s with arpeggioEnabled := true })]
      rw [hFq, hfin_i]
      exact poolSync_update_irrelevant (fun s => by rw [hf]; rfl) inv.envSSG
    · rw [hfin_i]
      exact poolSync_overwrite_register hc hf hold husers inv.arpSSG
    · have hFq : ({ (BT.InstrumentsManager.updateSSG ((BT.InstrumentsManager.updateSSG M c (fun s => { s with arpeggioEnabled := true })).cloneSSGArpeggio refSsg.arpeggioNumber).2 c (fun s => { s with arpeggioNumber := ((BT.InstrumentsManager.updateSSG M c (fun s => { s with arpeggioEnabled := true })).cloneSSGArpeggio refSsg.arpeggioNumber).1 })) with arpSSG := (BT.InstrumentsManager.updateSSG ((BT.InstrumentsManager.updateSSG M c (fun s => { s with arpeggioEnabled := true })).cloneSSGArpeggio refSsg.arpeggioNumber).2 c (fun s => { s with arpeggioNumber := ((BT.InstrumentsManager.updateSSG M c (fun s => { s with arpeggioEnabled := true })).cloneSSGArpeggio refSsg.arpeggioNumber).1 })).arpSSG.registerUser ((BT.InstrumentsManager.updateSSG M c (fun s => { s with arpeggioEnabled := true })).cloneSSGArpeggio refSsg.arpeggioNumber).1 c }).ptSSG = M.ptSSG := by
        show (BT.InstrumentsManager.updateSSG ((BT.InstrumentsManager.updateSSG M c (fun s => { s with arpeggioEnabled := true })).cloneSSGArpeggio refSsg.arpeggioNumber).2 c (fun s => { s with arpeggioNumber := ((BT.InstrumentsManager.updateSSG M c (fun s => { s with arpeggioEnabled := true })).cloneSSGArpeggio refSsg.arpeggioNumber).1 })).ptSSG = M.ptSSG
        rw [updateSSG_ptSSG ((BT.InstrumentsManager.updateSSG M c (fun s => { s with arpeggioEnabled := true })).cloneSSGArpeggio refSsg.arpeggioNumber).2 c (fun s => { s with arpeggioNumber := ((BT.InstrumentsManager.updateSSG M c (fun s => { s with arpeggioEnabled := true })).cloneSSGArpeggio refSsg.arpeggioNumber).1 })]
        rw [show ((BT.InstrumentsManager.updateSSG M c (fun s => { s with arpeggioEnabled := true })).cloneSSGArpeggio refSsg.arpeggioNumber).2.ptSSG = (BT.InstrumentsManager.updateSSG M c (fun s => { s with arpeggioEnabled := true })).ptSSG from rfl]
        rw [updateSSG_ptSSG M c (fun s => { s with arpeggioEnabled := true })]
      rw [hFq, hfin_i]
      exact poolSync_update_irrelevant (fun s => by rw [hf]; rfl) inv.ptSSG
    · have hFq : ({ (BT.InstrumentsManager.updateSSG ((BT.InstrumentsManager.updateSSG M c (fun s => { s with arpeggioEnabled := true })).cloneSSGArpeggio refSsg.arpeggioNumber).2 c (fun s => { s with arpeggioNumber := ((BT.InstrumentsManager.updateSSG M c (fun s => { s with arpeggioEnabled := true })).cloneSSGArpeggio refSsg.arpeggioNumber).1 })) with arpSSG := (BT.InstrumentsManager.updateSSG ((BT.InstrumentsManager.updateSSG M c (fun s => { s with arpeggioEnabled := true })).cloneSSGArpeggio refSsg.arpeggioNumber).2 c (fun s => { s with arpeggioNumber := ((BT.InstrumentsManager.updateSSG M c (fun s => { s with arpeggioEnabled := true })).cloneSSGArpeggio refSsg.arpeggioNumber).1 })).arpSSG.registerUser ((BT.InstrumentsManager.updateSSG M c (fun s => { s with arpeggioEnabled := true })).cloneSSGArpeggio refSsg.arpeggioNumber).1 c }).wfADPCM = M.wfADPCM := by
        show (BT.InstrumentsManager.updateSSG ((BT.InstrumentsManager.updateSSG M c (fun s => { s with arpeggioEnabled := true })).cloneSSGArpeggio refSsg.arpeggioNumber).2 c (fun s => { s with arpeggioNumber := ((BT.InstrumentsManager.updateSSG M c (fun s => { s with arpeggioEnabled := true })).cloneSSGArpeggio refSsg.arpeggioNumber).1 })).wfADPCM = M.wfADPCM
        rw [updateSSG_wfADPCM ((BT.InstrumentsManager.updateSSG M c (fun s => { s with arpeggioEnabled := true })).cloneSSGArpeggio refSsg.arpeggioNumber).2 c (fun s => { s with arpeggioNumber := ((BT.InstrumentsManager.updateSSG M c (fun s => { s with arpeggioEnabled := true })).cloneSSGArpeggio refSsg.arpeggioNumber).1 })]
        rw [show ((BT.InstrumentsManager.updateSSG M c (fun s => { s with arpeggioEnabled := true })).cloneSSGArpeggio refSsg.arpeggioNumber).2.wfADPCM = (BT.InstrumentsManager.updateSSG M c (fun s => { s with arpeggioEnabled := true })).wfADPCM from rfl]
        rw [updateSSG_wfADPCM M c (fun s => { s with arpeggioEnabled := true })]
      rw [hFq, hfin_i]
      exact poolSync_update_irrelevant (fun s => by rw [hf]; rfl) inv.wfADPCM
    · have hFq : ({ (BT.InstrumentsManager.updateSSG ((BT.InstrumentsManager.updateSSG M c (fun s => { s with arpeggioEnabled := true })).cloneSSGArpeggio refSsg.arpeggioNumber).2 c (fun s => { s with arpeggioNumber := ((BT.InstrumentsManager.updateSSG M c (fun s => { s with arpeggioEnabled := true })).cloneSSGArpeggio refSsg.arpeggioNumber).1 })) with arpSSG := (BT.InstrumentsManager.updateSSG ((BT.InstrumentsManager.updateSSG M c (fun s => { s with arpeggioEnabled := true })).cloneSSGArpeggio refSsg.arpeggioNumber).2 c (fun s => { s with arpeggioNumber := ((BT.InstrumentsManager.updateSSG M c (fun s => { s with arpeggioEnabled := true })).cloneSSGArpeggio refSsg.arpeggioNumber).1 })).arpSSG.registerUser ((BT.InstrumentsManager.updateSSG M c (fun s => { s with arpeggioEnabled := true })).cloneSSGArpeggio refSsg.arpeggioNumber).1 c }).envADPCM = M.envADPCM := by
        show (BT.InstrumentsManager.updateSSG ((BT.InstrumentsManager.updateSSG M c (fun s => { s with arpeggioEnabled := true })).cloneSSGArpeggio refSsg.arpeggioNumber).2 c (fun s => { s with arpeggioNumber := ((BT.InstrumentsManager.updateSSG M c (fun s => { s with arpeggioEnabled := true })).cloneSSGArpeggio refSsg.arpeggioNumber).1 })).envADPCM = M.envADPCM
        rw [updateSSG_envADPCM ((BT.InstrumentsManager.updateSSG M c (fun s => { s with arpeggioEnabled := true })).cloneSSGArpeggio refSsg.arpeggioNumber).2 c (fun s => { s with arpeggioNumber := ((BT.InstrumentsManager.updateSSG M c (fun s => { s with arpeggioEnabled := true })).cloneSSGArpeggio refSsg.arpeggioNumber).1 })]
        rw [show ((BT.InstrumentsManager.updateSSG M c (fun s => { s with arpeggioEnabled := true })).cloneSSGArpeggio refSsg.arpeggioNumber).2.envADPCM = (BT.InstrumentsManager.updateSSG M c (fun s => { s with arpeggioEnabled := true })).envADPCM from rfl]
        rw [updateSSG_envADPCM M c (fun s => { s with arpeggioEnabled := true })]
      rw [hFq, hfin_i]
      exact poolSync_update_irrelevant (fun s => by rw [hf]; rfl) inv.envADPCM
    · have hFq : ({ (BT.InstrumentsManager.updateSSG ((BT.InstrumentsManager.updateSSG M c (fun s => { s with arpeggioEnabled := true })).cloneSSGArpeggio refSsg.arpeggioNumber).2 c (fun s => { s with arpeggioNumber := ((BT.InstrumentsManager.updateSSG M c (fun s => { s with arpeggioEnabled := true })).cloneSSGArpeggio refSsg.arpeggioNumber).1 })) with arpSSG := (BT.InstrumentsManager.updateSSG ((BT.InstrumentsManager.updateSSG M c (fun s => { s with arpeggioEnabled := true })).cloneSSGArpeggio refSsg.arpeggioNumber).2 c (fun s => { s with arpeggioNumber := ((BT.InstrumentsManager.updateSSG M c (fun s => { s with arpeggioEnabled := true })).cloneSSGArpeggio refSsg.arpeggioNumber).1 })).arpSSG.registerUser ((BT.InstrumentsManager.updateSSG M c (fun s => { s with arpeggioEnabled := true })).cloneSSGArpeggio refSsg.arpeggioNumber).1 c }).arpADPCM = M.arpADPCM := by
        show (BT.InstrumentsManager.updateSSG ((BT.InstrumentsManager.updateSSG M c (fun s => { s with arpeggioEnabled := true })).cloneSSGArpeggio refSsg.arpeggioNumber).2 c (fun s => { s with arpeggioNumber := ((BT.InstrumentsManager.updateSSG M c (fun s => { s with arpeggioEnabled := true })).cloneSSGArpeggio refSsg.arpeggioNumber).1 })).arpADPCM = M.arpADPCM
        rw [updateSSG_arpADPCM ((BT.InstrumentsManager.updateSSG M c (fun s => { s with arpeggioEnabled := true })).cloneSSGArpeggio refSsg.arpeggioNumber).2 c (fun s => { s with arpeggioNumber := ((BT.InstrumentsManager.updateSSG M c (fun s => { s with arpeggioEnabled := true })).cloneSSGArpeggio refSsg.arpeggioNumber).1 })]
        rw [show ((BT.InstrumentsManager.updateSSG M c (fun s => { s with arpeggioEnabled := true })).cloneSSGArpeggio refSsg.arpeggioNumber).2.arpADPCM = (BT.InstrumentsManager.updateSSG M c (fun s => { s with arpeggioEnabled := true })).arpADPCM from rfl]
        rw [updateSSG_arpADPCM M c (fun s => { s with arpeggioEnabled := true })]
      rw [hFq, hfin_i]
      exact poolSync_update_irrelevant (fun s => by rw [hf]; rfl) inv.arpADPCM
    · have hFq : ({ (BT.InstrumentsManager.updateSSG ((BT.InstrumentsManager.updateSSG M c (fun s => { s with arpeggioEnabled := true })).cloneSSGArpeggio refSsg.arpeggioNumber).2 c (fun s => { s with arpeggioNumber := ((BT.InstrumentsManager.updateSSG M c (fun s => { s with arpeggioEnabled := true })).cloneSSGArpeggio refSsg.arpeggioNumber).1 })) with arpSSG := (BT.InstrumentsManager.updateSSG ((BT.InstrumentsManager.updateSSG M c (fun s => { s with arpeggioEnabled := true })).cloneSSGArpeggio refSsg.arpeggioNumber).2 c (fun s => { s with arpeggioNumber := ((BT.InstrumentsManager.updateSSG M c (fun s => { s with arpeggioEnabled := true })).cloneSSGArpeggio refSsg.arpeggioNumber).1 })).arpSSG.registerUser ((BT.InstrumentsManager.updateSSG M c (fun s => { s with arpeggioEnabled := true })).cloneSSGArpeggio refSsg.arpeggioNumber).1 c }).ptADPCM = M.ptADPCM := by
        show (BT.InstrumentsManager.updateSSG ((BT.InstrumentsManager.updateSSG M c (fun s => { s with arpeggioEnabled := true })).cloneSSGArpeggio refSsg.arpeggioNumber).2 c (fun s => { s with arpeggioNumber := ((BT.InstrumentsManager.updateSSG M c (fun s => { s with arpeggioEnabled := true })).cloneSSGArpeggio refSsg.arpeggioNumber).1 })).ptADPCM = M.ptADPCM
        rw [updateSSG_ptADPCM ((BT.InstrumentsManager.updateSSG M c (fun s => { s with arpeggioEnabled := true })).cloneSSGArpeggio refSsg.arpeggioNumber).2 c (fun s => { s with arpeggioNumber := ((BT.InstrumentsManager.updateSSG M c (fun s => { s with arpeggioEnabled := true })).cloneSSGArpeggio refSsg.arpeggioNumber).1 })]
        rw [show ((BT.InstrumentsManager.updateSSG M c (fun s => { s with arpeggioEnabled := true })).cloneSSGArpeggio refSsg.arpeggioNumber).2.ptADPCM = (BT.InstrumentsManager.updateSSG M c (fun s => { s with arpeggioEnabled := true })).ptADPCM from rfl]
        rw [updateSSG_ptADPCM M c (fun s => { s with arpeggioEnabled := true })]
      rw [hFq, hfin_i]
      exact poolSync_update_irrelevant (fun s => by rw [hf]; rfl) inv.ptADPCM
  · rw [if_neg hb]
    exact ⟨inv, f, hf, rfl, rfl, rfl, rfl⟩

set_option maxHeartbeats 2000000 in
/-- The ptSSG deep-clone block preserves the invariant: the prior flag is
disabled, so the freshly registered slot is the record's only reference. -/
theorem inv_dcBlock_ptSSG (M : BT.InstrumentsManager) (refSsg : BT.InstrumentSSG) (c : Nat)
    (hc : c < 128) (f : BT.InstrumentSSG) (hf : M.insts c = some (.ssg f))
    (hflag : f.pitchEnabled = false) (inv : BT.Inv M) :
    BT.Inv (if refSsg.pitchEnabled then { (BT.InstrumentsManager.updateSSG ((BT.InstrumentsManager.updateSSG M c (fun s => { s with pitchEnabled := true })).cloneSSGPitch refSsg.pitchNumber).2 c (fun s => { s with pitchNumber := ((BT.InstrumentsManager.updateSSG M c (fun s => { s with pitchEnabled := true })).cloneSSGPitch refSsg.pitchNumber).1 })) with ptSSG := (BT.InstrumentsManager.updateSSG ((BT.InstrumentsManager.updateSSG M c (fun s => { s with pitchEnabled := true })).cloneSSGPitch refSsg.pitchNumber).2 c (fun s => { s with pitchNumber := ((BT.InstrumentsManager.updateSSG M c (fun s => { s with pitchEnabled := true })).cloneSSGPitch refSsg.pitchNumber).1 })).ptSSG.registerUser ((BT.InstrumentsManager.updateSSG M c (fun s => { s with pitchEnabled := true })).cloneSSGPitch refSsg.pitchNumber).1 c } else M) ∧
    ∃ f', ((if refSsg.pitchEnabled then { (BT.InstrumentsManager.updateSSG ((BT.InstrumentsManager.updateSSG M c (fun s => { s with pitchEnabled := true })).cloneSSGPitch refSsg.pitchNumber).2 c (fun s => { s with pitchNumber := ((BT.InstrumentsManager.updateSSG M c (fun s => { s with pitchEnabled := true })).cloneSSGPitch refSsg.pitchNumber).1 })) with ptSSG := (BT.InstrumentsManager.updateSSG ((BT.InstrumentsManager.updateSSG M c (fun s => { s with pitchEnabled := true })).cloneSSGPitch refSsg.pitchNumber).2 c (fun s => { s with pitchNumber := ((BT.InstrumentsManager.updateSSG M c (fun s => { s with pitchEnabled := true })).cloneSSGPitch refSsg.pitchNumber).1 })).ptSSG.registerUser ((BT.InstrumentsManager.updateSSG M c (fun s => { s with pitchEnabled := true })).cloneSSGPitch refSsg.pitchNumber).1 c } else M)).insts c = some (.ssg f') ∧
      f'.waveformEnabled = f.waveformEnabled ∧
      f'.toneNoiseEnabled = f.toneNoiseEnabled ∧
      f'.envelopeEnabled = f.envelopeEnabled ∧
      f'.arpeggioEnabled = f.arpeggioEnabled := by
  by_cases hb : refSsg.pitchEnabled = true
  · rw [if_pos hb]
    have hma_i : (BT.InstrumentsManager.updateSSG M c (fun s => { s with pitchEnabled := true })).insts = Function.update M.insts c (some (.ssg { f with pitchEnabled := true })) :=
      updateSSG_insts M c (fun s => { s with pitchEnabled := true }) f hf
    have hma_c : (BT.InstrumentsManager.updateSSG M c (fun s => { s with pitchEnabled := true })).insts c = some (.ssg { f with pitchEnabled := true }) := by
      rw [hma_i]
      exact Function.update_same c _ M.insts
    have hrl_c : ((BT.InstrumentsManager.updateSSG M c (fun s => { s with pitchEnabled := true })).cloneSSGPitch refSsg.pitchNumber).2.insts c = some (.ssg { f with pitchEnabled := true }) := hma_c
    have hmb_i : (BT.InstrumentsManager.updateSSG ((BT.InstrumentsManager.updateSSG M c (fun s => { s with pitchEnabled := true })).cloneSSGPitch refSsg.pitchNumber).2 c (fun s => { s with pitchNumber := ((BT.InstrumentsManager.updateSSG M c (fun s => { s with pitchEnabled := true })).cloneSSGPitch refSsg.pitchNumber).1 })).insts = Function.update ((BT.InstrumentsManager.updateSSG M c (fun s => { s with pitchEnabled := true })).cloneSSGPitch refSsg.pitchNumber).2.insts c
        (some (.ssg { { f with pitchEnabled := true } with pitchNumber := ((BT.InstrumentsManager.updateSSG M c (fun s => { s with pitchEnabled := true })).cloneSSGPitch refSsg.pitchNumber).1 })) :=
      updateSSG_insts ((BT.InstrumentsManager.updateSSG M c (fun s => { s with pitchEnabled := true })).cloneSSGPitch refSsg.pitchNumber).2 c (fun s => { s with pitchNumber := ((BT.InstrumentsManager.updateSSG M c (fun s => { s with pitchEnabled := true })).cloneSSGPitch refSsg.pitchNumber).1 }) { f with pitchEnabled := true } hrl_c
    have hfin_i : ({ (BT.InstrumentsManager.updateSSG ((BT.InstrumentsManager.updateSSG M c (fun s => { s with pitchEnabled := true })).cloneSSGPitch refSsg.pitchNumber).2 c (fun s => { s with pitchNumber := ((BT.InstrumentsManager.updateSSG M c (fun s => { s with pitchEnabled := true })).cloneSSGPitch refSsg.pitchNumber).1 })) with ptSSG := (BT.InstrumentsManager.updateSSG ((BT.InstrumentsManager.updateSSG M c (fun s => { s with pitchEnabled := true })).cloneSSGPitch refSsg.pitchNumber).2 c (fun s => { s with pitchNumber := ((BT.InstrumentsManager.updateSSG M c (fun s => { s with pitchEnabled := true })).cloneSSGPitch refSsg.pitchNumber).1 })).ptSSG.registerUser ((BT.InstrumentsManager.updateSSG M c (fun s => { s with pitchEnabled := true })).cloneSSGPitch refSsg.pitchNumber).1 c }).insts = Function.update M.insts c (some (.ssg { f with pitchEnabled := true, pitchNumber := ((BT.InstrumentsManager.updateSSG M c (fun s => { s with pitchEnabled := true })).cloneSSGPitch refSsg.pitchNumber).1 })) := by
      show (BT.InstrumentsManager.updateSSG ((BT.InstrumentsManager.updateSSG M c (fun s => { s with pitchEnabled := true })).cloneSSGPitch refSsg.pitchNumber).2 c (fun s => { s with pitchNumber := ((BT.InstrumentsManager.updateSSG M c (fun s => { s with pitchEnabled := true })).cloneSSGPitch refSsg.pitchNumber).1 })).insts = _
      rw [hmb_i]
      show Function.update (BT.InstrumentsManager.updateSSG M c (fun s => { s with pitchEnabled := true })).insts c (some (.ssg { f with pitchEnabled := true, pitchNumber := ((BT.InstrumentsManager.updateSSG M c (fun s => { s with pitchEnabled := true })).cloneSSGPitch refSsg.pitchNumber).1 })) = _
      rw [hma_i, Function.update_idem]
    have hfin_pool : ({ (BT.InstrumentsManager.updateSSG ((BT.InstrumentsManager.updateSSG M c (fun s => { s with pitchEnabled := true })).cloneSSGPitch refSsg.pitchNumber).2 c (fun s => { s with pitchNumber := ((BT.InstrumentsManager.updateSSG M c (fun s => { s with pitchEnabled := true })).cloneSSGPitch refSsg.pitchNumber).1 })) with ptSSG := (BT.InstrumentsManager.updateSSG ((BT.InstrumentsManager.updateSSG M c (fun s => { s with pitchEnabled := true })).cloneSSGPitch refSsg.pitchNumber).2 c (fun s => { s with pitchNumber := ((BT.InstrumentsManager.updateSSG M c (fun s => { s with pitchEnabled := true })).cloneSSGPitch refSsg.pitchNumber).1 })).ptSSG.registerUser ((BT.InstrumentsManager.updateSSG M c (fun s => { s with pitchEnabled := true })).cloneSSGPitch refSsg.pitchNumber).1 c }).ptSSG =
        (((BT.InstrumentsManager.updateSSG M c (fun s => { s with pitchEnabled := true })).ptSSG.cloneProp refSsg.pitchNumber).2).registerUser ((BT.InstrumentsManager.updateSSG M c (fun s => { s with pitchEnabled := true })).cloneSSGPitch refSsg.pitchNumber).1 c := by
      show (BT.InstrumentsManager.updateSSG ((BT.InstrumentsManager.updateSSG M c (fun s => { s with pitchEnabled := true })).cloneSSGPitch refSsg.pitchNumber).2 c (fun s => { s with pitchNumber := ((BT.InstrumentsManager.updateSSG M c (fun s => { s with pitchEnabled := true })).cloneSSGPitch refSsg.pitchNumber).1 })).ptSSG.registerUser ((BT.InstrumentsManager.updateSSG M c (fun s => { s with pitchEnabled := true })).cloneSSGPitch refSsg.pitchNumber).1 c = _
      rw [updateSSG_ptSSG ((BT.InstrumentsManager.updateSSG M c (fun s => { s with pitchEnabled := true })).cloneSSGPitch refSsg.pitchNumber).2 c (fun s => { s with pitchNumber := ((BT.InstrumentsManager.updateSSG M c (fun s => { s with pitchEnabled := true })).cloneSSGPitch refSsg.pitchNumber).1 })]
      rfl
    have hold : ∀ s, BT.ssgPtPoints (.ssg f) s = false := by
      intro s
      show (f.pitchEnabled && (f.pitchNumber == s)) = false
      rw [hflag]
      rfl
    have husers : ∀ s, s < 128 → (({ (BT.InstrumentsManager.updateSSG ((BT.InstrumentsManager.updateSSG M c (fun s => { s with pitchEnabled := true })).cloneSSGPitch refSsg.pitchNumber).2 c (fun s => { s with pitchNumber := ((BT.InstrumentsManager.updateSSG M c (fun s => { s with pitchEnabled := true })).cloneSSGPitch refSsg.pitchNumber).1 })) with ptSSG := (BT.InstrumentsManager.updateSSG ((BT.InstrumentsManager.updateSSG M c (fun s => { s with pitchEnabled := true })).cloneSSGPitch refSsg.pitchNumber).2 c (fun s => { s with pitchNumber := ((BT.InstrumentsManager.updateSSG M c (fun s => { s with pitchEnabled := true })).cloneSSGPitch refSsg.pitchNumber).1 })).ptSSG.registerUser ((BT.InstrumentsManager.updateSSG M c (fun s => { s with pitchEnabled := true })).cloneSSGPitch refSsg.pitchNumber).1 c }).ptSSG s).users =
        if BT.ssgPtPoints (.ssg { f with pitchEnabled := true, pitchNumber := ((BT.InstrumentsManager.updateSSG M c (fun s => { s with pitchEnabled := true })).cloneSSGPitch refSsg.pitchNumber).1 }) s = true
        then insert c ((M.ptSSG s).users) else (M.ptSSG s).users := by
      intro s hs
      rw [hfin_pool, users_registerUser, users_cloneProp, users_cloneProp]
      rw [updateSSG_ptSSG M c (fun s => { s with pitchEnabled := true })]
      by_cases hp : BT.ssgPtPoints (.ssg { f with pitchEnabled := true, pitchNumber := ((BT.InstrumentsManager.updateSSG M c (fun s => { s with pitchEnabled := true })).cloneSSGPitch refSsg.pitchNumber).1 }) s = true
      · rw [if_pos hp]
        have h2 : (true && (((BT.InstrumentsManager.updateSSG M c (fun s => { s with pitchEnabled := true })).cloneSSGPitch refSsg.pitchNumber).1 == s)) = true := hp
        rw [Bool.true_and, beq_iff_eq] at h2
        rw [if_pos h2.symm, h2]
      · rw [if_neg hp]
        have hsne : ¬ s = ((BT.InstrumentsManager.updateSSG M c (fun s => { s with pitchEnabled := true })).cloneSSGPitch refSsg.pitchNumber).1 := by
          intro hseq
          apply hp
          show (true && (((BT.InstrumentsManager.updateSSG M c (fun s => { s with pitchEnabled := true })).cloneSSGPitch refSsg.pitchNumber).1 == s)) = true
          rw [hseq]
          simp
        rw [if_neg hsne]
    refine ⟨⟨?_, ?_, ?_, ?_, ?_, ?_, ?_, ?_, ?_, ?_, ?_, ?_, ?_, ?_⟩,
      { f with pitchEnabled := true, pitchNumber := ((BT.InstrumentsManager.updateSSG M c (fun s => { s with pitchEnabled := true })).cloneSSGPitch refSsg.pitchNumber).1 }, by
        rw [hfin_i]
        exact Function.update_same c _ M.insts, rfl, rfl, rfl, rfl⟩
    · have hFq : ({ (BT.InstrumentsManager.updateSSG ((BT.InstrumentsManager.updateSSG M c (fun s => { s with pitchEnabled := true })).cloneSSGPitch refSsg.pitchNumber).2 c (fun s => { s with pitchNumber := ((BT.InstrumentsManager.updateSSG M c (fun s => { s with pitchEnabled := true })).cloneSSGPitch refSsg.pitchNumber).1 })) with ptSSG := (BT.InstrumentsManager.updateSSG ((BT.InstrumentsManager.updateSSG M c (fun s => { s with pitchEnabled := true })).cloneSSGPitch refSsg.pitchNumber).2 c (fun s => { s with pitchNumber := ((BT.InstrumentsManager.updateSSG M c (fun s => { s with pitchEnabled := true })).cloneSSGPitch refSsg.pitchNumber).1 })).ptSSG.registerUser ((BT.InstrumentsManager.updateSSG M c (fun s => { s with pitchEnabled := true })).cloneSSGPitch refSsg.pitchNumber).1 c }).envFM = M.envFM := by
        show (BT.InstrumentsManager.updateSSG ((BT.InstrumentsManager.updateSSG M c (fun s => { s with pitchEnabled := true })).cloneSSGPitch refSsg.pitchNumber).2 c (fun s => { s with pitchNumber := ((BT.InstrumentsManager.updateSSG M c (fun s => { s with pitchEnabled := true })).cloneSSGPitch refSsg.pitchNumber).1 })).envFM = M.envFM
        rw [updateSSG_envFM ((BT.InstrumentsManager.updateSSG M c (fun s => { s with pitchEnabled := true })).cloneSSGPitch refSsg.pitchNumber).2 c (fun s => { s with pitchNumber := ((BT.InstrumentsManager.updateSSG M c (fun s => { s with pitchEnabled := true })).cloneSSGPitch refSsg.pitchNumber).1 })]
        rw [show ((BT.InstrumentsManager.updateSSG M c (fun s => { s with pitchEnabled := true })).cloneSSGPitch refSsg.pitchNumber).2.envFM = (BT.InstrumentsManager.updateSSG M c (fun s => { s with pitchEnabled := true })).envFM from rfl]
        rw [updateSSG_envFM M c (fun s => { s with pitchEnabled := true })]
      rw [hFq, hfin_i]
      exact poolSync_update_irrelevant (fun s => by rw [hf]; rfl) inv.envFM
    · have hFq : ({ (BT.InstrumentsManager.updateSSG ((BT.InstrumentsManager.updateSSG M c (fun s => { s with pitchEnabled := true })).cloneSSGPitch refSsg.pitchNumber).2 c (fun s => { s with pitchNumber := ((BT.InstrumentsManager.updateSSG M c (fun s => { s with pitchEnabled := true })).cloneSSGPitch refSsg.pitchNumber).1 })) with ptSSG := (BT.InstrumentsManager.updateSSG ((BT.InstrumentsManager.updateSSG M c (fun s => { s with pitchEnabled := true })).cloneSSGPitch refSsg.pitchNumber).2 c (fun s => { s with pitchNumber := ((BT.InstrumentsManager.updateSSG M c (fun s => { s with pitchEnabled := true })).cloneSSGPitch refSsg.pitchNumber).1 })).ptSSG.registerUser ((BT.InstrumentsManager.updateSSG M c (fun s => { s with pitchEnabled := true })).cloneSSGPitch refSsg.pitchNumber).1 c }).lfoFM = M.lfoFM := by
        show (BT.InstrumentsManager.updateSSG ((BT.InstrumentsManager.updateSSG M c (fun s => { s with pitchEnabled := true })).cloneSSGPitch refSsg.pitchNumber).2 c (fun s => { s with pitchNumber := ((BT.InstrumentsManager.updateSSG M c (fun s => { s with pitchEnabled := true })).cloneSSGPitch refSsg.pitchNumber).1 })).lfoFM = M.lfoFM
        rw [updateSSG_lfoFM ((BT.InstrumentsManager.updateSSG M c (fun s => { s with pitchEnabled := true })).cloneSSGPitch refSsg.pitchNumber).2 c (fun s => { s with pitchNumber := ((BT.InstrumentsManager.updateSSG M c (fun s => { s with pitchEnabled := true })).cloneSSGPitch refSsg.pitchNumber).1 })]
        rw [show ((BT.InstrumentsManager.updateSSG M c (fun s => { s with pitchEnabled := true })).cloneSSGPitch refSsg.pitchNumber).2.lfoFM = (BT.InstrumentsManager.updateSSG M c (fun s => { s with pitchEnabled := true })).lfoFM from rfl]
        rw [updateSSG_lfoFM M c (fun s => { s with pitchEnabled := true })]
      rw [hFq, hfin_i]
      exact poolSync_update_irrelevant (fun s => by rw [hf]; rfl) inv.lfoFM
    · intro p hp
      have hFq : ({ (BT.InstrumentsManager.updateSSG ((BT.InstrumentsManager.updateSSG M c (fun s => { s with pitchEnabled := true })).cloneSSGPitch refSsg.pitchNumber).2 c (fun s => { s with pitchNumber := ((BT.InstrumentsManager.updateSSG M c (fun s => { s with pitchEnabled := true })).cloneSSGPitch refSsg.pitchNumber).1 })) with ptSSG := (BT.InstrumentsManager.updateSSG ((BT.InstrumentsManager.updateSSG M c (fun s => { s with pitchEnabled := true })).cloneSSGPitch refSsg.pitchNumber).2 c (fun s => { s with pitchNumber := ((BT.InstrumentsManager.updateSSG M c (fun s => { s with pitchEnabled := true })).cloneSSGPitch refSsg.pitchNumber).1 })).ptSSG.registerUser ((BT.InstrumentsManager.updateSSG M c (fun s => { s with pitchEnabled := true })).cloneSSGPitch refSsg.pitchNumber).1 c }).opSeqFM = M.opSeqFM := by
        show (BT.InstrumentsManager.updateSSG ((BT.InstrumentsManager.updateSSG M c (fun s => { s with pitchEnabled := true })).cloneSSGPitch refSsg.pitchNumber).2 c (fun s => { s with pitchNumber := ((BT.InstrumentsManager.updateSSG M c (fun s => { s with pitchEnabled := true })).cloneSSGPitch refSsg.pitchNumber).1 })).opSeqFM = M.opSeqFM
        rw [updateSSG_opSeqFM ((BT.InstrumentsManager.updateSSG M c (fun s => { s with pitchEnabled := true })).cloneSSGPitch refSsg.pitchNumber).2 c (fun s => { s with pitchNumber := ((BT.InstrumentsManager.updateSSG M c (fun s => { s with pitchEnabled := true })).cloneSSGPitch refSsg.pitchNumber).1 })]
        rw [show ((BT.InstrumentsManager.updateSSG M c (fun s => { s with pitchEnabled := true })).cloneSSGPitch refSsg.pitchNumber).2.opSeqFM = (BT.InstrumentsManager.updateSSG M c (fun s => { s with pitchEnabled := true })).opSeqFM from rfl]
        rw [updateSSG_opSeqFM M c (fun s => { s with pitchEnabled := true })]
      rw [hFq, hfin_i]
      exact poolSync_update_irrelevant (fun s => by rw [hf]; rfl) (inv.opSeqFM p hp)
    · have hFq : ({ (BT.InstrumentsManager.updateSSG ((BT.InstrumentsManager.updateSSG M c (fun s => { s with pitchEnabled := true })).cloneSSGPitch refSsg.pitchNumber).2 c (fun s => { s with pitchNumber := ((BT.InstrumentsManager.updateSSG M c (fun s => { s with pitchEnabled := true })).cloneSSGPitch refSsg.pitchNumber).1 })) with ptSSG := (BT.InstrumentsManager.updateSSG ((BT.InstrumentsManager.updateSSG M c (fun s => { s with pitchEnabled := true })).cloneSSGPitch refSsg.pitchNumber).2 c (fun s => { s with pitchNumber := ((BT.InstrumentsManager.updateSSG M c (fun s => { s with pitchEnabled := true })).cloneSSGPitch refSsg.pitchNumber).1 })).ptSSG.registerUser ((BT.InstrumentsManager.updateSSG M c (fun s => { s with pitchEnabled := true })).cloneSSGPitch refSsg.pitchNumber).1 c }).arpFM = M.arpFM := by
        show (BT.InstrumentsManager.updateSSG ((BT.InstrumentsManager.updateSSG M c (fun s => { s with pitchEnabled := true })).cloneSSGPitch refSsg.pitchNumber).2 c (fun s => { s with pitchNumber := ((BT.InstrumentsManager.updateSSG M c (fun s => { s with pitchEnabled := true })).cloneSSGPitch refSsg.pitchNumber).1 })).arpFM = M.arpFM
        rw [updateSSG_arpFM ((BT.InstrumentsManager.updateSSG M c (fun s => { s with pitchEnabled := true })).cloneSSGPitch refSsg.pitchNumber).2 c (fun s => { s with pitchNumber := ((BT.InstrumentsManager.updateSSG M c (fun s => { s with pitchEnabled := true })).cloneSSGPitch refSsg.pitchNumber).1 })]
        rw [show ((BT.InstrumentsManager.updateSSG M c (fun s => { s with pitchEnabled := true })).cloneSSGPitch refSsg.pitchNumber).2.arpFM = (BT.InstrumentsManager.updateSSG M c (fun s => { s with pitchEnabled := true })).arpFM from rfl]
        rw [updateSSG_arpFM M c (fun s => { s with pitchEnabled := true })]
      rw [hFq, hfin_i]
      exact poolSync_update_irrelevant (fun s => by rw [hf]; rfl) inv.arpFM
    · have hFq : ({ (BT.InstrumentsManager.updateSSG ((BT.InstrumentsManager.updateSSG M c (fun s => { s with pitchEnabled := true })).cloneSSGPitch refSsg.pitchNumber).2 c (fun s => { s with pitchNumber := ((BT.InstrumentsManager.updateSSG M c (fun s => { s with pitchEnabled := true })).cloneSSGPitch refSsg.pitchNumber).1 })) with ptSSG := (BT.InstrumentsManager.updateSSG ((BT.InstrumentsManager.updateSSG M c (fun s => { s with pitchEnabled := true })).cloneSSGPitch refSsg.pitchNumber).2 c (fun s => { s with pitchNumber := ((BT.InstrumentsManager.updateSSG M c (fun s => { s with pitchEnabled := true })).cloneSSGPitch refSsg.pitchNumber).1 })).ptSSG.registerUser ((BT.InstrumentsManager.updateSSG M c (fun s => { s with pitchEnabled := true })).cloneSSGPitch refSsg.pitchNumber).1 c }).ptFM = M.ptFM := by
        show (BT.InstrumentsManager.updateSSG ((BT.InstrumentsManager.updateSSG M c (fun s => { s with pitchEnabled := true })).cloneSSGPitch refSsg.pitchNumber).2 c (fun s => { s with pitchNumber := ((BT.InstrumentsManager.updateSSG M c (fun s => { s with pitchEnabled := true })).cloneSSGPitch refSsg.pitchNumber).1 })).ptFM = M.ptFM
        rw [updateSSG_ptFM ((BT.InstrumentsManager.updateSSG M c (fun s => { s with pitchEnabled := true })).cloneSSGPitch refSsg.pitchNumber).2 c (fun s => { s with pitchNumber := ((BT.InstrumentsManager.updateSSG M c (fun s => { s with pitchEnabled := true })).cloneSSGPitch refSsg.pitchNumber).1 })]
        rw [show ((BT.InstrumentsManager.updateSSG M c (fun s => { s with pitchEnabled := true })).cloneSSGPitch refSsg.pitchNumber).2.ptFM = (BT.InstrumentsManager.updateSSG M c (fun s => { s with pitchEnabled := true })).ptFM from rfl]
        rw [updateSSG_ptFM M c (fun s => { s with pitchEnabled := true })]
      rw [hFq, hfin_i]
      exact poolSync_update_irrelevant (fun s => by rw [hf]; rfl) inv.ptFM
    · have hFq : ({ (BT.InstrumentsManager.updateSSG ((BT.InstrumentsManager.updateSSG M c (fun s => { s with pitchEnabled := true })).cloneSSGPitch refSsg.pitchNumber).2 c (fun s => { s with pitchNumber := ((BT.InstrumentsManager.updateSSG M c (fun s => { s with pitchEnabled := true })).cloneSSGPitch refSsg.pitchNumber).1 })) with ptSSG := (BT.InstrumentsManager.updateSSG ((BT.InstrumentsManager.updateSSG M c (fun s => { s with pitchEnabled := true })).cloneSSGPitch refSsg.pitchNumber).2 c (fun s => { s with pitchNumber := ((BT.InstrumentsManager.updateSSG M c (fun s => { s with pitchEnabled := true })).cloneSSGPitch refSsg.pitchNumber).1 })).ptSSG.registerUser ((BT.InstrumentsManager.updateSSG M c (fun s => { s with pitchEnabled := true })).cloneSSGPitch refSsg.pitchNumber).1 c }).wfSSG = M.wfSSG := by
        show (BT.InstrumentsManager.updateSSG ((BT.InstrumentsManager.updateSSG M c (fun s => { s with pitchEnabled := true })).cloneSSGPitch refSsg.pitchNumber).2 c (fun s => { s with pitchNumber := ((BT.InstrumentsManager.updateSSG M c (fun s => { s with pitchEnabled := true })).cloneSSGPitch refSsg.pitchNumber).1 })).wfSSG = M.wfSSG
        rw [updateSSG_wfSSG ((BT.InstrumentsManager.updateSSG M c (fun s => { s with pitchEnabled := true })).cloneSSGPitch refSsg.pitchNumber).2 c (fun s => { s with pitchNumber := ((BT.InstrumentsManager.updateSSG M c (fun s => { s with pitchEnabled := true })).cloneSSGPitch refSsg.pitchNumber).1 })]
        rw [show ((BT.InstrumentsManager.updateSSG M c (fun s => { s with pitchEnabled := true })).cloneSSGPitch refSsg.pitchNumber).2.wfSSG = (BT.InstrumentsManager.updateSSG M c (fun s => { s with pitchEnabled := true })).wfSSG from rfl]
        rw [updateSSG_wfSSG M c (fun s => { s with pitchEnabled := true })]
      rw [hFq, hfin_i]
      exact poolSync_update_irrelevant (fun s => by rw [hf]; rfl) inv.wfSSG
    · have hFq : ({ (BT.InstrumentsManager.updateSSG ((BT.InstrumentsManager.updateSSG M c (fun s => { s with pitchEnabled := true })).cloneSSGPitch refSsg.pitchNumber).2 c (fun s => { s with pitchNumber := ((BT.InstrumentsManager.updateSSG M c (fun s => { s with pitchEnabled := true })).cloneSSGPitch refSsg.pitchNumber).1 })) with ptSSG := (BT.InstrumentsManager.updateSSG ((BT.InstrumentsManager.updateSSG M c (fun s => { s with pitchEnabled := true })).cloneSSGPitch refSsg.pitchNumber).2 c (fun s => { s with pitchNumber := ((BT.InstrumentsManager.updateSSG M c (fun s => { s with pitchEnabled := true })).cloneSSGPitch refSsg.pitchNumber).1 })).ptSSG.registerUser ((BT.InstrumentsManager.updateSSG M c (fun s => { s with pitchEnabled := true })).cloneSSGPitch refSsg.pitchNumber).1 c }).tnSSG = M.tnSSG := by
        show (BT.InstrumentsManager.updateSSG ((BT.InstrumentsManager.updateSSG M c (fun s => { s with pitchEnabled := true })).cloneSSGPitch refSsg.pitchNumber).2 c (fun s => { s with pitchNumber := ((BT.InstrumentsManager.updateSSG M c (fun s => { s with pitchEnabled := true })).cloneSSGPitch refSsg.pitchNumber).1 })).tnSSG = M.tnSSG
        rw [updateSSG_tnSSG ((BT.InstrumentsManager.updateSSG M c (fun s => { s with pitchEnabled := true })).cloneSSGPitch refSsg.pitchNumber).2 c (fun s => { s with pitchNumber := ((BT.InstrumentsManager.updateSSG M c (fun s => { s with pitchEnabled := true })).cloneSSGPitch refSsg.pitchNumber).1 })]
        rw [show ((BT.InstrumentsManager.updateSSG M c (fun s => { s with pitchEnabled := true })).cloneSSGPitch refSsg.pitchNumber).2.tnSSG = (BT.InstrumentsManager.updateSSG M c (fun s => { s with pitchEnabled := true })).tnSSG from rfl]
        rw [updateSSG_tnSSG M c (fun s => { s with pitchEnabled := true })]
      rw [hFq, hfin_i]
      exact poolSync_update_irrelevant (fun s => by rw [hf]; rfl) inv.tnSSG
    · have hFq : ({ (BT.InstrumentsManager.updateSSG ((BT.InstrumentsManager.updateSSG M c (fun s => { s with pitchEnabled := true })).cloneSSGPitch refSsg.pitchNumber).2 c (fun s => { s with pitchNumber := ((BT.InstrumentsManager.updateSSG M c (fun s => { s with pitchEnabled := true })).cloneSSGPitch refSsg.pitchNumber).1 })) with ptSSG := (BT.InstrumentsManager.updateSSG ((BT.InstrumentsManager.updateSSG M c (fun s => { s with pitchEnabled := true })).cloneSSGPitch refSsg.pitchNumber).2 c (fun s => { s with pitchNumber := ((BT.InstrumentsManager.updateSSG M c (fun s => { s with pitchEnabled := true })).cloneSSGPitch refSsg.pitchNumber).1 })).ptSSG.registerUser ((BT.InstrumentsManager.updateSSG M c (fun s => { s with pitchEnabled := true })).cloneSSGPitch refSsg.pitchNumber).1 c }).envSSG = M.envSSG := by
        show (BT.InstrumentsManager.updateSSG ((BT.InstrumentsManager.updateSSG M c (fun s => { s with pitchEnabled := true })).cloneSSGPitch refSsg.pitchNumber).2 c (fun s => { s with pitchNumber := ((BT.InstrumentsManager.updateSSG M c (fun s => { s with pitchEnabled := true })).cloneSSGPitch refSsg.pitchNumber).1 })).envSSG = M.envSSG
        rw [updateSSG_envSSG ((BT.InstrumentsManager.updateSSG M c (fun s => { s with pitchEnabled := true })).cloneSSGPitch refSsg.pitchNumber).2 c (fun s => { s with pitchNumber := ((BT.InstrumentsManager.updateSSG M c (fun s => { s with pitchEnabled := true })).cloneSSGPitch refSsg.pitchNumber).1 })]
        rw [show ((BT.InstrumentsManager.updateSSG M c (fun s => { s with pitchEnabled := true })).cloneSSGPitch refSsg.pitchNumber).2.envSSG = (BT.InstrumentsManager.updateSSG M c (fun s => { s with pitchEnabled := true })).envSSG from rfl]
        rw [updateSSG_envSSG M c (fun s => { s with pitchEnabled := true })]
      rw [hFq, hfin_i]
      exact poolSync_update_irrelevant (fun s => by rw [hf]; rfl) inv.envSSG
    · have hFq : ({ (BT.InstrumentsManager.updateSSG ((BT.InstrumentsManager.updateSSG M c (fun s => { s with pitchEnabled := true })).cloneSSGPitch refSsg.pitchNumber).2 c (fun s => { s with pitchNumber := ((BT.InstrumentsManager.updateSSG M c (fun s => { s with pitchEnabled := true })).cloneSSGPitch refSsg.pitchNumber).1 })) with ptSSG := (BT.InstrumentsManager.updateSSG ((BT.InstrumentsManager.updateSSG M c (fun s => { s with pitchEnabled := true })).cloneSSGPitch refSsg.pitchNumber).2 c (fun s => { s with pitchNumber := ((BT.InstrumentsManager.updateSSG M c (fun s => { s with pitchEnabled := true })).cloneSSGPitch refSsg.pitchNumber).1 })).ptSSG.registerUser ((BT.InstrumentsManager.updateSSG M c (fun s => { s with pitchEnabled := true })).cloneSSGPitch refSsg.pitchNumber).1 c }).arpSSG = M.arpSSG := by
        show (BT.InstrumentsManager.updateSSG ((BT.InstrumentsManager.updateSSG M c (fun s => { s with pitchEnabled := true })).cloneSSGPitch refSsg.pitchNumber).2 c (fun s => { s with pitchNumber := ((BT.InstrumentsManager.updateSSG M c (fun s => { s with pitchEnabled := true })).cloneSSGPitch refSsg.pitchNumber).1 })).arpSSG = M.arpSSG
        rw [updateSSG_arpSSG ((BT.InstrumentsManager.updateSSG M c (fun s => { s with pitchEnabled := true })).cloneSSGPitch refSsg.pitchNumber).2 c (fun s => { s with pitchNumber := ((BT.InstrumentsManager.updateSSG M c (fun s => { s with pitchEnabled := true })).cloneSSGPitch refSsg.pitchNumber).1 })]
        rw [show ((BT.InstrumentsManager.updateSSG M c (fun s => { s with pitchEnabled := true })).cloneSSGPitch refSsg.pitchNumber).2.arpSSG = (BT.InstrumentsManager.updateSSG M c (fun s => { s with pitchEnabled := true })).arpSSG from rfl]
        rw [updateSSG_arpSSG M c (fun s => { s with pitchEnabled := true })]
      rw [hFq, hfin_i]
      exact poolSync_update_irrelevant (fun s => by rw [hf]; rfl) inv.arpSSG
    · rw [hfin_i]
      exact poolSync_overwrite_register hc hf hold husers inv.ptSSG
    · have hFq : ({ (BT.InstrumentsManager.updateSSG ((BT.InstrumentsManager.updateSSG M c (fun s => { s with pitchEnabled := true })).cloneSSGPitch refSsg.pitchNumber).2 c (fun s => { s with pitchNumber := ((BT.InstrumentsManager.updateSSG M c (fun s => { s with pitchEnabled := true })).cloneSSGPitch refSsg.pitchNumber).1 })) with ptSSG := (BT.InstrumentsManager.updateSSG ((BT.InstrumentsManager.updateSSG M c (fun s => { s with pitchEnabled := true })).cloneSSGPitch refSsg.pitchNumber).2 c (fun s => { s with pitchNumber := ((BT.InstrumentsManager.updateSSG M c (fun s => { s with pitchEnabled := true })).cloneSSGPitch refSsg.pitchNumber).1 })).ptSSG.registerUser ((BT.InstrumentsManager.updateSSG M c (fun s => { s with pitchEnabled := true })).cloneSSGPitch refSsg.pitchNumber).1 c }).wfADPCM = M.wfADPCM := by
        show (BT.InstrumentsManager.updateSSG ((BT.InstrumentsManager.updateSSG M c (fun s => { s with pitchEnabled := true })).cloneSSGPitch refSsg.pitchNumber).2 c (fun s => { s with pitchNumber := ((BT.InstrumentsManager.updateSSG M c (fun s => { s with pitchEnabled := true })).cloneSSGPitch refSsg.pitchNumber).1 })).wfADPCM = M.wfADPCM
        rw [updateSSG_wfADPCM ((BT.InstrumentsManager.updateSSG M c (fun s => { s with pitchEnabled := true })).cloneSSGPitch refSsg.pitchNumber).2 c (fun s => { s with pitchNumber := ((BT.InstrumentsManager.updateSSG M c (fun s => { s with pitchEnabled := true })).cloneSSGPitch refSsg.pitchNumber).1 })]
        rw [show ((BT.InstrumentsManager.updateSSG M c (fun s => { s with pitchEnabled := true })).cloneSSGPitch refSsg.pitchNumber).2.wfADPCM = (BT.InstrumentsManager.updateSSG M c (fun s => { s with pitchEnabled := true })).wfADPCM from rfl]
        rw [updateSSG_wfADPCM M c (fun s => { s with pitchEnabled := true })]
      rw [hFq, hfin_i]
      exact poolSync_update_irrelevant (fun s => by rw [hf]; rfl) inv.wfADPCM
    · have hFq : ({ (BT.InstrumentsManager.updateSSG ((BT.InstrumentsManager.updateSSG M c (fun s => { s with pitchEnabled := true })).cloneSSGPitch refSsg.pitchNumber).2 c (fun s => { s with pitchNumber := ((BT.InstrumentsManager.updateSSG M c (fun s => { s with pitchEnabled := true })).cloneSSGPitch refSsg.pitchNumber).1 })) with ptSSG := (BT.InstrumentsManager.updateSSG ((BT.InstrumentsManager.updateSSG M c (fun s => { s with pitchEnabled := true })).cloneSSGPitch refSsg.pitchNumber).2 c (fun s => { s with pitchNumber := ((BT.InstrumentsManager.updateSSG M c (fun s => { s with pitchEnabled := true })).cloneSSGPitch refSsg.pitchNumber).1 })).ptSSG.registerUser ((BT.InstrumentsManager.updateSSG M c (fun s => { s with pitchEnabled := true })).cloneSSGPitch refSsg.pitchNumber).1 c }).envADPCM = M.envADPCM := by
        show (BT.InstrumentsManager.updateSSG ((BT.InstrumentsManager.updateSSG M c (fun s => { s with pitchEnabled := true })).cloneSSGPitch refSsg.pitchNumber).2 c (fun s => { s with pitchNumber := ((BT.InstrumentsManager.updateSSG M c (fun s => { s with pitchEnabled := true })).cloneSSGPitch refSsg.pitchNumber).1 })).envADPCM = M.envADPCM
        rw [updateSSG_envADPCM ((BT.InstrumentsManager.updateSSG M c (fun s => { s with pitchEnabled := true })).cloneSSGPitch refSsg.pitchNumber).2 c (fun s => { s with pitchNumber := ((BT.InstrumentsManager.updateSSG M c (fun s => { s with pitchEnabled := true })).cloneSSGPitch refSsg.pitchNumber).1 })]
        rw [show ((BT.InstrumentsManager.updateSSG M c (fun s => { s with pitchEnabled := true })).cloneSSGPitch refSsg.pitchNumber).2.envADPCM = (BT.InstrumentsManager.updateSSG M c (fun s => { s with pitchEnabled := true })).envADPCM from rfl]
        rw [updateSSG_envADPCM M c (fun s => { s with pitchEnabled := true })]
      rw [hFq, hfin_i]
      exact poolSync_update_irrelevant (fun s => by rw [hf]; rfl) inv.envADPCM
    · have hFq : ({ (BT.InstrumentsManager.updateSSG ((BT.InstrumentsManager.updateSSG M c (fun s => { s with pitchEnabled := true })).cloneSSGPitch refSsg.pitchNumber).2 c (fun s => { s with pitchNumber := ((BT.InstrumentsManager.updateSSG M c (fun s => { s with pitchEnabled := true })).cloneSSGPitch refSsg.pitchNumber).1 })) with ptSSG := (BT.InstrumentsManager.updateSSG ((BT.InstrumentsManager.updateSSG M c (fun s => { s with pitchEnabled := true })).cloneSSGPitch refSsg.pitchNumber).2 c (fun s => { s with pitchNumber := ((BT.InstrumentsManager.updateSSG M c (fun s => { s with pitchEnabled := true })).cloneSSGPitch refSsg.pitchNumber).1 })).ptSSG.registerUser ((BT.InstrumentsManager.updateSSG M c (fun s => { s with pitchEnabled := true })).cloneSSGPitch refSsg.pitchNumber).1 c }).arpADPCM = M.arpADPCM := by
        show (BT.InstrumentsManager.updateSSG ((BT.InstrumentsManager.updateSSG M c (fun s => { s with pitchEnabled := true })).cloneSSGPitch refSsg.pitchNumber).2 c (fun s => { s with pitchNumber := ((BT.InstrumentsManager.updateSSG M c (fun s => { s with pitchEnabled := true })).cloneSSGPitch refSsg.pitchNumber).1 })).arpADPCM = M.arpADPCM
        rw [updateSSG_arpADPCM ((BT.InstrumentsManager.updateSSG M c (fun s => { s with pitchEnabled := true })).cloneSSGPitch refSsg.pitchNumber).2 c (fun s => { s with pitchNumber := ((BT.InstrumentsManager.updateSSG M c (fun s => { s with pitchEnabled := true })).cloneSSGPitch refSsg.pitchNumber).1 })]
        rw [show ((BT.InstrumentsManager.updateSSG M c (fun s => { s with pitchEnabled := true })).cloneSSGPitch refSsg.pitchNumber).2.arpADPCM = (BT.InstrumentsManager.updateSSG M c (fun s => { s with pitchEnabled := true })).arpADPCM from rfl]
        rw [updateSSG_arpADPCM M c (fun s => { s with pitchEnabled := true })]
      rw [hFq, hfin_i]
      exact poolSync_update_irrelevant (fun s => by rw [hf]; rfl) inv.arpADPCM
    · have hFq : ({ (BT.InstrumentsManager.updateSSG ((BT.InstrumentsManager.updateSSG M c (fun s => { s with pitchEnabled := true })).cloneSSGPitch refSsg.pitchNumber).2 c (fun s => { s with pitchNumber := ((BT.InstrumentsManager.updateSSG M c (fun s => { s with pitchEnabled := true })).cloneSSGPitch refSsg.pitchNumber).1 })) with ptSSG := (BT.InstrumentsManager.updateSSG ((BT.InstrumentsManager.updateSSG M c (fun s => { s with pitchEnabled := true })).cloneSSGPitch refSsg.pitchNumber).2 c (fun s => { s with pitchNumber := ((BT.InstrumentsManager.updateSSG M c (fun s => { s with pitchEnabled := true })).cloneSSGPitch refSsg.pitchNumber).1 })).ptSSG.registerUser ((BT.InstrumentsManager.updateSSG M c (fun s => { s with pitchEnabled := true })).cloneSSGPitch refSsg.pitchNumber).1 c }).ptADPCM = M.ptADPCM := by
        show (BT.InstrumentsManager.updateSSG ((BT.InstrumentsManager.updateSSG M c (fun s => { s with pitchEnabled := true })).cloneSSGPitch refSsg.pitchNumber).2 c (fun s => { s with pitchNumber := ((BT.InstrumentsManager.updateSSG M c (fun s => { s with pitchEnabled := true })).cloneSSGPitch refSsg.pitchNumber).1 })).ptADPCM = M.ptADPCM
        rw [updateSSG_ptADPCM ((BT.InstrumentsManager.updateSSG M c (fun s => { s with pitchEnabled := true })).cloneSSGPitch refSsg.pitchNumber).2 c (fun s => { s with pitchNumber := ((BT.InstrumentsManager.updateSSG M c (fun s => { s with pitchEnabled := true })).cloneSSGPitch refSsg.pitchNumber).1 })]
        rw [show ((BT.InstrumentsManager.updateSSG M c (fun s => { s with pitchEnabled := true })).cloneSSGPitch refSsg.pitchNumber).2.ptADPCM = (BT.InstrumentsManager.updateSSG M c (fun s => { s with pitchEnabled := true })).ptADPCM from rfl]
        rw [updateSSG_ptADPCM M c (fun s => { s with pitchEnabled := true })]
      rw [hFq, hfin_i]
      exact poolSync_update_irrelevant (fun s => by rw [hf]; rfl) inv.ptADPCM
  · rw [if_neg hb]
    exact ⟨inv, f, hf, rfl, rfl, rfl, rfl⟩

set_option maxHeartbeats 2000000 in
/-- The envADPCM deep-clone block preserves the invariant: the prior flag is
disabled, so the freshly registered slot is the record's only reference. -/
theorem inv_dcBlock_envADPCM (M : BT.InstrumentsManager) (refAd : BT.InstrumentADPCM) (c : Nat)
    (hc : c < 128) (f : BT.InstrumentADPCM) (hf : M.insts c = some (.adpcm f))
    (hflag : f.envelopeEnabled = false) (inv : BT.Inv M) :
    BT.Inv (if refAd.envelopeEnabled then { (BT.InstrumentsManager.updateADPCM ((BT.InstrumentsManager.updateADPCM M c (fun a => { a with envelopeEnabled := true })).cloneADPCMEnvelope refAd.envelopeNumber).2 c (fun a => { a with envelopeNumber := ((BT.InstrumentsManager.updateADPCM M c (fun a => { a with envelopeEnabled := true })).cloneADPCMEnvelope refAd.envelopeNumber).1 })) with envADPCM := (BT.InstrumentsManager.updateADPCM ((BT.InstrumentsManager.updateADPCM M c (fun a => { a with envelopeEnabled := true })).cloneADPCMEnvelope refAd.envelopeNumber).2 c (fun a => { a with envelopeNumber := ((BT.InstrumentsManager.updateADPCM M c (fun a => { a with envelopeEnabled := true })).cloneADPCMEnvelope refAd.envelopeNumber).1 })).envADPCM.registerUser ((BT.InstrumentsManager.updateADPCM M c (fun a => { a with envelopeEnabled := true })).cloneADPCMEnvelope refAd.envelopeNumber).1 c } else M) ∧
    ∃ f', ((if refAd.envelopeEnabled then { (BT.InstrumentsManager.updateADPCM ((BT.InstrumentsManager.updateADPCM M c (fun a => { a with envelopeEnabled := true })).cloneADPCMEnvelope refAd.envelopeNumber).2 c (fun a => { a with envelopeNumber := ((BT.InstrumentsManager.updateADPCM M c (fun a => { a with envelopeEnabled := true })).cloneADPCMEnvelope refAd.envelopeNumber).1 })) with envADPCM := (BT.InstrumentsManager.updateADPCM ((BT.InstrumentsManager.updateADPCM M c (fun a => { a with envelopeEnabled := true })).cloneADPCMEnvelope refAd.envelopeNumber).2 c (fun a => { a with envelopeNumber := ((BT.InstrumentsManager.updateADPCM M c (fun a => { a with envelopeEnabled := true })).cloneADPCMEnvelope refAd.envelopeNumber).1 })).envADPCM.registerUser ((BT.InstrumentsManager.updateADPCM M c (fun a => { a with envelopeEnabled := true })).cloneADPCMEnvelope refAd.envelopeNumber).1 c } else M)).insts c = some (.adpcm f') ∧
      f'.arpeggioEnabled = f.arpeggioEnabled ∧
      f'.pitchEnabled = f.pitchEnabled := by
  by_cases hb : refAd.envelopeEnabled = true
  · rw [if_pos hb]
    have hma_i : (BT.InstrumentsManager.updateADPCM M c (fun a => { a with envelopeEnabled := true })).insts = Function.update M.insts c (some (.adpcm { f with envelopeEnabled := true })) :=
      updateADPCM_insts M c (fun a => { a with envelopeEnabled := true }) f hf
    have hma_c : (BT.InstrumentsManager.updateADPCM M c (fun a => { a with envelopeEnabled := true })).insts c = some (.adpcm { f with envelopeEnabled := true }) := by
      rw [hma_i]
      exact Function.update_same c _ M.insts
    have hrl_c : ((BT.InstrumentsManager.updateADPCM M c (fun a => { a with envelopeEnabled := true })).cloneADPCMEnvelope refAd.envelopeNumber).2.insts c = some (.adpcm { f with envelopeEnabled := true }) := hma_c
    have hmb_i : (BT.InstrumentsManager.updateADPCM ((BT.InstrumentsManager.updateADPCM M c (fun a => { a with envelopeEnabled := true })).cloneADPCMEnvelope refAd.envelopeNumber).2 c (fun a => { a with envelopeNumber := ((BT.InstrumentsManager.updateADPCM M c (fun a => { a with envelopeEnabled := true })).cloneADPCMEnvelope refAd.envelopeNumber).1 })).insts = Function.update ((BT.InstrumentsManager.updateADPCM M c (fun a => { a with envelopeEnabled := true })).cloneADPCMEnvelope refAd.envelopeNumber).2.insts c
        (some (.adpcm { { f with envelopeEnabled := true } with envelopeNumber := ((BT.InstrumentsManager.updateADPCM M c (fun a => { a with envelopeEnabled := true })).cloneADPCMEnvelope refAd.envelopeNumber).1 })) :=
      updateADPCM_insts ((BT.InstrumentsManager.updateADPCM M c (fun a => { a with envelopeEnabled := true })).cloneADPCMEnvelope refAd.envelopeNumber).2 c (fun a => { a with envelopeNumber := ((BT.InstrumentsManager.updateADPCM M c (fun a => { a with envelopeEnabled := true })).cloneADPCMEnvelope refAd.envelopeNumber).1 }) { f with envelopeEnabled := true } hrl_c
    have hfin_i : ({ (BT.InstrumentsManager.updateADPCM ((BT.InstrumentsManager.updateADPCM M c (fun a => { a with envelopeEnabled := true })).cloneADPCMEnvelope refAd.envelopeNumber).2 c (fun a => { a with envelopeNumber := ((BT.InstrumentsManager.updateADPCM M c (fun a => { a with envelopeEnabled := true })).cloneADPCMEnvelope refAd.envelopeNumber).1 })) with envADPCM := (BT.InstrumentsManager.updateADPCM ((BT.InstrumentsManager.updateADPCM M c (fun a => { a with envelopeEnabled := true })).cloneADPCMEnvelope refAd.envelopeNumber).2 c (fun a => { a with envelopeNumber := ((BT.InstrumentsManager.updateADPCM M c (fun a => { a with envelopeEnabled := true })).cloneADPCMEnvelope refAd.envelopeNumber).1 })).envADPCM.registerUser ((BT.InstrumentsManager.updateADPCM M c (fun a => { a with envelopeEnabled := true })).cloneADPCMEnvelope refAd.envelopeNumber).1 c }).insts = Function.update M.insts c (some (.adpcm { f with envelopeEnabled := true, envelopeNumber := ((BT.InstrumentsManager.updateADPCM M c (fun a => { a with envelopeEnabled := true })).cloneADPCMEnvelope refAd.envelopeNumber).1 })) := by
      show (BT.InstrumentsManager.updateADPCM ((BT.InstrumentsManager.updateADPCM M c (fun a => { a with envelopeEnabled := true })).cloneADPCMEnvelope refAd.envelopeNumber).2 c (fun a => { a with envelopeNumber := ((BT.InstrumentsManager.updateADPCM M c (fun a => { a with envelopeEnabled := true })).cloneADPCMEnvelope refAd.envelopeNumber).1 })).insts = _
      rw [hmb_i]
      show Function.update (BT.InstrumentsManager.updateADPCM M c (fun a => { a with envelopeEnabled := true })).insts c (some (.adpcm { f with envelopeEnabled := true, envelopeNumber := ((BT.InstrumentsManager.updateADPCM M c (fun a => { a with envelopeEnabled := true })).cloneADPCMEnvelope refAd.envelopeNumber).1 })) = _
      rw [hma_i, Function.update_idem]
    have hfin_pool : ({ (BT.InstrumentsManager.updateADPCM ((BT.InstrumentsManager.updateADPCM M c (fun a => { a with envelopeEnabled := true })).cloneADPCMEnvelope refAd.envelopeNumber).2 c (fun a => { a with envelopeNumber := ((BT.InstrumentsManager.updateADPCM M c (fun a => { a with envelopeEnabled := true })).cloneADPCMEnvelope refAd.envelopeNumber).1 })) with envADPCM := (BT.InstrumentsManager.updateADPCM ((BT.InstrumentsManager.updateADPCM M c (fun a => { a with envelopeEnabled := true })).cloneADPCMEnvelope refAd.envelopeNumber).2 c (fun a => { a with envelopeNumber := ((BT.InstrumentsManager.updateADPCM M c (fun a => { a with envelopeEnabled := true })).cloneADPCMEnvelope refAd.envelopeNumber).1 })).envADPCM.registerUser ((BT.InstrumentsManager.updateADPCM M c (fun a => { a with envelopeEnabled := true })).cloneADPCMEnvelope refAd.envelopeNumber).1 c }).envADPCM =
        (((BT.InstrumentsManager.updateADPCM M c (fun a => { a with envelopeEnabled := true })).envADPCM.cloneProp refAd.envelopeNumber).2).registerUser ((BT.InstrumentsManager.updateADPCM M c (fun a => { a with envelopeEnabled := true })).cloneADPCMEnvelope refAd.envelopeNumber).1 c := by
      show (BT.InstrumentsManager.updateADPCM ((BT.InstrumentsManager.updateADPCM M c (fun a => { a with envelopeEnabled := true })).cloneADPCMEnvelope refAd.envelopeNumber).2 c (fun a => { a with envelopeNumber := ((BT.InstrumentsManager.updateADPCM M c (fun a => { a with envelopeEnabled := true })).cloneADPCMEnvelope refAd.envelopeNumber).1 })).envADPCM.registerUser ((BT.InstrumentsManager.updateADPCM M c (fun a => { a with envelopeEnabled := true })).cloneADPCMEnvelope refAd.envelopeNumber).1 c = _
      rw [updateADPCM_envADPCM ((BT.InstrumentsManager.updateADPCM M c (fun a => { a with envelopeEnabled := true })).cloneADPCMEnvelope refAd.envelopeNumber).2 c (fun a => { a with envelopeNumber := ((BT.InstrumentsManager.updateADPCM M c (fun a => { a with envelopeEnabled := true })).cloneADPCMEnvelope refAd.envelopeNumber).1 })]
      rfl
    have hold : ∀ s, BT.adpcmEnvPoints (.adpcm f) s = false := by
      intro s
      show (f.envelopeEnabled && (f.envelopeNumber == s)) = false
      rw [hflag]
      rfl
    have husers : ∀ s, s < 128 → (({ (BT.InstrumentsManager.updateADPCM ((BT.InstrumentsManager.updateADPCM M c (fun a => { a with envelopeEnabled := true })).cloneADPCMEnvelope refAd.envelopeNumber).2 c (fun a => { a with envelopeNumber := ((BT.InstrumentsManager.updateADPCM M c (fun a => { a with envelopeEnabled := true })).cloneADPCMEnvelope refAd.envelopeNumber).1 })) with envADPCM := (BT.InstrumentsManager.updateADPCM ((BT.InstrumentsManager.updateADPCM M c (fun a => { a with envelopeEnabled := true })).cloneADPCMEnvelope refAd.envelopeNumber).2 c (fun a => { a with envelopeNumber := ((BT.InstrumentsManager.updateADPCM M c (fun a => { a with envelopeEnabled := true })).cloneADPCMEnvelope refAd.envelopeNumber).1 })).envADPCM.registerUser ((BT.InstrumentsManager.updateADPCM M c (fun a => { a with envelopeEnabled := true })).cloneADPCMEnvelope refAd.envelopeNumber).1 c }).envADPCM s).users =
        if BT.adpcmEnvPoints (.adpcm { f with envelopeEnabled := true, envelopeNumber := ((BT.InstrumentsManager.updateADPCM M c (fun a => { a with envelopeEnabled := true })).cloneADPCMEnvelope refAd.envelopeNumber).1 }) s = true
        then insert c ((M.envADPCM s).users) else (M.envADPCM s).users := by
      intro s hs
      rw [hfin_pool, users_registerUser, users_cloneProp, users_cloneProp]
      rw [updateADPCM_envADPCM M c (fun a => { a with envelopeEnabled := true })]
      by_cases hp : BT.adpcmEnvPoints (.adpcm { f with envelopeEnabled := true, envelopeNumber := ((BT.InstrumentsManager.updateADPCM M c (fun a => { a with envelopeEnabled := true })).cloneADPCMEnvelope refAd.envelopeNumber).1 }) s = true
      · rw [if_pos hp]
        have h2 : (true && (((BT.InstrumentsManager.updateADPCM M c (fun a => { a with envelopeEnabled := true })).cloneADPCMEnvelope refAd.envelopeNumber).1 == s)) = true := hp
        rw [Bool.true_and, beq_iff_eq] at h2
        rw [if_pos h2.symm, h2]
      · rw [if_neg hp]
        have hsne : ¬ s = ((BT.InstrumentsManager.updateADPCM M c (fun a => { a with envelopeEnabled := true })).cloneADPCMEnvelope refAd.envelopeNumber).1 := by
          intro hseq
          apply hp
          show (true && (((BT.InstrumentsManager.updateADPCM M c (fun a => { a with envelopeEnabled := true })).cloneADPCMEnvelope refAd.envelopeNumber).1 == s)) = true
          rw [hseq]
          simp
        rw [if_neg hsne]
    refine ⟨⟨?_, ?_, ?_, ?_, ?_, ?_, ?_, ?_, ?_, ?_, ?_, ?_, ?_, ?_⟩,
      { f with envelopeEnabled := true, envelopeNumber := ((BT.InstrumentsManager.updateADPCM M c (fun a => { a with envelopeEnabled := true })).cloneADPCMEnvelope refAd.envelopeNumber).1 }, by
        rw [hfin_i]
        exact Function.update_same c _ M.insts, rfl, rfl⟩
    · have hFq : ({ (BT.InstrumentsManager.updateADPCM ((BT.InstrumentsManager.updateADPCM M c (fun a => { a with envelopeEnabled := true })).cloneADPCMEnvelope refAd.envelopeNumber).2 c (fun a => { a with envelopeNumber := ((BT.InstrumentsManager.updateADPCM M c (fun a => { a with envelopeEnabled := true })).cloneADPCMEnvelope refAd.envelopeNumber).1 })) with envADPCM := (BT.InstrumentsManager.updateADPCM ((BT.InstrumentsManager.updateADPCM M c (fun a => { a with envelopeEnabled := true })).cloneADPCMEnvelope refAd.envelopeNumber).2 c (fun a => { a with envelopeNumber := ((BT.InstrumentsManager.updateADPCM M c (fun a => { a with envelopeEnabled := true })).cloneADPCMEnvelope refAd.envelopeNumber).1 })).envADPCM.registerUser ((BT.InstrumentsManager.updateADPCM M c (fun a => { a with envelopeEnabled := true })).cloneADPCMEnvelope refAd.envelopeNumber).1 c }).envFM = M.envFM := by
        show (BT.InstrumentsManager.updateADPCM ((BT.InstrumentsManager.updateADPCM M c (fun a => { a with envelopeEnabled := true })).cloneADPCMEnvelope refAd.envelopeNumber).2 c (fun a => { a with envelopeNumber := ((BT.InstrumentsManager.updateADPCM M c (fun a => { a with envelopeEnabled := true })).cloneADPCMEnvelope refAd.envelopeNumber).1 })).envFM = M.envFM
        rw [updateADPCM_envFM ((BT.InstrumentsManager.updateADPCM M c (fun a => { a with envelopeEnabled := true })).cloneADPCMEnvelope refAd.envelopeNumber).2 c (fun a => { a with envelopeNumber := ((BT.InstrumentsManager.updateADPCM M c (fun a => { a with envelopeEnabled := true })).cloneADPCMEnvelope refAd.envelopeNumber).1 })]
        rw [show ((BT.InstrumentsManager.updateADPCM M c (fun a => { a with envelopeEnabled := true })).cloneADPCMEnvelope refAd.envelopeNumber).2.envFM = (BT.InstrumentsManager.updateADPCM M c (fun a => { a with envelopeEnabled := true })).envFM from rfl]
        rw [updateADPCM_envFM M c (fun a => { a with envelopeEnabled := true })]
      rw [hFq, hfin_i]
      exact poolSync_update_irrelevant (fun s => by rw [hf]; rfl) inv.envFM
    · have hFq : ({ (BT.InstrumentsManager.updateADPCM ((BT.InstrumentsManager.updateADPCM M c (fun a => { a with envelopeEnabled := true })).cloneADPCMEnvelope refAd.envelopeNumber).2 c (fun a => { a with envelopeNumber := ((BT.InstrumentsManager.updateADPCM M c (fun a => { a with envelopeEnabled := true })).cloneADPCMEnvelope refAd.envelopeNumber).1 })) with envADPCM := (BT.InstrumentsManager.updateADPCM ((BT.InstrumentsManager.updateADPCM M c (fun a => { a with envelopeEnabled := true })).cloneADPCMEnvelope refAd.envelopeNumber).2 c (fun a => { a with envelopeNumber := ((BT.InstrumentsManager.updateADPCM M c (fun a => { a with envelopeEnabled := true })).cloneADPCMEnvelope refAd.envelopeNumber).1 })).envADPCM.registerUser ((BT.InstrumentsManager.updateADPCM M c (fun a => { a with envelopeEnabled := true })).cloneADPCMEnvelope refAd.envelopeNumber).1 c }).lfoFM = M.lfoFM := by
        show (BT.InstrumentsManager.updateADPCM ((BT.InstrumentsManager.updateADPCM M c (fun a => { a with envelopeEnabled := true })).cloneADPCMEnvelope refAd.envelopeNumber).2 c (fun a => { a with envelopeNumber := ((BT.InstrumentsManager.updateADPCM M c (fun a => { a with envelopeEnabled := true })).cloneADPCMEnvelope refAd.envelopeNumber).1 })).lfoFM = M.lfoFM
        rw [updateADPCM_lfoFM ((BT.InstrumentsManager.updateADPCM M c (fun a => { a with envelopeEnabled := true })).cloneADPCMEnvelope refAd.envelopeNumber).2 c (fun a => { a with envelopeNumber := ((BT.InstrumentsManager.updateADPCM M c (fun a => { a with envelopeEnabled := true })).cloneADPCMEnvelope refAd.envelopeNumber).1 })]
        rw [show ((BT.InstrumentsManager.updateADPCM M c (fun a => { a with envelopeEnabled := true })).cloneADPCMEnvelope refAd.envelopeNumber).2.lfoFM = (BT.InstrumentsManager.updateADPCM M c (fun a => { a with envelopeEnabled := true })).lfoFM from rfl]
        rw [updateADPCM_lfoFM M c (fun a => { a with envelopeEnabled := true })]
      rw [hFq, hfin_i]
      exact poolSync_update_irrelevant (fun s => by rw [hf]; rfl) inv.lfoFM
    · intro p hp
      have hFq : ({ (BT.InstrumentsManager.updateADPCM ((BT.InstrumentsManager.updateADPCM M c (fun a => { a with envelopeEnabled := true })).cloneADPCMEnvelope refAd.envelopeNumber).2 c (fun a => { a with envelopeNumber := ((BT.InstrumentsManager.updateADPCM M c (fun a => { a with envelopeEnabled := true })).cloneADPCMEnvelope refAd.envelopeNumber).1 })) with envADPCM := (BT.InstrumentsManager.updateADPCM ((BT.InstrumentsManager.updateADPCM M c (fun a => { a with envelopeEnabled := true })).cloneADPCMEnvelope refAd.envelopeNumber).2 c (fun a => { a with envelopeNumber := ((BT.InstrumentsManager.updateADPCM M c (fun a => { a with envelopeEnabled := true })).cloneADPCMEnvelope refAd.envelopeNumber).1 })).envADPCM.registerUser ((BT.InstrumentsManager.updateADPCM M c (fun a => { a with envelopeEnabled := true })).cloneADPCMEnvelope refAd.envelopeNumber).1 c }).opSeqFM = M.opSeqFM := by
        show (BT.InstrumentsManager.updateADPCM ((BT.InstrumentsManager.updateADPCM M c (fun a => { a with envelopeEnabled := true })).cloneADPCMEnvelope refAd.envelopeNumber).2 c (fun a => { a with envelopeNumber := ((BT.InstrumentsManager.updateADPCM M c (fun a => { a with envelopeEnabled := true })).cloneADPCMEnvelope refAd.envelopeNumber).1 })).opSeqFM = M.opSeqFM
        rw [updateADPCM_opSeqFM ((BT.InstrumentsManager.updateADPCM M c (fun a => { a with envelopeEnabled := true })).cloneADPCMEnvelope refAd.envelopeNumber).2 c (fun a => { a with envelopeNumber := ((BT.InstrumentsManager.updateADPCM M c (fun a => { a with envelopeEnabled := true })).cloneADPCMEnvelope refAd.envelopeNumber).1 })]
        rw [show ((BT.InstrumentsManager.updateADPCM M c (fun a => { a with envelopeEnabled := true })).cloneADPCMEnvelope refAd.envelopeNumber).2.opSeqFM = (BT.InstrumentsManager.updateADPCM M c (fun a => { a with envelopeEnabled := true })).opSeqFM from rfl]
        rw [updateADPCM_opSeqFM M c (fun a => { a with envelopeEnabled := true })]
      rw [hFq, hfin_i]
      exact poolSync_update_irrelevant (fun s => by rw [hf]; rfl) (inv.opSeqFM p hp)
    · have hFq : ({ (BT.InstrumentsManager.updateADPCM ((BT.InstrumentsManager.updateADPCM M c (fun a => { a with envelopeEnabled := true })).cloneADPCMEnvelope refAd.envelopeNumber).2 c (fun a => { a with envelopeNumber := ((BT.InstrumentsManager.updateADPCM M c (fun a => { a with envelopeEnabled := true })).cloneADPCMEnvelope refAd.envelopeNumber).1 })) with envADPCM := (BT.InstrumentsManager.updateADPCM ((BT.InstrumentsManager.updateADPCM M c (fun a => { a with envelopeEnabled := true })).cloneADPCMEnvelope refAd.envelopeNumber).2 c (fun a => { a with envelopeNumber := ((BT.InstrumentsManager.updateADPCM M c (fun a => { a with envelopeEnabled := true })).cloneADPCMEnvelope refAd.envelopeNumber).1 })).envADPCM.registerUser ((BT.InstrumentsManager.updateADPCM M c (fun a => { a with envelopeEnabled := true })).cloneADPCMEnvelope refAd.envelopeNumber).1 c }).arpFM = M.arpFM := by
        show (BT.InstrumentsManager.updateADPCM ((BT.InstrumentsManager.updateADPCM M c (fun a => { a with envelopeEnabled := true })).cloneADPCMEnvelope refAd.envelopeNumber).2 c (fun a => { a with envelopeNumber := ((BT.InstrumentsManager.updateADPCM M c (fun a => { a with envelopeEnabled := true })).cloneADPCMEnvelope refAd.envelopeNumber).1 })).arpFM = M.arpFM
        rw [updateADPCM_arpFM ((BT.InstrumentsManager.updateADPCM M c (fun a => { a with envelopeEnabled := true })).cloneADPCMEnvelope refAd.envelopeNumber).2 c (fun a => { a with envelopeNumber := ((BT.InstrumentsManager.updateADPCM M c (fun a => { a with envelopeEnabled := true })).cloneADPCMEnvelope refAd.envelopeNumber).1 })]
        rw [show ((BT.InstrumentsManager.updateADPCM M c (fun a => { a with envelopeEnabled := true })).cloneADPCMEnvelope refAd.envelopeNumber).2.arpFM = (BT.InstrumentsManager.updateADPCM M c (fun a => { a with envelopeEnabled := true })).arpFM from rfl]
        rw [updateADPCM_arpFM M c (fun a => { a with envelopeEnabled := true })]
      rw [hFq, hfin_i]
      exact poolSync_update_irrelevant (fun s => by rw [hf]; rfl) inv.arpFM
    · have hFq : ({ (BT.InstrumentsManager.updateADPCM ((BT.InstrumentsManager.updateADPCM M c (fun a => { a with envelopeEnabled := true })).cloneADPCMEnvelope refAd.envelopeNumber).2 c (fun a => { a with envelopeNumber := ((BT.InstrumentsManager.updateADPCM M c (fun a => { a with envelopeEnabled := true })).cloneADPCMEnvelope refAd.envelopeNumber).1 })) with envADPCM := (BT.InstrumentsManager.updateADPCM ((BT.InstrumentsManager.updateADPCM M c (fun a => { a with envelopeEnabled := true })).cloneADPCMEnvelope refAd.envelopeNumber).2 c (fun a => { a with envelopeNumber := ((BT.InstrumentsManager.updateADPCM M c (fun a => { a with envelopeEnabled := true })).cloneADPCMEnvelope refAd.envelopeNumber).1 })).envADPCM.registerUser ((BT.InstrumentsManager.updateADPCM M c (fun a => { a with envelopeEnabled := true })).cloneADPCMEnvelope refAd.envelopeNumber).1 c }).ptFM = M.ptFM := by
        show (BT.InstrumentsManager.updateADPCM ((BT.InstrumentsManager.updateADPCM M c (fun a => { a with envelopeEnabled := true })).cloneADPCMEnvelope refAd.envelopeNumber).2 c (fun a => { a with envelopeNumber := ((BT.InstrumentsManager.updateADPCM M c (fun a => { a with envelopeEnabled := true })).cloneADPCMEnvelope refAd.envelopeNumber).1 })).ptFM = M.ptFM
        rw [updateADPCM_ptFM ((BT.InstrumentsManager.updateADPCM M c (fun a => { a with envelopeEnabled := true })).cloneADPCMEnvelope refAd.envelopeNumber).2 c (fun a => { a with envelopeNumber := ((BT.InstrumentsManager.updateADPCM M c (fun a => { a with envelopeEnabled := true })).cloneADPCMEnvelope refAd.envelopeNumber).1 })]
        rw [show ((BT.InstrumentsManager.updateADPCM M c (fun a => { a with envelopeEnabled := true })).cloneADPCMEnvelope refAd.envelopeNumber).2.ptFM = (BT.InstrumentsManager.updateADPCM M c (fun a => { a with envelopeEnabled := true })).ptFM from rfl]
        rw [updateADPCM_ptFM M c (fun a => { a with envelopeEnabled := true })]
      rw [hFq, hfin_i]
      exact poolSync_update_irrelevant (fun s => by rw [hf]; rfl) inv.ptFM
    · have hFq : ({ (BT.InstrumentsManager.updateADPCM ((BT.InstrumentsManager.updateADPCM M c (fun a => { a with envelopeEnabled := true })).cloneADPCMEnvelope refAd.envelopeNumber).2 c (fun a => { a with envelopeNumber := ((BT.InstrumentsManager.updateADPCM M c (fun a => { a with envelopeEnabled := true })).cloneADPCMEnvelope refAd.envelopeNumber).1 })) with envADPCM := (BT.InstrumentsManager.updateADPCM ((BT.InstrumentsManager.updateADPCM M c (fun a => { a with envelopeEnabled := true })).cloneADPCMEnvelope refAd.envelopeNumber).2 c (fun a => { a with envelopeNumber := ((BT.InstrumentsManager.updateADPCM M c (fun a => { a with envelopeEnabled := true })).cloneADPCMEnvelope refAd.envelopeNumber).1 })).envADPCM.registerUser ((BT.InstrumentsManager.updateADPCM M c (fun a => { a with envelopeEnabled := true })).cloneADPCMEnvelope refAd.envelopeNumber).1 c }).wfSSG = M.wfSSG := by
        show (BT.InstrumentsManager.updateADPCM ((BT.InstrumentsManager.updateADPCM M c (fun a => { a with envelopeEnabled := true })).cloneADPCMEnvelope refAd.envelopeNumber).2 c (fun a => { a with envelopeNumber := ((BT.InstrumentsManager.updateADPCM M c (fun a => { a with envelopeEnabled := true })).cloneADPCMEnvelope refAd.envelopeNumber).1 })).wfSSG = M.wfSSG
        rw [updateADPCM_wfSSG ((BT.InstrumentsManager.updateADPCM M c (fun a => { a with envelopeEnabled := true })).cloneADPCMEnvelope refAd.envelopeNumber).2 c (fun a => { a with envelopeNumber := ((BT.InstrumentsManager.updateADPCM M c (fun a => { a with envelopeEnabled := true })).cloneADPCMEnvelope refAd.envelopeNumber).1 })]
        rw [show ((BT.InstrumentsManager.updateADPCM M c (fun a => { a with envelopeEnabled := true })).cloneADPCMEnvelope refAd.envelopeNumber).2.wfSSG = (BT.InstrumentsManager.updateADPCM M c (fun a => { a with envelopeEnabled := true })).wfSSG from rfl]
        rw [updateADPCM_wfSSG M c (fun a => { a with envelopeEnabled := true })]
      rw [hFq, hfin_i]
      exact poolSync_update_irrelevant (fun s => by rw [hf]; rfl) inv.wfSSG
    · have hFq : ({ (BT.InstrumentsManager.updateADPCM ((BT.InstrumentsManager.updateADPCM M c (fun a => { a with envelopeEnabled := true })).cloneADPCMEnvelope refAd.envelopeNumber).2 c (fun a => { a with envelopeNumber := ((BT.InstrumentsManager.updateADPCM M c (fun a => { a with envelopeEnabled := true })).cloneADPCMEnvelope refAd.envelopeNumber).1 })) with envADPCM := (BT.InstrumentsManager.updateADPCM ((BT.InstrumentsManager.updateADPCM M c (fun a => { a with envelopeEnabled := true })).cloneADPCMEnvelope refAd.envelopeNumber).2 c (fun a => { a with envelopeNumber := ((BT.InstrumentsManager.updateADPCM M c (fun a => { a with envelopeEnabled := true })).cloneADPCMEnvelope refAd.envelopeNumber).1 })).envADPCM.registerUser ((BT.InstrumentsManager.updateADPCM M c (fun a => { a with envelopeEnabled := true })).cloneADPCMEnvelope refAd.envelopeNumber).1 c }).tnSSG = M.tnSSG := by
        show (BT.InstrumentsManager.updateADPCM ((BT.InstrumentsManager.updateADPCM M c (fun a => { a with envelopeEnabled := true })).cloneADPCMEnvelope refAd.envelopeNumber).2 c (fun a => { a with envelopeNumber := ((BT.InstrumentsManager.updateADPCM M c (fun a => { a with envelopeEnabled := true })).cloneADPCMEnvelope refAd.envelopeNumber).1 })).tnSSG = M.tnSSG
        rw [updateADPCM_tnSSG ((BT.InstrumentsManager.updateADPCM M c (fun a => { a with envelopeEnabled := true })).cloneADPCMEnvelope refAd.envelopeNumber).2 c (fun a => { a with envelopeNumber := ((BT.InstrumentsManager.updateADPCM M c (fun a => { a with envelopeEnabled := true })).cloneADPCMEnvelope refAd.envelopeNumber).1 })]
        rw [show ((BT.InstrumentsManager.updateADPCM M c (fun a => { a with envelopeEnabled := true })).cloneADPCMEnvelope refAd.envelopeNumber).2.tnSSG = (BT.InstrumentsManager.updateADPCM M c (fun a => { a with envelopeEnabled := true })).tnSSG from rfl]
        rw [updateADPCM_tnSSG M c (fun a => { a with envelopeEnabled := true })]
      rw [hFq, hfin_i]
      exact poolSync_update_irrelevant (fun s => by rw [hf]; rfl) inv.tnSSG
    · have hFq : ({ (BT.InstrumentsManager.updateADPCM ((BT.InstrumentsManager.updateADPCM M c (fun a => { a with envelopeEnabled := true })).cloneADPCMEnvelope refAd.envelopeNumber).2 c (fun a => { a with envelopeNumber := ((BT.InstrumentsManager.updateADPCM M c (fun a => { a with envelopeEnabled := true })).cloneADPCMEnvelope refAd.envelopeNumber).1 })) with envADPCM := (BT.InstrumentsManager.updateADPCM ((BT.InstrumentsManager.updateADPCM M c (fun a => { a with envelopeEnabled := true })).cloneADPCMEnvelope refAd.envelopeNumber).2 c (fun a => { a with envelopeNumber := ((BT.InstrumentsManager.updateADPCM M c (fun a => { a with envelopeEnabled := true })).cloneADPCMEnvelope refAd.envelopeNumber).1 })).envADPCM.registerUser ((BT.InstrumentsManager.updateADPCM M c (fun a => { a with envelopeEnabled := true })).cloneADPCMEnvelope refAd.envelopeNumber).1 c }).envSSG = M.envSSG := by
        show (BT.InstrumentsManager.updateADPCM ((BT.InstrumentsManager.updateADPCM M c (fun a => { a with envelopeEnabled := true })).cloneADPCMEnvelope refAd.envelopeNumber).2 c (fun a => { a with envelopeNumber := ((BT.InstrumentsManager.updateADPCM M c (fun a => { a with envelopeEnabled := true })).cloneADPCMEnvelope refAd.envelopeNumber).1 })).envSSG = M.envSSG
        rw [updateADPCM_envSSG ((BT.InstrumentsManager.updateADPCM M c (fun a => { a with envelopeEnabled := true })).cloneADPCMEnvelope refAd.envelopeNumber).2 c (fun a => { a with envelopeNumber := ((BT.InstrumentsManager.updateADPCM M c (fun a => { a with envelopeEnabled := true })).cloneADPCMEnvelope refAd.envelopeNumber).1 })]
        rw [show ((BT.InstrumentsManager.updateADPCM M c (fun a => { a with envelopeEnabled := true })).cloneADPCMEnvelope refAd.envelopeNumber).2.envSSG = (BT.InstrumentsManager.updateADPCM M c (fun a => { a with envelopeEnabled := true })).envSSG from rfl]
        rw [updateADPCM_envSSG M c (fun a => { a with envelopeEnabled := true })]
      rw [hFq, hfin_i]
      exact poolSync_update_irrelevant (fun s => by rw [hf]; rfl) inv.envSSG
    · have hFq : ({ (BT.InstrumentsManager.updateADPCM ((BT.InstrumentsManager.updateADPCM M c (fun a => { a with envelopeEnabled := true })).cloneADPCMEnvelope refAd.envelopeNumber).2 c (fun a => { a with envelopeNumber := ((BT.InstrumentsManager.updateADPCM M c (fun a => { a with envelopeEnabled := true })).cloneADPCMEnvelope refAd.envelopeNumber).1 })) with envADPCM := (BT.InstrumentsManager.updateADPCM ((BT.InstrumentsManager.updateADPCM M c (fun a => { a with envelopeEnabled := true })).cloneADPCMEnvelope refAd.envelopeNumber).2 c (fun a => { a with envelopeNumber := ((BT.InstrumentsManager.updateADPCM M c (fun a => { a with envelopeEnabled := true })).cloneADPCMEnvelope refAd.envelopeNumber).1 })).envADPCM.registerUser ((BT.InstrumentsManager.updateADPCM M c (fun a => { a with envelopeEnabled := true })).cloneADPCMEnvelope refAd.envelopeNumber).1 c }).arpSSG = M.arpSSG := by
        show (BT.InstrumentsManager.updateADPCM ((BT.InstrumentsManager.updateADPCM M c (fun a => { a with envelopeEnabled := true })).cloneADPCMEnvelope refAd.envelopeNumber).2 c (fun a => { a with envelopeNumber := ((BT.InstrumentsManager.updateADPCM M c (fun a => { a with envelopeEnabled := true })).cloneADPCMEnvelope refAd.envelopeNumber).1 })).arpSSG = M.arpSSG
        rw [updateADPCM_arpSSG ((BT.InstrumentsManager.updateADPCM M c (fun a => { a with envelopeEnabled := true })).cloneADPCMEnvelope refAd.envelopeNumber).2 c (fun a => { a with envelopeNumber := ((BT.InstrumentsManager.updateADPCM M c (fun a => { a with envelopeEnabled := true })).cloneADPCMEnvelope refAd.envelopeNumber).1 })]
        rw [show ((BT.InstrumentsManager.updateADPCM M c (fun a => { a with envelopeEnabled := true })).cloneADPCMEnvelope refAd.envelopeNumber).2.arpSSG = (BT.InstrumentsManager.updateADPCM M c (fun a => { a with envelopeEnabled := true })).arpSSG from rfl]
        rw [updateADPCM_arpSSG M c (fun a => { a with envelopeEnabled := true })]
      rw [hFq, hfin_i]
      exact poolSync_update_irrelevant (fun s => by rw [hf]; rfl) inv.arpSSG
    · have hFq : ({ (BT.InstrumentsManager.updateADPCM ((BT.InstrumentsManager.updateADPCM M c (fun a => { a with envelopeEnabled := true })).cloneADPCMEnvelope refAd.envelopeNumber).2 c (fun a => { a with envelopeNumber := ((BT.InstrumentsManager.updateADPCM M c (fun a => { a with envelopeEnabled := true })).cloneADPCMEnvelope refAd.envelopeNumber).1 })) with envADPCM := (BT.InstrumentsManager.updateADPCM ((BT.InstrumentsManager.updateADPCM M c (fun a => { a with envelopeEnabled := true })).cloneADPCMEnvelope refAd.envelopeNumber).2 c (fun a => { a with envelopeNumber := ((BT.InstrumentsManager.updateADPCM M c (fun a => { a with envelopeEnabled := true })).cloneADPCMEnvelope refAd.envelopeNumber).1 })).envADPCM.registerUser ((BT.InstrumentsManager.updateADPCM M c (fun a => { a with envelopeEnabled := true })).cloneADPCMEnvelope refAd.envelopeNumber).1 c }).ptSSG = M.ptSSG := by
        show (BT.InstrumentsManager.updateADPCM ((BT.InstrumentsManager.updateADPCM M c (fun a => { a with envelopeEnabled := true })).cloneADPCMEnvelope refAd.envelopeNumber).2 c (fun a => { a with envelopeNumber := ((BT.InstrumentsManager.updateADPCM M c (fun a => { a with envelopeEnabled := true })).cloneADPCMEnvelope refAd.envelopeNumber).1 })).ptSSG = M.ptSSG
        rw [updateADPCM_ptSSG ((BT.InstrumentsManager.updateADPCM M c (fun a => { a with envelopeEnabled := true })).cloneADPCMEnvelope refAd.envelopeNumber).2 c (fun a => { a with envelopeNumber := ((BT.InstrumentsManager.updateADPCM M c (fun a => { a with envelopeEnabled := true })).cloneADPCMEnvelope refAd.envelopeNumber).1 })]
        rw [show ((BT.InstrumentsManager.updateADPCM M c (fun a => { a with envelopeEnabled := true })).cloneADPCMEnvelope refAd.envelopeNumber).2.ptSSG = (BT.InstrumentsManager.updateADPCM M c (fun a => { a with envelopeEnabled := true })).ptSSG from rfl]
        rw [updateADPCM_ptSSG M c (fun a => { a with envelopeEnabled := true })]
      rw [hFq, hfin_i]
      exact poolSync_update_irrelevant (fun s => by rw [hf]; rfl) inv.ptSSG
    · have hFq : ({ (BT.InstrumentsManager.updateADPCM ((BT.InstrumentsManager.updateADPCM M c (fun a => { a with envelopeEnabled := true })).cloneADPCMEnvelope refAd.envelopeNumber).2 c (fun a => { a with envelopeNumber := ((BT.InstrumentsManager.updateADPCM M c (fun a => { a with envelopeEnabled := true })).cloneADPCMEnvelope refAd.envelopeNumber).1 })) with envADPCM := (BT.InstrumentsManager.updateADPCM ((BT.InstrumentsManager.updateADPCM M c (fun a => { a with envelopeEnabled := true })).cloneADPCMEnvelope refAd.envelopeNumber).2 c (fun a => { a with envelopeNumber := ((BT.InstrumentsManager.updateADPCM M c (fun a => { a with envelopeEnabled := true })).cloneADPCMEnvelope refAd.envelopeNumber).1 })).envADPCM.registerUser ((BT.InstrumentsManager.updateADPCM M c (fun a => { a with envelopeEnabled := true })).cloneADPCMEnvelope refAd.envelopeNumber).1 c }).wfADPCM = M.wfADPCM := by
        show (BT.InstrumentsManager.updateADPCM ((BT.InstrumentsManager.updateADPCM M c (fun a => { a with envelopeEnabled := true })).cloneADPCMEnvelope refAd.envelopeNumber).2 c (fun a => { a with envelopeNumber := ((BT.InstrumentsManager.updateADPCM M c (fun a => { a with envelopeEnabled := true })).cloneADPCMEnvelope refAd.envelopeNumber).1 })).wfADPCM = M.wfADPCM
        rw [updateADPCM_wfADPCM ((BT.InstrumentsManager.updateADPCM M c (fun a => { a with envelopeEnabled := true })).cloneADPCMEnvelope refAd.envelopeNumber).2 c (fun a => { a with envelopeNumber := ((BT.InstrumentsManager.updateADPCM M c (fun a => { a with envelopeEnabled := true })).cloneADPCMEnvelope refAd.envelopeNumber).1 })]
        rw [show ((BT.InstrumentsManager.updateADPCM M c (fun a => { a with envelopeEnabled := true })).cloneADPCMEnvelope refAd.envelopeNumber).2.wfADPCM = (BT.InstrumentsManager.updateADPCM M c (fun a => { a with envelopeEnabled := true })).wfADPCM from rfl]
        rw [updateADPCM_wfADPCM M c (fun a => { a with envelopeEnabled := true })]
      rw [hFq, hfin_i]
      exact poolSync_update_irrelevant (fun s => by rw [hf]; rfl) inv.wfADPCM
    · rw [hfin_i]
      exact poolSync_overwrite_register hc hf hold husers inv.envADPCM
    · have hFq : ({ (BT.InstrumentsManager.updateADPCM ((BT.InstrumentsManager.updateADPCM M c (fun a => { a with envelopeEnabled := true })).cloneADPCMEnvelope refAd.envelopeNumber).2 c (fun a => { a with envelopeNumber := ((BT.InstrumentsManager.updateADPCM M c (fun a => { a with envelopeEnabled := true })).cloneADPCMEnvelope refAd.envelopeNumber).1 })) with envADPCM := (BT.InstrumentsManager.updateADPCM ((BT.InstrumentsManager.updateADPCM M c (fun a => { a with envelopeEnabled := true })).cloneADPCMEnvelope refAd.envelopeNumber).2 c (fun a => { a with envelopeNumber := ((BT.InstrumentsManager.updateADPCM M c (fun a => { a with envelopeEnabled := true })).cloneADPCMEnvelope refAd.envelopeNumber).1 })).envADPCM.registerUser ((BT.InstrumentsManager.updateADPCM M c (fun a => { a with envelopeEnabled := true })).cloneADPCMEnvelope refAd.envelopeNumber).1 c }).arpADPCM = M.arpADPCM := by
        show (BT.InstrumentsManager.updateADPCM ((BT.InstrumentsManager.updateADPCM M c (fun a => { a with envelopeEnabled := true })).cloneADPCMEnvelope refAd.envelopeNumber).2 c (fun a => { a with envelopeNumber := ((BT.InstrumentsManager.updateADPCM M c (fun a => { a with envelopeEnabled := true })).cloneADPCMEnvelope refAd.envelopeNumber).1 })).arpADPCM = M.arpADPCM
        rw [updateADPCM_arpADPCM ((BT.InstrumentsManager.updateADPCM M c (fun a => { a with envelopeEnabled := true })).cloneADPCMEnvelope refAd.envelopeNumber).2 c (fun a => { a with envelopeNumber := ((BT.InstrumentsManager.updateADPCM M c (fun a => { a with envelopeEnabled := true })).cloneADPCMEnvelope refAd.envelopeNumber).1 })]
        rw [show ((BT.InstrumentsManager.updateADPCM M c (fun a => { a with envelopeEnabled := true })).cloneADPCMEnvelope refAd.envelopeNumber).2.arpADPCM = (BT.InstrumentsManager.updateADPCM M c (fun a => { a with envelopeEnabled := true })).arpADPCM from rfl]
        rw [updateADPCM_arpADPCM M c (fun a => { a with envelopeEnabled := true })]
      rw [hFq, hfin_i]
      exact poolSync_update_irrelevant (fun s => by rw [hf]; rfl) inv.arpADPCM
    · have hFq : ({ (BT.InstrumentsManager.updateADPCM ((BT.InstrumentsManager.updateADPCM M c (fun a => { a with envelopeEnabled := true })).cloneADPCMEnvelope refAd.envelopeNumber).2 c (fun a => { a with envelopeNumber := ((BT.InstrumentsManager.updateADPCM M c (fun a => { a with envelopeEnabled := true })).cloneADPCMEnvelope refAd.envelopeNumber).1 })) with envADPCM := (BT.InstrumentsManager.updateADPCM ((BT.InstrumentsManager.updateADPCM M c (fun a => { a with envelopeEnabled := true })).cloneADPCMEnvelope refAd.envelopeNumber).2 c (fun a => { a with envelopeNumber := ((BT.InstrumentsManager.updateADPCM M c (fun a => { a with envelopeEnabled := true })).cloneADPCMEnvelope refAd.envelopeNumber).1 })).envADPCM.registerUser ((BT.InstrumentsManager.updateADPCM M c (fun a => { a with envelopeEnabled := true })).cloneADPCMEnvelope refAd.envelopeNumber).1 c }).ptADPCM = M.ptADPCM := by
        show (BT.InstrumentsManager.updateADPCM ((BT.InstrumentsManager.updateADPCM M c (fun a => { a with envelopeEnabled := true })).cloneADPCMEnvelope refAd.envelopeNumber).2 c (fun a => { a with envelopeNumber := ((BT.InstrumentsManager.updateADPCM M c (fun a => { a with envelopeEnabled := true })).cloneADPCMEnvelope refAd.envelopeNumber).1 })).ptADPCM = M.ptADPCM
        rw [updateADPCM_ptADPCM ((BT.InstrumentsManager.updateADPCM M c (fun a => { a with envelopeEnabled := true })).cloneADPCMEnvelope refAd.envelopeNumber).2 c (fun a => { a with envelopeNumber := ((BT.InstrumentsManager.updateADPCM M c (fun a => { a with envelopeEnabled := true })).cloneADPCMEnvelope refAd.envelopeNumber).1 })]
        rw [show ((BT.InstrumentsManager.updateADPCM M c (fun a => { a with envelopeEnabled := true })).cloneADPCMEnvelope refAd.envelopeNumber).2.ptADPCM = (BT.InstrumentsManager.updateADPCM M c (fun a => { a with envelopeEnabled := true })).ptADPCM from rfl]
        rw [updateADPCM_ptADPCM M c (fun a => { a with envelopeEnabled := true })]
      rw [hFq, hfin_i]
      exact poolSync_update_irrelevant (fun s => by rw [hf]; rfl) inv.ptADPCM
  · rw [if_neg hb]
    exact ⟨inv, f, hf, rfl, rfl⟩

set_option maxHeartbeats 2000000 in
/-- The arpADPCM deep-clone block preserves the invariant: the prior flag is
disabled, so the freshly registered slot is the record's only reference. -/
theorem inv_dcBlock_arpADPCM (M : BT.InstrumentsManager) (refAd : BT.InstrumentADPCM) (c : Nat)
    (hc : c < 128) (f : BT.InstrumentADPCM) (hf : M.insts c = some (.adpcm f))
    (hflag : f.arpeggioEnabled = false) (inv : BT.Inv M) :
    BT.Inv (if refAd.arpeggioEnabled then { (BT.InstrumentsManager.updateADPCM ((BT.InstrumentsManager.updateADPCM M c (fun a => { a with arpeggioEnabled := true })).cloneADPCMArpeggio refAd.arpeggioNumber).2 c (fun a => { a with arpeggioNumber := ((BT.InstrumentsManager.updateADPCM M c (fun a => { a with arpeggioEnabled := true })).cloneADPCMArpeggio refAd.arpeggioNumber).1 })) with arpADPCM := (BT.InstrumentsManager.updateADPCM ((BT.InstrumentsManager.updateADPCM M c (fun a => { a with arpeggioEnabled := true })).cloneADPCMArpeggio refAd.arpeggioNumber).2 c (fun a => { a with arpeggioNumber := ((BT.InstrumentsManager.updateADPCM M c (fun a => { a with arpeggioEnabled := true })).cloneADPCMArpeggio refAd.arpeggioNumber).1 })).arpADPCM.registerUser ((BT.InstrumentsManager.updateADPCM M c (fun a => { a with arpeggioEnabled := true })).cloneADPCMArpeggio refAd.arpeggioNumber).1 c } else M) ∧
    ∃ f', ((if refAd.arpeggioEnabled then { (BT.InstrumentsManager.updateADPCM ((BT.InstrumentsManager.updateADPCM M c (fun a => { a with arpeggioEnabled := true })).cloneADPCMArpeggio refAd.arpeggioNumber).2 c (fun a => { a with arpeggioNumber := ((BT.InstrumentsManager.updateADPCM M c (fun a => { a with arpeggioEnabled := true })).cloneADPCMArpeggio refAd.arpeggioNumber).1 })) with arpADPCM := (BT.InstrumentsManager.updateADPCM ((BT.InstrumentsManager.updateADPCM M c (fun a => { a with arpeggioEnabled := true })).cloneADPCMArpeggio refAd.arpeggioNumber).2 c (fun a => { a with arpeggioNumber := ((BT.InstrumentsManager.updateADPCM M c (fun a => { a with arpeggioEnabled := true })).cloneADPCMArpeggio refAd.arpeggioNumber).1 })).arpADPCM.registerUser ((BT.InstrumentsManager.updateADPCM M c (fun a => { a with arpeggioEnabled := true })).cloneADPCMArpeggio refAd.arpeggioNumber).1 c } else M)).insts c = some (.adpcm f') ∧
      f'.envelopeEnabled = f.envelopeEnabled ∧
      f'.pitchEnabled = f.pitchEnabled := by
  by_cases hb : refAd.arpeggioEnabled = true
  · rw [if_pos hb]
    have hma_i : (BT.InstrumentsManager.updateADPCM M c (fun a => { a with arpeggioEnabled := true })).insts = Function.update M.insts c (some (.adpcm { f with arpeggioEnabled := true })) :=
      updateADPCM_insts M c (fun a => { a with arpeggioEnabled := true }) f hf
    have hma_c : (BT.InstrumentsManager.updateADPCM M c (fun a => { a with arpeggioEnabled := true })).insts c = some (.adpcm { f with arpeggioEnabled := true }) := by
      rw [hma_i]
      exact Function.update_same c _ M.insts
    have hrl_c : ((BT.InstrumentsManager.updateADPCM M c (fun a => { a with arpeggioEnabled := true })).cloneADPCMArpeggio refAd.arpeggioNumber).2.insts c = some (.adpcm { f with arpeggioEnabled := true }) := hma_c
    have hmb_i : (BT.InstrumentsManager.updateADPCM ((BT.InstrumentsManager.updateADPCM M c (fun a => { a with arpeggioEnabled := true })).cloneADPCMArpeggio refAd.arpeggioNumber).2 c (fun a => { a with arpeggioNumber := ((BT.InstrumentsManager.updateADPCM M c (fun a => { a with arpeggioEnabled := true })).cloneADPCMArpeggio refAd.arpeggioNumber).1 })).insts = Function.update ((BT.InstrumentsManager.updateADPCM M c (fun a => { a with arpeggioEnabled := true })).cloneADPCMArpeggio refAd.arpeggioNumber).2.insts c
        (some (.adpcm { { f with arpeggioEnabled := true } with arpeggioNumber := ((BT.InstrumentsManager.updateADPCM M c (fun a => { a with arpeggioEnabled := true })).cloneADPCMArpeggio refAd.arpeggioNumber).1 })) :=
      updateADPCM_insts ((BT.InstrumentsManager.updateADPCM M c (fun a => { a with arpeggioEnabled := true })).cloneADPCMArpeggio refAd.arpeggioNumber).2 c (fun a => { a with arpeggioNumber := ((BT.InstrumentsManager.updateADPCM M c (fun a => { a with arpeggioEnabled := true })).cloneADPCMArpeggio refAd.arpeggioNumber).1 }) { f with arpeggioEnabled := true } hrl_c
    have hfin_i : ({ (BT.InstrumentsManager.updateADPCM ((BT.InstrumentsManager.updateADPCM M c (fun a => { a with arpeggioEnabled := true })).cloneADPCMArpeggio refAd.arpeggioNumber).2 c (fun a => { a with arpeggioNumber := ((BT.InstrumentsManager.updateADPCM M c (fun a => { a with arpeggioEnabled := true })).cloneADPCMArpeggio refAd.arpeggioNumber).1 })) with arpADPCM := (BT.InstrumentsManager.updateADPCM ((BT.InstrumentsManager.updateADPCM M c (fun a => { a with arpeggioEnabled := true })).cloneADPCMArpeggio refAd.arpeggioNumber).2 c (fun a => { a with arpeggioNumber := ((BT.InstrumentsManager.updateADPCM M c (fun a => { a with arpeggioEnabled := true })).cloneADPCMArpeggio refAd.arpeggioNumber).1 })).arpADPCM.registerUser ((BT.InstrumentsManager.updateADPCM M c (fun a => { a with arpeggioEnabled := true })).cloneADPCMArpeggio refAd.arpeggioNumber).1 c }).insts = Function.update M.insts c (some (.adpcm { f with arpeggioEnabled := true, arpeggioNumber := ((BT.InstrumentsManager.updateADPCM M c (fun a => { a with arpeggioEnabled := true })).cloneADPCMArpeggio refAd.arpeggioNumber).1 })) := by
      show (BT.InstrumentsManager.updateADPCM ((BT.InstrumentsManager.updateADPCM M c (fun a => { a with arpeggioEnabled := true })).cloneADPCMArpeggio refAd.arpeggioNumber).2 c (fun a => { a with arpeggioNumber := ((BT.InstrumentsManager.updateADPCM M c (fun a => { a with arpeggioEnabled := true })).cloneADPCMArpeggio refAd.arpeggioNumber).1 })).insts = _
      rw [hmb_i]
      show Function.update (BT.InstrumentsManager.updateADPCM M c (fun a => { a with arpeggioEnabled := true })).insts c (some (.adpcm { f with arpeggioEnabled := true, arpeggioNumber := ((BT.InstrumentsManager.updateADPCM M c (fun a => { a with arpeggioEnabled := true })).cloneADPCMArpeggio refAd.arpeggioNumber).1 })) = _
      rw [hma_i, Function.update_idem]
    have hfin_pool : ({ (BT.InstrumentsManager.updateADPCM ((BT.InstrumentsManager.updateADPCM M c (fun a => { a with arpeggioEnabled := true })).cloneADPCMArpeggio refAd.arpeggioNumber).2 c (fun a => { a with arpeggioNumber := ((BT.InstrumentsManager.updateADPCM M c (fun a => { a with arpeggioEnabled := true })).cloneADPCMArpeggio refAd.arpeggioNumber).1 })) with arpADPCM := (BT.InstrumentsManager.updateADPCM ((BT.InstrumentsManager.updateADPCM M c (fun a => { a with arpeggioEnabled := true })).cloneADPCMArpeggio refAd.arpeggioNumber).2 c (fun a => { a with arpeggioNumber := ((BT.InstrumentsManager.updateADPCM M c (fun a => { a with arpeggioEnabled := true })).cloneADPCMArpeggio refAd.arpeggioNumber).1 })).arpADPCM.registerUser ((BT.InstrumentsManager.updateADPCM M c (fun a => { a with arpeggioEnabled := true })).cloneADPCMArpeggio refAd.arpeggioNumber).1 c }).arpADPCM =
        (((BT.InstrumentsManager.updateADPCM M c (fun a => { a with arpeggioEnabled := true })).arpADPCM.cloneProp refAd.arpeggioNumber).2).registerUser ((BT.InstrumentsManager.updateADPCM M c (fun a => { a with arpeggioEnabled := true })).cloneADPCMArpeggio refAd.arpeggioNumber).1 c := by
      show (BT.InstrumentsManager.updateADPCM ((BT.InstrumentsManager.updateADPCM M c (fun a => { a with arpeggioEnabled := true })).cloneADPCMArpeggio refAd.arpeggioNumber).2 c (fun a => { a with arpeggioNumber := ((BT.InstrumentsManager.updateADPCM M c (fun a => { a with arpeggioEnabled := true })).cloneADPCMArpeggio refAd.arpeggioNumber).1 })).arpADPCM.registerUser ((BT.InstrumentsManager.updateADPCM M c (fun a => { a with arpeggioEnabled := true })).cloneADPCMArpeggio refAd.arpeggioNumber).1 c = _
      rw [updateADPCM_arpADPCM ((BT.InstrumentsManager.updateADPCM M c (fun a => { a with arpeggioEnabled := true })).cloneADPCMArpeggio refAd.arpeggioNumber).2 c (fun a => { a with arpeggioNumber := ((BT.InstrumentsManager.updateADPCM M c (fun a => { a with arpeggioEnabled := true })).cloneADPCMArpeggio refAd.arpeggioNumber).1 })]
      rfl
    have hold : ∀ s, BT.adpcmArpPoints (.adpcm f) s = false := by
      intro s
      show (f.arpeggioEnabled && (f.arpeggioNumber == s)) = false
      rw [hflag]
      rfl
    have husers : ∀ s, s < 128 → (({ (BT.InstrumentsManager.updateADPCM ((BT.InstrumentsManager.updateADPCM M c (fun a => { a with arpeggioEnabled := true })).cloneADPCMArpeggio refAd.arpeggioNumber).2 c (fun a => { a with arpeggioNumber := ((BT.InstrumentsManager.updateADPCM M c (fun a => { a with arpeggioEnabled := true })).cloneADPCMArpeggio refAd.arpeggioNumber).1 })) with arpADPCM := (BT.InstrumentsManager.updateADPCM ((BT.InstrumentsManager.updateADPCM M c (fun a => { a with arpeggioEnabled := true })).cloneADPCMArpeggio refAd.arpeggioNumber).2 c (fun a => { a with arpeggioNumber := ((BT.InstrumentsManager.updateADPCM M c (fun a => { a with arpeggioEnabled := true })).cloneADPCMArpeggio refAd.arpeggioNumber).1 })).arpADPCM.registerUser ((BT.InstrumentsManager.updateADPCM M c (fun a => { a with arpeggioEnabled := true })).cloneADPCMArpeggio refAd.arpeggioNumber).1 c }).arpADPCM s).users =
        if BT.adpcmArpPoints (.adpcm { f with arpeggioEnabled := true, arpeggioNumber := ((BT.InstrumentsManager.updateADPCM M c (fun a => { a with arpeggioEnabled := true })).cloneADPCMArpeggio refAd.arpeggioNumber).1 }) s = true
        then insert c ((M.arpADPCM s).users) else (M.arpADPCM s).users := by
      intro s hs
      rw [hfin_pool, users_registerUser, users_cloneProp, users_cloneProp]
      rw [updateADPCM_arpADPCM M c (fun a => { a with arpeggioEnabled := true })]
      by_cases hp : BT.adpcmArpPoints (.adpcm { f with arpeggioEnabled := true, arpeggioNumber := ((BT.InstrumentsManager.updateADPCM M c (fun a => { a with arpeggioEnabled := true })).cloneADPCMArpeggio refAd.arpeggioNumber).1 }) s = true
      · rw [if_pos hp]
        have h2 : (true && (((BT.InstrumentsManager.updateADPCM M c (fun a => { a with arpeggioEnabled := true })).cloneADPCMArpeggio refAd.arpeggioNumber).1 == s)) = true := hp
        rw [Bool.true_and, beq_iff_eq] at h2
        rw [if_pos h2.symm, h2]
      · rw [if_neg hp]
        have hsne : ¬ s = ((BT.InstrumentsManager.updateADPCM M c (fun a => { a with arpeggioEnabled := true })).cloneADPCMArpeggio refAd.arpeggioNumber).1 := by
          intro hseq
          apply hp
          show (true && (((BT.InstrumentsManager.updateADPCM M c (fun a => { a with arpeggioEnabled := true })).cloneADPCMArpeggio refAd.arpeggioNumber).1 == s)) = true
          rw [hseq]
          simp
        rw [if_neg hsne]
    refine ⟨⟨?_, ?_, ?_, ?_, ?_, ?_, ?_, ?_, ?_, ?_, ?_, ?_, ?_, ?_⟩,
      { f with arpeggioEnabled := true, arpeggioNumber := ((BT.InstrumentsManager.updateADPCM M c (fun a => { a with arpeggioEnabled := true })).cloneADPCMArpeggio refAd.arpeggioNumber).1 }, by
        rw [hfin_i]
        exact Function.update_same c _ M.insts, rfl, rfl⟩
    · have hFq : ({ (BT.InstrumentsManager.updateADPCM ((BT.InstrumentsManager.updateADPCM M c (fun a => { a with arpeggioEnabled := true })).cloneADPCMArpeggio refAd.arpeggioNumber).2 c (fun a => { a with arpeggioNumber := ((BT.InstrumentsManager.updateADPCM M c (fun a => { a with arpeggioEnabled := true })).cloneADPCMArpeggio refAd.arpeggioNumber).1 })) with arpADPCM := (BT.InstrumentsManager.updateADPCM ((BT.InstrumentsManager.updateADPCM M c (fun a => { a with arpeggioEnabled := true })).cloneADPCMArpeggio refAd.arpeggioNumber).2 c (fun a => { a with arpeggioNumber := ((BT.InstrumentsManager.updateADPCM M c (fun a => { a with arpeggioEnabled := true })).cloneADPCMArpeggio refAd.arpeggioNumber).1 })).arpADPCM.registerUser ((BT.InstrumentsManager.updateADPCM M c (fun a => { a with arpeggioEnabled := true })).cloneADPCMArpeggio refAd.arpeggioNumber).1 c }).envFM = M.envFM := by
        show (BT.InstrumentsManager.updateADPCM ((BT.InstrumentsManager.updateADPCM M c (fun a => { a with arpeggioEnabled := true })).cloneADPCMArpeggio refAd.arpeggioNumber).2 c (fun a => { a with arpeggioNumber := ((BT.InstrumentsManager.updateADPCM M c (fun a => { a with arpeggioEnabled := true })).cloneADPCMArpeggio refAd.arpeggioNumber).1 })).envFM = M.envFM
        rw [updateADPCM_envFM ((BT.InstrumentsManager.updateADPCM M c (fun a => { a with arpeggioEnabled := true })).cloneADPCMArpeggio refAd.arpeggioNumber).2 c (fun a => { a with arpeggioNumber := ((BT.InstrumentsManager.updateADPCM M c (fun a => { a with arpeggioEnabled := true })).cloneADPCMArpeggio refAd.arpeggioNumber).1 })]
        rw [show ((BT.InstrumentsManager.updateADPCM M c (fun a => { a with arpeggioEnabled := true })).cloneADPCMArpeggio refAd.arpeggioNumber).2.envFM = (BT.InstrumentsManager.updateADPCM M c (fun a => { a with arpeggioEnabled := true })).envFM from rfl]
        rw [updateADPCM_envFM M c (fun a => { a with arpeggioEnabled := true })]
      rw [hFq, hfin_i]
      exact poolSync_update_irrelevant (fun s => by rw [hf]; rfl) inv.envFM
    · have hFq : ({ (BT.InstrumentsManager.updateADPCM ((BT.InstrumentsManager.updateADPCM M c (fun a => { a with arpeggioEnabled := true })).cloneADPCMArpeggio refAd.arpeggioNumber).2 c (fun a => { a with arpeggioNumber := ((BT.InstrumentsManager.updateADPCM M c (fun a => { a with arpeggioEnabled := true })).cloneADPCMArpeggio refAd.arpeggioNumber).1 })) with arpADPCM := (BT.InstrumentsManager.updateADPCM ((BT.InstrumentsManager.updateADPCM M c (fun a => { a with arpeggioEnabled := true })).cloneADPCMArpeggio refAd.arpeggioNumber).2 c (fun a => { a with arpeggioNumber := ((BT.InstrumentsManager.updateADPCM M c (fun a => { a with arpeggioEnabled := true })).cloneADPCMArpeggio refAd.arpeggioNumber).1 })).arpADPCM.registerUser ((BT.InstrumentsManager.updateADPCM M c (fun a => { a with arpeggioEnabled := true })).cloneADPCMArpeggio refAd.arpeggioNumber).1 c }).lfoFM = M.lfoFM := by
        show (BT.InstrumentsManager.updateADPCM ((BT.InstrumentsManager.updateADPCM M c (fun a => { a with arpeggioEnabled := true })).cloneADPCMArpeggio refAd.arpeggioNumber).2 c (fun a => { a with arpeggioNumber := ((BT.InstrumentsManager.updateADPCM M c (fun a => { a with arpeggioEnabled := true })).cloneADPCMArpeggio refAd.arpeggioNumber).1 })).lfoFM = M.lfoFM
        rw [updateADPCM_lfoFM ((BT.InstrumentsManager.updateADPCM M c (fun a => { a with arpeggioEnabled := true })).cloneADPCMArpeggio refAd.arpeggioNumber).2 c (fun a => { a with arpeggioNumber := ((BT.InstrumentsManager.updateADPCM M c (fun a => { a with arpeggioEnabled := true })).cloneADPCMArpeggio refAd.arpeggioNumber).1 })]
        rw [show ((BT.InstrumentsManager.updateADPCM M c (fun a => { a with arpeggioEnabled := true })).cloneADPCMArpeggio refAd.arpeggioNumber).2.lfoFM = (BT.InstrumentsManager.updateADPCM M c (fun a => { a with arpeggioEnabled := true })).lfoFM from rfl]
        rw [updateADPCM_lfoFM M c (fun a => { a with arpeggioEnabled := true })]
      rw [hFq, hfin_i]
      exact poolSync_update_irrelevant (fun s => by rw [hf]; rfl) inv.lfoFM
    · intro p hp
      have hFq : ({ (BT.InstrumentsManager.updateADPCM ((BT.InstrumentsManager.updateADPCM M c (fun a => { a with arpeggioEnabled := true })).cloneADPCMArpeggio refAd.arpeggioNumber).2 c (fun a => { a with arpeggioNumber := ((BT.InstrumentsManager.updateADPCM M c (fun a => { a with arpeggioEnabled := true })).cloneADPCMArpeggio refAd.arpeggioNumber).1 })) with arpADPCM := (BT.InstrumentsManager.updateADPCM ((BT.InstrumentsManager.updateADPCM M c (fun a => { a with arpeggioEnabled := true })).cloneADPCMArpeggio refAd.arpeggioNumber).2 c (fun a => { a with arpeggioNumber := ((BT.InstrumentsManager.updateADPCM M c (fun a => { a with arpeggioEnabled := true })).cloneADPCMArpeggio refAd.arpeggioNumber).1 })).arpADPCM.registerUser ((BT.InstrumentsManager.updateADPCM M c (fun a => { a with arpeggioEnabled := true })).cloneADPCMArpeggio refAd.arpeggioNumber).1 c }).opSeqFM = M.opSeqFM := by
        show (BT.InstrumentsManager.updateADPCM ((BT.InstrumentsManager.updateADPCM M c (fun a => { a with arpeggioEnabled := true })).cloneADPCMArpeggio refAd.arpeggioNumber).2 c (fun a => { a with arpeggioNumber := ((BT.InstrumentsManager.updateADPCM M c (fun a => { a with arpeggioEnabled := true })).cloneADPCMArpeggio refAd.arpeggioNumber).1 })).opSeqFM = M.opSeqFM
        rw [updateADPCM_opSeqFM ((BT.InstrumentsManager.updateADPCM M c (fun a => { a with arpeggioEnabled := true })).cloneADPCMArpeggio refAd.arpeggioNumber).2 c (fun a => { a with arpeggioNumber := ((BT.InstrumentsManager.updateADPCM M c (fun a => { a with arpeggioEnabled := true })).cloneADPCMArpeggio refAd.arpeggioNumber).1 })]
        rw [show ((BT.InstrumentsManager.updateADPCM M c (fun a => { a with arpeggioEnabled := true })).cloneADPCMArpeggio refAd.arpeggioNumber).2.opSeqFM = (BT.InstrumentsManager.updateADPCM M c (fun a => { a with arpeggioEnabled := true })).opSeqFM from rfl]
        rw [updateADPCM_opSeqFM M c (fun a => { a with arpeggioEnabled := true })]
      rw [hFq, hfin_i]
      exact poolSync_update_irrelevant (fun s => by rw [hf]; rfl) (inv.opSeqFM p hp)
    · have hFq : ({ (BT.InstrumentsManager.updateADPCM ((BT.InstrumentsManager.updateADPCM M c (fun a => { a with arpeggioEnabled := true })).cloneADPCMArpeggio refAd.arpeggioNumber).2 c (fun a => { a with arpeggioNumber := ((BT.InstrumentsManager.updateADPCM M c (fun a => { a with arpeggioEnabled := true })).cloneADPCMArpeggio refAd.arpeggioNumber).1 })) with arpADPCM := (BT.InstrumentsManager.updateADPCM ((BT.InstrumentsManager.updateADPCM M c (fun a => { a with arpeggioEnabled := true })).cloneADPCMArpeggio refAd.arpeggioNumber).2 c (fun a => { a with arpeggioNumber := ((BT.InstrumentsManager.updateADPCM M c (fun a => { a with arpeggioEnabled := true })).cloneADPCMArpeggio refAd.arpeggioNumber).1 })).arpADPCM.registerUser ((BT.InstrumentsManager.updateADPCM M c (fun a => { a with arpeggioEnabled := true })).cloneADPCMArpeggio refAd.arpeggioNumber).1 c }).arpFM = M.arpFM := by
        show (BT.InstrumentsManager.updateADPCM ((BT.InstrumentsManager.updateADPCM M c (fun a => { a with arpeggioEnabled := true })).cloneADPCMArpeggio refAd.arpeggioNumber).2 c (fun a => { a with arpeggioNumber := ((BT.InstrumentsManager.updateADPCM M c (fun a => { a with arpeggioEnabled := true })).cloneADPCMArpeggio refAd.arpeggioNumber).1 })).arpFM = M.arpFM
        rw [updateADPCM_arpFM ((BT.InstrumentsManager.updateADPCM M c (fun a => { a with arpeggioEnabled := true })).cloneADPCMArpeggio refAd.arpeggioNumber).2 c (fun a => { a with arpeggioNumber := ((BT.InstrumentsManager.updateADPCM M c (fun a => { a with arpeggioEnabled := true })).cloneADPCMArpeggio refAd.arpeggioNumber).1 })]
        rw [show ((BT.InstrumentsManager.updateADPCM M c (fun a => { a with arpeggioEnabled := true })).cloneADPCMArpeggio refAd.arpeggioNumber).2.arpFM = (BT.InstrumentsManager.updateADPCM M c (fun a => { a with arpeggioEnabled := true })).arpFM from rfl]
        rw [updateADPCM_arpFM M c (fun a => { a with arpeggioEnabled := true })]
      rw [hFq, hfin_i]
      exact poolSync_update_irrelevant (fun s => by rw [hf]; rfl) inv.arpFM
    · have hFq : ({ (BT.InstrumentsManager.updateADPCM ((BT.InstrumentsManager.updateADPCM M c (fun a => { a with arpeggioEnabled := true })).cloneADPCMArpeggio refAd.arpeggioNumber).2 c (fun a => { a with arpeggioNumber := ((BT.InstrumentsManager.updateADPCM M c (fun a => { a with arpeggioEnabled := true })).cloneADPCMArpeggio refAd.arpeggioNumber).1 })) with arpADPCM := (BT.InstrumentsManager.updateADPCM ((BT.InstrumentsManager.updateADPCM M c (fun a => { a with arpeggioEnabled := true })).cloneADPCMArpeggio refAd.arpeggioNumber).2 c (fun a => { a with arpeggioNumber := ((BT.InstrumentsManager.updateADPCM M c (fun a => { a with arpeggioEnabled := true })).cloneADPCMArpeggio refAd.arpeggioNumber).1 })).arpADPCM.registerUser ((BT.InstrumentsManager.updateADPCM M c (fun a => { a with arpeggioEnabled := true })).cloneADPCMArpeggio refAd.arpeggioNumber).1 c }).ptFM = M.ptFM := by
        show (BT.InstrumentsManager.updateADPCM ((BT.InstrumentsManager.updateADPCM M c (fun a => { a with arpeggioEnabled := true })).cloneADPCMArpeggio refAd.arpeggioNumber).2 c (fun a => { a with arpeggioNumber := ((BT.InstrumentsManager.updateADPCM M c (fun a => { a with arpeggioEnabled := true })).cloneADPCMArpeggio refAd.arpeggioNumber).1 })).ptFM = M.ptFM
        rw [updateADPCM_ptFM ((BT.InstrumentsManager.updateADPCM M c (fun a => { a with arpeggioEnabled := true })).cloneADPCMArpeggio refAd.arpeggioNumber).2 c (fun a => { a with arpeggioNumber := ((BT.InstrumentsManager.updateADPCM M c (fun a => { a with arpeggioEnabled := true })).cloneADPCMArpeggio refAd.arpeggioNumber).1 })]
        rw [show ((BT.InstrumentsManager.updateADPCM M c (fun a => { a with arpeggioEnabled := true })).cloneADPCMArpeggio refAd.arpeggioNumber).2.ptFM = (BT.InstrumentsManager.updateADPCM M c (fun a => { a with arpeggioEnabled := true })).ptFM from rfl]
        rw [updateADPCM_ptFM M c (fun a => { a with arpeggioEnabled := true })]
      rw [hFq, hfin_i]
      exact poolSync_update_irrelevant (fun s => by rw [hf]; rfl) inv.ptFM
    · have hFq : ({ (BT.InstrumentsManager.updateADPCM ((BT.InstrumentsManager.updateADPCM M c (fun a => { a with arpeggioEnabled := true })).cloneADPCMArpeggio refAd.arpeggioNumber).2 c (fun a => { a with arpeggioNumber := ((BT.InstrumentsManager.updateADPCM M c (fun a => { a with arpeggioEnabled := true })).cloneADPCMArpeggio refAd.arpeggioNumber).1 })) with arpADPCM := (BT.InstrumentsManager.updateADPCM ((BT.InstrumentsManager.updateADPCM M c (fun a => { a with arpeggioEnabled := true })).cloneADPCMArpeggio refAd.arpeggioNumber).2 c (fun a => { a with arpeggioNumber := ((BT.InstrumentsManager.updateADPCM M c (fun a => { a with arpeggioEnabled := true })).cloneADPCMArpeggio refAd.arpeggioNumber).1 })).arpADPCM.registerUser ((BT.InstrumentsManager.updateADPCM M c (fun a => { a with arpeggioEnabled := true })).cloneADPCMArpeggio refAd.arpeggioNumber).1 c }).wfSSG = M.wfSSG := by
        show (BT.InstrumentsManager.updateADPCM ((BT.InstrumentsManager.updateADPCM M c (fun a => { a with arpeggioEnabled := true })).cloneADPCMArpeggio refAd.arpeggioNumber).2 c (fun a => { a with arpeggioNumber := ((BT.InstrumentsManager.updateADPCM M c (fun a => { a with arpeggioEnabled := true })).cloneADPCMArpeggio refAd.arpeggioNumber).1 })).wfSSG = M.wfSSG
        rw [updateADPCM_wfSSG ((BT.InstrumentsManager.updateADPCM M c (fun a => { a with arpeggioEnabled := true })).cloneADPCMArpeggio refAd.arpeggioNumber).2 c (fun a => { a with arpeggioNumber := ((BT.InstrumentsManager.updateADPCM M c (fun a => { a with arpeggioEnabled := true })).cloneADPCMArpeggio refAd.arpeggioNumber).1 })]
        rw [show ((BT.InstrumentsManager.updateADPCM M c (fun a => { a with arpeggioEnabled := true })).cloneADPCMArpeggio refAd.arpeggioNumber).2.wfSSG = (BT.InstrumentsManager.updateADPCM M c (fun a => { a with arpeggioEnabled := true })).wfSSG from rfl]
        rw [updateADPCM_wfSSG M c (fun a => { a with arpeggioEnabled := true })]
      rw [hFq, hfin_i]
      exact poolSync_update_irrelevant (fun s => by rw [hf]; rfl) inv.wfSSG
    · have hFq : ({ (BT.InstrumentsManager.updateADPCM ((BT.InstrumentsManager.updateADPCM M c (fun a => { a with arpeggioEnabled := true })).cloneADPCMArpeggio refAd.arpeggioNumber).2 c (fun a => { a with arpeggioNumber := ((BT.InstrumentsManager.updateADPCM M c (fun a => { a with arpeggioEnabled := true })).cloneADPCMArpeggio refAd.arpeggioNumber).1 })) with arpADPCM := (BT.InstrumentsManager.updateADPCM ((BT.InstrumentsManager.updateADPCM M c (fun a => { a with arpeggioEnabled := true })).cloneADPCMArpeggio refAd.arpeggioNumber).2 c (fun a => { a with arpeggioNumber := ((BT.InstrumentsManager.updateADPCM M c (fun a => { a with arpeggioEnabled := true })).cloneADPCMArpeggio refAd.arpeggioNumber).1 })).arpADPCM.registerUser ((BT.InstrumentsManager.updateADPCM M c (fun a => { a with arpeggioEnabled := true })).cloneADPCMArpeggio refAd.arpeggioNumber).1 c }).tnSSG = M.tnSSG := by
        show (BT.InstrumentsManager.updateADPCM ((BT.InstrumentsManager.updateADPCM M c (fun a => { a with arpeggioEnabled := true })).cloneADPCMArpeggio refAd.arpeggioNumber).2 c (fun a => { a with arpeggioNumber := ((BT.InstrumentsManager.updateADPCM M c (fun a => { a with arpeggioEnabled := true })).cloneADPCMArpeggio refAd.arpeggioNumber).1 })).tnSSG = M.tnSSG
        rw [updateADPCM_tnSSG ((BT.InstrumentsManager.updateADPCM M c (fun a => { a with arpeggioEnabled := true })).cloneADPCMArpeggio refAd.arpeggioNumber).2 c (fun a => { a with arpeggioNumber := ((BT.InstrumentsManager.updateADPCM M c (fun a => { a with arpeggioEnabled := true })).cloneADPCMArpeggio refAd.arpeggioNumber).1 })]
        rw [show ((BT.InstrumentsManager.updateADPCM M c (fun a => { a with arpeggioEnabled := true })).cloneADPCMArpeggio refAd.arpeggioNumber).2.tnSSG = (BT.InstrumentsManager.updateADPCM M c (fun a => { a with arpeggioEnabled := true })).tnSSG from rfl]
        rw [updateADPCM_tnSSG M c (fun a => { a with arpeggioEnabled := true })]
      rw [hFq, hfin_i]
      exact poolSync_update_irrelevant (fun s => by rw [hf]; rfl) inv.tnSSG
    · have hFq : ({ (BT.InstrumentsManager.updateADPCM ((BT.InstrumentsManager.updateADPCM M c (fun a => { a with arpeggioEnabled := true })).cloneADPCMArpeggio refAd.arpeggioNumber).2 c (fun a => { a with arpeggioNumber := ((BT.InstrumentsManager.updateADPCM M c (fun a => { a with arpeggioEnabled := true })).cloneADPCMArpeggio refAd.arpeggioNumber).1 })) with arpADPCM := (BT.InstrumentsManager.updateADPCM ((BT.InstrumentsManager.updateADPCM M c (fun a => { a with arpeggioEnabled := true })).cloneADPCMArpeggio refAd.arpeggioNumber).2 c (fun a => { a with arpeggioNumber := ((BT.InstrumentsManager.updateADPCM M c (fun a => { a with arpeggioEnabled := true })).cloneADPCMArpeggio refAd.arpeggioNumber).1 })).arpADPCM.registerUser ((BT.InstrumentsManager.updateADPCM M c (fun a => { a with arpeggioEnabled := true })).cloneADPCMArpeggio refAd.arpeggioNumber).1 c }).envSSG = M.envSSG := by
        show (BT.InstrumentsManager.updateADPCM ((BT.InstrumentsManager.updateADPCM M c (fun a => { a with arpeggioEnabled := true })).cloneADPCMArpeggio refAd.arpeggioNumber).2 c (fun a => { a with arpeggioNumber := ((BT.InstrumentsManager.updateADPCM M c (fun a => { a with arpeggioEnabled := true })).cloneADPCMArpeggio refAd.arpeggioNumber).1 })).envSSG = M.envSSG
        rw [updateADPCM_envSSG ((BT.InstrumentsManager.updateADPCM M c (fun a => { a with arpeggioEnabled := true })).cloneADPCMArpeggio refAd.arpeggioNumber).2 c (fun a => { a with arpeggioNumber := ((BT.InstrumentsManager.updateADPCM M c (fun a => { a with arpeggioEnabled := true })).cloneADPCMArpeggio refAd.arpeggioNumber).1 })]
        rw [show ((BT.InstrumentsManager.updateADPCM M c (fun a => { a with arpeggioEnabled := true })).cloneADPCMArpeggio refAd.arpeggioNumber).2.envSSG = (BT.InstrumentsManager.updateADPCM M c (fun a => { a with arpeggioEnabled := true })).envSSG from rfl]
        rw [updateADPCM_envSSG M c (fun a => { a with arpeggioEnabled := true })]
      rw [hFq, hfin_i]
      exact poolSync_update_irrelevant (fun s => by rw [hf]; rfl) inv.envSSG
    · have hFq : ({ (BT.InstrumentsManager.updateADPCM ((BT.InstrumentsManager.updateADPCM M c (fun a => { a with arpeggioEnabled := true })).cloneADPCMArpeggio refAd.arpeggioNumber).2 c (fun a => { a with arpeggioNumber := ((BT.InstrumentsManager.updateADPCM M c (fun a => { a with arpeggioEnabled := true })).cloneADPCMArpeggio refAd.arpeggioNumber).1 })) with arpADPCM := (BT.InstrumentsManager.updateADPCM ((BT.InstrumentsManager.updateADPCM M c (fun a => { a with arpeggioEnabled := true })).cloneADPCMArpeggio refAd.arpeggioNumber).2 c (fun a => { a with arpeggioNumber := ((BT.InstrumentsManager.updateADPCM M c (fun a => { a with arpeggioEnabled := true })).cloneADPCMArpeggio refAd.arpeggioNumber).1 })).arpADPCM.registerUser ((BT.InstrumentsManager.updateADPCM M c (fun a => { a with arpeggioEnabled := true })).cloneADPCMArpeggio refAd.arpeggioNumber).1 c }).arpSSG = M.arpSSG := by
        show (BT.InstrumentsManager.updateADPCM ((BT.InstrumentsManager.updateADPCM M c (fun a => { a with arpeggioEnabled := true })).cloneADPCMArpeggio refAd.arpeggioNumber).2 c (fun a => { a with arpeggioNumber := ((BT.InstrumentsManager.updateADPCM M c (fun a => { a with arpeggioEnabled := true })).cloneADPCMArpeggio refAd.arpeggioNumber).1 })).arpSSG = M.arpSSG
        rw [updateADPCM_arpSSG ((BT.InstrumentsManager.updateADPCM M c (fun a => { a with arpeggioEnabled := true })).cloneADPCMArpeggio refAd.arpeggioNumber).2 c (fun a => { a with arpeggioNumber := ((BT.InstrumentsManager.updateADPCM M c (fun a => { a with arpeggioEnabled := true })).cloneADPCMArpeggio refAd.arpeggioNumber).1 })]
        rw [show ((BT.InstrumentsManager.updateADPCM M c (fun a => { a with arpeggioEnabled := true })).cloneADPCMArpeggio refAd.arpeggioNumber).2.arpSSG = (BT.InstrumentsManager.updateADPCM M c (fun a => { a with arpeggioEnabled := true })).arpSSG from rfl]
        rw [updateADPCM_arpSSG M c (fun a => { a with arpeggioEnabled := true })]
      rw [hFq, hfin_i]
      exact poolSync_update_irrelevant (fun s => by rw [hf]; rfl) inv.arpSSG
    · have hFq : ({ (BT.InstrumentsManager.updateADPCM ((BT.InstrumentsManager.updateADPCM M c (fun a => { a with arpeggioEnabled := true })).cloneADPCMArpeggio refAd.arpeggioNumber).2 c (fun a => { a with arpeggioNumber := ((BT.InstrumentsManager.updateADPCM M c (fun a => { a with arpeggioEnabled := true })).cloneADPCMArpeggio refAd.arpeggioNumber).1 })) with arpADPCM := (BT.InstrumentsManager.updateADPCM ((BT.InstrumentsManager.updateADPCM M c (fun a => { a with arpeggioEnabled := true })).cloneADPCMArpeggio refAd.arpeggioNumber).2 c (fun a => { a with arpeggioNumber := ((BT.InstrumentsManager.updateADPCM M c (fun a => { a with arpeggioEnabled := true })).cloneADPCMArpeggio refAd.arpeggioNumber).1 })).arpADPCM.registerUser ((BT.InstrumentsManager.updateADPCM M c (fun a => { a with arpeggioEnabled := true })).cloneADPCMArpeggio refAd.arpeggioNumber).1 c }).ptSSG = M.ptSSG := by
        show (BT.InstrumentsManager.updateADPCM ((BT.InstrumentsManager.updateADPCM M c (fun a => { a with arpeggioEnabled := true })).cloneADPCMArpeggio refAd.arpeggioNumber).2 c (fun a => { a with arpeggioNumber := ((BT.InstrumentsManager.updateADPCM M c (fun a => { a with arpeggioEnabled := true })).cloneADPCMArpeggio refAd.arpeggioNumber).1 })).ptSSG = M.ptSSG
        rw [updateADPCM_ptSSG ((BT.InstrumentsManager.updateADPCM M c (fun a => { a with arpeggioEnabled := true })).cloneADPCMArpeggio refAd.arpeggioNumber).2 c (fun a => { a with arpeggioNumber := ((BT.InstrumentsManager.updateADPCM M c (fun a => { a with arpeggioEnabled := true })).cloneADPCMArpeggio refAd.arpeggioNumber).1 })]
        rw [show ((BT.InstrumentsManager.updateADPCM M c (fun a => { a with arpeggioEnabled := true })).cloneADPCMArpeggio refAd.arpeggioNumber).2.ptSSG = (BT.InstrumentsManager.updateADPCM M c (fun a => { a with arpeggioEnabled := true })).ptSSG from rfl]
        rw [updateADPCM_ptSSG M c (fun a => { a with arpeggioEnabled := true })]
      rw [hFq, hfin_i]
      exact poolSync_update_irrelevant (fun s => by rw [hf]; rfl) inv.ptSSG
    · have hFq : ({ (BT.InstrumentsManager.updateADPCM ((BT.InstrumentsManager.updateADPCM M c (fun a => { a with arpeggioEnabled := true })).cloneADPCMArpeggio refAd.arpeggioNumber).2 c (fun a => { a with arpeggioNumber := ((BT.InstrumentsManager.updateADPCM M c (fun a => { a with arpeggioEnabled := true })).cloneADPCMArpeggio refAd.arpeggioNumber).1 })) with arpADPCM := (BT.InstrumentsManager.updateADPCM ((BT.InstrumentsManager.updateADPCM M c (fun a => { a with arpeggioEnabled := true })).cloneADPCMArpeggio refAd.arpeggioNumber).2 c (fun a => { a with arpeggioNumber := ((BT.InstrumentsManager.updateADPCM M c (fun a => { a with arpeggioEnabled := true })).cloneADPCMArpeggio refAd.arpeggioNumber).1 })).arpADPCM.registerUser ((BT.InstrumentsManager.updateADPCM M c (fun a => { a with arpeggioEnabled := true })).cloneADPCMArpeggio refAd.arpeggioNumber).1 c }).wfADPCM = M.wfADPCM := by
        show (BT.InstrumentsManager.updateADPCM ((BT.InstrumentsManager.updateADPCM M c (fun a => { a with arpeggioEnabled := true })).cloneADPCMArpeggio refAd.arpeggioNumber).2 c (fun a => { a with arpeggioNumber := ((BT.InstrumentsManager.updateADPCM M c (fun a => { a with arpeggioEnabled := true })).cloneADPCMArpeggio refAd.arpeggioNumber).1 })).wfADPCM = M.wfADPCM
        rw [updateADPCM_wfADPCM ((BT.InstrumentsManager.updateADPCM M c (fun a => { a with arpeggioEnabled := true })).cloneADPCMArpeggio refAd.arpeggioNumber).2 c (fun a => { a with arpeggioNumber := ((BT.InstrumentsManager.updateADPCM M c (fun a => { a with arpeggioEnabled := true })).cloneADPCMArpeggio refAd.arpeggioNumber).1 })]
        rw [show ((BT.InstrumentsManager.updateADPCM M c (fun a => { a with arpeggioEnabled := true })).cloneADPCMArpeggio refAd.arpeggioNumber).2.wfADPCM = (BT.InstrumentsManager.updateADPCM M c (fun a => { a with arpeggioEnabled := true })).wfADPCM from rfl]
        rw [updateADPCM_wfADPCM M c (fun a => { a with arpeggioEnabled := true })]
      rw [hFq, hfin_i]
      exact poolSync_update_irrelevant (fun s => by rw [hf]; rfl) inv.wfADPCM
    · have hFq : ({ (BT.InstrumentsManager.updateADPCM ((BT.InstrumentsManager.updateADPCM M c (fun a => { a with arpeggioEnabled := true })).cloneADPCMArpeggio refAd.arpeggioNumber).2 c (fun a => { a with arpeggioNumber := ((BT.InstrumentsManager.updateADPCM M c (fun a => { a with arpeggioEnabled := true })).cloneADPCMArpeggio refAd.arpeggioNumber).1 })) with arpADPCM := (BT.InstrumentsManager.updateADPCM ((BT.InstrumentsManager.updateADPCM M c (fun a => { a with arpeggioEnabled := true })).cloneADPCMArpeggio refAd.arpeggioNumber).2 c (fun a => { a with arpeggioNumber := ((BT.InstrumentsManager.updateADPCM M c (fun a => { a with arpeggioEnabled := true })).cloneADPCMArpeggio refAd.arpeggioNumber).1 })).arpADPCM.registerUser ((BT.InstrumentsManager.updateADPCM M c (fun a => { a with arpeggioEnabled := true })).cloneADPCMArpeggio refAd.arpeggioNumber).1 c }).envADPCM = M.envADPCM := by
        show (BT.InstrumentsManager.updateADPCM ((BT.InstrumentsManager.updateADPCM M c (fun a => { a with arpeggioEnabled := true })).cloneADPCMArpeggio refAd.arpeggioNumber).2 c (fun a => { a with arpeggioNumber := ((BT.InstrumentsManager.updateADPCM M c (fun a => { a with arpeggioEnabled := true })).cloneADPCMArpeggio refAd.arpeggioNumber).1 })).envADPCM = M.envADPCM
        rw [updateADPCM_envADPCM ((BT.InstrumentsManager.updateADPCM M c (fun a => { a with arpeggioEnabled := true })).cloneADPCMArpeggio refAd.arpeggioNumber).2 c (fun a => { a with arpeggioNumber := ((BT.InstrumentsManager.updateADPCM M c (fun a => { a with arpeggioEnabled := true })).cloneADPCMArpeggio refAd.arpeggioNumber).1 })]
        rw [show ((BT.InstrumentsManager.updateADPCM M c (fun a => { a with arpeggioEnabled := true })).cloneADPCMArpeggio refAd.arpeggioNumber).2.envADPCM = (BT.InstrumentsManager.updateADPCM M c (fun a => { a with arpeggioEnabled := true })).envADPCM from rfl]
        rw [updateADPCM_envADPCM M c (fun a => { a with arpeggioEnabled := true })]
      rw [hFq, hfin_i]
      exact poolSync_update_irrelevant (fun s => by rw [hf]; rfl) inv.envADPCM
    · rw [hfin_i]
      exact poolSync_overwrite_register hc hf hold husers inv.arpADPCM
    · have hFq : ({ (BT.InstrumentsManager.updateADPCM ((BT.InstrumentsManager.updateADPCM M c (fun a => { a with arpeggioEnabled := true })).cloneADPCMArpeggio refAd.arpeggioNumber).2 c (fun a => { a with arpeggioNumber := ((BT.InstrumentsManager.updateADPCM M c (fun a => { a with arpeggioEnabled := true })).cloneADPCMArpeggio refAd.arpeggioNumber).1 })) with arpADPCM := (BT.InstrumentsManager.updateADPCM ((BT.InstrumentsManager.updateADPCM M c (fun a => { a with arpeggioEnabled := true })).cloneADPCMArpeggio refAd.arpeggioNumber).2 c (fun a => { a with arpeggioNumber := ((BT.InstrumentsManager.updateADPCM M c (fun a => { a with arpeggioEnabled := true })).cloneADPCMArpeggio refAd.arpeggioNumber).1 })).arpADPCM.registerUser ((BT.InstrumentsManager.updateADPCM M c (fun a => { a with arpeggioEnabled := true })).cloneADPCMArpeggio refAd.arpeggioNumber).1 c }).ptADPCM = M.ptADPCM := by
        show (BT.InstrumentsManager.updateADPCM ((BT.InstrumentsManager.updateADPCM M c (fun a => { a with arpeggioEnabled := true })).cloneADPCMArpeggio refAd.arpeggioNumber).2 c (fun a => { a with arpeggioNumber := ((BT.InstrumentsManager.updateADPCM M c (fun a => { a with arpeggioEnabled := true })).cloneADPCMArpeggio refAd.arpeggioNumber).1 })).ptADPCM = M.ptADPCM
        rw [updateADPCM_ptADPCM ((BT.InstrumentsManager.updateADPCM M c (fun a => { a with arpeggioEnabled := true })).cloneADPCMArpeggio refAd.arpeggioNumber).2 c (fun a => { a with arpeggioNumber := ((BT.InstrumentsManager.updateADPCM M c (fun a => { a with arpeggioEnabled := true })).cloneADPCMArpeggio refAd.arpeggioNumber).1 })]
        rw [show ((BT.InstrumentsManager.updateADPCM M c (fun a => { a with arpeggioEnabled := true })).cloneADPCMArpeggio refAd.arpeggioNumber).2.ptADPCM = (BT.InstrumentsManager.updateADPCM M c (fun a => { a with arpeggioEnabled := true })).ptADPCM from rfl]
        rw [updateADPCM_ptADPCM M c (fun a => { a with arpeggioEnabled := true })]
      rw [hFq, hfin_i]
      exact poolSync_update_irrelevant (fun s => by rw [hf]; rfl) inv.ptADPCM
  · rw [if_neg hb]
    exact ⟨inv, f, hf, rfl, rfl⟩

set_option maxHeartbeats 2000000 in
/-- The ptADPCM deep-clone block preserves the invariant: the prior flag is
disabled, so the freshly registered slot is the record's only reference. -/
theorem inv_dcBlock_ptADPCM (M : BT.InstrumentsManager) (refAd : BT.InstrumentADPCM) (c : Nat)
    (hc : c < 128) (f : BT.InstrumentADPCM) (hf : M.insts c = some (.adpcm f))
    (hflag : f.pitchEnabled = false) (inv : BT.Inv M) :
    BT.Inv (if refAd.pitchEnabled then { (BT.InstrumentsManager.updateADPCM ((BT.InstrumentsManager.updateADPCM M c (fun a => { a with pitchEnabled := true })).cloneADPCMPitch refAd.pitchNumber).2 c (fun a => { a with pitchNumber := ((BT.InstrumentsManager.updateADPCM M c (fun a => { a with pitchEnabled := true })).cloneADPCMPitch refAd.pitchNumber).1 })) with ptADPCM := (BT.InstrumentsManager.updateADPCM ((BT.InstrumentsManager.updateADPCM M c (fun a => { a with pitchEnabled := true })).cloneADPCMPitch refAd.pitchNumber).2 c (fun a => { a with pitchNumber := ((BT.InstrumentsManager.updateADPCM M c (fun a => { a with pitchEnabled := true })).cloneADPCMPitch refAd.pitchNumber).1 })).ptADPCM.registerUser ((BT.InstrumentsManager.updateADPCM M c (fun a => { a with pitchEnabled := true })).cloneADPCMPitch refAd.pitchNumber).1 c } else M) ∧
    ∃ f', ((if refAd.pitchEnabled then { (BT.InstrumentsManager.updateADPCM ((BT.InstrumentsManager.updateADPCM M c (fun a => { a with pitchEnabled := true })).cloneADPCMPitch refAd.pitchNumber).2 c (fun a => { a with pitchNumber := ((BT.InstrumentsManager.updateADPCM M c (fun a => { a with pitchEnabled := true })).cloneADPCMPitch refAd.pitchNumber).1 })) with ptADPCM := (BT.InstrumentsManager.updateADPCM ((BT.InstrumentsManager.updateADPCM M c (fun a => { a with pitchEnabled := true })).cloneADPCMPitch refAd.pitchNumber).2 c (fun a => { a with pitchNumber := ((BT.InstrumentsManager.updateADPCM M c (fun a => { a with pitchEnabled := true })).cloneADPCMPitch refAd.pitchNumber).1 })).ptADPCM.registerUser ((BT.InstrumentsManager.updateADPCM M c (fun a => { a with pitchEnabled := true })).cloneADPCMPitch refAd.pitchNumber).1 c } else M)).insts c = some (.adpcm f') ∧
      f'.envelopeEnabled = f.envelopeEnabled ∧
      f'.arpeggioEnabled = f.arpeggioEnabled := by
  by_cases hb : refAd.pitchEnabled = true
  · rw [if_pos hb]
    have hma_i : (BT.InstrumentsManager.updateADPCM M c (fun a => { a with pitchEnabled := true })).insts = Function.update M.insts c (some (.adpcm { f with pitchEnabled := true })) :=
      updateADPCM_insts M c (fun a => { a with pitchEnabled := true }) f hf
    have hma_c : (BT.InstrumentsManager.updateADPCM M c (fun a => { a with pitchEnabled := true })).insts c = some (.adpcm { f with pitchEnabled := true }) := by
      rw [hma_i]
      exact Function.update_same c _ M.insts
    have hrl_c : ((BT.InstrumentsManager.updateADPCM M c (fun a => { a with pitchEnabled := true })).cloneADPCMPitch refAd.pitchNumber).2.insts c = some (.adpcm { f with pitchEnabled := true }) := hma_c
    have hmb_i : (BT.InstrumentsManager.updateADPCM ((BT.InstrumentsManager.updateADPCM M c (fun a => { a with pitchEnabled := true })).cloneADPCMPitch refAd.pitchNumber).2 c (fun a => { a with pitchNumber := ((BT.InstrumentsManager.updateADPCM M c (fun a => { a with pitchEnabled := true })).cloneADPCMPitch refAd.pitchNumber).1 })).insts = Function.update ((BT.InstrumentsManager.updateADPCM M c (fun a => { a with pitchEnabled := true })).cloneADPCMPitch refAd.pitchNumber).2.insts c
        (some (.adpcm { { f with pitchEnabled := true } with pitchNumber := ((BT.InstrumentsManager.updateADPCM M c (fun a => { a with pitchEnabled := true })).cloneADPCMPitch refAd.pitchNumber).1 })) :=
      updateADPCM_insts ((BT.InstrumentsManager.updateADPCM M c (fun a => { a with pitchEnabled := true })).cloneADPCMPitch refAd.pitchNumber).2 c (fun a => { a with pitchNumber := ((BT.InstrumentsManager.updateADPCM M c (fun a => { a with pitchEnabled := true })).cloneADPCMPitch refAd.pitchNumber).1 }) { f with pitchEnabled := true } hrl_c
    have hfin_i : ({ (BT.InstrumentsManager.updateADPCM ((BT.InstrumentsManager.updateADPCM M c (fun a => { a with pitchEnabled := true })).cloneADPCMPitch refAd.pitchNumber).2 c (fun a => { a with pitchNumber := ((BT.InstrumentsManager.updateADPCM M c (fun a => { a with pitchEnabled := true })).cloneADPCMPitch refAd.pitchNumber).1 })) with ptADPCM := (BT.InstrumentsManager.updateADPCM ((BT.InstrumentsManager.updateADPCM M c (fun a => { a with pitchEnabled := true })).cloneADPCMPitch refAd.pitchNumber).2 c (fun a => { a with pitchNumber := ((BT.InstrumentsManager.updateADPCM M c (fun a => { a with pitchEnabled := true })).cloneADPCMPitch refAd.pitchNumber).1 })).ptADPCM.registerUser ((BT.InstrumentsManager.updateADPCM M c (fun a => { a with pitchEnabled := true })).cloneADPCMPitch refAd.pitchNumber).1 c }).insts = Function.update M.insts c (some (.adpcm { f with pitchEnabled := true, pitchNumber := ((BT.InstrumentsManager.updateADPCM M c (fun a => { a with pitchEnabled := true })).cloneADPCMPitch refAd.pitchNumber).1 })) := by
      show (BT.InstrumentsManager.updateADPCM ((BT.InstrumentsManager.updateADPCM M c (fun a => { a with pitchEnabled := true })).cloneADPCMPitch refAd.pitchNumber).2 c (fun a => { a with pitchNumber := ((BT.InstrumentsManager.updateADPCM M c (fun a => { a with pitchEnabled := true })).cloneADPCMPitch refAd.pitchNumber).1 })).insts = _
      rw [hmb_i]
      show Function.update (BT.InstrumentsManager.updateADPCM M c (fun a => { a with pitchEnabled := true })).insts c (some (.adpcm { f with pitchEnabled := true, pitchNumber := ((BT.InstrumentsManager.updateADPCM M c (fun a => { a with pitchEnabled := true })).cloneADPCMPitch refAd.pitchNumber).1 })) = _
      rw [hma_i, Function.update_idem]
    have hfin_pool : ({ (BT.InstrumentsManager.updateADPCM ((BT.InstrumentsManager.updateADPCM M c (fun a => { a with pitchEnabled := true })).cloneADPCMPitch refAd.pitchNumber).2 c (fun a => { a with pitchNumber := ((BT.InstrumentsManager.updateADPCM M c (fun a => { a with pitchEnabled := true })).cloneADPCMPitch refAd.pitchNumber).1 })) with ptADPCM := (BT.InstrumentsManager.updateADPCM ((BT.InstrumentsManager.updateADPCM M c (fun a => { a with pitchEnabled := true })).cloneADPCMPitch refAd.pitchNumber).2 c (fun a => { a with pitchNumber := ((BT.InstrumentsManager.updateADPCM M c (fun a => { a with pitchEnabled := true })).cloneADPCMPitch refAd.pitchNumber).1 })).ptADPCM.registerUser ((BT.InstrumentsManager.updateADPCM M c (fun a => { a with pitchEnabled := true })).cloneADPCMPitch refAd.pitchNumber).1 c }).ptADPCM =
        (((BT.InstrumentsManager.updateADPCM M c (fun a => { a with pitchEnabled := true })).ptADPCM.cloneProp refAd.pitchNumber).2).registerUser ((BT.InstrumentsManager.updateADPCM M c (fun a => { a with pitchEnabled := true })).cloneADPCMPitch refAd.pitchNumber).1 c := by
      show (BT.InstrumentsManager.updateADPCM ((BT.InstrumentsManager.updateADPCM M c (fun a => { a with pitchEnabled := true })).cloneADPCMPitch refAd.pitchNumber).2 c (fun a => { a with pitchNumber := ((BT.InstrumentsManager.updateADPCM M c (fun a => { a with pitchEnabled := true })).cloneADPCMPitch refAd.pitchNumber).1 })).ptADPCM.registerUser ((BT.InstrumentsManager.updateADPCM M c (fun a => { a with pitchEnabled := true })).cloneADPCMPitch refAd.pitchNumber).1 c = _
      rw [updateADPCM_ptADPCM ((BT.InstrumentsManager.updateADPCM M c (fun a => { a with pitchEnabled := true })).cloneADPCMPitch refAd.pitchNumber).2 c (fun a => { a with pitchNumber := ((BT.InstrumentsManager.updateADPCM M c (fun a => { a with pitchEnabled := true })).cloneADPCMPitch refAd.pitchNumber).1 })]
      rfl
    have hold : ∀ s, BT.adpcmPtPoints (.adpcm f) s = false := by
      intro s
      show (f.pitchEnabled && (f.pitchNumber == s)) = false
      rw [hflag]
      rfl
    have husers : ∀ s, s < 128 → (({ (BT.InstrumentsManager.updateADPCM ((BT.InstrumentsManager.updateADPCM M c (fun a => { a with pitchEnabled := true })).cloneADPCMPitch refAd.pitchNumber).2 c (fun a => { a with pitchNumber := ((BT.InstrumentsManager.updateADPCM M c (fun a => { a with pitchEnabled := true })).cloneADPCMPitch refAd.pitchNumber).1 })) with ptADPCM := (BT.InstrumentsManager.updateADPCM ((BT.InstrumentsManager.updateADPCM M c (fun a => { a with pitchEnabled := true })).cloneADPCMPitch refAd.pitchNumber).2 c (fun a => { a with pitchNumber := ((BT.InstrumentsManager.updateADPCM M c (fun a => { a with pitchEnabled := true })).cloneADPCMPitch refAd.pitchNumber).1 })).ptADPCM.registerUser ((BT.InstrumentsManager.updateADPCM M c (fun a => { a with pitchEnabled := true })).cloneADPCMPitch refAd.pitchNumber).1 c }).ptADPCM s).users =
        if BT.adpcmPtPoints (.adpcm { f with pitchEnabled := true, pitchNumber := ((BT.InstrumentsManager.updateADPCM M c (fun a => { a with pitchEnabled := true })).cloneADPCMPitch refAd.pitchNumber).1 }) s = true
        then insert c ((M.ptADPCM s).users) else (M.ptADPCM s).users := by
      intro s hs
      rw [hfin_pool, users_registerUser, users_cloneProp, users_cloneProp]
      rw [updateADPCM_ptADPCM M c (fun a => { a with pitchEnabled := true })]
      by_cases hp : BT.adpcmPtPoints (.adpcm { f with pitchEnabled := true, pitchNumber := ((BT.InstrumentsManager.updateADPCM M c (fun a => { a with pitchEnabled := true })).cloneADPCMPitch refAd.pitchNumber).1 }) s = true
      · rw [if_pos hp]
        have h2 : (true && (((BT.InstrumentsManager.updateADPCM M c (fun a => { a with pitchEnabled := true })).cloneADPCMPitch refAd.pitchNumber).1 == s)) = true := hp
        rw [Bool.true_and, beq_iff_eq] at h2
        rw [if_pos h2.symm, h2]
      · rw [if_neg hp]
        have hsne : ¬ s = ((BT.InstrumentsManager.updateADPCM M c (fun a => { a with pitchEnabled := true })).cloneADPCMPitch refAd.pitchNumber).1 := by
          intro hseq
          apply hp
          show (true && (((BT.InstrumentsManager.updateADPCM M c (fun a => { a with pitchEnabled := true })).cloneADPCMPitch refAd.pitchNumber).1 == s)) = true
          rw [hseq]
          simp
        rw [if_neg hsne]
    refine ⟨⟨?_, ?_, ?_, ?_, ?_, ?_, ?_, ?_, ?_, ?_, ?_, ?_, ?_, ?_⟩,
      { f with pitchEnabled := true, pitchNumber := ((BT.InstrumentsManager.updateADPCM M c (fun a => { a with pitchEnabled := true })).cloneADPCMPitch refAd.pitchNumber).1 }, by
        rw [hfin_i]
        exact Function.update_same c _ M.insts, rfl, rfl⟩
    · have hFq : ({ (BT.InstrumentsManager.updateADPCM ((BT.InstrumentsManager.updateADPCM M c (fun a => { a with pitchEnabled := true })).cloneADPCMPitch refAd.pitchNumber).2 c (fun a => { a with pitchNumber := ((BT.InstrumentsManager.updateADPCM M c (fun a => { a with pitchEnabled := true })).cloneADPCMPitch refAd.pitchNumber).1 })) with ptADPCM := (BT.InstrumentsManager.updateADPCM ((BT.InstrumentsManager.updateADPCM M c (fun a => { a with pitchEnabled := true })).cloneADPCMPitch refAd.pitchNumber).2 c (fun a => { a with pitchNumber := ((BT.InstrumentsManager.updateADPCM M c (fun a => { a with pitchEnabled := true })).cloneADPCMPitch refAd.pitchNumber).1 })).ptADPCM.registerUser ((BT.InstrumentsManager.updateADPCM M c (fun a => { a with pitchEnabled := true })).cloneADPCMPitch refAd.pitchNumber).1 c }).envFM = M.envFM := by
        show (BT.InstrumentsManager.updateADPCM ((BT.InstrumentsManager.updateADPCM M c (fun a => { a with pitchEnabled := true })).cloneADPCMPitch refAd.pitchNumber).2 c (fun a => { a with pitchNumber := ((BT.InstrumentsManager.updateADPCM M c (fun a => { a with pitchEnabled := true })).cloneADPCMPitch refAd.pitchNumber).1 })).envFM = M.envFM
        rw [updateADPCM_envFM ((BT.InstrumentsManager.updateADPCM M c (fun a => { a with pitchEnabled := true })).cloneADPCMPitch refAd.pitchNumber).2 c (fun a => { a with pitchNumber := ((BT.InstrumentsManager.updateADPCM M c (fun a => { a with pitchEnabled := true })).cloneADPCMPitch refAd.pitchNumber).1 })]
        rw [show ((BT.InstrumentsManager.updateADPCM M c (fun a => { a with pitchEnabled := true })).cloneADPCMPitch refAd.pitchNumber).2.envFM = (BT.InstrumentsManager.updateADPCM M c (fun a => { a with pitchEnabled := true })).envFM from rfl]
        rw [updateADPCM_envFM M c (fun a => { a with pitchEnabled := true })]
      rw [hFq, hfin_i]
      exact poolSync_update_irrelevant (fun s => by rw [hf]; rfl) inv.envFM
    · have hFq : ({ (BT.InstrumentsManager.updateADPCM ((BT.InstrumentsManager.updateADPCM M c (fun a => { a with pitchEnabled := true })).cloneADPCMPitch refAd.pitchNumber).2 c (fun a => { a with pitchNumber := ((BT.InstrumentsManager.updateADPCM M c (fun a => { a with pitchEnabled := true })).cloneADPCMPitch refAd.pitchNumber).1 })) with ptADPCM := (BT.InstrumentsManager.updateADPCM ((BT.InstrumentsManager.updateADPCM M c (fun a => { a with pitchEnabled := true })).cloneADPCMPitch refAd.pitchNumber).2 c (fun a => { a with pitchNumber := ((BT.InstrumentsManager.updateADPCM M c (fun a => { a with pitchEnabled := true })).cloneADPCMPitch refAd.pitchNumber).1 })).ptADPCM.registerUser ((BT.InstrumentsManager.updateADPCM M c (fun a => { a with pitchEnabled := true })).cloneADPCMPitch refAd.pitchNumber).1 c }).lfoFM = M.lfoFM := by
        show (BT.InstrumentsManager.updateADPCM ((BT.InstrumentsManager.updateADPCM M c (fun a => { a with pitchEnabled := true })).cloneADPCMPitch refAd.pitchNumber).2 c (fun a => { a with pitchNumber := ((BT.InstrumentsManager.updateADPCM M c (fun a => { a with pitchEnabled := true })).cloneADPCMPitch refAd.pitchNumber).1 })).lfoFM = M.lfoFM
        rw [updateADPCM_lfoFM ((BT.InstrumentsManager.updateADPCM M c (fun a => { a with pitchEnabled := true })).cloneADPCMPitch refAd.pitchNumber).2 c (fun a => { a with pitchNumber := ((BT.InstrumentsManager.updateADPCM M c (fun a => { a with pitchEnabled := true })).cloneADPCMPitch refAd.pitchNumber).1 })]
        rw [show ((BT.InstrumentsManager.updateADPCM M c (fun a => { a with pitchEnabled := true })).cloneADPCMPitch refAd.pitchNumber).2.lfoFM = (BT.InstrumentsManager.updateADPCM M c (fun a => { a with pitchEnabled := true })).lfoFM from rfl]
        rw [updateADPCM_lfoFM M c (fun a => { a with pitchEnabled := true })]
      rw [hFq, hfin_i]
      exact poolSync_update_irrelevant (fun s => by rw [hf]; rfl) inv.lfoFM
    · intro p hp
      have hFq : ({ (BT.InstrumentsManager.updateADPCM ((BT.InstrumentsManager.updateADPCM M c (fun a => { a with pitchEnabled := true })).cloneADPCMPitch refAd.pitchNumber).2 c (fun a => { a with pitchNumber := ((BT.InstrumentsManager.updateADPCM M c (fun a => { a with pitchEnabled := true })).cloneADPCMPitch refAd.pitchNumber).1 })) with ptADPCM := (BT.InstrumentsManager.updateADPCM ((BT.InstrumentsManager.updateADPCM M c (fun a => { a with pitchEnabled := true })).cloneADPCMPitch refAd.pitchNumber).2 c (fun a => { a with pitchNumber := ((BT.InstrumentsManager.updateADPCM M c (fun a => { a with pitchEnabled := true })).cloneADPCMPitch refAd.pitchNumber).1 })).ptADPCM.registerUser ((BT.InstrumentsManager.updateADPCM M c (fun a => { a with pitchEnabled := true })).cloneADPCMPitch refAd.pitchNumber).1 c }).opSeqFM = M.opSeqFM := by
        show (BT.InstrumentsManager.updateADPCM ((BT.InstrumentsManager.updateADPCM M c (fun a => { a with pitchEnabled := true })).cloneADPCMPitch refAd.pitchNumber).2 c (fun a => { a with pitchNumber := ((BT.InstrumentsManager.updateADPCM M c (fun a => { a with pitchEnabled := true })).cloneADPCMPitch refAd.pitchNumber).1 })).opSeqFM = M.opSeqFM
        rw [updateADPCM_opSeqFM ((BT.InstrumentsManager.updateADPCM M c (fun a => { a with pitchEnabled := true })).cloneADPCMPitch refAd.pitchNumber).2 c (fun a => { a with pitchNumber := ((BT.InstrumentsManager.updateADPCM M c (fun a => { a with pitchEnabled := true })).cloneADPCMPitch refAd.pitchNumber).1 })]
        rw [show ((BT.InstrumentsManager.updateADPCM M c (fun a => { a with pitchEnabled := true })).cloneADPCMPitch refAd.pitchNumber).2.opSeqFM = (BT.InstrumentsManager.updateADPCM M c (fun a => { a with pitchEnabled := true })).opSeqFM from rfl]
        rw [updateADPCM_opSeqFM M c (fun a => { a with pitchEnabled := true })]
      rw [hFq, hfin_i]
      exact poolSync_update_irrelevant (fun s => by rw [hf]; rfl) (inv.opSeqFM p hp)
    · have hFq : ({ (BT.InstrumentsManager.updateADPCM ((BT.InstrumentsManager.updateADPCM M c (fun a => { a with pitchEnabled := true })).cloneADPCMPitch refAd.pitchNumber).2 c (fun a => { a with pitchNumber := ((BT.InstrumentsManager.updateADPCM M c (fun a => { a with pitchEnabled := true })).cloneADPCMPitch refAd.pitchNumber).1 })) with ptADPCM := (BT.InstrumentsManager.updateADPCM ((BT.InstrumentsManager.updateADPCM M c (fun a => { a with pitchEnabled := true })).cloneADPCMPitch refAd.pitchNumber).2 c (fun a => { a with pitchNumber := ((BT.InstrumentsManager.updateADPCM M c (fun a => { a with pitchEnabled := true })).cloneADPCMPitch refAd.pitchNumber).1 })).ptADPCM.registerUser ((BT.InstrumentsManager.updateADPCM M c (fun a => { a with pitchEnabled := true })).cloneADPCMPitch refAd.pitchNumber).1 c }).arpFM = M.arpFM := by
        show (BT.InstrumentsManager.updateADPCM ((BT.InstrumentsManager.updateADPCM M c (fun a => { a with pitchEnabled := true })).cloneADPCMPitch refAd.pitchNumber).2 c (fun a => { a with pitchNumber := ((BT.InstrumentsManager.updateADPCM M c (fun a => { a with pitchEnabled := true })).cloneADPCMPitch refAd.pitchNumber).1 })).arpFM = M.arpFM
        rw [updateADPCM_arpFM ((BT.InstrumentsManager.updateADPCM M c (fun a => { a with pitchEnabled := true })).cloneADPCMPitch refAd.pitchNumber).2 c (fun a => { a with pitchNumber := ((BT.InstrumentsManager.updateADPCM M c (fun a => { a with pitchEnabled := true })).cloneADPCMPitch refAd.pitchNumber).1 })]
        rw [show ((BT.InstrumentsManager.updateADPCM M c (fun a => { a with pitchEnabled := true })).cloneADPCMPitch refAd.pitchNumber).2.arpFM = (BT.InstrumentsManager.updateADPCM M c (fun a => { a with pitchEnabled := true })).arpFM from rfl]
        rw [updateADPCM_arpFM M c (fun a => { a with pitchEnabled := true })]
      rw [hFq, hfin_i]
      exact poolSync_update_irrelevant (fun s => by rw [hf]; rfl) inv.arpFM
    · have hFq : ({ (BT.InstrumentsManager.updateADPCM ((BT.InstrumentsManager.updateADPCM M c (fun a => { a with pitchEnabled := true })).cloneADPCMPitch refAd.pitchNumber).2 c (fun a => { a with pitchNumber := ((BT.InstrumentsManager.updateADPCM M c (fun a => { a with pitchEnabled := true })).cloneADPCMPitch refAd.pitchNumber).1 })) with ptADPCM := (BT.InstrumentsManager.updateADPCM ((BT.InstrumentsManager.updateADPCM M c (fun a => { a with pitchEnabled := true })).cloneADPCMPitch refAd.pitchNumber).2 c (fun a => { a with pitchNumber := ((BT.InstrumentsManager.updateADPCM M c (fun a => { a with pitchEnabled := true })).cloneADPCMPitch refAd.pitchNumber).1 })).ptADPCM.registerUser ((BT.InstrumentsManager.updateADPCM M c (fun a => { a with pitchEnabled := true })).cloneADPCMPitch refAd.pitchNumber).1 c }).ptFM = M.ptFM := by
        show (BT.InstrumentsManager.updateADPCM ((BT.InstrumentsManager.updateADPCM M c (fun a => { a with pitchEnabled := true })).cloneADPCMPitch refAd.pitchNumber).2 c (fun a => { a with pitchNumber := ((BT.InstrumentsManager.updateADPCM M c (fun a => { a with pitchEnabled := true })).cloneADPCMPitch refAd.pitchNumber).1 })).ptFM = M.ptFM
        rw [updateADPCM_ptFM ((BT.InstrumentsManager.updateADPCM M c (fun a => { a with pitchEnabled := true })).cloneADPCMPitch refAd.pitchNumber).2 c (fun a => { a with pitchNumber := ((BT.InstrumentsManager.updateADPCM M c (fun a => { a with pitchEnabled := true })).cloneADPCMPitch refAd.pitchNumber).1 })]
        rw [show ((BT.InstrumentsManager.updateADPCM M c (fun a => { a with pitchEnabled := true })).cloneADPCMPitch refAd.pitchNumber).2.ptFM = (BT.InstrumentsManager.updateADPCM M c (fun a => { a with pitchEnabled := true })).ptFM from rfl]
        rw [updateADPCM_ptFM M c (fun a => { a with pitchEnabled := true })]
      rw [hFq, hfin_i]
      exact poolSync_update_irrelevant (fun s => by rw [hf]; rfl) inv.ptFM
    · have hFq : ({ (BT.InstrumentsManager.updateADPCM ((BT.InstrumentsManager.updateADPCM M c (fun a => { a with pitchEnabled := true })).cloneADPCMPitch refAd.pitchNumber).2 c (fun a => { a with pitchNumber := ((BT.InstrumentsManager.updateADPCM M c (fun a => { a with pitchEnabled := true })).cloneADPCMPitch refAd.pitchNumber).1 })) with ptADPCM := (BT.InstrumentsManager.updateADPCM ((BT.InstrumentsManager.updateADPCM M c (fun a => { a with pitchEnabled := true })).cloneADPCMPitch refAd.pitchNumber).2 c (fun a => { a with pitchNumber := ((BT.InstrumentsManager.updateADPCM M c (fun a => { a with pitchEnabled := true })).cloneADPCMPitch refAd.pitchNumber).1 })).ptADPCM.registerUser ((BT.InstrumentsManager.updateADPCM M c (fun a => { a with pitchEnabled := true })).cloneADPCMPitch refAd.pitchNumber).1 c }).wfSSG = M.wfSSG := by
        show (BT.InstrumentsManager.updateADPCM ((BT.InstrumentsManager.updateADPCM M c (fun a => { a with pitchEnabled := true })).cloneADPCMPitch refAd.pitchNumber).2 c (fun a => { a with pitchNumber := ((BT.InstrumentsManager.updateADPCM M c (fun a => { a with pitchEnabled := true })).cloneADPCMPitch refAd.pitchNumber).1 })).wfSSG = M.wfSSG
        rw [updateADPCM_wfSSG ((BT.InstrumentsManager.updateADPCM M c (fun a => { a with pitchEnabled := true })).cloneADPCMPitch refAd.pitchNumber).2 c (fun a => { a with pitchNumber := ((BT.InstrumentsManager.updateADPCM M c (fun a => { a with pitchEnabled := true })).cloneADPCMPitch refAd.pitchNumber).1 })]
        rw [show ((BT.InstrumentsManager.updateADPCM M c (fun a => { a with pitchEnabled := true })).cloneADPCMPitch refAd.pitchNumber).2.wfSSG = (BT.InstrumentsManager.updateADPCM M c (fun a => { a with pitchEnabled := true })).wfSSG from rfl]
        rw [updateADPCM_wfSSG M c (fun a => { a with pitchEnabled := true })]
      rw [hFq, hfin_i]
      exact poolSync_update_irrelevant (fun s => by rw [hf]; rfl) inv.wfSSG
    · have hFq : ({ (BT.InstrumentsManager.updateADPCM ((BT.InstrumentsManager.updateADPCM M c (fun a => { a with pitchEnabled := true })).cloneADPCMPitch refAd.pitchNumber).2 c (fun a => { a with pitchNumber := ((BT.InstrumentsManager.updateADPCM M c (fun a => { a with pitchEnabled := true })).cloneADPCMPitch refAd.pitchNumber).1 })) with ptADPCM := (BT.InstrumentsManager.updateADPCM ((BT.InstrumentsManager.updateADPCM M c (fun a => { a with pitchEnabled := true })).cloneADPCMPitch refAd.pitchNumber).2 c (fun a => { a with pitchNumber := ((BT.InstrumentsManager.updateADPCM M c (fun a => { a with pitchEnabled := true })).cloneADPCMPitch refAd.pitchNumber).1 })).ptADPCM.registerUser ((BT.InstrumentsManager.updateADPCM M c (fun a => { a with pitchEnabled := true })).cloneADPCMPitch refAd.pitchNumber).1 c }).tnSSG = M.tnSSG := by
        show (BT.InstrumentsManager.updateADPCM ((BT.InstrumentsManager.updateADPCM M c (fun a => { a with pitchEnabled := true })).cloneADPCMPitch refAd.pitchNumber).2 c (fun a => { a with pitchNumber := ((BT.InstrumentsManager.updateADPCM M c (fun a => { a with pitchEnabled := true })).cloneADPCMPitch refAd.pitchNumber).1 })).tnSSG = M.tnSSG
        rw [updateADPCM_tnSSG ((BT.InstrumentsManager.updateADPCM M c (fun a => { a with pitchEnabled := true })).cloneADPCMPitch refAd.pitchNumber).2 c (fun a => { a with pitchNumber := ((BT.InstrumentsManager.updateADPCM M c (fun a => { a with pitchEnabled := true })).cloneADPCMPitch refAd.pitchNumber).1 })]
        rw [show ((BT.InstrumentsManager.updateADPCM M c (fun a => { a with pitchEnabled := true })).cloneADPCMPitch refAd.pitchNumber).2.tnSSG = (BT.InstrumentsManager.updateADPCM M c (fun a => { a with pitchEnabled := true })).tnSSG from rfl]
        rw [updateADPCM_tnSSG M c (fun a => { a with pitchEnabled := true })]
      rw [hFq, hfin_i]
      exact poolSync_update_irrelevant (fun s => by rw [hf]; rfl) inv.tnSSG
    · have hFq : ({ (BT.InstrumentsManager.updateADPCM ((BT.InstrumentsManager.updateADPCM M c (fun a => { a with pitchEnabled := true })).cloneADPCMPitch refAd.pitchNumber).2 c (fun a => { a with pitchNumber := ((BT.InstrumentsManager.updateADPCM M c (fun a => { a with pitchEnabled := true })).cloneADPCMPitch refAd.pitchNumber).1 })) with ptADPCM := (BT.InstrumentsManager.updateADPCM ((BT.InstrumentsManager.updateADPCM M c (fun a => { a with pitchEnabled := true })).cloneADPCMPitch refAd.pitchNumber).2 c (fun a => { a with pitchNumber := ((BT.InstrumentsManager.updateADPCM M c (fun a => { a with pitchEnabled := true })).cloneADPCMPitch refAd.pitchNumber).1 })).ptADPCM.registerUser ((BT.InstrumentsManager.updateADPCM M c (fun a => { a with pitchEnabled := true })).cloneADPCMPitch refAd.pitchNumber).1 c }).envSSG = M.envSSG := by
        show (BT.InstrumentsManager.updateADPCM ((BT.InstrumentsManager.updateADPCM M c (fun a => { a with pitchEnabled := true })).cloneADPCMPitch refAd.pitchNumber).2 c (fun a => { a with pitchNumber := ((BT.InstrumentsManager.updateADPCM M c (fun a => { a with pitchEnabled := true })).cloneADPCMPitch refAd.pitchNumber).1 })).envSSG = M.envSSG
        rw [updateADPCM_envSSG ((BT.InstrumentsManager.updateADPCM M c (fun a => { a with pitchEnabled := true })).cloneADPCMPitch refAd.pitchNumber).2 c (fun a => { a with pitchNumber := ((BT.InstrumentsManager.updateADPCM M c (fun a => { a with pitchEnabled := true })).cloneADPCMPitch refAd.pitchNumber).1 })]
        rw [show ((BT.InstrumentsManager.updateADPCM M c (fun a => { a with pitchEnabled := true })).cloneADPCMPitch refAd.pitchNumber).2.envSSG = (BT.InstrumentsManager.updateADPCM M c (fun a => { a with pitchEnabled := true })).envSSG from rfl]
        rw [updateADPCM_envSSG M c (fun a => { a with pitchEnabled := true })]
      rw [hFq, hfin_i]
      exact poolSync_update_irrelevant (fun s => by rw [hf]; rfl) inv.envSSG
    · have hFq : ({ (BT.InstrumentsManager.updateADPCM ((BT.InstrumentsManager.updateADPCM M c (fun a => { a with pitchEnabled := true })).cloneADPCMPitch refAd.pitchNumber).2 c (fun a => { a with pitchNumber := ((BT.InstrumentsManager.updateADPCM M c (fun a => { a with pitchEnabled := true })).cloneADPCMPitch refAd.pitchNumber).1 })) with ptADPCM := (BT.InstrumentsManager.updateADPCM ((BT.InstrumentsManager.updateADPCM M c (fun a => { a with pitchEnabled := true })).cloneADPCMPitch refAd.pitchNumber).2 c (fun a => { a with pitchNumber := ((BT.InstrumentsManager.updateADPCM M c (fun a => { a with pitchEnabled := true })).cloneADPCMPitch refAd.pitchNumber).1 })).ptADPCM.registerUser ((BT.InstrumentsManager.updateADPCM M c (fun a => { a with pitchEnabled := true })).cloneADPCMPitch refAd.pitchNumber).1 c }).arpSSG = M.arpSSG := by
        show (BT.InstrumentsManager.updateADPCM ((BT.InstrumentsManager.updateADPCM M c (fun a => { a with pitchEnabled := true })).cloneADPCMPitch refAd.pitchNumber).2 c (fun a => { a with pitchNumber := ((BT.InstrumentsManager.updateADPCM M c (fun a => { a with pitchEnabled := true })).cloneADPCMPitch refAd.pitchNumber).1 })).arpSSG = M.arpSSG
        rw [updateADPCM_arpSSG ((BT.InstrumentsManager.updateADPCM M c (fun a => { a with pitchEnabled := true })).cloneADPCMPitch refAd.pitchNumber).2 c (fun a => { a with pitchNumber := ((BT.InstrumentsManager.updateADPCM M c (fun a => { a with pitchEnabled := true })).cloneADPCMPitch refAd.pitchNumber).1 })]
        rw [show ((BT.InstrumentsManager.updateADPCM M c (fun a => { a with pitchEnabled := true })).cloneADPCMPitch refAd.pitchNumber).2.arpSSG = (BT.InstrumentsManager.updateADPCM M c (fun a => { a with pitchEnabled := true })).arpSSG from rfl]
        rw [updateADPCM_arpSSG M c (fun a => { a with pitchEnabled := true })]
      rw [hFq, hfin_i]
      exact poolSync_update_irrelevant (fun s => by rw [hf]; rfl) inv.arpSSG
    · have hFq : ({ (BT.InstrumentsManager.updateADPCM ((BT.InstrumentsManager.updateADPCM M c (fun a => { a with pitchEnabled := true })).cloneADPCMPitch refAd.pitchNumber).2 c (fun a => { a with pitchNumber := ((BT.InstrumentsManager.updateADPCM M c (fun a => { a with pitchEnabled := true })).cloneADPCMPitch refAd.pitchNumber).1 })) with ptADPCM := (BT.InstrumentsManager.updateADPCM ((BT.InstrumentsManager.updateADPCM M c (fun a => { a with pitchEnabled := true })).cloneADPCMPitch refAd.pitchNumber).2 c (fun a => { a with pitchNumber := ((BT.InstrumentsManager.updateADPCM M c (fun a => { a with pitchEnabled := true })).cloneADPCMPitch refAd.pitchNumber).1 })).ptADPCM.registerUser ((BT.InstrumentsManager.updateADPCM M c (fun a => { a with pitchEnabled := true })).cloneADPCMPitch refAd.pitchNumber).1 c }).ptSSG = M.ptSSG := by
        show (BT.InstrumentsManager.updateADPCM ((BT.InstrumentsManager.updateADPCM M c (fun a => { a with pitchEnabled := true })).cloneADPCMPitch refAd.pitchNumber).2 c (fun a => { a with pitchNumber := ((BT.InstrumentsManager.updateADPCM M c (fun a => { a with pitchEnabled := true })).cloneADPCMPitch refAd.pitchNumber).1 })).ptSSG = M.ptSSG
        rw [updateADPCM_ptSSG ((BT.InstrumentsManager.updateADPCM M c (fun a => { a with pitchEnabled := true })).cloneADPCMPitch refAd.pitchNumber).2 c (fun a => { a with pitchNumber := ((BT.InstrumentsManager.updateADPCM M c (fun a => { a with pitchEnabled := true })).cloneADPCMPitch refAd.pitchNumber).1 })]
        rw [show ((BT.InstrumentsManager.updateADPCM M c (fun a => { a with pitchEnabled := true })).cloneADPCMPitch refAd.pitchNumber).2.ptSSG = (BT.InstrumentsManager.updateADPCM M c (fun a => { a with pitchEnabled := true })).ptSSG from rfl]
        rw [updateADPCM_ptSSG M c (fun a => { a with pitchEnabled := true })]
      rw [hFq, hfin_i]
      exact poolSync_update_irrelevant (fun s => by rw [hf]; rfl) inv.ptSSG
    · have hFq : ({ (BT.InstrumentsManager.updateADPCM ((BT.InstrumentsManager.updateADPCM M c (fun a => { a with pitchEnabled := true })).cloneADPCMPitch refAd.pitchNumber).2 c (fun a => { a with pitchNumber := ((BT.InstrumentsManager.updateADPCM M c (fun a => { a with pitchEnabled := true })).cloneADPCMPitch refAd.pitchNumber).1 })) with ptADPCM := (BT.InstrumentsManager.updateADPCM ((BT.InstrumentsManager.updateADPCM M c (fun a => { a with pitchEnabled := true })).cloneADPCMPitch refAd.pitchNumber).2 c (fun a => { a with pitchNumber := ((BT.InstrumentsManager.updateADPCM M c (fun a => { a with pitchEnabled := true })).cloneADPCMPitch refAd.pitchNumber).1 })).ptADPCM.registerUser ((BT.InstrumentsManager.updateADPCM M c (fun a => { a with pitchEnabled := true })).cloneADPCMPitch refAd.pitchNumber).1 c }).wfADPCM = M.wfADPCM := by
        show (BT.InstrumentsManager.updateADPCM ((BT.InstrumentsManager.updateADPCM M c (fun a => { a with pitchEnabled := true })).cloneADPCMPitch refAd.pitchNumber).2 c (fun a => { a with pitchNumber := ((BT.InstrumentsManager.updateADPCM M c (fun a => { a with pitchEnabled := true })).cloneADPCMPitch refAd.pitchNumber).1 })).wfADPCM = M.wfADPCM
        rw [updateADPCM_wfADPCM ((BT.InstrumentsManager.updateADPCM M c (fun a => { a with pitchEnabled := true })).cloneADPCMPitch refAd.pitchNumber).2 c (fun a => { a with pitchNumber := ((BT.InstrumentsManager.updateADPCM M c (fun a => { a with pitchEnabled := true })).cloneADPCMPitch refAd.pitchNumber).1 })]
        rw [show ((BT.InstrumentsManager.updateADPCM M c (fun a => { a with pitchEnabled := true })).cloneADPCMPitch refAd.pitchNumber).2.wfADPCM = (BT.InstrumentsManager.updateADPCM M c (fun a => { a with pitchEnabled := true })).wfADPCM from rfl]
        rw [updateADPCM_wfADPCM M c (fun a => { a with pitchEnabled := true })]
      rw [hFq, hfin_i]
      exact poolSync_update_irrelevant (fun s => by rw [hf]; rfl) inv.wfADPCM
    · have hFq : ({ (BT.InstrumentsManager.updateADPCM ((BT.InstrumentsManager.updateADPCM M c (fun a => { a with pitchEnabled := true })).cloneADPCMPitch refAd.pitchNumber).2 c (fun a => { a with pitchNumber := ((BT.InstrumentsManager.updateADPCM M c (fun a => { a with pitchEnabled := true })).cloneADPCMPitch refAd.pitchNumber).1 })) with ptADPCM := (BT.InstrumentsManager.updateADPCM ((BT.InstrumentsManager.updateADPCM M c (fun a => { a with pitchEnabled := true })).cloneADPCMPitch refAd.pitchNumber).2 c (fun a => { a with pitchNumber := ((BT.InstrumentsManager.updateADPCM M c (fun a => { a with pitchEnabled := true })).cloneADPCMPitch refAd.pitchNumber).1 })).ptADPCM.registerUser ((BT.InstrumentsManager.updateADPCM M c (fun a => { a with pitchEnabled := true })).cloneADPCMPitch refAd.pitchNumber).1 c }).envADPCM = M.envADPCM := by
        show (BT.InstrumentsManager.updateADPCM ((BT.InstrumentsManager.updateADPCM M c (fun a => { a with pitchEnabled := true })).cloneADPCMPitch refAd.pitchNumber).2 c (fun a => { a with pitchNumber := ((BT.InstrumentsManager.updateADPCM M c (fun a => { a with pitchEnabled := true })).cloneADPCMPitch refAd.pitchNumber).1 })).envADPCM = M.envADPCM
        rw [updateADPCM_envADPCM ((BT.InstrumentsManager.updateADPCM M c (fun a => { a with pitchEnabled := true })).cloneADPCMPitch refAd.pitchNumber).2 c (fun a => { a with pitchNumber := ((BT.InstrumentsManager.updateADPCM M c (fun a => { a with pitchEnabled := true })).cloneADPCMPitch refAd.pitchNumber).1 })]
        rw [show ((BT.InstrumentsManager.updateADPCM M c (fun a => { a with pitchEnabled := true })).cloneADPCMPitch refAd.pitchNumber).2.envADPCM = (BT.InstrumentsManager.updateADPCM M c (fun a => { a with pitchEnabled := true })).envADPCM from rfl]
        rw [updateADPCM_envADPCM M c (fun a => { a with pitchEnabled := true })]
      rw [hFq, hfin_i]
      exact poolSync_update_irrelevant (fun s => by rw [hf]; rfl) inv.envADPCM
    · have hFq : ({ (BT.InstrumentsManager.updateADPCM ((BT.InstrumentsManager.updateADPCM M c (fun a => { a with pitchEnabled := true })).cloneADPCMPitch refAd.pitchNumber).2 c (fun a => { a with pitchNumber := ((BT.InstrumentsManager.updateADPCM M c (fun a => { a with pitchEnabled := true })).cloneADPCMPitch refAd.pitchNumber).1 })) with ptADPCM := (BT.InstrumentsManager.updateADPCM ((BT.InstrumentsManager.updateADPCM M c (fun a => { a with pitchEnabled := true })).cloneADPCMPitch refAd.pitchNumber).2 c (fun a => { a with pitchNumber := ((BT.InstrumentsManager.updateADPCM M c (fun a => { a with pitchEnabled := true })).cloneADPCMPitch refAd.pitchNumber).1 })).ptADPCM.registerUser ((BT.InstrumentsManager.updateADPCM M c (fun a => { a with pitchEnabled := true })).cloneADPCMPitch refAd.pitchNumber).1 c }).arpADPCM = M.arpADPCM := by
        show (BT.InstrumentsManager.updateADPCM ((BT.InstrumentsManager.updateADPCM M c (fun a => { a with pitchEnabled := true })).cloneADPCMPitch refAd.pitchNumber).2 c (fun a => { a with pitchNumber := ((BT.InstrumentsManager.updateADPCM M c (fun a => { a with pitchEnabled := true })).cloneADPCMPitch refAd.pitchNumber).1 })).arpADPCM = M.arpADPCM
        rw [updateADPCM_arpADPCM ((BT.InstrumentsManager.updateADPCM M c (fun a => { a with pitchEnabled := true })).cloneADPCMPitch refAd.pitchNumber).2 c (fun a => { a with pitchNumber := ((BT.InstrumentsManager.updateADPCM M c (fun a => { a with pitchEnabled := true })).cloneADPCMPitch refAd.pitchNumber).1 })]
        rw [show ((BT.InstrumentsManager.updateADPCM M c (fun a => { a with pitchEnabled := true })).cloneADPCMPitch refAd.pitchNumber).2.arpADPCM = (BT.InstrumentsManager.updateADPCM M c (fun a => { a with pitchEnabled := true })).arpADPCM from rfl]
        rw [updateADPCM_arpADPCM M c (fun a => { a with pitchEnabled := true })]
      rw [hFq, hfin_i]
      exact poolSync_update_irrelevant (fun s => by rw [hf]; rfl) inv.arpADPCM
    · rw [hfin_i]
      exact poolSync_overwrite_register hc hf hold husers inv.ptADPCM
  · rw [if_neg hb]
    exact ⟨inv, f, hf, rfl, rfl⟩

set_option maxHeartbeats 1000000 in
/-- The waveform repoint stage of the ADPCM deep clone preserves the invariant. -/
theorem inv_dcADm3 (m0 : BT.InstrumentsManager) (a0 refAd : BT.InstrumentADPCM) (c : Nat)
    (hc : c < 128) (ha0 : m0.insts c = some (.adpcm a0)) (inv0 : BT.Inv m0) :
    BT.Inv (BT.dcADm3 m0 a0 refAd c) ∧
    (BT.dcADm3 m0 a0 refAd c).insts =
      Function.update m0.insts c
        (some (.adpcm { a0 with waveformNumber := (BT.dcADrw m0 a0 refAd c).1 })) := by
  have hre : (BT.dcADrw m0 a0 refAd c).2.insts c = some (.adpcm a0) := ha0
  have hm3i : (BT.dcADm3 m0 a0 refAd c).insts =
      Function.update m0.insts c
        (some (.adpcm { a0 with waveformNumber := (BT.dcADrw m0 a0 refAd c).1 })) :=
    updateADPCM_insts (BT.dcADrw m0 a0 refAd c).2 c (fun a => { a with waveformNumber := (BT.dcADrw m0 a0 refAd c).1 }) a0 hre
  have hm2w : (BT.dcADm2 m0 a0 refAd c).wfADPCM = (BT.dcADrw m0 a0 refAd c).2.wfADPCM :=
    updateADPCM_wfADPCM (BT.dcADrw m0 a0 refAd c).2 c (fun a => { a with waveformNumber := (BT.dcADrw m0 a0 refAd c).1 })
  have hm3w : (BT.dcADm3 m0 a0 refAd c).wfADPCM =
      ((BT.dcADrw m0 a0 refAd c).2.wfADPCM).registerUser (BT.dcADrw m0 a0 refAd c).1 c := by
    show (BT.dcADm2 m0 a0 refAd c).wfADPCM.registerUser (BT.dcADrw m0 a0 refAd c).1 c =
      ((BT.dcADrw m0 a0 refAd c).2.wfADPCM).registerUser (BT.dcADrw m0 a0 refAd c).1 c
    rw [hm2w]
  have hmid : ∀ s, ((BT.dcADrw m0 a0 refAd c).2.wfADPCM s).users =
      ((m0.wfADPCM.deregisterUser a0.waveformNumber c) s).users :=
    fun s => users_cloneProp (m0.wfADPCM.deregisterUser a0.waveformNumber c)
      refAd.waveformNumber s
  refine ⟨⟨?_, ?_, ?_, ?_, ?_, ?_, ?_, ?_, ?_, ?_, ?_, ?_, ?_, ?_⟩, hm3i⟩
  · have hq : (BT.dcADm3 m0 a0 refAd c).envFM = m0.envFM :=
      updateADPCM_envFM (BT.dcADrw m0 a0 refAd c).2 c (fun a => { a with waveformNumber := (BT.dcADrw m0 a0 refAd c).1 })
    rw [hq, hm3i]
    exact poolSync_update_irrelevant (fun s => by rw [ha0]; rfl) inv0.envFM
  · have hq : (BT.dcADm3 m0 a0 refAd c).lfoFM = m0.lfoFM :=
      updateADPCM_lfoFM (BT.dcADrw m0 a0 refAd c).2 c (fun a => { a with waveformNumber := (BT.dcADrw m0 a0 refAd c).1 })
    rw [hq, hm3i]
    exact poolSync_update_irrelevant (fun s => by rw [ha0]; rfl) inv0.lfoFM
  · intro p hp
    have hq : (BT.dcADm3 m0 a0 refAd c).opSeqFM = m0.opSeqFM :=
      updateADPCM_opSeqFM (BT.dcADrw m0 a0 refAd c).2 c (fun a => { a with waveformNumber := (BT.dcADrw m0 a0 refAd c).1 })
    rw [hq, hm3i]
    exact poolSync_update_irrelevant (fun s => by rw [ha0]; rfl) (inv0.opSeqFM p hp)
  · have hq : (BT.dcADm3 m0 a0 refAd c).arpFM = m0.arpFM :=
      updateADPCM_arpFM (BT.dcADrw m0 a0 refAd c).2 c (fun a => { a with waveformNumber := (BT.dcADrw m0 a0 refAd c).1 })
    rw [hq, hm3i]
    exact poolSync_update_irrelevant (fun s => by rw [ha0]; rfl) inv0.arpFM
  · have hq : (BT.dcADm3 m0 a0 refAd c).ptFM = m0.ptFM :=
      updateADPCM_ptFM (BT.dcADrw m0 a0 refAd c).2 c (fun a => { a with waveformNumber := (BT.dcADrw m0 a0 refAd c).1 })
    rw [hq, hm3i]
    exact poolSync_update_irrelevant (fun s => by rw [ha0]; rfl) inv0.ptFM
  · have hq : (BT.dcADm3 m0 a0 refAd c).wfSSG = m0.wfSSG :=
      updateADPCM_wfSSG (BT.dcADrw m0 a0 refAd c).2 c (fun a => { a with waveformNumber := (BT.dcADrw m0 a0 refAd c).1 })
    rw [hq, hm3i]
    exact poolSync_update_irrelevant (fun s => by rw [ha0]; rfl) inv0.wfSSG
  · have hq : (BT.dcADm3 m0 a0 refAd c).tnSSG = m0.tnSSG :=
      updateADPCM_tnSSG (BT.dcADrw m0 a0 refAd c).2 c (fun a => { a with waveformNumber := (BT.dcADrw m0 a0 refAd c).1 })
    rw [hq, hm3i]
    exact poolSync_update_irrelevant (fun s => by rw [ha0]; rfl) inv0.tnSSG
  · have hq : (BT.dcADm3 m0 a0 refAd c).envSSG = m0.envSSG :=
      updateADPCM_envSSG (BT.dcADrw m0 a0 refAd c).2 c (fun a => { a with waveformNumber := (BT.dcADrw m0 a0 refAd c).1 })
    rw [hq, hm3i]
    exact poolSync_update_irrelevant (fun s => by rw [ha0]; rfl) inv0.envSSG
  · have hq : (BT.dcADm3 m0 a0 refAd c).arpSSG = m0.arpSSG :=
      updateADPCM_arpSSG (BT.dcADrw m0 a0 refAd c).2 c (fun a => { a with waveformNumber := (BT.dcADrw m0 a0 refAd c).1 })
    rw [hq, hm3i]
    exact poolSync_update_irrelevant (fun s => by rw [ha0]; rfl) inv0.arpSSG
  · have hq : (BT.dcADm3 m0 a0 refAd c).ptSSG = m0.ptSSG :=
      updateADPCM_ptSSG (BT.dcADrw m0 a0 refAd c).2 c (fun a => { a with waveformNumber := (BT.dcADrw m0 a0 refAd c).1 })
    rw [hq, hm3i]
    exact poolSync_update_irrelevant (fun s => by rw [ha0]; rfl) inv0.ptSSG
  · rw [hm3w, hm3i]
    exact poolSync_repoint a0.waveformNumber (BT.dcADrw m0 a0 refAd c).1 hc ha0 hmid
      (fun s => bool_repoint (a0.waveformNumber == s) ((BT.dcADrw m0 a0 refAd c).1 == s)) inv0.wfADPCM
  · have hq : (BT.dcADm3 m0 a0 refAd c).envADPCM = m0.envADPCM :=
      updateADPCM_envADPCM (BT.dcADrw m0 a0 refAd c).2 c (fun a => { a with waveformNumber := (BT.dcADrw m0 a0 refAd c).1 })
    rw [hq, hm3i]
    exact poolSync_update_irrelevant (fun s => by rw [ha0]; rfl) inv0.envADPCM
  · have hq : (BT.dcADm3 m0 a0 refAd c).arpADPCM = m0.arpADPCM :=
      updateADPCM_arpADPCM (BT.dcADrw m0 a0 refAd c).2 c (fun a => { a with waveformNumber := (BT.dcADrw m0 a0 refAd c).1 })
    rw [hq, hm3i]
    exact poolSync_update_irrelevant (fun s => by rw [ha0]; rfl) inv0.arpADPCM
  · have hq : (BT.dcADm3 m0 a0 refAd c).ptADPCM = m0.ptADPCM :=
      updateADPCM_ptADPCM (BT.dcADrw m0 a0 refAd c).2 c (fun a => { a with waveformNumber := (BT.dcADrw m0 a0 refAd c).1 })
    rw [hq, hm3i]
    exact poolSync_update_irrelevant (fun s => by rw [ha0]; rfl) inv0.ptADPCM
set_option maxHeartbeats 2000000 in
/-- One step of the operator-sequence deep-clone fold preserves the
invariant when the parameter being processed is still disabled. -/
theorem inv_dcFMstep (refFm : BT.InstrumentFM) (c : Nat) (hc : c < 128)
    (acc : BT.InstrumentsManager) (p : BT.FMEnvelopeParameter)
    (f : BT.InstrumentFM) (hf : acc.insts c = some (.fm f))
    (hflag : f.opSeqEnabled p = false) (inv : BT.Inv acc) :
    BT.Inv (BT.dcFMstep refFm c acc p) ∧
    ∃ f', (BT.dcFMstep refFm c acc p).insts c = some (.fm f') ∧
      (∀ q, q ≠ p → f'.opSeqEnabled q = f.opSeqEnabled q) ∧
      f'.arpEnabled = f.arpEnabled ∧ f'.ptEnabled = f.ptEnabled := by
  show BT.Inv (if refFm.opSeqEnabled p then { (BT.InstrumentsManager.updateFM ((BT.InstrumentsManager.updateFM acc c (fun f => { f with opSeqEnabled := Function.update f.opSeqEnabled p true })).cloneFMOperatorSequence p (refFm.opSeqNumber p)).2 c (fun f => { f with opSeqNumber := Function.update f.opSeqNumber p ((BT.InstrumentsManager.updateFM acc c (fun f => { f with opSeqEnabled := Function.update f.opSeqEnabled p true })).cloneFMOperatorSequence p (refFm.opSeqNumber p)).1 })) with opSeqFM := (Function.update (BT.InstrumentsManager.updateFM ((BT.InstrumentsManager.updateFM acc c (fun f => { f with opSeqEnabled := Function.update f.opSeqEnabled p true })).cloneFMOperatorSequence p (refFm.opSeqNumber p)).2 c (fun f => { f with opSeqNumber := Function.update f.opSeqNumber p ((BT.InstrumentsManager.updateFM acc c (fun f => { f with opSeqEnabled := Function.update f.opSeqEnabled p true })).cloneFMOperatorSequence p (refFm.opSeqNumber p)).1 })).opSeqFM p (((BT.InstrumentsManager.updateFM ((BT.InstrumentsManager.updateFM acc c (fun f => { f with opSeqEnabled := Function.update f.opSeqEnabled p true })).cloneFMOperatorSequence p (refFm.opSeqNumber p)).2 c (fun f => { f with opSeqNumber := Function.update f.opSeqNumber p ((BT.InstrumentsManager.updateFM acc c (fun f => { f with opSeqEnabled := Function.update f.opSeqEnabled p true })).cloneFMOperatorSequence p (refFm.opSeqNumber p)).1 })).opSeqFM p).registerUser ((BT.InstrumentsManager.updateFM acc c (fun f => { f with opSeqEnabled := Function.update f.opSeqEnabled p true })).cloneFMOperatorSequence p (refFm.opSeqNumber p)).1 c)) } else acc) ∧
    ∃ f', (if refFm.opSeqEnabled p then { (BT.InstrumentsManager.updateFM ((BT.InstrumentsManager.updateFM acc c (fun f => { f with opSeqEnabled := Function.update f.opSeqEnabled p true })).cloneFMOperatorSequence p (refFm.opSeqNumber p)).2 c (fun f => { f with opSeqNumber := Function.update f.opSeqNumber p ((BT.InstrumentsManager.updateFM acc c (fun f => { f with opSeqEnabled := Function.update f.opSeqEnabled p true })).cloneFMOperatorSequence p (refFm.opSeqNumber p)).1 })) with opSeqFM := (Function.update (BT.InstrumentsManager.updateFM ((BT.InstrumentsManager.updateFM acc c (fun f => { f with opSeqEnabled := Function.update f.opSeqEnabled p true })).cloneFMOperatorSequence p (refFm.opSeqNumber p)).2 c (fun f => { f with opSeqNumber := Function.update f.opSeqNumber p ((BT.InstrumentsManager.updateFM acc c (fun f => { f with opSeqEnabled := Function.update f.opSeqEnabled p true })).cloneFMOperatorSequence p (refFm.opSeqNumber p)).1 })).opSeqFM p (((BT.InstrumentsManager.updateFM ((BT.InstrumentsManager.updateFM acc c (fun f => { f with opSeqEnabled := Function.update f.opSeqEnabled p true })).cloneFMOperatorSequence p (refFm.opSeqNumber p)).2 c (fun f => { f with opSeqNumber := Function.update f.opSeqNumber p ((BT.InstrumentsManager.updateFM acc c (fun f => { f with opSeqEnabled := Function.update f.opSeqEnabled p true })).cloneFMOperatorSequence p (refFm.opSeqNumber p)).1 })).opSeqFM p).registerUser ((BT.InstrumentsManager.updateFM acc c (fun f => { f with opSeqEnabled := Function.update f.opSeqEnabled p true })).cloneFMOperatorSequence p (refFm.opSeqNumber p)).1 c)) } else acc).insts c = some (.fm f') ∧
      (∀ q, q ≠ p → f'.opSeqEnabled q = f.opSeqEnabled q) ∧
      f'.arpEnabled = f.arpEnabled ∧ f'.ptEnabled = f.ptEnabled
  by_cases hb : refFm.opSeqEnabled p = true
  · rw [if_pos hb]
    have hma_i : (BT.InstrumentsManager.updateFM acc c (fun f => { f with opSeqEnabled := Function.update f.opSeqEnabled p true })).insts = Function.update acc.insts c (some (.fm { f with opSeqEnabled := Function.update f.opSeqEnabled p true })) :=
      updateFM_insts acc c (fun f => { f with opSeqEnabled := Function.update f.opSeqEnabled p true }) f hf
    have hma_c : (BT.InstrumentsManager.updateFM acc c (fun f => { f with opSeqEnabled := Function.update f.opSeqEnabled p true })).insts c = some (.fm { f with opSeqEnabled := Function.update f.opSeqEnabled p true }) := by
      rw [hma_i]
      exact Function.update_same c _ acc.insts
    have hrl_c : ((BT.InstrumentsManager.updateFM acc c (fun f => { f with opSeqEnabled := Function.update f.opSeqEnabled p true })).cloneFMOperatorSequence p (refFm.opSeqNumber p)).2.insts c = some (.fm { f with opSeqEnabled := Function.update f.opSeqEnabled p true }) := hma_c
    have hmb_i : (BT.InstrumentsManager.updateFM ((BT.InstrumentsManager.updateFM acc c (fun f => { f with opSeqEnabled := Function.update f.opSeqEnabled p true })).cloneFMOperatorSequence p (refFm.opSeqNumber p)).2 c (fun f => { f with opSeqNumber := Function.update f.opSeqNumber p ((BT.InstrumentsManager.updateFM acc c (fun f => { f with opSeqEnabled := Function.update f.opSeqEnabled p true })).cloneFMOperatorSequence p (refFm.opSeqNumber p)).1 })).insts = Function.update ((BT.InstrumentsManager.updateFM acc c (fun f => { f with opSeqEnabled := Function.update f.opSeqEnabled p true })).cloneFMOperatorSequence p (refFm.opSeqNumber p)).2.insts c
        (some (.fm { { f with opSeqEnabled := Function.update f.opSeqEnabled p true } with opSeqNumber := Function.update f.opSeqNumber p ((BT.InstrumentsManager.updateFM acc c (fun f => { f with opSeqEnabled := Function.update f.opSeqEnabled p true })).cloneFMOperatorSequence p (refFm.opSeqNumber p)).1 })) :=
      updateFM_insts ((BT.InstrumentsManager.updateFM acc c (fun f => { f with opSeqEnabled := Function.update f.opSeqEnabled p true })).cloneFMOperatorSequence p (refFm.opSeqNumber p)).2 c (fun f => { f with opSeqNumber := Function.update f.opSeqNumber p ((BT.InstrumentsManager.updateFM acc c (fun f => { f with opSeqEnabled := Function.update f.opSeqEnabled p true })).cloneFMOperatorSequence p (refFm.opSeqNumber p)).1 }) { f with opSeqEnabled := Function.update f.opSeqEnabled p true } hrl_c
    have hfin_i : ({ (BT.InstrumentsManager.updateFM ((BT.InstrumentsManager.updateFM acc c (fun f => { f with opSeqEnabled := Function.update f.opSeqEnabled p true })).cloneFMOperatorSequence p (refFm.opSeqNumber p)).2 c (fun f => { f with opSeqNumber := Function.update f.opSeqNumber p ((BT.InstrumentsManager.updateFM acc c (fun f => { f with opSeqEnabled := Function.update f.opSeqEnabled p true })).cloneFMOperatorSequence p (refFm.opSeqNumber p)).1 })) with opSeqFM := (Function.update (BT.InstrumentsManager.updateFM ((BT.InstrumentsManager.updateFM acc c (fun f => { f with opSeqEnabled := Function.update f.opSeqEnabled p true })).cloneFMOperatorSequence p (refFm.opSeqNumber p)).2 c (fun f => { f with opSeqNumber := Function.update f.opSeqNumber p ((BT.InstrumentsManager.updateFM acc c (fun f => { f with opSeqEnabled := Function.update f.opSeqEnabled p true })).cloneFMOperatorSequence p (refFm.opSeqNumber p)).1 })).opSeqFM p (((BT.InstrumentsManager.updateFM ((BT.InstrumentsManager.updateFM acc c (fun f => { f with opSeqEnabled := Function.update f.opSeqEnabled p true })).cloneFMOperatorSequence p (refFm.opSeqNumber p)).2 c (fun f => { f with opSeqNumber := Function.update f.opSeqNumber p ((BT.InstrumentsManager.updateFM acc c (fun f => { f with opSeqEnabled := Function.update f.opSeqEnabled p true })).cloneFMOperatorSequence p (refFm.opSeqNumber p)).1 })).opSeqFM p).registerUser ((BT.InstrumentsManager.updateFM acc c (fun f => { f with opSeqEnabled := Function.update f.opSeqEnabled p true })).cloneFMOperatorSequence p (refFm.opSeqNumber p)).1 c)) }).insts = Function.update acc.insts c (some (.fm { f with opSeqEnabled := Function.update f.opSeqEnabled p true, opSeqNumber := Function.update f.opSeqNumber p ((BT.InstrumentsManager.updateFM acc c (fun f => { f with opSeqEnabled := Function.update f.opSeqEnabled p true })).cloneFMOperatorSequence p (refFm.opSeqNumber p)).1 })) := by
      show (BT.InstrumentsManager.updateFM ((BT.InstrumentsManager.updateFM acc c (fun f => { f with opSeqEnabled := Function.update f.opSeqEnabled p true })).cloneFMOperatorSequence p (refFm.opSeqNumber p)).2 c (fun f => { f with opSeqNumber := Function.update f.opSeqNumber p ((BT.InstrumentsManager.updateFM acc c (fun f => { f with opSeqEnabled := Function.update f.opSeqEnabled p true })).cloneFMOperatorSequence p (refFm.opSeqNumber p)).1 })).insts = _
      rw [hmb_i]
      show Function.update (BT.InstrumentsManager.updateFM acc c (fun f => { f with opSeqEnabled := Function.update f.opSeqEnabled p true })).insts c (some (.fm { f with opSeqEnabled := Function.update f.opSeqEnabled p true, opSeqNumber := Function.update f.opSeqNumber p ((BT.InstrumentsManager.updateFM acc c (fun f => { f with opSeqEnabled := Function.update f.opSeqEnabled p true })).cloneFMOperatorSequence p (refFm.opSeqNumber p)).1 })) = _
      rw [hma_i, Function.update_idem]
    have hptsNEW : ∀ s, BT.fmOpSeqPoints p (.fm { f with opSeqEnabled := Function.update f.opSeqEnabled p true, opSeqNumber := Function.update f.opSeqNumber p ((BT.InstrumentsManager.updateFM acc c (fun f => { f with opSeqEnabled := Function.update f.opSeqEnabled p true })).cloneFMOperatorSequence p (refFm.opSeqNumber p)).1 }) s = (((BT.InstrumentsManager.updateFM acc c (fun f => { f with opSeqEnabled := Function.update f.opSeqEnabled p true })).cloneFMOperatorSequence p (refFm.opSeqNumber p)).1 == s) := by
      intro s
      show (Function.update f.opSeqEnabled p true p && (Function.update f.opSeqNumber p ((BT.InstrumentsManager.updateFM acc c (fun f => { f with opSeqEnabled := Function.update f.opSeqEnabled p true })).cloneFMOperatorSequence p (refFm.opSeqNumber p)).1 p == s)) = (((BT.InstrumentsManager.updateFM acc c (fun f => { f with opSeqEnabled := Function.update f.opSeqEnabled p true })).cloneFMOperatorSequence p (refFm.opSeqNumber p)).1 == s)
      rw [Function.update_same, Function.update_same, Bool.true_and]
    have hold : ∀ s, BT.fmOpSeqPoints p (.fm f) s = false := by
      intro s
      show (f.opSeqEnabled p && (f.opSeqNumber p == s)) = false
      rw [hflag]
      rfl
    have hfin_pool : ({ (BT.InstrumentsManager.updateFM ((BT.InstrumentsManager.updateFM acc c (fun f => { f with opSeqEnabled := Function.update f.opSeqEnabled p true })).cloneFMOperatorSequence p (refFm.opSeqNumber p)).2 c (fun f => { f with opSeqNumber := Function.update f.opSeqNumber p ((BT.InstrumentsManager.updateFM acc c (fun f => { f with opSeqEnabled := Function.update f.opSeqEnabled p true })).cloneFMOperatorSequence p (refFm.opSeqNumber p)).1 })) with opSeqFM := (Function.update (BT.InstrumentsManager.updateFM ((BT.InstrumentsManager.updateFM acc c (fun f => { f with opSeqEnabled := Function.update f.opSeqEnabled p true })).cloneFMOperatorSequence p (refFm.opSeqNumber p)).2 c (fun f => { f with opSeqNumber := Function.update f.opSeqNumber p ((BT.InstrumentsManager.updateFM acc c (fun f => { f with opSeqEnabled := Function.update f.opSeqEnabled p true })).cloneFMOperatorSequence p (refFm.opSeqNumber p)).1 })).opSeqFM p (((BT.InstrumentsManager.updateFM ((BT.InstrumentsManager.updateFM acc c (fun f => { f with opSeqEnabled := Function.update f.opSeqEnabled p true })).cloneFMOperatorSequence p (refFm.opSeqNumber p)).2 c (fun f => { f with opSeqNumber := Function.update f.opSeqNumber p ((BT.InstrumentsManager.updateFM acc c (fun f => { f with opSeqEnabled := Function.update f.opSeqEnabled p true })).cloneFMOperatorSequence p (refFm.opSeqNumber p)).1 })).opSeqFM p).registerUser ((BT.InstrumentsManager.updateFM acc c (fun f => { f with opSeqEnabled := Function.update f.opSeqEnabled p true })).cloneFMOperatorSequence p (refFm.opSeqNumber p)).1 c)) }).opSeqFM p =
        ((((BT.InstrumentsManager.updateFM acc c (fun f => { f with opSeqEnabled := Function.update f.opSeqEnabled p true })).opSeqFM p).cloneProp (refFm.opSeqNumber p)).2).registerUser ((BT.InstrumentsManager.updateFM acc c (fun f => { f with opSeqEnabled := Function.update f.opSeqEnabled p true })).cloneFMOperatorSequence p (refFm.opSeqNumber p)).1 c := by
      show Function.update (BT.InstrumentsManager.updateFM ((BT.InstrumentsManager.updateFM acc c (fun f => { f with opSeqEnabled := Function.update f.opSeqEnabled p true })).cloneFMOperatorSequence p (refFm.opSeqNumber p)).2 c (fun f => { f with opSeqNumber := Function.update f.opSeqNumber p ((BT.InstrumentsManager.updateFM acc c (fun f => { f with opSeqEnabled := Function.update f.opSeqEnabled p true })).cloneFMOperatorSequence p (refFm.opSeqNumber p)).1 })).opSeqFM p (((BT.InstrumentsManager.updateFM ((BT.InstrumentsManager.updateFM acc c (fun f => { f with opSeqEnabled := Function.update f.opSeqEnabled p true })).cloneFMOperatorSequence p (refFm.opSeqNumber p)).2 c (fun f => { f with opSeqNumber := Function.update f.opSeqNumber p ((BT.InstrumentsManager.updateFM acc c (fun f => { f with opSeqEnabled := Function.update f.opSeqEnabled p true })).cloneFMOperatorSequence p (refFm.opSeqNumber p)).1 })).opSeqFM p).registerUser ((BT.InstrumentsManager.updateFM acc c (fun f => { f with opSeqEnabled := Function.update f.opSeqEnabled p true })).cloneFMOperatorSequence p (refFm.opSeqNumber p)).1 c) p = _
      rw [Function.update_same]
      rw [updateFM_opSeqFM ((BT.InstrumentsManager.updateFM acc c (fun f => { f with opSeqEnabled := Function.update f.opSeqEnabled p true })).cloneFMOperatorSequence p (refFm.opSeqNumber p)).2 c (fun f => { f with opSeqNumber := Function.update f.opSeqNumber p ((BT.InstrumentsManager.updateFM acc c (fun f => { f with opSeqEnabled := Function.update f.opSeqEnabled p true })).cloneFMOperatorSequence p (refFm.opSeqNumber p)).1 })]
      show (Function.update (BT.InstrumentsManager.updateFM acc c (fun f => { f with opSeqEnabled := Function.update f.opSeqEnabled p true })).opSeqFM p (((BT.InstrumentsManager.updateFM acc c (fun f => { f with opSeqEnabled := Function.update f.opSeqEnabled p true })).opSeqFM p).cloneProp (refFm.opSeqNumber p)).2 p).registerUser ((BT.InstrumentsManager.updateFM acc c (fun f => { f with opSeqEnabled := Function.update f.opSeqEnabled p true })).cloneFMOperatorSequence p (refFm.opSeqNumber p)).1 c = _
      rw [Function.update_same]
    have husers : ∀ s, s < 128 → (({ (BT.InstrumentsManager.updateFM ((BT.InstrumentsManager.updateFM acc c (fun f => { f with opSeqEnabled := Function.update f.opSeqEnabled p true })).cloneFMOperatorSequence p (refFm.opSeqNumber p)).2 c (fun f => { f with opSeqNumber := Function.update f.opSeqNumber p ((BT.InstrumentsManager.updateFM acc c (fun f => { f with opSeqEnabled := Function.update f.opSeqEnabled p true })).cloneFMOperatorSequence p (refFm.opSeqNumber p)).1 })) with opSeqFM := (Function.update (BT.InstrumentsManager.updateFM ((BT.InstrumentsManager.updateFM acc c (fun f => { f with opSeqEnabled := Function.update f.opSeqEnabled p true })).cloneFMOperatorSequence p (refFm.opSeqNumber p)).2 c (fun f => { f with opSeqNumber := Function.update f.opSeqNumber p ((BT.InstrumentsManager.updateFM acc c (fun f => { f with opSeqEnabled := Function.update f.opSeqEnabled p true })).cloneFMOperatorSequence p (refFm.opSeqNumber p)).1 })).opSeqFM p (((BT.InstrumentsManager.updateFM ((BT.InstrumentsManager.updateFM acc c (fun f => { f with opSeqEnabled := Function.update f.opSeqEnabled p true })).cloneFMOperatorSequence p (refFm.opSeqNumber p)).2 c (fun f => { f with opSeqNumber := Function.update f.opSeqNumber p ((BT.InstrumentsManager.updateFM acc c (fun f => { f with opSeqEnabled := Function.update f.opSeqEnabled p true })).cloneFMOperatorSequence p (refFm.opSeqNumber p)).1 })).opSeqFM p).registerUser ((BT.InstrumentsManager.updateFM acc c (fun f => { f with opSeqEnabled := Function.update f.opSeqEnabled p true })).cloneFMOperatorSequence p (refFm.opSeqNumber p)).1 c)) }).opSeqFM p s).users =
        if BT.fmOpSeqPoints p (.fm { f with opSeqEnabled := Function.update f.opSeqEnabled p true, opSeqNumber := Function.update f.opSeqNumber p ((BT.InstrumentsManager.updateFM acc c (fun f => { f with opSeqEnabled := Function.update f.opSeqEnabled p true })).cloneFMOperatorSequence p (refFm.opSeqNumber p)).1 }) s = true
        then insert c ((acc.opSeqFM p s).users) else (acc.opSeqFM p s).users := by
      intro s hs
      rw [hfin_pool, users_registerUser, users_cloneProp, users_cloneProp]
      rw [updateFM_opSeqFM acc c (fun f => { f with opSeqEnabled := Function.update f.opSeqEnabled p true })]
      by_cases hp : BT.fmOpSeqPoints p (.fm { f with opSeqEnabled := Function.update f.opSeqEnabled p true, opSeqNumber := Function.update f.opSeqNumber p ((BT.InstrumentsManager.updateFM acc c (fun f => { f with opSeqEnabled := Function.update f.opSeqEnabled p true })).cloneFMOperatorSequence p (refFm.opSeqNumber p)).1 }) s = true
      · rw [if_pos hp]
        have h2 : (((BT.InstrumentsManager.updateFM acc c (fun f => { f with opSeqEnabled := Function.update f.opSeqEnabled p true })).cloneFMOperatorSequence p (refFm.opSeqNumber p)).1 == s) = true := by
          rw [← hptsNEW s]
          exact hp
        rw [beq_iff_eq] at h2
        rw [if_pos h2.symm, h2]
      · rw [if_neg hp]
        have hsne : ¬ s = ((BT.InstrumentsManager.updateFM acc c (fun f => { f with opSeqEnabled := Function.update f.opSeqEnabled p true })).cloneFMOperatorSequence p (refFm.opSeqNumber p)).1 := by
          intro hseq
          apply hp
          rw [hptsNEW s, hseq]
          simp
        rw [if_neg hsne]
    refine ⟨⟨?_, ?_, ?_, ?_, ?_, ?_, ?_, ?_, ?_, ?_, ?_, ?_, ?_, ?_⟩,
      { f with opSeqEnabled := Function.update f.opSeqEnabled p true, opSeqNumber := Function.update f.opSeqNumber p ((BT.InstrumentsManager.updateFM acc c (fun f => { f with opSeqEnabled := Function.update f.opSeqEnabled p true })).cloneFMOperatorSequence p (refFm.opSeqNumber p)).1 }, by
        rw [hfin_i]
        exact Function.update_same c _ acc.insts, ?_, rfl, rfl⟩
    · have hFq : ({ (BT.InstrumentsManager.updateFM ((BT.InstrumentsManager.updateFM acc c (fun f => { f with opSeqEnabled := Function.update f.opSeqEnabled p true })).cloneFMOperatorSequence p (refFm.opSeqNumber p)).2 c (fun f => { f with opSeqNumber := Function.update f.opSeqNumber p ((BT.InstrumentsManager.updateFM acc c (fun f => { f with opSeqEnabled := Function.update f.opSeqEnabled p true })).cloneFMOperatorSequence p (refFm.opSeqNumber p)).1 })) with opSeqFM := (Function.update (BT.InstrumentsManager.updateFM ((BT.InstrumentsManager.updateFM acc c (fun f => { f with opSeqEnabled := Function.update f.opSeqEnabled p true })).cloneFMOperatorSequence p (refFm.opSeqNumber p)).2 c (fun f => { f with opSeqNumber := Function.update f.opSeqNumber p ((BT.InstrumentsManager.updateFM acc c (fun f => { f with opSeqEnabled := Function.update f.opSeqEnabled p true })).cloneFMOperatorSequence p (refFm.opSeqNumber p)).1 })).opSeqFM p (((BT.InstrumentsManager.updateFM ((BT.InstrumentsManager.updateFM acc c (fun f => { f with opSeqEnabled := Function.update f.opSeqEnabled p true })).cloneFMOperatorSequence p (refFm.opSeqNumber p)).2 c (fun f => { f with opSeqNumber := Function.update f.opSeqNumber p ((BT.InstrumentsManager.updateFM acc c (fun f => { f with opSeqEnabled := Function.update f.opSeqEnabled p true })).cloneFMOperatorSequence p (refFm.opSeqNumber p)).1 })).opSeqFM p).registerUser ((BT.InstrumentsManager.updateFM acc c (fun f => { f with opSeqEnabled := Function.update f.opSeqEnabled p true })).cloneFMOperatorSequence p (refFm.opSeqNumber p)).1 c)) }).envFM = acc.envFM := by
        show (BT.InstrumentsManager.updateFM ((BT.InstrumentsManager.updateFM acc c (fun f => { f with opSeqEnabled := Function.update f.opSeqEnabled p true })).cloneFMOperatorSequence p (refFm.opSeqNumber p)).2 c (fun f => { f with opSeqNumber := Function.update f.opSeqNumber p ((BT.InstrumentsManager.updateFM acc c (fun f => { f with opSeqEnabled := Function.update f.opSeqEnabled p true })).cloneFMOperatorSequence p (refFm.opSeqNumber p)).1 })).envFM = acc.envFM
        rw [updateFM_envFM ((BT.InstrumentsManager.updateFM acc c (fun f => { f with opSeqEnabled := Function.update f.opSeqEnabled p true })).cloneFMOperatorSequence p (refFm.opSeqNumber p)).2 c (fun f => { f with opSeqNumber := Function.update f.opSeqNumber p ((BT.InstrumentsManager.updateFM acc c (fun f => { f with opSeqEnabled := Function.update f.opSeqEnabled p true })).cloneFMOperatorSequence p (refFm.opSeqNumber p)).1 })]
        rw [show ((BT.InstrumentsManager.updateFM acc c (fun f => { f with opSeqEnabled := Function.update f.opSeqEnabled p true })).cloneFMOperatorSequence p (refFm.opSeqNumber p)).2.envFM = (BT.InstrumentsManager.updateFM acc c (fun f => { f with opSeqEnabled := Function.update f.opSeqEnabled p true })).envFM from rfl]
        rw [updateFM_envFM acc c (fun f => { f with opSeqEnabled := Function.update f.opSeqEnabled p true })]
      rw [hFq, hfin_i]
      exact poolSync_update_irrelevant (fun s => by rw [hf]; rfl) inv.envFM
    · have hFq : ({ (BT.InstrumentsManager.updateFM ((BT.InstrumentsManager.updateFM acc c (fun f => { f with opSeqEnabled := Function.update f.opSeqEnabled p true })).cloneFMOperatorSequence p (refFm.opSeqNumber p)).2 c (fun f => { f with opSeqNumber := Function.update f.opSeqNumber p ((BT.InstrumentsManager.updateFM acc c (fun f => { f with opSeqEnabled := Function.update f.opSeqEnabled p true })).cloneFMOperatorSequence p (refFm.opSeqNumber p)).1 })) with opSeqFM := (Function.update (BT.InstrumentsManager.updateFM ((BT.InstrumentsManager.updateFM acc c (fun f => { f with opSeqEnabled := Function.update f.opSeqEnabled p true })).cloneFMOperatorSequence p (refFm.opSeqNumber p)).2 c (fun f => { f with opSeqNumber := Function.update f.opSeqNumber p ((BT.InstrumentsManager.updateFM acc c (fun f => { f with opSeqEnabled := Function.update f.opSeqEnabled p true })).cloneFMOperatorSequence p (refFm.opSeqNumber p)).1 })).opSeqFM p (((BT.InstrumentsManager.updateFM ((BT.InstrumentsManager.updateFM acc c (fun f => { f with opSeqEnabled := Function.update f.opSeqEnabled p true })).cloneFMOperatorSequence p (refFm.opSeqNumber p)).2 c (fun f => { f with opSeqNumber := Function.update f.opSeqNumber p ((BT.InstrumentsManager.updateFM acc c (fun f => { f with opSeqEnabled := Function.update f.opSeqEnabled p true })).cloneFMOperatorSequence p (refFm.opSeqNumber p)).1 })).opSeqFM p).registerUser ((BT.InstrumentsManager.updateFM acc c (fun f => { f with opSeqEnabled := Function.update f.opSeqEnabled p true })).cloneFMOperatorSequence p (refFm.opSeqNumber p)).1 c)) }).lfoFM = acc.lfoFM := by
        show (BT.InstrumentsManager.updateFM ((BT.InstrumentsManager.updateFM acc c (fun f => { f with opSeqEnabled := Function.update f.opSeqEnabled p true })).cloneFMOperatorSequence p (refFm.opSeqNumber p)).2 c (fun f => { f with opSeqNumber := Function.update f.opSeqNumber p ((BT.InstrumentsManager.updateFM acc c (fun f => { f with opSeqEnabled := Function.update f.opSeqEnabled p true })).cloneFMOperatorSequence p (refFm.opSeqNumber p)).1 })).lfoFM = acc.lfoFM
        rw [updateFM_lfoFM ((BT.InstrumentsManager.updateFM acc c (fun f => { f with opSeqEnabled := Function.update f.opSeqEnabled p true })).cloneFMOperatorSequence p (refFm.opSeqNumber p)).2 c (fun f => { f with opSeqNumber := Function.update f.opSeqNumber p ((BT.InstrumentsManager.updateFM acc c (fun f => { f with opSeqEnabled := Function.update f.opSeqEnabled p true })).cloneFMOperatorSequence p (refFm.opSeqNumber p)).1 })]
        rw [show ((BT.InstrumentsManager.updateFM acc c (fun f => { f with opSeqEnabled := Function.update f.opSeqEnabled p true })).cloneFMOperatorSequence p (refFm.opSeqNumber p)).2.lfoFM = (BT.InstrumentsManager.updateFM acc c (fun f => { f with opSeqEnabled := Function.update f.opSeqEnabled p true })).lfoFM from rfl]
        rw [updateFM_lfoFM acc c (fun f => { f with opSeqEnabled := Function.update f.opSeqEnabled p true })]
      rw [hFq, hfin_i]
      exact poolSync_update_irrelevant (fun s => by rw [hf]; rfl) inv.lfoFM
    · intro q hq
      by_cases hqp : q = p
      · subst hqp
        rw [hfin_i]
        exact poolSync_overwrite_register hc hf hold husers (inv.opSeqFM q hq)
      · have hQ : ({ (BT.InstrumentsManager.updateFM ((BT.InstrumentsManager.updateFM acc c (fun f => { f with opSeqEnabled := Function.update f.opSeqEnabled p true })).cloneFMOperatorSequence p (refFm.opSeqNumber p)).2 c (fun f => { f with opSeqNumber := Function.update f.opSeqNumber p ((BT.InstrumentsManager.updateFM acc c (fun f => { f with opSeqEnabled := Function.update f.opSeqEnabled p true })).cloneFMOperatorSequence p (refFm.opSeqNumber p)).1 })) with opSeqFM := (Function.update (BT.InstrumentsManager.updateFM ((BT.InstrumentsManager.updateFM acc c (fun f => { f with opSeqEnabled := Function.update f.opSeqEnabled p true })).cloneFMOperatorSequence p (refFm.opSeqNumber p)).2 c (fun f => { f with opSeqNumber := Function.update f.opSeqNumber p ((BT.InstrumentsManager.updateFM acc c (fun f => { f with opSeqEnabled := Function.update f.opSeqEnabled p true })).cloneFMOperatorSequence p (refFm.opSeqNumber p)).1 })).opSeqFM p (((BT.InstrumentsManager.updateFM ((BT.InstrumentsManager.updateFM acc c (fun f => { f with opSeqEnabled := Function.update f.opSeqEnabled p true })).cloneFMOperatorSequence p (refFm.opSeqNumber p)).2 c (fun f => { f with opSeqNumber := Function.update f.opSeqNumber p ((BT.InstrumentsManager.updateFM acc c (fun f => { f with opSeqEnabled := Function.update f.opSeqEnabled p true })).cloneFMOperatorSequence p (refFm.opSeqNumber p)).1 })).opSeqFM p).registerUser ((BT.InstrumentsManager.updateFM acc c (fun f => { f with opSeqEnabled := Function.update f.opSeqEnabled p true })).cloneFMOperatorSequence p (refFm.opSeqNumber p)).1 c)) }).opSeqFM q = acc.opSeqFM q := by
          show Function.update (BT.InstrumentsManager.updateFM ((BT.InstrumentsManager.updateFM acc c (fun f => { f with opSeqEnabled := Function.update f.opSeqEnabled p true })).cloneFMOperatorSequence p (refFm.opSeqNumber p)).2 c (fun f => { f with opSeqNumber := Function.update f.opSeqNumber p ((BT.InstrumentsManager.updateFM acc c (fun f => { f with opSeqEnabled := Function.update f.opSeqEnabled p true })).cloneFMOperatorSequence p (refFm.opSeqNumber p)).1 })).opSeqFM p (((BT.InstrumentsManager.updateFM ((BT.InstrumentsManager.updateFM acc c (fun f => { f with opSeqEnabled := Function.update f.opSeqEnabled p true })).cloneFMOperatorSequence p (refFm.opSeqNumber p)).2 c (fun f => { f with opSeqNumber := Function.update f.opSeqNumber p ((BT.InstrumentsManager.updateFM acc c (fun f => { f with opSeqEnabled := Function.update f.opSeqEnabled p true })).cloneFMOperatorSequence p (refFm.opSeqNumber p)).1 })).opSeqFM p).registerUser ((BT.InstrumentsManager.updateFM acc c (fun f => { f with opSeqEnabled := Function.update f.opSeqEnabled p true })).cloneFMOperatorSequence p (refFm.opSeqNumber p)).1 c) q = acc.opSeqFM q
          rw [Function.update_noteq hqp]
          rw [updateFM_opSeqFM ((BT.InstrumentsManager.updateFM acc c (fun f => { f with opSeqEnabled := Function.update f.opSeqEnabled p true })).cloneFMOperatorSequence p (refFm.opSeqNumber p)).2 c (fun f => { f with opSeqNumber := Function.update f.opSeqNumber p ((BT.InstrumentsManager.updateFM acc c (fun f => { f with opSeqEnabled := Function.update f.opSeqEnabled p true })).cloneFMOperatorSequence p (refFm.opSeqNumber p)).1 })]
          show Function.update (BT.InstrumentsManager.updateFM acc c (fun f => { f with opSeqEnabled := Function.update f.opSeqEnabled p true })).opSeqFM p (((BT.InstrumentsManager.updateFM acc c (fun f => { f with opSeqEnabled := Function.update f.opSeqEnabled p true })).opSeqFM p).cloneProp (refFm.opSeqNumber p)).2 q = acc.opSeqFM q
          rw [Function.update_noteq hqp]
          rw [updateFM_opSeqFM acc c (fun f => { f with opSeqEnabled := Function.update f.opSeqEnabled p true })]
        rw [hfin_i]
        refine poolSync_of_usersPreserved (fun s => by rw [hQ]) ?_
        refine poolSync_update_irrelevant (fun s => by
          rw [hf]
          show (Function.update f.opSeqEnabled p true q && (Function.update f.opSeqNumber p ((BT.InstrumentsManager.updateFM acc c (fun f => { f with opSeqEnabled := Function.update f.opSeqEnabled p true })).cloneFMOperatorSequence p (refFm.opSeqNumber p)).1 q == s)) =
            (f.opSeqEnabled q && (f.opSeqNumber q == s))
          rw [Function.update_noteq hqp, Function.update_noteq hqp]) (inv.opSeqFM q hq)
    · have hFq : ({ (BT.InstrumentsManager.updateFM ((BT.InstrumentsManager.updateFM acc c (fun f => { f with opSeqEnabled := Function.update f.opSeqEnabled p true })).cloneFMOperatorSequence p (refFm.opSeqNumber p)).2 c (fun f => { f with opSeqNumber := Function.update f.opSeqNumber p ((BT.InstrumentsManager.updateFM acc c (fun f => { f with opSeqEnabled := Function.update f.opSeqEnabled p true })).cloneFMOperatorSequence p (refFm.opSeqNumber p)).1 })) with opSeqFM := (Function.update (BT.InstrumentsManager.updateFM ((BT.InstrumentsManager.updateFM acc c (fun f => { f with opSeqEnabled := Function.update f.opSeqEnabled p true })).cloneFMOperatorSequence p (refFm.opSeqNumber p)).2 c (fun f => { f with opSeqNumber := Function.update f.opSeqNumber p ((BT.InstrumentsManager.updateFM acc c (fun f => { f with opSeqEnabled := Function.update f.opSeqEnabled p true })).cloneFMOperatorSequence p (refFm.opSeqNumber p)).1 })).opSeqFM p (((BT.InstrumentsManager.updateFM ((BT.InstrumentsManager.updateFM acc c (fun f => { f with opSeqEnabled := Function.update f.opSeqEnabled p true })).cloneFMOperatorSequence p (refFm.opSeqNumber p)).2 c (fun f => { f with opSeqNumber := Function.update f.opSeqNumber p ((BT.InstrumentsManager.updateFM acc c (fun f => { f with opSeqEnabled := Function.update f.opSeqEnabled p true })).cloneFMOperatorSequence p (refFm.opSeqNumber p)).1 })).opSeqFM p).registerUser ((BT.InstrumentsManager.updateFM acc c (fun f => { f with opSeqEnabled := Function.update f.opSeqEnabled p true })).cloneFMOperatorSequence p (refFm.opSeqNumber p)).1 c)) }).arpFM = acc.arpFM := by
        show (BT.InstrumentsManager.updateFM ((BT.InstrumentsManager.updateFM acc c (fun f => { f with opSeqEnabled := Function.update f.opSeqEnabled p true })).cloneFMOperatorSequence p (refFm.opSeqNumber p)).2 c (fun f => { f with opSeqNumber := Function.update f.opSeqNumber p ((BT.InstrumentsManager.updateFM acc c (fun f => { f with opSeqEnabled := Function.update f.opSeqEnabled p true })).cloneFMOperatorSequence p (refFm.opSeqNumber p)).1 })).arpFM = acc.arpFM
        rw [updateFM_arpFM ((BT.InstrumentsManager.updateFM acc c (fun f => { f with opSeqEnabled := Function.update f.opSeqEnabled p true })).cloneFMOperatorSequence p (refFm.opSeqNumber p)).2 c (fun f => { f with opSeqNumber := Function.update f.opSeqNumber p ((BT.InstrumentsManager.updateFM acc c (fun f => { f with opSeqEnabled := Function.update f.opSeqEnabled p true })).cloneFMOperatorSequence p (refFm.opSeqNumber p)).1 })]
        rw [show ((BT.InstrumentsManager.updateFM acc c (fun f => { f with opSeqEnabled := Function.update f.opSeqEnabled p true })).cloneFMOperatorSequence p (refFm.opSeqNumber p)).2.arpFM = (BT.InstrumentsManager.updateFM acc c (fun f => { f with opSeqEnabled := Function.update f.opSeqEnabled p true })).arpFM from rfl]
        rw [updateFM_arpFM acc c (fun f => { f with opSeqEnabled := Function.update f.opSeqEnabled p true })]
      rw [hFq, hfin_i]
      exact poolSync_update_irrelevant (fun s => by rw [hf]; rfl) inv.arpFM
    · have hFq : ({ (BT.InstrumentsManager.updateFM ((BT.InstrumentsManager.updateFM acc c (fun f => { f with opSeqEnabled := Function.update f.opSeqEnabled p true })).cloneFMOperatorSequence p (refFm.opSeqNumber p)).2 c (fun f => { f with opSeqNumber := Function.update f.opSeqNumber p ((BT.InstrumentsManager.updateFM acc c (fun f => { f with opSeqEnabled := Function.update f.opSeqEnabled p true })).cloneFMOperatorSequence p (refFm.opSeqNumber p)).1 })) with opSeqFM := (Function.update (BT.InstrumentsManager.updateFM ((BT.InstrumentsManager.updateFM acc c (fun f => { f with opSeqEnabled := Function.update f.opSeqEnabled p true })).cloneFMOperatorSequence p (refFm.opSeqNumber p)).2 c (fun f => { f with opSeqNumber := Function.update f.opSeqNumber p ((BT.InstrumentsManager.updateFM acc c (fun f => { f with opSeqEnabled := Function.update f.opSeqEnabled p true })).cloneFMOperatorSequence p (refFm.opSeqNumber p)).1 })).opSeqFM p (((BT.InstrumentsManager.updateFM ((BT.InstrumentsManager.updateFM acc c (fun f => { f with opSeqEnabled := Function.update f.opSeqEnabled p true })).cloneFMOperatorSequence p (refFm.opSeqNumber p)).2 c (fun f => { f with opSeqNumber := Function.update f.opSeqNumber p ((BT.InstrumentsManager.updateFM acc c (fun f => { f with opSeqEnabled := Function.update f.opSeqEnabled p true })).cloneFMOperatorSequence p (refFm.opSeqNumber p)).1 })).opSeqFM p).registerUser ((BT.InstrumentsManager.updateFM acc c (fun f => { f with opSeqEnabled := Function.update f.opSeqEnabled p true })).cloneFMOperatorSequence p (refFm.opSeqNumber p)).1 c)) }).ptFM = acc.ptFM := by
        show (BT.InstrumentsManager.updateFM ((BT.InstrumentsManager.updateFM acc c (fun f => { f with opSeqEnabled := Function.update f.opSeqEnabled p true })).cloneFMOperatorSequence p (refFm.opSeqNumber p)).2 c (fun f => { f with opSeqNumber := Function.update f.opSeqNumber p ((BT.InstrumentsManager.updateFM acc c (fun f => { f with opSeqEnabled := Function.update f.opSeqEnabled p true })).cloneFMOperatorSequence p (refFm.opSeqNumber p)).1 })).ptFM = acc.ptFM
        rw [updateFM_ptFM ((BT.InstrumentsManager.updateFM acc c (fun f => { f with opSeqEnabled := Function.update f.opSeqEnabled p true })).cloneFMOperatorSequence p (refFm.opSeqNumber p)).2 c (fun f => { f with opSeqNumber := Function.update f.opSeqNumber p ((BT.InstrumentsManager.updateFM acc c (fun f => { f with opSeqEnabled := Function.update f.opSeqEnabled p true })).cloneFMOperatorSequence p (refFm.opSeqNumber p)).1 })]
        rw [show ((BT.InstrumentsManager.updateFM acc c (fun f => { f with opSeqEnabled := Function.update f.opSeqEnabled p true })).cloneFMOperatorSequence p (refFm.opSeqNumber p)).2.ptFM = (BT.InstrumentsManager.updateFM acc c (fun f => { f with opSeqEnabled := Function.update f.opSeqEnabled p true })).ptFM from rfl]
        rw [updateFM_ptFM acc c (fun f => { f with opSeqEnabled := Function.update f.opSeqEnabled p true })]
      rw [hFq, hfin_i]
      exact poolSync_update_irrelevant (fun s => by rw [hf]; rfl) inv.ptFM
    · have hFq : ({ (BT.InstrumentsManager.updateFM ((BT.InstrumentsManager.updateFM acc c (fun f => { f with opSeqEnabled := Function.update f.opSeqEnabled p true })).cloneFMOperatorSequence p (refFm.opSeqNumber p)).2 c (fun f => { f with opSeqNumber := Function.update f.opSeqNumber p ((BT.InstrumentsManager.updateFM acc c (fun f => { f with opSeqEnabled := Function.update f.opSeqEnabled p true })).cloneFMOperatorSequence p (refFm.opSeqNumber p)).1 })) with opSeqFM := (Function.update (BT.InstrumentsManager.updateFM ((BT.InstrumentsManager.updateFM acc c (fun f => { f with opSeqEnabled := Function.update f.opSeqEnabled p true })).cloneFMOperatorSequence p (refFm.opSeqNumber p)).2 c (fun f => { f with opSeqNumber := Function.update f.opSeqNumber p ((BT.InstrumentsManager.updateFM acc c (fun f => { f with opSeqEnabled := Function.update f.opSeqEnabled p true })).cloneFMOperatorSequence p (refFm.opSeqNumber p)).1 })).opSeqFM p (((BT.InstrumentsManager.updateFM ((BT.InstrumentsManager.updateFM acc c (fun f => { f with opSeqEnabled := Function.update f.opSeqEnabled p true })).cloneFMOperatorSequence p (refFm.opSeqNumber p)).2 c (fun f => { f with opSeqNumber := Function.update f.opSeqNumber p ((BT.InstrumentsManager.updateFM acc c (fun f => { f with opSeqEnabled := Function.update f.opSeqEnabled p true })).cloneFMOperatorSequence p (refFm.opSeqNumber p)).1 })).opSeqFM p).registerUser ((BT.InstrumentsManager.updateFM acc c (fun f => { f with opSeqEnabled := Function.update f.opSeqEnabled p true })).cloneFMOperatorSequence p (refFm.opSeqNumber p)).1 c)) }).wfSSG = acc.wfSSG := by
        show (BT.InstrumentsManager.updateFM ((BT.InstrumentsManager.updateFM acc c (fun f => { f with opSeqEnabled := Function.update f.opSeqEnabled p true })).cloneFMOperatorSequence p (refFm.opSeqNumber p)).2 c (fun f => { f with opSeqNumber := Function.update f.opSeqNumber p ((BT.InstrumentsManager.updateFM acc c (fun f => { f with opSeqEnabled := Function.update f.opSeqEnabled p true })).cloneFMOperatorSequence p (refFm.opSeqNumber p)).1 })).wfSSG = acc.wfSSG
        rw [updateFM_wfSSG ((BT.InstrumentsManager.updateFM acc c (fun f => { f with opSeqEnabled := Function.update f.opSeqEnabled p true })).cloneFMOperatorSequence p (refFm.opSeqNumber p)).2 c (fun f => { f with opSeqNumber := Function.update f.opSeqNumber p ((BT.InstrumentsManager.updateFM acc c (fun f => { f with opSeqEnabled := Function.update f.opSeqEnabled p true })).cloneFMOperatorSequence p (refFm.opSeqNumber p)).1 })]
        rw [show ((BT.InstrumentsManager.updateFM acc c (fun f => { f with opSeqEnabled := Function.update f.opSeqEnabled p true })).cloneFMOperatorSequence p (refFm.opSeqNumber p)).2.wfSSG = (BT.InstrumentsManager.updateFM acc c (fun f => { f with opSeqEnabled := Function.update f.opSeqEnabled p true })).wfSSG from rfl]
        rw [updateFM_wfSSG acc c (fun f => { f with opSeqEnabled := Function.update f.opSeqEnabled p true })]
      rw [hFq, hfin_i]
      exact poolSync_update_irrelevant (fun s => by rw [hf]; rfl) inv.wfSSG
    · have hFq : ({ (BT.InstrumentsManager.updateFM ((BT.InstrumentsManager.updateFM acc c (fun f => { f with opSeqEnabled := Function.update f.opSeqEnabled p true })).cloneFMOperatorSequence p (refFm.opSeqNumber p)).2 c (fun f => { f with opSeqNumber := Function.update f.opSeqNumber p ((BT.InstrumentsManager.updateFM acc c (fun f => { f with opSeqEnabled := Function.update f.opSeqEnabled p true })).cloneFMOperatorSequence p (refFm.opSeqNumber p)).1 })) with opSeqFM := (Function.update (BT.InstrumentsManager.updateFM ((BT.InstrumentsManager.updateFM acc c (fun f => { f with opSeqEnabled := Function.update f.opSeqEnabled p true })).cloneFMOperatorSequence p (refFm.opSeqNumber p)).2 c (fun f => { f with opSeqNumber := Function.update f.opSeqNumber p ((BT.InstrumentsManager.updateFM acc c (fun f => { f with opSeqEnabled := Function.update f.opSeqEnabled p true })).cloneFMOperatorSequence p (refFm.opSeqNumber p)).1 })).opSeqFM p (((BT.InstrumentsManager.updateFM ((BT.InstrumentsManager.updateFM acc c (fun f => { f with opSeqEnabled := Function.update f.opSeqEnabled p true })).cloneFMOperatorSequence p (refFm.opSeqNumber p)).2 c (fun f => { f with opSeqNumber := Function.update f.opSeqNumber p ((BT.InstrumentsManager.updateFM acc c (fun f => { f with opSeqEnabled := Function.update f.opSeqEnabled p true })).cloneFMOperatorSequence p (refFm.opSeqNumber p)).1 })).opSeqFM p).registerUser ((BT.InstrumentsManager.updateFM acc c (fun f => { f with opSeqEnabled := Function.update f.opSeqEnabled p true })).cloneFMOperatorSequence p (refFm.opSeqNumber p)).1 c)) }).tnSSG = acc.tnSSG := by
        show (BT.InstrumentsManager.updateFM ((BT.InstrumentsManager.updateFM acc c (fun f => { f with opSeqEnabled := Function.update f.opSeqEnabled p true })).cloneFMOperatorSequence p (refFm.opSeqNumber p)).2 c (fun f => { f with opSeqNumber := Function.update f.opSeqNumber p ((BT.InstrumentsManager.updateFM acc c (fun f => { f with opSeqEnabled := Function.update f.opSeqEnabled p true })).cloneFMOperatorSequence p (refFm.opSeqNumber p)).1 })).tnSSG = acc.tnSSG
        rw [updateFM_tnSSG ((BT.InstrumentsManager.updateFM acc c (fun f => { f with opSeqEnabled := Function.update f.opSeqEnabled p true })).cloneFMOperatorSequence p (refFm.opSeqNumber p)).2 c (fun f => { f with opSeqNumber := Function.update f.opSeqNumber p ((BT.InstrumentsManager.updateFM acc c (fun f => { f with opSeqEnabled := Function.update f.opSeqEnabled p true })).cloneFMOperatorSequence p (refFm.opSeqNumber p)).1 })]
        rw [show ((BT.InstrumentsManager.updateFM acc c (fun f => { f with opSeqEnabled := Function.update f.opSeqEnabled p true })).cloneFMOperatorSequence p (refFm.opSeqNumber p)).2.tnSSG = (BT.InstrumentsManager.updateFM acc c (fun f => { f with opSeqEnabled := Function.update f.opSeqEnabled p true })).tnSSG from rfl]
        rw [updateFM_tnSSG acc c (fun f => { f with opSeqEnabled := Function.update f.opSeqEnabled p true })]
      rw [hFq, hfin_i]
      exact poolSync_update_irrelevant (fun s => by rw [hf]; rfl) inv.tnSSG
    · have hFq : ({ (BT.InstrumentsManager.updateFM ((BT.InstrumentsManager.updateFM acc c (fun f => { f with opSeqEnabled := Function.update f.opSeqEnabled p true })).cloneFMOperatorSequence p (refFm.opSeqNumber p)).2 c (fun f => { f with opSeqNumber := Function.update f.opSeqNumber p ((BT.InstrumentsManager.updateFM acc c (fun f => { f with opSeqEnabled := Function.update f.opSeqEnabled p true })).cloneFMOperatorSequence p (refFm.opSeqNumber p)).1 })) with opSeqFM := (Function.update (BT.InstrumentsManager.updateFM ((BT.InstrumentsManager.updateFM acc c (fun f => { f with opSeqEnabled := Function.update f.opSeqEnabled p true })).cloneFMOperatorSequence p (refFm.opSeqNumber p)).2 c (fun f => { f with opSeqNumber := Function.update f.opSeqNumber p ((BT.InstrumentsManager.updateFM acc c (fun f => { f with opSeqEnabled := Function.update f.opSeqEnabled p true })).cloneFMOperatorSequence p (refFm.opSeqNumber p)).1 })).opSeqFM p (((BT.InstrumentsManager.updateFM ((BT.InstrumentsManager.updateFM acc c (fun f => { f with opSeqEnabled := Function.update f.opSeqEnabled p true })).cloneFMOperatorSequence p (refFm.opSeqNumber p)).2 c (fun f => { f with opSeqNumber := Function.update f.opSeqNumber p ((BT.InstrumentsManager.updateFM acc c (fun f => { f with opSeqEnabled := Function.update f.opSeqEnabled p true })).cloneFMOperatorSequence p (refFm.opSeqNumber p)).1 })).opSeqFM p).registerUser ((BT.InstrumentsManager.updateFM acc c (fun f => { f with opSeqEnabled := Function.update f.opSeqEnabled p true })).cloneFMOperatorSequence p (refFm.opSeqNumber p)).1 c)) }).envSSG = acc.envSSG := by
        show (BT.InstrumentsManager.updateFM ((BT.InstrumentsManager.updateFM acc c (fun f => { f with opSeqEnabled := Function.update f.opSeqEnabled p true })).cloneFMOperatorSequence p (refFm.opSeqNumber p)).2 c (fun f => { f with opSeqNumber := Function.update f.opSeqNumber p ((BT.InstrumentsManager.updateFM acc c (fun f => { f with opSeqEnabled := Function.update f.opSeqEnabled p true })).cloneFMOperatorSequence p (refFm.opSeqNumber p)).1 })).envSSG = acc.envSSG
        rw [updateFM_envSSG ((BT.InstrumentsManager.updateFM acc c (fun f => { f with opSeqEnabled := Function.update f.opSeqEnabled p true })).cloneFMOperatorSequence p (refFm.opSeqNumber p)).2 c (fun f => { f with opSeqNumber := Function.update f.opSeqNumber p ((BT.InstrumentsManager.updateFM acc c (fun f => { f with opSeqEnabled := Function.update f.opSeqEnabled p true })).cloneFMOperatorSequence p (refFm.opSeqNumber p)).1 })]
        rw [show ((BT.InstrumentsManager.updateFM acc c (fun f => { f with opSeqEnabled := Function.update f.opSeqEnabled p true })).cloneFMOperatorSequence p (refFm.opSeqNumber p)).2.envSSG = (BT.InstrumentsManager.updateFM acc c (fun f => { f with opSeqEnabled := Function.update f.opSeqEnabled p true })).envSSG from rfl]
        rw [updateFM_envSSG acc c (fun f => { f with opSeqEnabled := Function.update f.opSeqEnabled p true })]
      rw [hFq, hfin_i]
      exact poolSync_update_irrelevant (fun s => by rw [hf]; rfl) inv.envSSG
    · have hFq : ({ (BT.InstrumentsManager.updateFM ((BT.InstrumentsManager.updateFM acc c (fun f => { f with opSeqEnabled := Function.update f.opSeqEnabled p true })).cloneFMOperatorSequence p (refFm.opSeqNumber p)).2 c (fun f => { f with opSeqNumber := Function.update f.opSeqNumber p ((BT.InstrumentsManager.updateFM acc c (fun f => { f with opSeqEnabled := Function.update f.opSeqEnabled p true })).cloneFMOperatorSequence p (refFm.opSeqNumber p)).1 })) with opSeqFM := (Function.update (BT.InstrumentsManager.updateFM ((BT.InstrumentsManager.updateFM acc c (fun f => { f with opSeqEnabled := Function.update f.opSeqEnabled p true })).cloneFMOperatorSequence p (refFm.opSeqNumber p)).2 c (fun f => { f with opSeqNumber := Function.update f.opSeqNumber p ((BT.InstrumentsManager.updateFM acc c (fun f => { f with opSeqEnabled := Function.update f.opSeqEnabled p true })).cloneFMOperatorSequence p (refFm.opSeqNumber p)).1 })).opSeqFM p (((BT.InstrumentsManager.updateFM ((BT.InstrumentsManager.updateFM acc c (fun f => { f with opSeqEnabled := Function.update f.opSeqEnabled p true })).cloneFMOperatorSequence p (refFm.opSeqNumber p)).2 c (fun f => { f with opSeqNumber := Function.update f.opSeqNumber p ((BT.InstrumentsManager.updateFM acc c (fun f => { f with opSeqEnabled := Function.update f.opSeqEnabled p true })).cloneFMOperatorSequence p (refFm.opSeqNumber p)).1 })).opSeqFM p).registerUser ((BT.InstrumentsManager.updateFM acc c (fun f => { f with opSeqEnabled := Function.update f.opSeqEnabled p true })).cloneFMOperatorSequence p (refFm.opSeqNumber p)).1 c)) }).arpSSG = acc.arpSSG := by
        show (BT.InstrumentsManager.updateFM ((BT.InstrumentsManager.updateFM acc c (fun f => { f with opSeqEnabled := Function.update f.opSeqEnabled p true })).cloneFMOperatorSequence p (refFm.opSeqNumber p)).2 c (fun f => { f with opSeqNumber := Function.update f.opSeqNumber p ((BT.InstrumentsManager.updateFM acc c (fun f => { f with opSeqEnabled := Function.update f.opSeqEnabled p true })).cloneFMOperatorSequence p (refFm.opSeqNumber p)).1 })).arpSSG = acc.arpSSG
        rw [updateFM_arpSSG ((BT.InstrumentsManager.updateFM acc c (fun f => { f with opSeqEnabled := Function.update f.opSeqEnabled p true })).cloneFMOperatorSequence p (refFm.opSeqNumber p)).2 c (fun f => { f with opSeqNumber := Function.update f.opSeqNumber p ((BT.InstrumentsManager.updateFM acc c (fun f => { f with opSeqEnabled := Function.update f.opSeqEnabled p true })).cloneFMOperatorSequence p (refFm.opSeqNumber p)).1 })]
        rw [show ((BT.InstrumentsManager.updateFM acc c (fun f => { f with opSeqEnabled := Function.update f.opSeqEnabled p true })).cloneFMOperatorSequence p (refFm.opSeqNumber p)).2.arpSSG = (BT.InstrumentsManager.updateFM acc c (fun f => { f with opSeqEnabled := Function.update f.opSeqEnabled p true })).arpSSG from rfl]
        rw [updateFM_arpSSG acc c (fun f => { f with opSeqEnabled := Function.update f.opSeqEnabled p true })]
      rw [hFq, hfin_i]
      exact poolSync_update_irrelevant (fun s => by rw [hf]; rfl) inv.arpSSG
    · have hFq : ({ (BT.InstrumentsManager.updateFM ((BT.InstrumentsManager.updateFM acc c (fun f => { f with opSeqEnabled := Function.update f.opSeqEnabled p true })).cloneFMOperatorSequence p (refFm.opSeqNumber p)).2 c (fun f => { f with opSeqNumber := Function.update f.opSeqNumber p ((BT.InstrumentsManager.updateFM acc c (fun f => { f with opSeqEnabled := Function.update f.opSeqEnabled p true })).cloneFMOperatorSequence p (refFm.opSeqNumber p)).1 })) with opSeqFM := (Function.update (BT.InstrumentsManager.updateFM ((BT.InstrumentsManager.updateFM acc c (fun f => { f with opSeqEnabled := Function.update f.opSeqEnabled p true })).cloneFMOperatorSequence p (refFm.opSeqNumber p)).2 c (fun f => { f with opSeqNumber := Function.update f.opSeqNumber p ((BT.InstrumentsManager.updateFM acc c (fun f => { f with opSeqEnabled := Function.update f.opSeqEnabled p true })).cloneFMOperatorSequence p (refFm.opSeqNumber p)).1 })).opSeqFM p (((BT.InstrumentsManager.updateFM ((BT.InstrumentsManager.updateFM acc c (fun f => { f with opSeqEnabled := Function.update f.opSeqEnabled p true })).cloneFMOperatorSequence p (refFm.opSeqNumber p)).2 c (fun f => { f with opSeqNumber := Function.update f.opSeqNumber p ((BT.InstrumentsManager.updateFM acc c (fun f => { f with opSeqEnabled := Function.update f.opSeqEnabled p true })).cloneFMOperatorSequence p (refFm.opSeqNumber p)).1 })).opSeqFM p).registerUser ((BT.InstrumentsManager.updateFM acc c (fun f => { f with opSeqEnabled := Function.update f.opSeqEnabled p true })).cloneFMOperatorSequence p (refFm.opSeqNumber p)).1 c)) }).ptSSG = acc.ptSSG := by
        show (BT.InstrumentsManager.updateFM ((BT.InstrumentsManager.updateFM acc c (fun f => { f with opSeqEnabled := Function.update f.opSeqEnabled p true })).cloneFMOperatorSequence p (refFm.opSeqNumber p)).2 c (fun f => { f with opSeqNumber := Function.update f.opSeqNumber p ((BT.InstrumentsManager.updateFM acc c (fun f => { f with opSeqEnabled := Function.update f.opSeqEnabled p true })).cloneFMOperatorSequence p (refFm.opSeqNumber p)).1 })).ptSSG = acc.ptSSG
        rw [updateFM_ptSSG ((BT.InstrumentsManager.updateFM acc c (fun f => { f with opSeqEnabled := Function.update f.opSeqEnabled p true })).cloneFMOperatorSequence p (refFm.opSeqNumber p)).2 c (fun f => { f with opSeqNumber := Function.update f.opSeqNumber p ((BT.InstrumentsManager.updateFM acc c (fun f => { f with opSeqEnabled := Function.update f.opSeqEnabled p true })).cloneFMOperatorSequence p (refFm.opSeqNumber p)).1 })]
        rw [show ((BT.InstrumentsManager.updateFM acc c (fun f => { f with opSeqEnabled := Function.update f.opSeqEnabled p true })).cloneFMOperatorSequence p (refFm.opSeqNumber p)).2.ptSSG = (BT.InstrumentsManager.updateFM acc c (fun f => { f with opSeqEnabled := Function.update f.opSeqEnabled p true })).ptSSG from rfl]
        rw [updateFM_ptSSG acc c (fun f => { f with opSeqEnabled := Function.update f.opSeqEnabled p true })]
      rw [hFq, hfin_i]
      exact poolSync_update_irrelevant (fun s => by rw [hf]; rfl) inv.ptSSG
    · have hFq : ({ (BT.InstrumentsManager.updateFM ((BT.InstrumentsManager.updateFM acc c (fun f => { f with opSeqEnabled := Function.update f.opSeqEnabled p true })).cloneFMOperatorSequence p (refFm.opSeqNumber p)).2 c (fun f => { f with opSeqNumber := Function.update f.opSeqNumber p ((BT.InstrumentsManager.updateFM acc c (fun f => { f with opSeqEnabled := Function.update f.opSeqEnabled p true })).cloneFMOperatorSequence p (refFm.opSeqNumber p)).1 })) with opSeqFM := (Function.update (BT.InstrumentsManager.updateFM ((BT.InstrumentsManager.updateFM acc c (fun f => { f with opSeqEnabled := Function.update f.opSeqEnabled p true })).cloneFMOperatorSequence p (refFm.opSeqNumber p)).2 c (fun f => { f with opSeqNumber := Function.update f.opSeqNumber p ((BT.InstrumentsManager.updateFM acc c (fun f => { f with opSeqEnabled := Function.update f.opSeqEnabled p true })).cloneFMOperatorSequence p (refFm.opSeqNumber p)).1 })).opSeqFM p (((BT.InstrumentsManager.updateFM ((BT.InstrumentsManager.updateFM acc c (fun f => { f with opSeqEnabled := Function.update f.opSeqEnabled p true })).cloneFMOperatorSequence p (refFm.opSeqNumber p)).2 c (fun f => { f with opSeqNumber := Function.update f.opSeqNumber p ((BT.InstrumentsManager.updateFM acc c (fun f => { f with opSeqEnabled := Function.update f.opSeqEnabled p true })).cloneFMOperatorSequence p (refFm.opSeqNumber p)).1 })).opSeqFM p).registerUser ((BT.InstrumentsManager.updateFM acc c (fun f => { f with opSeqEnabled := Function.update f.opSeqEnabled p true })).cloneFMOperatorSequence p (refFm.opSeqNumber p)).1 c)) }).wfADPCM = acc.wfADPCM := by
        show (BT.InstrumentsManager.updateFM ((BT.InstrumentsManager.updateFM acc c (fun f => { f with opSeqEnabled := Function.update f.opSeqEnabled p true })).cloneFMOperatorSequence p (refFm.opSeqNumber p)).2 c (fun f => { f with opSeqNumber := Function.update f.opSeqNumber p ((BT.InstrumentsManager.updateFM acc c (fun f => { f with opSeqEnabled := Function.update f.opSeqEnabled p true })).cloneFMOperatorSequence p (refFm.opSeqNumber p)).1 })).wfADPCM = acc.wfADPCM
        rw [updateFM_wfADPCM ((BT.InstrumentsManager.updateFM acc c (fun f => { f with opSeqEnabled := Function.update f.opSeqEnabled p true })).cloneFMOperatorSequence p (refFm.opSeqNumber p)).2 c (fun f => { f with opSeqNumber := Function.update f.opSeqNumber p ((BT.InstrumentsManager.updateFM acc c (fun f => { f with opSeqEnabled := Function.update f.opSeqEnabled p true })).cloneFMOperatorSequence p (refFm.opSeqNumber p)).1 })]
        rw [show ((BT.InstrumentsManager.updateFM acc c (fun f => { f with opSeqEnabled := Function.update f.opSeqEnabled p true })).cloneFMOperatorSequence p (refFm.opSeqNumber p)).2.wfADPCM = (BT.InstrumentsManager.updateFM acc c (fun f => { f with opSeqEnabled := Function.update f.opSeqEnabled p true })).wfADPCM from rfl]
        rw [updateFM_wfADPCM acc c (fun f => { f with opSeqEnabled := Function.update f.opSeqEnabled p true })]
      rw [hFq, hfin_i]
      exact poolSync_update_irrelevant (fun s => by rw [hf]; rfl) inv.wfADPCM
    · have hFq : ({ (BT.InstrumentsManager.updateFM ((BT.InstrumentsManager.updateFM acc c (fun f => { f with opSeqEnabled := Function.update f.opSeqEnabled p true })).cloneFMOperatorSequence p (refFm.opSeqNumber p)).2 c (fun f => { f with opSeqNumber := Function.update f.opSeqNumber p ((BT.InstrumentsManager.updateFM acc c (fun f => { f with opSeqEnabled := Function.update f.opSeqEnabled p true })).cloneFMOperatorSequence p (refFm.opSeqNumber p)).1 })) with opSeqFM := (Function.update (BT.InstrumentsManager.updateFM ((BT.InstrumentsManager.updateFM acc c (fun f => { f with opSeqEnabled := Function.update f.opSeqEnabled p true })).cloneFMOperatorSequence p (refFm.opSeqNumber p)).2 c (fun f => { f with opSeqNumber := Function.update f.opSeqNumber p ((BT.InstrumentsManager.updateFM acc c (fun f => { f with opSeqEnabled := Function.update f.opSeqEnabled p true })).cloneFMOperatorSequence p (refFm.opSeqNumber p)).1 })).opSeqFM p (((BT.InstrumentsManager.updateFM ((BT.InstrumentsManager.updateFM acc c (fun f => { f with opSeqEnabled := Function.update f.opSeqEnabled p true })).cloneFMOperatorSequence p (refFm.opSeqNumber p)).2 c (fun f => { f with opSeqNumber := Function.update f.opSeqNumber p ((BT.InstrumentsManager.updateFM acc c (fun f => { f with opSeqEnabled := Function.update f.opSeqEnabled p true })).cloneFMOperatorSequence p (refFm.opSeqNumber p)).1 })).opSeqFM p).registerUser ((BT.InstrumentsManager.updateFM acc c (fun f => { f with opSeqEnabled := Function.update f.opSeqEnabled p true })).cloneFMOperatorSequence p (refFm.opSeqNumber p)).1 c)) }).envADPCM = acc.envADPCM := by
        show (BT.InstrumentsManager.updateFM ((BT.InstrumentsManager.updateFM acc c (fun f => { f with opSeqEnabled := Function.update f.opSeqEnabled p true })).cloneFMOperatorSequence p (refFm.opSeqNumber p)).2 c (fun f => { f with opSeqNumber := Function.update f.opSeqNumber p ((BT.InstrumentsManager.updateFM acc c (fun f => { f with opSeqEnabled := Function.update f.opSeqEnabled p true })).cloneFMOperatorSequence p (refFm.opSeqNumber p)).1 })).envADPCM = acc.envADPCM
        rw [updateFM_envADPCM ((BT.InstrumentsManager.updateFM acc c (fun f => { f with opSeqEnabled := Function.update f.opSeqEnabled p true })).cloneFMOperatorSequence p (refFm.opSeqNumber p)).2 c (fun f => { f with opSeqNumber := Function.update f.opSeqNumber p ((BT.InstrumentsManager.updateFM acc c (fun f => { f with opSeqEnabled := Function.update f.opSeqEnabled p true })).cloneFMOperatorSequence p (refFm.opSeqNumber p)).1 })]
        rw [show ((BT.InstrumentsManager.updateFM acc c (fun f => { f with opSeqEnabled := Function.update f.opSeqEnabled p true })).cloneFMOperatorSequence p (refFm.opSeqNumber p)).2.envADPCM = (BT.InstrumentsManager.updateFM acc c (fun f => { f with opSeqEnabled := Function.update f.opSeqEnabled p true })).envADPCM from rfl]
        rw [updateFM_envADPCM acc c (fun f => { f with opSeqEnabled := Function.update f.opSeqEnabled p true })]
      rw [hFq, hfin_i]
      exact poolSync_update_irrelevant (fun s => by rw [hf]; rfl) inv.envADPCM
    · have hFq : ({ (BT.InstrumentsManager.updateFM ((BT.InstrumentsManager.updateFM acc c (fun f => { f with opSeqEnabled := Function.update f.opSeqEnabled p true })).cloneFMOperatorSequence p (refFm.opSeqNumber p)).2 c (fun f => { f with opSeqNumber := Function.update f.opSeqNumber p ((BT.InstrumentsManager.updateFM acc c (fun f => { f with opSeqEnabled := Function.update f.opSeqEnabled p true })).cloneFMOperatorSequence p (refFm.opSeqNumber p)).1 })) with opSeqFM := (Function.update (BT.InstrumentsManager.updateFM ((BT.InstrumentsManager.updateFM acc c (fun f => { f with opSeqEnabled := Function.update f.opSeqEnabled p true })).cloneFMOperatorSequence p (refFm.opSeqNumber p)).2 c (fun f => { f with opSeqNumber := Function.update f.opSeqNumber p ((BT.InstrumentsManager.updateFM acc c (fun f => { f with opSeqEnabled := Function.update f.opSeqEnabled p true })).cloneFMOperatorSequence p (refFm.opSeqNumber p)).1 })).opSeqFM p (((BT.InstrumentsManager.updateFM ((BT.InstrumentsManager.updateFM acc c (fun f => { f with opSeqEnabled := Function.update f.opSeqEnabled p true })).cloneFMOperatorSequence p (refFm.opSeqNumber p)).2 c (fun f => { f with opSeqNumber := Function.update f.opSeqNumber p ((BT.InstrumentsManager.updateFM acc c (fun f => { f with opSeqEnabled := Function.update f.opSeqEnabled p true })).cloneFMOperatorSequence p (refFm.opSeqNumber p)).1 })).opSeqFM p).registerUser ((BT.InstrumentsManager.updateFM acc c (fun f => { f with opSeqEnabled := Function.update f.opSeqEnabled p true })).cloneFMOperatorSequence p (refFm.opSeqNumber p)).1 c)) }).arpADPCM = acc.arpADPCM := by
        show (BT.InstrumentsManager.updateFM ((BT.InstrumentsManager.updateFM acc c (fun f => { f with opSeqEnabled := Function.update f.opSeqEnabled p true })).cloneFMOperatorSequence p (refFm.opSeqNumber p)).2 c (fun f => { f with opSeqNumber := Function.update f.opSeqNumber p ((BT.InstrumentsManager.updateFM acc c (fun f => { f with opSeqEnabled := Function.update f.opSeqEnabled p true })).cloneFMOperatorSequence p (refFm.opSeqNumber p)).1 })).arpADPCM = acc.arpADPCM
        rw [updateFM_arpADPCM ((BT.InstrumentsManager.updateFM acc c (fun f => { f with opSeqEnabled := Function.update f.opSeqEnabled p true })).cloneFMOperatorSequence p (refFm.opSeqNumber p)).2 c (fun f => { f with opSeqNumber := Function.update f.opSeqNumber p ((BT.InstrumentsManager.updateFM acc c (fun f => { f with opSeqEnabled := Function.update f.opSeqEnabled p true })).cloneFMOperatorSequence p (refFm.opSeqNumber p)).1 })]
        rw [show ((BT.InstrumentsManager.updateFM acc c (fun f => { f with opSeqEnabled := Function.update f.opSeqEnabled p true })).cloneFMOperatorSequence p (refFm.opSeqNumber p)).2.arpADPCM = (BT.InstrumentsManager.updateFM acc c (fun f => { f with opSeqEnabled := Function.update f.opSeqEnabled p true })).arpADPCM from rfl]
        rw [updateFM_arpADPCM acc c (fun f => { f with opSeqEnabled := Function.update f.opSeqEnabled p true })]
      rw [hFq, hfin_i]
      exact poolSync_update_irrelevant (fun s => by rw [hf]; rfl) inv.arpADPCM
    · have hFq : ({ (BT.InstrumentsManager.updateFM ((BT.InstrumentsManager.updateFM acc c (fun f => { f with opSeqEnabled := Function.update f.opSeqEnabled p true })).cloneFMOperatorSequence p (refFm.opSeqNumber p)).2 c (fun f => { f with opSeqNumber := Function.update f.opSeqNumber p ((BT.InstrumentsManager.updateFM acc c (fun f => { f with opSeqEnabled := Function.update f.opSeqEnabled p true })).cloneFMOperatorSequence p (refFm.opSeqNumber p)).1 })) with opSeqFM := (Function.update (BT.InstrumentsManager.updateFM ((BT.InstrumentsManager.updateFM acc c (fun f => { f with opSeqEnabled := Function.update f.opSeqEnabled p true })).cloneFMOperatorSequence p (refFm.opSeqNumber p)).2 c (fun f => { f with opSeqNumber := Function.update f.opSeqNumber p ((BT.InstrumentsManager.updateFM acc c (fun f => { f with opSeqEnabled := Function.update f.opSeqEnabled p true })).cloneFMOperatorSequence p (refFm.opSeqNumber p)).1 })).opSeqFM p (((BT.InstrumentsManager.updateFM ((BT.InstrumentsManager.updateFM acc c (fun f => { f with opSeqEnabled := Function.update f.opSeqEnabled p true })).cloneFMOperatorSequence p (refFm.opSeqNumber p)).2 c (fun f => { f with opSeqNumber := Function.update f.opSeqNumber p ((BT.InstrumentsManager.updateFM acc c (fun f => { f with opSeqEnabled := Function.update f.opSeqEnabled p true })).cloneFMOperatorSequence p (refFm.opSeqNumber p)).1 })).opSeqFM p).registerUser ((BT.InstrumentsManager.updateFM acc c (fun f => { f with opSeqEnabled := Function.update f.opSeqEnabled p true })).cloneFMOperatorSequence p (refFm.opSeqNumber p)).1 c)) }).ptADPCM = acc.ptADPCM := by
        show (BT.InstrumentsManager.updateFM ((BT.InstrumentsManager.updateFM acc c (fun f => { f with opSeqEnabled := Function.update f.opSeqEnabled p true })).cloneFMOperatorSequence p (refFm.opSeqNumber p)).2 c (fun f => { f with opSeqNumber := Function.update f.opSeqNumber p ((BT.InstrumentsManager.updateFM acc c (fun f => { f with opSeqEnabled := Function.update f.opSeqEnabled p true })).cloneFMOperatorSequence p (refFm.opSeqNumber p)).1 })).ptADPCM = acc.ptADPCM
        rw [updateFM_ptADPCM ((BT.InstrumentsManager.updateFM acc c (fun f => { f with opSeqEnabled := Function.update f.opSeqEnabled p true })).cloneFMOperatorSequence p (refFm.opSeqNumber p)).2 c (fun f => { f with opSeqNumber := Function.update f.opSeqNumber p ((BT.InstrumentsManager.updateFM acc c (fun f => { f with opSeqEnabled := Function.update f.opSeqEnabled p true })).cloneFMOperatorSequence p (refFm.opSeqNumber p)).1 })]
        rw [show ((BT.InstrumentsManager.updateFM acc c (fun f => { f with opSeqEnabled := Function.update f.opSeqEnabled p true })).cloneFMOperatorSequence p (refFm.opSeqNumber p)).2.ptADPCM = (BT.InstrumentsManager.updateFM acc c (fun f => { f with opSeqEnabled := Function.update f.opSeqEnabled p true })).ptADPCM from rfl]
        rw [updateFM_ptADPCM acc c (fun f => { f with opSeqEnabled := Function.update f.opSeqEnabled p true })]
      rw [hFq, hfin_i]
      exact poolSync_update_irrelevant (fun s => by rw [hf]; rfl) inv.ptADPCM
    · intro q hq
      show Function.update f.opSeqEnabled p true q = f.opSeqEnabled q
      rw [Function.update_noteq hq]
  · rw [if_neg hb]
    exact ⟨inv, f, hf, fun q hq => rfl, rfl, rfl⟩

set_option maxHeartbeats 1000000 in
/-- The operator-sequence deep-clone fold preserves the invariant. -/
theorem inv_dcFM_opSeqFold (refFm : BT.InstrumentFM) (c : Nat) (hc : c < 128) :
    ∀ (l : List BT.FMEnvelopeParameter), l.Nodup →
    ∀ (acc : BT.InstrumentsManager) (f : BT.InstrumentFM), BT.Inv acc →
      acc.insts c = some (.fm f) →
      (∀ p ∈ l, f.opSeqEnabled p = false) →
      BT.Inv (l.foldl (BT.dcFMstep refFm c) acc) ∧
      ∃ f', (l.foldl (BT.dcFMstep refFm c) acc).insts c = some (.fm f') ∧
        f'.arpEnabled = f.arpEnabled ∧ f'.ptEnabled = f.ptEnabled := by
  intro l
  induction l with
  | nil => intro _ acc f hinv hf _; exact ⟨hinv, f, hf, rfl, rfl⟩
  | cons p l ih =>
    intro hnd acc f hinv hf hflags
    rw [List.foldl_cons]
    have hnd' := List.nodup_cons.mp hnd
    obtain ⟨hinv1, f1, hf1, hq1, harp1, hpt1⟩ :=
      inv_dcFMstep refFm c hc acc p f hf (hflags p (List.mem_cons_self p l)) hinv
    obtain ⟨hinv2, f2, hf2, harp2, hpt2⟩ := ih hnd'.2 (BT.dcFMstep refFm c acc p) f1 hinv1 hf1
      (fun q hq2 => by
        rw [hq1 q (fun he => hnd'.1 (he ▸ hq2))]
        exact hflags q (List.mem_cons_of_mem p hq2))
    exact ⟨hinv2, f2, hf2, harp2.trans harp1, hpt2.trans hpt1⟩
set_option maxHeartbeats 2000000 in
/-- The Arp enable fold of the FM deep clone: only the clone's arpEnabled
flags change, and no pool is touched. -/
theorem dcFM_enableArp_fold (c : Nat) :
    ∀ (l : List BT.FMOperatorType) (acc : BT.InstrumentsManager) (f : BT.InstrumentFM),
      acc.insts c = some (.fm f) →
      ∃ g, (l.foldl (fun (acc : BT.InstrumentsManager) t =>
          BT.InstrumentsManager.updateFM acc c
            (fun f => { f with arpEnabled := Function.update f.arpEnabled t true })) acc).insts =
          Function.update acc.insts c (some (.fm g)) ∧
        (∀ t, g.arpEnabled t = (decide (t ∈ l) || f.arpEnabled t)) ∧
        g.envelopeNumber = f.envelopeNumber ∧
        g.lfoEnabled = f.lfoEnabled ∧
        g.lfoNumber = f.lfoNumber ∧
        g.opSeqEnabled = f.opSeqEnabled ∧
        g.opSeqNumber = f.opSeqNumber ∧
        g.arpNumber = f.arpNumber ∧
        g.ptEnabled = f.ptEnabled ∧
        g.ptNumber = f.ptNumber ∧
        (l.foldl (fun (acc : BT.InstrumentsManager) t =>
          BT.InstrumentsManager.updateFM acc c
            (fun f => { f with arpEnabled := Function.update f.arpEnabled t true })) acc).envFM = acc.envFM ∧
        (l.foldl (fun (acc : BT.InstrumentsManager) t =>
          BT.InstrumentsManager.updateFM acc c
            (fun f => { f with arpEnabled := Function.update f.arpEnabled t true })) acc).lfoFM = acc.lfoFM ∧
        (l.foldl (fun (acc : BT.InstrumentsManager) t =>
          BT.InstrumentsManager.updateFM acc c
            (fun f => { f with arpEnabled := Function.update f.arpEnabled t true })) acc).opSeqFM = acc.opSeqFM ∧
        (l.foldl (fun (acc : BT.InstrumentsManager) t =>
          BT.InstrumentsManager.updateFM acc c
            (fun f => { f with arpEnabled := Function.update f.arpEnabled t true })) acc).arpFM = acc.arpFM ∧
        (l.foldl (fun (acc : BT.InstrumentsManager) t =>
          BT.InstrumentsManager.updateFM acc c
            (fun f => { f with arpEnabled := Function.update f.arpEnabled t true })) acc).ptFM = acc.ptFM ∧
        (l.foldl (fun (acc : BT.InstrumentsManager) t =>
          BT.InstrumentsManager.updateFM acc c
            (fun f => { f with arpEnabled := Function.update f.arpEnabled t true })) acc).wfSSG = acc.wfSSG ∧
        (l.foldl (fun (acc : BT.InstrumentsManager) t =>
          BT.InstrumentsManager.updateFM acc c
            (fun f => { f with arpEnabled := Function.update f.arpEnabled t true })) acc).tnSSG = acc.tnSSG ∧
        (l.foldl (fun (acc : BT.InstrumentsManager) t =>
          BT.InstrumentsManager.updateFM acc c
            (fun f => { f with arpEnabled := Function.update f.arpEnabled t true })) acc).envSSG = acc.envSSG ∧
        (l.foldl (fun (acc : BT.InstrumentsManager) t =>
          BT.InstrumentsManager.updateFM acc c
            (fun f => { f with arpEnabled := Function.update f.arpEnabled t true })) acc).arpSSG = acc.arpSSG ∧
        (l.foldl (fun (acc : BT.InstrumentsManager) t =>
          BT.InstrumentsManager.updateFM acc c
            (fun f => { f with arpEnabled := Function.update f.arpEnabled t true })) acc).ptSSG = acc.ptSSG ∧
        (l.foldl (fun (acc : BT.InstrumentsManager) t =>
          BT.InstrumentsManager.updateFM acc c
            (fun f => { f with arpEnabled := Function.update f.arpEnabled t true })) acc).wfADPCM = acc.wfADPCM ∧
        (l.foldl (fun (acc : BT.InstrumentsManager) t =>
          BT.InstrumentsManager.updateFM acc c
            (fun f => { f with arpEnabled := Function.update f.arpEnabled t true })) acc).envADPCM = acc.envADPCM ∧
        (l.foldl (fun (acc : BT.InstrumentsManager) t =>
          BT.InstrumentsManager.updateFM acc c
            (fun f => { f with arpEnabled := Function.update f.arpEnabled t true })) acc).arpADPCM = acc.arpADPCM ∧
        (l.foldl (fun (acc : BT.InstrumentsManager) t =>
          BT.InstrumentsManager.updateFM acc c
            (fun f => { f with arpEnabled := Function.update f.arpEnabled t true })) acc).ptADPCM = acc.ptADPCM := by
  intro l
  induction l with
  | nil =>
    intro acc f hf
    refine ⟨f, ?_, ?_, rfl, rfl, rfl, rfl, rfl, rfl, rfl, rfl, rfl, rfl, rfl, rfl, rfl, rfl, rfl, rfl, rfl, rfl, rfl, rfl, rfl, rfl⟩
    · rw [show (some (.fm f) : Option BT.AbstractInstrument) = acc.insts c from hf.symm]
      exact (Function.update_eq_self c acc.insts).symm
    · intro t
      simp
  | cons t l ih =>
    intro acc f hf
    rw [List.foldl_cons]
    have hstep_i : (BT.InstrumentsManager.updateFM acc c (fun f => { f with arpEnabled := Function.update f.arpEnabled t true })).insts =
        Function.update acc.insts c (some (.fm { f with arpEnabled := Function.update f.arpEnabled t true })) :=
      updateFM_insts acc c (fun f => { f with arpEnabled := Function.update f.arpEnabled t true }) f hf
    have hstep_c : (BT.InstrumentsManager.updateFM acc c (fun f => { f with arpEnabled := Function.update f.arpEnabled t true })).insts c =
        some (.fm { f with arpEnabled := Function.update f.arpEnabled t true }) := by
      rw [hstep_i]
      exact Function.update_same c _ acc.insts
    obtain ⟨g, hgi, hgflags, he0, he1, he2, he3, he4, he5, he6, he7, hp0, hp1, hp2, hp3, hp4, hp5, hp6, hp7, hp8, hp9, hp10, hp11, hp12, hp13⟩ :=
      ih (BT.InstrumentsManager.updateFM acc c (fun f => { f with arpEnabled := Function.update f.arpEnabled t true })) { f with arpEnabled := Function.update f.arpEnabled t true } hstep_c
    refine ⟨g, ?_, ?_, he0, he1, he2, he3, he4, he5, he6, he7, (hp0.trans (updateFM_envFM acc c (fun f => { f with arpEnabled := Function.update f.arpEnabled t true }))), (hp1.trans (updateFM_lfoFM acc c (fun f => { f with arpEnabled := Function.update f.arpEnabled t true }))), (hp2.trans (updateFM_opSeqFM acc c (fun f => { f with arpEnabled := Function.update f.arpEnabled t true }))), (hp3.trans (updateFM_arpFM acc c (fun f => { f with arpEnabled := Function.update f.arpEnabled t true }))), (hp4.trans (updateFM_ptFM acc c (fun f => { f with arpEnabled := Function.update f.arpEnabled t true }))), (hp5.trans (updateFM_wfSSG acc c (fun f => { f with arpEnabled := Function.update f.arpEnabled t true }))), (hp6.trans (updateFM_tnSSG acc c (fun f => { f with arpEnabled := Function.update f.arpEnabled t true }))), (hp7.trans (updateFM_envSSG acc c (fun f => { f with arpEnabled := Function.update f.arpEnabled t true }))), (hp8.trans (updateFM_arpSSG acc c (fun f => { f with arpEnabled := Function.update f.arpEnabled t true }))), (hp9.trans (updateFM_ptSSG acc c (fun f => { f with arpEnabled := Function.update f.arpEnabled t true }))), (hp10.trans (updateFM_wfADPCM acc c (fun f => { f with arpEnabled := Function.update f.arpEnabled t true }))), (hp11.trans (updateFM_envADPCM acc c (fun f => { f with arpEnabled := Function.update f.arpEnabled t true }))), (hp12.trans (updateFM_arpADPCM acc c (fun f => { f with arpEnabled := Function.update f.arpEnabled t true }))), (hp13.trans (updateFM_ptADPCM acc c (fun f => { f with arpEnabled := Function.update f.arpEnabled t true })))⟩
    · rw [hgi, hstep_i, Function.update_idem]
    · intro u
      rw [hgflags u]
      show (decide (u ∈ l) || Function.update f.arpEnabled t true u) = (decide (u ∈ t :: l) || f.arpEnabled u)
      by_cases hu : u = t
      · subst hu
        rw [Function.update_same]
        simp
      · rw [Function.update_noteq hu]
        simp [List.mem_cons, hu]

/-- The Arp payload clone fold only edits payloads: reference sets and
the instrument table are untouched. -/
theorem dcFM_cloneArp_fold :
    ∀ (l : List Nat) (acc : List (Nat × Nat) × BT.InstrumentsManager),
      BT.UsersEq acc.2 (l.foldl (fun (acc : List (Nat × Nat) × BT.InstrumentsManager) a =>
        let r := acc.2.cloneFMArpeggio a
        (acc.1 ++ [(a, r.1)], r.2)) acc).2 := by
  intro l
  induction l with
  | nil => intro acc; exact usersEq_refl acc.2
  | cons a l ih =>
    intro acc
    rw [List.foldl_cons]
    refine usersEq_trans ?_ (ih _)
    exact ⟨rfl, fun s => rfl, fun s => rfl, fun p s => rfl, fun s => (users_cloneProp acc.2.arpFM a s).symm, fun s => rfl, fun s => rfl, fun s => rfl, fun s => rfl, fun s => rfl, fun s => rfl, fun s => rfl, fun s => rfl, fun s => rfl, fun s => rfl⟩

set_option maxHeartbeats 2000000 in
/-- The Arp assign-and-register fold of the FM deep clone: the number `c`
is inserted exactly at the fresh slots of the listed enabled operator types. -/
theorem dcFM_assignArp_fold (c : Nat) (refFm : BT.InstrumentFM) (L : Nat → Nat) :
    ∀ (l : List BT.FMOperatorType), l.Nodup →
    ∀ (A0 : BT.InstrumentsManager) (f : BT.InstrumentFM),
      A0.insts c = some (.fm f) →
      ∃ g, (l.foldl (fun (acc : BT.InstrumentsManager) t =>
        if refFm.arpEnabled t then
          let n := L (refFm.arpNumber t)
          let ma := BT.InstrumentsManager.updateFM acc c
            (fun f => { f with arpNumber := Function.update f.arpNumber t n })
          { ma with arpFM := ma.arpFM.registerUser n c }
        else acc) A0).insts = Function.update A0.insts c (some (.fm g)) ∧
        g.arpEnabled = f.arpEnabled ∧
        g.ptEnabled = f.ptEnabled ∧
        g.envelopeNumber = f.envelopeNumber ∧
        g.lfoEnabled = f.lfoEnabled ∧
        g.lfoNumber = f.lfoNumber ∧
        g.opSeqEnabled = f.opSeqEnabled ∧
        g.opSeqNumber = f.opSeqNumber ∧
        g.ptNumber = f.ptNumber ∧
        (∀ t, t ∈ l → g.arpNumber t = if refFm.arpEnabled t = true then L (refFm.arpNumber t) else f.arpNumber t) ∧
        (∀ t, t ∉ l → g.arpNumber t = f.arpNumber t) ∧
        (l.foldl (fun (acc : BT.InstrumentsManager) t =>
        if refFm.arpEnabled t then
          let n := L (refFm.arpNumber t)
          let ma := BT.InstrumentsManager.updateFM acc c
            (fun f => { f with arpNumber := Function.update f.arpNumber t n })
          { ma with arpFM := ma.arpFM.registerUser n c }
        else acc) A0).envFM = A0.envFM ∧
        (l.foldl (fun (acc : BT.InstrumentsManager) t =>
        if refFm.arpEnabled t then
          let n := L (refFm.arpNumber t)
          let ma := BT.InstrumentsManager.updateFM acc c
            (fun f => { f with arpNumber := Function.update f.arpNumber t n })
          { ma with arpFM := ma.arpFM.registerUser n c }
        else acc) A0).lfoFM = A0.lfoFM ∧
        (l.foldl (fun (acc : BT.InstrumentsManager) t =>
        if refFm.arpEnabled t then
          let n := L (refFm.arpNumber t)
          let ma := BT.InstrumentsManager.updateFM acc c
            (fun f => { f with arpNumber := Function.update f.arpNumber t n })
          { ma with arpFM := ma.arpFM.registerUser n c }
        else acc) A0).opSeqFM = A0.opSeqFM ∧
        (l.foldl (fun (acc : BT.InstrumentsManager) t =>
        if refFm.arpEnabled t then
          let n := L (refFm.arpNumber t)
          let ma := BT.InstrumentsManager.updateFM acc c
            (fun f => { f with arpNumber := Function.update f.arpNumber t n })
          { ma with arpFM := ma.arpFM.registerUser n c }
        else acc) A0).ptFM = A0.ptFM ∧
        (l.foldl (fun (acc : BT.InstrumentsManager) t =>
        if refFm.arpEnabled t then
          let n := L (refFm.arpNumber t)
          let ma := BT.InstrumentsManager.updateFM acc c
            (fun f => { f with arpNumber := Function.update f.arpNumber t n })
          { ma with arpFM := ma.arpFM.registerUser n c }
        else acc) A0).wfSSG = A0.wfSSG ∧
        (l.foldl (fun (acc : BT.InstrumentsManager) t =>
        if refFm.arpEnabled t then
          let n := L (refFm.arpNumber t)
          let ma := BT.InstrumentsManager.updateFM acc c
            (fun f => { f with arpNumber := Function.update f.arpNumber t n })
          { ma with arpFM := ma.arpFM.registerUser n c }
        else acc) A0).tnSSG = A0.tnSSG ∧
        (l.foldl (fun (acc : BT.InstrumentsManager) t =>
        if refFm.arpEnabled t then
          let n := L (refFm.arpNumber t)
          let ma := BT.InstrumentsManager.updateFM acc c
            (fun f => { f with arpNumber := Function.update f.arpNumber t n })
          { ma with arpFM := ma.arpFM.registerUser n c }
        else acc) A0).envSSG = A0.envSSG ∧
        (l.foldl (fun (acc : BT.InstrumentsManager) t =>
        if refFm.arpEnabled t then
          let n := L (refFm.arpNumber t)
          let ma := BT.InstrumentsManager.updateFM acc c
            (fun f => { f with arpNumber := Function.update f.arpNumber t n })
          { ma with arpFM := ma.arpFM.registerUser n c }
        else acc) A0).arpSSG = A0.arpSSG ∧
        (l.foldl (fun (acc : BT.InstrumentsManager) t =>
        if refFm.arpEnabled t then
          let n := L (refFm.arpNumber t)
          let ma := BT.InstrumentsManager.updateFM acc c
            (fun f => { f with arpNumber := Function.update f.arpNumber t n })
          { ma with arpFM := ma.arpFM.registerUser n c }
        else acc) A0).ptSSG = A0.ptSSG ∧
        (l.foldl (fun (acc : BT.InstrumentsManager) t =>
        if refFm.arpEnabled t then
          let n := L (refFm.arpNumber t)
          let ma := BT.InstrumentsManager.updateFM acc c
            (fun f => { f with arpNumber := Function.update f.arpNumber t n })
          { ma with arpFM := ma.arpFM.registerUser n c }
        else acc) A0).wfADPCM = A0.wfADPCM ∧
        (l.foldl (fun (acc : BT.InstrumentsManager) t =>
        if refFm.arpEnabled t then
          let n := L (refFm.arpNumber t)
          let ma := BT.InstrumentsManager.updateFM acc c
            (fun f => { f with arpNumber := Function.update f.arpNumber t n })
          { ma with arpFM := ma.arpFM.registerUser n c }
        else acc) A0).envADPCM = A0.envADPCM ∧
        (l.foldl (fun (acc : BT.InstrumentsManager) t =>
        if refFm.arpEnabled t then
          let n := L (refFm.arpNumber t)
          let ma := BT.InstrumentsManager.updateFM acc c
            (fun f => { f with arpNumber := Function.update f.arpNumber t n })
          { ma with arpFM := ma.arpFM.registerUser n c }
        else acc) A0).arpADPCM = A0.arpADPCM ∧
        (l.foldl (fun (acc : BT.InstrumentsManager) t =>
        if refFm.arpEnabled t then
          let n := L (refFm.arpNumber t)
          let ma := BT.InstrumentsManager.updateFM acc c
            (fun f => { f with arpNumber := Function.update f.arpNumber t n })
          { ma with arpFM := ma.arpFM.registerUser n c }
        else acc) A0).ptADPCM = A0.ptADPCM ∧
        (∀ s, ((l.foldl (fun (acc : BT.InstrumentsManager) t =>
        if refFm.arpEnabled t then
          let n := L (refFm.arpNumber t)
          let ma := BT.InstrumentsManager.updateFM acc c
            (fun f => { f with arpNumber := Function.update f.arpNumber t n })
          { ma with arpFM := ma.arpFM.registerUser n c }
        else acc) A0).arpFM s).users =
          if (l.any (fun t => refFm.arpEnabled t && (L (refFm.arpNumber t) == s))) = true
          then insert c ((A0.arpFM s).users) else (A0.arpFM s).users) := by
  intro l
  induction l with
  | nil =>
    intro _ A0 f hf
    refine ⟨f, ?_, rfl, rfl, rfl, rfl, rfl, rfl, rfl, rfl, fun t ht => absurd ht (List.not_mem_nil t), fun t _ => rfl, rfl, rfl, rfl, rfl, rfl, rfl, rfl, rfl, rfl, rfl, rfl, rfl, rfl, fun s => ?_⟩
    · rw [show (some (.fm f) : Option BT.AbstractInstrument) = A0.insts c from hf.symm]
      exact (Function.update_eq_self c A0.insts).symm
    · simp
  | cons t l ih =>
    intro hnd A0 f hf
    have hnd' := List.nodup_cons.mp hnd
    rw [List.foldl_cons]
    by_cases hb : refFm.arpEnabled t = true
    · rw [if_pos hb]
      have hma_i : (BT.InstrumentsManager.updateFM A0 c (fun f => { f with arpNumber := Function.update f.arpNumber t (L (refFm.arpNumber t)) })).insts = Function.update A0.insts c
          (some (.fm { f with arpNumber := Function.update f.arpNumber t (L (refFm.arpNumber t)) })) :=
        updateFM_insts A0 c (fun f => { f with arpNumber := Function.update f.arpNumber t (L (refFm.arpNumber t)) }) f hf
      have hfin_i : ({ (BT.InstrumentsManager.updateFM A0 c (fun f => { f with arpNumber := Function.update f.arpNumber t (L (refFm.arpNumber t)) })) with arpFM := (BT.InstrumentsManager.updateFM A0 c (fun f => { f with arpNumber := Function.update f.arpNumber t (L (refFm.arpNumber t)) })).arpFM.registerUser (L (refFm.arpNumber t)) c }).insts = Function.update A0.insts c
          (some (.fm { f with arpNumber := Function.update f.arpNumber t (L (refFm.arpNumber t)) })) := hma_i
      have hfin_c : ({ (BT.InstrumentsManager.updateFM A0 c (fun f => { f with arpNumber := Function.update f.arpNumber t (L (refFm.arpNumber t)) })) with arpFM := (BT.InstrumentsManager.updateFM A0 c (fun f => { f with arpNumber := Function.update f.arpNumber t (L (refFm.arpNumber t)) })).arpFM.registerUser (L (refFm.arpNumber t)) c }).insts c =
          some (.fm { f with arpNumber := Function.update f.arpNumber t (L (refFm.arpNumber t)) }) := by
        rw [hfin_i]
        exact Function.update_same c _ A0.insts
      have hfinarp : ∀ s, (({ (BT.InstrumentsManager.updateFM A0 c (fun f => { f with arpNumber := Function.update f.arpNumber t (L (refFm.arpNumber t)) })) with arpFM := (BT.InstrumentsManager.updateFM A0 c (fun f => { f with arpNumber := Function.update f.arpNumber t (L (refFm.arpNumber t)) })).arpFM.registerUser (L (refFm.arpNumber t)) c }).arpFM s).users =
          if (refFm.arpEnabled t && (L (refFm.arpNumber t) == s)) = true
          then insert c ((A0.arpFM s).users) else (A0.arpFM s).users := by
        intro s
        show (((BT.InstrumentsManager.updateFM A0 c (fun f => { f with arpNumber := Function.update f.arpNumber t (L (refFm.arpNumber t)) })).arpFM.registerUser (L (refFm.arpNumber t)) c) s).users = _
        rw [users_registerUser, updateFM_arpFM A0 c (fun f => { f with arpNumber := Function.update f.arpNumber t (L (refFm.arpNumber t)) })]
        by_cases hsn : s = (L (refFm.arpNumber t))
        · rw [if_pos hsn, if_pos (by rw [hb, hsn]; simp), hsn]
        · rw [if_neg hsn, if_neg (by
            rw [Bool.and_eq_true]
            rintro ⟨-, hbq⟩
            rw [beq_iff_eq] at hbq
            exact hsn hbq.symm)]
      obtain ⟨g, hgi, ha0, ha1, ha2, ha3, ha4, ha5, ha6, ha7, hIn, hOut, hq0, hq1, hq2, hq3, hq4, hq5, hq6, hq7, hq8, hq9, hq10, hq11, hq12, hus⟩ :=
        ih hnd'.2 ({ (BT.InstrumentsManager.updateFM A0 c (fun f => { f with arpNumber := Function.update f.arpNumber t (L (refFm.arpNumber t)) })) with arpFM := (BT.InstrumentsManager.updateFM A0 c (fun f => { f with arpNumber := Function.update f.arpNumber t (L (refFm.arpNumber t)) })).arpFM.registerUser (L (refFm.arpNumber t)) c }) { f with arpNumber := Function.update f.arpNumber t (L (refFm.arpNumber t)) } hfin_c
      refine ⟨g, ?_, ha0, ha1, ha2, ha3, ha4, ha5, ha6, ha7, ?_, ?_, (hq0.trans (updateFM_envFM A0 c (fun f => { f with arpNumber := Function.update f.arpNumber t (L (refFm.arpNumber t)) }))), (hq1.trans (updateFM_lfoFM A0 c (fun f => { f with arpNumber := Function.update f.arpNumber t (L (refFm.arpNumber t)) }))), (hq2.trans (updateFM_opSeqFM A0 c (fun f => { f with arpNumber := Function.update f.arpNumber t (L (refFm.arpNumber t)) }))), (hq3.trans (updateFM_ptFM A0 c (fun f => { f with arpNumber := Function.update f.arpNumber t (L (refFm.arpNumber t)) }))), (hq4.trans (updateFM_wfSSG A0 c (fun f => { f with arpNumber := Function.update f.arpNumber t (L (refFm.arpNumber t)) }))), (hq5.trans (updateFM_tnSSG A0 c (fun f => { f with arpNumber := Function.update f.arpNumber t (L (refFm.arpNumber t)) }))), (hq6.trans (updateFM_envSSG A0 c (fun f => { f with arpNumber := Function.update f.arpNumber t (L (refFm.arpNumber t)) }))), (hq7.trans (updateFM_arpSSG A0 c (fun f => { f with arpNumber := Function.update f.arpNumber t (L (refFm.arpNumber t)) }))), (hq8.trans (updateFM_ptSSG A0 c (fun f => { f with arpNumber := Function.update f.arpNumber t (L (refFm.arpNumber t)) }))), (hq9.trans (updateFM_wfADPCM A0 c (fun f => { f with arpNumber := Function.update f.arpNumber t (L (refFm.arpNumber t)) }))), (hq10.trans (updateFM_envADPCM A0 c (fun f => { f with arpNumber := Function.update f.arpNumber t (L (refFm.arpNumber t)) }))), (hq11.trans (updateFM_arpADPCM A0 c (fun f => { f with arpNumber := Function.update f.arpNumber t (L (refFm.arpNumber t)) }))), (hq12.trans (updateFM_ptADPCM A0 c (fun f => { f with arpNumber := Function.update f.arpNumber t (L (refFm.arpNumber t)) }))), fun s => ?_⟩
      · rw [hgi, hfin_i, Function.update_idem]
      · intro u hu
        by_cases hut : u = t
        · subst hut
          rw [hOut u hnd'.1, if_pos hb]
          show Function.update f.arpNumber u (L (refFm.arpNumber u)) u = L (refFm.arpNumber u)
          exact Function.update_same u _ f.arpNumber
        · have hu2 : u ∈ l := by
            cases List.mem_cons.mp hu with
            | inl h => exact absurd h hut
            | inr h => exact h
          rw [hIn u hu2]
          by_cases hbe : refFm.arpEnabled u = true
          · rw [if_pos hbe, if_pos hbe]
          · rw [if_neg hbe, if_neg hbe]
            show Function.update f.arpNumber t (L (refFm.arpNumber t)) u = f.arpNumber u
            exact Function.update_noteq hut _ f.arpNumber
      · intro u hu
        have hut : u ≠ t := fun he => hu (he ▸ List.mem_cons_self t l)
        have hul : u ∉ l := fun h2 => hu (List.mem_cons_of_mem t h2)
        rw [hOut u hul]
        show Function.update f.arpNumber t (L (refFm.arpNumber t)) u = f.arpNumber u
        exact Function.update_noteq hut _ f.arpNumber
      · rw [hus s, hfinarp s, List.any_cons]
        by_cases hc1 : (refFm.arpEnabled t && (L (refFm.arpNumber t) == s)) = true <;>
          by_cases hc2 : (l.any (fun u => refFm.arpEnabled u && (L (refFm.arpNumber u) == s))) = true <;>
          simp [hc1, hc2, Finset.insert_idem]
    · rw [if_neg hb]
      obtain ⟨g, hgi, ha0, ha1, ha2, ha3, ha4, ha5, ha6, ha7, hIn, hOut, hq0, hq1, hq2, hq3, hq4, hq5, hq6, hq7, hq8, hq9, hq10, hq11, hq12, hus⟩ :=
        ih hnd'.2 A0 f hf
      refine ⟨g, hgi, ha0, ha1, ha2, ha3, ha4, ha5, ha6, ha7, ?_, ?_, hq0, hq1, hq2, hq3, hq4, hq5, hq6, hq7, hq8, hq9, hq10, hq11, hq12, fun s => ?_⟩
      · intro u hu
        by_cases hut : u = t
        · subst hut
          rw [hOut u hnd'.1, if_neg hb]
        · have hu2 : u ∈ l := by
            cases List.mem_cons.mp hu with
            | inl h => exact absurd h hut
            | inr h => exact h
          exact hIn u hu2
      · intro u hu
        exact hOut u (fun h2 => hu (List.mem_cons_of_mem t h2))
      · rw [hus s, List.any_cons, bool_false_of_not_true hb, Bool.false_and, Bool.false_or]

set_option maxHeartbeats 2000000 in
/-- The Pt enable fold of the FM deep clone: only the clone's ptEnabled
flags change, and no pool is touched. -/
theorem dcFM_enablePt_fold (c : Nat) :
    ∀ (l : List BT.FMOperatorType) (acc : BT.InstrumentsManager) (f : BT.InstrumentFM),
      acc.insts c = some (.fm f) →
      ∃ g, (l.foldl (fun (acc : BT.InstrumentsManager) t =>
          BT.InstrumentsManager.updateFM acc c
            (fun f => { f with ptEnabled := Function.update f.ptEnabled t true })) acc).insts =
          Function.update acc.insts c (some (.fm g)) ∧
        (∀ t, g.ptEnabled t = (decide (t ∈ l) || f.ptEnabled t)) ∧
        g.envelopeNumber = f.envelopeNumber ∧
        g.lfoEnabled = f.lfoEnabled ∧
        g.lfoNumber = f.lfoNumber ∧
        g.opSeqEnabled = f.opSeqEnabled ∧
        g.opSeqNumber = f.opSeqNumber ∧
        g.arpEnabled = f.arpEnabled ∧
        g.arpNumber = f.arpNumber ∧
        g.ptNumber = f.ptNumber ∧
        (l.foldl (fun (acc : BT.InstrumentsManager) t =>
          BT.InstrumentsManager.updateFM acc c
            (fun f => { f with ptEnabled := Function.update f.ptEnabled t true })) acc).envFM = acc.envFM ∧
        (l.foldl (fun (acc : BT.InstrumentsManager) t =>
          BT.InstrumentsManager.updateFM acc c
            (fun f => { f with ptEnabled := Function.update f.ptEnabled t true })) acc).lfoFM = acc.lfoFM ∧
        (l.foldl (fun (acc : BT.InstrumentsManager) t =>
          BT.InstrumentsManager.updateFM acc c
            (fun f => { f with ptEnabled := Function.update f.ptEnabled t true })) acc).opSeqFM = acc.opSeqFM ∧
        (l.foldl (fun (acc : BT.InstrumentsManager) t =>
          BT.InstrumentsManager.updateFM acc c
            (fun f => { f with ptEnabled := Function.update f.ptEnabled t true })) acc).arpFM = acc.arpFM ∧
        (l.foldl (fun (acc : BT.InstrumentsManager) t =>
          BT.InstrumentsManager.updateFM acc c
            (fun f => { f with ptEnabled := Function.update f.ptEnabled t true })) acc).ptFM = acc.ptFM ∧
        (l.foldl (fun (acc : BT.InstrumentsManager) t =>
          BT.InstrumentsManager.updateFM acc c
            (fun f => { f with ptEnabled := Function.update f.ptEnabled t true })) acc).wfSSG = acc.wfSSG ∧
        (l.foldl (fun (acc : BT.InstrumentsManager) t =>
          BT.InstrumentsManager.updateFM acc c
            (fun f => { f with ptEnabled := Function.update f.ptEnabled t true })) acc).tnSSG = acc.tnSSG ∧
        (l.foldl (fun (acc : BT.InstrumentsManager) t =>
          BT.InstrumentsManager.updateFM acc c
            (fun f => { f with ptEnabled := Function.update f.ptEnabled t true })) acc).envSSG = acc.envSSG ∧
        (l.foldl (fun (acc : BT.InstrumentsManager) t =>
          BT.InstrumentsManager.updateFM acc c
            (fun f => { f with ptEnabled := Function.update f.ptEnabled t true })) acc).arpSSG = acc.arpSSG ∧
        (l.foldl (fun (acc : BT.InstrumentsManager) t =>
          BT.InstrumentsManager.updateFM acc c
            (fun f => { f with ptEnabled := Function.update f.ptEnabled t true })) acc).ptSSG = acc.ptSSG ∧
        (l.foldl (fun (acc : BT.InstrumentsManager) t =>
          BT.InstrumentsManager.updateFM acc c
            (fun f => { f with ptEnabled := Function.update f.ptEnabled t true })) acc).wfADPCM = acc.wfADPCM ∧
        (l.foldl (fun (acc : BT.InstrumentsManager) t =>
          BT.InstrumentsManager.updateFM acc c
            (fun f => { f with ptEnabled := Function.update f.ptEnabled t true })) acc).envADPCM = acc.envADPCM ∧
        (l.foldl (fun (acc : BT.InstrumentsManager) t =>
          BT.InstrumentsManager.updateFM acc c
            (fun f => { f with ptEnabled := Function.update f.ptEnabled t true })) acc).arpADPCM = acc.arpADPCM ∧
        (l.foldl (fun (acc : BT.InstrumentsManager) t =>
          BT.InstrumentsManager.updateFM acc c
            (fun f => { f with ptEnabled := Function.update f.ptEnabled t true })) acc).ptADPCM = acc.ptADPCM := by
  intro l
  induction l with
  | nil =>
    intro acc f hf
    refine ⟨f, ?_, ?_, rfl, rfl, rfl, rfl, rfl, rfl, rfl, rfl, rfl, rfl, rfl, rfl, rfl, rfl, rfl, rfl, rfl, rfl, rfl, rfl, rfl, rfl⟩
    · rw [show (some (.fm f) : Option BT.AbstractInstrument) = acc.insts c from hf.symm]
      exact (Function.update_eq_self c acc.insts).symm
    · intro t
      simp
  | cons t l ih =>
    intro acc f hf
    rw [List.foldl_cons]
    have hstep_i : (BT.InstrumentsManager.updateFM acc c (fun f => { f with ptEnabled := Function.update f.ptEnabled t true })).insts =
        Function.update acc.insts c (some (.fm { f with ptEnabled := Function.update f.ptEnabled t true })) :=
      updateFM_insts acc c (fun f => { f with ptEnabled := Function.update f.ptEnabled t true }) f hf
    have hstep_c : (BT.InstrumentsManager.updateFM acc c (fun f => { f with ptEnabled := Function.update f.ptEnabled t true })).insts c =
        some (.fm { f with ptEnabled := Function.update f.ptEnabled t true }) := by
      rw [hstep_i]
      exact Function.update_same c _ acc.insts
    obtain ⟨g, hgi, hgflags, he0, he1, he2, he3, he4, he5, he6, he7, hp0, hp1, hp2, hp3, hp4, hp5, hp6, hp7, hp8, hp9, hp10, hp11, hp12, hp13⟩ :=
      ih (BT.InstrumentsManager.updateFM acc c (fun f => { f with ptEnabled := Function.update f.ptEnabled t true })) { f with ptEnabled := Function.update f.ptEnabled t true } hstep_c
    refine ⟨g, ?_, ?_, he0, he1, he2, he3, he4, he5, he6, he7, (hp0.trans (updateFM_envFM acc c (fun f => { f with ptEnabled := Function.update f.ptEnabled t true }))), (hp1.trans (updateFM_lfoFM acc c (fun f => { f with ptEnabled := Function.update f.ptEnabled t true }))), (hp2.trans (updateFM_opSeqFM acc c (fun f => { f with ptEnabled := Function.update f.ptEnabled t true }))), (hp3.trans (updateFM_arpFM acc c (fun f => { f with ptEnabled := Function.update f.ptEnabled t true }))), (hp4.trans (updateFM_ptFM acc c (fun f => { f with ptEnabled := Function.update f.ptEnabled t true }))), (hp5.trans (updateFM_wfSSG acc c (fun f => { f with ptEnabled := Function.update f.ptEnabled t true }))), (hp6.trans (updateFM_tnSSG acc c (fun f => { f with ptEnabled := Function.update f.ptEnabled t true }))), (hp7.trans (updateFM_envSSG acc c (fun f => { f with ptEnabled := Function.update f.ptEnabled t true }))), (hp8.trans (updateFM_arpSSG acc c (fun f => { f with ptEnabled := Function.update f.ptEnabled t true }))), (hp9.trans (updateFM_ptSSG acc c (fun f => { f with ptEnabled := Function.update f.ptEnabled t true }))), (hp10.trans (updateFM_wfADPCM acc c (fun f => { f with ptEnabled := Function.update f.ptEnabled t true }))), (hp11.trans (updateFM_envADPCM acc c (fun f => { f with ptEnabled := Function.update f.ptEnabled t true }))), (hp12.trans (updateFM_arpADPCM acc c (fun f => { f with ptEnabled := Function.update f.ptEnabled t true }))), (hp13.trans (updateFM_ptADPCM acc c (fun f => { f with ptEnabled := Function.update f.ptEnabled t true })))⟩
    · rw [hgi, hstep_i, Function.update_idem]
    · intro u
      rw [hgflags u]
      show (decide (u ∈ l) || Function.update f.ptEnabled t true u) = (decide (u ∈ t :: l) || f.ptEnabled u)
      by_cases hu : u = t
      · subst hu
        rw [Function.update_same]
        simp
      · rw [Function.update_noteq hu]
        simp [List.mem_cons, hu]

/-- The Pt payload clone fold only edits payloads: reference sets and
the instrument table are untouched. -/
theorem dcFM_clonePt_fold :
    ∀ (l : List Nat) (acc : List (Nat × Nat) × BT.InstrumentsManager),
      BT.UsersEq acc.2 (l.foldl (fun (acc : List (Nat × Nat) × BT.InstrumentsManager) a =>
        let r := acc.2.cloneFMPitch a
        (acc.1 ++ [(a, r.1)], r.2)) acc).2 := by
  intro l
  induction l with
  | nil => intro acc; exact usersEq_refl acc.2
  | cons a l ih =>
    intro acc
    rw [List.foldl_cons]
    refine usersEq_trans ?_ (ih _)
    exact ⟨rfl, fun s => rfl, fun s => rfl, fun p s => rfl, fun s => rfl, fun s => (users_cloneProp acc.2.ptFM a s).symm, fun s => rfl, fun s => rfl, fun s => rfl, fun s => rfl, fun s => rfl, fun s => rfl, fun s => rfl, fun s => rfl, fun s => rfl⟩

set_option maxHeartbeats 2000000 in
/-- The Pt assign-and-register fold of the FM deep clone: the number `c`
is inserted exactly at the fresh slots of the listed enabled operator types. -/
theorem dcFM_assignPt_fold (c : Nat) (refFm : BT.InstrumentFM) (L : Nat → Nat) :
    ∀ (l : List BT.FMOperatorType), l.Nodup →
    ∀ (A0 : BT.InstrumentsManager) (f : BT.InstrumentFM),
      A0.insts c = some (.fm f) →
      ∃ g, (l.foldl (fun (acc : BT.InstrumentsManager) t =>
        if refFm.ptEnabled t then
          let n := L (refFm.ptNumber t)
          let ma := BT.InstrumentsManager.updateFM acc c
            (fun f => { f with ptNumber := Function.update f.ptNumber t n })
          { ma with ptFM := ma.ptFM.registerUser n c }
        else acc) A0).insts = Function.update A0.insts c (some (.fm g)) ∧
        g.arpEnabled = f.arpEnabled ∧
        g.ptEnabled = f.ptEnabled ∧
        g.envelopeNumber = f.envelopeNumber ∧
        g.lfoEnabled = f.lfoEnabled ∧
        g.lfoNumber = f.lfoNumber ∧
        g.opSeqEnabled = f.opSeqEnabled ∧
        g.opSeqNumber = f.opSeqNumber ∧
        g.arpNumber = f.arpNumber ∧
        (∀ t, t ∈ l → g.ptNumber t = if refFm.ptEnabled t = true then L (refFm.ptNumber t) else f.ptNumber t) ∧
        (∀ t, t ∉ l → g.ptNumber t = f.ptNumber t) ∧
        (l.foldl (fun (acc : BT.InstrumentsManager) t =>
        if refFm.ptEnabled t then
          let n := L (refFm.ptNumber t)
          let ma := BT.InstrumentsManager.updateFM acc c
            (fun f => { f with ptNumber := Function.update f.ptNumber t n })
          { ma with ptFM := ma.ptFM.registerUser n c }
        else acc) A0).envFM = A0.envFM ∧
        (l.foldl (fun (acc : BT.InstrumentsManager) t =>
        if refFm.ptEnabled t then
          let n := L (refFm.ptNumber t)
          let ma := BT.InstrumentsManager.updateFM acc c
            (fun f => { f with ptNumber := Function.update f.ptNumber t n })
          { ma with ptFM := ma.ptFM.registerUser n c }
        else acc) A0).lfoFM = A0.lfoFM ∧
        (l.foldl (fun (acc : BT.InstrumentsManager) t =>
        if refFm.ptEnabled t then
          let n := L (refFm.ptNumber t)
          let ma := BT.InstrumentsManager.updateFM acc c
            (fun f => { f with ptNumber := Function.update f.ptNumber t n })
          { ma with ptFM := ma.ptFM.registerUser n c }
        else acc) A0).opSeqFM = A0.opSeqFM ∧
        (l.foldl (fun (acc : BT.InstrumentsManager) t =>
        if refFm.ptEnabled t then
          let n := L (refFm.ptNumber t)
          let ma := BT.InstrumentsManager.updateFM acc c
            (fun f => { f with ptNumber := Function.update f.ptNumber t n })
          { ma with ptFM := ma.ptFM.registerUser n c }
        else acc) A0).arpFM = A0.arpFM ∧
        (l.foldl (fun (acc : BT.InstrumentsManager) t =>
        if refFm.ptEnabled t then
          let n := L (refFm.ptNumber t)
          let ma := BT.InstrumentsManager.updateFM acc c
            (fun f => { f with ptNumber := Function.update f.ptNumber t n })
          { ma with ptFM := ma.ptFM.registerUser n c }
        else acc) A0).wfSSG = A0.wfSSG ∧
        (l.foldl (fun (acc : BT.InstrumentsManager) t =>
        if refFm.ptEnabled t then
          let n := L (refFm.ptNumber t)
          let ma := BT.InstrumentsManager.updateFM acc c
            (fun f => { f with ptNumber := Function.update f.ptNumber t n })
          { ma with ptFM := ma.ptFM.registerUser n c }
        else acc) A0).tnSSG = A0.tnSSG ∧
        (l.foldl (fun (acc : BT.InstrumentsManager) t =>
        if refFm.ptEnabled t then
          let n := L (refFm.ptNumber t)
          let ma := BT.InstrumentsManager.updateFM acc c
            (fun f => { f with ptNumber := Function.update f.ptNumber t n })
          { ma with ptFM := ma.ptFM.registerUser n c }
        else acc) A0).envSSG = A0.envSSG ∧
        (l.foldl (fun (acc : BT.InstrumentsManager) t =>
        if refFm.ptEnabled t then
          let n := L (refFm.ptNumber t)
          let ma := BT.InstrumentsManager.updateFM acc c
            (fun f => { f with ptNumber := Function.update f.ptNumber t n })
          { ma with ptFM := ma.ptFM.registerUser n c }
        else acc) A0).arpSSG = A0.arpSSG ∧
        (l.foldl (fun (acc : BT.InstrumentsManager) t =>
        if refFm.ptEnabled t then
          let n := L (refFm.ptNumber t)
          let ma := BT.InstrumentsManager.updateFM acc c
            (fun f => { f with ptNumber := Function.update f.ptNumber t n })
          { ma with ptFM := ma.ptFM.registerUser n c }
        else acc) A0).ptSSG = A0.ptSSG ∧
        (l.foldl (fun (acc : BT.InstrumentsManager) t =>
        if refFm.ptEnabled t then
          let n := L (refFm.ptNumber t)
          let ma := BT.InstrumentsManager.updateFM acc c
            (fun f => { f with ptNumber := Function.update f.ptNumber t n })
          { ma with ptFM := ma.ptFM.registerUser n c }
        else acc) A0).wfADPCM = A0.wfADPCM ∧
        (l.foldl (fun (acc : BT.InstrumentsManager) t =>
        if refFm.ptEnabled t then
          let n := L (refFm.ptNumber t)
          let ma := BT.InstrumentsManager.updateFM acc c
            (fun f => { f with ptNumber := Function.update f.ptNumber t n })
          { ma with ptFM := ma.ptFM.registerUser n c }
        else acc) A0).envADPCM = A0.envADPCM ∧
        (l.foldl (fun (acc : BT.InstrumentsManager) t =>
        if refFm.ptEnabled t then
          let n := L (refFm.ptNumber t)
          let ma := BT.InstrumentsManager.updateFM acc c
            (fun f => { f with ptNumber := Function.update f.ptNumber t n })
          { ma with ptFM := ma.ptFM.registerUser n c }
        else acc) A0).arpADPCM = A0.arpADPCM ∧
        (l.foldl (fun (acc : BT.InstrumentsManager) t =>
        if refFm.ptEnabled t then
          let n := L (refFm.ptNumber t)
          let ma := BT.InstrumentsManager.updateFM acc c
            (fun f => { f with ptNumber := Function.update f.ptNumber t n })
          { ma with ptFM := ma.ptFM.registerUser n c }
        else acc) A0).ptADPCM = A0.ptADPCM ∧
        (∀ s, ((l.foldl (fun (acc : BT.InstrumentsManager) t =>
        if refFm.ptEnabled t then
          let n := L (refFm.ptNumber t)
          let ma := BT.InstrumentsManager.updateFM acc c
            (fun f => { f with ptNumber := Function.update f.ptNumber t n })
          { ma with ptFM := ma.ptFM.registerUser n c }
        else acc) A0).ptFM s).users =
          if (l.any (fun t => refFm.ptEnabled t && (L (refFm.ptNumber t) == s))) = true
          then insert c ((A0.ptFM s).users) else (A0.ptFM s).users) := by
  intro l
  induction l with
  | nil =>
    intro _ A0 f hf
    refine ⟨f, ?_, rfl, rfl, rfl, rfl, rfl, rfl, rfl, rfl, fun t ht => absurd ht (List.not_mem_nil t), fun t _ => rfl, rfl, rfl, rfl, rfl, rfl, rfl, rfl, rfl, rfl, rfl, rfl, rfl, rfl, fun s => ?_⟩
    · rw [show (some (.fm f) : Option BT.AbstractInstrument) = A0.insts c from hf.symm]
      exact (Function.update_eq_self c A0.insts).symm
    · simp
  | cons t l ih =>
    intro hnd A0 f hf
    have hnd' := List.nodup_cons.mp hnd
    rw [List.foldl_cons]
    by_cases hb : refFm.ptEnabled t = true
    · rw [if_pos hb]
      have hma_i : (BT.InstrumentsManager.updateFM A0 c (fun f => { f with ptNumber := Function.update f.ptNumber t (L (refFm.ptNumber t)) })).insts = Function.update A0.insts c
          (some (.fm { f with ptNumber := Function.update f.ptNumber t (L (refFm.ptNumber t)) })) :=
        updateFM_insts A0 c (fun f => { f with ptNumber := Function.update f.ptNumber t (L (refFm.ptNumber t)) }) f hf
      have hfin_i : ({ (BT.InstrumentsManager.updateFM A0 c (fun f => { f with ptNumber := Function.update f.ptNumber t (L (refFm.ptNumber t)) })) with ptFM := (BT.InstrumentsManager.updateFM A0 c (fun f => { f with ptNumber := Function.update f.ptNumber t (L (refFm.ptNumber t)) })).ptFM.registerUser (L (refFm.ptNumber t)) c }).insts = Function.update A0.insts c
          (some (.fm { f with ptNumber := Function.update f.ptNumber t (L (refFm.ptNumber t)) })) := hma_i
      have hfin_c : ({ (BT.InstrumentsManager.updateFM A0 c (fun f => { f with ptNumber := Function.update f.ptNumber t (L (refFm.ptNumber t)) })) with ptFM := (BT.InstrumentsManager.updateFM A0 c (fun f => { f with ptNumber := Function.update f.ptNumber t (L (refFm.ptNumber t)) })).ptFM.registerUser (L (refFm.ptNumber t)) c }).insts c =
          some (.fm { f with ptNumber := Function.update f.ptNumber t (L (refFm.ptNumber t)) }) := by
        rw [hfin_i]
        exact Function.update_same c _ A0.insts
      have hfinarp : ∀ s, (({ (BT.InstrumentsManager.updateFM A0 c (fun f => { f with ptNumber := Function.update f.ptNumber t (L (refFm.ptNumber t)) })) with ptFM := (BT.InstrumentsManager.updateFM A0 c (fun f => { f with ptNumber := Function.update f.ptNumber t (L (refFm.ptNumber t)) })).ptFM.registerUser (L (refFm.ptNumber t)) c }).ptFM s).users =
          if (refFm.ptEnabled t && (L (refFm.ptNumber t) == s)) = true
          then insert c ((A0.ptFM s).users) else (A0.ptFM s).users := by
        intro s
        show (((BT.InstrumentsManager.updateFM A0 c (fun f => { f with ptNumber := Function.update f.ptNumber t (L (refFm.ptNumber t)) })).ptFM.registerUser (L (refFm.ptNumber t)) c) s).users = _
        rw [users_registerUser, updateFM_ptFM A0 c (fun f => { f with ptNumber := Function.update f.ptNumber t (L (refFm.ptNumber t)) })]
        by_cases hsn : s = (L (refFm.ptNumber t))
        · rw [if_pos hsn, if_pos (by rw [hb, hsn]; simp), hsn]
        · rw [if_neg hsn, if_neg (by
            rw [Bool.and_eq_true]
            rintro ⟨-, hbq⟩
            rw [beq_iff_eq] at hbq
            exact hsn hbq.symm)]
      obtain ⟨g, hgi, ha0, ha1, ha2, ha3, ha4, ha5, ha6, ha7, hIn, hOut, hq0, hq1, hq2, hq3, hq4, hq5, hq6, hq7, hq8, hq9, hq10, hq11, hq12, hus⟩ :=
        ih hnd'.2 ({ (BT.InstrumentsManager.updateFM A0 c (fun f => { f with ptNumber := Function.update f.ptNumber t (L (refFm.ptNumber t)) })) with ptFM := (BT.InstrumentsManager.updateFM A0 c (fun f => { f with ptNumber := Function.update f.ptNumber t (L (refFm.ptNumber t)) })).ptFM.registerUser (L (refFm.ptNumber t)) c }) { f with ptNumber := Function.update f.ptNumber t (L (refFm.ptNumber t)) } hfin_c
      refine ⟨g, ?_, ha0, ha1, ha2, ha3, ha4, ha5, ha6, ha7, ?_, ?_, (hq0.trans (updateFM_envFM A0 c (fun f => { f with ptNumber := Function.update f.ptNumber t (L (refFm.ptNumber t)) }))), (hq1.trans (updateFM_lfoFM A0 c (fun f => { f with ptNumber := Function.update f.ptNumber t (L (refFm.ptNumber t)) }))), (hq2.trans (updateFM_opSeqFM A0 c (fun f => { f with ptNumber := Function.update f.ptNumber t (L (refFm.ptNumber t)) }))), (hq3.trans (updateFM_arpFM A0 c (fun f => { f with ptNumber := Function.update f.ptNumber t (L (refFm.ptNumber t)) }))), (hq4.trans (updateFM_wfSSG A0 c (fun f => { f with ptNumber := Function.update f.ptNumber t (L (refFm.ptNumber t)) }))), (hq5.trans (updateFM_tnSSG A0 c (fun f => { f with ptNumber := Function.update f.ptNumber t (L (refFm.ptNumber t)) }))), (hq6.trans (updateFM_envSSG A0 c (fun f => { f with ptNumber := Function.update f.ptNumber t (L (refFm.ptNumber t)) }))), (hq7.trans (updateFM_arpSSG A0 c (fun f => { f with ptNumber := Function.update f.ptNumber t (L (refFm.ptNumber t)) }))), (hq8.trans (updateFM_ptSSG A0 c (fun f => { f with ptNumber := Function.update f.ptNumber t (L (refFm.ptNumber t)) }))), (hq9.trans (updateFM_wfADPCM A0 c (fun f => { f with ptNumber := Function.update f.ptNumber t (L (refFm.ptNumber t)) }))), (hq10.trans (updateFM_envADPCM A0 c (fun f => { f with ptNumber := Function.update f.ptNumber t (L (refFm.ptNumber t)) }))), (hq11.trans (updateFM_arpADPCM A0 c (fun f => { f with ptNumber := Function.update f.ptNumber t (L (refFm.ptNumber t)) }))), (hq12.trans (updateFM_ptADPCM A0 c (fun f => { f with ptNumber := Function.update f.ptNumber t (L (refFm.ptNumber t)) }))), fun s => ?_⟩
      · rw [hgi, hfin_i, Function.update_idem]
      · intro u hu
        by_cases hut : u = t
        · subst hut
          rw [hOut u hnd'.1, if_pos hb]
          show Function.update f.ptNumber u (L (refFm.ptNumber u)) u = L (refFm.ptNumber u)
          exact Function.update_same u _ f.ptNumber
        · have hu2 : u ∈ l := by
            cases List.mem_cons.mp hu with
            | inl h => exact absurd h hut
            | inr h => exact h
          rw [hIn u hu2]
          by_cases hbe : refFm.ptEnabled u = true
          · rw [if_pos hbe, if_pos hbe]
          · rw [if_neg hbe, if_neg hbe]
            show Function.update f.ptNumber t (L (refFm.ptNumber t)) u = f.ptNumber u
            exact Function.update_noteq hut _ f.ptNumber
      · intro u hu
        have hut : u ≠ t := fun he => hu (he ▸ List.mem_cons_self t l)
        have hul : u ∉ l := fun h2 => hu (List.mem_cons_of_mem t h2)
        rw [hOut u hul]
        show Function.update f.ptNumber t (L (refFm.ptNumber t)) u = f.ptNumber u
        exact Function.update_noteq hut _ f.ptNumber
      · rw [hus s, hfinarp s, List.any_cons]
        by_cases hc1 : (refFm.ptEnabled t && (L (refFm.ptNumber t) == s)) = true <;>
          by_cases hc2 : (l.any (fun u => refFm.ptEnabled u && (L (refFm.ptNumber u) == s))) = true <;>
          simp [hc1, hc2, Finset.insert_idem]
    · rw [if_neg hb]
      obtain ⟨g, hgi, ha0, ha1, ha2, ha3, ha4, ha5, ha6, ha7, hIn, hOut, hq0, hq1, hq2, hq3, hq4, hq5, hq6, hq7, hq8, hq9, hq10, hq11, hq12, hus⟩ :=
        ih hnd'.2 A0 f hf
      refine ⟨g, hgi, ha0, ha1, ha2, ha3, ha4, ha5, ha6, ha7, ?_, ?_, hq0, hq1, hq2, hq3, hq4, hq5, hq6, hq7, hq8, hq9, hq10, hq11, hq12, fun s => ?_⟩
      · intro u hu
        by_cases hut : u = t
        · subst hut
          rw [hOut u hnd'.1, if_neg hb]
        · have hu2 : u ∈ l := by
            cases List.mem_cons.mp hu with
            | inl h => exact absurd h hut
            | inr h => exact h
          exact hIn u hu2
      · intro u hu
        exact hOut u (fun h2 => hu (List.mem_cons_of_mem t h2))
      · rw [hus s, List.any_cons, bool_false_of_not_true hb, Bool.false_and, Bool.false_or]


/-- The operator-sequence scan fold of `addInstrument` never revisits a
parameter: the assigned number at an unprocessed parameter is unchanged. -/
theorem addFMStep_fold_stable :
    ∀ (l : List BT.FMEnvelopeParameter)
      (a : (BT.FMEnvelopeParameter → Nat) × BT.InstrumentsManager)
      (q : BT.FMEnvelopeParameter), q ∉ l →
      (l.foldl BT.addFMStep a).1 q = a.1 q := by
  intro l
  induction l with
  | nil => intro a q _; rfl
  | cons p l ih =>
    intro a q hq
    rw [List.foldl_cons]
    rw [ih (BT.addFMStep a p) q (fun h2 => hq (List.mem_cons_of_mem p h2))]
    show Function.update a.1 p _ q = a.1 q
    exact Function.update_noteq (fun he => hq (List.mem_cons.mpr (Or.inl he))) _ a.1

/-- The operator-sequence scan fold touches only the operator-sequence
pools: the arpeggio pool, the pitch pool and the policy flag are unchanged. -/
theorem addFMStep_fold_pools :
    ∀ (l : List BT.FMEnvelopeParameter)
      (a : (BT.FMEnvelopeParameter → Nat) × BT.InstrumentsManager),
      (l.foldl BT.addFMStep a).2.arpFM = a.2.arpFM ∧
      (l.foldl BT.addFMStep a).2.ptFM = a.2.ptFM ∧
      (l.foldl BT.addFMStep a).2.regardingUnedited = a.2.regardingUnedited := by
  intro l
  induction l with
  | nil => intro a; exact ⟨rfl, rfl, rfl⟩
  | cons p l ih =>
    intro a
    rw [List.foldl_cons]
    obtain ⟨h1, h2, h3⟩ := ih (BT.addFMStep a p)
    exact ⟨h1.trans rfl, h2.trans rfl, h3.trans rfl⟩

set_option maxHeartbeats 1000000 in
/-- Each parameter of the operator-sequence scan fold is assigned the scan
result of its own pool, which no earlier fold step has modified. -/
theorem addFMStep_fold_spec :
    ∀ (l : List BT.FMEnvelopeParameter), l.Nodup →
    ∀ (a : (BT.FMEnvelopeParameter → Nat) × BT.InstrumentsManager),
      ∀ q ∈ l, (l.foldl BT.addFMStep a).1 q =
        ((a.2.opSeqFM q).findFirstAssignable a.2.regardingUnedited
          (BT.InstrumentsManager.cmdSeqEdited BT.defaultOpSeqFM) (fun _ => BT.defaultOpSeqFM)).1.getD 127 := by
  intro l
  induction l with
  | nil => intro _ a q hq; exact absurd hq (List.not_mem_nil q)
  | cons p l ih =>
    intro hnd a q hq
    have hnd' := List.nodup_cons.mp hnd
    rw [List.foldl_cons]
    by_cases hqp : q = p
    · subst hqp
      rw [addFMStep_fold_stable l (BT.addFMStep a q) q hnd'.1]
      show Function.update a.1 q
        (((a.2.findFirstAssignableOperatorSequenceFM q).1).getD 127) q = _
      rw [Function.update_same]
      rfl
    · have hql : q ∈ l := by
        cases List.mem_cons.mp hq with
        | inl h => exact absurd h hqp
        | inr h => exact h
      rw [ih hnd'.2 (BT.addFMStep a p) q hql]
      show (((Function.update a.2.opSeqFM p
          ((a.2.opSeqFM p).findFirstAssignable a.2.regardingUnedited
            (BT.InstrumentsManager.cmdSeqEdited BT.defaultOpSeqFM) (fun _ => BT.defaultOpSeqFM)).2) q).findFirstAssignable
          a.2.regardingUnedited (BT.InstrumentsManager.cmdSeqEdited BT.defaultOpSeqFM)
          (fun _ => BT.defaultOpSeqFM)).1.getD 127 = _
      rw [Function.update_noteq hqp]

set_option maxHeartbeats 1000000 in
/-- C7: during `addInstrument`, for every property kind of every sound
source, whenever the `findFirstAssignable` scan of that kind's 128-entry
pool reports no assignable slot the new instrument is assigned the last
slot (index 127) of that pool for that kind, the always-registered kinds
(FM envelope, ADPCM waveform) are registered there, and the add completes
by storing the instrument. -/
theorem C7_pool_exhaustion_last_slot (m : BT.InstrumentsManager) (n : Int)
    (name : String) (h0 : 0 ≤ n) (h1 : n < 128) :
    ((m.addInstrument n .FM name).insts n.toNat =
        some (.fm (BT.addFMrec m n.toNat name)) ∧
      (m.addInstrument n .SSG name).insts n.toNat =
        some (.ssg (BT.addSSGrec m name)) ∧
      (m.addInstrument n .ADPCM name).insts n.toNat =
        some (.adpcm (BT.addADPCMrec m n.toNat name))) ∧
    ((m.findFirstAssignableEnvelopeFM).1 = none →
      (BT.addFMrec m n.toNat name).envelopeNumber = 127 ∧
      n.toNat ∈ ((m.addInstrument n .FM name).envFM 127).users) ∧
    ((m.findFirstAssignableLFOFM).1 = none →
      (BT.addFMrec m n.toNat name).lfoNumber = 127) ∧
    (∀ p, p ∈ BT.envFMParams →
      (m.findFirstAssignableOperatorSequenceFM p).1 = none →
      (BT.addFMrec m n.toNat name).opSeqNumber p = 127) ∧
    (∀ t, (m.findFirstAssignableArpeggioFM).1 = none →
      (BT.addFMrec m n.toNat name).arpNumber t = 127) ∧
    (∀ t, (m.findFirstAssignablePitchFM).1 = none →
      (BT.addFMrec m n.toNat name).ptNumber t = 127) ∧
    ((m.findFirstAssignableWaveformSSG).1 = none →
      (BT.addSSGrec m name).waveformNumber = 127) ∧
    ((m.findFirstAssignableToneNoiseSSG).1 = none →
      (BT.addSSGrec m name).toneNoiseNumber = 127) ∧
    ((m.findFirstAssignableEnvelopeSSG).1 = none →
      (BT.addSSGrec m name).envelopeNumber = 127) ∧
    ((m.findFirstAssignableArpeggioSSG).1 = none →
      (BT.addSSGrec m name).arpeggioNumber = 127) ∧
    ((m.findFirstAssignablePitchSSG).1 = none →
      (BT.addSSGrec m name).pitchNumber = 127) ∧
    ((m.findFirstAssignableWaveformADPCM).1 = none →
      (BT.addADPCMrec m n.toNat name).waveformNumber = 127 ∧
      n.toNat ∈ ((m.addInstrument n .ADPCM name).wfADPCM 127).users) ∧
    ((m.findFirstAssignableEnvelopeADPCM).1 = none →
      (BT.addADPCMrec m n.toNat name).envelopeNumber = 127) ∧
    ((m.findFirstAssignableArpeggioADPCM).1 = none →
      (BT.addADPCMrec m n.toNat name).arpeggioNumber = 127) ∧
    ((m.findFirstAssignablePitchADPCM).1 = none →
      (BT.addADPCMrec m n.toNat name).pitchNumber = 127) := by
  have hc : (decide (n < 0) || decide (128 ≤ n)) = false := by
    simp
    omega
  refine ⟨⟨?_, ?_, ?_⟩, ?_, ?_, ?_, ?_, ?_, ?_, ?_, ?_, ?_, ?_, ?_, ?_, ?_, ?_⟩
  · rw [(addFM_char m n name hc).1]
    exact Function.update_same n.toNat _ m.insts
  · rw [(addSSG_char m n name hc).1]
    exact Function.update_same n.toNat _ m.insts
  · rw [(addADPCM_char m n name hc).1]
    exact Function.update_same n.toNat _ m.insts
  · intro hex
    have h127 : (BT.addFMrec m n.toNat name).envelopeNumber = 127 := by
      show (m.findFirstAssignableEnvelopeFM).1.getD 127 = 127
      rw [hex]
      rfl
    refine ⟨h127, ?_⟩
    rw [(addFM_char m n name hc).2.1 127, if_pos (by rw [h127])]
    exact Finset.mem_insert_self n.toNat _
  · intro hex
    show (m.findFirstAssignableLFOFM).1.getD 127 = 127
    rw [hex]
    rfl
  · intro p hp hex
    have hs : (BT.addFMacc m n.toNat).1 p =
        ((m.opSeqFM p).findFirstAssignable m.regardingUnedited
          (BT.InstrumentsManager.cmdSeqEdited BT.defaultOpSeqFM) (fun _ => BT.defaultOpSeqFM)).1.getD 127 :=
      addFMStep_fold_spec BT.envFMParams (by decide)
        ((fun _ => 0), BT.addFMm3 m n.toNat) p hp
    show (BT.addFMacc m n.toNat).1 p = 127
    rw [hs, show ((m.opSeqFM p).findFirstAssignable m.regardingUnedited
      (BT.InstrumentsManager.cmdSeqEdited BT.defaultOpSeqFM) (fun _ => BT.defaultOpSeqFM)).1 = none from hex]
    rfl
  · intro t hex
    obtain ⟨ha, hb, hfl⟩ :=
      addFMStep_fold_pools BT.envFMParams ((fun _ => 0), BT.addFMm3 m n.toNat)
    have ha' : (BT.addFMacc m n.toNat).2.arpFM = m.arpFM := ha
    have hf' : (BT.addFMacc m n.toNat).2.regardingUnedited = m.regardingUnedited := hfl
    show ((BT.addFMacc m n.toNat).2.arpFM.findFirstAssignable
      (BT.addFMacc m n.toNat).2.regardingUnedited
      (BT.InstrumentsManager.cmdSeqEdited BT.defaultArpFM) (fun _ => BT.defaultArpFM)).1.getD 127 = 127
    rw [ha', hf', show (m.arpFM.findFirstAssignable m.regardingUnedited
      (BT.InstrumentsManager.cmdSeqEdited BT.defaultArpFM) (fun _ => BT.defaultArpFM)).1 = none from hex]
    rfl
  · intro t hex
    obtain ⟨ha, hb, hfl⟩ :=
      addFMStep_fold_pools BT.envFMParams ((fun _ => 0), BT.addFMm3 m n.toNat)
    have hb' : (BT.addFMm5 m n.toNat).ptFM = m.ptFM := hb
    have hf' : (BT.addFMm5 m n.toNat).regardingUnedited = m.regardingUnedited := hfl
    show ((BT.addFMm5 m n.toNat).ptFM.findFirstAssignable
      (BT.addFMm5 m n.toNat).regardingUnedited
      (BT.InstrumentsManager.cmdSeqEdited BT.defaultPtFM) (fun _ => BT.defaultPtFM)).1.getD 127 = 127
    rw [hb', hf', show (m.ptFM.findFirstAssignable m.regardingUnedited
      (BT.InstrumentsManager.cmdSeqEdited BT.defaultPtFM) (fun _ => BT.defaultPtFM)).1 = none from hex]
    rfl
  · intro hex
    show (m.findFirstAssignableWaveformSSG).1.getD 127 = 127
    rw [hex]
    rfl
  · intro hex
    show (m.findFirstAssignableToneNoiseSSG).1.getD 127 = 127
    rw [hex]
    rfl
  · intro hex
    show (m.findFirstAssignableEnvelopeSSG).1.getD 127 = 127
    rw [hex]
    rfl
  · intro hex
    show (m.findFirstAssignableArpeggioSSG).1.getD 127 = 127
    rw [hex]
    rfl
  · intro hex
    show (m.findFirstAssignablePitchSSG).1.getD 127 = 127
    rw [hex]
    rfl
  · intro hex
    have h127 : (BT.addADPCMrec m n.toNat name).waveformNumber = 127 := by
      show (m.findFirstAssignableWaveformADPCM).1.getD 127 = 127
      rw [hex]
      rfl
    refine ⟨h127, ?_⟩
    rw [(addADPCM_char m n name hc).2.1 127, if_pos (by rw [h127])]
    exact Finset.mem_insert_self n.toNat _
  · intro hex
    show (m.findFirstAssignableEnvelopeADPCM).1.getD 127 = 127
    rw [hex]
    rfl
  · intro hex
    show (m.findFirstAssignableArpeggioADPCM).1.getD 127 = 127
    rw [hex]
    rfl
  · intro hex
    show (m.findFirstAssignablePitchADPCM).1.getD 127 = 127
    rw [hex]
    rfl

/-- A manager in which every slot of every property pool is in use, so
every `findFirstAssignable` scan fails. -/
def C7exAll : BT.InstrumentsManager :=
  { BT.InstrumentsManager.mkInit true with
    envFM := fun _ => ⟨BT.defaultEnvelopeFM, {0}⟩
    lfoFM := fun _ => ⟨BT.defaultLFOFM, {0}⟩
    opSeqFM := fun _ => fun _ => ⟨BT.defaultOpSeqFM, {0}⟩
    arpFM := fun _ => ⟨BT.defaultArpFM, {0}⟩
    ptFM := fun _ => ⟨BT.defaultPtFM, {0}⟩
    wfSSG := fun _ => ⟨BT.defaultWfSSG, {0}⟩
    tnSSG := fun _ => ⟨BT.defaultTnSSG, {0}⟩
    envSSG := fun _ => ⟨BT.defaultEnvSSG, {0}⟩
    arpSSG := fun _ => ⟨BT.defaultArpSSG, {0}⟩
    ptSSG := fun _ => ⟨BT.defaultPtSSG, {0}⟩
    wfADPCM := fun _ => ⟨BT.defaultWaveformADPCM, {0}⟩
    envADPCM := fun _ => ⟨BT.defaultEnvADPCM, {0}⟩
    arpADPCM := fun _ => ⟨BT.defaultArpADPCM, {0}⟩
    ptADPCM := fun _ => ⟨BT.defaultPtADPCM, {0}⟩ }

set_option maxHeartbeats 2000000 in
/-- Witness for C7: with every pool fully occupied, every scan fails and
instrument 3 receives slot 127 for every property kind of every source. -/
theorem C7_witness :
    (C7exAll.findFirstAssignableEnvelopeFM).1 = none ∧
    (C7exAll.findFirstAssignableOperatorSequenceFM .AL).1 = none ∧
    (C7exAll.findFirstAssignablePitchADPCM).1 = none ∧
    (BT.addFMrec C7exAll (3 : Int).toNat "a").envelopeNumber = 127 ∧
    (BT.addFMrec C7exAll (3 : Int).toNat "a").lfoNumber = 127 ∧
    (BT.addFMrec C7exAll (3 : Int).toNat "a").opSeqNumber .AL = 127 ∧
    (BT.addFMrec C7exAll (3 : Int).toNat "a").arpNumber .All = 127 ∧
    (BT.addFMrec C7exAll (3 : Int).toNat "a").ptNumber .Op2 = 127 ∧
    (BT.addSSGrec C7exAll "a").waveformNumber = 127 ∧
    (BT.addSSGrec C7exAll "a").toneNoiseNumber = 127 ∧
    (BT.addSSGrec C7exAll "a").envelopeNumber = 127 ∧
    (BT.addSSGrec C7exAll "a").arpeggioNumber = 127 ∧
    (BT.addSSGrec C7exAll "a").pitchNumber = 127 ∧
    (BT.addADPCMrec C7exAll (3 : Int).toNat "a").waveformNumber = 127 ∧
    (BT.addADPCMrec C7exAll (3 : Int).toNat "a").envelopeNumber = 127 ∧
    (BT.addADPCMrec C7exAll (3 : Int).toNat "a").arpeggioNumber = 127 ∧
    (BT.addADPCMrec C7exAll (3 : Int).toNat "a").pitchNumber = 127 ∧
    (C7exAll.addInstrument 3 .FM "a").insts (3 : Int).toNat =
      some (.fm (BT.addFMrec C7exAll (3 : Int).toNat "a")) ∧
    (3 : Int).toNat ∈ ((C7exAll.addInstrument 3 .FM "a").envFM 127).users ∧
    (3 : Int).toNat ∈ ((C7exAll.addInstrument 3 .ADPCM "a").wfADPCM 127).users := by
  obtain ⟨⟨hstF, hstS, hstA⟩, hBe, hBl, hBo, hBa, hBp,
      hS1, hS2, hS3, hS4, hS5, hAw, hAe, hAa, hAp⟩ :=
    C7_pool_exhaustion_last_slot C7exAll 3 "a" (by norm_num) (by norm_num)
  exact ⟨by decide, by decide, by decide,
    (hBe (by decide)).1, hBl (by decide), hBo .AL (by decide) (by decide),
    hBa .All (by decide), hBp .Op2 (by decide),
    hS1 (by decide), hS2 (by decide), hS3 (by decide), hS4 (by decide), hS5 (by decide),
    (hAw (by decide)).1, hAe (by decide), hAa (by decide), hAp (by decide),
    hstF, (hBe (by decide)).2, (hAw (by decide)).2⟩

set_option maxHeartbeats 2000000 in
/-- The arp phase of the FM deep clone (enable flags, clone payloads,
assign and register fresh slots) preserves the invariant. -/
theorem inv_dcFMm7 (m0 : BT.InstrumentsManager) (f0 refFm : BT.InstrumentFM) (c : Nat)
    (hc : c < 128) (f5 : BT.InstrumentFM)
    (hf5 : (BT.dcFMm5 m0 f0 refFm c).insts c = some (.fm f5))
    (hown : ∀ t, f5.arpEnabled t = false) (hptf : ∀ t, f5.ptEnabled t = false)
    (inv5 : BT.Inv (BT.dcFMm5 m0 f0 refFm c)) :
    BT.Inv (BT.dcFMm7 m0 f0 refFm c) ∧
    ∃ f7, (BT.dcFMm7 m0 f0 refFm c).insts c = some (.fm f7) ∧
      (∀ t, f7.ptEnabled t = false) := by
  obtain ⟨f6, h6i, h6flags, h6envelopeNumber, h6lfoEnabled, h6lfoNumber, h6opSeqEnabled, h6opSeqNumber, h6arpNumber, h6ptEnabled, h6ptNumber, q1, q2, q3, q4, q5, q6, q7, q8, q9, q10, q11, q12, q13, q14⟩ :=
    dcFM_enableArp_fold c (BT.dcFMenArp refFm) (BT.dcFMm5 m0 f0 refFm c) f5 hf5
  have h6i' : (BT.dcFMm6 m0 f0 refFm c).insts =
      Function.update (BT.dcFMm5 m0 f0 refFm c).insts c (some (.fm f6)) := h6i
  have hu : BT.UsersEq (BT.dcFMm6 m0 f0 refFm c) (BT.dcFMarpAcc m0 f0 refFm c).2 :=
    dcFM_cloneArp_fold
      (BT.InstrumentsManager.dedupFirst ((BT.dcFMenArp refFm).map refFm.arpNumber))
      ([], BT.dcFMm6 m0 f0 refFm c)
  have hfA : (BT.dcFMarpAcc m0 f0 refFm c).2.insts c = some (.fm f6) := by
    rw [← hu.insts, h6i']
    exact Function.update_same c _ _
  obtain ⟨g, hgi, hgarpEnabled, hgptEnabled, hgenvelopeNumber, hglfoEnabled, hglfoNumber, hgopSeqEnabled, hgopSeqNumber, hgptNumber, hIn, hOut, r1, r2, r3, r4, r5, r6, r7, r8, r9, r10, r11, r12, r13, hus⟩ :=
    dcFM_assignArp_fold c refFm (BT.dcFMarpL m0 f0 refFm c) BT.fmOpTypes (by decide)
      (BT.dcFMarpAcc m0 f0 refFm c).2 f6 hfA
  have hgi' : (BT.dcFMm7 m0 f0 refFm c).insts =
      Function.update (BT.dcFMarpAcc m0 f0 refFm c).2.insts c (some (.fm g)) := hgi
  have h7i : (BT.dcFMm7 m0 f0 refFm c).insts =
      Function.update (BT.dcFMm5 m0 f0 refFm c).insts c (some (.fm g)) := by
    rw [hgi', ← hu.insts, h6i', Function.update_idem]
  have harpE : ∀ t, g.arpEnabled t = refFm.arpEnabled t := by
    intro t
    rw [congrFun hgarpEnabled t, h6flags t, hown t, Bool.or_false]
    by_cases hbt : refFm.arpEnabled t = true
    · rw [hbt, decide_eq_true_eq]
      show t ∈ BT.fmOpTypes.filter (fun t => refFm.arpEnabled t)
      exact List.mem_filter.mpr ⟨mem_fmOpTypes t, hbt⟩
    · rw [bool_false_of_not_true hbt, decide_eq_false_iff_not]
      intro hmem
      exact hbt (List.mem_filter.mp hmem).2
  have hnumE : ∀ t, refFm.arpEnabled t = true →
      g.arpNumber t = BT.dcFMarpL m0 f0 refFm c (refFm.arpNumber t) := by
    intro t hbt
    rw [hIn t (mem_fmOpTypes t), if_pos hbt]
  have hcond : ∀ s, BT.fmArpPoints (.fm g) s =
      (BT.fmOpTypes.any (fun t => refFm.arpEnabled t &&
        (BT.dcFMarpL m0 f0 refFm c (refFm.arpNumber t) == s))) := by
    intro s
    show BT.fmOpTypes.any (fun t => g.arpEnabled t && (g.arpNumber t == s)) = _
    refine list_any_congr BT.fmOpTypes ?_
    intro t ht
    rw [harpE t]
    by_cases hbt : refFm.arpEnabled t = true
    · rw [hbt, Bool.true_and, Bool.true_and, hnumE t hbt]
    · rw [bool_false_of_not_true hbt, Bool.false_and, Bool.false_and]
  have husersM : ∀ s, s < 128 → ((BT.dcFMm7 m0 f0 refFm c).arpFM s).users =
      if BT.fmArpPoints (.fm g) s = true
      then insert c (((BT.dcFMm5 m0 f0 refFm c).arpFM s).users)
      else ((BT.dcFMm5 m0 f0 refFm c).arpFM s).users := by
    intro s hs
    have hx : ((BT.dcFMm7 m0 f0 refFm c).arpFM s).users =
        if (BT.fmOpTypes.any (fun t => refFm.arpEnabled t &&
          (BT.dcFMarpL m0 f0 refFm c (refFm.arpNumber t) == s))) = true
        then insert c (((BT.dcFMarpAcc m0 f0 refFm c).2.arpFM s).users)
        else ((BT.dcFMarpAcc m0 f0 refFm c).2.arpFM s).users := hus s
    rw [hx, ← hu.arpFM s,
      show (BT.dcFMm6 m0 f0 refFm c).arpFM = (BT.dcFMm5 m0 f0 refFm c).arpFM from q4,
      ← hcond s]
  have hold : ∀ s, BT.fmArpPoints (.fm f5) s = false := by
    intro s
    show BT.fmOpTypes.any (fun t => f5.arpEnabled t && (f5.arpNumber t == s)) = false
    refine list_any_false BT.fmOpTypes ?_
    intro t ht
    rw [hown t]
    rfl
  refine ⟨⟨?_, ?_, ?_, ?_, ?_, ?_, ?_, ?_, ?_, ?_, ?_, ?_, ?_, ?_⟩,
    g, (by rw [h7i]; exact Function.update_same c _ _), fun t => ?_⟩
  · rw [h7i]
    refine poolSync_of_usersPreserved (fun s => ?_) (poolSync_update_irrelevant (fun s => ?_) inv5.envFM)
    · rw [show (BT.dcFMm7 m0 f0 refFm c).envFM = (BT.dcFMarpAcc m0 f0 refFm c).2.envFM from r1,
        ← hu.envFM s,
        show (BT.dcFMm6 m0 f0 refFm c).envFM = (BT.dcFMm5 m0 f0 refFm c).envFM from q1]
    · rw [hf5]
      show (g.envelopeNumber == s) = (f5.envelopeNumber == s)
      rw [hgenvelopeNumber, h6envelopeNumber]
  · rw [h7i]
    refine poolSync_of_usersPreserved (fun s => ?_) (poolSync_update_irrelevant (fun s => ?_) inv5.lfoFM)
    · rw [show (BT.dcFMm7 m0 f0 refFm c).lfoFM = (BT.dcFMarpAcc m0 f0 refFm c).2.lfoFM from r2,
        ← hu.lfoFM s,
        show (BT.dcFMm6 m0 f0 refFm c).lfoFM = (BT.dcFMm5 m0 f0 refFm c).lfoFM from q2]
    · rw [hf5]
      show (g.lfoEnabled && (g.lfoNumber == s)) = (f5.lfoEnabled && (f5.lfoNumber == s))
      rw [hglfoEnabled, h6lfoEnabled, hglfoNumber, h6lfoNumber]
  · intro p hp
    rw [h7i]
    refine poolSync_of_usersPreserved (fun s => ?_) (poolSync_update_irrelevant (fun s => ?_) (inv5.opSeqFM p hp))
    · rw [show (BT.dcFMm7 m0 f0 refFm c).opSeqFM = (BT.dcFMarpAcc m0 f0 refFm c).2.opSeqFM from r3,
        ← hu.opSeqFM p s,
        show (BT.dcFMm6 m0 f0 refFm c).opSeqFM = (BT.dcFMm5 m0 f0 refFm c).opSeqFM from q3]
    · rw [hf5]
      show (g.opSeqEnabled p && (g.opSeqNumber p == s)) = (f5.opSeqEnabled p && (f5.opSeqNumber p == s))
      rw [hgopSeqEnabled, h6opSeqEnabled, hgopSeqNumber, h6opSeqNumber]
  · rw [h7i]
    exact poolSync_overwrite_register hc hf5 hold husersM inv5.arpFM
  · rw [h7i]
    refine poolSync_of_usersPreserved (fun s => ?_) (poolSync_update_irrelevant (fun s => ?_) inv5.ptFM)
    · rw [show (BT.dcFMm7 m0 f0 refFm c).ptFM = (BT.dcFMarpAcc m0 f0 refFm c).2.ptFM from r4,
        ← hu.ptFM s,
        show (BT.dcFMm6 m0 f0 refFm c).ptFM = (BT.dcFMm5 m0 f0 refFm c).ptFM from q5]
    · rw [hf5]
      show (BT.fmOpTypes.any (fun t => g.ptEnabled t && (g.ptNumber t == s))) =
        (BT.fmOpTypes.any (fun t => f5.ptEnabled t && (f5.ptNumber t == s)))
      rw [hgptEnabled, h6ptEnabled, hgptNumber, h6ptNumber]
  · rw [h7i]
    refine poolSync_of_usersPreserved (fun s => ?_) (poolSync_update_irrelevant (fun s => ?_) inv5.wfSSG)
    · rw [show (BT.dcFMm7 m0 f0 refFm c).wfSSG = (BT.dcFMarpAcc m0 f0 refFm c).2.wfSSG from r5,
        ← hu.wfSSG s,
        show (BT.dcFMm6 m0 f0 refFm c).wfSSG = (BT.dcFMm5 m0 f0 refFm c).wfSSG from q6]
    · rw [hf5]
      rfl
  · rw [h7i]
    refine poolSync_of_usersPreserved (fun s => ?_) (poolSync_update_irrelevant (fun s => ?_) inv5.tnSSG)
    · rw [show (BT.dcFMm7 m0 f0 refFm c).tnSSG = (BT.dcFMarpAcc m0 f0 refFm c).2.tnSSG from r6,
        ← hu.tnSSG s,
        show (BT.dcFMm6 m0 f0 refFm c).tnSSG = (BT.dcFMm5 m0 f0 refFm c).tnSSG from q7]
    · rw [hf5]
      rfl
  · rw [h7i]
    refine poolSync_of_usersPreserved (fun s => ?_) (poolSync_update_irrelevant (fun s => ?_) inv5.envSSG)
    · rw [show (BT.dcFMm7 m0 f0 refFm c).envSSG = (BT.dcFMarpAcc m0 f0 refFm c).2.envSSG from r7,
        ← hu.envSSG s,
        show (BT.dcFMm6 m0 f0 refFm c).envSSG = (BT.dcFMm5 m0 f0 refFm c).envSSG from q8]
    · rw [hf5]
      rfl
  · rw [h7i]
    refine poolSync_of_usersPreserved (fun s => ?_) (poolSync_update_irrelevant (fun s => ?_) inv5.arpSSG)
    · rw [show (BT.dcFMm7 m0 f0 refFm c).arpSSG = (BT.dcFMarpAcc m0 f0 refFm c).2.arpSSG from r8,
        ← hu.arpSSG s,
        show (BT.dcFMm6 m0 f0 refFm c).arpSSG = (BT.dcFMm5 m0 f0 refFm c).arpSSG from q9]
    · rw [hf5]
      rfl
  · rw [h7i]
    refine poolSync_of_usersPreserved (fun s => ?_) (poolSync_update_irrelevant (fun s => ?_) inv5.ptSSG)
    · rw [show (BT.dcFMm7 m0 f0 refFm c).ptSSG = (BT.dcFMarpAcc m0 f0 refFm c).2.ptSSG from r9,
        ← hu.ptSSG s,
        show (BT.dcFMm6 m0 f0 refFm c).ptSSG = (BT.dcFMm5 m0 f0 refFm c).ptSSG from q10]
    · rw [hf5]
      rfl
  · rw [h7i]
    refine poolSync_of_usersPreserved (fun s => ?_) (poolSync_update_irrelevant (fun s => ?_) inv5.wfADPCM)
    · rw [show (BT.dcFMm7 m0 f0 refFm c).wfADPCM = (BT.dcFMarpAcc m0 f0 refFm c).2.wfADPCM from r10,
        ← hu.wfADPCM s,
        show (BT.dcFMm6 m0 f0 refFm c).wfADPCM = (BT.dcFMm5 m0 f0 refFm c).wfADPCM from q11]
    · rw [hf5]
      rfl
  · rw [h7i]
    refine poolSync_of_usersPreserved (fun s => ?_) (poolSync_update_irrelevant (fun s => ?_) inv5.envADPCM)
    · rw [show (BT.dcFMm7 m0 f0 refFm c).envADPCM = (BT.dcFMarpAcc m0 f0 refFm c).2.envADPCM from r11,
        ← hu.envADPCM s,
        show (BT.dcFMm6 m0 f0 refFm c).envADPCM = (BT.dcFMm5 m0 f0 refFm c).envADPCM from q12]
    · rw [hf5]
      rfl
  · rw [h7i]
    refine poolSync_of_usersPreserved (fun s => ?_) (poolSync_update_irrelevant (fun s => ?_) inv5.arpADPCM)
    · rw [show (BT.dcFMm7 m0 f0 refFm c).arpADPCM = (BT.dcFMarpAcc m0 f0 refFm c).2.arpADPCM from r12,
        ← hu.arpADPCM s,
        show (BT.dcFMm6 m0 f0 refFm c).arpADPCM = (BT.dcFMm5 m0 f0 refFm c).arpADPCM from q13]
    · rw [hf5]
      rfl
  · rw [h7i]
    refine poolSync_of_usersPreserved (fun s => ?_) (poolSync_update_irrelevant (fun s => ?_) inv5.ptADPCM)
    · rw [show (BT.dcFMm7 m0 f0 refFm c).ptADPCM = (BT.dcFMarpAcc m0 f0 refFm c).2.ptADPCM from r13,
        ← hu.ptADPCM s,
        show (BT.dcFMm6 m0 f0 refFm c).ptADPCM = (BT.dcFMm5 m0 f0 refFm c).ptADPCM from q14]
    · rw [hf5]
      rfl
  rw [congrFun hgptEnabled t, congrFun h6ptEnabled t]
  exact hptf t

set_option maxHeartbeats 2000000 in
/-- The pt phase of the FM deep clone (enable flags, clone payloads,
assign and register fresh slots) preserves the invariant. -/
theorem inv_dcFMm9 (m0 : BT.InstrumentsManager) (f0 refFm : BT.InstrumentFM) (c : Nat)
    (hc : c < 128) (f5 : BT.InstrumentFM)
    (hf5 : (BT.dcFMm7 m0 f0 refFm c).insts c = some (.fm f5))
    (hown : ∀ t, f5.ptEnabled t = false)
    (inv5 : BT.Inv (BT.dcFMm7 m0 f0 refFm c)) :
    BT.Inv (BT.dcFMm9 m0 f0 refFm c) ∧
    ∃ f7, (BT.dcFMm9 m0 f0 refFm c).insts c = some (.fm f7) := by
  obtain ⟨f6, h6i, h6flags, h6envelopeNumber, h6lfoEnabled, h6lfoNumber, h6opSeqEnabled, h6opSeqNumber, h6arpEnabled, h6arpNumber, h6ptNumber, q1, q2, q3, q4, q5, q6, q7, q8, q9, q10, q11, q12, q13, q14⟩ :=
    dcFM_enablePt_fold c (BT.dcFMenPt refFm) (BT.dcFMm7 m0 f0 refFm c) f5 hf5
  have h6i' : (BT.dcFMm8 m0 f0 refFm c).insts =
      Function.update (BT.dcFMm7 m0 f0 refFm c).insts c (some (.fm f6)) := h6i
  have hu : BT.UsersEq (BT.dcFMm8 m0 f0 refFm c) (BT.dcFMptAcc m0 f0 refFm c).2 :=
    dcFM_clonePt_fold
      (BT.InstrumentsManager.dedupFirst ((BT.dcFMenPt refFm).map refFm.ptNumber))
      ([], BT.dcFMm8 m0 f0 refFm c)
  have hfA : (BT.dcFMptAcc m0 f0 refFm c).2.insts c = some (.fm f6) := by
    rw [← hu.insts, h6i']
    exact Function.update_same c _ _
  obtain ⟨g, hgi, hgarpEnabled, hgptEnabled, hgenvelopeNumber, hglfoEnabled, hglfoNumber, hgopSeqEnabled, hgopSeqNumber, hgarpNumber, hIn, hOut, r1, r2, r3, r4, r5, r6, r7, r8, r9, r10, r11, r12, r13, hus⟩ :=
    dcFM_assignPt_fold c refFm (BT.dcFMptL m0 f0 refFm c) BT.fmOpTypes (by decide)
      (BT.dcFMptAcc m0 f0 refFm c).2 f6 hfA
  have hgi' : (BT.dcFMm9 m0 f0 refFm c).insts =
      Function.update (BT.dcFMptAcc m0 f0 refFm c).2.insts c (some (.fm g)) := hgi
  have h7i : (BT.dcFMm9 m0 f0 refFm c).insts =
      Function.update (BT.dcFMm7 m0 f0 refFm c).insts c (some (.fm g)) := by
    rw [hgi', ← hu.insts, h6i', Function.update_idem]
  have harpE : ∀ t, g.ptEnabled t = refFm.ptEnabled t := by
    intro t
    rw [congrFun hgptEnabled t, h6flags t, hown t, Bool.or_false]
    by_cases hbt : refFm.ptEnabled t = true
    · rw [hbt, decide_eq_true_eq]
      show t ∈ BT.fmOpTypes.filter (fun t => refFm.ptEnabled t)
      exact List.mem_filter.mpr ⟨mem_fmOpTypes t, hbt⟩
    · rw [bool_false_of_not_true hbt, decide_eq_false_iff_not]
      intro hmem
      exact hbt (List.mem_filter.mp hmem).2
  have hnumE : ∀ t, refFm.ptEnabled t = true →
      g.ptNumber t = BT.dcFMptL m0 f0 refFm c (refFm.ptNumber t) := by
    intro t hbt
    rw [hIn t (mem_fmOpTypes t), if_pos hbt]
  have hcond : ∀ s, BT.fmPtPoints (.fm g) s =
      (BT.fmOpTypes.any (fun t => refFm.ptEnabled t &&
        (BT.dcFMptL m0 f0 refFm c (refFm.ptNumber t) == s))) := by
    intro s
    show BT.fmOpTypes.any (fun t => g.ptEnabled t && (g.ptNumber t == s)) = _
    refine list_any_congr BT.fmOpTypes ?_
    intro t ht
    rw [harpE t]
    by_cases hbt : refFm.ptEnabled t = true
    · rw [hbt, Bool.true_and, Bool.true_and, hnumE t hbt]
    · rw [bool_false_of_not_true hbt, Bool.false_and, Bool.false_and]
  have husersM : ∀ s, s < 128 → ((BT.dcFMm9 m0 f0 refFm c).ptFM s).users =
      if BT.fmPtPoints (.fm g) s = true
      then insert c (((BT.dcFMm7 m0 f0 refFm c).ptFM s).users)
      else ((BT.dcFMm7 m0 f0 refFm c).ptFM s).users := by
    intro s hs
    have hx : ((BT.dcFMm9 m0 f0 refFm c).ptFM s).users =
        if (BT.fmOpTypes.any (fun t => refFm.ptEnabled t &&
          (BT.dcFMptL m0 f0 refFm c (refFm.ptNumber t) == s))) = true
        then insert c (((BT.dcFMptAcc m0 f0 refFm c).2.ptFM s).users)
        else ((BT.dcFMptAcc m0 f0 refFm c).2.ptFM s).users := hus s
    rw [hx, ← hu.ptFM s,
      show (BT.dcFMm8 m0 f0 refFm c).ptFM = (BT.dcFMm7 m0 f0 refFm c).ptFM from q5,
      ← hcond s]
  have hold : ∀ s, BT.fmPtPoints (.fm f5) s = false := by
    intro s
    show BT.fmOpTypes.any (fun t => f5.ptEnabled t && (f5.ptNumber t == s)) = false
    refine list_any_false BT.fmOpTypes ?_
    intro t ht
    rw [hown t]
    rfl
  refine ⟨⟨?_, ?_, ?_, ?_, ?_, ?_, ?_, ?_, ?_, ?_, ?_, ?_, ?_, ?_⟩,
    g, (by rw [h7i]; exact Function.update_same c _ _)⟩
  · rw [h7i]
    refine poolSync_of_usersPreserved (fun s => ?_) (poolSync_update_irrelevant (fun s => ?_) inv5.envFM)
    · rw [show (BT.dcFMm9 m0 f0 refFm c).envFM = (BT.dcFMptAcc m0 f0 refFm c).2.envFM from r1,
        ← hu.envFM s,
        show (BT.dcFMm8 m0 f0 refFm c).envFM = (BT.dcFMm7 m0 f0 refFm c).envFM from q1]
    · rw [hf5]
      show (g.envelopeNumber == s) = (f5.envelopeNumber == s)
      rw [hgenvelopeNumber, h6envelopeNumber]
  · rw [h7i]
    refine poolSync_of_usersPreserved (fun s => ?_) (poolSync_update_irrelevant (fun s => ?_) inv5.lfoFM)
    · rw [show (BT.dcFMm9 m0 f0 refFm c).lfoFM = (BT.dcFMptAcc m0 f0 refFm c).2.lfoFM from r2,
        ← hu.lfoFM s,
        show (BT.dcFMm8 m0 f0 refFm c).lfoFM = (BT.dcFMm7 m0 f0 refFm c).lfoFM from q2]
    · rw [hf5]
      show (g.lfoEnabled && (g.lfoNumber == s)) = (f5.lfoEnabled && (f5.lfoNumber == s))
      rw [hglfoEnabled, h6lfoEnabled, hglfoNumber, h6lfoNumber]
  · intro p hp
    rw [h7i]
    refine poolSync_of_usersPreserved (fun s => ?_) (poolSync_update_irrelevant (fun s => ?_) (inv5.opSeqFM p hp))
    · rw [show (BT.dcFMm9 m0 f0 refFm c).opSeqFM = (BT.dcFMptAcc m0 f0 refFm c).2.opSeqFM from r3,
        ← hu.opSeqFM p s,
        show (BT.dcFMm8 m0 f0 refFm c).opSeqFM = (BT.dcFMm7 m0 f0 refFm c).opSeqFM from q3]
    · rw [hf5]
      show (g.opSeqEnabled p && (g.opSeqNumber p == s)) = (f5.opSeqEnabled p && (f5.opSeqNumber p == s))
      rw [hgopSeqEnabled, h6opSeqEnabled, hgopSeqNumber, h6opSeqNumber]
  · rw [h7i]
    refine poolSync_of_usersPreserved (fun s => ?_) (poolSync_update_irrelevant (fun s => ?_) inv5.arpFM)
    · rw [show (BT.dcFMm9 m0 f0 refFm c).arpFM = (BT.dcFMptAcc m0 f0 refFm c).2.arpFM from r4,
        ← hu.arpFM s,
        show (BT.dcFMm8 m0 f0 refFm c).arpFM = (BT.dcFMm7 m0 f0 refFm c).arpFM from q4]
    · rw [hf5]
      show (BT.fmOpTypes.any (fun t => g.arpEnabled t && (g.arpNumber t == s))) =
        (BT.fmOpTypes.any (fun t => f5.arpEnabled t && (f5.arpNumber t == s)))
      rw [hgarpEnabled, h6arpEnabled, hgarpNumber, h6arpNumber]
  · rw [h7i]
    exact poolSync_overwrite_register hc hf5 hold husersM inv5.ptFM
  · rw [h7i]
    refine poolSync_of_usersPreserved (fun s => ?_) (poolSync_update_irrelevant (fun s => ?_) inv5.wfSSG)
    · rw [show (BT.dcFMm9 m0 f0 refFm c).wfSSG = (BT.dcFMptAcc m0 f0 refFm c).2.wfSSG from r5,
        ← hu.wfSSG s,
        show (BT.dcFMm8 m0 f0 refFm c).wfSSG = (BT.dcFMm7 m0 f0 refFm c).wfSSG from q6]
    · rw [hf5]
      rfl
  · rw [h7i]
    refine poolSync_of_usersPreserved (fun s => ?_) (poolSync_update_irrelevant (fun s => ?_) inv5.tnSSG)
    · rw [show (BT.dcFMm9 m0 f0 refFm c).tnSSG = (BT.dcFMptAcc m0 f0 refFm c).2.tnSSG from r6,
        ← hu.tnSSG s,
        show (BT.dcFMm8 m0 f0 refFm c).tnSSG = (BT.dcFMm7 m0 f0 refFm c).tnSSG from q7]
    · rw [hf5]
      rfl
  · rw [h7i]
    refine poolSync_of_usersPreserved (fun s => ?_) (poolSync_update_irrelevant (fun s => ?_) inv5.envSSG)
    · rw [show (BT.dcFMm9 m0 f0 refFm c).envSSG = (BT.dcFMptAcc m0 f0 refFm c).2.envSSG from r7,
        ← hu.envSSG s,
        show (BT.dcFMm8 m0 f0 refFm c).envSSG = (BT.dcFMm7 m0 f0 refFm c).envSSG from q8]
    · rw [hf5]
      rfl
  · rw [h7i]
    refine poolSync_of_usersPreserved (fun s => ?_) (poolSync_update_irrelevant (fun s => ?_) inv5.arpSSG)
    · rw [show (BT.dcFMm9 m0 f0 refFm c).arpSSG = (BT.dcFMptAcc m0 f0 refFm c).2.arpSSG from r8,
        ← hu.arpSSG s,
        show (BT.dcFMm8 m0 f0 refFm c).arpSSG = (BT.dcFMm7 m0 f0 refFm c).arpSSG from q9]
    · rw [hf5]
      rfl
  · rw [h7i]
    refine poolSync_of_usersPreserved (fun s => ?_) (poolSync_update_irrelevant (fun s => ?_) inv5.ptSSG)
    · rw [show (BT.dcFMm9 m0 f0 refFm c).ptSSG = (BT.dcFMptAcc m0 f0 refFm c).2.ptSSG from r9,
        ← hu.ptSSG s,
        show (BT.dcFMm8 m0 f0 refFm c).ptSSG = (BT.dcFMm7 m0 f0 refFm c).ptSSG from q10]
    · rw [hf5]
      rfl
  · rw [h7i]
    refine poolSync_of_usersPreserved (fun s => ?_) (poolSync_update_irrelevant (fun s => ?_) inv5.wfADPCM)
    · rw [show (BT.dcFMm9 m0 f0 refFm c).wfADPCM = (BT.dcFMptAcc m0 f0 refFm c).2.wfADPCM from r10,
        ← hu.wfADPCM s,
        show (BT.dcFMm8 m0 f0 refFm c).wfADPCM = (BT.dcFMm7 m0 f0 refFm c).wfADPCM from q11]
    · rw [hf5]
      rfl
  · rw [h7i]
    refine poolSync_of_usersPreserved (fun s => ?_) (poolSync_update_irrelevant (fun s => ?_) inv5.envADPCM)
    · rw [show (BT.dcFMm9 m0 f0 refFm c).envADPCM = (BT.dcFMptAcc m0 f0 refFm c).2.envADPCM from r11,
        ← hu.envADPCM s,
        show (BT.dcFMm8 m0 f0 refFm c).envADPCM = (BT.dcFMm7 m0 f0 refFm c).envADPCM from q12]
    · rw [hf5]
      rfl
  · rw [h7i]
    refine poolSync_of_usersPreserved (fun s => ?_) (poolSync_update_irrelevant (fun s => ?_) inv5.arpADPCM)
    · rw [show (BT.dcFMm9 m0 f0 refFm c).arpADPCM = (BT.dcFMptAcc m0 f0 refFm c).2.arpADPCM from r12,
        ← hu.arpADPCM s,
        show (BT.dcFMm8 m0 f0 refFm c).arpADPCM = (BT.dcFMm7 m0 f0 refFm c).arpADPCM from q13]
    · rw [hf5]
      rfl
  · rw [h7i]
    refine poolSync_of_usersPreserved (fun s => ?_) (poolSync_update_irrelevant (fun s => ?_) inv5.ptADPCM)
    · rw [show (BT.dcFMm9 m0 f0 refFm c).ptADPCM = (BT.dcFMptAcc m0 f0 refFm c).2.ptADPCM from r13,
        ← hu.ptADPCM s,
        show (BT.dcFMm8 m0 f0 refFm c).ptADPCM = (BT.dcFMm7 m0 f0 refFm c).ptADPCM from q14]
    · rw [hf5]
      rfl

/-- The envelope-reset copy fold of the FM deep clone preserves the invariant. -/
theorem inv_dcFM_resetFold (refFm : BT.InstrumentFM) (c : Nat) :
    ∀ (l : List BT.FMOperatorType) (acc : BT.InstrumentsManager), BT.Inv acc →
      BT.Inv (l.foldl
        (fun (acc : BT.InstrumentsManager) t =>
          acc.setInstrumentFMEnvelopeResetEnabled c t (refFm.envResetEnabled t)) acc) := by
  intro l
  induction l with
  | nil => intro acc h; exact h
  | cons t l ih =>
    intro acc h
    rw [List.foldl_cons]
    exact ih _ (inv_setInstrumentFMEnvelopeResetEnabled acc c t (refFm.envResetEnabled t) h)

set_option maxHeartbeats 2000000 in
/-- The full FM deep clone staged construction preserves the invariant when
it starts from a stored all-disabled clone record. -/
theorem inv_dcFM (m0 : BT.InstrumentsManager) (f0 refFm : BT.InstrumentFM) (c : Nat)
    (hc : c < 128) (hf0 : m0.insts c = some (.fm f0))
    (hlfo : f0.lfoEnabled = false) (hops : ∀ p, f0.opSeqEnabled p = false)
    (harp : ∀ t, f0.arpEnabled t = false) (hpt : ∀ t, f0.ptEnabled t = false)
    (inv0 : BT.Inv m0) : BT.Inv (BT.dcFMm10 m0 f0 refFm c) := by
  obtain ⟨inv3, h3i⟩ := inv_dcFMm3 m0 f0 refFm c hc hf0 inv0
  have hf3 : (BT.dcFMm3 m0 f0 refFm c).insts c =
      some (.fm { f0 with envelopeNumber := (BT.dcFMre m0 f0 refFm c).1 }) := by
    rw [h3i]
    exact Function.update_same c _ m0.insts
  obtain ⟨inv4, f4, hf4, h4ops, h4arp, h4pt⟩ :=
    inv_dcBlock_lfoFM (BT.dcFMm3 m0 f0 refFm c) refFm c hc
      { f0 with envelopeNumber := (BT.dcFMre m0 f0 refFm c).1 } hf3 hlfo inv3
  have inv4' : BT.Inv (BT.dcFMm4 m0 f0 refFm c) := inv4
  have hf4' : (BT.dcFMm4 m0 f0 refFm c).insts c = some (.fm f4) := hf4
  obtain ⟨inv5, f5, hf5, h5arp, h5pt⟩ :=
    inv_dcFM_opSeqFold refFm c hc BT.envFMParams (by decide) (BT.dcFMm4 m0 f0 refFm c) f4
      inv4' hf4' (fun p _ => by rw [congrFun h4ops p]; exact hops p)
  have inv5' : BT.Inv (BT.dcFMm5 m0 f0 refFm c) := inv5
  have hf5' : (BT.dcFMm5 m0 f0 refFm c).insts c = some (.fm f5) := hf5
  obtain ⟨inv7, f7, hf7, h7pt⟩ := inv_dcFMm7 m0 f0 refFm c hc f5 hf5'
    (fun t => by rw [congrFun h5arp t, congrFun h4arp t]; exact harp t)
    (fun t => by rw [congrFun h5pt t, congrFun h4pt t]; exact hpt t) inv5'
  obtain ⟨inv9, f9, hf9⟩ := inv_dcFMm9 m0 f0 refFm c hc f7 hf7 h7pt inv7
  exact inv_dcFM_resetFold refFm c BT.fmOpTypes (BT.dcFMm9 m0 f0 refFm c) inv9

set_option maxHeartbeats 2000000 in
/-- The full SSG deep clone staged construction preserves the invariant when
it starts from a stored all-disabled clone record. -/
theorem inv_dcSSG (m0 : BT.InstrumentsManager) (s0 refSsg : BT.InstrumentSSG) (c : Nat)
    (hc : c < 128) (hs0 : m0.insts c = some (.ssg s0))
    (h1 : s0.waveformEnabled = false) (h2 : s0.toneNoiseEnabled = false)
    (h3 : s0.envelopeEnabled = false) (h4 : s0.arpeggioEnabled = false)
    (h5 : s0.pitchEnabled = false) (inv0 : BT.Inv m0) :
    BT.Inv (BT.dcSSGm5 m0 refSsg c) := by
  obtain ⟨i1, g1, hg1, a1, a2, a3, a4⟩ := inv_dcBlock_wfSSG m0 refSsg c hc s0 hs0 h1 inv0
  have i1' : BT.Inv (BT.dcSSGm1 m0 refSsg c) := i1
  have hg1' : (BT.dcSSGm1 m0 refSsg c).insts c = some (.ssg g1) := hg1
  obtain ⟨i2, g2, hg2, b1, b2, b3, b4⟩ :=
    inv_dcBlock_tnSSG (BT.dcSSGm1 m0 refSsg c) refSsg c hc g1 hg1' (a1.trans h2) i1'
  have i2' : BT.Inv (BT.dcSSGm2 m0 refSsg c) := i2
  have hg2' : (BT.dcSSGm2 m0 refSsg c).insts c = some (.ssg g2) := hg2
  obtain ⟨i3, g3, hg3, c1, c2, c3, c4⟩ :=
    inv_dcBlock_envSSG (BT.dcSSGm2 m0 refSsg c) refSsg c hc g2 hg2'
      (b2.trans (a2.trans h3)) i2'
  have i3' : BT.Inv (BT.dcSSGm3 m0 refSsg c) := i3
  have hg3' : (BT.dcSSGm3 m0 refSsg c).insts c = some (.ssg g3) := hg3
  obtain ⟨i4, g4, hg4, d1, d2, d3, d4⟩ :=
    inv_dcBlock_arpSSG (BT.dcSSGm3 m0 refSsg c) refSsg c hc g3 hg3'
      (c3.trans (b3.trans (a3.trans h4))) i3'
  have i4' : BT.Inv (BT.dcSSGm4 m0 refSsg c) := i4
  have hg4' : (BT.dcSSGm4 m0 refSsg c).insts c = some (.ssg g4) := hg4
  obtain ⟨i5, g5, hg5, e1, e2, e3, e4⟩ :=
    inv_dcBlock_ptSSG (BT.dcSSGm4 m0 refSsg c) refSsg c hc g4 hg4'
      (d4.trans (c4.trans (b4.trans (a4.trans h5)))) i4'
  exact i5

set_option maxHeartbeats 2000000 in
/-- The full ADPCM deep clone staged construction preserves the invariant when
it starts from a stored all-disabled clone record. -/
theorem inv_dcAD (m0 : BT.InstrumentsManager) (a0 refAd : BT.InstrumentADPCM) (c : Nat)
    (hc : c < 128) (ha0 : m0.insts c = some (.adpcm a0))
    (h1 : a0.envelopeEnabled = false) (h2 : a0.arpeggioEnabled = false)
    (h3 : a0.pitchEnabled = false) (inv0 : BT.Inv m0) :
    BT.Inv (BT.dcADm6 m0 a0 refAd c) := by
  obtain ⟨i3, h3i⟩ := inv_dcADm3 m0 a0 refAd c hc ha0 inv0
  have hf3 : (BT.dcADm3 m0 a0 refAd c).insts c =
      some (.adpcm { a0 with waveformNumber := (BT.dcADrw m0 a0 refAd c).1 }) := by
    rw [h3i]
    exact Function.update_same c _ m0.insts
  obtain ⟨i4, g4, hg4, e1, e2⟩ :=
    inv_dcBlock_envADPCM (BT.dcADm3 m0 a0 refAd c) refAd c hc
      { a0 with waveformNumber := (BT.dcADrw m0 a0 refAd c).1 } hf3 h1 i3
  have i4' : BT.Inv (BT.dcADm4 m0 a0 refAd c) := i4
  have hg4' : (BT.dcADm4 m0 a0 refAd c).insts c = some (.adpcm g4) := hg4
  obtain ⟨i5, g5, hg5, f1, f2⟩ :=
    inv_dcBlock_arpADPCM (BT.dcADm4 m0 a0 refAd c) refAd c hc g4 hg4' (e1.trans h2) i4'
  have i5' : BT.Inv (BT.dcADm5 m0 a0 refAd c) := i5
  have hg5' : (BT.dcADm5 m0 a0 refAd c).insts c = some (.adpcm g5) := hg5
  obtain ⟨i6, g6, hg6, k1, k2⟩ :=
    inv_dcBlock_ptADPCM (BT.dcADm5 m0 a0 refAd c) refAd c hc g5 hg5'
      (f2.trans (e2.trans h3)) i5'
  exact i6

set_option maxHeartbeats 2000000 in
/-- `deepCloneInstrument` into a free slot preserves the reference-set
invariant, whatever the source holds. -/
theorem inv_deepCloneInstrument (m : BT.InstrumentsManager) (c r : Nat)
    (hc : c < 128) (hcnone : m.insts c = none) (inv : BT.Inv m) :
    BT.Inv (m.deepCloneInstrument c r) := by
  have hcdec : (decide ((c : Int) < 0) || decide (128 ≤ (c : Int))) = false := by
    simp only [Bool.or_eq_false_iff, decide_eq_false_iff_not]
    omega
  have hfree : (c : Int) < 0 ∨ 128 ≤ (c : Int) ∨ m.insts ((c : Int)).toNat = none :=
    Or.inr (Or.inr (by rw [Int.toNat_natCast]; exact hcnone))
  cases hins : m.insts r with
  | none =>
    have hid : m.deepCloneInstrument c r = m := by
      unfold BT.InstrumentsManager.deepCloneInstrument
      simp only [hins]
    rw [hid]
    exact inv
  | some inst =>
    cases inst with
    | fm refFm =>
      have hch := (addFM_char m (c : Int) refFm.name hcdec).1
      rw [Int.toNat_natCast] at hch
      have hstored : (m.addInstrument (c : Int) .FM refFm.name).insts c =
          some (.fm (BT.addFMrec m c refFm.name)) := by
        rw [hch]
        exact Function.update_same c _ m.insts
      rw [deepCloneFM_eq m c r refFm (BT.addFMrec m c refFm.name) hins hstored]
      exact inv_dcFM (m.addInstrument (c : Int) .FM refFm.name)
        (BT.addFMrec m c refFm.name) refFm c hc hstored rfl (fun p => rfl)
        (fun t => rfl) (fun t => rfl)
        (inv_addInstrument m (c : Int) .FM refFm.name hfree inv)
    | ssg refSsg =>
      have hch := (addSSG_char m (c : Int) refSsg.name hcdec).1
      rw [Int.toNat_natCast] at hch
      have hstored : (m.addInstrument (c : Int) .SSG refSsg.name).insts c =
          some (.ssg (BT.addSSGrec m refSsg.name)) := by
        rw [hch]
        exact Function.update_same c _ m.insts
      rw [deepCloneSSG_eq m c r refSsg (BT.addSSGrec m refSsg.name) hins hstored]
      exact inv_dcSSG (m.addInstrument (c : Int) .SSG refSsg.name)
        (BT.addSSGrec m refSsg.name) refSsg c hc hstored rfl rfl rfl rfl rfl
        (inv_addInstrument m (c : Int) .SSG refSsg.name hfree inv)
    | adpcm refAd =>
      have hch := (addADPCM_char m (c : Int) refAd.name hcdec).1
      rw [Int.toNat_natCast] at hch
      have hstored : (m.addInstrument (c : Int) .ADPCM refAd.name).insts c =
          some (.adpcm (BT.addADPCMrec m c refAd.name)) := by
        rw [hch]
        exact Function.update_same c _ m.insts
      rw [deepCloneAD_eq m c r refAd (BT.addADPCMrec m c refAd.name) hins hstored]
      exact inv_dcAD (m.addInstrument (c : Int) .ADPCM refAd.name)
        (BT.addADPCMrec m c refAd.name) refAd c hc hstored rfl rfl rfl
        (inv_addInstrument m (c : Int) .ADPCM refAd.name hfree inv)
/-- Split a true boolean disjunction. -/
theorem bool_or_elim {a b : Bool} (h : (a || b) = true) : a = true ∨ b = true := by
  simp at h
  exact h

/-- Split a true boolean conjunction. -/
theorem bool_and_elim {a b : Bool} (h : (a && b) = true) : a = true ∧ b = true := by
  simp at h
  exact h

/-- In-sync reference sets never contain the number of an empty table entry. -/
theorem not_mem_users_of_none {π : Type} {pool : BT.Pool π}
    {insts : Nat → Option BT.AbstractInstrument}
    {points : BT.AbstractInstrument → Nat → Bool} {c : Nat}
    (h : BT.PoolSync pool insts points) (hc : insts c = none) :
    ∀ s, s < 128 → c ∉ (pool s).users := by
  intro s hs hmem
  rw [h s hs] at hmem
  rw [mem_refsOf] at hmem
  rw [hc] at hmem
  exact absurd hmem.2 (by simp)

/-- A pool slot of the freshly cleared manager is in sync with the empty table. -/
theorem refsOf_none (points : BT.AbstractInstrument → Nat → Bool) (s : Nat) :
    BT.refsOf (fun _ => none) points s = ∅ := by
  unfold BT.refsOf
  apply Finset.filter_false_of_mem
  intro i _
  simp

/-- The initial manager satisfies the reference-count invariant. -/
theorem inv_mkInit (u : Bool) : BT.Inv (BT.InstrumentsManager.mkInit u) := by
  refine ⟨?_, ?_, fun p hp => ?_, ?_, ?_, ?_, ?_, ?_, ?_, ?_, ?_, ?_, ?_, ?_⟩
  all_goals intro s hs
  all_goals exact (refsOf_none _ s).symm

set_option maxHeartbeats 2000000 in
/-- A single operation that passes the validity guard preserves the
reference-count invariant. -/
theorem inv_applyOp (m : BT.InstrumentsManager) (op : BT.MgrOp)
    (hv : BT.validOp m op = true) (inv : BT.Inv m) :
    BT.Inv (BT.applyOp m op) := by
  cases op with
  | addInstrument n source name =>
    have hv2 : (decide (n < 0) || decide (128 ≤ n) || (m.insts n.toNat).isNone) = true := hv
    refine inv_addInstrument m n source name ?_ inv
    rcases bool_or_elim hv2 with h | h
    · rcases bool_or_elim h with h2 | h2
      · exact Or.inl (of_decide_eq_true h2)
      · exact Or.inr (Or.inl (of_decide_eq_true h2))
    · exact Or.inr (Or.inr (Option.isNone_iff_eq_none.mp h))
  | removeInstrument n =>
    have hv2 : (decide (n < 128) && (m.insts n).isSome) = true := hv
    exact inv_removeInstrument m n (of_decide_eq_true (bool_and_elim hv2).1) inv
  | cloneInstrument c r =>
    have hv2 : (decide (c < 128) && decide (r < 128) && (m.insts c).isNone &&
        (m.insts r).isSome) = true := hv
    have h := bool_and_elim hv2
    have h2 := bool_and_elim h.1
    have h3 := bool_and_elim h2.1
    exact inv_cloneInstrument m c r (of_decide_eq_true h3.1)
      (Option.isNone_iff_eq_none.mp h2.2) inv
  | deepCloneInstrument c r =>
    have hv2 : (decide (c < 128) && decide (r < 128) && (m.insts c).isNone &&
        (m.insts r).isSome && BT.deepCloneFreeOK m r) = true := hv
    have h := bool_and_elim hv2
    have h2 := bool_and_elim h.1
    have h3 := bool_and_elim h2.1
    have h4 := bool_and_elim h3.1
    exact inv_deepCloneInstrument m c r (of_decide_eq_true h4.1)
      (Option.isNone_iff_eq_none.mp h3.2) inv
  | setInstrumentFMEnvelope i e =>
    have hv2 : (BT.storedFM m i && decide (i < 128) && decide (e < 128)) = true := hv
    exact inv_setInstrumentFMEnvelope m i e (of_decide_eq_true (bool_and_elim (bool_and_elim hv2).1).2) inv
  | setInstrumentFMLFOEnabled i b =>
    have hv2 : (BT.storedFM m i && decide (i < 128)) = true := hv
    exact inv_setInstrumentFMLFOEnabled m i b (of_decide_eq_true (bool_and_elim hv2).2) inv
  | setInstrumentFMLFO i l =>
    have hv2 : (BT.storedFM m i && decide (i < 128) && decide (l < 128)) = true := hv
    exact inv_setInstrumentFMLFO m i l (of_decide_eq_true (bool_and_elim (bool_and_elim hv2).1).2) inv
  | setInstrumentFMOperatorSequenceEnabled i p b =>
    have hv2 : (BT.storedFM m i && decide (i < 128) && decide (p ∈ BT.envFMParams)) = true := hv
    exact inv_setInstrumentFMOperatorSequenceEnabled m i p b (of_decide_eq_true (bool_and_elim (bool_and_elim hv2).1).2) inv
  | setInstrumentFMOperatorSequence i p x =>
    have hv2 : (BT.storedFM m i && decide (i < 128) && decide (x < 128) && decide (p ∈ BT.envFMParams)) = true := hv
    exact inv_setInstrumentFMOperatorSequence m i p x (of_decide_eq_true (bool_and_elim (bool_and_elim (bool_and_elim hv2).1).1).2) inv
  | setInstrumentFMArpeggioEnabled i t b =>
    have hv2 : (BT.storedFM m i && decide (i < 128) && (b || BT.fmArpAliasFree m i t)) = true := hv
    exact inv_setInstrumentFMArpeggioEnabled m i t b (of_decide_eq_true (bool_and_elim (bool_and_elim hv2).1).2) (bool_and_elim hv2).2 inv
  | setInstrumentFMArpeggio i t x =>
    have hv2 : (BT.storedFM m i && decide (i < 128) && decide (x < 128) &&
        (match m.insts i with
         | some (.fm f) => !f.arpEnabled t || BT.fmArpAliasFree m i t
         | _ => false)) = true := hv
    exact inv_setInstrumentFMArpeggio m i t x (of_decide_eq_true (bool_and_elim (bool_and_elim (bool_and_elim hv2).1).1).2) (bool_and_elim hv2).2 inv
  | setInstrumentFMPitchEnabled i t b =>
    have hv2 : (BT.storedFM m i && decide (i < 128) && (b || BT.fmPtAliasFree m i t)) = true := hv
    exact inv_setInstrumentFMPitchEnabled m i t b (of_decide_eq_true (bool_and_elim (bool_and_elim hv2).1).2) (bool_and_elim hv2).2 inv
  | setInstrumentFMPitch i t x =>
    have hv2 : (BT.storedFM m i && decide (i < 128) && decide (x < 128) &&
        (match m.insts i with
         | some (.fm f) => !f.ptEnabled t || BT.fmPtAliasFree m i t
         | _ => false)) = true := hv
    exact inv_setInstrumentFMPitch m i t x (of_decide_eq_true (bool_and_elim (bool_and_elim (bool_and_elim hv2).1).1).2) (bool_and_elim hv2).2 inv
  | setInstrumentFMEnvelopeResetEnabled i t b =>
    exact inv_setInstrumentFMEnvelopeResetEnabled m i t b inv
  | setInstrumentSSGWaveformEnabled i b =>
    have hv2 : (BT.storedSSG m i && decide (i < 128)) = true := hv
    exact inv_setInstrumentSSGWaveformEnabled m i b (of_decide_eq_true (bool_and_elim hv2).2) inv
  | setInstrumentSSGWaveform i x =>
    have hv2 : (BT.storedSSG m i && decide (i < 128) && decide (x < 128)) = true := hv
    exact inv_setInstrumentSSGWaveform m i x (of_decide_eq_true (bool_and_elim (bool_and_elim hv2).1).2) inv
  | setInstrumentSSGToneNoiseEnabled i b =>
    have hv2 : (BT.storedSSG m i && decide (i < 128)) = true := hv
    exact inv_setInstrumentSSGToneNoiseEnabled m i b (of_decide_eq_true (bool_and_elim hv2).2) inv
  | setInstrumentSSGToneNoise i x =>
    have hv2 : (BT.storedSSG m i && decide (i < 128) && decide (x < 128)) = true := hv
    exact inv_setInstrumentSSGToneNoise m i x (of_decide_eq_true (bool_and_elim (bool_and_elim hv2).1).2) inv
  | setInstrumentSSGEnvelopeEnabled i b =>
    have hv2 : (BT.storedSSG m i && decide (i < 128)) = true := hv
    exact inv_setInstrumentSSGEnvelopeEnabled m i b (of_decide_eq_true (bool_and_elim hv2).2) inv
  | setInstrumentSSGEnvelope i x =>
    have hv2 : (BT.storedSSG m i && decide (i < 128) && decide (x < 128)) = true := hv
    exact inv_setInstrumentSSGEnvelope m i x (of_decide_eq_true (bool_and_elim (bool_and_elim hv2).1).2) inv
  | setInstrumentSSGArpeggioEnabled i b =>
    have hv2 : (BT.storedSSG m i && decide (i < 128)) = true := hv
    exact inv_setInstrumentSSGArpeggioEnabled m i b (of_decide_eq_true (bool_and_elim hv2).2) inv
  | setInstrumentSSGArpeggio i x =>
    have hv2 : (BT.storedSSG m i && decide (i < 128) && decide (x < 128)) = true := hv
    exact inv_setInstrumentSSGArpeggio m i x (of_decide_eq_true (bool_and_elim (bool_and_elim hv2).1).2) inv
  | setInstrumentSSGPitchEnabled i b =>
    have hv2 : (BT.storedSSG m i && decide (i < 128)) = true := hv
    exact inv_setInstrumentSSGPitchEnabled m i b (of_decide_eq_true (bool_and_elim hv2).2) inv
  | setInstrumentSSGPitch i x =>
    have hv2 : (BT.storedSSG m i && decide (i < 128) && decide (x < 128)) = true := hv
    exact inv_setInstrumentSSGPitch m i x (of_decide_eq_true (bool_and_elim (bool_and_elim hv2).1).2) inv
  | setInstrumentADPCMWaveform i x =>
    have hv2 : (BT.storedADPCM m i && decide (i < 128) && decide (x < 128)) = true := hv
    exact inv_setInstrumentADPCMWaveform m i x (of_decide_eq_true (bool_and_elim (bool_and_elim hv2).1).2) inv
  | setInstrumentADPCMEnvelopeEnabled i b =>
    have hv2 : (BT.storedADPCM m i && decide (i < 128)) = true := hv
    exact inv_setInstrumentADPCMEnvelopeEnabled m i b (of_decide_eq_true (bool_and_elim hv2).2) inv
  | setInstrumentADPCMEnvelope i x =>
    have hv2 : (BT.storedADPCM m i && decide (i < 128) && decide (x < 128)) = true := hv
    exact inv_setInstrumentADPCMEnvelope m i x (of_decide_eq_true (bool_and_elim (bool_and_elim hv2).1).2) inv
  | setInstrumentADPCMArpeggioEnabled i b =>
    have hv2 : (BT.storedADPCM m i && decide (i < 128)) = true := hv
    exact inv_setInstrumentADPCMArpeggioEnabled m i b (of_decide_eq_true (bool_and_elim hv2).2) inv
  | setInstrumentADPCMArpeggio i x =>
    have hv2 : (BT.storedADPCM m i && decide (i < 128) && decide (x < 128)) = true := hv
    exact inv_setInstrumentADPCMArpeggio m i x (of_decide_eq_true (bool_and_elim (bool_and_elim hv2).1).2) inv
  | setInstrumentADPCMPitchEnabled i b =>
    have hv2 : (BT.storedADPCM m i && decide (i < 128)) = true := hv
    exact inv_setInstrumentADPCMPitchEnabled m i b (of_decide_eq_true (bool_and_elim hv2).2) inv
  | setInstrumentADPCMPitch i x =>
    have hv2 : (BT.storedADPCM m i && decide (i < 128) && decide (x < 128)) = true := hv
    exact inv_setInstrumentADPCMPitch m i x (of_decide_eq_true (bool_and_elim (bool_and_elim hv2).1).2) inv
  | setEnvelopeFMParameter e p v =>
    exact inv_setEnvelopeFMParameter m e p v inv
  | setEnvelopeFMOperatorEnabled e o b =>
    exact inv_setEnvelopeFMOperatorEnabled m e o b inv
  | addArpeggioFMSequenceCommand a ty dt =>
    exact inv_addArpeggioFMSequenceCommand m a ty dt inv
  | setWaveformADPCMRootKeyNumber w v =>
    exact inv_setWaveformADPCMRootKeyNumber m w v inv

/-- A valid operation sequence preserves the reference-count invariant. -/
theorem inv_applyOps : ∀ (l : List BT.MgrOp) (m : BT.InstrumentsManager),
    BT.ValidSeq m l = true → BT.Inv m → BT.Inv (BT.applyOps m l) := by
  intro l
  induction l with
  | nil => intro m _ h; exact h
  | cons op l ih =>
    intro m hv h
    have hv2 : (BT.validOp m op && BT.ValidSeq (BT.applyOp m op) l) = true := hv
    have h2 := bool_and_elim hv2
    show BT.Inv ((op :: l).foldl BT.applyOp m)
    rw [List.foldl_cons]
    exact ih (BT.applyOp m op) h2.2 (inv_applyOp m op h2.1 h)

/-- **C1** (corrected). Reference-count invariant: starting from the cleared
manager, after any sequence of add/remove/clone/deep-clone and property
set/enable operations in which each step passes its per-operation validity
guard (`validOp`: targets stored and in range, and an FM arpeggio or pitch
deregistration never touches a slot that another enabled operator type of
the same instrument still points at), every slot of every 128-entry
property pool holds exactly the numbers of the stored instruments pointing
at it. Over arbitrary sequences the claim fails: an aliased FM arpeggio
disable removes the reference of a still-pointing instrument
(see the counterexample). -/
theorem C1_refcount_invariant (u : Bool) (l : List BT.MgrOp)
    (h : BT.ValidSeq (BT.InstrumentsManager.mkInit u) l = true) :
    BT.Inv (BT.applyOps (BT.InstrumentsManager.mkInit u) l) :=
  inv_applyOps l (BT.InstrumentsManager.mkInit u) h (inv_mkInit u)

set_option maxRecDepth 40000 in
/-- Witness for C1: a concrete valid four-operation sequence (add an FM
instrument, enable its All-operator arpeggio, disable it again, remove the
instrument) satisfies the validity hypothesis, and the theorem applies. -/
theorem C1_witness :
    BT.ValidSeq (BT.InstrumentsManager.mkInit true)
      [.addInstrument 0 .FM "a",
       .setInstrumentFMArpeggioEnabled 0 .All true,
       .setInstrumentFMArpeggioEnabled 0 .All false,
       .removeInstrument 0] = true ∧
    BT.Inv (BT.applyOps (BT.InstrumentsManager.mkInit true)
      [.addInstrument 0 .FM "a",
       .setInstrumentFMArpeggioEnabled 0 .All true,
       .setInstrumentFMArpeggioEnabled 0 .All false,
       .removeInstrument 0]) :=
  ⟨by decide, C1_refcount_invariant true
    [.addInstrument 0 .FM "a",
     .setInstrumentFMArpeggioEnabled 0 .All true,
     .setInstrumentFMArpeggioEnabled 0 .All false,
     .removeInstrument 0] (by decide)⟩

set_option maxRecDepth 40000 in
/-- Counterexample for C1 as originally stated (over arbitrary operation
sequences): a fresh FM instrument's four operator types share one default
arpeggio number, so after enabling the All-operator arpeggio, disabling the
never-enabled Op1 arpeggio deregisters the shared slot, leaving an empty
reference set while the stored instrument still has an enabled arpeggio
pointing at that slot. -/
theorem C1_counterexample :
    ¬ BT.Inv (BT.applyOps (BT.InstrumentsManager.mkInit true)
      [.addInstrument 0 .FM "a",
       .setInstrumentFMArpeggioEnabled 0 .All true,
       .setInstrumentFMArpeggioEnabled 0 .Op1 false]) := by
  intro h
  have h0 := h.arpFM 0 (by decide)
  exact absurd h0 (by decide)
/-- The reference-set map of a pool. -/
def usersOf {π : Type} (pool : BT.Pool π) : Nat → Finset ℕ := fun s => (pool s).users

/-- How a deep clone changes reference sets: each in-range slot either keeps
its reference set or was free and now carries at most the clone's number. -/
def GrowsFresh (c : ℕ) (u0 u1 : Nat → Finset ℕ) : Prop :=
  ∀ s, s < 128 → u1 s = u0 s ∨ (u0 s = ∅ ∧ u1 s ⊆ {c})

theorem gf_refl (c : ℕ) (u : Nat → Finset ℕ) : GrowsFresh c u u :=
  fun s _ => Or.inl rfl

theorem gf_of_eq {c : ℕ} {u0 u1 : Nat → Finset ℕ}
    (h : ∀ s, s < 128 → u1 s = u0 s) : GrowsFresh c u0 u1 :=
  fun s hs => Or.inl (h s hs)

theorem gf_trans {c : ℕ} {u0 u1 u2 : Nat → Finset ℕ}
    (h1 : GrowsFresh c u0 u1) (h2 : GrowsFresh c u1 u2) : GrowsFresh c u0 u2 := by
  intro s hs
  rcases h1 s hs with e1 | ⟨z1, s1⟩
  · rcases h2 s hs with e2 | ⟨z2, s2⟩
    · exact Or.inl (e2.trans e1)
    · exact Or.inr ⟨e1.symm.trans z2, s2⟩
  · rcases h2 s hs with e2 | ⟨z2, s2⟩
    · exact Or.inr ⟨z1, e2 ▸ s1⟩
    · exact Or.inr ⟨z1, s2⟩

/-- A slot tracked as grown-from-free is free in the base map once it is
observed empty. -/
theorem gf_empty {c : ℕ} {u0 u1 : Nat → Finset ℕ} (h : GrowsFresh c u0 u1)
    {x : Nat} (hx : x < 128) (he : u1 x = ∅) : u0 x = ∅ := by
  rcases h x hx with e | ⟨z, _⟩
  · exact e.symm.trans he
  · exact z

/-- Registering the clone at a base-free slot preserves the growth relation. -/
theorem gf_register_inv {π : Type} {c : ℕ} {u0 : Nat → Finset ℕ}
    {pool : BT.Pool π} {x : Nat}
    (h : GrowsFresh c u0 (usersOf pool)) (hx : x < 128 → u0 x = ∅) :
    GrowsFresh c u0 (usersOf (pool.registerUser x c)) := by
  intro s hs
  by_cases hsx : s = x
  · subst hsx
    right
    refine ⟨hx hs, ?_⟩
    have hins : usersOf (pool.registerUser s c) s = insert c ((pool s).users) := by
      show (Function.update pool s ⟨(pool s).payload, insert c ((pool s).users)⟩ s).users =
        insert c ((pool s).users)
      rw [Function.update_same]
    rw [hins]
    rcases h s hs with e | ⟨_, sub⟩
    · rw [show (pool s).users = u0 s from e, hx hs]
      exact Finset.Subset.refl _
    · exact Finset.insert_subset_iff.mpr ⟨Finset.mem_singleton_self c, sub⟩
  · have : usersOf (pool.registerUser x c) s = usersOf pool s := by
      show (Function.update pool x ⟨(pool x).payload, insert c ((pool x).users)⟩ s).users =
        (pool s).users
      rw [Function.update_noteq hsx]
    rw [this]
    exact h s hs

/-- The fresh-slot scan of `cloneProp` either fails (index 128) or picks an
in-range slot with an empty reference set. -/
theorem cloneProp_pick_free {π : Type} (pool : BT.Pool π) (a : Nat) :
    128 ≤ (pool.cloneProp a).1 ∨
      ((pool.cloneProp a).1 < 128 ∧ (pool ((pool.cloneProp a).1)).users = ∅) := by
  unfold BT.Pool.cloneProp
  cases h : (List.range 128).find? (fun s => !(pool s).isUserInstrument) with
  | none => exact Or.inl (le_refl 128)
  | some k =>
    right
    constructor
    · exact List.mem_range.mp (List.mem_of_find?_eq_some h)
    · have h2 := List.find?_some h
      simpa [BT.Slot.isUserInstrument] using h2

/-- Two distinct slots of any pool are payload-independent. -/
theorem slotIndependent_of_ne {π : Type} (pool : BT.Pool π) {x y : Nat}
    (h : x ≠ y) : BT.SlotIndependent pool x y := by
  refine ⟨h, fun f => ?_, fun f => ?_⟩
  · show (Function.update pool x ⟨f (pool x).payload, (pool x).users⟩ y).payload =
      (pool y).payload
    rw [Function.update_noteq (fun he => h he.symm)]
  · show (Function.update pool y ⟨f (pool y).payload, (pool y).users⟩ x).payload =
      (pool x).payload
    rw [Function.update_noteq h]

theorem dedupFirst_aux : ∀ (l acc : List Nat) (a : Nat), a ∈ acc ∨ a ∈ l →
    a ∈ l.foldl (fun acc a => if a ∈ acc then acc else acc ++ [a]) acc := by
  intro l
  induction l with
  | nil =>
    intro acc a h
    rcases h with h | h
    · exact h
    · exact absurd h (List.not_mem_nil a)
  | cons b l ih =>
    intro acc a h
    rw [List.foldl_cons]
    apply ih
    rcases h with h | h
    · left
      by_cases hb : b ∈ acc
      · rw [if_pos hb]; exact h
      · rw [if_neg hb]; exact List.mem_append_left _ h
    · rcases List.mem_cons.mp h with he | h2
      · left
        subst he
        by_cases hb : a ∈ acc
        · rw [if_pos hb]; exact hb
        · rw [if_neg hb]
          exact List.mem_append_right _ (List.mem_singleton.mpr rfl)
      · exact Or.inr h2

/-- Every element of a list survives into its first-occurrence dedup. -/
theorem dedupFirst_mem {a : Nat} {l : List Nat} (h : a ∈ l) :
    a ∈ BT.InstrumentsManager.dedupFirst l :=
  dedupFirst_aux l [] a (Or.inr h)

/-- The four independence properties of one pool of a deep clone, derived
from the growth relation and the invariant on both sides. -/
theorem C5family {π : Type} {pool0 poolM : BT.Pool π}
    {insts0 instsM : Nat → Option BT.AbstractInstrument}
    {points : BT.AbstractInstrument → Nat → Bool} {c r : Nat} (hc : c < 128)
    (hgf : GrowsFresh c (usersOf pool0) (usersOf poolM))
    (hsync0 : BT.PoolSync pool0 insts0 points) (hnone : insts0 c = none)
    (hsyncM : BT.PoolSync poolM instsM points) (hrc : r ≠ c) :
    (∀ s, s < 128 → (r ∈ (poolM s).users ↔ r ∈ (pool0 s).users)) ∧
    (∀ s, s < 128 → c ∈ (poolM s).users →
      (pool0 s).users = ∅ ∧ r ∉ (poolM s).users) ∧
    (∀ x y, x < 128 → y < 128 → c ∈ (poolM x).users → r ∈ (poolM y).users →
      BT.SlotIndependent poolM x y) ∧
    (∀ s, s < 128 → (c ∈ (poolM s).users ↔
      ((instsM c).elim false (fun a => points a s)) = true)) := by
  have hcnm : ∀ s, s < 128 → c ∉ (pool0 s).users := not_mem_users_of_none hsync0 hnone
  have hr : ∀ s, s < 128 → (r ∈ (poolM s).users ↔ r ∈ (pool0 s).users) := by
    intro s hs
    rcases hgf s hs with e | ⟨z, sub⟩
    · rw [show (poolM s).users = (pool0 s).users from e]
    · constructor
      · intro hm
        exact absurd (Finset.mem_singleton.mp (sub hm)) hrc
      · intro hm
        rw [show (pool0 s).users = ∅ from z] at hm
        exact absurd hm (Finset.not_mem_empty r)
  have hcf : ∀ s, s < 128 → c ∈ (poolM s).users →
      (pool0 s).users = ∅ ∧ r ∉ (poolM s).users := by
    intro s hs hcm
    rcases hgf s hs with e | ⟨z, sub⟩
    · rw [show (poolM s).users = (pool0 s).users from e] at hcm
      exact absurd hcm (hcnm s hs)
    · refine ⟨z, fun hrm => ?_⟩
      exact absurd (Finset.mem_singleton.mp (sub hrm)) hrc
  refine ⟨hr, hcf, ?_, ?_⟩
  · intro x y hx hy hcx hry
    refine slotIndependent_of_ne poolM (fun he => ?_)
    exact (hcf x hx hcx).2 (he ▸ hry)
  · intro s hs
    constructor
    · intro hm
      rw [hsyncM s hs] at hm
      exact (mem_refsOf.mp hm).2
    · intro hp
      rw [hsyncM s hs]
      exact mem_refsOf.mpr ⟨hc, hp⟩

/-- The independence properties in the degenerate case where the deep clone
left the manager unchanged. -/
theorem C5family_id {π : Type} {pool0 : BT.Pool π}
    {insts0 : Nat → Option BT.AbstractInstrument}
    {points : BT.AbstractInstrument → Nat → Bool} {c : Nat} (r : Nat) (hc : c < 128)
    (hsync0 : BT.PoolSync pool0 insts0 points) (hnone : insts0 c = none) :
    (∀ s, s < 128 → (r ∈ (pool0 s).users ↔ r ∈ (pool0 s).users)) ∧
    (∀ s, s < 128 → c ∈ (pool0 s).users →
      (pool0 s).users = ∅ ∧ r ∉ (pool0 s).users) ∧
    (∀ x y, x < 128 → y < 128 → c ∈ (pool0 x).users → r ∈ (pool0 y).users →
      BT.SlotIndependent pool0 x y) ∧
    (∀ s, s < 128 → (c ∈ (pool0 s).users ↔
      ((insts0 c).elim false (fun a => points a s)) = true)) := by
  have hcnm : ∀ s, s < 128 → c ∉ (pool0 s).users := not_mem_users_of_none hsync0 hnone
  refine ⟨fun s hs => Iff.rfl, ?_, ?_, ?_⟩
  · intro s hs hcm
    exact absurd hcm (hcnm s hs)
  · intro x y hx hy hcx hry
    exact absurd hcx (hcnm x hx)
  · intro s hs
    constructor
    · intro hm
      exact absurd hm (hcnm s hs)
    · intro hp
      rw [hnone] at hp
      exact absurd hp (by simp)
theorem dcFMm3p_lfoFM (m0 : BT.InstrumentsManager) (f0 refFm : BT.InstrumentFM) (c : Nat) :
    (BT.dcFMm3 m0 f0 refFm c).lfoFM = m0.lfoFM :=
  updateFM_lfoFM (BT.dcFMre m0 f0 refFm c).2 c (fun f => { f with envelopeNumber := (BT.dcFMre m0 f0 refFm c).1 })

theorem dcFMm3p_opSeqFM (m0 : BT.InstrumentsManager) (f0 refFm : BT.InstrumentFM) (c : Nat) :
    (BT.dcFMm3 m0 f0 refFm c).opSeqFM = m0.opSeqFM :=
  updateFM_opSeqFM (BT.dcFMre m0 f0 refFm c).2 c (fun f => { f with envelopeNumber := (BT.dcFMre m0 f0 refFm c).1 })

theorem dcFMm3p_arpFM (m0 : BT.InstrumentsManager) (f0 refFm : BT.InstrumentFM) (c : Nat) :
    (BT.dcFMm3 m0 f0 refFm c).arpFM = m0.arpFM :=
  updateFM_arpFM (BT.dcFMre m0 f0 refFm c).2 c (fun f => { f with envelopeNumber := (BT.dcFMre m0 f0 refFm c).1 })

theorem dcFMm3p_ptFM (m0 : BT.InstrumentsManager) (f0 refFm : BT.InstrumentFM) (c : Nat) :
    (BT.dcFMm3 m0 f0 refFm c).ptFM = m0.ptFM :=
  updateFM_ptFM (BT.dcFMre m0 f0 refFm c).2 c (fun f => { f with envelopeNumber := (BT.dcFMre m0 f0 refFm c).1 })

theorem dcFMm3p_wfSSG (m0 : BT.InstrumentsManager) (f0 refFm : BT.InstrumentFM) (c : Nat) :
    (BT.dcFMm3 m0 f0 refFm c).wfSSG = m0.wfSSG :=
  updateFM_wfSSG (BT.dcFMre m0 f0 refFm c).2 c (fun f => { f with envelopeNumber := (BT.dcFMre m0 f0 refFm c).1 })

theorem dcFMm3p_tnSSG (m0 : BT.InstrumentsManager) (f0 refFm : BT.InstrumentFM) (c : Nat) :
    (BT.dcFMm3 m0 f0 refFm c).tnSSG = m0.tnSSG :=
  updateFM_tnSSG (BT.dcFMre m0 f0 refFm c).2 c (fun f => { f with envelopeNumber := (BT.dcFMre m0 f0 refFm c).1 })

theorem dcFMm3p_envSSG (m0 : BT.InstrumentsManager) (f0 refFm : BT.InstrumentFM) (c : Nat) :
    (BT.dcFMm3 m0 f0 refFm c).envSSG = m0.envSSG :=
  updateFM_envSSG (BT.dcFMre m0 f0 refFm c).2 c (fun f => { f with envelopeNumber := (BT.dcFMre m0 f0 refFm c).1 })

theorem dcFMm3p_arpSSG (m0 : BT.InstrumentsManager) (f0 refFm : BT.InstrumentFM) (c : Nat) :
    (BT.dcFMm3 m0 f0 refFm c).arpSSG = m0.arpSSG :=
  updateFM_arpSSG (BT.dcFMre m0 f0 refFm c).2 c (fun f => { f with envelopeNumber := (BT.dcFMre m0 f0 refFm c).1 })

theorem dcFMm3p_ptSSG (m0 : BT.InstrumentsManager) (f0 refFm : BT.InstrumentFM) (c : Nat) :
    (BT.dcFMm3 m0 f0 refFm c).ptSSG = m0.ptSSG :=
  updateFM_ptSSG (BT.dcFMre m0 f0 refFm c).2 c (fun f => { f with envelopeNumber := (BT.dcFMre m0 f0 refFm c).1 })

theorem dcFMm3p_wfADPCM (m0 : BT.InstrumentsManager) (f0 refFm : BT.InstrumentFM) (c : Nat) :
    (BT.dcFMm3 m0 f0 refFm c).wfADPCM = m0.wfADPCM :=
  updateFM_wfADPCM (BT.dcFMre m0 f0 refFm c).2 c (fun f => { f with envelopeNumber := (BT.dcFMre m0 f0 refFm c).1 })

theorem dcFMm3p_envADPCM (m0 : BT.InstrumentsManager) (f0 refFm : BT.InstrumentFM) (c : Nat) :
    (BT.dcFMm3 m0 f0 refFm c).envADPCM = m0.envADPCM :=
  updateFM_envADPCM (BT.dcFMre m0 f0 refFm c).2 c (fun f => { f with envelopeNumber := (BT.dcFMre m0 f0 refFm c).1 })

theorem dcFMm3p_arpADPCM (m0 : BT.InstrumentsManager) (f0 refFm : BT.InstrumentFM) (c : Nat) :
    (BT.dcFMm3 m0 f0 refFm c).arpADPCM = m0.arpADPCM :=
  updateFM_arpADPCM (BT.dcFMre m0 f0 refFm c).2 c (fun f => { f with envelopeNumber := (BT.dcFMre m0 f0 refFm c).1 })

theorem dcFMm3p_ptADPCM (m0 : BT.InstrumentsManager) (f0 refFm : BT.InstrumentFM) (c : Nat) :
    (BT.dcFMm3 m0 f0 refFm c).ptADPCM = m0.ptADPCM :=
  updateFM_ptADPCM (BT.dcFMre m0 f0 refFm c).2 c (fun f => { f with envelopeNumber := (BT.dcFMre m0 f0 refFm c).1 })

/-- The envelope repoint stage registers the clone only at the fresh slot. -/
theorem gf_dcFMm3_envFM (m0 : BT.InstrumentsManager) (f0 refFm : BT.InstrumentFM) (c : Nat) :
    GrowsFresh c (usersOf (BT.dcFMm1 m0 f0 c).envFM)
      (usersOf (BT.dcFMm3 m0 f0 refFm c).envFM) := by
  have hu2 : ∀ s, ((BT.dcFMm2 m0 f0 refFm c).envFM s).users =
      ((BT.dcFMm1 m0 f0 c).envFM s).users := by
    intro s
    rw [show (BT.dcFMm2 m0 f0 refFm c).envFM = (BT.dcFMre m0 f0 refFm c).2.envFM from
      updateFM_envFM (BT.dcFMre m0 f0 refFm c).2 c (fun f => { f with envelopeNumber := (BT.dcFMre m0 f0 refFm c).1 })]
    exact users_cloneProp ((BT.dcFMm1 m0 f0 c).envFM) refFm.envelopeNumber s
  have hpool : (BT.dcFMm3 m0 f0 refFm c).envFM =
      ((BT.dcFMm2 m0 f0 refFm c).envFM).registerUser (BT.dcFMre m0 f0 refFm c).1 c := rfl
  rw [hpool]
  refine gf_register_inv (gf_of_eq (fun s hs => hu2 s)) ?_
  intro h1
  rcases cloneProp_pick_free ((BT.dcFMm1 m0 f0 c).envFM) refFm.envelopeNumber with h | ⟨h2, h3⟩
  · exact absurd h1 (not_lt.mpr h)
  · exact h3

theorem dcFMm4p_envFM (m0 : BT.InstrumentsManager) (f0 refFm : BT.InstrumentFM) (c : Nat) :
    (BT.dcFMm4 m0 f0 refFm c).envFM = (BT.dcFMm3 m0 f0 refFm c).envFM := by
  by_cases hb : refFm.lfoEnabled = true
  · unfold BT.dcFMm4
    rw [if_pos hb]
    show ((BT.InstrumentsManager.updateFM ((BT.InstrumentsManager.updateFM (BT.dcFMm3 m0 f0 refFm c) c (fun f => { f with lfoEnabled := true })).cloneFMLFO refFm.lfoNumber).2 c (fun f => { f with lfoNumber := ((BT.InstrumentsManager.updateFM (BT.dcFMm3 m0 f0 refFm c) c (fun f => { f with lfoEnabled := true })).cloneFMLFO refFm.lfoNumber).1 }))).envFM = (BT.dcFMm3 m0 f0 refFm c).envFM
    rw [updateFM_envFM ((BT.InstrumentsManager.updateFM (BT.dcFMm3 m0 f0 refFm c) c (fun f => { f with lfoEnabled := true })).cloneFMLFO refFm.lfoNumber).2 c (fun f => { f with lfoNumber := ((BT.InstrumentsManager.updateFM (BT.dcFMm3 m0 f0 refFm c) c (fun f => { f with lfoEnabled := true })).cloneFMLFO refFm.lfoNumber).1 })]
    show ((BT.InstrumentsManager.updateFM (BT.dcFMm3 m0 f0 refFm c) c (fun f => { f with lfoEnabled := true }))).envFM = (BT.dcFMm3 m0 f0 refFm c).envFM
    exact updateFM_envFM (BT.dcFMm3 m0 f0 refFm c) c (fun f => { f with lfoEnabled := true })
  · unfold BT.dcFMm4
    rw [if_neg hb]

theorem dcFMm4p_opSeqFM (m0 : BT.InstrumentsManager) (f0 refFm : BT.InstrumentFM) (c : Nat) :
    (BT.dcFMm4 m0 f0 refFm c).opSeqFM = (BT.dcFMm3 m0 f0 refFm c).opSeqFM := by
  by_cases hb : refFm.lfoEnabled = true
  · unfold BT.dcFMm4
    rw [if_pos hb]
    show ((BT.InstrumentsManager.updateFM ((BT.InstrumentsManager.updateFM (BT.dcFMm3 m0 f0 refFm c) c (fun f => { f with lfoEnabled := true })).cloneFMLFO refFm.lfoNumber).2 c (fun f => { f with lfoNumber := ((BT.InstrumentsManager.updateFM (BT.dcFMm3 m0 f0 refFm c) c (fun f => { f with lfoEnabled := true })).cloneFMLFO refFm.lfoNumber).1 }))).opSeqFM = (BT.dcFMm3 m0 f0 refFm c).opSeqFM
    rw [updateFM_opSeqFM ((BT.InstrumentsManager.updateFM (BT.dcFMm3 m0 f0 refFm c) c (fun f => { f with lfoEnabled := true })).cloneFMLFO refFm.lfoNumber).2 c (fun f => { f with lfoNumber := ((BT.InstrumentsManager.updateFM (BT.dcFMm3 m0 f0 refFm c) c (fun f => { f with lfoEnabled := true })).cloneFMLFO refFm.lfoNumber).1 })]
    show ((BT.InstrumentsManager.updateFM (BT.dcFMm3 m0 f0 refFm c) c (fun f => { f with lfoEnabled := true }))).opSeqFM = (BT.dcFMm3 m0 f0 refFm c).opSeqFM
    exact updateFM_opSeqFM (BT.dcFMm3 m0 f0 refFm c) c (fun f => { f with lfoEnabled := true })
  · unfold BT.dcFMm4
    rw [if_neg hb]

theorem dcFMm4p_arpFM (m0 : BT.InstrumentsManager) (f0 refFm : BT.InstrumentFM) (c : Nat) :
    (BT.dcFMm4 m0 f0 refFm c).arpFM = (BT.dcFMm3 m0 f0 refFm c).arpFM := by
  by_cases hb : refFm.lfoEnabled = true
  · unfold BT.dcFMm4
    rw [if_pos hb]
    show ((BT.InstrumentsManager.updateFM ((BT.InstrumentsManager.updateFM (BT.dcFMm3 m0 f0 refFm c) c (fun f => { f with lfoEnabled := true })).cloneFMLFO refFm.lfoNumber).2 c (fun f => { f with lfoNumber := ((BT.InstrumentsManager.updateFM (BT.dcFMm3 m0 f0 refFm c) c (fun f => { f with lfoEnabled := true })).cloneFMLFO refFm.lfoNumber).1 }))).arpFM = (BT.dcFMm3 m0 f0 refFm c).arpFM
    rw [updateFM_arpFM ((BT.InstrumentsManager.updateFM (BT.dcFMm3 m0 f0 refFm c) c (fun f => { f with lfoEnabled := true })).cloneFMLFO refFm.lfoNumber).2 c (fun f => { f with lfoNumber := ((BT.InstrumentsManager.updateFM (BT.dcFMm3 m0 f0 refFm c) c (fun f => { f with lfoEnabled := true })).cloneFMLFO refFm.lfoNumber).1 })]
    show ((BT.InstrumentsManager.updateFM (BT.dcFMm3 m0 f0 refFm c) c (fun f => { f with lfoEnabled := true }))).arpFM = (BT.dcFMm3 m0 f0 refFm c).arpFM
    exact updateFM_arpFM (BT.dcFMm3 m0 f0 refFm c) c (fun f => { f with lfoEnabled := true })
  · unfold BT.dcFMm4
    rw [if_neg hb]

theorem dcFMm4p_ptFM (m0 : BT.InstrumentsManager) (f0 refFm : BT.InstrumentFM) (c : Nat) :
    (BT.dcFMm4 m0 f0 refFm c).ptFM = (BT.dcFMm3 m0 f0 refFm c).ptFM := by
  by_cases hb : refFm.lfoEnabled = true
  · unfold BT.dcFMm4
    rw [if_pos hb]
    show ((BT.InstrumentsManager.updateFM ((BT.InstrumentsManager.updateFM (BT.dcFMm3 m0 f0 refFm c) c (fun f => { f with lfoEnabled := true })).cloneFMLFO refFm.lfoNumber).2 c (fun f => { f with lfoNumber := ((BT.InstrumentsManager.updateFM (BT.dcFMm3 m0 f0 refFm c) c (fun f => { f with lfoEnabled := true })).cloneFMLFO refFm.lfoNumber).1 }))).ptFM = (BT.dcFMm3 m0 f0 refFm c).ptFM
    rw [updateFM_ptFM ((BT.InstrumentsManager.updateFM (BT.dcFMm3 m0 f0 refFm c) c (fun f => { f with lfoEnabled := true })).cloneFMLFO refFm.lfoNumber).2 c (fun f => { f with lfoNumber := ((BT.InstrumentsManager.updateFM (BT.dcFMm3 m0 f0 refFm c) c (fun f => { f with lfoEnabled := true })).cloneFMLFO refFm.lfoNumber).1 })]
    show ((BT.InstrumentsManager.updateFM (BT.dcFMm3 m0 f0 refFm c) c (fun f => { f with lfoEnabled := true }))).ptFM = (BT.dcFMm3 m0 f0 refFm c).ptFM
    exact updateFM_ptFM (BT.dcFMm3 m0 f0 refFm c) c (fun f => { f with lfoEnabled := true })
  · unfold BT.dcFMm4
    rw [if_neg hb]

theorem dcFMm4p_wfSSG (m0 : BT.InstrumentsManager) (f0 refFm : BT.InstrumentFM) (c : Nat) :
    (BT.dcFMm4 m0 f0 refFm c).wfSSG = (BT.dcFMm3 m0 f0 refFm c).wfSSG := by
  by_cases hb : refFm.lfoEnabled = true
  · unfold BT.dcFMm4
    rw [if_pos hb]
    show ((BT.InstrumentsManager.updateFM ((BT.InstrumentsManager.updateFM (BT.dcFMm3 m0 f0 refFm c) c (fun f => { f with lfoEnabled := true })).cloneFMLFO refFm.lfoNumber).2 c (fun f => { f with lfoNumber := ((BT.InstrumentsManager.updateFM (BT.dcFMm3 m0 f0 refFm c) c (fun f => { f with lfoEnabled := true })).cloneFMLFO refFm.lfoNumber).1 }))).wfSSG = (BT.dcFMm3 m0 f0 refFm c).wfSSG
    rw [updateFM_wfSSG ((BT.InstrumentsManager.updateFM (BT.dcFMm3 m0 f0 refFm c) c (fun f => { f with lfoEnabled := true })).cloneFMLFO refFm.lfoNumber).2 c (fun f => { f with lfoNumber := ((BT.InstrumentsManager.updateFM (BT.dcFMm3 m0 f0 refFm c) c (fun f => { f with lfoEnabled := true })).cloneFMLFO refFm.lfoNumber).1 })]
    show ((BT.InstrumentsManager.updateFM (BT.dcFMm3 m0 f0 refFm c) c (fun f => { f with lfoEnabled := true }))).wfSSG = (BT.dcFMm3 m0 f0 refFm c).wfSSG
    exact updateFM_wfSSG (BT.dcFMm3 m0 f0 refFm c) c (fun f => { f with lfoEnabled := true })
  · unfold BT.dcFMm4
    rw [if_neg hb]

theorem dcFMm4p_tnSSG (m0 : BT.InstrumentsManager) (f0 refFm : BT.InstrumentFM) (c : Nat) :
    (BT.dcFMm4 m0 f0 refFm c).tnSSG = (BT.dcFMm3 m0 f0 refFm c).tnSSG := by
  by_cases hb : refFm.lfoEnabled = true
  · unfold BT.dcFMm4
    rw [if_pos hb]
    show ((BT.InstrumentsManager.updateFM ((BT.InstrumentsManager.updateFM (BT.dcFMm3 m0 f0 refFm c) c (fun f => { f with lfoEnabled := true })).cloneFMLFO refFm.lfoNumber).2 c (fun f => { f with lfoNumber := ((BT.InstrumentsManager.updateFM (BT.dcFMm3 m0 f0 refFm c) c (fun f => { f with lfoEnabled := true })).cloneFMLFO refFm.lfoNumber).1 }))).tnSSG = (BT.dcFMm3 m0 f0 refFm c).tnSSG
    rw [updateFM_tnSSG ((BT.InstrumentsManager.updateFM (BT.dcFMm3 m0 f0 refFm c) c (fun f => { f with lfoEnabled := true })).cloneFMLFO refFm.lfoNumber).2 c (fun f => { f with lfoNumber := ((BT.InstrumentsManager.updateFM (BT.dcFMm3 m0 f0 refFm c) c (fun f => { f with lfoEnabled := true })).cloneFMLFO refFm.lfoNumber).1 })]
    show ((BT.InstrumentsManager.updateFM (BT.dcFMm3 m0 f0 refFm c) c (fun f => { f with lfoEnabled := true }))).tnSSG = (BT.dcFMm3 m0 f0 refFm c).tnSSG
    exact updateFM_tnSSG (BT.dcFMm3 m0 f0 refFm c) c (fun f => { f with lfoEnabled := true })
  · unfold BT.dcFMm4
    rw [if_neg hb]

theorem dcFMm4p_envSSG (m0 : BT.InstrumentsManager) (f0 refFm : BT.InstrumentFM) (c : Nat) :
    (BT.dcFMm4 m0 f0 refFm c).envSSG = (BT.dcFMm3 m0 f0 refFm c).envSSG := by
  by_cases hb : refFm.lfoEnabled = true
  · unfold BT.dcFMm4
    rw [if_pos hb]
    show ((BT.InstrumentsManager.updateFM ((BT.InstrumentsManager.updateFM (BT.dcFMm3 m0 f0 refFm c) c (fun f => { f with lfoEnabled := true })).cloneFMLFO refFm.lfoNumber).2 c (fun f => { f with lfoNumber := ((BT.InstrumentsManager.updateFM (BT.dcFMm3 m0 f0 refFm c) c (fun f => { f with lfoEnabled := true })).cloneFMLFO refFm.lfoNumber).1 }))).envSSG = (BT.dcFMm3 m0 f0 refFm c).envSSG
    rw [updateFM_envSSG ((BT.InstrumentsManager.updateFM (BT.dcFMm3 m0 f0 refFm c) c (fun f => { f with lfoEnabled := true })).cloneFMLFO refFm.lfoNumber).2 c (fun f => { f with lfoNumber := ((BT.InstrumentsManager.updateFM (BT.dcFMm3 m0 f0 refFm c) c (fun f => { f with lfoEnabled := true })).cloneFMLFO refFm.lfoNumber).1 })]
    show ((BT.InstrumentsManager.updateFM (BT.dcFMm3 m0 f0 refFm c) c (fun f => { f with lfoEnabled := true }))).envSSG = (BT.dcFMm3 m0 f0 refFm c).envSSG
    exact updateFM_envSSG (BT.dcFMm3 m0 f0 refFm c) c (fun f => { f with lfoEnabled := true })
  · unfold BT.dcFMm4
    rw [if_neg hb]

theorem dcFMm4p_arpSSG (m0 : BT.InstrumentsManager) (f0 refFm : BT.InstrumentFM) (c : Nat) :
    (BT.dcFMm4 m0 f0 refFm c).arpSSG = (BT.dcFMm3 m0 f0 refFm c).arpSSG := by
  by_cases hb : refFm.lfoEnabled = true
  · unfold BT.dcFMm4
    rw [if_pos hb]
    show ((BT.InstrumentsManager.updateFM ((BT.InstrumentsManager.updateFM (BT.dcFMm3 m0 f0 refFm c) c (fun f => { f with lfoEnabled := true })).cloneFMLFO refFm.lfoNumber).2 c (fun f => { f with lfoNumber := ((BT.InstrumentsManager.updateFM (BT.dcFMm3 m0 f0 refFm c) c (fun f => { f with lfoEnabled := true })).cloneFMLFO refFm.lfoNumber).1 }))).arpSSG = (BT.dcFMm3 m0 f0 refFm c).arpSSG
    rw [updateFM_arpSSG ((BT.InstrumentsManager.updateFM (BT.dcFMm3 m0 f0 refFm c) c (fun f => { f with lfoEnabled := true })).cloneFMLFO refFm.lfoNumber).2 c (fun f => { f with lfoNumber := ((BT.InstrumentsManager.updateFM (BT.dcFMm3 m0 f0 refFm c) c (fun f => { f with lfoEnabled := true })).cloneFMLFO refFm.lfoNumber).1 })]
    show ((BT.InstrumentsManager.updateFM (BT.dcFMm3 m0 f0 refFm c) c (fun f => { f with lfoEnabled := true }))).arpSSG = (BT.dcFMm3 m0 f0 refFm c).arpSSG
    exact updateFM_arpSSG (BT.dcFMm3 m0 f0 refFm c) c (fun f => { f with lfoEnabled := true })
  · unfold BT.dcFMm4
    rw [if_neg hb]

theorem dcFMm4p_ptSSG (m0 : BT.InstrumentsManager) (f0 refFm : BT.InstrumentFM) (c : Nat) :
    (BT.dcFMm4 m0 f0 refFm c).ptSSG = (BT.dcFMm3 m0 f0 refFm c).ptSSG := by
  by_cases hb : refFm.lfoEnabled = true
  · unfold BT.dcFMm4
    rw [if_pos hb]
    show ((BT.InstrumentsManager.updateFM ((BT.InstrumentsManager.updateFM (BT.dcFMm3 m0 f0 refFm c) c (fun f => { f with lfoEnabled := true })).cloneFMLFO refFm.lfoNumber).2 c (fun f => { f with lfoNumber := ((BT.InstrumentsManager.updateFM (BT.dcFMm3 m0 f0 refFm c) c (fun f => { f with lfoEnabled := true })).cloneFMLFO refFm.lfoNumber).1 }))).ptSSG = (BT.dcFMm3 m0 f0 refFm c).ptSSG
    rw [updateFM_ptSSG ((BT.InstrumentsManager.updateFM (BT.dcFMm3 m0 f0 refFm c) c (fun f => { f with lfoEnabled := true })).cloneFMLFO refFm.lfoNumber).2 c (fun f => { f with lfoNumber := ((BT.InstrumentsManager.updateFM (BT.dcFMm3 m0 f0 refFm c) c (fun f => { f with lfoEnabled := true })).cloneFMLFO refFm.lfoNumber).1 })]
    show ((BT.InstrumentsManager.updateFM (BT.dcFMm3 m0 f0 refFm c) c (fun f => { f with lfoEnabled := true }))).ptSSG = (BT.dcFMm3 m0 f0 refFm c).ptSSG
    exact updateFM_ptSSG (BT.dcFMm3 m0 f0 refFm c) c (fun f => { f with lfoEnabled := true })
  · unfold BT.dcFMm4
    rw [if_neg hb]

theorem dcFMm4p_wfADPCM (m0 : BT.InstrumentsManager) (f0 refFm : BT.InstrumentFM) (c : Nat) :
    (BT.dcFMm4 m0 f0 refFm c).wfADPCM = (BT.dcFMm3 m0 f0 refFm c).wfADPCM := by
  by_cases hb : refFm.lfoEnabled = true
  · unfold BT.dcFMm4
    rw [if_pos hb]
    show ((BT.InstrumentsManager.updateFM ((BT.InstrumentsManager.updateFM (BT.dcFMm3 m0 f0 refFm c) c (fun f => { f with lfoEnabled := true })).cloneFMLFO refFm.lfoNumber).2 c (fun f => { f with lfoNumber := ((BT.InstrumentsManager.updateFM (BT.dcFMm3 m0 f0 refFm c) c (fun f => { f with lfoEnabled := true })).cloneFMLFO refFm.lfoNumber).1 }))).wfADPCM = (BT.dcFMm3 m0 f0 refFm c).wfADPCM
    rw [updateFM_wfADPCM ((BT.InstrumentsManager.updateFM (BT.dcFMm3 m0 f0 refFm c) c (fun f => { f with lfoEnabled := true })).cloneFMLFO refFm.lfoNumber).2 c (fun f => { f with lfoNumber := ((BT.InstrumentsManager.updateFM (BT.dcFMm3 m0 f0 refFm c) c (fun f => { f with lfoEnabled := true })).cloneFMLFO refFm.lfoNumber).1 })]
    show ((BT.InstrumentsManager.updateFM (BT.dcFMm3 m0 f0 refFm c) c (fun f => { f with lfoEnabled := true }))).wfADPCM = (BT.dcFMm3 m0 f0 refFm c).wfADPCM
    exact updateFM_wfADPCM (BT.dcFMm3 m0 f0 refFm c) c (fun f => { f with lfoEnabled := true })
  · unfold BT.dcFMm4
    rw [if_neg hb]

theorem dcFMm4p_envADPCM (m0 : BT.InstrumentsManager) (f0 refFm : BT.InstrumentFM) (c : Nat) :
    (BT.dcFMm4 m0 f0 refFm c).envADPCM = (BT.dcFMm3 m0 f0 refFm c).envADPCM := by
  by_cases hb : refFm.lfoEnabled = true
  · unfold BT.dcFMm4
    rw [if_pos hb]
    show ((BT.InstrumentsManager.updateFM ((BT.InstrumentsManager.updateFM (BT.dcFMm3 m0 f0 refFm c) c (fun f => { f with lfoEnabled := true })).cloneFMLFO refFm.lfoNumber).2 c (fun f => { f with lfoNumber := ((BT.InstrumentsManager.updateFM (BT.dcFMm3 m0 f0 refFm c) c (fun f => { f with lfoEnabled := true })).cloneFMLFO refFm.lfoNumber).1 }))).envADPCM = (BT.dcFMm3 m0 f0 refFm c).envADPCM
    rw [updateFM_envADPCM ((BT.InstrumentsManager.updateFM (BT.dcFMm3 m0 f0 refFm c) c (fun f => { f with lfoEnabled := true })).cloneFMLFO refFm.lfoNumber).2 c (fun f => { f with lfoNumber := ((BT.InstrumentsManager.updateFM (BT.dcFMm3 m0 f0 refFm c) c (fun f => { f with lfoEnabled := true })).cloneFMLFO refFm.lfoNumber).1 })]
    show ((BT.InstrumentsManager.updateFM (BT.dcFMm3 m0 f0 refFm c) c (fun f => { f with lfoEnabled := true }))).envADPCM = (BT.dcFMm3 m0 f0 refFm c).envADPCM
    exact updateFM_envADPCM (BT.dcFMm3 m0 f0 refFm c) c (fun f => { f with lfoEnabled := true })
  · unfold BT.dcFMm4
    rw [if_neg hb]

theorem dcFMm4p_arpADPCM (m0 : BT.InstrumentsManager) (f0 refFm : BT.InstrumentFM) (c : Nat) :
    (BT.dcFMm4 m0 f0 refFm c).arpADPCM = (BT.dcFMm3 m0 f0 refFm c).arpADPCM := by
  by_cases hb : refFm.lfoEnabled = true
  · unfold BT.dcFMm4
    rw [if_pos hb]
    show ((BT.InstrumentsManager.updateFM ((BT.InstrumentsManager.updateFM (BT.dcFMm3 m0 f0 refFm c) c (fun f => { f with lfoEnabled := true })).cloneFMLFO refFm.lfoNumber).2 c (fun f => { f with lfoNumber := ((BT.InstrumentsManager.updateFM (BT.dcFMm3 m0 f0 refFm c) c (fun f => { f with lfoEnabled := true })).cloneFMLFO refFm.lfoNumber).1 }))).arpADPCM = (BT.dcFMm3 m0 f0 refFm c).arpADPCM
    rw [updateFM_arpADPCM ((BT.InstrumentsManager.updateFM (BT.dcFMm3 m0 f0 refFm c) c (fun f => { f with lfoEnabled := true })).cloneFMLFO refFm.lfoNumber).2 c (fun f => { f with lfoNumber := ((BT.InstrumentsManager.updateFM (BT.dcFMm3 m0 f0 refFm c) c (fun f => { f with lfoEnabled := true })).cloneFMLFO refFm.lfoNumber).1 })]
    show ((BT.InstrumentsManager.updateFM (BT.dcFMm3 m0 f0 refFm c) c (fun f => { f with lfoEnabled := true }))).arpADPCM = (BT.dcFMm3 m0 f0 refFm c).arpADPCM
    exact updateFM_arpADPCM (BT.dcFMm3 m0 f0 refFm c) c (fun f => { f with lfoEnabled := true })
  · unfold BT.dcFMm4
    rw [if_neg hb]

theorem dcFMm4p_ptADPCM (m0 : BT.InstrumentsManager) (f0 refFm : BT.InstrumentFM) (c : Nat) :
    (BT.dcFMm4 m0 f0 refFm c).ptADPCM = (BT.dcFMm3 m0 f0 refFm c).ptADPCM := by
  by_cases hb : refFm.lfoEnabled = true
  · unfold BT.dcFMm4
    rw [if_pos hb]
    show ((BT.InstrumentsManager.updateFM ((BT.InstrumentsManager.updateFM (BT.dcFMm3 m0 f0 refFm c) c (fun f => { f with lfoEnabled := true })).cloneFMLFO refFm.lfoNumber).2 c (fun f => { f with lfoNumber := ((BT.InstrumentsManager.updateFM (BT.dcFMm3 m0 f0 refFm c) c (fun f => { f with lfoEnabled := true })).cloneFMLFO refFm.lfoNumber).1 }))).ptADPCM = (BT.dcFMm3 m0 f0 refFm c).ptADPCM
    rw [updateFM_ptADPCM ((BT.InstrumentsManager.updateFM (BT.dcFMm3 m0 f0 refFm c) c (fun f => { f with lfoEnabled := true })).cloneFMLFO refFm.lfoNumber).2 c (fun f => { f with lfoNumber := ((BT.InstrumentsManager.updateFM (BT.dcFMm3 m0 f0 refFm c) c (fun f => { f with lfoEnabled := true })).cloneFMLFO refFm.lfoNumber).1 })]
    show ((BT.InstrumentsManager.updateFM (BT.dcFMm3 m0 f0 refFm c) c (fun f => { f with lfoEnabled := true }))).ptADPCM = (BT.dcFMm3 m0 f0 refFm c).ptADPCM
    exact updateFM_ptADPCM (BT.dcFMm3 m0 f0 refFm c) c (fun f => { f with lfoEnabled := true })
  · unfold BT.dcFMm4
    rw [if_neg hb]

/-- The conditional LFO deep clone registers the clone only at the fresh slot. -/
theorem gf_dcFMm4_lfoFM (m0 : BT.InstrumentsManager) (f0 refFm : BT.InstrumentFM) (c : Nat) :
    GrowsFresh c (usersOf (BT.dcFMm3 m0 f0 refFm c).lfoFM)
      (usersOf (BT.dcFMm4 m0 f0 refFm c).lfoFM) := by
  by_cases hb : refFm.lfoEnabled = true
  · have e1 : ((BT.InstrumentsManager.updateFM (BT.dcFMm3 m0 f0 refFm c) c (fun f => { f with lfoEnabled := true }))).lfoFM = (BT.dcFMm3 m0 f0 refFm c).lfoFM :=
      updateFM_lfoFM (BT.dcFMm3 m0 f0 refFm c) c (fun f => { f with lfoEnabled := true })
    have e3 : ((BT.InstrumentsManager.updateFM ((BT.InstrumentsManager.updateFM (BT.dcFMm3 m0 f0 refFm c) c (fun f => { f with lfoEnabled := true })).cloneFMLFO refFm.lfoNumber).2 c (fun f => { f with lfoNumber := ((BT.InstrumentsManager.updateFM (BT.dcFMm3 m0 f0 refFm c) c (fun f => { f with lfoEnabled := true })).cloneFMLFO refFm.lfoNumber).1 }))).lfoFM = ((BT.InstrumentsManager.updateFM (BT.dcFMm3 m0 f0 refFm c) c (fun f => { f with lfoEnabled := true })).cloneFMLFO refFm.lfoNumber).2.lfoFM :=
      updateFM_lfoFM ((BT.InstrumentsManager.updateFM (BT.dcFMm3 m0 f0 refFm c) c (fun f => { f with lfoEnabled := true })).cloneFMLFO refFm.lfoNumber).2 c (fun f => { f with lfoNumber := ((BT.InstrumentsManager.updateFM (BT.dcFMm3 m0 f0 refFm c) c (fun f => { f with lfoEnabled := true })).cloneFMLFO refFm.lfoNumber).1 })
    have hfin : (BT.dcFMm4 m0 f0 refFm c).lfoFM =
        ((BT.InstrumentsManager.updateFM ((BT.InstrumentsManager.updateFM (BT.dcFMm3 m0 f0 refFm c) c (fun f => { f with lfoEnabled := true })).cloneFMLFO refFm.lfoNumber).2 c (fun f => { f with lfoNumber := ((BT.InstrumentsManager.updateFM (BT.dcFMm3 m0 f0 refFm c) c (fun f => { f with lfoEnabled := true })).cloneFMLFO refFm.lfoNumber).1 }))).lfoFM.registerUser ((BT.InstrumentsManager.updateFM (BT.dcFMm3 m0 f0 refFm c) c (fun f => { f with lfoEnabled := true })).cloneFMLFO refFm.lfoNumber).1 c := by
      unfold BT.dcFMm4
      rw [if_pos hb]
    rw [hfin]
    refine gf_register_inv (gf_of_eq (fun s hs => ?_)) ?_
    · show (((BT.InstrumentsManager.updateFM ((BT.InstrumentsManager.updateFM (BT.dcFMm3 m0 f0 refFm c) c (fun f => { f with lfoEnabled := true })).cloneFMLFO refFm.lfoNumber).2 c (fun f => { f with lfoNumber := ((BT.InstrumentsManager.updateFM (BT.dcFMm3 m0 f0 refFm c) c (fun f => { f with lfoEnabled := true })).cloneFMLFO refFm.lfoNumber).1 }))).lfoFM s).users = ((BT.dcFMm3 m0 f0 refFm c).lfoFM s).users
      rw [e3]
      rw [show (((BT.InstrumentsManager.updateFM (BT.dcFMm3 m0 f0 refFm c) c (fun f => { f with lfoEnabled := true })).cloneFMLFO refFm.lfoNumber).2.lfoFM s).users = (((BT.InstrumentsManager.updateFM (BT.dcFMm3 m0 f0 refFm c) c (fun f => { f with lfoEnabled := true }))).lfoFM s).users from
        users_cloneProp ((BT.InstrumentsManager.updateFM (BT.dcFMm3 m0 f0 refFm c) c (fun f => { f with lfoEnabled := true }))).lfoFM refFm.lfoNumber s]
      rw [e1]
    · intro h1
      rcases cloneProp_pick_free ((BT.InstrumentsManager.updateFM (BT.dcFMm3 m0 f0 refFm c) c (fun f => { f with lfoEnabled := true }))).lfoFM refFm.lfoNumber with h | ⟨h2, h3⟩
      · exact absurd h1 (not_lt.mpr h)
      · show ((BT.dcFMm3 m0 f0 refFm c).lfoFM ((BT.InstrumentsManager.updateFM (BT.dcFMm3 m0 f0 refFm c) c (fun f => { f with lfoEnabled := true })).cloneFMLFO refFm.lfoNumber).1).users = ∅
        rw [← e1]
        exact h3
  · have hid : BT.dcFMm4 m0 f0 refFm c = BT.dcFMm3 m0 f0 refFm c := by
      unfold BT.dcFMm4
      rw [if_neg hb]
    rw [hid]
    exact gf_refl c _

theorem dcFMstepp_envFM (refFm : BT.InstrumentFM) (c : Nat)
    (acc : BT.InstrumentsManager) (p : BT.FMEnvelopeParameter) :
    (BT.dcFMstep refFm c acc p).envFM = acc.envFM := by
  by_cases hb : refFm.opSeqEnabled p = true
  · unfold BT.dcFMstep
    rw [if_pos hb]
    show ((BT.InstrumentsManager.updateFM ((BT.InstrumentsManager.updateFM acc c (fun f => { f with opSeqEnabled := Function.update f.opSeqEnabled p true })).cloneFMOperatorSequence p (refFm.opSeqNumber p)).2 c (fun f => { f with opSeqNumber := Function.update f.opSeqNumber p ((BT.InstrumentsManager.updateFM acc c (fun f => { f with opSeqEnabled := Function.update f.opSeqEnabled p true })).cloneFMOperatorSequence p (refFm.opSeqNumber p)).1 }))).envFM = acc.envFM
    rw [updateFM_envFM ((BT.InstrumentsManager.updateFM acc c (fun f => { f with opSeqEnabled := Function.update f.opSeqEnabled p true })).cloneFMOperatorSequence p (refFm.opSeqNumber p)).2 c (fun f => { f with opSeqNumber := Function.update f.opSeqNumber p ((BT.InstrumentsManager.updateFM acc c (fun f => { f with opSeqEnabled := Function.update f.opSeqEnabled p true })).cloneFMOperatorSequence p (refFm.opSeqNumber p)).1 })]
    show ((BT.InstrumentsManager.updateFM acc c (fun f => { f with opSeqEnabled := Function.update f.opSeqEnabled p true }))).envFM = acc.envFM
    exact updateFM_envFM acc c (fun f => { f with opSeqEnabled := Function.update f.opSeqEnabled p true })
  · unfold BT.dcFMstep
    rw [if_neg hb]

theorem dcFMfoldOpSeqp_envFM (refFm : BT.InstrumentFM) (c : Nat) :
    ∀ (l : List BT.FMEnvelopeParameter) (acc : BT.InstrumentsManager),
    (l.foldl (BT.dcFMstep refFm c) acc).envFM = acc.envFM := by
  intro l
  induction l with
  | nil => intro acc; rfl
  | cons p l ih =>
    intro acc
    rw [List.foldl_cons, ih (BT.dcFMstep refFm c acc p), dcFMstepp_envFM refFm c acc p]

theorem dcFMstepp_lfoFM (refFm : BT.InstrumentFM) (c : Nat)
    (acc : BT.InstrumentsManager) (p : BT.FMEnvelopeParameter) :
    (BT.dcFMstep refFm c acc p).lfoFM = acc.lfoFM := by
  by_cases hb : refFm.opSeqEnabled p = true
  · unfold BT.dcFMstep
    rw [if_pos hb]
    show ((BT.InstrumentsManager.updateFM ((BT.InstrumentsManager.updateFM acc c (fun f => { f with opSeqEnabled := Function.update f.opSeqEnabled p true })).cloneFMOperatorSequence p (refFm.opSeqNumber p)).2 c (fun f => { f with opSeqNumber := Function.update f.opSeqNumber p ((BT.InstrumentsManager.updateFM acc c (fun f => { f with opSeqEnabled := Function.update f.opSeqEnabled p true })).cloneFMOperatorSequence p (refFm.opSeqNumber p)).1 }))).lfoFM = acc.lfoFM
    rw [updateFM_lfoFM ((BT.InstrumentsManager.updateFM acc c (fun f => { f with opSeqEnabled := Function.update f.opSeqEnabled p true })).cloneFMOperatorSequence p (refFm.opSeqNumber p)).2 c (fun f => { f with opSeqNumber := Function.update f.opSeqNumber p ((BT.InstrumentsManager.updateFM acc c (fun f => { f with opSeqEnabled := Function.update f.opSeqEnabled p true })).cloneFMOperatorSequence p (refFm.opSeqNumber p)).1 })]
    show ((BT.InstrumentsManager.updateFM acc c (fun f => { f with opSeqEnabled := Function.update f.opSeqEnabled p true }))).lfoFM = acc.lfoFM
    exact updateFM_lfoFM acc c (fun f => { f with opSeqEnabled := Function.update f.opSeqEnabled p true })
  · unfold BT.dcFMstep
    rw [if_neg hb]

theorem dcFMfoldOpSeqp_lfoFM (refFm : BT.InstrumentFM) (c : Nat) :
    ∀ (l : List BT.FMEnvelopeParameter) (acc : BT.InstrumentsManager),
    (l.foldl (BT.dcFMstep refFm c) acc).lfoFM = acc.lfoFM := by
  intro l
  induction l with
  | nil => intro acc; rfl
  | cons p l ih =>
    intro acc
    rw [List.foldl_cons, ih (BT.dcFMstep refFm c acc p), dcFMstepp_lfoFM refFm c acc p]

theorem dcFMstepp_arpFM (refFm : BT.InstrumentFM) (c : Nat)
    (acc : BT.InstrumentsManager) (p : BT.FMEnvelopeParameter) :
    (BT.dcFMstep refFm c acc p).arpFM = acc.arpFM := by
  by_cases hb : refFm.opSeqEnabled p = true
  · unfold BT.dcFMstep
    rw [if_pos hb]
    show ((BT.InstrumentsManager.updateFM ((BT.InstrumentsManager.updateFM acc c (fun f => { f with opSeqEnabled := Function.update f.opSeqEnabled p true })).cloneFMOperatorSequence p (refFm.opSeqNumber p)).2 c (fun f => { f with opSeqNumber := Function.update f.opSeqNumber p ((BT.InstrumentsManager.updateFM acc c (fun f => { f with opSeqEnabled := Function.update f.opSeqEnabled p true })).cloneFMOperatorSequence p (refFm.opSeqNumber p)).1 }))).arpFM = acc.arpFM
    rw [updateFM_arpFM ((BT.InstrumentsManager.updateFM acc c (fun f => { f with opSeqEnabled := Function.update f.opSeqEnabled p true })).cloneFMOperatorSequence p (refFm.opSeqNumber p)).2 c (fun f => { f with opSeqNumber := Function.update f.opSeqNumber p ((BT.InstrumentsManager.updateFM acc c (fun f => { f with opSeqEnabled := Function.update f.opSeqEnabled p true })).cloneFMOperatorSequence p (refFm.opSeqNumber p)).1 })]
    show ((BT.InstrumentsManager.updateFM acc c (fun f => { f with opSeqEnabled := Function.update f.opSeqEnabled p true }))).arpFM = acc.arpFM
    exact updateFM_arpFM acc c (fun f => { f with opSeqEnabled := Function.update f.opSeqEnabled p true })
  · unfold BT.dcFMstep
    rw [if_neg hb]

theorem dcFMfoldOpSeqp_arpFM (refFm : BT.InstrumentFM) (c : Nat) :
    ∀ (l : List BT.FMEnvelopeParameter) (acc : BT.InstrumentsManager),
    (l.foldl (BT.dcFMstep refFm c) acc).arpFM = acc.arpFM := by
  intro l
  induction l with
  | nil => intro acc; rfl
  | cons p l ih =>
    intro acc
    rw [List.foldl_cons, ih (BT.dcFMstep refFm c acc p), dcFMstepp_arpFM refFm c acc p]

theorem dcFMstepp_ptFM (refFm : BT.InstrumentFM) (c : Nat)
    (acc : BT.InstrumentsManager) (p : BT.FMEnvelopeParameter) :
    (BT.dcFMstep refFm c acc p).ptFM = acc.ptFM := by
  by_cases hb : refFm.opSeqEnabled p = true
  · unfold BT.dcFMstep
    rw [if_pos hb]
    show ((BT.InstrumentsManager.updateFM ((BT.InstrumentsManager.updateFM acc c (fun f => { f with opSeqEnabled := Function.update f.opSeqEnabled p true })).cloneFMOperatorSequence p (refFm.opSeqNumber p)).2 c (fun f => { f with opSeqNumber := Function.update f.opSeqNumber p ((BT.InstrumentsManager.updateFM acc c (fun f => { f with opSeqEnabled := Function.update f.opSeqEnabled p true })).cloneFMOperatorSequence p (refFm.opSeqNumber p)).1 }))).ptFM = acc.ptFM
    rw [updateFM_ptFM ((BT.InstrumentsManager.updateFM acc c (fun f => { f with opSeqEnabled := Function.update f.opSeqEnabled p true })).cloneFMOperatorSequence p (refFm.opSeqNumber p)).2 c (fun f => { f with opSeqNumber := Function.update f.opSeqNumber p ((BT.InstrumentsManager.updateFM acc c (fun f => { f with opSeqEnabled := Function.update f.opSeqEnabled p true })).cloneFMOperatorSequence p (refFm.opSeqNumber p)).1 })]
    show ((BT.InstrumentsManager.updateFM acc c (fun f => { f with opSeqEnabled := Function.update f.opSeqEnabled p true }))).ptFM = acc.ptFM
    exact updateFM_ptFM acc c (fun f => { f with opSeqEnabled := Function.update f.opSeqEnabled p true })
  · unfold BT.dcFMstep
    rw [if_neg hb]

theorem dcFMfoldOpSeqp_ptFM (refFm : BT.InstrumentFM) (c : Nat) :
    ∀ (l : List BT.FMEnvelopeParameter) (acc : BT.InstrumentsManager),
    (l.foldl (BT.dcFMstep refFm c) acc).ptFM = acc.ptFM := by
  intro l
  induction l with
  | nil => intro acc; rfl
  | cons p l ih =>
    intro acc
    rw [List.foldl_cons, ih (BT.dcFMstep refFm c acc p), dcFMstepp_ptFM refFm c acc p]

theorem dcFMstepp_wfSSG (refFm : BT.InstrumentFM) (c : Nat)
    (acc : BT.InstrumentsManager) (p : BT.FMEnvelopeParameter) :
    (BT.dcFMstep refFm c acc p).wfSSG = acc.wfSSG := by
  by_cases hb : refFm.opSeqEnabled p = true
  · unfold BT.dcFMstep
    rw [if_pos hb]
    show ((BT.InstrumentsManager.updateFM ((BT.InstrumentsManager.updateFM acc c (fun f => { f with opSeqEnabled := Function.update f.opSeqEnabled p true })).cloneFMOperatorSequence p (refFm.opSeqNumber p)).2 c (fun f => { f with opSeqNumber := Function.update f.opSeqNumber p ((BT.InstrumentsManager.updateFM acc c (fun f => { f with opSeqEnabled := Function.update f.opSeqEnabled p true })).cloneFMOperatorSequence p (refFm.opSeqNumber p)).1 }))).wfSSG = acc.wfSSG
    rw [updateFM_wfSSG ((BT.InstrumentsManager.updateFM acc c (fun f => { f with opSeqEnabled := Function.update f.opSeqEnabled p true })).cloneFMOperatorSequence p (refFm.opSeqNumber p)).2 c (fun f => { f with opSeqNumber := Function.update f.opSeqNumber p ((BT.InstrumentsManager.updateFM acc c (fun f => { f with opSeqEnabled := Function.update f.opSeqEnabled p true })).cloneFMOperatorSequence p (refFm.opSeqNumber p)).1 })]
    show ((BT.InstrumentsManager.updateFM acc c (fun f => { f with opSeqEnabled := Function.update f.opSeqEnabled p true }))).wfSSG = acc.wfSSG
    exact updateFM_wfSSG acc c (fun f => { f with opSeqEnabled := Function.update f.opSeqEnabled p true })
  · unfold BT.dcFMstep
    rw [if_neg hb]

theorem dcFMfoldOpSeqp_wfSSG (refFm : BT.InstrumentFM) (c : Nat) :
    ∀ (l : List BT.FMEnvelopeParameter) (acc : BT.InstrumentsManager),
    (l.foldl (BT.dcFMstep refFm c) acc).wfSSG = acc.wfSSG := by
  intro l
  induction l with
  | nil => intro acc; rfl
  | cons p l ih =>
    intro acc
    rw [List.foldl_cons, ih (BT.dcFMstep refFm c acc p), dcFMstepp_wfSSG refFm c acc p]

theorem dcFMstepp_tnSSG (refFm : BT.InstrumentFM) (c : Nat)
    (acc : BT.InstrumentsManager) (p : BT.FMEnvelopeParameter) :
    (BT.dcFMstep refFm c acc p).tnSSG = acc.tnSSG := by
  by_cases hb : refFm.opSeqEnabled p = true
  · unfold BT.dcFMstep
    rw [if_pos hb]
    show ((BT.InstrumentsManager.updateFM ((BT.InstrumentsManager.updateFM acc c (fun f => { f with opSeqEnabled := Function.update f.opSeqEnabled p true })).cloneFMOperatorSequence p (refFm.opSeqNumber p)).2 c (fun f => { f with opSeqNumber := Function.update f.opSeqNumber p ((BT.InstrumentsManager.updateFM acc c (fun f => { f with opSeqEnabled := Function.update f.opSeqEnabled p true })).cloneFMOperatorSequence p (refFm.opSeqNumber p)).1 }))).tnSSG = acc.tnSSG
    rw [updateFM_tnSSG ((BT.InstrumentsManager.updateFM acc c (fun f => { f with opSeqEnabled := Function.update f.opSeqEnabled p true })).cloneFMOperatorSequence p (refFm.opSeqNumber p)).2 c (fun f => { f with opSeqNumber := Function.update f.opSeqNumber p ((BT.InstrumentsManager.updateFM acc c (fun f => { f with opSeqEnabled := Function.update f.opSeqEnabled p true })).cloneFMOperatorSequence p (refFm.opSeqNumber p)).1 })]
    show ((BT.InstrumentsManager.updateFM acc c (fun f => { f with opSeqEnabled := Function.update f.opSeqEnabled p true }))).tnSSG = acc.tnSSG
    exact updateFM_tnSSG acc c (fun f => { f with opSeqEnabled := Function.update f.opSeqEnabled p true })
  · unfold BT.dcFMstep
    rw [if_neg hb]

theorem dcFMfoldOpSeqp_tnSSG (refFm : BT.InstrumentFM) (c : Nat) :
    ∀ (l : List BT.FMEnvelopeParameter) (acc : BT.InstrumentsManager),
    (l.foldl (BT.dcFMstep refFm c) acc).tnSSG = acc.tnSSG := by
  intro l
  induction l with
  | nil => intro acc; rfl
  | cons p l ih =>
    intro acc
    rw [List.foldl_cons, ih (BT.dcFMstep refFm c acc p), dcFMstepp_tnSSG refFm c acc p]

theorem dcFMstepp_envSSG (refFm : BT.InstrumentFM) (c : Nat)
    (acc : BT.InstrumentsManager) (p : BT.FMEnvelopeParameter) :
    (BT.dcFMstep refFm c acc p).envSSG = acc.envSSG := by
  by_cases hb : refFm.opSeqEnabled p = true
  · unfold BT.dcFMstep
    rw [if_pos hb]
    show ((BT.InstrumentsManager.updateFM ((BT.InstrumentsManager.updateFM acc c (fun f => { f with opSeqEnabled := Function.update f.opSeqEnabled p true })).cloneFMOperatorSequence p (refFm.opSeqNumber p)).2 c (fun f => { f with opSeqNumber := Function.update f.opSeqNumber p ((BT.InstrumentsManager.updateFM acc c (fun f => { f with opSeqEnabled := Function.update f.opSeqEnabled p true })).cloneFMOperatorSequence p (refFm.opSeqNumber p)).1 }))).envSSG = acc.envSSG
    rw [updateFM_envSSG ((BT.InstrumentsManager.updateFM acc c (fun f => { f with opSeqEnabled := Function.update f.opSeqEnabled p true })).cloneFMOperatorSequence p (refFm.opSeqNumber p)).2 c (fun f => { f with opSeqNumber := Function.update f.opSeqNumber p ((BT.InstrumentsManager.updateFM acc c (fun f => { f with opSeqEnabled := Function.update f.opSeqEnabled p true })).cloneFMOperatorSequence p (refFm.opSeqNumber p)).1 })]
    show ((BT.InstrumentsManager.updateFM acc c (fun f => { f with opSeqEnabled := Function.update f.opSeqEnabled p true }))).envSSG = acc.envSSG
    exact updateFM_envSSG acc c (fun f => { f with opSeqEnabled := Function.update f.opSeqEnabled p true })
  · unfold BT.dcFMstep
    rw [if_neg hb]

theorem dcFMfoldOpSeqp_envSSG (refFm : BT.InstrumentFM) (c : Nat) :
    ∀ (l : List BT.FMEnvelopeParameter) (acc : BT.InstrumentsManager),
    (l.foldl (BT.dcFMstep refFm c) acc).envSSG = acc.envSSG := by
  intro l
  induction l with
  | nil => intro acc; rfl
  | cons p l ih =>
    intro acc
    rw [List.foldl_cons, ih (BT.dcFMstep refFm c acc p), dcFMstepp_envSSG refFm c acc p]

theorem dcFMstepp_arpSSG (refFm : BT.InstrumentFM) (c : Nat)
    (acc : BT.InstrumentsManager) (p : BT.FMEnvelopeParameter) :
    (BT.dcFMstep refFm c acc p).arpSSG = acc.arpSSG := by
  by_cases hb : refFm.opSeqEnabled p = true
  · unfold BT.dcFMstep
    rw [if_pos hb]
    show ((BT.InstrumentsManager.updateFM ((BT.InstrumentsManager.updateFM acc c (fun f => { f with opSeqEnabled := Function.update f.opSeqEnabled p true })).cloneFMOperatorSequence p (refFm.opSeqNumber p)).2 c (fun f => { f with opSeqNumber := Function.update f.opSeqNumber p ((BT.InstrumentsManager.updateFM acc c (fun f => { f with opSeqEnabled := Function.update f.opSeqEnabled p true })).cloneFMOperatorSequence p (refFm.opSeqNumber p)).1 }))).arpSSG = acc.arpSSG
    rw [updateFM_arpSSG ((BT.InstrumentsManager.updateFM acc c (fun f => { f with opSeqEnabled := Function.update f.opSeqEnabled p true })).cloneFMOperatorSequence p (refFm.opSeqNumber p)).2 c (fun f => { f with opSeqNumber := Function.update f.opSeqNumber p ((BT.InstrumentsManager.updateFM acc c (fun f => { f with opSeqEnabled := Function.update f.opSeqEnabled p true })).cloneFMOperatorSequence p (refFm.opSeqNumber p)).1 })]
    show ((BT.InstrumentsManager.updateFM acc c (fun f => { f with opSeqEnabled := Function.update f.opSeqEnabled p true }))).arpSSG = acc.arpSSG
    exact updateFM_arpSSG acc c (fun f => { f with opSeqEnabled := Function.update f.opSeqEnabled p true })
  · unfold BT.dcFMstep
    rw [if_neg hb]

theorem dcFMfoldOpSeqp_arpSSG (refFm : BT.InstrumentFM) (c : Nat) :
    ∀ (l : List BT.FMEnvelopeParameter) (acc : BT.InstrumentsManager),
    (l.foldl (BT.dcFMstep refFm c) acc).arpSSG = acc.arpSSG := by
  intro l
  induction l with
  | nil => intro acc; rfl
  | cons p l ih =>
    intro acc
    rw [List.foldl_cons, ih (BT.dcFMstep refFm c acc p), dcFMstepp_arpSSG refFm c acc p]

theorem dcFMstepp_ptSSG (refFm : BT.InstrumentFM) (c : Nat)
    (acc : BT.InstrumentsManager) (p : BT.FMEnvelopeParameter) :
    (BT.dcFMstep refFm c acc p).ptSSG = acc.ptSSG := by
  by_cases hb : refFm.opSeqEnabled p = true
  · unfold BT.dcFMstep
    rw [if_pos hb]
    show ((BT.InstrumentsManager.updateFM ((BT.InstrumentsManager.updateFM acc c (fun f => { f with opSeqEnabled := Function.update f.opSeqEnabled p true })).cloneFMOperatorSequence p (refFm.opSeqNumber p)).2 c (fun f => { f with opSeqNumber := Function.update f.opSeqNumber p ((BT.InstrumentsManager.updateFM acc c (fun f => { f with opSeqEnabled := Function.update f.opSeqEnabled p true })).cloneFMOperatorSequence p (refFm.opSeqNumber p)).1 }))).ptSSG = acc.ptSSG
    rw [updateFM_ptSSG ((BT.InstrumentsManager.updateFM acc c (fun f => { f with opSeqEnabled := Function.update f.opSeqEnabled p true })).cloneFMOperatorSequence p (refFm.opSeqNumber p)).2 c (fun f => { f with opSeqNumber := Function.update f.opSeqNumber p ((BT.InstrumentsManager.updateFM acc c (fun f => { f with opSeqEnabled := Function.update f.opSeqEnabled p true })).cloneFMOperatorSequence p (refFm.opSeqNumber p)).1 })]
    show ((BT.InstrumentsManager.updateFM acc c (fun f => { f with opSeqEnabled := Function.update f.opSeqEnabled p true }))).ptSSG = acc.ptSSG
    exact updateFM_ptSSG acc c (fun f => { f with opSeqEnabled := Function.update f.opSeqEnabled p true })
  · unfold BT.dcFMstep
    rw [if_neg hb]

theorem dcFMfoldOpSeqp_ptSSG (refFm : BT.InstrumentFM) (c : Nat) :
    ∀ (l : List BT.FMEnvelopeParameter) (acc : BT.InstrumentsManager),
    (l.foldl (BT.dcFMstep refFm c) acc).ptSSG = acc.ptSSG := by
  intro l
  induction l with
  | nil => intro acc; rfl
  | cons p l ih =>
    intro acc
    rw [List.foldl_cons, ih (BT.dcFMstep refFm c acc p), dcFMstepp_ptSSG refFm c acc p]

theorem dcFMstepp_wfADPCM (refFm : BT.InstrumentFM) (c : Nat)
    (acc : BT.InstrumentsManager) (p : BT.FMEnvelopeParameter) :
    (BT.dcFMstep refFm c acc p).wfADPCM = acc.wfADPCM := by
  by_cases hb : refFm.opSeqEnabled p = true
  · unfold BT.dcFMstep
    rw [if_pos hb]
    show ((BT.InstrumentsManager.updateFM ((BT.InstrumentsManager.updateFM acc c (fun f => { f with opSeqEnabled := Function.update f.opSeqEnabled p true })).cloneFMOperatorSequence p (refFm.opSeqNumber p)).2 c (fun f => { f with opSeqNumber := Function.update f.opSeqNumber p ((BT.InstrumentsManager.updateFM acc c (fun f => { f with opSeqEnabled := Function.update f.opSeqEnabled p true })).cloneFMOperatorSequence p (refFm.opSeqNumber p)).1 }))).wfADPCM = acc.wfADPCM
    rw [updateFM_wfADPCM ((BT.InstrumentsManager.updateFM acc c (fun f => { f with opSeqEnabled := Function.update f.opSeqEnabled p true })).cloneFMOperatorSequence p (refFm.opSeqNumber p)).2 c (fun f => { f with opSeqNumber := Function.update f.opSeqNumber p ((BT.InstrumentsManager.updateFM acc c (fun f => { f with opSeqEnabled := Function.update f.opSeqEnabled p true })).cloneFMOperatorSequence p (refFm.opSeqNumber p)).1 })]
    show ((BT.InstrumentsManager.updateFM acc c (fun f => { f with opSeqEnabled := Function.update f.opSeqEnabled p true }))).wfADPCM = acc.wfADPCM
    exact updateFM_wfADPCM acc c (fun f => { f with opSeqEnabled := Function.update f.opSeqEnabled p true })
  · unfold BT.dcFMstep
    rw [if_neg hb]

theorem dcFMfoldOpSeqp_wfADPCM (refFm : BT.InstrumentFM) (c : Nat) :
    ∀ (l : List BT.FMEnvelopeParameter) (acc : BT.InstrumentsManager),
    (l.foldl (BT.dcFMstep refFm c) acc).wfADPCM = acc.wfADPCM := by
  intro l
  induction l with
  | nil => intro acc; rfl
  | cons p l ih =>
    intro acc
    rw [List.foldl_cons, ih (BT.dcFMstep refFm c acc p), dcFMstepp_wfADPCM refFm c acc p]

theorem dcFMstepp_envADPCM (refFm : BT.InstrumentFM) (c : Nat)
    (acc : BT.InstrumentsManager) (p : BT.FMEnvelopeParameter) :
    (BT.dcFMstep refFm c acc p).envADPCM = acc.envADPCM := by
  by_cases hb : refFm.opSeqEnabled p = true
  · unfold BT.dcFMstep
    rw [if_pos hb]
    show ((BT.InstrumentsManager.updateFM ((BT.InstrumentsManager.updateFM acc c (fun f => { f with opSeqEnabled := Function.update f.opSeqEnabled p true })).cloneFMOperatorSequence p (refFm.opSeqNumber p)).2 c (fun f => { f with opSeqNumber := Function.update f.opSeqNumber p ((BT.InstrumentsManager.updateFM acc c (fun f => { f with opSeqEnabled := Function.update f.opSeqEnabled p true })).cloneFMOperatorSequence p (refFm.opSeqNumber p)).1 }))).envADPCM = acc.envADPCM
    rw [updateFM_envADPCM ((BT.InstrumentsManager.updateFM acc c (fun f => { f with opSeqEnabled := Function.update f.opSeqEnabled p true })).cloneFMOperatorSequence p (refFm.opSeqNumber p)).2 c (fun f => { f with opSeqNumber := Function.update f.opSeqNumber p ((BT.InstrumentsManager.updateFM acc c (fun f => { f with opSeqEnabled := Function.update f.opSeqEnabled p true })).cloneFMOperatorSequence p (refFm.opSeqNumber p)).1 })]
    show ((BT.InstrumentsManager.updateFM acc c (fun f => { f with opSeqEnabled := Function.update f.opSeqEnabled p true }))).envADPCM = acc.envADPCM
    exact updateFM_envADPCM acc c (fun f => { f with opSeqEnabled := Function.update f.opSeqEnabled p true })
  · unfold BT.dcFMstep
    rw [if_neg hb]

theorem dcFMfoldOpSeqp_envADPCM (refFm : BT.InstrumentFM) (c : Nat) :
    ∀ (l : List BT.FMEnvelopeParameter) (acc : BT.InstrumentsManager),
    (l.foldl (BT.dcFMstep refFm c) acc).envADPCM = acc.envADPCM := by
  intro l
  induction l with
  | nil => intro acc; rfl
  | cons p l ih =>
    intro acc
    rw [List.foldl_cons, ih (BT.dcFMstep refFm c acc p), dcFMstepp_envADPCM refFm c acc p]

theorem dcFMstepp_arpADPCM (refFm : BT.InstrumentFM) (c : Nat)
    (acc : BT.InstrumentsManager) (p : BT.FMEnvelopeParameter) :
    (BT.dcFMstep refFm c acc p).arpADPCM = acc.arpADPCM := by
  by_cases hb : refFm.opSeqEnabled p = true
  · unfold BT.dcFMstep
    rw [if_pos hb]
    show ((BT.InstrumentsManager.updateFM ((BT.InstrumentsManager.updateFM acc c (fun f => { f with opSeqEnabled := Function.update f.opSeqEnabled p true })).cloneFMOperatorSequence p (refFm.opSeqNumber p)).2 c (fun f => { f with opSeqNumber := Function.update f.opSeqNumber p ((BT.InstrumentsManager.updateFM acc c (fun f => { f with opSeqEnabled := Function.update f.opSeqEnabled p true })).cloneFMOperatorSequence p (refFm.opSeqNumber p)).1 }))).arpADPCM = acc.arpADPCM
    rw [updateFM_arpADPCM ((BT.InstrumentsManager.updateFM acc c (fun f => { f with opSeqEnabled := Function.update f.opSeqEnabled p true })).cloneFMOperatorSequence p (refFm.opSeqNumber p)).2 c (fun f => { f with opSeqNumber := Function.update f.opSeqNumber p ((BT.InstrumentsManager.updateFM acc c (fun f => { f with opSeqEnabled := Function.update f.opSeqEnabled p true })).cloneFMOperatorSequence p (refFm.opSeqNumber p)).1 })]
    show ((BT.InstrumentsManager.updateFM acc c (fun f => { f with opSeqEnabled := Function.update f.opSeqEnabled p true }))).arpADPCM = acc.arpADPCM
    exact updateFM_arpADPCM acc c (fun f => { f with opSeqEnabled := Function.update f.opSeqEnabled p true })
  · unfold BT.dcFMstep
    rw [if_neg hb]

theorem dcFMfoldOpSeqp_arpADPCM (refFm : BT.InstrumentFM) (c : Nat) :
    ∀ (l : List BT.FMEnvelopeParameter) (acc : BT.InstrumentsManager),
    (l.foldl (BT.dcFMstep refFm c) acc).arpADPCM = acc.arpADPCM := by
  intro l
  induction l with
  | nil => intro acc; rfl
  | cons p l ih =>
    intro acc
    rw [List.foldl_cons, ih (BT.dcFMstep refFm c acc p), dcFMstepp_arpADPCM refFm c acc p]

theorem dcFMstepp_ptADPCM (refFm : BT.InstrumentFM) (c : Nat)
    (acc : BT.InstrumentsManager) (p : BT.FMEnvelopeParameter) :
    (BT.dcFMstep refFm c acc p).ptADPCM = acc.ptADPCM := by
  by_cases hb : refFm.opSeqEnabled p = true
  · unfold BT.dcFMstep
    rw [if_pos hb]
    show ((BT.InstrumentsManager.updateFM ((BT.InstrumentsManager.updateFM acc c (fun f => { f with opSeqEnabled := Function.update f.opSeqEnabled p true })).cloneFMOperatorSequence p (refFm.opSeqNumber p)).2 c (fun f => { f with opSeqNumber := Function.update f.opSeqNumber p ((BT.InstrumentsManager.updateFM acc c (fun f => { f with opSeqEnabled := Function.update f.opSeqEnabled p true })).cloneFMOperatorSequence p (refFm.opSeqNumber p)).1 }))).ptADPCM = acc.ptADPCM
    rw [updateFM_ptADPCM ((BT.InstrumentsManager.updateFM acc c (fun f => { f with opSeqEnabled := Function.update f.opSeqEnabled p true })).cloneFMOperatorSequence p (refFm.opSeqNumber p)).2 c (fun f => { f with opSeqNumber := Function.update f.opSeqNumber p ((BT.InstrumentsManager.updateFM acc c (fun f => { f with opSeqEnabled := Function.update f.opSeqEnabled p true })).cloneFMOperatorSequence p (refFm.opSeqNumber p)).1 })]
    show ((BT.InstrumentsManager.updateFM acc c (fun f => { f with opSeqEnabled := Function.update f.opSeqEnabled p true }))).ptADPCM = acc.ptADPCM
    exact updateFM_ptADPCM acc c (fun f => { f with opSeqEnabled := Function.update f.opSeqEnabled p true })
  · unfold BT.dcFMstep
    rw [if_neg hb]

theorem dcFMfoldOpSeqp_ptADPCM (refFm : BT.InstrumentFM) (c : Nat) :
    ∀ (l : List BT.FMEnvelopeParameter) (acc : BT.InstrumentsManager),
    (l.foldl (BT.dcFMstep refFm c) acc).ptADPCM = acc.ptADPCM := by
  intro l
  induction l with
  | nil => intro acc; rfl
  | cons p l ih =>
    intro acc
    rw [List.foldl_cons, ih (BT.dcFMstep refFm c acc p), dcFMstepp_ptADPCM refFm c acc p]

set_option maxHeartbeats 2000000 in
/-- The operator-sequence deep-clone fold registers the clone only at
fresh slots of each parameter row. -/
theorem gf_dcFMstep_opSeq (refFm : BT.InstrumentFM) (c : Nat)
    (u0 : BT.FMEnvelopeParameter → Nat → Finset ℕ) :
    ∀ (l : List BT.FMEnvelopeParameter) (acc : BT.InstrumentsManager),
    (∀ p, GrowsFresh c (u0 p) (usersOf (acc.opSeqFM p))) →
    ∀ p, GrowsFresh c (u0 p)
      (usersOf ((l.foldl (BT.dcFMstep refFm c) acc).opSeqFM p)) := by
  intro l
  induction l with
  | nil => intro acc h p; exact h p
  | cons q l ih =>
    intro acc h p
    rw [List.foldl_cons]
    refine ih (BT.dcFMstep refFm c acc q) ?_ p
    intro p2
    by_cases hb : refFm.opSeqEnabled q = true
    · have hstep : (BT.dcFMstep refFm c acc q).opSeqFM =
          Function.update ((BT.InstrumentsManager.updateFM ((BT.InstrumentsManager.updateFM acc c (fun f => { f with opSeqEnabled := Function.update f.opSeqEnabled q true })).cloneFMOperatorSequence q (refFm.opSeqNumber q)).2 c (fun f => { f with opSeqNumber := Function.update f.opSeqNumber q ((BT.InstrumentsManager.updateFM acc c (fun f => { f with opSeqEnabled := Function.update f.opSeqEnabled q true })).cloneFMOperatorSequence q (refFm.opSeqNumber q)).1 }))).opSeqFM q ((((BT.InstrumentsManager.updateFM ((BT.InstrumentsManager.updateFM acc c (fun f => { f with opSeqEnabled := Function.update f.opSeqEnabled q true })).cloneFMOperatorSequence q (refFm.opSeqNumber q)).2 c (fun f => { f with opSeqNumber := Function.update f.opSeqNumber q ((BT.InstrumentsManager.updateFM acc c (fun f => { f with opSeqEnabled := Function.update f.opSeqEnabled q true })).cloneFMOperatorSequence q (refFm.opSeqNumber q)).1 }))).opSeqFM q).registerUser ((BT.InstrumentsManager.updateFM acc c (fun f => { f with opSeqEnabled := Function.update f.opSeqEnabled q true })).cloneFMOperatorSequence q (refFm.opSeqNumber q)).1 c) := by
        unfold BT.dcFMstep
        rw [if_pos hb]
      have eRows : ∀ p3 s, (((BT.InstrumentsManager.updateFM ((BT.InstrumentsManager.updateFM acc c (fun f => { f with opSeqEnabled := Function.update f.opSeqEnabled q true })).cloneFMOperatorSequence q (refFm.opSeqNumber q)).2 c (fun f => { f with opSeqNumber := Function.update f.opSeqNumber q ((BT.InstrumentsManager.updateFM acc c (fun f => { f with opSeqEnabled := Function.update f.opSeqEnabled q true })).cloneFMOperatorSequence q (refFm.opSeqNumber q)).1 }))).opSeqFM p3 s).users = ((acc.opSeqFM p3) s).users := by
        intro p3 s
        rw [show ((BT.InstrumentsManager.updateFM ((BT.InstrumentsManager.updateFM acc c (fun f => { f with opSeqEnabled := Function.update f.opSeqEnabled q true })).cloneFMOperatorSequence q (refFm.opSeqNumber q)).2 c (fun f => { f with opSeqNumber := Function.update f.opSeqNumber q ((BT.InstrumentsManager.updateFM acc c (fun f => { f with opSeqEnabled := Function.update f.opSeqEnabled q true })).cloneFMOperatorSequence q (refFm.opSeqNumber q)).1 }))).opSeqFM = ((BT.InstrumentsManager.updateFM acc c (fun f => { f with opSeqEnabled := Function.update f.opSeqEnabled q true })).cloneFMOperatorSequence q (refFm.opSeqNumber q)).2.opSeqFM from updateFM_opSeqFM ((BT.InstrumentsManager.updateFM acc c (fun f => { f with opSeqEnabled := Function.update f.opSeqEnabled q true })).cloneFMOperatorSequence q (refFm.opSeqNumber q)).2 c (fun f => { f with opSeqNumber := Function.update f.opSeqNumber q ((BT.InstrumentsManager.updateFM acc c (fun f => { f with opSeqEnabled := Function.update f.opSeqEnabled q true })).cloneFMOperatorSequence q (refFm.opSeqNumber q)).1 })]
        rw [show ((BT.InstrumentsManager.updateFM acc c (fun f => { f with opSeqEnabled := Function.update f.opSeqEnabled q true })).cloneFMOperatorSequence q (refFm.opSeqNumber q)).2.opSeqFM =
          Function.update ((BT.InstrumentsManager.updateFM acc c (fun f => { f with opSeqEnabled := Function.update f.opSeqEnabled q true }))).opSeqFM q ((((BT.InstrumentsManager.updateFM acc c (fun f => { f with opSeqEnabled := Function.update f.opSeqEnabled q true }))).opSeqFM q).cloneProp (refFm.opSeqNumber q)).2 from rfl]
        by_cases hpq : p3 = q
        · rw [hpq, Function.update_same]
          rw [users_cloneProp (((BT.InstrumentsManager.updateFM acc c (fun f => { f with opSeqEnabled := Function.update f.opSeqEnabled q true }))).opSeqFM q) (refFm.opSeqNumber q) s]
          rw [updateFM_opSeqFM acc c (fun f => { f with opSeqEnabled := Function.update f.opSeqEnabled q true })]
        · rw [Function.update_noteq hpq]
          rw [updateFM_opSeqFM acc c (fun f => { f with opSeqEnabled := Function.update f.opSeqEnabled q true })]
      by_cases hpq : p2 = q
      · rw [hstep, hpq, Function.update_same]
        refine gf_register_inv (gf_trans (h q) (gf_of_eq (fun s hs => eRows q s))) ?_
        intro h1
        rcases cloneProp_pick_free (((BT.InstrumentsManager.updateFM acc c (fun f => { f with opSeqEnabled := Function.update f.opSeqEnabled q true }))).opSeqFM q) (refFm.opSeqNumber q) with hge | ⟨hlt, hemp⟩
        · exact absurd h1 (not_lt.mpr hge)
        · refine gf_empty (h q) h1 ?_
          show ((acc.opSeqFM q) ((BT.InstrumentsManager.updateFM acc c (fun f => { f with opSeqEnabled := Function.update f.opSeqEnabled q true })).cloneFMOperatorSequence q (refFm.opSeqNumber q)).1).users = ∅
          rw [← updateFM_opSeqFM acc c (fun f => { f with opSeqEnabled := Function.update f.opSeqEnabled q true })]
          exact hemp
      · rw [hstep, Function.update_noteq hpq]
        exact gf_trans (h p2) (gf_of_eq (fun s hs => eRows p2 s))
    · have hid : BT.dcFMstep refFm c acc q = acc := by
        unfold BT.dcFMstep
        rw [if_neg hb]
      rw [hid]
      exact h p2

theorem enArpFoldp_envFM (c : Nat) :
    ∀ (l : List BT.FMOperatorType) (acc : BT.InstrumentsManager),
    (l.foldl (fun (acc : BT.InstrumentsManager) t =>
      BT.InstrumentsManager.updateFM acc c
        (fun f => { f with arpEnabled := Function.update f.arpEnabled t true })) acc).envFM = acc.envFM := by
  intro l
  induction l with
  | nil => intro acc; rfl
  | cons t l ih =>
    intro acc
    rw [List.foldl_cons, ih _]
    exact updateFM_envFM acc c (fun f => { f with arpEnabled := Function.update f.arpEnabled t true })

theorem enArpFoldp_lfoFM (c : Nat) :
    ∀ (l : List BT.FMOperatorType) (acc : BT.InstrumentsManager),
    (l.foldl (fun (acc : BT.InstrumentsManager) t =>
      BT.InstrumentsManager.updateFM acc c
        (fun f => { f with arpEnabled := Function.update f.arpEnabled t true })) acc).lfoFM = acc.lfoFM := by
  intro l
  induction l with
  | nil => intro acc; rfl
  | cons t l ih =>
    intro acc
    rw [List.foldl_cons, ih _]
    exact updateFM_lfoFM acc c (fun f => { f with arpEnabled := Function.update f.arpEnabled t true })

theorem enArpFoldp_opSeqFM (c : Nat) :
    ∀ (l : List BT.FMOperatorType) (acc : BT.InstrumentsManager),
    (l.foldl (fun (acc : BT.InstrumentsManager) t =>
      BT.InstrumentsManager.updateFM acc c
        (fun f => { f with arpEnabled := Function.update f.arpEnabled t true })) acc).opSeqFM = acc.opSeqFM := by
  intro l
  induction l with
  | nil => intro acc; rfl
  | cons t l ih =>
    intro acc
    rw [List.foldl_cons, ih _]
    exact updateFM_opSeqFM acc c (fun f => { f with arpEnabled := Function.update f.arpEnabled t true })

theorem enArpFoldp_arpFM (c : Nat) :
    ∀ (l : List BT.FMOperatorType) (acc : BT.InstrumentsManager),
    (l.foldl (fun (acc : BT.InstrumentsManager) t =>
      BT.InstrumentsManager.updateFM acc c
        (fun f => { f with arpEnabled := Function.update f.arpEnabled t true })) acc).arpFM = acc.arpFM := by
  intro l
  induction l with
  | nil => intro acc; rfl
  | cons t l ih =>
    intro acc
    rw [List.foldl_cons, ih _]
    exact updateFM_arpFM acc c (fun f => { f with arpEnabled := Function.update f.arpEnabled t true })

theorem enArpFoldp_ptFM (c : Nat) :
    ∀ (l : List BT.FMOperatorType) (acc : BT.InstrumentsManager),
    (l.foldl (fun (acc : BT.InstrumentsManager) t =>
      BT.InstrumentsManager.updateFM acc c
        (fun f => { f with arpEnabled := Function.update f.arpEnabled t true })) acc).ptFM = acc.ptFM := by
  intro l
  induction l with
  | nil => intro acc; rfl
  | cons t l ih =>
    intro acc
    rw [List.foldl_cons, ih _]
    exact updateFM_ptFM acc c (fun f => { f with arpEnabled := Function.update f.arpEnabled t true })

theorem enArpFoldp_wfSSG (c : Nat) :
    ∀ (l : List BT.FMOperatorType) (acc : BT.InstrumentsManager),
    (l.foldl (fun (acc : BT.InstrumentsManager) t =>
      BT.InstrumentsManager.updateFM acc c
        (fun f => { f with arpEnabled := Function.update f.arpEnabled t true })) acc).wfSSG = acc.wfSSG := by
  intro l
  induction l with
  | nil => intro acc; rfl
  | cons t l ih =>
    intro acc
    rw [List.foldl_cons, ih _]
    exact updateFM_wfSSG acc c (fun f => { f with arpEnabled := Function.update f.arpEnabled t true })

theorem enArpFoldp_tnSSG (c : Nat) :
    ∀ (l : List BT.FMOperatorType) (acc : BT.InstrumentsManager),
    (l.foldl (fun (acc : BT.InstrumentsManager) t =>
      BT.InstrumentsManager.updateFM acc c
        (fun f => { f with arpEnabled := Function.update f.arpEnabled t true })) acc).tnSSG = acc.tnSSG := by
  intro l
  induction l with
  | nil => intro acc; rfl
  | cons t l ih =>
    intro acc
    rw [List.foldl_cons, ih _]
    exact updateFM_tnSSG acc c (fun f => { f with arpEnabled := Function.update f.arpEnabled t true })

theorem enArpFoldp_envSSG (c : Nat) :
    ∀ (l : List BT.FMOperatorType) (acc : BT.InstrumentsManager),
    (l.foldl (fun (acc : BT.InstrumentsManager) t =>
      BT.InstrumentsManager.updateFM acc c
        (fun f => { f with arpEnabled := Function.update f.arpEnabled t true })) acc).envSSG = acc.envSSG := by
  intro l
  induction l with
  | nil => intro acc; rfl
  | cons t l ih =>
    intro acc
    rw [List.foldl_cons, ih _]
    exact updateFM_envSSG acc c (fun f => { f with arpEnabled := Function.update f.arpEnabled t true })

theorem enArpFoldp_arpSSG (c : Nat) :
    ∀ (l : List BT.FMOperatorType) (acc : BT.InstrumentsManager),
    (l.foldl (fun (acc : BT.InstrumentsManager) t =>
      BT.InstrumentsManager.updateFM acc c
        (fun f => { f with arpEnabled := Function.update f.arpEnabled t true })) acc).arpSSG = acc.arpSSG := by
  intro l
  induction l with
  | nil => intro acc; rfl
  | cons t l ih =>
    intro acc
    rw [List.foldl_cons, ih _]
    exact updateFM_arpSSG acc c (fun f => { f with arpEnabled := Function.update f.arpEnabled t true })

theorem enArpFoldp_ptSSG (c : Nat) :
    ∀ (l : List BT.FMOperatorType) (acc : BT.InstrumentsManager),
    (l.foldl (fun (acc : BT.InstrumentsManager) t =>
      BT.InstrumentsManager.updateFM acc c
        (fun f => { f with arpEnabled := Function.update f.arpEnabled t true })) acc).ptSSG = acc.ptSSG := by
  intro l
  induction l with
  | nil => intro acc; rfl
  | cons t l ih =>
    intro acc
    rw [List.foldl_cons, ih _]
    exact updateFM_ptSSG acc c (fun f => { f with arpEnabled := Function.update f.arpEnabled t true })

theorem enArpFoldp_wfADPCM (c : Nat) :
    ∀ (l : List BT.FMOperatorType) (acc : BT.InstrumentsManager),
    (l.foldl (fun (acc : BT.InstrumentsManager) t =>
      BT.InstrumentsManager.updateFM acc c
        (fun f => { f with arpEnabled := Function.update f.arpEnabled t true })) acc).wfADPCM = acc.wfADPCM := by
  intro l
  induction l with
  | nil => intro acc; rfl
  | cons t l ih =>
    intro acc
    rw [List.foldl_cons, ih _]
    exact updateFM_wfADPCM acc c (fun f => { f with arpEnabled := Function.update f.arpEnabled t true })

theorem enArpFoldp_envADPCM (c : Nat) :
    ∀ (l : List BT.FMOperatorType) (acc : BT.InstrumentsManager),
    (l.foldl (fun (acc : BT.InstrumentsManager) t =>
      BT.InstrumentsManager.updateFM acc c
        (fun f => { f with arpEnabled := Function.update f.arpEnabled t true })) acc).envADPCM = acc.envADPCM := by
  intro l
  induction l with
  | nil => intro acc; rfl
  | cons t l ih =>
    intro acc
    rw [List.foldl_cons, ih _]
    exact updateFM_envADPCM acc c (fun f => { f with arpEnabled := Function.update f.arpEnabled t true })

theorem enArpFoldp_arpADPCM (c : Nat) :
    ∀ (l : List BT.FMOperatorType) (acc : BT.InstrumentsManager),
    (l.foldl (fun (acc : BT.InstrumentsManager) t =>
      BT.InstrumentsManager.updateFM acc c
        (fun f => { f with arpEnabled := Function.update f.arpEnabled t true })) acc).arpADPCM = acc.arpADPCM := by
  intro l
  induction l with
  | nil => intro acc; rfl
  | cons t l ih =>
    intro acc
    rw [List.foldl_cons, ih _]
    exact updateFM_arpADPCM acc c (fun f => { f with arpEnabled := Function.update f.arpEnabled t true })

theorem enArpFoldp_ptADPCM (c : Nat) :
    ∀ (l : List BT.FMOperatorType) (acc : BT.InstrumentsManager),
    (l.foldl (fun (acc : BT.InstrumentsManager) t =>
      BT.InstrumentsManager.updateFM acc c
        (fun f => { f with arpEnabled := Function.update f.arpEnabled t true })) acc).ptADPCM = acc.ptADPCM := by
  intro l
  induction l with
  | nil => intro acc; rfl
  | cons t l ih =>
    intro acc
    rw [List.foldl_cons, ih _]
    exact updateFM_ptADPCM acc c (fun f => { f with arpEnabled := Function.update f.arpEnabled t true })

theorem enPtFoldp_envFM (c : Nat) :
    ∀ (l : List BT.FMOperatorType) (acc : BT.InstrumentsManager),
    (l.foldl (fun (acc : BT.InstrumentsManager) t =>
      BT.InstrumentsManager.updateFM acc c
        (fun f => { f with ptEnabled := Function.update f.ptEnabled t true })) acc).envFM = acc.envFM := by
  intro l
  induction l with
  | nil => intro acc; rfl
  | cons t l ih =>
    intro acc
    rw [List.foldl_cons, ih _]
    exact updateFM_envFM acc c (fun f => { f with ptEnabled := Function.update f.ptEnabled t true })

theorem enPtFoldp_lfoFM (c : Nat) :
    ∀ (l : List BT.FMOperatorType) (acc : BT.InstrumentsManager),
    (l.foldl (fun (acc : BT.InstrumentsManager) t =>
      BT.InstrumentsManager.updateFM acc c
        (fun f => { f with ptEnabled := Function.update f.ptEnabled t true })) acc).lfoFM = acc.lfoFM := by
  intro l
  induction l with
  | nil => intro acc; rfl
  | cons t l ih =>
    intro acc
    rw [List.foldl_cons, ih _]
    exact updateFM_lfoFM acc c (fun f => { f with ptEnabled := Function.update f.ptEnabled t true })

theorem enPtFoldp_opSeqFM (c : Nat) :
    ∀ (l : List BT.FMOperatorType) (acc : BT.InstrumentsManager),
    (l.foldl (fun (acc : BT.InstrumentsManager) t =>
      BT.InstrumentsManager.updateFM acc c
        (fun f => { f with ptEnabled := Function.update f.ptEnabled t true })) acc).opSeqFM = acc.opSeqFM := by
  intro l
  induction l with
  | nil => intro acc; rfl
  | cons t l ih =>
    intro acc
    rw [List.foldl_cons, ih _]
    exact updateFM_opSeqFM acc c (fun f => { f with ptEnabled := Function.update f.ptEnabled t true })

theorem enPtFoldp_arpFM (c : Nat) :
    ∀ (l : List BT.FMOperatorType) (acc : BT.InstrumentsManager),
    (l.foldl (fun (acc : BT.InstrumentsManager) t =>
      BT.InstrumentsManager.updateFM acc c
        (fun f => { f with ptEnabled := Function.update f.ptEnabled t true })) acc).arpFM = acc.arpFM := by
  intro l
  induction l with
  | nil => intro acc; rfl
  | cons t l ih =>
    intro acc
    rw [List.foldl_cons, ih _]
    exact updateFM_arpFM acc c (fun f => { f with ptEnabled := Function.update f.ptEnabled t true })

theorem enPtFoldp_ptFM (c : Nat) :
    ∀ (l : List BT.FMOperatorType) (acc : BT.InstrumentsManager),
    (l.foldl (fun (acc : BT.InstrumentsManager) t =>
      BT.InstrumentsManager.updateFM acc c
        (fun f => { f with ptEnabled := Function.update f.ptEnabled t true })) acc).ptFM = acc.ptFM := by
  intro l
  induction l with
  | nil => intro acc; rfl
  | cons t l ih =>
    intro acc
    rw [List.foldl_cons, ih _]
    exact updateFM_ptFM acc c (fun f => { f with ptEnabled := Function.update f.ptEnabled t true })

theorem enPtFoldp_wfSSG (c : Nat) :
    ∀ (l : List BT.FMOperatorType) (acc : BT.InstrumentsManager),
    (l.foldl (fun (acc : BT.InstrumentsManager) t =>
      BT.InstrumentsManager.updateFM acc c
        (fun f => { f with ptEnabled := Function.update f.ptEnabled t true })) acc).wfSSG = acc.wfSSG := by
  intro l
  induction l with
  | nil => intro acc; rfl
  | cons t l ih =>
    intro acc
    rw [List.foldl_cons, ih _]
    exact updateFM_wfSSG acc c (fun f => { f with ptEnabled := Function.update f.ptEnabled t true })

theorem enPtFoldp_tnSSG (c : Nat) :
    ∀ (l : List BT.FMOperatorType) (acc : BT.InstrumentsManager),
    (l.foldl (fun (acc : BT.InstrumentsManager) t =>
      BT.InstrumentsManager.updateFM acc c
        (fun f => { f with ptEnabled := Function.update f.ptEnabled t true })) acc).tnSSG = acc.tnSSG := by
  intro l
  induction l with
  | nil => intro acc; rfl
  | cons t l ih =>
    intro acc
    rw [List.foldl_cons, ih _]
    exact updateFM_tnSSG acc c (fun f => { f with ptEnabled := Function.update f.ptEnabled t true })

theorem enPtFoldp_envSSG (c : Nat) :
    ∀ (l : List BT.FMOperatorType) (acc : BT.InstrumentsManager),
    (l.foldl (fun (acc : BT.InstrumentsManager) t =>
      BT.InstrumentsManager.updateFM acc c
        (fun f => { f with ptEnabled := Function.update f.ptEnabled t true })) acc).envSSG = acc.envSSG := by
  intro l
  induction l with
  | nil => intro acc; rfl
  | cons t l ih =>
    intro acc
    rw [List.foldl_cons, ih _]
    exact updateFM_envSSG acc c (fun f => { f with ptEnabled := Function.update f.ptEnabled t true })

theorem enPtFoldp_arpSSG (c : Nat) :
    ∀ (l : List BT.FMOperatorType) (acc : BT.InstrumentsManager),
    (l.foldl (fun (acc : BT.InstrumentsManager) t =>
      BT.InstrumentsManager.updateFM acc c
        (fun f => { f with ptEnabled := Function.update f.ptEnabled t true })) acc).arpSSG = acc.arpSSG := by
  intro l
  induction l with
  | nil => intro acc; rfl
  | cons t l ih =>
    intro acc
    rw [List.foldl_cons, ih _]
    exact updateFM_arpSSG acc c (fun f => { f with ptEnabled := Function.update f.ptEnabled t true })

theorem enPtFoldp_ptSSG (c : Nat) :
    ∀ (l : List BT.FMOperatorType) (acc : BT.InstrumentsManager),
    (l.foldl (fun (acc : BT.InstrumentsManager) t =>
      BT.InstrumentsManager.updateFM acc c
        (fun f => { f with ptEnabled := Function.update f.ptEnabled t true })) acc).ptSSG = acc.ptSSG := by
  intro l
  induction l with
  | nil => intro acc; rfl
  | cons t l ih =>
    intro acc
    rw [List.foldl_cons, ih _]
    exact updateFM_ptSSG acc c (fun f => { f with ptEnabled := Function.update f.ptEnabled t true })

theorem enPtFoldp_wfADPCM (c : Nat) :
    ∀ (l : List BT.FMOperatorType) (acc : BT.InstrumentsManager),
    (l.foldl (fun (acc : BT.InstrumentsManager) t =>
      BT.InstrumentsManager.updateFM acc c
        (fun f => { f with ptEnabled := Function.update f.ptEnabled t true })) acc).wfADPCM = acc.wfADPCM := by
  intro l
  induction l with
  | nil => intro acc; rfl
  | cons t l ih =>
    intro acc
    rw [List.foldl_cons, ih _]
    exact updateFM_wfADPCM acc c (fun f => { f with ptEnabled := Function.update f.ptEnabled t true })

theorem enPtFoldp_envADPCM (c : Nat) :
    ∀ (l : List BT.FMOperatorType) (acc : BT.InstrumentsManager),
    (l.foldl (fun (acc : BT.InstrumentsManager) t =>
      BT.InstrumentsManager.updateFM acc c
        (fun f => { f with ptEnabled := Function.update f.ptEnabled t true })) acc).envADPCM = acc.envADPCM := by
  intro l
  induction l with
  | nil => intro acc; rfl
  | cons t l ih =>
    intro acc
    rw [List.foldl_cons, ih _]
    exact updateFM_envADPCM acc c (fun f => { f with ptEnabled := Function.update f.ptEnabled t true })

theorem enPtFoldp_arpADPCM (c : Nat) :
    ∀ (l : List BT.FMOperatorType) (acc : BT.InstrumentsManager),
    (l.foldl (fun (acc : BT.InstrumentsManager) t =>
      BT.InstrumentsManager.updateFM acc c
        (fun f => { f with ptEnabled := Function.update f.ptEnabled t true })) acc).arpADPCM = acc.arpADPCM := by
  intro l
  induction l with
  | nil => intro acc; rfl
  | cons t l ih =>
    intro acc
    rw [List.foldl_cons, ih _]
    exact updateFM_arpADPCM acc c (fun f => { f with ptEnabled := Function.update f.ptEnabled t true })

theorem enPtFoldp_ptADPCM (c : Nat) :
    ∀ (l : List BT.FMOperatorType) (acc : BT.InstrumentsManager),
    (l.foldl (fun (acc : BT.InstrumentsManager) t =>
      BT.InstrumentsManager.updateFM acc c
        (fun f => { f with ptEnabled := Function.update f.ptEnabled t true })) acc).ptADPCM = acc.ptADPCM := by
  intro l
  induction l with
  | nil => intro acc; rfl
  | cons t l ih =>
    intro acc
    rw [List.foldl_cons, ih _]
    exact updateFM_ptADPCM acc c (fun f => { f with ptEnabled := Function.update f.ptEnabled t true })

theorem asgArpFoldp_envFM (refFm : BT.InstrumentFM) (c : Nat) (L : Nat → Nat) :
    ∀ (l : List BT.FMOperatorType) (acc : BT.InstrumentsManager),
    (l.foldl (fun (acc : BT.InstrumentsManager) t =>
      if refFm.arpEnabled t then
        let n := L (refFm.arpNumber t)
        let ma := BT.InstrumentsManager.updateFM acc c
          (fun f => { f with arpNumber := Function.update f.arpNumber t n })
        { ma with arpFM := ma.arpFM.registerUser n c }
      else acc) acc).envFM = acc.envFM := by
  intro l
  induction l with
  | nil => intro acc; rfl
  | cons t l ih =>
    intro acc
    rw [List.foldl_cons, ih _]
    by_cases hb : refFm.arpEnabled t = true
    · simp only [if_pos hb]
      show ((BT.InstrumentsManager.updateFM acc c (fun f => { f with arpNumber := Function.update f.arpNumber t (L (refFm.arpNumber t)) }))).envFM = acc.envFM
      exact updateFM_envFM acc c (fun f => { f with arpNumber := Function.update f.arpNumber t (L (refFm.arpNumber t)) })
    · simp only [if_neg hb]

theorem asgArpFoldp_lfoFM (refFm : BT.InstrumentFM) (c : Nat) (L : Nat → Nat) :
    ∀ (l : List BT.FMOperatorType) (acc : BT.InstrumentsManager),
    (l.foldl (fun (acc : BT.InstrumentsManager) t =>
      if refFm.arpEnabled t then
        let n := L (refFm.arpNumber t)
        let ma := BT.InstrumentsManager.updateFM acc c
          (fun f => { f with arpNumber := Function.update f.arpNumber t n })
        { ma with arpFM := ma.arpFM.registerUser n c }
      else acc) acc).lfoFM = acc.lfoFM := by
  intro l
  induction l with
  | nil => intro acc; rfl
  | cons t l ih =>
    intro acc
    rw [List.foldl_cons, ih _]
    by_cases hb : refFm.arpEnabled t = true
    · simp only [if_pos hb]
      show ((BT.InstrumentsManager.updateFM acc c (fun f => { f with arpNumber := Function.update f.arpNumber t (L (refFm.arpNumber t)) }))).lfoFM = acc.lfoFM
      exact updateFM_lfoFM acc c (fun f => { f with arpNumber := Function.update f.arpNumber t (L (refFm.arpNumber t)) })
    · simp only [if_neg hb]

theorem asgArpFoldp_opSeqFM (refFm : BT.InstrumentFM) (c : Nat) (L : Nat → Nat) :
    ∀ (l : List BT.FMOperatorType) (acc : BT.InstrumentsManager),
    (l.foldl (fun (acc : BT.InstrumentsManager) t =>
      if refFm.arpEnabled t then
        let n := L (refFm.arpNumber t)
        let ma := BT.InstrumentsManager.updateFM acc c
          (fun f => { f with arpNumber := Function.update f.arpNumber t n })
        { ma with arpFM := ma.arpFM.registerUser n c }
      else acc) acc).opSeqFM = acc.opSeqFM := by
  intro l
  induction l with
  | nil => intro acc; rfl
  | cons t l ih =>
    intro acc
    rw [List.foldl_cons, ih _]
    by_cases hb : refFm.arpEnabled t = true
    · simp only [if_pos hb]
      show ((BT.InstrumentsManager.updateFM acc c (fun f => { f with arpNumber := Function.update f.arpNumber t (L (refFm.arpNumber t)) }))).opSeqFM = acc.opSeqFM
      exact updateFM_opSeqFM acc c (fun f => { f with arpNumber := Function.update f.arpNumber t (L (refFm.arpNumber t)) })
    · simp only [if_neg hb]

theorem asgArpFoldp_ptFM (refFm : BT.InstrumentFM) (c : Nat) (L : Nat → Nat) :
    ∀ (l : List BT.FMOperatorType) (acc : BT.InstrumentsManager),
    (l.foldl (fun (acc : BT.InstrumentsManager) t =>
      if refFm.arpEnabled t then
        let n := L (refFm.arpNumber t)
        let ma := BT.InstrumentsManager.updateFM acc c
          (fun f => { f with arpNumber := Function.update f.arpNumber t n })
        { ma with arpFM := ma.arpFM.registerUser n c }
      else acc) acc).ptFM = acc.ptFM := by
  intro l
  induction l with
  | nil => intro acc; rfl
  | cons t l ih =>
    intro acc
    rw [List.foldl_cons, ih _]
    by_cases hb : refFm.arpEnabled t = true
    · simp only [if_pos hb]
      show ((BT.InstrumentsManager.updateFM acc c (fun f => { f with arpNumber := Function.update f.arpNumber t (L (refFm.arpNumber t)) }))).ptFM = acc.ptFM
      exact updateFM_ptFM acc c (fun f => { f with arpNumber := Function.update f.arpNumber t (L (refFm.arpNumber t)) })
    · simp only [if_neg hb]

theorem asgArpFoldp_wfSSG (refFm : BT.InstrumentFM) (c : Nat) (L : Nat → Nat) :
    ∀ (l : List BT.FMOperatorType) (acc : BT.InstrumentsManager),
    (l.foldl (fun (acc : BT.InstrumentsManager) t =>
      if refFm.arpEnabled t then
        let n := L (refFm.arpNumber t)
        let ma := BT.InstrumentsManager.updateFM acc c
          (fun f => { f with arpNumber := Function.update f.arpNumber t n })
        { ma with arpFM := ma.arpFM.registerUser n c }
      else acc) acc).wfSSG = acc.wfSSG := by
  intro l
  induction l with
  | nil => intro acc; rfl
  | cons t l ih =>
    intro acc
    rw [List.foldl_cons, ih _]
    by_cases hb : refFm.arpEnabled t = true
    · simp only [if_pos hb]
      show ((BT.InstrumentsManager.updateFM acc c (fun f => { f with arpNumber := Function.update f.arpNumber t (L (refFm.arpNumber t)) }))).wfSSG = acc.wfSSG
      exact updateFM_wfSSG acc c (fun f => { f with arpNumber := Function.update f.arpNumber t (L (refFm.arpNumber t)) })
    · simp only [if_neg hb]

theorem asgArpFoldp_tnSSG (refFm : BT.InstrumentFM) (c : Nat) (L : Nat → Nat) :
    ∀ (l : List BT.FMOperatorType) (acc : BT.InstrumentsManager),
    (l.foldl (fun (acc : BT.InstrumentsManager) t =>
      if refFm.arpEnabled t then
        let n := L (refFm.arpNumber t)
        let ma := BT.InstrumentsManager.updateFM acc c
          (fun f => { f with arpNumber := Function.update f.arpNumber t n })
        { ma with arpFM := ma.arpFM.registerUser n c }
      else acc) acc).tnSSG = acc.tnSSG := by
  intro l
  induction l with
  | nil => intro acc; rfl
  | cons t l ih =>
    intro acc
    rw [List.foldl_cons, ih _]
    by_cases hb : refFm.arpEnabled t = true
    · simp only [if_pos hb]
      show ((BT.InstrumentsManager.updateFM acc c (fun f => { f with arpNumber := Function.update f.arpNumber t (L (refFm.arpNumber t)) }))).tnSSG = acc.tnSSG
      exact updateFM_tnSSG acc c (fun f => { f with arpNumber := Function.update f.arpNumber t (L (refFm.arpNumber t)) })
    · simp only [if_neg hb]

theorem asgArpFoldp_envSSG (refFm : BT.InstrumentFM) (c : Nat) (L : Nat → Nat) :
    ∀ (l : List BT.FMOperatorType) (acc : BT.InstrumentsManager),
    (l.foldl (fun (acc : BT.InstrumentsManager) t =>
      if refFm.arpEnabled t then
        let n := L (refFm.arpNumber t)
        let ma := BT.InstrumentsManager.updateFM acc c
          (fun f => { f with arpNumber := Function.update f.arpNumber t n })
        { ma with arpFM := ma.arpFM.registerUser n c }
      else acc) acc).envSSG = acc.envSSG := by
  intro l
  induction l with
  | nil => intro acc; rfl
  | cons t l ih =>
    intro acc
    rw [List.foldl_cons, ih _]
    by_cases hb : refFm.arpEnabled t = true
    · simp only [if_pos hb]
      show ((BT.InstrumentsManager.updateFM acc c (fun f => { f with arpNumber := Function.update f.arpNumber t (L (refFm.arpNumber t)) }))).envSSG = acc.envSSG
      exact updateFM_envSSG acc c (fun f => { f with arpNumber := Function.update f.arpNumber t (L (refFm.arpNumber t)) })
    · simp only [if_neg hb]

theorem asgArpFoldp_arpSSG (refFm : BT.InstrumentFM) (c : Nat) (L : Nat → Nat) :
    ∀ (l : List BT.FMOperatorType) (acc : BT.InstrumentsManager),
    (l.foldl (fun (acc : BT.InstrumentsManager) t =>
      if refFm.arpEnabled t then
        let n := L (refFm.arpNumber t)
        let ma := BT.InstrumentsManager.updateFM acc c
          (fun f => { f with arpNumber := Function.update f.arpNumber t n })
        { ma with arpFM := ma.arpFM.registerUser n c }
      else acc) acc).arpSSG = acc.arpSSG := by
  intro l
  induction l with
  | nil => intro acc; rfl
  | cons t l ih =>
    intro acc
    rw [List.foldl_cons, ih _]
    by_cases hb : refFm.arpEnabled t = true
    · simp only [if_pos hb]
      show ((BT.InstrumentsManager.updateFM acc c (fun f => { f with arpNumber := Function.update f.arpNumber t (L (refFm.arpNumber t)) }))).arpSSG = acc.arpSSG
      exact updateFM_arpSSG acc c (fun f => { f with arpNumber := Function.update f.arpNumber t (L (refFm.arpNumber t)) })
    · simp only [if_neg hb]

theorem asgArpFoldp_ptSSG (refFm : BT.InstrumentFM) (c : Nat) (L : Nat → Nat) :
    ∀ (l : List BT.FMOperatorType) (acc : BT.InstrumentsManager),
    (l.foldl (fun (acc : BT.InstrumentsManager) t =>
      if refFm.arpEnabled t then
        let n := L (refFm.arpNumber t)
        let ma := BT.InstrumentsManager.updateFM acc c
          (fun f => { f with arpNumber := Function.update f.arpNumber t n })
        { ma with arpFM := ma.arpFM.registerUser n c }
      else acc) acc).ptSSG = acc.ptSSG := by
  intro l
  induction l with
  | nil => intro acc; rfl
  | cons t l ih =>
    intro acc
    rw [List.foldl_cons, ih _]
    by_cases hb : refFm.arpEnabled t = true
    · simp only [if_pos hb]
      show ((BT.InstrumentsManager.updateFM acc c (fun f => { f with arpNumber := Function.update f.arpNumber t (L (refFm.arpNumber t)) }))).ptSSG = acc.ptSSG
      exact updateFM_ptSSG acc c (fun f => { f with arpNumber := Function.update f.arpNumber t (L (refFm.arpNumber t)) })
    · simp only [if_neg hb]

theorem asgArpFoldp_wfADPCM (refFm : BT.InstrumentFM) (c : Nat) (L : Nat → Nat) :
    ∀ (l : List BT.FMOperatorType) (acc : BT.InstrumentsManager),
    (l.foldl (fun (acc : BT.InstrumentsManager) t =>
      if refFm.arpEnabled t then
        let n := L (refFm.arpNumber t)
        let ma := BT.InstrumentsManager.updateFM acc c
          (fun f => { f with arpNumber := Function.update f.arpNumber t n })
        { ma with arpFM := ma.arpFM.registerUser n c }
      else acc) acc).wfADPCM = acc.wfADPCM := by
  intro l
  induction l with
  | nil => intro acc; rfl
  | cons t l ih =>
    intro acc
    rw [List.foldl_cons, ih _]
    by_cases hb : refFm.arpEnabled t = true
    · simp only [if_pos hb]
      show ((BT.InstrumentsManager.updateFM acc c (fun f => { f with arpNumber := Function.update f.arpNumber t (L (refFm.arpNumber t)) }))).wfADPCM = acc.wfADPCM
      exact updateFM_wfADPCM acc c (fun f => { f with arpNumber := Function.update f.arpNumber t (L (refFm.arpNumber t)) })
    · simp only [if_neg hb]

theorem asgArpFoldp_envADPCM (refFm : BT.InstrumentFM) (c : Nat) (L : Nat → Nat) :
    ∀ (l : List BT.FMOperatorType) (acc : BT.InstrumentsManager),
    (l.foldl (fun (acc : BT.InstrumentsManager) t =>
      if refFm.arpEnabled t then
        let n := L (refFm.arpNumber t)
        let ma := BT.InstrumentsManager.updateFM acc c
          (fun f => { f with arpNumber := Function.update f.arpNumber t n })
        { ma with arpFM := ma.arpFM.registerUser n c }
      else acc) acc).envADPCM = acc.envADPCM := by
  intro l
  induction l with
  | nil => intro acc; rfl
  | cons t l ih =>
    intro acc
    rw [List.foldl_cons, ih _]
    by_cases hb : refFm.arpEnabled t = true
    · simp only [if_pos hb]
      show ((BT.InstrumentsManager.updateFM acc c (fun f => { f with arpNumber := Function.update f.arpNumber t (L (refFm.arpNumber t)) }))).envADPCM = acc.envADPCM
      exact updateFM_envADPCM acc c (fun f => { f with arpNumber := Function.update f.arpNumber t (L (refFm.arpNumber t)) })
    · simp only [if_neg hb]

theorem asgArpFoldp_arpADPCM (refFm : BT.InstrumentFM) (c : Nat) (L : Nat → Nat) :
    ∀ (l : List BT.FMOperatorType) (acc : BT.InstrumentsManager),
    (l.foldl (fun (acc : BT.InstrumentsManager) t =>
      if refFm.arpEnabled t then
        let n := L (refFm.arpNumber t)
        let ma := BT.InstrumentsManager.updateFM acc c
          (fun f => { f with arpNumber := Function.update f.arpNumber t n })
        { ma with arpFM := ma.arpFM.registerUser n c }
      else acc) acc).arpADPCM = acc.arpADPCM := by
  intro l
  induction l with
  | nil => intro acc; rfl
  | cons t l ih =>
    intro acc
    rw [List.foldl_cons, ih _]
    by_cases hb : refFm.arpEnabled t = true
    · simp only [if_pos hb]
      show ((BT.InstrumentsManager.updateFM acc c (fun f => { f with arpNumber := Function.update f.arpNumber t (L (refFm.arpNumber t)) }))).arpADPCM = acc.arpADPCM
      exact updateFM_arpADPCM acc c (fun f => { f with arpNumber := Function.update f.arpNumber t (L (refFm.arpNumber t)) })
    · simp only [if_neg hb]

theorem asgArpFoldp_ptADPCM (refFm : BT.InstrumentFM) (c : Nat) (L : Nat → Nat) :
    ∀ (l : List BT.FMOperatorType) (acc : BT.InstrumentsManager),
    (l.foldl (fun (acc : BT.InstrumentsManager) t =>
      if refFm.arpEnabled t then
        let n := L (refFm.arpNumber t)
        let ma := BT.InstrumentsManager.updateFM acc c
          (fun f => { f with arpNumber := Function.update f.arpNumber t n })
        { ma with arpFM := ma.arpFM.registerUser n c }
      else acc) acc).ptADPCM = acc.ptADPCM := by
  intro l
  induction l with
  | nil => intro acc; rfl
  | cons t l ih =>
    intro acc
    rw [List.foldl_cons, ih _]
    by_cases hb : refFm.arpEnabled t = true
    · simp only [if_pos hb]
      show ((BT.InstrumentsManager.updateFM acc c (fun f => { f with arpNumber := Function.update f.arpNumber t (L (refFm.arpNumber t)) }))).ptADPCM = acc.ptADPCM
      exact updateFM_ptADPCM acc c (fun f => { f with arpNumber := Function.update f.arpNumber t (L (refFm.arpNumber t)) })
    · simp only [if_neg hb]

set_option maxHeartbeats 1000000 in
/-- The arp assign-and-register fold registers the clone only at
slots free in the base reference-set map. -/
theorem gf_asgArp (refFm : BT.InstrumentFM) (c : Nat) (L : Nat → Nat)
    (u0 : Nat → Finset ℕ) :
    ∀ (l : List BT.FMOperatorType) (acc : BT.InstrumentsManager),
    GrowsFresh c u0 (usersOf acc.arpFM) →
    (∀ t ∈ l, refFm.arpEnabled t = true →
      (L (refFm.arpNumber t) < 128 → u0 (L (refFm.arpNumber t)) = ∅)) →
    GrowsFresh c u0 (usersOf ((l.foldl (fun (acc : BT.InstrumentsManager) t =>
      if refFm.arpEnabled t then
        let n := L (refFm.arpNumber t)
        let ma := BT.InstrumentsManager.updateFM acc c
          (fun f => { f with arpNumber := Function.update f.arpNumber t n })
        { ma with arpFM := ma.arpFM.registerUser n c }
      else acc) acc).arpFM)) := by
  intro l
  induction l with
  | nil => intro acc hacc _; exact hacc
  | cons t l ih =>
    intro acc hacc hl
    rw [List.foldl_cons]
    refine ih _ ?_ (fun t2 ht2 => hl t2 (List.mem_cons_of_mem t ht2))
    by_cases hb : refFm.arpEnabled t = true
    · simp only [if_pos hb]
      refine gf_register_inv ?_ (hl t (List.mem_cons_self t l) hb)
      rw [updateFM_arpFM acc c (fun f => { f with arpNumber := Function.update f.arpNumber t (L (refFm.arpNumber t)) })]
      exact hacc
    · simp only [if_neg hb]
      exact hacc

theorem asgPtFoldp_envFM (refFm : BT.InstrumentFM) (c : Nat) (L : Nat → Nat) :
    ∀ (l : List BT.FMOperatorType) (acc : BT.InstrumentsManager),
    (l.foldl (fun (acc : BT.InstrumentsManager) t =>
      if refFm.ptEnabled t then
        let n := L (refFm.ptNumber t)
        let ma := BT.InstrumentsManager.updateFM acc c
          (fun f => { f with ptNumber := Function.update f.ptNumber t n })
        { ma with ptFM := ma.ptFM.registerUser n c }
      else acc) acc).envFM = acc.envFM := by
  intro l
  induction l with
  | nil => intro acc; rfl
  | cons t l ih =>
    intro acc
    rw [List.foldl_cons, ih _]
    by_cases hb : refFm.ptEnabled t = true
    · simp only [if_pos hb]
      show ((BT.InstrumentsManager.updateFM acc c (fun f => { f with ptNumber := Function.update f.ptNumber t (L (refFm.ptNumber t)) }))).envFM = acc.envFM
      exact updateFM_envFM acc c (fun f => { f with ptNumber := Function.update f.ptNumber t (L (refFm.ptNumber t)) })
    · simp only [if_neg hb]

theorem asgPtFoldp_lfoFM (refFm : BT.InstrumentFM) (c : Nat) (L : Nat → Nat) :
    ∀ (l : List BT.FMOperatorType) (acc : BT.InstrumentsManager),
    (l.foldl (fun (acc : BT.InstrumentsManager) t =>
      if refFm.ptEnabled t then
        let n := L (refFm.ptNumber t)
        let ma := BT.InstrumentsManager.updateFM acc c
          (fun f => { f with ptNumber := Function.update f.ptNumber t n })
        { ma with ptFM := ma.ptFM.registerUser n c }
      else acc) acc).lfoFM = acc.lfoFM := by
  intro l
  induction l with
  | nil => intro acc; rfl
  | cons t l ih =>
    intro acc
    rw [List.foldl_cons, ih _]
    by_cases hb : refFm.ptEnabled t = true
    · simp only [if_pos hb]
      show ((BT.InstrumentsManager.updateFM acc c (fun f => { f with ptNumber := Function.update f.ptNumber t (L (refFm.ptNumber t)) }))).lfoFM = acc.lfoFM
      exact updateFM_lfoFM acc c (fun f => { f with ptNumber := Function.update f.ptNumber t (L (refFm.ptNumber t)) })
    · simp only [if_neg hb]

theorem asgPtFoldp_opSeqFM (refFm : BT.InstrumentFM) (c : Nat) (L : Nat → Nat) :
    ∀ (l : List BT.FMOperatorType) (acc : BT.InstrumentsManager),
    (l.foldl (fun (acc : BT.InstrumentsManager) t =>
      if refFm.ptEnabled t then
        let n := L (refFm.ptNumber t)
        let ma := BT.InstrumentsManager.updateFM acc c
          (fun f => { f with ptNumber := Function.update f.ptNumber t n })
        { ma with ptFM := ma.ptFM.registerUser n c }
      else acc) acc).opSeqFM = acc.opSeqFM := by
  intro l
  induction l with
  | nil => intro acc; rfl
  | cons t l ih =>
    intro acc
    rw [List.foldl_cons, ih _]
    by_cases hb : refFm.ptEnabled t = true
    · simp only [if_pos hb]
      show ((BT.InstrumentsManager.updateFM acc c (fun f => { f with ptNumber := Function.update f.ptNumber t (L (refFm.ptNumber t)) }))).opSeqFM = acc.opSeqFM
      exact updateFM_opSeqFM acc c (fun f => { f with ptNumber := Function.update f.ptNumber t (L (refFm.ptNumber t)) })
    · simp only [if_neg hb]

theorem asgPtFoldp_arpFM (refFm : BT.InstrumentFM) (c : Nat) (L : Nat → Nat) :
    ∀ (l : List BT.FMOperatorType) (acc : BT.InstrumentsManager),
    (l.foldl (fun (acc : BT.InstrumentsManager) t =>
      if refFm.ptEnabled t then
        let n := L (refFm.ptNumber t)
        let ma := BT.InstrumentsManager.updateFM acc c
          (fun f => { f with ptNumber := Function.update f.ptNumber t n })
        { ma with ptFM := ma.ptFM.registerUser n c }
      else acc) acc).arpFM = acc.arpFM := by
  intro l
  induction l with
  | nil => intro acc; rfl
  | cons t l ih =>
    intro acc
    rw [List.foldl_cons, ih _]
    by_cases hb : refFm.ptEnabled t = true
    · simp only [if_pos hb]
      show ((BT.InstrumentsManager.updateFM acc c (fun f => { f with ptNumber := Function.update f.ptNumber t (L (refFm.ptNumber t)) }))).arpFM = acc.arpFM
      exact updateFM_arpFM acc c (fun f => { f with ptNumber := Function.update f.ptNumber t (L (refFm.ptNumber t)) })
    · simp only [if_neg hb]

theorem asgPtFoldp_wfSSG (refFm : BT.InstrumentFM) (c : Nat) (L : Nat → Nat) :
    ∀ (l : List BT.FMOperatorType) (acc : BT.InstrumentsManager),
    (l.foldl (fun (acc : BT.InstrumentsManager) t =>
      if refFm.ptEnabled t then
        let n := L (refFm.ptNumber t)
        let ma := BT.InstrumentsManager.updateFM acc c
          (fun f => { f with ptNumber := Function.update f.ptNumber t n })
        { ma with ptFM := ma.ptFM.registerUser n c }
      else acc) acc).wfSSG = acc.wfSSG := by
  intro l
  induction l with
  | nil => intro acc; rfl
  | cons t l ih =>
    intro acc
    rw [List.foldl_cons, ih _]
    by_cases hb : refFm.ptEnabled t = true
    · simp only [if_pos hb]
      show ((BT.InstrumentsManager.updateFM acc c (fun f => { f with ptNumber := Function.update f.ptNumber t (L (refFm.ptNumber t)) }))).wfSSG = acc.wfSSG
      exact updateFM_wfSSG acc c (fun f => { f with ptNumber := Function.update f.ptNumber t (L (refFm.ptNumber t)) })
    · simp only [if_neg hb]

theorem asgPtFoldp_tnSSG (refFm : BT.InstrumentFM) (c : Nat) (L : Nat → Nat) :
    ∀ (l : List BT.FMOperatorType) (acc : BT.InstrumentsManager),
    (l.foldl (fun (acc : BT.InstrumentsManager) t =>
      if refFm.ptEnabled t then
        let n := L (refFm.ptNumber t)
        let ma := BT.InstrumentsManager.updateFM acc c
          (fun f => { f with ptNumber := Function.update f.ptNumber t n })
        { ma with ptFM := ma.ptFM.registerUser n c }
      else acc) acc).tnSSG = acc.tnSSG := by
  intro l
  induction l with
  | nil => intro acc; rfl
  | cons t l ih =>
    intro acc
    rw [List.foldl_cons, ih _]
    by_cases hb : refFm.ptEnabled t = true
    · simp only [if_pos hb]
      show ((BT.InstrumentsManager.updateFM acc c (fun f => { f with ptNumber := Function.update f.ptNumber t (L (refFm.ptNumber t)) }))).tnSSG = acc.tnSSG
      exact updateFM_tnSSG acc c (fun f => { f with ptNumber := Function.update f.ptNumber t (L (refFm.ptNumber t)) })
    · simp only [if_neg hb]

theorem asgPtFoldp_envSSG (refFm : BT.InstrumentFM) (c : Nat) (L : Nat → Nat) :
    ∀ (l : List BT.FMOperatorType) (acc : BT.InstrumentsManager),
    (l.foldl (fun (acc : BT.InstrumentsManager) t =>
      if refFm.ptEnabled t then
        let n := L (refFm.ptNumber t)
        let ma := BT.InstrumentsManager.updateFM acc c
          (fun f => { f with ptNumber := Function.update f.ptNumber t n })
        { ma with ptFM := ma.ptFM.registerUser n c }
      else acc) acc).envSSG = acc.envSSG := by
  intro l
  induction l with
  | nil => intro acc; rfl
  | cons t l ih =>
    intro acc
    rw [List.foldl_cons, ih _]
    by_cases hb : refFm.ptEnabled t = true
    · simp only [if_pos hb]
      show ((BT.InstrumentsManager.updateFM acc c (fun f => { f with ptNumber := Function.update f.ptNumber t (L (refFm.ptNumber t)) }))).envSSG = acc.envSSG
      exact updateFM_envSSG acc c (fun f => { f with ptNumber := Function.update f.ptNumber t (L (refFm.ptNumber t)) })
    · simp only [if_neg hb]

theorem asgPtFoldp_arpSSG (refFm : BT.InstrumentFM) (c : Nat) (L : Nat → Nat) :
    ∀ (l : List BT.FMOperatorType) (acc : BT.InstrumentsManager),
    (l.foldl (fun (acc : BT.InstrumentsManager) t =>
      if refFm.ptEnabled t then
        let n := L (refFm.ptNumber t)
        let ma := BT.InstrumentsManager.updateFM acc c
          (fun f => { f with ptNumber := Function.update f.ptNumber t n })
        { ma with ptFM := ma.ptFM.registerUser n c }
      else acc) acc).arpSSG = acc.arpSSG := by
  intro l
  induction l with
  | nil => intro acc; rfl
  | cons t l ih =>
    intro acc
    rw [List.foldl_cons, ih _]
    by_cases hb : refFm.ptEnabled t = true
    · simp only [if_pos hb]
      show ((BT.InstrumentsManager.updateFM acc c (fun f => { f with ptNumber := Function.update f.ptNumber t (L (refFm.ptNumber t)) }))).arpSSG = acc.arpSSG
      exact updateFM_arpSSG acc c (fun f => { f with ptNumber := Function.update f.ptNumber t (L (refFm.ptNumber t)) })
    · simp only [if_neg hb]

theorem asgPtFoldp_ptSSG (refFm : BT.InstrumentFM) (c : Nat) (L : Nat → Nat) :
    ∀ (l : List BT.FMOperatorType) (acc : BT.InstrumentsManager),
    (l.foldl (fun (acc : BT.InstrumentsManager) t =>
      if refFm.ptEnabled t then
        let n := L (refFm.ptNumber t)
        let ma := BT.InstrumentsManager.updateFM acc c
          (fun f => { f with ptNumber := Function.update f.ptNumber t n })
        { ma with ptFM := ma.ptFM.registerUser n c }
      else acc) acc).ptSSG = acc.ptSSG := by
  intro l
  induction l with
  | nil => intro acc; rfl
  | cons t l ih =>
    intro acc
    rw [List.foldl_cons, ih _]
    by_cases hb : refFm.ptEnabled t = true
    · simp only [if_pos hb]
      show ((BT.InstrumentsManager.updateFM acc c (fun f => { f with ptNumber := Function.update f.ptNumber t (L (refFm.ptNumber t)) }))).ptSSG = acc.ptSSG
      exact updateFM_ptSSG acc c (fun f => { f with ptNumber := Function.update f.ptNumber t (L (refFm.ptNumber t)) })
    · simp only [if_neg hb]

theorem asgPtFoldp_wfADPCM (refFm : BT.InstrumentFM) (c : Nat) (L : Nat → Nat) :
    ∀ (l : List BT.FMOperatorType) (acc : BT.InstrumentsManager),
    (l.foldl (fun (acc : BT.InstrumentsManager) t =>
      if refFm.ptEnabled t then
        let n := L (refFm.ptNumber t)
        let ma := BT.InstrumentsManager.updateFM acc c
          (fun f => { f with ptNumber := Function.update f.ptNumber t n })
        { ma with ptFM := ma.ptFM.registerUser n c }
      else acc) acc).wfADPCM = acc.wfADPCM := by
  intro l
  induction l with
  | nil => intro acc; rfl
  | cons t l ih =>
    intro acc
    rw [List.foldl_cons, ih _]
    by_cases hb : refFm.ptEnabled t = true
    · simp only [if_pos hb]
      show ((BT.InstrumentsManager.updateFM acc c (fun f => { f with ptNumber := Function.update f.ptNumber t (L (refFm.ptNumber t)) }))).wfADPCM = acc.wfADPCM
      exact updateFM_wfADPCM acc c (fun f => { f with ptNumber := Function.update f.ptNumber t (L (refFm.ptNumber t)) })
    · simp only [if_neg hb]

theorem asgPtFoldp_envADPCM (refFm : BT.InstrumentFM) (c : Nat) (L : Nat → Nat) :
    ∀ (l : List BT.FMOperatorType) (acc : BT.InstrumentsManager),
    (l.foldl (fun (acc : BT.InstrumentsManager) t =>
      if refFm.ptEnabled t then
        let n := L (refFm.ptNumber t)
        let ma := BT.InstrumentsManager.updateFM acc c
          (fun f => { f with ptNumber := Function.update f.ptNumber t n })
        { ma with ptFM := ma.ptFM.registerUser n c }
      else acc) acc).envADPCM = acc.envADPCM := by
  intro l
  induction l with
  | nil => intro acc; rfl
  | cons t l ih =>
    intro acc
    rw [List.foldl_cons, ih _]
    by_cases hb : refFm.ptEnabled t = true
    · simp only [if_pos hb]
      show ((BT.InstrumentsManager.updateFM acc c (fun f => { f with ptNumber := Function.update f.ptNumber t (L (refFm.ptNumber t)) }))).envADPCM = acc.envADPCM
      exact updateFM_envADPCM acc c (fun f => { f with ptNumber := Function.update f.ptNumber t (L (refFm.ptNumber t)) })
    · simp only [if_neg hb]

theorem asgPtFoldp_arpADPCM (refFm : BT.InstrumentFM) (c : Nat) (L : Nat → Nat) :
    ∀ (l : List BT.FMOperatorType) (acc : BT.InstrumentsManager),
    (l.foldl (fun (acc : BT.InstrumentsManager) t =>
      if refFm.ptEnabled t then
        let n := L (refFm.ptNumber t)
        let ma := BT.InstrumentsManager.updateFM acc c
          (fun f => { f with ptNumber := Function.update f.ptNumber t n })
        { ma with ptFM := ma.ptFM.registerUser n c }
      else acc) acc).arpADPCM = acc.arpADPCM := by
  intro l
  induction l with
  | nil => intro acc; rfl
  | cons t l ih =>
    intro acc
    rw [List.foldl_cons, ih _]
    by_cases hb : refFm.ptEnabled t = true
    · simp only [if_pos hb]
      show ((BT.InstrumentsManager.updateFM acc c (fun f => { f with ptNumber := Function.update f.ptNumber t (L (refFm.ptNumber t)) }))).arpADPCM = acc.arpADPCM
      exact updateFM_arpADPCM acc c (fun f => { f with ptNumber := Function.update f.ptNumber t (L (refFm.ptNumber t)) })
    · simp only [if_neg hb]

theorem asgPtFoldp_ptADPCM (refFm : BT.InstrumentFM) (c : Nat) (L : Nat → Nat) :
    ∀ (l : List BT.FMOperatorType) (acc : BT.InstrumentsManager),
    (l.foldl (fun (acc : BT.InstrumentsManager) t =>
      if refFm.ptEnabled t then
        let n := L (refFm.ptNumber t)
        let ma := BT.InstrumentsManager.updateFM acc c
          (fun f => { f with ptNumber := Function.update f.ptNumber t n })
        { ma with ptFM := ma.ptFM.registerUser n c }
      else acc) acc).ptADPCM = acc.ptADPCM := by
  intro l
  induction l with
  | nil => intro acc; rfl
  | cons t l ih =>
    intro acc
    rw [List.foldl_cons, ih _]
    by_cases hb : refFm.ptEnabled t = true
    · simp only [if_pos hb]
      show ((BT.InstrumentsManager.updateFM acc c (fun f => { f with ptNumber := Function.update f.ptNumber t (L (refFm.ptNumber t)) }))).ptADPCM = acc.ptADPCM
      exact updateFM_ptADPCM acc c (fun f => { f with ptNumber := Function.update f.ptNumber t (L (refFm.ptNumber t)) })
    · simp only [if_neg hb]

set_option maxHeartbeats 1000000 in
/-- The pt assign-and-register fold registers the clone only at
slots free in the base reference-set map. -/
theorem gf_asgPt (refFm : BT.InstrumentFM) (c : Nat) (L : Nat → Nat)
    (u0 : Nat → Finset ℕ) :
    ∀ (l : List BT.FMOperatorType) (acc : BT.InstrumentsManager),
    GrowsFresh c u0 (usersOf acc.ptFM) →
    (∀ t ∈ l, refFm.ptEnabled t = true →
      (L (refFm.ptNumber t) < 128 → u0 (L (refFm.ptNumber t)) = ∅)) →
    GrowsFresh c u0 (usersOf ((l.foldl (fun (acc : BT.InstrumentsManager) t =>
      if refFm.ptEnabled t then
        let n := L (refFm.ptNumber t)
        let ma := BT.InstrumentsManager.updateFM acc c
          (fun f => { f with ptNumber := Function.update f.ptNumber t n })
        { ma with ptFM := ma.ptFM.registerUser n c }
      else acc) acc).ptFM)) := by
  intro l
  induction l with
  | nil => intro acc hacc _; exact hacc
  | cons t l ih =>
    intro acc hacc hl
    rw [List.foldl_cons]
    refine ih _ ?_ (fun t2 ht2 => hl t2 (List.mem_cons_of_mem t ht2))
    by_cases hb : refFm.ptEnabled t = true
    · simp only [if_pos hb]
      refine gf_register_inv ?_ (hl t (List.mem_cons_self t l) hb)
      rw [updateFM_ptFM acc c (fun f => { f with ptNumber := Function.update f.ptNumber t (L (refFm.ptNumber t)) })]
      exact hacc
    · simp only [if_neg hb]
      exact hacc

theorem arpCloneFold_mono :
    ∀ (l : List Nat) (acc : List (Nat × Nat) × BT.InstrumentsManager),
    ∀ pr ∈ acc.1, pr ∈ (l.foldl (fun (acc : List (Nat × Nat) × BT.InstrumentsManager) a =>
      let r := acc.2.cloneFMArpeggio a
      (acc.1 ++ [(a, r.1)], r.2)) acc).1 := by
  intro l
  induction l with
  | nil => intro acc pr h; exact h
  | cons a l ih =>
    intro acc pr h
    rw [List.foldl_cons]
    refine ih _ pr ?_
    show pr ∈ acc.1 ++ [(a, (acc.2.cloneFMArpeggio a).1)]
    exact List.mem_append_left _ h

/-- Every pair produced by the arp payload-clone fold maps its source
to a slot that is free in the fold's starting pool (or to the out-of-range
failure index). -/
theorem arpCloneFold_pairs :
    ∀ (l : List Nat) (acc : List (Nat × Nat) × BT.InstrumentsManager),
    ∀ pr ∈ (l.foldl (fun (acc : List (Nat × Nat) × BT.InstrumentsManager) a =>
      let r := acc.2.cloneFMArpeggio a
      (acc.1 ++ [(a, r.1)], r.2)) acc).1,
      pr ∈ acc.1 ∨ (pr.2 < 128 → ((acc.2.arpFM) pr.2).users = ∅) := by
  intro l
  induction l with
  | nil => intro acc pr h; exact Or.inl h
  | cons a l ih =>
    intro acc pr h
    rw [List.foldl_cons] at h
    rcases ih _ pr h with h2 | h2
    · have h3 : pr ∈ acc.1 ++ [(a, (acc.2.cloneFMArpeggio a).1)] := h2
      rcases List.mem_append.mp h3 with h4 | h4
      · exact Or.inl h4
      · right
        intro h5
        have he : pr = (a, (acc.2.cloneFMArpeggio a).1) := List.mem_singleton.mp h4
        rcases cloneProp_pick_free (acc.2.arpFM) a with hge | ⟨hlt, hemp⟩
        · rw [he] at h5
          exact absurd h5 (not_lt.mpr hge)
        · rw [he]
          exact hemp
    · right
      intro h5
      rw [← users_cloneProp (acc.2.arpFM) a pr.2]
      exact h2 h5

theorem arpCloneFold_keys :
    ∀ (l : List Nat) (acc : List (Nat × Nat) × BT.InstrumentsManager),
    ∀ a ∈ l, ∃ pr ∈ (l.foldl (fun (acc : List (Nat × Nat) × BT.InstrumentsManager) a =>
      let r := acc.2.cloneFMArpeggio a
      (acc.1 ++ [(a, r.1)], r.2)) acc).1, pr.1 = a := by
  intro l
  induction l with
  | nil => intro acc a h; exact absurd h (List.not_mem_nil a)
  | cons b l ih =>
    intro acc a h
    rw [List.foldl_cons]
    rcases List.mem_cons.mp h with he | h2
    · refine ⟨(b, (acc.2.cloneFMArpeggio b).1), ?_, he.symm⟩
      refine arpCloneFold_mono l _ _ ?_
      show (b, (acc.2.cloneFMArpeggio b).1) ∈ acc.1 ++ [(b, (acc.2.cloneFMArpeggio b).1)]
      exact List.mem_append_right _ (List.mem_singleton.mpr rfl)
    · exact ih _ a h2

theorem ptCloneFold_mono :
    ∀ (l : List Nat) (acc : List (Nat × Nat) × BT.InstrumentsManager),
    ∀ pr ∈ acc.1, pr ∈ (l.foldl (fun (acc : List (Nat × Nat) × BT.InstrumentsManager) a =>
      let r := acc.2.cloneFMPitch a
      (acc.1 ++ [(a, r.1)], r.2)) acc).1 := by
  intro l
  induction l with
  | nil => intro acc pr h; exact h
  | cons a l ih =>
    intro acc pr h
    rw [List.foldl_cons]
    refine ih _ pr ?_
    show pr ∈ acc.1 ++ [(a, (acc.2.cloneFMPitch a).1)]
    exact List.mem_append_left _ h

/-- Every pair produced by the pt payload-clone fold maps its source
to a slot that is free in the fold's starting pool (or to the out-of-range
failure index). -/
theorem ptCloneFold_pairs :
    ∀ (l : List Nat) (acc : List (Nat × Nat) × BT.InstrumentsManager),
    ∀ pr ∈ (l.foldl (fun (acc : List (Nat × Nat) × BT.InstrumentsManager) a =>
      let r := acc.2.cloneFMPitch a
      (acc.1 ++ [(a, r.1)], r.2)) acc).1,
      pr ∈ acc.1 ∨ (pr.2 < 128 → ((acc.2.ptFM) pr.2).users = ∅) := by
  intro l
  induction l with
  | nil => intro acc pr h; exact Or.inl h
  | cons a l ih =>
    intro acc pr h
    rw [List.foldl_cons] at h
    rcases ih _ pr h with h2 | h2
    · have h3 : pr ∈ acc.1 ++ [(a, (acc.2.cloneFMPitch a).1)] := h2
      rcases List.mem_append.mp h3 with h4 | h4
      · exact Or.inl h4
      · right
        intro h5
        have he : pr = (a, (acc.2.cloneFMPitch a).1) := List.mem_singleton.mp h4
        rcases cloneProp_pick_free (acc.2.ptFM) a with hge | ⟨hlt, hemp⟩
        · rw [he] at h5
          exact absurd h5 (not_lt.mpr hge)
        · rw [he]
          exact hemp
    · right
      intro h5
      rw [← users_cloneProp (acc.2.ptFM) a pr.2]
      exact h2 h5

theorem ptCloneFold_keys :
    ∀ (l : List Nat) (acc : List (Nat × Nat) × BT.InstrumentsManager),
    ∀ a ∈ l, ∃ pr ∈ (l.foldl (fun (acc : List (Nat × Nat) × BT.InstrumentsManager) a =>
      let r := acc.2.cloneFMPitch a
      (acc.1 ++ [(a, r.1)], r.2)) acc).1, pr.1 = a := by
  intro l
  induction l with
  | nil => intro acc a h; exact absurd h (List.not_mem_nil a)
  | cons b l ih =>
    intro acc a h
    rw [List.foldl_cons]
    rcases List.mem_cons.mp h with he | h2
    · refine ⟨(b, (acc.2.cloneFMPitch b).1), ?_, he.symm⟩
      refine ptCloneFold_mono l _ _ ?_
      show (b, (acc.2.cloneFMPitch b).1) ∈ acc.1 ++ [(b, (acc.2.cloneFMPitch b).1)]
      exact List.mem_append_right _ (List.mem_singleton.mpr rfl)
    · exact ih _ a h2

/-- A property of all pair values transfers to the lookup result of a
covered key. -/
theorem lookup_prop {P : Nat → Prop} (pairs : List (Nat × Nat)) (a : Nat)
    (hcov : ∃ pr ∈ pairs, pr.1 = a) (hall : ∀ pr ∈ pairs, P pr.2) :
    P (((pairs.find? (fun pr => pr.1 == a)).map Prod.snd).getD 0) := by
  cases hf : pairs.find? (fun pr => pr.1 == a) with
  | none =>
    obtain ⟨pr, hmem, he⟩ := hcov
    have h2 := List.find?_eq_none.mp hf pr hmem
    rw [he] at h2
    exact absurd (beq_self_eq_true a) h2
  | some pr0 =>
    exact hall pr0 (List.mem_of_find?_eq_some hf)

theorem resetFoldp_envFM (refFm : BT.InstrumentFM) (c : Nat) :
    ∀ (l : List BT.FMOperatorType) (acc : BT.InstrumentsManager),
    (l.foldl (fun (acc : BT.InstrumentsManager) t =>
      acc.setInstrumentFMEnvelopeResetEnabled c t (refFm.envResetEnabled t)) acc).envFM = acc.envFM := by
  intro l
  induction l with
  | nil => intro acc; rfl
  | cons t l ih =>
    intro acc
    rw [List.foldl_cons, ih _]
    exact updateFM_envFM acc c (fun fm => { fm with envResetEnabled := Function.update fm.envResetEnabled t (refFm.envResetEnabled t) })

theorem resetFoldp_lfoFM (refFm : BT.InstrumentFM) (c : Nat) :
    ∀ (l : List BT.FMOperatorType) (acc : BT.InstrumentsManager),
    (l.foldl (fun (acc : BT.InstrumentsManager) t =>
      acc.setInstrumentFMEnvelopeResetEnabled c t (refFm.envResetEnabled t)) acc).lfoFM = acc.lfoFM := by
  intro l
  induction l with
  | nil => intro acc; rfl
  | cons t l ih =>
    intro acc
    rw [List.foldl_cons, ih _]
    exact updateFM_lfoFM acc c (fun fm => { fm with envResetEnabled := Function.update fm.envResetEnabled t (refFm.envResetEnabled t) })

theorem resetFoldp_opSeqFM (refFm : BT.InstrumentFM) (c : Nat) :
    ∀ (l : List BT.FMOperatorType) (acc : BT.InstrumentsManager),
    (l.foldl (fun (acc : BT.InstrumentsManager) t =>
      acc.setInstrumentFMEnvelopeResetEnabled c t (refFm.envResetEnabled t)) acc).opSeqFM = acc.opSeqFM := by
  intro l
  induction l with
  | nil => intro acc; rfl
  | cons t l ih =>
    intro acc
    rw [List.foldl_cons, ih _]
    exact updateFM_opSeqFM acc c (fun fm => { fm with envResetEnabled := Function.update fm.envResetEnabled t (refFm.envResetEnabled t) })

theorem resetFoldp_arpFM (refFm : BT.InstrumentFM) (c : Nat) :
    ∀ (l : List BT.FMOperatorType) (acc : BT.InstrumentsManager),
    (l.foldl (fun (acc : BT.InstrumentsManager) t =>
      acc.setInstrumentFMEnvelopeResetEnabled c t (refFm.envResetEnabled t)) acc).arpFM = acc.arpFM := by
  intro l
  induction l with
  | nil => intro acc; rfl
  | cons t l ih =>
    intro acc
    rw [List.foldl_cons, ih _]
    exact updateFM_arpFM acc c (fun fm => { fm with envResetEnabled := Function.update fm.envResetEnabled t (refFm.envResetEnabled t) })

theorem resetFoldp_ptFM (refFm : BT.InstrumentFM) (c : Nat) :
    ∀ (l : List BT.FMOperatorType) (acc : BT.InstrumentsManager),
    (l.foldl (fun (acc : BT.InstrumentsManager) t =>
      acc.setInstrumentFMEnvelopeResetEnabled c t (refFm.envResetEnabled t)) acc).ptFM = acc.ptFM := by
  intro l
  induction l with
  | nil => intro acc; rfl
  | cons t l ih =>
    intro acc
    rw [List.foldl_cons, ih _]
    exact updateFM_ptFM acc c (fun fm => { fm with envResetEnabled := Function.update fm.envResetEnabled t (refFm.envResetEnabled t) })

theorem resetFoldp_wfSSG (refFm : BT.InstrumentFM) (c : Nat) :
    ∀ (l : List BT.FMOperatorType) (acc : BT.InstrumentsManager),
    (l.foldl (fun (acc : BT.InstrumentsManager) t =>
      acc.setInstrumentFMEnvelopeResetEnabled c t (refFm.envResetEnabled t)) acc).wfSSG = acc.wfSSG := by
  intro l
  induction l with
  | nil => intro acc; rfl
  | cons t l ih =>
    intro acc
    rw [List.foldl_cons, ih _]
    exact updateFM_wfSSG acc c (fun fm => { fm with envResetEnabled := Function.update fm.envResetEnabled t (refFm.envResetEnabled t) })

theorem resetFoldp_tnSSG (refFm : BT.InstrumentFM) (c : Nat) :
    ∀ (l : List BT.FMOperatorType) (acc : BT.InstrumentsManager),
    (l.foldl (fun (acc : BT.InstrumentsManager) t =>
      acc.setInstrumentFMEnvelopeResetEnabled c t (refFm.envResetEnabled t)) acc).tnSSG = acc.tnSSG := by
  intro l
  induction l with
  | nil => intro acc; rfl
  | cons t l ih =>
    intro acc
    rw [List.foldl_cons, ih _]
    exact updateFM_tnSSG acc c (fun fm => { fm with envResetEnabled := Function.update fm.envResetEnabled t (refFm.envResetEnabled t) })

theorem resetFoldp_envSSG (refFm : BT.InstrumentFM) (c : Nat) :
    ∀ (l : List BT.FMOperatorType) (acc : BT.InstrumentsManager),
    (l.foldl (fun (acc : BT.InstrumentsManager) t =>
      acc.setInstrumentFMEnvelopeResetEnabled c t (refFm.envResetEnabled t)) acc).envSSG = acc.envSSG := by
  intro l
  induction l with
  | nil => intro acc; rfl
  | cons t l ih =>
    intro acc
    rw [List.foldl_cons, ih _]
    exact updateFM_envSSG acc c (fun fm => { fm with envResetEnabled := Function.update fm.envResetEnabled t (refFm.envResetEnabled t) })

theorem resetFoldp_arpSSG (refFm : BT.InstrumentFM) (c : Nat) :
    ∀ (l : List BT.FMOperatorType) (acc : BT.InstrumentsManager),
    (l.foldl (fun (acc : BT.InstrumentsManager) t =>
      acc.setInstrumentFMEnvelopeResetEnabled c t (refFm.envResetEnabled t)) acc).arpSSG = acc.arpSSG := by
  intro l
  induction l with
  | nil => intro acc; rfl
  | cons t l ih =>
    intro acc
    rw [List.foldl_cons, ih _]
    exact updateFM_arpSSG acc c (fun fm => { fm with envResetEnabled := Function.update fm.envResetEnabled t (refFm.envResetEnabled t) })

theorem resetFoldp_ptSSG (refFm : BT.InstrumentFM) (c : Nat) :
    ∀ (l : List BT.FMOperatorType) (acc : BT.InstrumentsManager),
    (l.foldl (fun (acc : BT.InstrumentsManager) t =>
      acc.setInstrumentFMEnvelopeResetEnabled c t (refFm.envResetEnabled t)) acc).ptSSG = acc.ptSSG := by
  intro l
  induction l with
  | nil => intro acc; rfl
  | cons t l ih =>
    intro acc
    rw [List.foldl_cons, ih _]
    exact updateFM_ptSSG acc c (fun fm => { fm with envResetEnabled := Function.update fm.envResetEnabled t (refFm.envResetEnabled t) })

theorem resetFoldp_wfADPCM (refFm : BT.InstrumentFM) (c : Nat) :
    ∀ (l : List BT.FMOperatorType) (acc : BT.InstrumentsManager),
    (l.foldl (fun (acc : BT.InstrumentsManager) t =>
      acc.setInstrumentFMEnvelopeResetEnabled c t (refFm.envResetEnabled t)) acc).wfADPCM = acc.wfADPCM := by
  intro l
  induction l with
  | nil => intro acc; rfl
  | cons t l ih =>
    intro acc
    rw [List.foldl_cons, ih _]
    exact updateFM_wfADPCM acc c (fun fm => { fm with envResetEnabled := Function.update fm.envResetEnabled t (refFm.envResetEnabled t) })

theorem resetFoldp_envADPCM (refFm : BT.InstrumentFM) (c : Nat) :
    ∀ (l : List BT.FMOperatorType) (acc : BT.InstrumentsManager),
    (l.foldl (fun (acc : BT.InstrumentsManager) t =>
      acc.setInstrumentFMEnvelopeResetEnabled c t (refFm.envResetEnabled t)) acc).envADPCM = acc.envADPCM := by
  intro l
  induction l with
  | nil => intro acc; rfl
  | cons t l ih =>
    intro acc
    rw [List.foldl_cons, ih _]
    exact updateFM_envADPCM acc c (fun fm => { fm with envResetEnabled := Function.update fm.envResetEnabled t (refFm.envResetEnabled t) })

theorem resetFoldp_arpADPCM (refFm : BT.InstrumentFM) (c : Nat) :
    ∀ (l : List BT.FMOperatorType) (acc : BT.InstrumentsManager),
    (l.foldl (fun (acc : BT.InstrumentsManager) t =>
      acc.setInstrumentFMEnvelopeResetEnabled c t (refFm.envResetEnabled t)) acc).arpADPCM = acc.arpADPCM := by
  intro l
  induction l with
  | nil => intro acc; rfl
  | cons t l ih =>
    intro acc
    rw [List.foldl_cons, ih _]
    exact updateFM_arpADPCM acc c (fun fm => { fm with envResetEnabled := Function.update fm.envResetEnabled t (refFm.envResetEnabled t) })

theorem resetFoldp_ptADPCM (refFm : BT.InstrumentFM) (c : Nat) :
    ∀ (l : List BT.FMOperatorType) (acc : BT.InstrumentsManager),
    (l.foldl (fun (acc : BT.InstrumentsManager) t =>
      acc.setInstrumentFMEnvelopeResetEnabled c t (refFm.envResetEnabled t)) acc).ptADPCM = acc.ptADPCM := by
  intro l
  induction l with
  | nil => intro acc; rfl
  | cons t l ih =>
    intro acc
    rw [List.foldl_cons, ih _]
    exact updateFM_ptADPCM acc c (fun fm => { fm with envResetEnabled := Function.update fm.envResetEnabled t (refFm.envResetEnabled t) })

